import Mathlib

set_option maxRecDepth 40000

/-!
# Shallow embedding of the shift-scheduler core (src/src/scripts/schedule-generator.js)

Participants are the integers `1..N`.  The JavaScript `'BYE'` sentinel is
modelled as the natural number `0`, which is distinct from every participant
identifier (participants are always `≥ 1`), so JavaScript strict equality
between schedule entries is faithfully mirrored by `Nat` equality.

A `Pair` is a 2-element array in the source, modelled as `Nat × Nat`;
a `Round` is an array of pairs; a `Schedule` an array of rounds.

The backtracking search `findValidPairs` recurses on a list obtained by
removing two positions from the input, which is not structurally smaller, so
the embedding `fvpF` carries an explicit fuel argument; `findValidPairs`
instantiates the fuel with the input length, and `fvpF_fuel_irrel` below
proves that any fuel of at least the input length yields the same result,
so the fuel is semantically inert and the embedding computes exactly what
the unbounded JavaScript recursion computes.
-/

/-- A round-robin schedule: an ordered list of rounds, each an ordered list
of pairs (JS: array of arrays of 2-element arrays). -/
abbrev Schedule := List (List (Nat × Nat))

/-- JS `schedule.some(round => round.some(pair => (pair[0] === emp1 && pair[1] === emp2) ||
(pair[0] === emp2 && pair[1] === emp1)))` — whether the unordered pair
`{emp1, emp2}` occurs in the schedule built so far. -/
def pairUsed (schedule : Schedule) (emp1 emp2 : Nat) : Bool :=
  schedule.any (fun round => round.any (fun pair =>
    (pair.1 == emp1 && pair.2 == emp2) || (pair.1 == emp2 && pair.2 == emp1)))

/-- JS `employees.filter((_, index) => index !== 0 && index !== i)`:
drop positions `0` and `i` from the list. -/
def removeIdx01 (employees : List Nat) (i : Nat) : List Nat :=
  (employees.enum.filter (fun p => !(p.1 == 0) && !(p.1 == i))).map (fun p => p.2)

/-- Fueled version of JS `findValidPairs(employees, schedule)`: pair the first
employee with the first (in index order `i = 1 ..`) partner whose pair is not
in `schedule` and whose removal leaves a recursively pairable rest; first
success is returned, otherwise `null` (here `none`).  The fuel only bounds the
recursion depth and is inert for fuel `≥ employees.length`
(`fvpF_fuel_irrel`). -/
def fvpF : Nat → List Nat → Schedule → Option (List (Nat × Nat))
  | fuel, employees, schedule =>
    if employees.length = 0 then some []
    else if employees.length = 1 then none
    else match fuel with
      | 0 => none
      | fuel + 1 =>
      (List.range' 1 (employees.length - 1)).findSome? (fun i =>
        let emp1 := employees.getD 0 0
        let emp2 := employees.getD i 0
        if pairUsed schedule emp1 emp2 then none
        else
          match fvpF fuel (removeIdx01 employees i) schedule with
          | some remainingPairs => some ((emp1, emp2) :: remainingPairs)
          | none => none)

/-- JS `findValidPairs(employees, schedule)`. -/
def findValidPairs (employees : List Nat) (schedule : Schedule) :
    Option (List (Nat × Nat)) :=
  fvpF employees.length employees schedule

/-- The fallback in `generateScheduleWithFairByeRotation` (JS lines 69–75):
pair adjacent remaining employees, ignoring the set of used pairs; a final
unpaired employee (odd length) is silently dropped. -/
def adjacentPairing : List Nat → List (Nat × Nat)
  | a :: b :: rest => (a, b) :: adjacentPairing rest
  | _ => []

/-- The BYE-selection step of `generateScheduleWithFairByeRotation`
(JS lines 42–56): scan `employees[(round + i) % employees.length]` for
`i = 0, 1, ...` and pick the first employee without a BYE so far; if all
employees have had a BYE, clear the tracking set and pick
`employees[round % employees.length]`.  Returns the chosen employee and the
(possibly cleared) BYE-tracking set *before* the chosen employee is added. -/
def chooseBye (employees : List Nat) (byeAssignments : List Nat) (round : Nat) :
    Nat × List Nat :=
  match (List.range employees.length).findSome? (fun i =>
      let candidate := employees.getD ((round + i) % employees.length) 0
      if byeAssignments.contains candidate then none else some candidate) with
  | some candidate => (candidate, byeAssignments)
  | none => (employees.getD (round % employees.length) 0, [])

/-- The round loop of `generateScheduleWithFairByeRotation` (JS lines 38–78).
`roundsLeft` counts the remaining iterations (`totalRounds - round`), `round`
is the current 0-based round index, `byeAssignments` the JS `Set` of employees
already BYE'd (as a membership list), `schedule` the rounds built so far. -/
def fairByeLoop (employees : List Nat) :
    Nat → Nat → List Nat → Schedule → Schedule
  | 0, _, _, schedule => schedule
  | roundsLeft + 1, round, byeAssignments, schedule =>
    let choice := chooseBye employees byeAssignments round
    let employeeWithBye := choice.1
    let remainingEmployees := employees.filter (fun emp => !(emp == employeeWithBye))
    let roundPairs :=
      match findValidPairs remainingEmployees schedule with
      | some pairs => pairs
      | none => adjacentPairing remainingEmployees
    fairByeLoop employees roundsLeft (round + 1)
      (employeeWithBye :: choice.2) (schedule ++ [roundPairs])

/-- JS `generateScheduleWithFairByeRotation(numEmployees)` (lines 25–81). -/
def generateScheduleWithFairByeRotation (numEmployees : Nat) :
    Except String Schedule :=
  if numEmployees < 3 then
    .error "Number of employees must be at least 3 for fair BYE rotation"
  else
    let employees := (List.range numEmployees).map (· + 1)
    .ok (fairByeLoop employees numEmployees 0 [] [])

/-- JS rotation step of the circle method (lines 146–149):
`[employees[0], employees[numEmployees-1], ...employees.slice(1, numEmployees-1)]`. -/
def rotateEmployees (employees : List Nat) (numEmployees : Nat) : List Nat :=
  employees.getD 0 0 :: employees.getD (numEmployees - 1) 0 ::
    (employees.drop 1).take (numEmployees - 2)

/-- The round loop of `generateScheduleCircleMethod` (JS lines 134–150):
pair opposite positions, drop pairs containing the BYE sentinel, rotate. -/
def circleLoop (numEmployees : Nat) : List Nat → Nat → Schedule
  | _, 0 => []
  | employees, roundsLeft + 1 =>
    let roundPairs := (List.range (numEmployees / 2)).map (fun i =>
      (employees.getD i 0, employees.getD (numEmployees - 1 - i) 0))
    let filteredPairs := roundPairs.filter (fun pair =>
      !(pair.1 == 0 || pair.2 == 0))
    filteredPairs ::
      circleLoop numEmployees (rotateEmployees employees numEmployees) roundsLeft

/-- JS `generateScheduleCircleMethod(numEmployees)` (lines 117–153); for odd
counts a BYE placeholder (modelled as `0`) is appended first. -/
def generateScheduleCircleMethod (numEmployees : Nat) : Except String Schedule :=
  if numEmployees < 2 then
    .error "Number of employees must be at least 2"
  else
    let employees := (List.range numEmployees).map (· + 1)
    if numEmployees % 2 ≠ 0 then
      let employees := employees ++ [0]
      let numEmployees := numEmployees + 1
      .ok (circleLoop numEmployees employees (numEmployees - 1))
    else
      .ok (circleLoop numEmployees employees (numEmployees - 1))

/-- JS `generateSchedule(numEmployees)` (lines 6–18): guard, then dispatch on
parity to the fair-BYE rotation (odd) or the circle method (even). -/
def generateSchedule (numEmployees : Nat) : Except String Schedule :=
  if numEmployees < 2 then
    .error "Number of employees must be at least 2"
  else if numEmployees % 2 ≠ 0 then
    generateScheduleWithFairByeRotation numEmployees
  else
    generateScheduleCircleMethod numEmployees

/-! ## Statistics (`getScheduleStats`, JS lines 185–219) -/

/-- JS `schedule.flat(2)`: all pair components of a schedule in order. -/
def flatEntries (schedule : Schedule) : List Nat :=
  schedule.flatMap (fun round => round.flatMap (fun pair => [pair.1, pair.2]))

/-- Insertion into a JS `Set` modelled on lists: append if not yet present
(JS `Set` keeps first-insertion order). -/
def setInsert (seen : List Nat) (x : Nat) : List Nat :=
  if x ∈ seen then seen else seen ++ [x]

/-- JS `[...new Set(schedule.flat(2).filter(x => typeof x === 'number'))]`:
the distinct non-BYE entries in first-occurrence order. -/
def allEmployeesOf (schedule : Schedule) : List Nat :=
  ((flatEntries schedule).filter (fun x => !(x == 0))).foldl setInsert []

/-- Canonical key of a pair (JS sorts the two members and joins them into the
string `"a-b"`; the string key is in bijection with the ordered pair). -/
def canonicalPair (pair : Nat × Nat) : Nat × Nat :=
  (min pair.1 pair.2, max pair.1 pair.2)

/-- Insertion into a JS `Set` of canonical pair keys. -/
def pairInsert (seen : List (Nat × Nat)) (p : Nat × Nat) : List (Nat × Nat) :=
  if p ∈ seen then seen else seen ++ [p]

/-- The JS `allPairs` set: canonical keys of all non-BYE pairs of the
schedule, deduplicated in first-occurrence order. -/
def allPairsOf (schedule : Schedule) : List (Nat × Nat) :=
  ((schedule.flatMap id).filter (fun pair => !(pair.1 == 0 || pair.2 == 0))).map
    canonicalPair |>.foldl pairInsert []

/-- Per-employee shift count: both members of every non-BYE pair are
incremented (JS `employeeShifts[pair[0]]++; employeeShifts[pair[1]]++`). -/
def employeeShifts (schedule : Schedule) (emp : Nat) : Nat :=
  ((schedule.flatMap id).filter (fun pair => !(pair.1 == 0 || pair.2 == 0))).foldl
    (fun acc pair =>
      acc + (if pair.1 == emp then 1 else 0) + (if pair.2 == emp then 1 else 0)) 0

/-- The record returned by JS `getScheduleStats`. -/
structure ScheduleStats where
  totalEmployees : Nat
  totalRounds : Nat
  shiftsPerRound : Nat
  totalUniquePairs : Nat
  expectedPairs : Nat
  isComplete : Bool
  deriving Repr, DecidableEq

/-- JS `getScheduleStats(schedule)` (lines 185–219).  The per-employee shift
map is exposed separately as `employeeShifts`. -/
def getScheduleStats (schedule : Schedule) : ScheduleStats :=
  let totalEmployees := (allEmployeesOf schedule).length
  let totalUniquePairs := (allPairsOf schedule).length
  { totalEmployees := totalEmployees
    totalRounds := schedule.length
    shiftsPerRound := (schedule.headD []).length
    totalUniquePairs := totalUniquePairs
    expectedPairs := totalEmployees * (totalEmployees - 1) / 2
    isComplete := totalUniquePairs == totalEmployees * (totalEmployees - 1) / 2 }

/-! ## Specification-level predicates over schedules -/

/-- The participants working in a round: all components of its pairs. -/
def roundElems (round : List (Nat × Nat)) : List Nat :=
  round.flatMap (fun pair => [pair.1, pair.2])

/-- `Bool` test for the unordered pair `{a, b}` being one of the round's
pairs (in either component order). -/
def roundHasPair (round : List (Nat × Nat)) (a b : Nat) : Bool :=
  round.any (fun pair =>
    (pair.1 == a && pair.2 == b) || (pair.1 == b && pair.2 == a))

/-- Number of occurrences of the unordered pair `{a, b}` among all pair slots
of the schedule. -/
def pairOcc (schedule : Schedule) (a b : Nat) : Nat :=
  (schedule.flatMap id).countP (fun pair =>
    (pair.1 == a && pair.2 == b) || (pair.1 == b && pair.2 == a))

/-- Invariant 1 (§3): every unordered pair of distinct participants in
`[1, n]` appears in exactly one pair slot across the whole schedule. -/
def CompletePairs (n : Nat) (schedule : Schedule) : Prop :=
  ∀ a b, 1 ≤ a → a < b → b ≤ n → pairOcc schedule a b = 1

/-- Invariant 2 (§3): no unordered pair appears in more than one round. -/
def NoDupAcrossRounds (schedule : Schedule) : Prop :=
  ∀ a b, (schedule.countP (fun round => roundHasPair round a b)) ≤ 1

/-- Invariant 3 (§3): within a round, every participant appears at most once. -/
def OncePerRound (schedule : Schedule) : Prop :=
  ∀ round ∈ schedule, (roundElems round).Nodup

/-- Invariant 4 (§3), for even `n`: `n - 1` rounds, each of exactly `n / 2`
pairs, with every participant present in every round. -/
def EvenInvariant (n : Nat) (schedule : Schedule) : Prop :=
  schedule.length = n - 1 ∧
    ∀ round ∈ schedule, round.length = n / 2 ∧
      ∀ e, 1 ≤ e → e ≤ n → e ∈ roundElems round

/-- Invariant 5 (§3), for odd `n`: `n` rounds of exactly `(n - 1) / 2` pairs,
and each participant is absent (BYE'd) from exactly one round. -/
def OddInvariant (n : Nat) (schedule : Schedule) : Prop :=
  schedule.length = n ∧
    (∀ round ∈ schedule, round.length = (n - 1) / 2) ∧
    ∀ e, 1 ≤ e → e ≤ n →
      (schedule.countP (fun round => !(roundElems round).contains e)) = 1

/-- A valid pairing of `employees` against the pair registry `schedule`: the
pair components are exactly the input employees (as a multiset) and no pair
was already used. -/
def ValidPairing (employees : List Nat) (schedule : Schedule)
    (pairs : List (Nat × Nat)) : Prop :=
  (pairs.flatMap (fun pair => [pair.1, pair.2])).Perm employees ∧
    ∀ pair ∈ pairs, pairUsed schedule pair.1 pair.2 = false

/-- The candidate loop of `findValidPairs` starting at index `i` with `count`
candidate indices left: `tryRange fuel es s i count` runs the body of the JS
`for` loop over `i, i+1, ..., i+count-1`.  `fvpF (fuel+1) es s` equals
`tryRange fuel es s 1 (es.length - 1)` (`fvpF_succ`). -/
def tryRange (fuel : Nat) (employees : List Nat) (schedule : Schedule)
    (i count : Nat) : Option (List (Nat × Nat)) :=
  (List.range' i count).findSome? (fun j =>
    let emp1 := employees.getD 0 0
    let emp2 := employees.getD j 0
    if pairUsed schedule emp1 emp2 then none
    else
      match fvpF fuel (removeIdx01 employees j) schedule with
      | some remainingPairs => some ((emp1, emp2) :: remainingPairs)
      | none => none)

/-- Bitmask lookup for the unordered pair `{a, b}` with both entries `< 32`:
bit `a * 32 + b` or bit `b * 32 + a`.  Used to evaluate `pairUsed` quickly on
concrete schedules via `pairUsed_eq_maskUsed`. -/
def maskUsed (mask a b : Nat) : Bool :=
  mask.testBit (a * 32 + b) || mask.testBit (b * 32 + a)

/-- Bitmask of the ordered pairs of one round (bit `p.1 * 32 + p.2` set). -/
def maskOfRound (round : List (Nat × Nat)) : Nat :=
  round.foldl (fun m p => m ||| (1 <<< (p.1 * 32 + p.2))) 0

/-- Bitmask of all ordered pairs of a schedule. -/
def maskOfSched (schedule : Schedule) : Nat :=
  schedule.foldl (fun m round => m ||| maskOfRound round) 0

/-- `mask` is a faithful bitmask picture of the pair registry `schedule`. -/
def BridgeHyp (schedule : Schedule) (mask : Nat) : Prop :=
  ∀ a b, a < 32 → b < 32 → pairUsed schedule a b = maskUsed mask a b

/-- No participant works (appears in some pair) in two rounds that are
adjacent in round order (the property checked by the test file's
`checkConsecutiveWork`). -/
def NoConsecutiveWork (schedule : Schedule) : Prop :=
  ∀ i, i + 1 < schedule.length → ∀ e,
    e ∈ roundElems (schedule.getD i []) → e ∉ roundElems (schedule.getD (i + 1) [])

/-- Modelled from the spec (§4.3 bye-selection rule): scan candidates in the
cyclic order `participant[(r+i) mod N]` for `i = 0..N-1` and choose the first
candidate not yet recorded as having had a BYE — i.e. the candidate at the
*least* such offset `i`; if every participant has already had a BYE, clear the
BYE-tracking set and fall back to `participant[r mod N]`. -/
def chooseByeSpec (employees : List Nat) (byeAssignments : List Nat) (round : Nat) :
    Nat × List Nat :=
  if h : ∃ i, i < employees.length ∧
      ¬ (byeAssignments.contains
          (employees.getD ((round + i) % employees.length) 0) = true) then
    (employees.getD ((round + Nat.find h) % employees.length) 0, byeAssignments)
  else
    (employees.getD (round % employees.length) 0, [])

/-- One round of the circle method: pair opposite positions of the current
seating, then drop BYE pairs (the body of the loop in JS lines 134–144). -/
def mkCircleRound (numEmployees : Nat) (employees : List Nat) : List (Nat × Nat) :=
  ((List.range (numEmployees / 2)).map (fun i =>
    (employees.getD i 0, employees.getD (numEmployees - 1 - i) 0))).filter
    (fun pair => !(pair.1 == 0 || pair.2 == 0))

/-- Closed form of the circle-method seating after `r` rotations: participant
`1` stays at position `0`, the rest rotate. -/
def circleList (n r : Nat) : List Nat :=
  1 :: (((List.range (n - 1)).map (fun k => k + 2)).rotate ((n - 2) * r))

/-- Closed form of the entry at position `j` of `circleList n r`. -/
def circleW (n r j : Nat) : Nat :=
  if j = 0 then 1 else (((j - 1) + (n - 2) * r) % (n - 1)) + 2

/-- The position sequence visited by one circle round:
`[0, n-1, 1, n-2, ...]`. -/
def posList (n : Nat) : List Nat :=
  (List.range (n / 2)).flatMap (fun i => [i, n - 1 - i])

-- GENERATED-DATA-DEFS-ANCHOR (concrete schedules and masks are inserted here)

/-- The value of `generateSchedule 3` (odd, fair-BYE rotation). -/
def s3 : Schedule :=
  [[(2, 3)],
  [(1, 3)],
  [(1, 2)]]

/-- The value of `generateSchedule 5` (odd, fair-BYE rotation). -/
def s5 : Schedule :=
  [[(2, 3), (4, 5)],
  [(1, 4), (3, 5)],
  [(1, 5), (2, 4)],
  [(1, 3), (2, 5)],
  [(1, 2), (3, 4)]]

/-- The value of `generateSchedule 7` (odd, fair-BYE rotation). -/
def s7 : Schedule :=
  [[(2, 3), (4, 5), (6, 7)],
  [(1, 3), (4, 6), (5, 7)],
  [(1, 2), (4, 7), (5, 6)],
  [(1, 5), (2, 6), (3, 7)],
  [(1, 4), (2, 7), (3, 6)],
  [(1, 7), (2, 4), (3, 5)],
  [(1, 6), (2, 5), (3, 4)]]

/-- The value of `generateSchedule 9` (odd, fair-BYE rotation). -/
def s9 : Schedule :=
  [[(2, 3), (4, 5), (6, 7), (8, 9)],
  [(1, 3), (4, 6), (5, 8), (7, 9)],
  [(1, 2), (4, 7), (5, 9), (6, 8)],
  [(1, 5), (2, 6), (3, 9), (7, 8)],
  [(1, 4), (2, 7), (3, 8), (6, 9)],
  [(1, 7), (2, 8), (3, 5), (4, 9)],
  [(1, 8), (2, 9), (3, 4), (5, 6)],
  [(1, 9), (2, 4), (3, 6), (5, 7)],
  [(1, 6), (2, 5), (3, 7), (4, 8)]]

/-- The value of `generateSchedule 11` (odd, fair-BYE rotation). -/
def s11 : Schedule :=
  [[(2, 3), (4, 5), (6, 7), (8, 9), (10, 11)],
  [(1, 3), (4, 6), (5, 7), (8, 10), (9, 11)],
  [(1, 2), (4, 7), (5, 6), (8, 11), (9, 10)],
  [(1, 5), (2, 8), (3, 9), (6, 10), (7, 11)],
  [(1, 4), (2, 9), (3, 8), (6, 11), (7, 10)],
  [(1, 7), (2, 10), (3, 11), (4, 8), (5, 9)],
  [(1, 6), (2, 11), (3, 10), (4, 9), (5, 8)],
  [(1, 9), (2, 6), (3, 7), (4, 10), (5, 11)],
  [(1, 8), (2, 7), (3, 6), (4, 11), (5, 10)],
  [(1, 11), (2, 4), (3, 5), (6, 8), (7, 9)],
  [(1, 10), (2, 5), (3, 4), (6, 9), (7, 8)]]

/-- Participants `1..25`. -/
def emps25 : List Nat := [1, 2, 3, 4, 5, 6, 7, 8, 9, 10, 11, 12, 13, 14, 15, 16, 17, 18, 19, 20, 21, 22, 23, 24, 25]

/-- The schedule computed by `generateSchedule 25` (established by `gen25_eq`). -/
def s25 : Schedule := [[(2, 3), (4, 5), (6, 7), (8, 9), (10, 11), (12, 13), (14, 15), (16, 17), (18, 19), (20, 21), (22, 23), (24, 25)], [(1, 3), (4, 6), (5, 7), (8, 10), (9, 11), (12, 14), (13, 15), (16, 18), (17, 19), (20, 22), (21, 24), (23, 25)], [(1, 2), (4, 7), (5, 6), (8, 11), (9, 10), (12, 15), (13, 14), (16, 19), (17, 18), (20, 23), (21, 25), (22, 24)], [(1, 5), (2, 6), (3, 7), (8, 12), (9, 13), (10, 14), (11, 15), (16, 20), (17, 21), (18, 22), (19, 25), (23, 24)], [(1, 4), (2, 7), (3, 6), (8, 13), (9, 12), (10, 15), (11, 14), (16, 21), (17, 20), (18, 23), (19, 24), (22, 25)], [(1, 7), (2, 4), (3, 5), (8, 14), (9, 15), (10, 12), (11, 13), (16, 22), (17, 23), (18, 24), (19, 21), (20, 25)], [(1, 6), (2, 5), (3, 4), (8, 15), (9, 14), (10, 13), (11, 12), (16, 23), (17, 24), (18, 25), (19, 20), (21, 22)], [(1, 9), (2, 10), (3, 11), (4, 12), (5, 13), (6, 14), (7, 15), (16, 24), (17, 25), (18, 20), (19, 22), (21, 23)], [(1, 8), (2, 11), (3, 10), (4, 13), (5, 12), (6, 15), (7, 14), (16, 25), (17, 22), (18, 21), (19, 23), (20, 24)], [(1, 11), (2, 8), (3, 16), (4, 17), (5, 18), (6, 19), (7, 20), (9, 21), (12, 22), (13, 23), (14, 24), (15, 25)], [(1, 10), (2, 9), (3, 17), (4, 16), (5, 19), (6, 18), (7, 21), (8, 20), (12, 23), (13, 22), (14, 25), (15, 24)], [(1, 13), (2, 14), (3, 18), (4, 19), (5, 16), (6, 17), (7, 22), (8, 21), (9, 20), (10, 24), (11, 25), (15, 23)], [(1, 12), (2, 15), (3, 19), (4, 18), (5, 17), (6, 16), (7, 23), (8, 22), (9, 24), (10, 25), (11, 20), (14, 21)], [(1, 15), (2, 12), (3, 20), (4, 21), (5, 22), (6, 23), (7, 16), (8, 17), (9, 18), (10, 19), (11, 24), (13, 25)], [(1, 14), (2, 13), (3, 21), (4, 20), (5, 23), (6, 22), (7, 17), (8, 16), (9, 25), (10, 18), (11, 19), (12, 24)], [(1, 17), (2, 18), (3, 8), (4, 9), (5, 10), (6, 20), (7, 19), (11, 21), (12, 25), (13, 24), (14, 23), (15, 22)], [(1, 16), (2, 19), (3, 9), (4, 8), (5, 11), (6, 24), (7, 25), (10, 23), (12, 18), (13, 20), (14, 22), (15, 21)], [(1, 19), (2, 16), (3, 12), (4, 10), (5, 8), (6, 25), (7, 24), (9, 22), (11, 23), (13, 21), (14, 17), (15, 20)], [(1, 18), (2, 17), (3, 13), (4, 11), (5, 24), (6, 21), (7, 12), (8, 25), (9, 23), (10, 22), (14, 20), (15, 16)], [(1, 21), (2, 22), (3, 14), (4, 23), (5, 25), (6, 9), (7, 10), (8, 24), (11, 16), (12, 17), (13, 18), (15, 19)], [(1, 20), (2, 23), (3, 24), (4, 25), (5, 9), (6, 8), (7, 13), (10, 16), (11, 22), (12, 19), (14, 18), (15, 17)], [(1, 23), (2, 20), (3, 25), (4, 24), (5, 14), (6, 10), (7, 8), (9, 16), (11, 17), (12, 21), (13, 19), (15, 18)], [(1, 24), (2, 25), (3, 15), (4, 22), (5, 20), (6, 11), (7, 9), (8, 18), (10, 21), (12, 16), (13, 17), (14, 19)], [(1, 2), (3, 4), (5, 6), (7, 8), (9, 10), (11, 12), (13, 14), (15, 16), (17, 18), (19, 20), (21, 22), (23, 25)], [(1, 2), (3, 4), (5, 6), (7, 8), (9, 10), (11, 12), (13, 14), (15, 16), (17, 18), (19, 20), (21, 22), (23, 24)]]

/-- First 300 flat entries of `s25` (all are non-BYE). -/
def e25a : List Nat :=
  [2, 3, 4, 5, 6, 7, 8, 9, 10, 11, 12, 13, 14, 15, 16, 17, 18, 19, 20, 21, 22, 23, 24, 25, 1, 3, 4, 6, 5, 7, 8, 10, 9, 11, 12, 14, 13, 15, 16, 18, 17, 19, 20, 22, 21, 24, 23, 25, 1, 2, 4, 7, 5, 6, 8, 11, 9, 10, 12, 15, 13, 14, 16, 19, 17, 18, 20, 23, 21, 25, 22, 24, 1, 5, 2, 6, 3, 7, 8, 12, 9, 13, 10, 14, 11, 15, 16, 20, 17, 21, 18, 22, 19, 25, 23, 24, 1, 4, 2, 7, 3, 6, 8, 13, 9, 12, 10, 15, 11, 14, 16, 21, 17, 20, 18, 23, 19, 24, 22, 25, 1, 7, 2, 4, 3, 5, 8, 14, 9, 15, 10, 12, 11, 13, 16, 22, 17, 23, 18, 24, 19, 21, 20, 25, 1, 6, 2, 5, 3, 4, 8, 15, 9, 14, 10, 13, 11, 12, 16, 23, 17, 24, 18, 25, 19, 20, 21, 22, 1, 9, 2, 10, 3, 11, 4, 12, 5, 13, 6, 14, 7, 15, 16, 24, 17, 25, 18, 20, 19, 22, 21, 23, 1, 8, 2, 11, 3, 10, 4, 13, 5, 12, 6, 15, 7, 14, 16, 25, 17, 22, 18, 21, 19, 23, 20, 24, 1, 11, 2, 8, 3, 16, 4, 17, 5, 18, 6, 19, 7, 20, 9, 21, 12, 22, 13, 23, 14, 24, 15, 25, 1, 10, 2, 9, 3, 17, 4, 16, 5, 19, 6, 18, 7, 21, 8, 20, 12, 23, 13, 22, 14, 25, 15, 24, 1, 13, 2, 14, 3, 18, 4, 19, 5, 16, 6, 17, 7, 22, 8, 21, 9, 20, 10, 24, 11, 25, 15, 23, 1, 12, 2, 15, 3, 19, 4, 18, 5, 17, 6, 16]

/-- Last 300 flat entries of `s25`. -/
def e25b : List Nat :=
  [7, 23, 8, 22, 9, 24, 10, 25, 11, 20, 14, 21, 1, 15, 2, 12, 3, 20, 4, 21, 5, 22, 6, 23, 7, 16, 8, 17, 9, 18, 10, 19, 11, 24, 13, 25, 1, 14, 2, 13, 3, 21, 4, 20, 5, 23, 6, 22, 7, 17, 8, 16, 9, 25, 10, 18, 11, 19, 12, 24, 1, 17, 2, 18, 3, 8, 4, 9, 5, 10, 6, 20, 7, 19, 11, 21, 12, 25, 13, 24, 14, 23, 15, 22, 1, 16, 2, 19, 3, 9, 4, 8, 5, 11, 6, 24, 7, 25, 10, 23, 12, 18, 13, 20, 14, 22, 15, 21, 1, 19, 2, 16, 3, 12, 4, 10, 5, 8, 6, 25, 7, 24, 9, 22, 11, 23, 13, 21, 14, 17, 15, 20, 1, 18, 2, 17, 3, 13, 4, 11, 5, 24, 6, 21, 7, 12, 8, 25, 9, 23, 10, 22, 14, 20, 15, 16, 1, 21, 2, 22, 3, 14, 4, 23, 5, 25, 6, 9, 7, 10, 8, 24, 11, 16, 12, 17, 13, 18, 15, 19, 1, 20, 2, 23, 3, 24, 4, 25, 5, 9, 6, 8, 7, 13, 10, 16, 11, 22, 12, 19, 14, 18, 15, 17, 1, 23, 2, 20, 3, 25, 4, 24, 5, 14, 6, 10, 7, 8, 9, 16, 11, 17, 12, 21, 13, 19, 15, 18, 1, 24, 2, 25, 3, 15, 4, 22, 5, 20, 6, 11, 7, 9, 8, 18, 10, 21, 12, 16, 13, 17, 14, 19, 1, 2, 3, 4, 5, 6, 7, 8, 9, 10, 11, 12, 13, 14, 15, 16, 17, 18, 19, 20, 21, 22, 23, 25, 1, 2, 3, 4, 5, 6, 7, 8, 9, 10, 11, 12, 13, 14, 15, 16, 17, 18, 19, 20, 21, 22, 23, 24]

/-- Distinct employees of `s25` after folding `e25a`. -/
def a25a : List Nat :=
  [2, 3, 4, 5, 6, 7, 8, 9, 10, 11, 12, 13, 14, 15, 16, 17, 18, 19, 20, 21, 22, 23, 24, 25, 1]

/-- Distinct employees of `s25` (first-occurrence order). -/
def a25 : List Nat :=
  [2, 3, 4, 5, 6, 7, 8, 9, 10, 11, 12, 13, 14, 15, 16, 17, 18, 19, 20, 21, 22, 23, 24, 25, 1]

/-- First 150 canonical pair keys of `s25`. -/
def p25a : List (Nat × Nat) :=
  [(2, 3), (4, 5), (6, 7), (8, 9), (10, 11), (12, 13), (14, 15), (16, 17), (18, 19), (20, 21), (22, 23), (24, 25), (1, 3), (4, 6), (5, 7), (8, 10), (9, 11), (12, 14), (13, 15), (16, 18), (17, 19), (20, 22), (21, 24), (23, 25), (1, 2), (4, 7), (5, 6), (8, 11), (9, 10), (12, 15), (13, 14), (16, 19), (17, 18), (20, 23), (21, 25), (22, 24), (1, 5), (2, 6), (3, 7), (8, 12), (9, 13), (10, 14), (11, 15), (16, 20), (17, 21), (18, 22), (19, 25), (23, 24), (1, 4), (2, 7), (3, 6), (8, 13), (9, 12), (10, 15), (11, 14), (16, 21), (17, 20), (18, 23), (19, 24), (22, 25), (1, 7), (2, 4), (3, 5), (8, 14), (9, 15), (10, 12), (11, 13), (16, 22), (17, 23), (18, 24), (19, 21), (20, 25), (1, 6), (2, 5), (3, 4), (8, 15), (9, 14), (10, 13), (11, 12), (16, 23), (17, 24), (18, 25), (19, 20), (21, 22), (1, 9), (2, 10), (3, 11), (4, 12), (5, 13), (6, 14), (7, 15), (16, 24), (17, 25), (18, 20), (19, 22), (21, 23), (1, 8), (2, 11), (3, 10), (4, 13), (5, 12), (6, 15), (7, 14), (16, 25), (17, 22), (18, 21), (19, 23), (20, 24), (1, 11), (2, 8), (3, 16), (4, 17), (5, 18), (6, 19), (7, 20), (9, 21), (12, 22), (13, 23), (14, 24), (15, 25), (1, 10), (2, 9), (3, 17), (4, 16), (5, 19), (6, 18), (7, 21), (8, 20), (12, 23), (13, 22), (14, 25), (15, 24), (1, 13), (2, 14), (3, 18), (4, 19), (5, 16), (6, 17), (7, 22), (8, 21), (9, 20), (10, 24), (11, 25), (15, 23), (1, 12), (2, 15), (3, 19), (4, 18), (5, 17), (6, 16)]

/-- Last 150 canonical pair keys of `s25`. -/
def p25b : List (Nat × Nat) :=
  [(7, 23), (8, 22), (9, 24), (10, 25), (11, 20), (14, 21), (1, 15), (2, 12), (3, 20), (4, 21), (5, 22), (6, 23), (7, 16), (8, 17), (9, 18), (10, 19), (11, 24), (13, 25), (1, 14), (2, 13), (3, 21), (4, 20), (5, 23), (6, 22), (7, 17), (8, 16), (9, 25), (10, 18), (11, 19), (12, 24), (1, 17), (2, 18), (3, 8), (4, 9), (5, 10), (6, 20), (7, 19), (11, 21), (12, 25), (13, 24), (14, 23), (15, 22), (1, 16), (2, 19), (3, 9), (4, 8), (5, 11), (6, 24), (7, 25), (10, 23), (12, 18), (13, 20), (14, 22), (15, 21), (1, 19), (2, 16), (3, 12), (4, 10), (5, 8), (6, 25), (7, 24), (9, 22), (11, 23), (13, 21), (14, 17), (15, 20), (1, 18), (2, 17), (3, 13), (4, 11), (5, 24), (6, 21), (7, 12), (8, 25), (9, 23), (10, 22), (14, 20), (15, 16), (1, 21), (2, 22), (3, 14), (4, 23), (5, 25), (6, 9), (7, 10), (8, 24), (11, 16), (12, 17), (13, 18), (15, 19), (1, 20), (2, 23), (3, 24), (4, 25), (5, 9), (6, 8), (7, 13), (10, 16), (11, 22), (12, 19), (14, 18), (15, 17), (1, 23), (2, 20), (3, 25), (4, 24), (5, 14), (6, 10), (7, 8), (9, 16), (11, 17), (12, 21), (13, 19), (15, 18), (1, 24), (2, 25), (3, 15), (4, 22), (5, 20), (6, 11), (7, 9), (8, 18), (10, 21), (12, 16), (13, 17), (14, 19), (1, 2), (3, 4), (5, 6), (7, 8), (9, 10), (11, 12), (13, 14), (15, 16), (17, 18), (19, 20), (21, 22), (23, 25), (1, 2), (3, 4), (5, 6), (7, 8), (9, 10), (11, 12), (13, 14), (15, 16), (17, 18), (19, 20), (21, 22), (23, 24)]

/-- Distinct canonical pairs of `s25` after folding `p25a`. -/
def q25a : List (Nat × Nat) :=
  [(2, 3), (4, 5), (6, 7), (8, 9), (10, 11), (12, 13), (14, 15), (16, 17), (18, 19), (20, 21), (22, 23), (24, 25), (1, 3), (4, 6), (5, 7), (8, 10), (9, 11), (12, 14), (13, 15), (16, 18), (17, 19), (20, 22), (21, 24), (23, 25), (1, 2), (4, 7), (5, 6), (8, 11), (9, 10), (12, 15), (13, 14), (16, 19), (17, 18), (20, 23), (21, 25), (22, 24), (1, 5), (2, 6), (3, 7), (8, 12), (9, 13), (10, 14), (11, 15), (16, 20), (17, 21), (18, 22), (19, 25), (23, 24), (1, 4), (2, 7), (3, 6), (8, 13), (9, 12), (10, 15), (11, 14), (16, 21), (17, 20), (18, 23), (19, 24), (22, 25), (1, 7), (2, 4), (3, 5), (8, 14), (9, 15), (10, 12), (11, 13), (16, 22), (17, 23), (18, 24), (19, 21), (20, 25), (1, 6), (2, 5), (3, 4), (8, 15), (9, 14), (10, 13), (11, 12), (16, 23), (17, 24), (18, 25), (19, 20), (21, 22), (1, 9), (2, 10), (3, 11), (4, 12), (5, 13), (6, 14), (7, 15), (16, 24), (17, 25), (18, 20), (19, 22), (21, 23), (1, 8), (2, 11), (3, 10), (4, 13), (5, 12), (6, 15), (7, 14), (16, 25), (17, 22), (18, 21), (19, 23), (20, 24), (1, 11), (2, 8), (3, 16), (4, 17), (5, 18), (6, 19), (7, 20), (9, 21), (12, 22), (13, 23), (14, 24), (15, 25), (1, 10), (2, 9), (3, 17), (4, 16), (5, 19), (6, 18), (7, 21), (8, 20), (12, 23), (13, 22), (14, 25), (15, 24), (1, 13), (2, 14), (3, 18), (4, 19), (5, 16), (6, 17), (7, 22), (8, 21), (9, 20), (10, 24), (11, 25), (15, 23), (1, 12), (2, 15), (3, 19), (4, 18), (5, 17), (6, 16)]

/-- Distinct canonical pairs of `s25` (276 of the expected 300). -/
def q25 : List (Nat × Nat) :=
  [(2, 3), (4, 5), (6, 7), (8, 9), (10, 11), (12, 13), (14, 15), (16, 17), (18, 19), (20, 21), (22, 23), (24, 25), (1, 3), (4, 6), (5, 7), (8, 10), (9, 11), (12, 14), (13, 15), (16, 18), (17, 19), (20, 22), (21, 24), (23, 25), (1, 2), (4, 7), (5, 6), (8, 11), (9, 10), (12, 15), (13, 14), (16, 19), (17, 18), (20, 23), (21, 25), (22, 24), (1, 5), (2, 6), (3, 7), (8, 12), (9, 13), (10, 14), (11, 15), (16, 20), (17, 21), (18, 22), (19, 25), (23, 24), (1, 4), (2, 7), (3, 6), (8, 13), (9, 12), (10, 15), (11, 14), (16, 21), (17, 20), (18, 23), (19, 24), (22, 25), (1, 7), (2, 4), (3, 5), (8, 14), (9, 15), (10, 12), (11, 13), (16, 22), (17, 23), (18, 24), (19, 21), (20, 25), (1, 6), (2, 5), (3, 4), (8, 15), (9, 14), (10, 13), (11, 12), (16, 23), (17, 24), (18, 25), (19, 20), (21, 22), (1, 9), (2, 10), (3, 11), (4, 12), (5, 13), (6, 14), (7, 15), (16, 24), (17, 25), (18, 20), (19, 22), (21, 23), (1, 8), (2, 11), (3, 10), (4, 13), (5, 12), (6, 15), (7, 14), (16, 25), (17, 22), (18, 21), (19, 23), (20, 24), (1, 11), (2, 8), (3, 16), (4, 17), (5, 18), (6, 19), (7, 20), (9, 21), (12, 22), (13, 23), (14, 24), (15, 25), (1, 10), (2, 9), (3, 17), (4, 16), (5, 19), (6, 18), (7, 21), (8, 20), (12, 23), (13, 22), (14, 25), (15, 24), (1, 13), (2, 14), (3, 18), (4, 19), (5, 16), (6, 17), (7, 22), (8, 21), (9, 20), (10, 24), (11, 25), (15, 23), (1, 12), (2, 15), (3, 19), (4, 18), (5, 17), (6, 16), (7, 23), (8, 22), (9, 24), (10, 25), (11, 20), (14, 21), (1, 15), (2, 12), (3, 20), (4, 21), (5, 22), (6, 23), (7, 16), (8, 17), (9, 18), (10, 19), (11, 24), (13, 25), (1, 14), (2, 13), (3, 21), (4, 20), (5, 23), (6, 22), (7, 17), (8, 16), (9, 25), (10, 18), (11, 19), (12, 24), (1, 17), (2, 18), (3, 8), (4, 9), (5, 10), (6, 20), (7, 19), (11, 21), (12, 25), (13, 24), (14, 23), (15, 22), (1, 16), (2, 19), (3, 9), (4, 8), (5, 11), (6, 24), (7, 25), (10, 23), (12, 18), (13, 20), (14, 22), (15, 21), (1, 19), (2, 16), (3, 12), (4, 10), (5, 8), (6, 25), (7, 24), (9, 22), (11, 23), (13, 21), (14, 17), (15, 20), (1, 18), (2, 17), (3, 13), (4, 11), (5, 24), (6, 21), (7, 12), (8, 25), (9, 23), (10, 22), (14, 20), (15, 16), (1, 21), (2, 22), (3, 14), (4, 23), (5, 25), (6, 9), (7, 10), (8, 24), (11, 16), (12, 17), (13, 18), (15, 19), (1, 20), (2, 23), (3, 24), (4, 25), (5, 9), (6, 8), (7, 13), (10, 16), (11, 22), (12, 19), (14, 18), (15, 17), (1, 23), (2, 20), (3, 25), (4, 24), (5, 14), (6, 10), (7, 8), (9, 16), (11, 17), (12, 21), (13, 19), (15, 18), (1, 24), (2, 25), (3, 15), (4, 22), (5, 20), (6, 11), (7, 9), (8, 18), (10, 21), (12, 16), (13, 17), (14, 19)]

/-- The value of `generateSchedule 4` (even, circle method). -/
def s4c : Schedule :=
  [[(1, 4), (2, 3)], [(1, 3), (4, 2)], [(1, 2), (3, 4)]]

/-- The value of `generateScheduleWithFairByeRotation 4` (reaches the fallback). -/
def sF4 : Schedule :=
  [[(2, 3)],
  [(1, 3)],
  [(1, 2)],
  [(1, 2)]]


/-! ## Search-loop equations and driver lemmas -/

theorem fvpF_succ (fuel : Nat) (es : List Nat) (s : Schedule)
    (h : 2 ≤ es.length) :
    fvpF (fuel + 1) es s = tryRange fuel es s 1 (es.length - 1) := by
  rw [fvpF, if_neg (by omega), if_neg (by omega)]
  rfl

theorem tryRange_zero (fuel : Nat) (es : List Nat) (s : Schedule) (i : Nat) :
    tryRange fuel es s i 0 = none := rfl

theorem tryRange_skip (fuel : Nat) (es : List Nat) (s : Schedule) (i c : Nat)
    (h : pairUsed s (es.getD 0 0) (es.getD i 0) = true) :
    tryRange fuel es s i (c + 1) = tryRange fuel es s (i + 1) c := by
  rw [tryRange, List.range'_succ i c 1, List.findSome?_cons]
  simp only [h]
  rfl

theorem tryRange_fail (fuel : Nat) (es : List Nat) (s : Schedule) (i c : Nat)
    (h : pairUsed s (es.getD 0 0) (es.getD i 0) = false)
    (h2 : fvpF fuel (removeIdx01 es i) s = none) :
    tryRange fuel es s i (c + 1) = tryRange fuel es s (i + 1) c := by
  rw [tryRange, List.range'_succ i c 1, List.findSome?_cons]
  simp only [h, h2]
  rfl

theorem tryRange_hit (fuel : Nat) (es : List Nat) (s : Schedule) (i c : Nat)
    (ps : List (Nat × Nat))
    (h : pairUsed s (es.getD 0 0) (es.getD i 0) = false)
    (h2 : fvpF fuel (removeIdx01 es i) s = some ps) :
    tryRange fuel es s i (c + 1) = some ((es.getD 0 0, es.getD i 0) :: ps) := by
  rw [tryRange, List.range'_succ i c 1, List.findSome?_cons]
  simp only [h, h2]
  rfl

theorem getD_lt_32 (es : List Nat) (j : Nat)
    (h : es.all (fun e => e < 32) = true) : es.getD j 0 < 32 := by
  rcases Nat.lt_or_ge j es.length with hj | hj
  · rw [List.getD_eq_getElem es 0 hj]
    exact of_decide_eq_true (List.all_eq_true.mp h _ (es.getElem_mem hj))
  · rw [List.getD_eq_default es 0 hj]
    omega

theorem tryRange_skipAll (fuel : Nat) (es : List Nat) (s : Schedule)
    (mask : Nat) (hb : BridgeHyp s mask)
    (h32 : es.all (fun e => e < 32) = true) (i k c : Nat)
    (hk : (List.range' i k).all
      (fun j => maskUsed mask (es.getD 0 0) (es.getD j 0)) = true) :
    tryRange fuel es s i (k + c) = tryRange fuel es s (i + k) c := by
  induction k generalizing i with
  | zero => rw [Nat.zero_add, Nat.add_zero]
  | succ k ih =>
    rw [List.range'_succ i k 1] at hk
    simp only [List.all_cons, Bool.and_eq_true] at hk
    have hused : pairUsed s (es.getD 0 0) (es.getD i 0) = true := by
      rw [hb _ _ (getD_lt_32 es 0 h32) (getD_lt_32 es i h32)]
      exact hk.1
    have harith : k + 1 + c = (k + c) + 1 := by omega
    rw [harith, tryRange_skip fuel es s i (k + c) hused, ih (i + 1) hk.2]
    congr 1
    omega

theorem testBit_maskOfRound_fold (round : List (Nat × Nat)) :
    ∀ (acc k : Nat),
    (round.foldl (fun m p => m ||| (1 <<< (p.1 * 32 + p.2))) acc).testBit k =
      (acc.testBit k || round.any (fun p => decide (p.1 * 32 + p.2 = k))) := by
  induction round with
  | nil => intro acc k; simp
  | cons p t ih =>
    intro acc k
    simp only [List.foldl_cons, List.any_cons, ih, Nat.testBit_lor]
    rw [Nat.shiftLeft_eq, one_mul, Nat.testBit_two_pow]
    cases acc.testBit k <;> cases t.any (fun p => decide (p.1 * 32 + p.2 = k)) <;>
      cases Nat.decEq (p.1 * 32 + p.2) k <;> simp_all

theorem testBit_maskOfSched (s : Schedule) :
    ∀ (acc k : Nat),
    (s.foldl (fun m round => m ||| maskOfRound round) acc).testBit k =
      (acc.testBit k ||
        s.any (fun round => round.any (fun p => decide (p.1 * 32 + p.2 = k)))) := by
  induction s with
  | nil => intro acc k; simp
  | cons round t ih =>
    intro acc k
    simp only [List.foldl_cons, List.any_cons, ih, Nat.testBit_lor]
    have hr := testBit_maskOfRound_fold round 0 k
    rw [show maskOfRound round =
      round.foldl (fun m p => m ||| (1 <<< (p.1 * 32 + p.2))) 0 from rfl]
    rw [hr]
    simp [Bool.or_assoc]

theorem pairUsed_eq_maskUsed (s : Schedule)
    (hs : (s.flatMap id).all (fun p => p.1 < 32 && p.2 < 32) = true) :
    BridgeHyp s (maskOfSched s) := by
  intro a b ha hb
  rw [Bool.eq_iff_iff]
  have hbound : ∀ p : Nat × Nat, p ∈ s.flatMap id → p.1 < 32 ∧ p.2 < 32 := by
    intro p hp
    have := List.all_eq_true.mp hs p hp
    simp only [Bool.and_eq_true, decide_eq_true_eq] at this
    exact this
  have hmask : ∀ k, (maskOfSched s).testBit k =
      s.any (fun round => round.any (fun p => decide (p.1 * 32 + p.2 = k))) := by
    intro k
    rw [show maskOfSched s = s.foldl (fun m round => m ||| maskOfRound round) 0
      from rfl, testBit_maskOfSched s 0 k]
    simp
  constructor
  · intro h
    rw [pairUsed] at h
    simp only [List.any_eq_true] at h
    obtain ⟨round, hr, p, hp, hcond⟩ := h
    simp only [Bool.or_eq_true, Bool.and_eq_true, beq_iff_eq] at hcond
    rw [maskUsed, Bool.or_eq_true, hmask, hmask]
    simp only [List.any_eq_true]
    rcases hcond with ⟨h1, h2⟩ | ⟨h1, h2⟩
    · exact Or.inl ⟨round, hr, p, hp, by simp [h1, h2]⟩
    · exact Or.inr ⟨round, hr, p, hp, by simp [h1, h2]⟩
  · intro h
    rw [maskUsed, Bool.or_eq_true, hmask, hmask] at h
    simp only [List.any_eq_true] at h
    rw [pairUsed]
    simp only [List.any_eq_true]
    rcases h with ⟨round, hr, p, hp, henc⟩ | ⟨round, hr, p, hp, henc⟩ <;>
    · have hpb := hbound p (List.mem_flatMap.mpr ⟨round, hr, by simpa using hp⟩)
      simp only [decide_eq_true_eq] at henc
      refine ⟨round, hr, p, hp, ?_⟩
      simp only [Bool.or_eq_true, Bool.and_eq_true, beq_iff_eq]
      omega

/-! ## Soundness of the backtracking search -/

theorem removeIdx01_enumFrom (t : List Nat) :
    ∀ (m i : Nat), 1 ≤ m →
    ((List.enumFrom m t).filter (fun p => !(p.1 == 0) && !(p.1 == i))).map
      (fun p => p.2) =
      if i < m then t else t.eraseIdx (i - m) := by
  induction t with
  | nil => intro m i _; simp
  | cons a t ih =>
    intro m i hm
    simp only [List.enumFrom_cons]
    rcases Nat.lt_trichotomy i m with hlt | heq | hgt
    · rw [List.filter_cons_of_pos (by simp; omega)]
      simp only [List.map_cons, ih (m + 1) i (by omega), if_pos (by omega : i < m + 1),
        if_pos hlt]
    · rw [List.filter_cons_of_neg (by simp; omega)]
      rw [ih (m + 1) i (by omega), if_pos (by omega : i < m + 1)]
      rw [if_neg (by omega : ¬ i < m)]
      have h0 : i - m = 0 := by omega
      rw [h0]
      rfl
    · rw [List.filter_cons_of_pos (by simp; omega)]
      simp only [List.map_cons, ih (m + 1) i (by omega), if_neg (by omega : ¬ i < m + 1),
        if_neg (by omega : ¬ i < m)]
      have h1 : i - m = (i - (m + 1)) + 1 := by omega
      rw [h1]
      rfl

theorem removeIdx01_cons (a : Nat) (t : List Nat) (i : Nat) (hi : 1 ≤ i) :
    removeIdx01 (a :: t) i = t.eraseIdx (i - 1) := by
  rw [removeIdx01]
  have henum : (a :: t).enum = (0, a) :: List.enumFrom 1 t := rfl
  rw [henum, List.filter_cons_of_neg (by simp),
    removeIdx01_enumFrom t 1 i (by omega), if_neg (by omega : ¬ i < 1)]

theorem getD_cons_eraseIdx_perm (t : List Nat) (j : Nat) (h : j < t.length) :
    List.Perm (t.getD j 0 :: t.eraseIdx j) t := by
  rw [List.eraseIdx_eq_take_drop_succ, List.getD_eq_getElem t 0 h]
  conv_rhs => rw [← List.take_append_drop j t, ← List.getElem_cons_drop t j h]
  exact List.perm_middle.symm

theorem fvpF_sound :
    ∀ (fuel : Nat) (es : List Nat) (s : Schedule) (ps : List (Nat × Nat)),
    fvpF fuel es s = some ps → ValidPairing es s ps := by
  intro fuel
  induction fuel with
  | zero =>
    intro es s ps h
    rw [fvpF] at h
    by_cases h0 : es.length = 0
    · rw [if_pos h0] at h
      obtain rfl : es = [] := List.length_eq_zero.mp h0
      obtain rfl : ([] : List (Nat × Nat)) = ps := by cases h; rfl
      exact ⟨by simp, by simp⟩
    · rw [if_neg h0] at h
      by_cases h1 : es.length = 1
      · rw [if_pos h1] at h; cases h
      · rw [if_neg h1] at h; cases h
  | succ fuel ih =>
    intro es s ps h
    rw [fvpF] at h
    by_cases h0 : es.length = 0
    · rw [if_pos h0] at h
      obtain rfl : es = [] := List.length_eq_zero.mp h0
      obtain rfl : ([] : List (Nat × Nat)) = ps := by cases h; rfl
      exact ⟨by simp, by simp⟩
    · rw [if_neg h0] at h
      by_cases h1 : es.length = 1
      · rw [if_pos h1] at h; cases h
      · rw [if_neg h1] at h
        obtain ⟨i, hi_mem, hfi⟩ := List.exists_of_findSome?_eq_some h
        have hi : 1 ≤ i ∧ i < es.length := by
          have := List.mem_range'_1.mp hi_mem
          omega
        simp only at hfi
        by_cases hu : pairUsed s (es.getD 0 0) (es.getD i 0) = true
        · rw [if_pos hu] at hfi; cases hfi
        · rw [if_neg hu] at hfi
          cases hrec : fvpF fuel (removeIdx01 es i) s with
          | none => rw [hrec] at hfi; cases hfi
          | some rps =>
            rw [hrec] at hfi
            obtain rfl : (es.getD 0 0, es.getD i 0) :: rps = ps := by
              cases hfi; rfl
            have hvalid := ih (removeIdx01 es i) s rps hrec
            obtain ⟨a, t, rfl⟩ : ∃ a t, es = a :: t := by
              cases es with
              | nil => simp at h0
              | cons a t => exact ⟨a, t, rfl⟩
            obtain ⟨j, rfl⟩ : ∃ j, i = j + 1 := ⟨i - 1, by omega⟩
            rw [removeIdx01_cons a t (j + 1) (by omega)] at hvalid
            have hj : j < t.length := by
              have := hi.2
              simp only [List.length_cons] at this
              omega
            constructor
            · simp only [List.flatMap_cons]
              have hgd : (a :: t).getD 0 0 = a := rfl
              have hgd2 : (a :: t).getD (j + 1) 0 = t.getD j 0 := rfl
              rw [hgd, hgd2]
              have hj1 : (j + 1 - 1) = j := by omega
              rw [hj1] at hvalid
              refine List.Perm.cons a ?_
              exact List.Perm.trans (List.Perm.cons _ hvalid.1)
                (getD_cons_eraseIdx_perm t j hj)
            · intro pair hp
              rcases List.mem_cons.mp hp with rfl | hmem
              · exact Bool.eq_false_iff.mpr hu
              · exact hvalid.2 pair hmem

theorem findValidPairs_sound (es : List Nat) (s : Schedule)
    (ps : List (Nat × Nat)) (h : findValidPairs es s = some ps) :
    ValidPairing es s ps :=
  fvpF_sound es.length es s ps h

theorem findValidPairs_nil (s : Schedule) : findValidPairs [] s = some [] := rfl

theorem findValidPairs_singleton (e : Nat) (s : Schedule) :
    findValidPairs [e] s = none := rfl

theorem fvpF_nil (fuel : Nat) (s : Schedule) : fvpF fuel [] s = some [] := by
  rw [fvpF.eq_def]; rfl

theorem fvpF_one (fuel : Nat) (e : Nat) (s : Schedule) : fvpF fuel [e] s = none := by
  rw [fvpF.eq_def]; rfl

theorem findSome?_congr_mem {α β : Type} (l : List α) (f g : α → Option β)
    (h : ∀ a ∈ l, f a = g a) : l.findSome? f = l.findSome? g := by
  induction l with
  | nil => rfl
  | cons a t ih =>
    rw [List.findSome?_cons, List.findSome?_cons, h a (List.mem_cons_self a t),
      ih (fun x hx => h x (List.mem_cons_of_mem a hx))]

theorem removeIdx01_length (es : List Nat) (i : Nat) (h1 : 1 ≤ i)
    (h2 : i < es.length) : (removeIdx01 es i).length = es.length - 2 := by
  cases es with
  | nil => simp at h2
  | cons a t =>
    rw [removeIdx01_cons a t i h1, List.length_eraseIdx]
    simp only [List.length_cons] at h2
    rw [if_pos (by omega : i - 1 < t.length)]
    simp only [List.length_cons]
    omega

theorem fvpF_fuel_irrel :
    ∀ (k : Nat) (es : List Nat) (s : Schedule) (f g : Nat),
    es.length ≤ k → es.length ≤ f → es.length ≤ g → fvpF f es s = fvpF g es s := by
  intro k
  induction k with
  | zero =>
    intro es s f g hk _ _
    obtain rfl : es = [] := List.length_eq_zero.mp (by omega)
    rw [fvpF_nil, fvpF_nil]
  | succ k ih =>
    intro es s f g hk hf hg
    by_cases h0 : es.length = 0
    · obtain rfl : es = [] := List.length_eq_zero.mp h0
      rw [fvpF_nil, fvpF_nil]
    · by_cases h1 : es.length = 1
      · obtain ⟨e, rfl⟩ : ∃ e, es = [e] := List.length_eq_one.mp h1
        rw [fvpF_one, fvpF_one]
      · obtain ⟨f', rfl⟩ : ∃ f', f = f' + 1 := ⟨f - 1, by omega⟩
        obtain ⟨g', rfl⟩ : ∃ g', g = g' + 1 := ⟨g - 1, by omega⟩
        rw [fvpF_succ f' es s (by omega), fvpF_succ g' es s (by omega), tryRange,
          tryRange]
        refine findSome?_congr_mem _ _ _ (fun j hj => ?_)
        have hjr := List.mem_range'_1.mp hj
        have hrec : fvpF f' (removeIdx01 es j) s = fvpF g' (removeIdx01 es j) s := by
          refine ih (removeIdx01 es j) s f' g' ?_ ?_ ?_ <;>
            rw [removeIdx01_length es j (by omega) (by omega)] <;> omega
        simp only [hrec]

/-! ## Infeasibility certificates for the backtracking search

If removing a (possibly empty) separator set `S` from the graph of still
available pairs on `es` leaves more than `S.length` "odd components" (subsets
of odd size with no available pair leaving them except into `S`), then no
valid pairing of `es` exists, so the search must return `none`. -/

theorem pairUsed_comm (s : Schedule) (a b : Nat) :
    pairUsed s a b = pairUsed s b a := by
  unfold pairUsed
  congr 1
  funext round
  congr 1
  funext pair
  exact Bool.or_comm _ _

theorem even_countP_of_balanced (C : List Nat) :
    ∀ (ps : List (Nat × Nat)),
    (∀ p ∈ ps, C.contains p.1 = C.contains p.2) →
    Even ((ps.flatMap (fun p => [p.1, p.2])).countP (fun x => C.contains x)) := by
  intro ps
  induction ps with
  | nil => intro _; simp
  | cons p t ih =>
    intro h
    rw [List.flatMap_cons, List.countP_append]
    have ht := ih (fun q hq => h q (List.mem_cons_of_mem p hq))
    have hp := h p (List.mem_cons_self p t)
    rw [Nat.even_iff]
    rw [Nat.even_iff] at ht
    rcases Bool.eq_false_or_eq_true (C.contains p.1) with h1 | h1
    · simp only [List.countP_cons, List.countP_nil, h1, hp ▸ h1,
        if_neg (by simp : ¬ (false = true))]
      omega
    · simp only [List.countP_cons, List.countP_nil, h1, hp ▸ h1,
        if_pos (rfl : (true : Bool) = true)]
      omega

theorem exists_crossing_pair (ps : List (Nat × Nat)) (C : List Nat)
    (hodd : Odd ((ps.flatMap (fun p => [p.1, p.2])).countP (fun x => C.contains x))) :
    ∃ p ∈ ps, C.contains p.1 ≠ C.contains p.2 := by
  by_contra hcon
  push_neg at hcon
  exact (Nat.not_even_iff_odd.mpr hodd) (even_countP_of_balanced C ps hcon)

theorem count_flat_pos (ps : List (Nat × Nat)) (q : Nat × Nat) (hq : q ∈ ps)
    (v : Nat) (hv : v = q.1 ∨ v = q.2) :
    1 ≤ (ps.flatMap (fun r => [r.1, r.2])).count v := by
  rw [Nat.one_le_iff_ne_zero, Ne, List.count_eq_zero]
  intro hmem
  exact hmem (List.mem_flatMap.mpr ⟨q, hq, by rcases hv with rfl | rfl <;> simp⟩)

theorem count_flat_ge_two (ps : List (Nat × Nat)) (p q : Nat × Nat)
    (hp : p ∈ ps) (hq : q ∈ ps) (hne : p ≠ q) (v : Nat)
    (hvp : v = p.1 ∨ v = p.2) (hvq : v = q.1 ∨ v = q.2) :
    2 ≤ (ps.flatMap (fun r => [r.1, r.2])).count v := by
  induction ps with
  | nil => simp at hp
  | cons r t ih =>
    rw [List.flatMap_cons, List.count_append]
    rcases List.mem_cons.mp hp with rfl | hpt
    · have hqt : q ∈ t := by
        rcases List.mem_cons.mp hq with rfl | hqt
        · exact absurd rfl hne
        · exact hqt
      have h1 : 1 ≤ ([p.1, p.2].count v) := by
        rcases hvp with rfl | rfl <;> simp [List.count_cons]
      have h2 := count_flat_pos t q hqt v hvq
      omega
    · rcases List.mem_cons.mp hq with rfl | hqt
      · have h1 : 1 ≤ ([q.1, q.2].count v) := by
          rcases hvq with rfl | rfl <;> simp [List.count_cons]
        have h2 := count_flat_pos t p hpt v hvp
        omega
      · have := ih hpt hqt
        omega

theorem contains_iff_mem (l : List Nat) (a : Nat) : l.contains a = true ↔ a ∈ l := by
  induction l with
  | nil => simp
  | cons b t ih =>
    simp only [List.contains_cons, Bool.or_eq_true, beq_iff_eq, ih, List.mem_cons]

theorem noValidPairing_of_cert (es : List Nat) (s : Schedule) (S : List Nat)
    (parts : List (List Nat)) (hnodup : es.Nodup) (hSnodup : S.Nodup)
    (hodd : ∀ C ∈ parts, Odd (es.countP (fun x => C.contains x)))
    (hdisj : parts.Pairwise (fun C D => ∀ x ∈ C, x ∉ D))
    (hdisjS : ∀ C ∈ parts, ∀ x ∈ C, x ∉ S)
    (hescape : ∀ C ∈ parts, ∀ u ∈ C, u ∈ es → ∀ v ∈ es, v ∉ C → v ∉ S →
      pairUsed s u v = true)
    (hcount : S.length < parts.length) (ps : List (Nat × Nat)) :
    ¬ ValidPairing es s ps := by
  rintro ⟨hperm, hunused⟩
  have hflat_nodup : (ps.flatMap (fun p => [p.1, p.2])).Nodup :=
    (hperm.nodup_iff).mpr hnodup
  have hchoice : ∀ C ∈ parts, ∃ p ∈ ps, ∃ uc vs : Nat,
      ((p = (uc, vs)) ∨ (p = (vs, uc))) ∧ uc ∈ C ∧ vs ∈ S := by
    intro C hC
    have hoddf : Odd ((ps.flatMap (fun p => [p.1, p.2])).countP
        (fun x => C.contains x)) := by
      rw [hperm.countP_eq]; exact hodd C hC
    obtain ⟨p, hp, hne⟩ := exists_crossing_pair ps C hoddf
    have hp1 : p.1 ∈ es := hperm.mem_iff.mp (List.mem_flatMap.mpr ⟨p, hp, by simp⟩)
    have hp2 : p.2 ∈ es := hperm.mem_iff.mp (List.mem_flatMap.mpr ⟨p, hp, by simp⟩)
    have hpu := hunused p hp
    cases hc1 : C.contains p.1 <;> cases hc2 : C.contains p.2
    · exact absurd (hc1.trans hc2.symm) hne
    · have hmem2 : p.2 ∈ C := (contains_iff_mem C p.2).mp hc2
      have hnot1 : p.1 ∉ C := fun hm => by
        rw [(contains_iff_mem C p.1).mpr hm] at hc1; cases hc1
      refine ⟨p, hp, p.2, p.1, Or.inr (by simp), hmem2, ?_⟩
      by_contra hv
      have hesc := hescape C hC p.2 hmem2 hp2 p.1 hp1 hnot1 hv
      rw [pairUsed_comm, hpu] at hesc
      cases hesc
    · have hmem1 : p.1 ∈ C := (contains_iff_mem C p.1).mp hc1
      have hnot2 : p.2 ∉ C := fun hm => by
        rw [(contains_iff_mem C p.2).mpr hm] at hc2; cases hc2
      refine ⟨p, hp, p.1, p.2, Or.inl (by simp), hmem1, ?_⟩
      by_contra hv
      have hesc := hescape C hC p.1 hmem1 hp1 p.2 hp2 hnot2 hv
      rw [hpu] at hesc
      cases hesc
    · exact absurd (hc1.trans hc2.symm) hne
  have hget : ∀ i : Fin parts.length, ∃ p ∈ ps, ∃ uc vs : Nat,
      ((p = (uc, vs)) ∨ (p = (vs, uc))) ∧ uc ∈ parts.get i ∧ vs ∈ S :=
    fun i => hchoice _ (List.get_mem parts i.val i.isLt)
  choose P hPps uu vv hform huu hvv using hget
  have hdisj_idx : ∀ i j : Fin parts.length, i ≠ j →
      ∀ x ∈ parts.get i, x ∉ parts.get j := by
    intro i j hij x hxi hxj
    rcases Nat.lt_or_ge i.val j.val with hlt | hge
    · exact (List.pairwise_iff_get.mp hdisj) i j hlt x hxi hxj
    · have hlt : j < i := by
        rcases Nat.lt_or_ge j.val i.val with h | h
        · exact h
        · exact absurd (Fin.ext (by omega)) hij
      exact (List.pairwise_iff_get.mp hdisj) j i hlt x hxj hxi
  have hvv_inj : Function.Injective vv := by
    intro i j hij
    by_contra hne
    by_cases hPP : P i = P j
    · rcases hform i with hfi | hfi <;> rcases hform j with hfj | hfj <;>
        have h12 := Prod.mk.inj (hfi.symm.trans (hPP.trans hfj))
      · exact hdisj_idx i j hne (uu i) (huu i) (h12.1 ▸ huu j)
      · exact hdisjS _ (List.get_mem parts i.val i.isLt) (uu i) (huu i) (h12.1 ▸ hvv j)
      · exact hdisjS _ (List.get_mem parts j.val j.isLt) (uu j) (huu j) (h12.1.symm ▸ hvv i)
      · exact hdisj_idx i j hne (uu i) (huu i) (h12.2 ▸ huu j)
    · have hvi : vv i = (P i).1 ∨ vv i = (P i).2 := by
        rcases hform i with hfi | hfi
        · exact Or.inr (by rw [hfi])
        · exact Or.inl (by rw [hfi])
      have hvj : vv i = (P j).1 ∨ vv i = (P j).2 := by
        rcases hform j with hfj | hfj
        · exact Or.inr (by rw [hfj, hij])
        · exact Or.inl (by rw [hfj, hij])
      have h2 := count_flat_ge_two ps (P i) (P j) (hPps i) (hPps j) hPP (vv i) hvi hvj
      have hle1 := (List.nodup_iff_count_le_one.mp hflat_nodup) (vv i)
      omega
  have hcard : parts.length ≤ S.length := by
    have hmaps : ∀ i : Fin parts.length,
        i ∈ (Finset.univ : Finset (Fin parts.length)) → vv i ∈ S.toFinset :=
      fun i _ => List.mem_toFinset.mpr (hvv i)
    have hle := Finset.card_le_card_of_injOn vv hmaps (fun a _ b _ h => hvv_inj h)
    rwa [Finset.card_univ, Fintype.card_fin, List.toFinset_card_of_nodup hSnodup]
      at hle
  omega

theorem fvpF_none_of_cert (fuel : Nat) (es : List Nat) (s : Schedule) (mask : Nat)
    (hb : BridgeHyp s mask) (S : List Nat) (parts : List (List Nat))
    (h32 : es.all (fun e => e < 32) = true)
    (hnodup : es.Nodup) (hSnodup : S.Nodup)
    (hodd : ∀ C ∈ parts, (es.countP (fun x => C.contains x)) % 2 = 1)
    (hdisj : parts.Pairwise (fun C D => ∀ x ∈ C, x ∉ D))
    (hdisjS : ∀ C ∈ parts, ∀ x ∈ C, x ∉ S)
    (hesc : ∀ C ∈ parts, ∀ u ∈ C, u ∈ es → ∀ v ∈ es, v ∉ C → v ∉ S →
      maskUsed mask u v = true)
    (hcount : S.length < parts.length) :
    fvpF fuel es s = none := by
  cases hres : fvpF fuel es s with
  | none => rfl
  | some ps =>
    exfalso
    refine noValidPairing_of_cert es s S parts hnodup hSnodup
      (fun C hC => Nat.odd_iff.mpr (hodd C hC)) hdisj hdisjS ?_ hcount ps
      (fvpF_sound fuel es s ps hres)
    intro C hC u hu hues v hv hvC hvS
    have h32u : u < 32 := by
      have := List.all_eq_true.mp h32 u hues
      simpa using this
    have h32v : v < 32 := by
      have := List.all_eq_true.mp h32 v hv
      simpa using this
    rw [hb u v h32u h32v]
    exact hesc C hC u hu hues v hv hvC hvS

theorem fairByeLoop_step (emps : List Nat) (left r : Nat) (byes : List Nat)
    (sched : Schedule) :
    fairByeLoop emps (left + 1) r byes sched =
      fairByeLoop emps left (r + 1)
        ((chooseBye emps byes r).1 :: (chooseBye emps byes r).2)
        (sched ++
          [match findValidPairs
              (emps.filter (fun emp => !(emp == (chooseBye emps byes r).1)))
              sched with
            | some pairs => pairs
            | none =>
              adjacentPairing
                (emps.filter (fun emp => !(emp == (chooseBye emps byes r).1)))]) := by
  rw [fairByeLoop]

theorem fairByeLoop_zero (emps : List Nat) (r : Nat) (byes : List Nat)
    (sched : Schedule) : fairByeLoop emps 0 r byes sched = sched := rfl

theorem fairByeLoop_step_eq (emps : List Nat) (left r : Nat)
    (byes byes2 : List Nat) (b : Nat) (sched : Schedule) (rem : List Nat)
    (rnd : List (Nat × Nat)) (sched2 : Schedule)
    (hc : chooseBye emps byes r = (b, byes2))
    (hrem : emps.filter (fun emp => !(emp == b)) = rem)
    (hrnd : (match findValidPairs rem sched with
             | some pairs => pairs
             | none => adjacentPairing rem) = rnd)
    (hs2 : sched ++ [rnd] = sched2) :
    fairByeLoop emps (left + 1) r byes sched =
      fairByeLoop emps left (r + 1) (b :: byes2) sched2 := by
  rw [fairByeLoop_step emps left r byes sched, hc]
  rw [show ((b, byes2).1 : Nat) = b from rfl]
  rw [hrem, hrnd, hs2]


/-! ## Circle method: seating characterization -/

theorem circleLoop_succ (n : Nat) (emps : List Nat) (k : Nat) :
    circleLoop n emps (k + 1) =
      mkCircleRound n emps :: circleLoop n (rotateEmployees emps n) k := rfl

theorem drop_pred_eq_getD (u : List Nat) (k : Nat) (hk : u.length = k + 1) :
    u.drop k = [u.getD k 0] := by
  have h1 : (u.drop k).length = 1 := by rw [List.length_drop]; omega
  have h2 : u.drop k = [(u.drop k).getD 0 0] := by
    cases hd : u.drop k with
    | nil => rw [hd] at h1; simp at h1
    | cons a t =>
      rw [hd] at h1
      simp only [List.length_cons] at h1
      have : t = [] := List.length_eq_zero.mp (by omega)
      rw [this]
      rfl
  rw [h2]
  congr 1
  rw [List.getD_eq_getElem _ _ (by omega : (0 : Nat) < (u.drop k).length),
    List.getD_eq_getElem _ _ (by omega : k < u.length)]
  simp [List.getElem_drop]

theorem rotateEmployees_circleList (n r : Nat) (hn : 2 ≤ n) :
    rotateEmployees (circleList n r) n = circleList n (r + 1) := by
  have htlen : ((List.range (n - 1)).map (fun k => k + 2)).length = n - 1 := by simp
  have hulen : (((List.range (n - 1)).map (fun k => k + 2)).rotate
      ((n - 2) * r)).length = n - 1 := by
    rw [List.length_rotate]; exact htlen
  set u := ((List.range (n - 1)).map (fun k => k + 2)).rotate ((n - 2) * r) with hu
  have hstep : rotateEmployees (circleList n r) n =
      1 :: u.getD (n - 2) 0 :: u.take (n - 2) := by
    rw [circleList, rotateEmployees]
    have h1 : ((1 : Nat) :: u).getD 0 0 = 1 := rfl
    have h2 : ((1 : Nat) :: u).getD (n - 1) 0 = u.getD (n - 2) 0 := by
      obtain ⟨k, hk⟩ : ∃ k, n - 1 = k + 1 := ⟨n - 2, by omega⟩
      rw [hk, List.getD_cons_succ]
      congr 1
      omega
    rw [h1, h2]
    rfl
  rw [hstep]
  have hrot : u.rotate (n - 2) = u.getD (n - 2) 0 :: u.take (n - 2) := by
    rw [List.rotate_eq_drop_append_take (by omega : n - 2 ≤ u.length),
      drop_pred_eq_getD u (n - 2) (by omega)]
    rfl
  rw [← hrot, circleList, hu, List.rotate_rotate]
  have harith : (n - 2) * r + (n - 2) = (n - 2) * (r + 1) := by ring
  rw [harith]

theorem circleLoop_circleList (n : Nat) (hn : 2 ≤ n) :
    ∀ (k r : Nat), circleLoop n (circleList n r) k =
      (List.range k).map (fun j => mkCircleRound n (circleList n (r + j))) := by
  intro k
  induction k with
  | zero => intro r; rfl
  | succ k ih =>
    intro r
    rw [circleLoop_succ, rotateEmployees_circleList n r hn, ih (r + 1),
      List.range_succ_eq_map, List.map_cons, List.map_map]
    congr 1
    apply List.map_congr_left
    intro j _
    simp only [Function.comp_apply, Nat.succ_eq_add_one]
    rw [show r + 1 + j = r + (j + 1) from by omega]

theorem circleInitial_eq (n : Nat) (hn : 2 ≤ n) :
    (List.range n).map (fun k => k + 1) = circleList n 0 := by
  rw [circleList, Nat.mul_zero, List.rotate_zero]
  obtain ⟨m, rfl⟩ : ∃ m, n = m + 1 := ⟨n - 1, by omega⟩
  simp only [Nat.add_sub_cancel]
  rw [List.range_succ_eq_map, List.map_cons, List.map_map]
  congr 1

theorem generateScheduleCircleMethod_even (n : Nat) (hn : 2 ≤ n)
    (he : n % 2 = 0) :
    generateScheduleCircleMethod n =
      Except.ok ((List.range (n - 1)).map
        (fun j => mkCircleRound n (circleList n j))) := by
  rw [generateScheduleCircleMethod, if_neg (by omega)]
  simp only [he]
  rw [if_neg (by omega : ¬ (0 : Nat) ≠ 0)]
  rw [circleInitial_eq n hn, circleLoop_circleList n hn (n - 1) 0]
  congr 1
  apply List.map_congr_left
  intro j _
  rw [Nat.zero_add]

theorem circleList_length (n r : Nat) (hn : 2 ≤ n) :
    (circleList n r).length = n := by
  rw [circleList]
  simp only [List.length_cons, List.length_rotate, List.length_map,
    List.length_range]
  omega

theorem circleList_getD (n r j : Nat) (hn : 2 ≤ n) (hj : j < n) :
    (circleList n r).getD j 0 = circleW n r j := by
  rw [circleList, circleW]
  cases j with
  | zero => rfl
  | succ k =>
    rw [List.getD_cons_succ, if_neg (by omega : ¬ k + 1 = 0)]
    have hlen : (((List.range (n - 1)).map (fun x => x + 2)).rotate
        ((n - 2) * r)).length = n - 1 := by
      simp
    have hk : k < (((List.range (n - 1)).map (fun x => x + 2)).rotate
        ((n - 2) * r)).length := by omega
    rw [List.getD_eq_getElem _ _ hk, List.getElem_rotate]
    simp only [List.length_map, List.length_range, List.getElem_map,
      List.getElem_range, Nat.add_sub_cancel]

theorem circleW_pos (n r j : Nat) : 1 ≤ circleW n r j := by
  rw [circleW]; split <;> omega

theorem circleW_le (n r j : Nat) (hn : 2 ≤ n) : circleW n r j ≤ n := by
  rw [circleW]
  split
  · omega
  · have := Nat.mod_lt ((j - 1) + (n - 2) * r) (by omega : 0 < n - 1)
    omega

theorem mkCircleRound_circleList (n r : Nat) (hn : 2 ≤ n) :
    mkCircleRound n (circleList n r) =
      (List.range (n / 2)).map (fun i => (circleW n r i, circleW n r (n - 1 - i))) := by
  rw [mkCircleRound]
  have hmap : (List.range (n / 2)).map (fun i =>
      ((circleList n r).getD i 0, (circleList n r).getD (n - 1 - i) 0)) =
      (List.range (n / 2)).map (fun i => (circleW n r i, circleW n r (n - 1 - i))) := by
    apply List.map_congr_left
    intro i hi
    have hi2 := List.mem_range.mp hi
    rw [circleList_getD n r i hn (by omega), circleList_getD n r (n - 1 - i) hn (by omega)]
  rw [hmap]
  apply List.filter_eq_self.mpr
  intro pair hp
  obtain ⟨i, _, rfl⟩ := List.mem_map.mp hp
  have h1 := circleW_pos n r i
  have h2 := circleW_pos n r (n - 1 - i)
  simp only [Bool.not_eq_true', Bool.or_eq_false_iff, beq_eq_false_iff_ne]
  constructor <;> simp <;> omega

theorem mkCircleRound_length (n r : Nat) (hn : 2 ≤ n) :
    (mkCircleRound n (circleList n r)).length = n / 2 := by
  rw [mkCircleRound_circleList n r hn, List.length_map, List.length_range]

theorem roundElems_circle (n r : Nat) (hn : 2 ≤ n) :
    roundElems (mkCircleRound n (circleList n r)) =
      (posList n).map (circleW n r) := by
  rw [mkCircleRound_circleList n r hn, roundElems, List.flatMap_map, posList,
    List.map_flatMap]
  rfl

theorem posAux_perm (n : Nat) :
    ∀ k, 2 * k ≤ n →
    List.Perm ((List.range k).flatMap (fun i => [i, n - 1 - i]))
      (List.range k ++ List.range' (n - k) k) := by
  intro k
  induction k with
  | zero => intro _; rfl
  | succ k ih =>
    intro hk
    rw [List.range_succ, List.flatMap_append]
    have hr : List.range' (n - (k + 1)) (k + 1) =
        (n - k - 1) :: List.range' (n - k) k := by
      rw [List.range'_succ]
      have ha : n - (k + 1) = n - k - 1 := by omega
      rw [ha]
      have hb : n - k - 1 + 1 = n - k := by omega
      rw [hb]
    rw [hr]
    have hsimp : ([k] : List Nat).flatMap (fun i => [i, n - 1 - i]) =
        [k, n - 1 - k] := by simp
    rw [hsimp]
    refine List.Perm.trans (List.Perm.append_right _ (ih (by omega))) ?_
    rw [List.append_assoc (List.range k) (List.range' (n - k) k) [k, n - 1 - k],
      List.append_assoc (List.range k) [k] ((n - k - 1) :: List.range' (n - k) k)]
    refine List.Perm.append_left _ ?_
    refine List.Perm.trans List.perm_middle ?_
    refine List.Perm.cons k ?_
    have e3 : n - 1 - k = n - k - 1 := by omega
    rw [e3]
    exact List.perm_append_singleton _ _

theorem posList_perm (n : Nat) (he : n % 2 = 0) :
    List.Perm (posList n) (List.range n) := by
  rw [posList]
  refine List.Perm.trans (posAux_perm n (n / 2) (by omega)) ?_
  have h1 : List.range (n / 2) ++ List.range' (n - n / 2) (n / 2) =
      List.range' 0 (n / 2) ++ List.range' (0 + 1 * (n / 2)) (n / 2) := by
    rw [← List.range_eq_range']
    congr 2
    omega
  rw [h1, List.range'_append, ← List.range_eq_range']
  have : n / 2 + n / 2 = n := by omega
  rw [this]

theorem circleW_injOn (n r : Nat) (hn : 2 ≤ n) :
    ∀ j, j < n → ∀ j2, j2 < n → circleW n r j = circleW n r j2 → j = j2 := by
  intro j hj j2 hj2 heq
  rw [circleW, circleW] at heq
  rcases Nat.eq_zero_or_pos j with rfl | hjp <;>
    rcases Nat.eq_zero_or_pos j2 with rfl | hj2p
  · rfl
  · rw [if_pos rfl, if_neg (by omega)] at heq
    omega
  · rw [if_neg (by omega), if_pos rfl] at heq
    omega
  · rw [if_neg (by omega), if_neg (by omega)] at heq
    have hmod : ((j - 1) + (n - 2) * r) % (n - 1) =
        ((j2 - 1) + (n - 2) * r) % (n - 1) := by omega
    have hcancel : j - 1 ≡ j2 - 1 [MOD n - 1] :=
      Nat.ModEq.add_right_cancel' ((n - 2) * r) hmod
    have : (j - 1) % (n - 1) = (j2 - 1) % (n - 1) := hcancel
    rw [Nat.mod_eq_of_lt (by omega), Nat.mod_eq_of_lt (by omega)] at this
    omega

theorem roundElems_circle_nodup (n r : Nat) (hn : 2 ≤ n) (he : n % 2 = 0) :
    (roundElems (mkCircleRound n (circleList n r))).Nodup := by
  rw [roundElems_circle n r hn]
  have hpos := posList_perm n he
  refine List.Nodup.map_on ?_ (hpos.nodup_iff.mpr (List.nodup_range n))
  intro x hx y hy hxy
  exact circleW_injOn n r hn x (List.mem_range.mp (hpos.mem_iff.mp hx)) y
    (List.mem_range.mp (hpos.mem_iff.mp hy)) hxy

theorem posList_length (n : Nat) : (posList n).length = 2 * (n / 2) := by
  rw [posList]
  induction (n / 2) with
  | zero => rfl
  | succ k ih =>
    rw [List.range_succ, List.flatMap_append, List.length_append, ih]
    simp
    omega

theorem roundElems_circle_mem (n r : Nat) (hn : 2 ≤ n) (he : n % 2 = 0)
    (e : Nat) (h1 : 1 ≤ e) (h2 : e ≤ n) :
    e ∈ roundElems (mkCircleRound n (circleList n r)) := by
  rw [roundElems_circle n r hn]
  set L := (posList n).map (circleW n r) with hL
  have hnodup : L.Nodup := by
    rw [hL]
    have h := roundElems_circle_nodup n r hn he
    rwa [roundElems_circle n r hn] at h
  have hlen : L.length = n := by
    rw [hL, List.length_map, posList_length]
    omega
  have hsub : L.toFinset ⊆ Finset.Icc 1 n := by
    intro x hx
    obtain ⟨j, _, rfl⟩ := List.mem_map.mp (List.mem_toFinset.mp hx)
    exact Finset.mem_Icc.mpr ⟨circleW_pos n r j, circleW_le n r j hn⟩
  have hcard : (Finset.Icc 1 n).card ≤ L.toFinset.card := by
    rw [List.toFinset_card_of_nodup hnodup, hlen, Nat.card_Icc]
    omega
  have heq := Finset.eq_of_subset_of_card_le hsub hcard
  have : e ∈ L.toFinset := heq.symm ▸ Finset.mem_Icc.mpr ⟨h1, h2⟩
  exact List.mem_toFinset.mp this

theorem circleW_ge2 (n r j : Nat) (hj : 1 ≤ j) : 2 ≤ circleW n r j := by
  rw [circleW, if_neg (by omega)]
  omega

theorem circleW_label (n r j : Nat) (hj : 1 ≤ j) :
    circleW n r j = ((j - 1) + (n - 2) * r) % (n - 1) + 2 := by
  rw [circleW, if_neg (by omega)]

theorem gcd_succ_self_one (k : Nat) : Nat.gcd (k + 1) k = 1 := by
  rw [Nat.gcd_comm, show k + 1 = 1 + k from by omega, Nat.gcd_add_self_right,
    Nat.gcd_one_right]

theorem coprime_oddm_two_mul (m k : Nat) (hm : m % 2 = 1)
    (hk : Nat.gcd m k = 1) : Nat.gcd m (2 * k) = 1 := by
  have h2 : Nat.gcd m 2 = 1 := by
    have hd : Nat.gcd m 2 ∣ 2 := Nat.gcd_dvd_right m 2
    rcases (Nat.dvd_prime Nat.prime_two).mp hd with h | h
    · exact h
    · exfalso
      have hdm : 2 ∣ m := h ▸ Nat.gcd_dvd_left m 2
      obtain ⟨t, rfl⟩ := hdm
      omega
  exact Nat.Coprime.mul_right h2 hk

theorem circle_round_cancel (n r r2 : Nat) (hn : 2 ≤ n) (he : n % 2 = 0)
    (hr : r < n - 1) (hr2 : r2 < n - 1)
    (hmod : Nat.ModEq (n - 1) ((n - 2) * r) ((n - 2) * r2)) : r = r2 := by
  have hg : Nat.gcd (n - 1) (n - 2) = 1 := by
    have := gcd_succ_self_one (n - 2)
    rwa [show n - 2 + 1 = n - 1 from by omega] at this
  have := hmod.cancel_left_of_coprime hg
  have h2 : r % (n - 1) = r2 % (n - 1) := this
  rwa [Nat.mod_eq_of_lt hr, Nat.mod_eq_of_lt hr2] at h2

theorem circle_slot_inj (n : Nat) (hn : 2 ≤ n) (he : n % 2 = 0)
    (r i r2 i2 : Nat) (hr : r < n - 1) (hi : i < n / 2) (hr2 : r2 < n - 1)
    (hi2 : i2 < n / 2)
    (hcase : (circleW n r i = circleW n r2 i2 ∧
        circleW n r (n - 1 - i) = circleW n r2 (n - 1 - i2)) ∨
      (circleW n r i = circleW n r2 (n - 1 - i2) ∧
        circleW n r (n - 1 - i) = circleW n r2 i2)) :
    r = r2 ∧ i = i2 := by
  have hm : (n - 1) % 2 = 1 := by omega
  rcases Nat.eq_zero_or_pos i with rfl | hip <;>
    rcases Nat.eq_zero_or_pos i2 with rfl | hi2p
  · -- both slots are the fixed slot pairing participant 1
    simp only [Nat.sub_zero] at hcase
    refine ⟨?_, rfl⟩
    have hv : circleW n r (n - 1) = circleW n r2 (n - 1) := by
      rcases hcase with ⟨_, h⟩ | ⟨h1, _⟩
      · simpa using h
      · have := circleW_ge2 n r2 (n - 1) (by omega)
        have h0 : circleW n r 0 = 1 := by rw [circleW, if_pos rfl]
        rw [h0] at h1
        omega
    rw [circleW_label n r (n - 1) (by omega),
      circleW_label n r2 (n - 1) (by omega)] at hv
    have hmod : Nat.ModEq (n - 1) ((n - 1 - 1) + (n - 2) * r)
        ((n - 1 - 1) + (n - 2) * r2) := by
      have : ((n - 1 - 1) + (n - 2) * r) % (n - 1) =
          ((n - 1 - 1) + (n - 2) * r2) % (n - 1) := by omega
      exact this
    exact circle_round_cancel n r r2 hn he hr hr2
      (hmod.add_left_cancel' (n - 1 - 1))
  · exfalso
    have h0 : circleW n r 0 = 1 := by rw [circleW, if_pos rfl]
    have g1 := circleW_ge2 n r2 i2 (by omega)
    have g2 := circleW_ge2 n r2 (n - 1 - i2) (by omega)
    rcases hcase with ⟨h1, _⟩ | ⟨h1, _⟩ <;> rw [h0] at h1 <;> omega
  · exfalso
    have h0 : circleW n r2 0 = 1 := by rw [circleW, if_pos rfl]
    have g1 := circleW_ge2 n r i (by omega)
    have g2 := circleW_ge2 n r (n - 1 - i) (by omega)
    rcases hcase with ⟨h1, _⟩ | ⟨_, h1⟩ <;> rw [h0] at h1 <;> omega
  · -- both interior slots
    have hn4 : 4 ≤ n := by omega
    have hbound : i ≤ n / 2 - 1 ∧ i2 ≤ n / 2 - 1 := ⟨by omega, by omega⟩
    have hlab1 := circleW_label n r i (by omega)
    have hlab2 := circleW_label n r (n - 1 - i) (by omega)
    have hlab3 := circleW_label n r2 i2 (by omega)
    have hlab4 := circleW_label n r2 (n - 1 - i2) (by omega)
    rw [hlab1, hlab2, hlab3, hlab4] at hcase
    rw [show n - 1 - i - 1 = n - 2 - i from by omega] at hcase
    rw [show n - 1 - i2 - 1 = n - 2 - i2 from by omega] at hcase
    set A := (i - 1) + (n - 2) * r with hA
    set B := (n - 2 - i) + (n - 2) * r with hB
    set A2 := (i2 - 1) + (n - 2) * r2 with hA2
    set B2 := (n - 2 - i2) + (n - 2) * r2 with hB2
    have hsum : (A + B) % (n - 1) = (A2 + B2) % (n - 1) := by
      have h1 : A % (n - 1) + B % (n - 1) = A2 % (n - 1) + B2 % (n - 1) := by
        rcases hcase with ⟨e1, e2⟩ | ⟨e1, e2⟩ <;> omega
      calc (A + B) % (n - 1) = (A % (n - 1) + B % (n - 1)) % (n - 1) :=
            Nat.add_mod A B (n - 1)
        _ = (A2 % (n - 1) + B2 % (n - 1)) % (n - 1) := by rw [h1]
        _ = (A2 + B2) % (n - 1) := (Nat.add_mod A2 B2 (n - 1)).symm
    have hAB : A + B = (n - 3) + (2 * (n - 2)) * r := by
      rw [hA, hB]; ring_nf; omega
    have hAB2 : A2 + B2 = (n - 3) + (2 * (n - 2)) * r2 := by
      rw [hA2, hB2]; ring_nf; omega
    rw [hAB, hAB2] at hsum
    have hmod : Nat.ModEq (n - 1) ((2 * (n - 2)) * r) ((2 * (n - 2)) * r2) :=
      (show Nat.ModEq (n - 1) ((n - 3) + (2 * (n - 2)) * r)
        ((n - 3) + (2 * (n - 2)) * r2) from hsum).add_left_cancel' (n - 3)
    have hgcd : Nat.gcd (n - 1) (2 * (n - 2)) = 1 := by
      apply coprime_oddm_two_mul (n - 1) (n - 2) hm
      have := gcd_succ_self_one (n - 2)
      rwa [show n - 2 + 1 = n - 1 from by omega] at this
    have hrr : r = r2 := by
      have := hmod.cancel_left_of_coprime hgcd
      have h2 : r % (n - 1) = r2 % (n - 1) := this
      rwa [Nat.mod_eq_of_lt hr, Nat.mod_eq_of_lt hr2] at h2
    subst hrr
    refine ⟨rfl, ?_⟩
    rcases hcase with ⟨e1, _⟩ | ⟨e1, _⟩
    · have h1 : A % (n - 1) = A2 % (n - 1) := by omega
      have hmod2 : Nat.ModEq (n - 1) (i - 1) (i2 - 1) :=
        (show Nat.ModEq (n - 1) A A2 from h1).add_right_cancel' ((n - 2) * r)
      have h2 : (i - 1) % (n - 1) = (i2 - 1) % (n - 1) := hmod2
      rw [Nat.mod_eq_of_lt (by omega), Nat.mod_eq_of_lt (by omega)] at h2
      omega
    · exfalso
      have h1 : A % (n - 1) = B2 % (n - 1) := by omega
      have hmod2 : Nat.ModEq (n - 1) (i - 1) (n - 2 - i2) :=
        (show Nat.ModEq (n - 1) A B2 from h1).add_right_cancel' ((n - 2) * r)
      have h2 : (i - 1) % (n - 1) = (n - 2 - i2) % (n - 1) := hmod2
      rw [Nat.mod_eq_of_lt (by omega), Nat.mod_eq_of_lt (by omega)] at h2
      omega

theorem countP_range_eq_card (c : Nat) (p : Nat → Bool) :
    (List.range c).countP p =
      ((Finset.range c).filter (fun i => p i = true)).card := by
  induction c with
  | zero => rfl
  | succ c ih =>
    rw [List.range_succ, List.countP_append, Finset.range_succ, Finset.filter_insert]
    cases hp : p c
    · rw [if_neg (by simp [hp]), ih]
      simp [List.countP_cons, hp]
    · rw [if_pos (rfl : (true : Bool) = true), Finset.card_insert_of_not_mem (by simp), ih]
      simp [List.countP_cons, hp]

theorem countP_flatMap_range (m : Nat) (f : Nat → List (Nat × Nat))
    (p : Nat × Nat → Bool) :
    ((List.range m).flatMap f).countP p =
      ∑ r ∈ Finset.range m, (f r).countP p := by
  induction m with
  | zero => rfl
  | succ m ih =>
    rw [List.range_succ, List.flatMap_append, List.countP_append, ih,
      Finset.sum_range_succ]
    simp

theorem pairs_finset_card (n : Nat) :
    (((Finset.Icc 1 n) ×ˢ (Finset.Icc 1 n)).filter
      (fun p : Nat × Nat => p.1 < p.2)).card = n * (n - 1) / 2 := by
  rw [Finset.card_filter, Finset.sum_product]
  have hinner : ∀ a ∈ Finset.Icc 1 n,
      (∑ b ∈ Finset.Icc 1 n, if a < b then 1 else 0) = n - a := by
    intro a ha
    have : (∑ b ∈ Finset.Icc 1 n, if a < b then 1 else 0) =
        ((Finset.Icc 1 n).filter (fun b => a < b)).card := by
      rw [Finset.card_filter]
    rw [this]
    have hf : (Finset.Icc 1 n).filter (fun b => a < b) = Finset.Icc (a + 1) n := by
      ext b
      simp only [Finset.mem_filter, Finset.mem_Icc]
      constructor
      · intro ⟨⟨_, h2⟩, h3⟩; omega
      · intro ⟨h1, h2⟩
        have := Finset.mem_Icc.mp ha
        omega
    rw [hf, Nat.card_Icc]
    omega
  rw [Finset.sum_congr rfl hinner]
  have himg : Finset.Icc 1 n = Finset.image (· + 1) (Finset.range n) := by
    ext a
    simp only [Finset.mem_Icc, Finset.mem_image, Finset.mem_range]
    constructor
    · intro ⟨h1, h2⟩; exact ⟨a - 1, by omega, by omega⟩
    · rintro ⟨k, hk, rfl⟩; omega
  rw [himg, Finset.sum_image (by intro x _ y _ h; omega)]
  have hrefl : ∀ k ∈ Finset.range n, n - (k + 1) = n - 1 - k := by
    intro k _; omega
  rw [Finset.sum_congr rfl hrefl, Finset.sum_range_reflect (fun k => k) n,
    Finset.sum_range_id]

theorem circle_slot_distinct (n : Nat) (hn : 2 ≤ n) (he : n % 2 = 0)
    (r i : Nat) (hi : i < n / 2) :
    circleW n r i ≠ circleW n r (n - 1 - i) := by
  intro hcon
  have := circleW_injOn n r hn i (by omega) (n - 1 - i) (by omega) hcon
  omega

theorem circle_pairOcc_eq_one (n : Nat) (hn : 2 ≤ n) (he : n % 2 = 0)
    (a b : Nat) (ha : 1 ≤ a) (hab : a < b) (hb : b ≤ n) :
    pairOcc ((List.range (n - 1)).map
      (fun j => mkCircleRound n (circleList n j))) a b = 1 := by
  classical
  rw [pairOcc, List.flatMap_map]
  simp only [id_eq]
  rw [countP_flatMap_range]
  set p : Nat × Nat → Bool := fun pair =>
    (pair.1 == a && pair.2 == b) || (pair.1 == b && pair.2 == a) with hp
  set G : Nat × Nat → Nat × Nat := fun q =>
    (Nat.min (circleW n q.1 q.2) (circleW n q.1 (n - 1 - q.2)),
     Nat.max (circleW n q.1 q.2) (circleW n q.1 (n - 1 - q.2))) with hG
  set T : Finset (Nat × Nat) := Finset.range (n - 1) ×ˢ Finset.range (n / 2)
    with hT
  set P : Finset (Nat × Nat) :=
    ((Finset.Icc 1 n) ×ˢ (Finset.Icc 1 n)).filter
      (fun q : Nat × Nat => q.1 < q.2) with hP
  have hround : ∀ r ∈ Finset.range (n - 1),
      (mkCircleRound n (circleList n r)).countP p =
      ((Finset.range (n / 2)).filter
        (fun i => p (circleW n r i, circleW n r (n - 1 - i)) = true)).card := by
    intro r _
    rw [mkCircleRound_circleList n r hn, List.countP_map, countP_range_eq_card]
    rfl
  rw [Finset.sum_congr rfl hround]
  have hprod : (T.filter (fun q => p (circleW n q.1 q.2,
      circleW n q.1 (n - 1 - q.2)) = true)).card =
      ∑ r ∈ Finset.range (n - 1), ((Finset.range (n / 2)).filter
        (fun i => p (circleW n r i, circleW n r (n - 1 - i)) = true)).card := by
    rw [Finset.card_filter, hT, Finset.sum_product]
    refine Finset.sum_congr rfl (fun r _ => ?_)
    rw [Finset.card_filter]
  rw [← hprod]
  have hfilter_eq : T.filter (fun q => p (circleW n q.1 q.2,
      circleW n q.1 (n - 1 - q.2)) = true) =
      T.filter (fun q => G q = (a, b)) := by
    apply Finset.filter_congr
    intro q hq
    rw [hT] at hq
    obtain ⟨hq1, hq2⟩ := Finset.mem_product.mp hq
    have hi := Finset.mem_range.mp hq2
    have hdist := circle_slot_distinct n hn he q.1 q.2 hi
    rw [hp, hG]
    simp only [Bool.or_eq_true, Bool.and_eq_true, beq_iff_eq, Prod.mk.injEq,
      eq_iff_iff]
    constructor
    · rintro (⟨h1, h2⟩ | ⟨h1, h2⟩) <;> constructor <;>
        simp only [Nat.min_def, Nat.max_def] <;> split_ifs <;> omega
    · rintro ⟨h1, h2⟩
      simp only [Nat.min_def, Nat.max_def] at h1 h2
      split_ifs at h1 h2 <;> omega
  rw [hfilter_eq]
  have hGmem : ∀ q ∈ T, G q ∈ P := by
    intro q hq
    rw [hT] at hq
    obtain ⟨hq1, hq2⟩ := Finset.mem_product.mp hq
    have hi := Finset.mem_range.mp hq2
    have hdist := circle_slot_distinct n hn he q.1 q.2 hi
    have b1 := circleW_pos n q.1 q.2
    have b2 := circleW_pos n q.1 (n - 1 - q.2)
    have b3 := circleW_le n q.1 q.2 hn
    have b4 := circleW_le n q.1 (n - 1 - q.2) hn
    rw [hP, hG]
    simp only [Finset.mem_filter, Finset.mem_product, Finset.mem_Icc]
    refine ⟨⟨⟨?_, ?_⟩, ?_, ?_⟩, ?_⟩ <;> simp only [Nat.min_def, Nat.max_def] <;>
      split_ifs <;> omega
  have hGinj : ∀ q1 ∈ T, ∀ q2 ∈ T, G q1 = G q2 → q1 = q2 := by
    intro q1 hq1 q2 hq2 hGeq
    rw [hT] at hq1 hq2
    obtain ⟨h11, h12⟩ := Finset.mem_product.mp hq1
    obtain ⟨h21, h22⟩ := Finset.mem_product.mp hq2
    have hi1 := Finset.mem_range.mp h12
    have hi2 := Finset.mem_range.mp h22
    have hr1 := Finset.mem_range.mp h11
    have hr2 := Finset.mem_range.mp h21
    have hd1 := circle_slot_distinct n hn he q1.1 q1.2 hi1
    have hd2 := circle_slot_distinct n hn he q2.1 q2.2 hi2
    rw [hG] at hGeq
    simp only [Prod.mk.injEq] at hGeq
    have hcase : (circleW n q1.1 q1.2 = circleW n q2.1 q2.2 ∧
        circleW n q1.1 (n - 1 - q1.2) = circleW n q2.1 (n - 1 - q2.2)) ∨
      (circleW n q1.1 q1.2 = circleW n q2.1 (n - 1 - q2.2) ∧
        circleW n q1.1 (n - 1 - q1.2) = circleW n q2.1 q2.2) := by
      simp only [Nat.min_def, Nat.max_def] at hGeq
      split_ifs at hGeq <;> omega
    have := circle_slot_inj n hn he q1.1 q1.2 q2.1 q2.2 hr1 hi1 hr2 hi2 hcase
    exact Prod.ext this.1 this.2
  have hfib := Finset.card_eq_sum_card_fiberwise hGmem
  have hTcard : T.card = n * (n - 1) / 2 := by
    rw [hT, Finset.card_product, Finset.card_range, Finset.card_range]
    obtain ⟨h, rfl⟩ : ∃ h, n = 2 * h := ⟨n / 2, by omega⟩
    have h1 : 2 * h * (2 * h - 1) / 2 = h * (2 * h - 1) := by
      rw [Nat.mul_assoc, Nat.mul_div_cancel_left _ (by omega : 0 < 2)]
    rw [h1]
    have h2 : 2 * h / 2 = h := by omega
    rw [h2, Nat.mul_comm]
  have hPcard : P.card = n * (n - 1) / 2 := pairs_finset_card n
  have hfible : ∀ pp ∈ P, (T.filter (fun q => G q = pp)).card ≤ 1 := by
    intro pp _
    refine Finset.card_le_one.mpr ?_
    intro q1 hq1 q2 hq2
    obtain ⟨hm1, he1⟩ := Finset.mem_filter.mp hq1
    obtain ⟨hm2, he2⟩ := Finset.mem_filter.mp hq2
    exact hGinj q1 hm1 q2 hm2 (he1.trans he2.symm)
  have habP : (a, b) ∈ P := by
    rw [hP]
    simp only [Finset.mem_filter, Finset.mem_product, Finset.mem_Icc]
    exact ⟨⟨⟨ha, by omega⟩, by omega, hb⟩, hab⟩
  by_contra hne
  have h0 : (T.filter (fun q => G q = (a, b))).card = 0 := by
    have := hfible (a, b) habP
    omega
  have hsum : ∑ pp ∈ P, (T.filter (fun q => G q = pp)).card =
      ∑ pp ∈ P.erase (a, b), (T.filter (fun q => G q = pp)).card := by
    rw [← Finset.sum_erase_add P _ habP, h0, Nat.add_zero]
  have hbound : ∑ pp ∈ P.erase (a, b), (T.filter (fun q => G q = pp)).card ≤
      (P.erase (a, b)).card * 1 := by
    refine Finset.sum_le_card_nsmul _ _ 1 ?_
    intro pp hpp
    exact hfible pp (Finset.mem_of_mem_erase hpp)
  rw [Finset.card_erase_of_mem habP] at hbound
  rw [hfib, hsum] at hTcard
  have hn2 : 2 ≤ n * (n - 1) / 2 := by
    have : 2 * 2 ≤ n * (n - 1) := by
      rcases Nat.lt_or_ge n 3 with h | h
      · interval_cases n
        omega
      · have : 2 ≤ n - 1 := by omega
        calc 2 * 2 ≤ n * 2 := by omega
          _ ≤ n * (n - 1) := by
            exact Nat.mul_le_mul_left n this
    omega
  omega

theorem circle_mem_flat (n : Nat) (hn : 2 ≤ n) (pair : Nat × Nat)
    (hp : pair ∈ ((List.range (n - 1)).map
      (fun j => mkCircleRound n (circleList n j))).flatMap id) :
    ∃ r i, r < n - 1 ∧ i < n / 2 ∧
      pair = (circleW n r i, circleW n r (n - 1 - i)) := by
  obtain ⟨round, hround, hpair⟩ := List.mem_flatMap.mp hp
  obtain ⟨r, hr, rfl⟩ := List.mem_map.mp hround
  rw [mkCircleRound_circleList n r hn] at hpair
  simp at hpair
  obtain ⟨i, hi, hpeq⟩ := hpair
  exact ⟨r, i, List.mem_range.mp hr, hi, hpeq.symm⟩

theorem circle_pairOcc_le_one (n : Nat) (hn : 2 ≤ n) (he : n % 2 = 0)
    (a b : Nat) :
    pairOcc ((List.range (n - 1)).map
      (fun j => mkCircleRound n (circleList n j))) a b ≤ 1 := by
  by_cases hvalid : 1 ≤ a ∧ a ≠ b ∧ a ≤ n ∧ 1 ≤ b ∧ b ≤ n
  · obtain ⟨h1, h2, h3, h4, h5⟩ := hvalid
    rcases Nat.lt_or_ge a b with hab | hab
    · rw [circle_pairOcc_eq_one n hn he a b h1 hab h5]
    · have hba : b < a := by omega
      have hsymm : pairOcc ((List.range (n - 1)).map
          (fun j => mkCircleRound n (circleList n j))) a b =
          pairOcc ((List.range (n - 1)).map
            (fun j => mkCircleRound n (circleList n j))) b a := by
        rw [pairOcc, pairOcc]
        congr 1
        funext pair
        exact Bool.or_comm _ _
      rw [hsymm, circle_pairOcc_eq_one n hn he b a h4 hba h3]
  · have hzero : pairOcc ((List.range (n - 1)).map
        (fun j => mkCircleRound n (circleList n j))) a b = 0 := by
      rw [pairOcc, List.countP_eq_zero]
      intro pair hpair
      obtain ⟨r, i, hr, hi, rfl⟩ := circle_mem_flat n hn pair hpair
      have b1 := circleW_pos n r i
      have b2 := circleW_pos n r (n - 1 - i)
      have b3 := circleW_le n r i hn
      have b4 := circleW_le n r (n - 1 - i) hn
      have hdist := circle_slot_distinct n hn he r i hi
      intro hmatch
      simp only [Bool.or_eq_true, Bool.and_eq_true, beq_iff_eq] at hmatch
      rcases hmatch with ⟨ha, hb⟩ | ⟨ha, hb⟩ <;> omega
    omega

theorem countP_rounds_le_pairOcc (s : Schedule) (a b : Nat) :
    s.countP (fun round => roundHasPair round a b) ≤ pairOcc s a b := by
  induction s with
  | nil => simp [pairOcc]
  | cons r t ih =>
    have hsplit : pairOcc (r :: t) a b =
        r.countP (fun pair =>
          (pair.1 == a && pair.2 == b) || (pair.1 == b && pair.2 == a)) +
          pairOcc t a b := by
      rw [pairOcc, pairOcc, List.flatMap_cons, List.countP_append]
      rfl
    rw [hsplit, List.countP_cons]
    by_cases hr : roundHasPair r a b = true
    · have hpos : 0 < r.countP (fun pair =>
          (pair.1 == a && pair.2 == b) || (pair.1 == b && pair.2 == a)) := by
        rw [roundHasPair, List.any_eq_true] at hr
        obtain ⟨pair, hmem, hpred⟩ := hr
        exact List.countP_pos_iff.mpr ⟨pair, hmem, hpred⟩
      simp only [hr, if_true]
      omega
    · simp only [hr, Bool.false_eq_true, if_false]
      omega

theorem circle_noDup (n : Nat) (hn : 2 ≤ n) (he : n % 2 = 0) :
    NoDupAcrossRounds ((List.range (n - 1)).map
      (fun j => mkCircleRound n (circleList n j))) := by
  intro a b
  exact le_trans (countP_rounds_le_pairOcc _ a b)
    (circle_pairOcc_le_one n hn he a b)

theorem circle_evenInvariant (n : Nat) (hn : 2 ≤ n) (he : n % 2 = 0) :
    EvenInvariant n ((List.range (n - 1)).map
      (fun j => mkCircleRound n (circleList n j))) := by
  refine ⟨by rw [List.length_map, List.length_range], ?_⟩
  intro round hround
  obtain ⟨r, hr, rfl⟩ := List.mem_map.mp hround
  exact ⟨mkCircleRound_length n r hn,
    fun e h1 h2 => roundElems_circle_mem n r hn he e h1 h2⟩

theorem circle_oncePerRound (n : Nat) (hn : 2 ≤ n) (he : n % 2 = 0) :
    OncePerRound ((List.range (n - 1)).map
      (fun j => mkCircleRound n (circleList n j))) := by
  intro round hround
  obtain ⟨r, hr, rfl⟩ := List.mem_map.mp hround
  exact roundElems_circle_nodup n r hn he

theorem generateSchedule_even (n : Nat) (hn : 2 ≤ n) (he : n % 2 = 0) :
    generateSchedule n = Except.ok ((List.range (n - 1)).map
      (fun j => mkCircleRound n (circleList n j))) := by
  rw [generateSchedule, if_neg (by omega), if_neg (by omega)]
  exact generateScheduleCircleMethod_even n hn he

theorem foldl_setInsert_mem (l acc : List Nat) (x : Nat) :
    x ∈ l.foldl setInsert acc ↔ x ∈ acc ∨ x ∈ l := by
  induction l generalizing acc with
  | nil => simp
  | cons a t ih =>
    rw [List.foldl_cons, ih]
    rw [setInsert]
    by_cases hmem : a ∈ acc
    · rw [if_pos hmem]
      constructor
      · rintro (h | h)
        · exact Or.inl h
        · exact Or.inr (List.mem_cons_of_mem a h)
      · rintro (h | h)
        · exact Or.inl h
        · rcases List.mem_cons.mp h with rfl | h
          · exact Or.inl hmem
          · exact Or.inr h
    · rw [if_neg hmem]
      simp only [List.mem_append, List.mem_singleton, List.mem_cons]
      tauto

theorem foldl_setInsert_nodup (l acc : List Nat) (h : acc.Nodup) :
    (l.foldl setInsert acc).Nodup := by
  induction l generalizing acc with
  | nil => exact h
  | cons a t ih =>
    rw [List.foldl_cons]
    refine ih _ ?_
    rw [setInsert]
    by_cases hmem : a ∈ acc
    · rwa [if_pos hmem]
    · rw [if_neg hmem]
      refine List.Nodup.append h (List.nodup_singleton a) ?_
      intro b hb hbs
      rw [List.mem_singleton] at hbs
      exact hmem (hbs ▸ hb)

theorem foldl_pairInsert_mem (l acc : List (Nat × Nat)) (x : Nat × Nat) :
    x ∈ l.foldl pairInsert acc ↔ x ∈ acc ∨ x ∈ l := by
  induction l generalizing acc with
  | nil => simp
  | cons a t ih =>
    rw [List.foldl_cons, ih]
    rw [pairInsert]
    by_cases hmem : a ∈ acc
    · rw [if_pos hmem]
      constructor
      · rintro (h | h)
        · exact Or.inl h
        · exact Or.inr (List.mem_cons_of_mem a h)
      · rintro (h | h)
        · exact Or.inl h
        · rcases List.mem_cons.mp h with rfl | h
          · exact Or.inl hmem
          · exact Or.inr h
    · rw [if_neg hmem]
      simp only [List.mem_append, List.mem_singleton, List.mem_cons]
      tauto

theorem foldl_pairInsert_nodup (l acc : List (Nat × Nat)) (h : acc.Nodup) :
    (l.foldl pairInsert acc).Nodup := by
  induction l generalizing acc with
  | nil => exact h
  | cons a t ih =>
    rw [List.foldl_cons]
    refine ih _ ?_
    rw [pairInsert]
    by_cases hmem : a ∈ acc
    · rwa [if_pos hmem]
    · rw [if_neg hmem]
      refine List.Nodup.append h (List.nodup_singleton a) ?_
      intro b hb hbs
      rw [List.mem_singleton] at hbs
      exact hmem (hbs ▸ hb)

theorem flatEntries_mem (s : Schedule) (x : Nat) :
    x ∈ flatEntries s ↔ ∃ round ∈ s, x ∈ roundElems round := by
  rw [flatEntries]
  simp only [List.mem_flatMap, roundElems]

theorem allEmployeesOf_circle_mem (n : Nat) (hn : 2 ≤ n) (he : n % 2 = 0)
    (x : Nat) :
    x ∈ allEmployeesOf ((List.range (n - 1)).map
      (fun j => mkCircleRound n (circleList n j))) ↔ 1 ≤ x ∧ x ≤ n := by
  rw [allEmployeesOf, foldl_setInsert_mem]
  simp only [List.not_mem_nil, false_or, List.mem_filter, flatEntries_mem]
  constructor
  · rintro ⟨⟨round, hround, hx⟩, _⟩
    obtain ⟨r, hr, rfl⟩ := List.mem_map.mp hround
    rw [roundElems_circle n r hn] at hx
    obtain ⟨j, hj, rfl⟩ := List.mem_map.mp hx
    exact ⟨circleW_pos n r j, circleW_le n r j hn⟩
  · rintro ⟨h1, h2⟩
    refine ⟨⟨mkCircleRound n (circleList n 0), ?_, ?_⟩, ?_⟩
    · exact List.mem_map.mpr ⟨0, List.mem_range.mpr (by omega), rfl⟩
    · exact roundElems_circle_mem n 0 hn he x h1 h2
    · simp only [Bool.not_eq_eq_eq_not, Bool.not_true, beq_eq_false_iff_ne]
      omega

theorem allEmployeesOf_circle_length (n : Nat) (hn : 2 ≤ n) (he : n % 2 = 0) :
    (allEmployeesOf ((List.range (n - 1)).map
      (fun j => mkCircleRound n (circleList n j)))).length = n := by
  set L := allEmployeesOf ((List.range (n - 1)).map
    (fun j => mkCircleRound n (circleList n j))) with hL
  have hnodup : L.Nodup := foldl_setInsert_nodup _ [] List.nodup_nil
  have htf : L.toFinset = Finset.Icc 1 n := by
    ext x
    rw [List.mem_toFinset, hL, allEmployeesOf_circle_mem n hn he, Finset.mem_Icc]
  have := List.toFinset_card_of_nodup hnodup
  rw [htf, Nat.card_Icc] at this
  omega

theorem allPairsOf_circle_mem (n : Nat) (hn : 2 ≤ n) (he : n % 2 = 0)
    (p : Nat × Nat) :
    p ∈ allPairsOf ((List.range (n - 1)).map
      (fun j => mkCircleRound n (circleList n j))) ↔
      1 ≤ p.1 ∧ p.1 < p.2 ∧ p.2 ≤ n := by
  rw [allPairsOf, foldl_pairInsert_mem]
  simp only [List.not_mem_nil, false_or, List.mem_map, List.mem_filter]
  constructor
  · rintro ⟨slot, ⟨hslot, _⟩, rfl⟩
    obtain ⟨r, i, hr, hi, rfl⟩ := circle_mem_flat n hn slot hslot
    have b1 := circleW_pos n r i
    have b2 := circleW_pos n r (n - 1 - i)
    have b3 := circleW_le n r i hn
    have b4 := circleW_le n r (n - 1 - i) hn
    have hdist := circle_slot_distinct n hn he r i hi
    rw [canonicalPair]
    rcases Nat.lt_trichotomy (circleW n r i) (circleW n r (n - 1 - i))
      with h | h | h
    · rw [min_eq_left h.le, max_eq_right h.le]
      exact ⟨b1, h, b4⟩
    · exact absurd h hdist
    · rw [min_eq_right h.le, max_eq_left h.le]
      exact ⟨b2, h, b3⟩
  · obtain ⟨a, b⟩ := p
    rintro ⟨h1, h2, h3⟩
    have hocc := circle_pairOcc_eq_one n hn he a b h1 h2 h3
    rw [pairOcc] at hocc
    have hpos : 0 < (((List.range (n - 1)).map
        (fun j => mkCircleRound n (circleList n j))).flatMap id).countP
        (fun pair => (pair.1 == a && pair.2 == b) ||
          (pair.1 == b && pair.2 == a)) := by omega
    obtain ⟨slot, hslot, hpred⟩ := List.countP_pos_iff.mp hpos
    refine ⟨slot, ⟨hslot, ?_⟩, ?_⟩
    · simp only [Bool.or_eq_true, Bool.and_eq_true, beq_iff_eq] at hpred
      simp only [Bool.not_eq_eq_eq_not, Bool.not_true, Bool.or_eq_false_iff,
        beq_eq_false_iff_ne]
      rcases hpred with ⟨ha, hb⟩ | ⟨ha, hb⟩ <;> omega
    · simp only [Bool.or_eq_true, Bool.and_eq_true, beq_iff_eq] at hpred
      rw [canonicalPair]
      rcases hpred with ⟨ha, hb⟩ | ⟨ha, hb⟩
      · rw [ha, hb, min_eq_left (by omega), max_eq_right (by omega)]
      · rw [ha, hb, min_eq_right (by omega), max_eq_left (by omega)]

theorem allPairsOf_circle_length (n : Nat) (hn : 2 ≤ n) (he : n % 2 = 0) :
    (allPairsOf ((List.range (n - 1)).map
      (fun j => mkCircleRound n (circleList n j)))).length = n * (n - 1) / 2 := by
  set L := allPairsOf ((List.range (n - 1)).map
    (fun j => mkCircleRound n (circleList n j))) with hL
  have hnodup : L.Nodup := foldl_pairInsert_nodup _ [] List.nodup_nil
  have htf : L.toFinset = ((Finset.Icc 1 n) ×ˢ (Finset.Icc 1 n)).filter
      (fun p : Nat × Nat => p.1 < p.2) := by
    ext p
    rw [List.mem_toFinset, hL, allPairsOf_circle_mem n hn he,
      Finset.mem_filter, Finset.mem_product, Finset.mem_Icc, Finset.mem_Icc]
    constructor
    · rintro ⟨h1, h2, h3⟩
      exact ⟨⟨⟨h1, by omega⟩, ⟨by omega, h3⟩⟩, h2⟩
    · rintro ⟨⟨⟨h1, _⟩, ⟨_, h3⟩⟩, h2⟩
      exact ⟨h1, h2, h3⟩
  have hcard := List.toFinset_card_of_nodup hnodup
  rw [htf, pairs_finset_card] at hcard
  omega

theorem getScheduleStats_circle_isComplete (n : Nat) (hn : 2 ≤ n)
    (he : n % 2 = 0) :
    (getScheduleStats ((List.range (n - 1)).map
      (fun j => mkCircleRound n (circleList n j)))).isComplete = true := by
  rw [getScheduleStats]
  simp only
  rw [allEmployeesOf_circle_length n hn he, allPairsOf_circle_length n hn he]
  exact Nat.beq_eq_true_eq _ _ |>.mpr rfl

theorem findSome?_eq_of_first {α β : Type} (l : List α) (f : α → Option β)
    (d : α) (b : β) (k : Nat) (hk : k < l.length)
    (hbefore : ∀ j, j < k → f (l.getD j d) = none)
    (hit : f (l.getD k d) = some b) :
    l.findSome? f = some b := by
  induction l generalizing k with
  | nil => exact absurd hk (by simp)
  | cons a t ih =>
    match k with
    | 0 =>
      rw [List.getD_cons_zero] at hit
      rw [List.findSome?_cons, hit]
    | k + 1 =>
      have ha : f a = none := by
        have := hbefore 0 (by omega)
        rwa [List.getD_cons_zero] at this
      rw [List.findSome?_cons, ha]
      refine ih k (by simpa using hk) ?_ ?_
      · intro j hj
        have := hbefore (j + 1) (by omega)
        rwa [List.getD_cons_succ] at this
      · rwa [List.getD_cons_succ] at hit

theorem getD_range (n j : Nat) (d : Nat) (hj : j < n) :
    (List.range n).getD j d = j := by
  rw [List.getD_eq_getElem (List.range n) d (by simpa using hj)]
  simp

theorem chooseBye_eq_spec (es byes : List Nat) (r : Nat) :
    chooseBye es byes r = chooseByeSpec es byes r := by
  rw [chooseBye, chooseByeSpec]
  by_cases h : ∃ i, i < es.length ∧
      ¬ (byes.contains (es.getD ((r + i) % es.length) 0) = true)
  · rw [dif_pos h]
    have hfs : (List.range es.length).findSome? (fun i =>
        if byes.contains (es.getD ((r + i) % es.length) 0) then none
        else some (es.getD ((r + i) % es.length) 0)) =
        some (es.getD ((r + Nat.find h) % es.length) 0) := by
      refine findSome?_eq_of_first _ _ 0 _ (Nat.find h)
        (by simpa using (Nat.find_spec h).1) ?_ ?_
      · intro j hj
        have hjlt : j < es.length := by
          have := (Nat.find_spec h).1
          omega
        have hmin := Nat.find_min h hj
        rw [getD_range _ _ _ hjlt]
        have hcont : byes.contains (es.getD ((r + j) % es.length) 0) = true := by
          by_contra hc
          exact hmin ⟨hjlt, hc⟩
        rw [if_pos hcont]
      · rw [getD_range _ _ _ (Nat.find_spec h).1]
        rw [if_neg ((Nat.find_spec h).2)]
    rw [hfs]
  · rw [dif_neg h]
    have hfs : (List.range es.length).findSome? (fun i =>
        if byes.contains (es.getD ((r + i) % es.length) 0) then none
        else some (es.getD ((r + i) % es.length) 0)) = none := by
      rw [List.findSome?_eq_none_iff]
      intro i hi
      rw [List.mem_range] at hi
      push_neg at h
      rw [if_pos (h i hi)]
    rw [hfs]

theorem completePairs_of_check (n : Nat) (s : Schedule)
    (h : ((List.range (n + 1)).all (fun a => (List.range (n + 1)).all (fun b =>
      !(decide (1 ≤ a) && decide (a < b) && decide (b ≤ n)) ||
        decide (pairOcc s a b = 1)))) = true) :
    CompletePairs n s := by
  intro a b h1 h2 h3
  rw [List.all_eq_true] at h
  have ha := h a (List.mem_range.mpr (by omega))
  rw [List.all_eq_true] at ha
  have hb := ha b (List.mem_range.mpr (by omega))
  rw [Bool.or_eq_true, Bool.not_eq_eq_eq_not, Bool.not_true,
    Bool.and_eq_false_iff, Bool.and_eq_false_iff] at hb
  rcases hb with (hf | hf) | hf
  · rcases hf with hf | hf <;> simp at hf <;> omega
  · simp at hf; omega
  · exact of_decide_eq_true hf

theorem pairOcc_zero_of_big (s : Schedule) (m a b : Nat)
    (hbound : ((s.flatMap id).all
      (fun p => decide (p.1 ≤ m) && decide (p.2 ≤ m))) = true)
    (hout : m < a ∨ m < b) :
    pairOcc s a b = 0 := by
  rw [pairOcc, List.countP_eq_zero]
  intro p hp
  rw [List.all_eq_true] at hbound
  have := hbound p hp
  rw [Bool.and_eq_true, decide_eq_true_eq, decide_eq_true_eq] at this
  intro hmatch
  rw [Bool.or_eq_true, Bool.and_eq_true, Bool.and_eq_true] at hmatch
  rcases hmatch with ⟨ha, hb⟩ | ⟨ha, hb⟩ <;>
    rw [beq_iff_eq] at ha hb <;> omega

theorem noDup_of_check (s : Schedule) (m : Nat)
    (hbound : ((s.flatMap id).all
      (fun p => decide (p.1 ≤ m) && decide (p.2 ≤ m))) = true)
    (hocc : ((List.range (m + 1)).all (fun a => (List.range (m + 1)).all
      (fun b => decide (pairOcc s a b ≤ 1)))) = true) :
    NoDupAcrossRounds s := by
  intro a b
  refine le_trans (countP_rounds_le_pairOcc s a b) ?_
  by_cases hin : a ≤ m ∧ b ≤ m
  · rw [List.all_eq_true] at hocc
    have ha := hocc a (List.mem_range.mpr (by omega))
    rw [List.all_eq_true] at ha
    have hb := ha b (List.mem_range.mpr (by omega))
    exact of_decide_eq_true hb
  · rw [pairOcc_zero_of_big s m a b hbound (by omega)]
    omega

theorem oddInv_of_check (n : Nat) (s : Schedule)
    (hlen : s.length = n)
    (hrounds : (s.all (fun round => round.length == (n - 1) / 2)) = true)
    (hbye : ((List.range (n + 1)).all (fun e => !(decide (1 ≤ e)) ||
      decide ((s.countP (fun round => !(roundElems round).contains e)) = 1)))
        = true) :
    OddInvariant n s := by
  refine ⟨hlen, ?_, ?_⟩
  · intro round hround
    rw [List.all_eq_true] at hrounds
    exact beq_iff_eq.mp (hrounds round hround)
  · intro e h1 h2
    rw [List.all_eq_true] at hbye
    have he := hbye e (List.mem_range.mpr (by omega))
    rw [Bool.or_eq_true, Bool.not_eq_eq_eq_not, Bool.not_true,
      decide_eq_false_iff_not] at he
    rcases he with hf | hf
    · omega
    · exact of_decide_eq_true hf

theorem oncePerRound_of_check (s : Schedule)
    (h : (s.all (fun round => decide (roundElems round).Nodup)) = true) :
    OncePerRound s := by
  intro round hround
  rw [List.all_eq_true] at h
  exact of_decide_eq_true (h round hround)

theorem gen3_eq : generateSchedule 3 = Except.ok s3 := rfl

theorem gen5_eq : generateSchedule 5 = Except.ok s5 := rfl

theorem gen7_eq : generateSchedule 7 = Except.ok s7 := rfl

theorem gen9_eq : generateSchedule 9 = Except.ok s9 := rfl

theorem gen11_eq : generateSchedule 11 = Except.ok s11 := rfl

theorem genF4_eq : generateScheduleWithFairByeRotation 4 = Except.ok sF4 := rfl

theorem odd_pkg_3 : CompletePairs 3 s3 ∧ NoDupAcrossRounds s3 ∧
    OncePerRound s3 ∧ OddInvariant 3 s3 :=
  ⟨completePairs_of_check 3 s3 (by decide),
   noDup_of_check s3 3 (by decide) (by decide),
   oncePerRound_of_check s3 (by decide),
   oddInv_of_check 3 s3 rfl (by decide) (by decide)⟩

theorem odd_pkg_5 : CompletePairs 5 s5 ∧ NoDupAcrossRounds s5 ∧
    OncePerRound s5 ∧ OddInvariant 5 s5 :=
  ⟨completePairs_of_check 5 s5 (by decide),
   noDup_of_check s5 5 (by decide) (by decide),
   oncePerRound_of_check s5 (by decide),
   oddInv_of_check 5 s5 rfl (by decide) (by decide)⟩

theorem odd_pkg_7 : CompletePairs 7 s7 ∧ NoDupAcrossRounds s7 ∧
    OncePerRound s7 ∧ OddInvariant 7 s7 :=
  ⟨completePairs_of_check 7 s7 (by decide),
   noDup_of_check s7 7 (by decide) (by decide),
   oncePerRound_of_check s7 (by decide),
   oddInv_of_check 7 s7 rfl (by decide) (by decide)⟩

theorem odd_pkg_9 : CompletePairs 9 s9 ∧ NoDupAcrossRounds s9 ∧
    OncePerRound s9 ∧ OddInvariant 9 s9 :=
  ⟨completePairs_of_check 9 s9 (by decide),
   noDup_of_check s9 9 (by decide) (by decide),
   oncePerRound_of_check s9 (by decide),
   oddInv_of_check 9 s9 rfl (by decide) (by decide)⟩

theorem odd_pkg_11 : CompletePairs 11 s11 ∧ NoDupAcrossRounds s11 ∧
    OncePerRound s11 ∧ OddInvariant 11 s11 :=
  ⟨completePairs_of_check 11 s11 (by decide),
   noDup_of_check s11 11 (by decide) (by decide),
   oncePerRound_of_check s11 (by decide),
   oddInv_of_check 11 s11 rfl (by decide) (by decide)⟩

theorem odd_stats_isComplete :
    (getScheduleStats s3).isComplete = true ∧
    (getScheduleStats s5).isComplete = true ∧
    (getScheduleStats s7).isComplete = true ∧
    (getScheduleStats s9).isComplete = true ∧
    (getScheduleStats s11).isComplete = true := by
  refine ⟨?_, ?_, ?_, ?_, ?_⟩ <;> decide

theorem gen4c_eq : generateSchedule 4 = Except.ok s4c := rfl

theorem getD_map_range (m i : Nat) (f : Nat → List (Nat × Nat)) (hi : i < m) :
    ((List.range m).map f).getD i [] = f i := by
  rw [List.getD_eq_getElem _ _ (by simpa using hi)]
  simp

theorem even_noConsecutive_fail (n : Nat) (hn : 4 ≤ n) (he : n % 2 = 0) :
    ¬ NoConsecutiveWork ((List.range (n - 1)).map
      (fun j => mkCircleRound n (circleList n j))) := by
  intro hncw
  have hlen : ((List.range (n - 1)).map
      (fun j => mkCircleRound n (circleList n j))).length = n - 1 := by simp
  have h0 := roundElems_circle_mem n 0 (by omega) he 1 (by omega) (by omega)
  have h1 := roundElems_circle_mem n 1 (by omega) he 1 (by omega) (by omega)
  refine hncw 0 (by omega) 1 ?_ ?_
  · rw [getD_map_range (n - 1) 0 _ (by omega)]
    exact h0
  · rw [getD_map_range (n - 1) 1 _ (by omega)]
    exact h1

/-! ## The `N = 25` run: pinned search results and certificates -/

theorem bridge25_0 : BridgeHyp (s25.take 0) 0 := by
  have h := pairUsed_eq_maskUsed (s25.take 0) (by decide)
  rwa [show maskOfSched (s25.take 0) = 0 from by decide] at h

theorem bridge25_1 : BridgeHyp (s25.take 1) 52093862756873861516954845604686880914440269735110317090880896075046200410003638795561237201076907734281319366183701777534709818582996000674363169948426344367914692718549310315597015528417832133865410160710211099765924851640193000795013120 := by
  have h := pairUsed_eq_maskUsed (s25.take 1) (by decide)
  rwa [show maskOfSched (s25.take 1) = 52093862756873861516954845604686880914440269735110317090880896075046200410003638795561237201076907734281319366183701777534709818582996000674363169948426344367914692718549310315597015528417832133865410160710211099765924851640193000795013120 from by decide] at h

theorem bridge25_2 : BridgeHyp (s25.take 2) 52093862769002909113054134160867041661919480555189556211179423931797446041163177284650285765198581069277618998573345318881819774037384692112835894605834544472816779698451911600981746101094037192886224886315315257742165170502969816218861568 := by
  have h := pairUsed_eq_maskUsed (s25.take 2) (by decide)
  rwa [show maskOfSched (s25.take 2) = 52093862769002909113054134160867041661919480555189556211179423931797446041163177284650285765198581069277618998573345318881819774037384692112835894605834544472816779698451911600981746101094037192886224886315315257742165170502969816218861568 from by decide] at h

theorem bridge25_3 : BridgeHyp (s25.take 3) 52093862769002909114466141140878667398125854190561504366003772052177992684117811234038864061047579992048862994501222528271230505638027635170349201390209114853513052921080404493969499314160362012717847542109415501266387086009724180266745856 := by
  have h := pairUsed_eq_maskUsed (s25.take 3) (by decide)
  rwa [show maskOfSched (s25.take 3) = 52093862769002909114466141140878667398125854190561504366003772052177992684117811234038864061047579992048862994501222528271230505638027635170349201390209114853513052921080404493969499314160362012717847542109415501266387086009724180266745856 from by decide] at h

theorem bridge25_4 : BridgeHyp (s25.take 4) 52093862775067432912515785418804368524932504797069359437692078968477889875863842744340554588513494170088819709938764521780341948026265791057097211455957914600697286315593035713101224022251975853442949379149895217527291340201132419889233920 := by
  have h := pairUsed_eq_maskUsed (s25.take 4) (by decide)
  rwa [show maskOfSched (s25.take 4) = 52093862775067432912515785418804368524932504797069359437692078968477889875863842744340554588513494170088819709938764521780341948026265791057097211455957914600697286315593035713101224022251975853442949379149895217527291340201132419889233920 from by decide] at h

theorem bridge25_5 : BridgeHyp (s25.take 5) 52093862775067432915339799377512586021881613639291809334708094338186785357010092904995809933157326958507567528283180989691837442401362498704073292023227929545752823946619929561551934905254988033384249614047992280237164843734134943259820032 := by
  have h := pairUsed_eq_maskUsed (s25.take 5) (by decide)
  rwa [show maskOfSched (s25.take 5) = 52093862775067432915339799377512586021881613639291809334708094338186785357010092904995809933157326958507567528283180989691837442401362498704073292023227929545752823946619929561551934905254988033384249614047992280237164843734134943259820032 from by decide] at h

theorem bridge25_6 : BridgeHyp (s25.take 6) 52093862775067432915339799377512586022034703742752079040074687516309052789373454295155436136270090231749556538666648523238528004682681378137946836985600453492472858888693061317911186876517473723197200995384822178293247033945037930097541120 := by
  have h := pairUsed_eq_maskUsed (s25.take 6) (by decide)
  rwa [show maskOfSched (s25.take 6) = 52093862775067432915339799377512586022034703742752079040074687516309052789373454295155436136270090231749556538666648523238528004682681378137946836985600453492472858888693061317911186876517473723197200995384822178293247033945037930097541120 from by decide] at h

theorem bridge25_7 : BridgeHyp (s25.take 7) 52093862775067432915339799377594775645496397078803833384106900226601556036377005912555258026430894804875501742364379481431237792624760803455841589360454436796214203861171635837690713493734483064481413064845053802709462399930240658967625728 := by
  have h := pairUsed_eq_maskUsed (s25.take 7) (by decide)
  rwa [show maskOfSched (s25.take 7) = 52093862775067432915339799377594775645496397078803833384106900226601556036377005912555258026430894804875501742364379481431237792624760803455841589360454436796214203861171635837690713493734483064481413064845053802709462399930240658967625728 from by decide] at h

theorem bridge25_8 : BridgeHyp (s25.take 8) 52093862775067432915339799377759154892419783750909569826362810267143195755183062386765100881452447404991540675812739002533739034993957805821324632953443489698425336712366780670167236002164520988238196405244107790116189067462677242564313088 := by
  have h := pairUsed_eq_maskUsed (s25.take 8) (by decide)
  rwa [show maskOfSched (s25.take 8) = 52093862775067432915339799377759154892419783750909569826362810267143195755183062386765100881452447404991540675812739002533739034993957805821324632953443489698425336712366780670167236002164520988238196405244107790116189067462677242564313088 from by decide] at h

theorem bridge25_9 : BridgeHyp (s25.take 9) 52093862775067432915339799377759154892496328802647501818771932469147856570011558160871458798300280225423150752679450200997876267995068360329191752848810260598883965763017372513732509449129008184819364852880826439268890718338510543218802688 := by
  have h := pairUsed_eq_maskUsed (s25.take 9) (by decide)
  rwa [show maskOfSched (s25.take 9) = 52093862775067432915339799377759154892496328802647501818771932469147856570011558160871458798300280225423150752679450200997876267995068360329191752848810260598883965763017372513732509449129008184819364852880826439268890718338510543218802688 from by decide] at h

theorem bridge25_10 : BridgeHyp (s25.take 10) 52093862775067432915339799377759154892496328802647501818771932469147856570011558160871563546799745096293267266201286073656126381806635588101633171907652349864756556510692243219795725256349847407373240114919603908568057353489253145478430720 := by
  have h := pairUsed_eq_maskUsed (s25.take 10) (by decide)
  rwa [show maskOfSched (s25.take 10) = 52093862775067432915339799377759154892496328802647501818771932469147856570011558160871563546799745096293267266201286073656126381806635588101633171907652349864756556510692243219795725256349847407373240114919603908568057353489253145478430720 from by decide] at h

theorem bridge25_11 : BridgeHyp (s25.take 11) 52093862775067432915339799377759154892496328802647501818771932469147856570011558160871615921049495823223737530729185009427508054389466554648336570770069185702047636124309357634652737338572467015998876782475994177381179666287046753343504384 := by
  have h := pairUsed_eq_maskUsed (s25.take 11) (by decide)
  rwa [show maskOfSched (s25.take 11) = 52093862775067432915339799377759154892496328802647501818771932469147856570011558160871615921049495823223737530729185009427508054389466554648336570770069185702047636124309357634652737338572467015998876782475994177381179666287046753343504384 from by decide] at h

theorem bridge25_12 : BridgeHyp (s25.take 12) 52093862775067432915339799377759154892496328802647501818771932469147856570011558160871642108174358992358697636246759630220726095354008344334437158397363316247940264527336366497394290626467649327886181169535359177456555953378047691228971008 := by
  have h := pairUsed_eq_maskUsed (s25.take 12) (by decide)
  rwa [show maskOfSched (s25.take 12) = 52093862775067432915339799377759154892496328802647501818771932469147856570011558160871642108174358992358697636246759630220726095354008344334437158397363316247940264527336366497394290626467649327886181169535359177456555953378047691228971008 from by decide] at h

theorem bridge25_13 : BridgeHyp (s25.take 13) 52093862775067432915339799377759154892496328802647501818771932469147856570011558160871642108174360516649981970227341359516248464918124063855576665996554693534674131562535564053933086619409182658760965542909024534898122669735527927439687680 := by
  have h := pairUsed_eq_maskUsed (s25.take 13) (by decide)
  rwa [show maskOfSched (s25.take 13) = 52093862775067432915339799377759154892496328802647501818771932469147856570011558160871642108174360516649981970227341359516248464918124063855576665996554693534674131562535564053933086619409182658760965542909024534898122669735527927439687680 from by decide] at h

theorem bridge25_14 : BridgeHyp (s25.take 14) 52093862775067432915339799377759154892496328802647501818771932469147856570011558160871642108174360516649987648654874918945081035424459894676808098003957862172316857325131206657038296455375637977832722321979828042806569272346061605565366272 := by
  have h := pairUsed_eq_maskUsed (s25.take 14) (by decide)
  rwa [show maskOfSched (s25.take 14) = 52093862775067432915339799377759154892496328802647501818771932469147856570011558160871642108174360516649987648654874918945081035424459894676808098003957862172316857325131206657038296455375637977832722321979828042806569272346061605565366272 from by decide] at h

theorem bridge25_15 : BridgeHyp (s25.take 15) 52093862775067432915339799377759154892496328802647501818771932469147856570011558160871642108174360516649987648654875580001049830482874056672862783724503723580621192888756948789273925374085475355810839855948304443184024115113930732355977216 := by
  have h := pairUsed_eq_maskUsed (s25.take 15) (by decide)
  rwa [show maskOfSched (s25.take 15) = 52093862775067432915339799377759154892496328802647501818771932469147856570011558160871642108174360516649987648654875580001049830482874056672862783724503723580621192888756948789273925374085475355810839855948304443184024115113930732355977216 from by decide] at h

theorem bridge25_16 : BridgeHyp (s25.take 16) 52093862775067432915339799377759154892496328802647501818771932469147856570011558160871655201736798198382607876549757909406101944861582448594338296736025020450531411300409200075945241935872429885883382315437805394424793960288208028151316480 := by
  have h := pairUsed_eq_maskUsed (s25.take 16) (by decide)
  rwa [show maskOfSched (s25.take 16) = 52093862775067432915339799377759154892496328802647501818771932469147856570011558160871655201736798198382607876549757909406101944861582448594338296736025020450531411300409200075945241935872429885883382315437805394424793960288208028151316480 from by decide] at h

theorem bridge25_17 : BridgeHyp (s25.take 17) 52093862775067432915339799377759154892496328802647501818771932469147856570011558160871661748518017039248916748341175457256601623400787154038282604946104729444214832481374790696903464495650646659914948686721268863294377627682585709884997632 := by
  have h := pairUsed_eq_maskUsed (s25.take 17) (by decide)
  rwa [show maskOfSched (s25.take 17) = 52093862775067432915339799377759154892496328802647501818771932469147856570011558160871661748518017039248916748341175457256601623400787154038282604946104729444214832481374790696903464495650646659914948686721268863294377627682585709884997632 from by decide] at h

theorem bridge25_18 : BridgeHyp (s25.take 18) 52093862775067432915339799377759154892496328802647501818771932469147856570011558160871665021908625030658992387306379490401026090533422446551233769677996306257525711819635760590735527694054043829527878943288656021328904003566887569050304512 := by
  have h := pairUsed_eq_maskUsed (s25.take 18) (by decide)
  rwa [show maskOfSched (s25.take 18) = 52093862775067432915339799377759154892496328802647501818771932469147856570011558160871665021908625030658992387306379490401026090533422446551233769677996306257525711819635760590735527694054043829527878943288656021328904003566887569050304512 from by decide] at h

theorem bridge25_19 : BridgeHyp (s25.take 19) 52093862775067432915339799377759154892496328802647501818771932469147856570011558160871665226495538786313501430121026406773734284045792947605605509331995715637889494552940065732082109669902815192788786119896794748517201616155515469669859328 := by
  have h := pairUsed_eq_maskUsed (s25.take 19) (by decide)
  rwa [show maskOfSched (s25.take 19) = 52093862775067432915339799377759154892496328802647501818771932469147856570011558160871665226495538786313501430121026406773734284045792947605605509331995715637889494552940065732082109669902815192788786119896794748517201616155515469669859328 from by decide] at h

theorem bridge25_20 : BridgeHyp (s25.take 20) 52093862775067432915339799377759154892496328802647501818771932469147856570011558160871666863190842734384436481078589931670847902396486995929279156306403753098003656510269233287770080498150112978619217185810347720512062864798942480123822080 := by
  have h := pairUsed_eq_maskUsed (s25.take 20) (by decide)
  rwa [show maskOfSched (s25.take 20) = 52093862775067432915339799377759154892496328802647501818771932469147856570011558160871666863190842734384436481078589931670847902396486995929279156306403753098003656510269233287770080498150112978619217185810347720512062864798942480123822080 from by decide] at h

theorem bridge25_21 : BridgeHyp (s25.take 21) 52093862775067432915339799377759154892496328802647501818771932469147856570011558160871667272364668911938580774474874771940681287643593798467159725885588215139679322796813744120006196207041324276107108558336047705569450861628324755219152896 := by
  have h := pairUsed_eq_maskUsed (s25.take 21) (by decide)
  rwa [show maskOfSched (s25.take 21) = 52093862775067432915339799377759154892496328802647501818771932469147856570011558160871667272364668911938580774474874771940681287643593798467159725885588215139679322796813744120006196207041324276107108558336047705569450861628324755219152896 from by decide] at h

theorem bridge25_22 : BridgeHyp (s25.take 22) 52093862775067432915339799377759154892496328802647501818771932469147856570011558160871668090712320885974048366497729273338540948296887873181651723482803270927336535352602952988473579458769341504522829959045334781400733232287147017984016384 := by
  have h := pairUsed_eq_maskUsed (s25.take 22) (by decide)
  rwa [show maskOfSched (s25.take 22) = 52093862775067432915339799377759154892496328802647501818771932469147856570011558160871668090712320885974048366497729273338540948296887873181651723482803270927336535352602952988473579458769341504522829959045334781400733232287147017984016384 from by decide] at h

theorem bridge25_23 : BridgeHyp (s25.take 23) 52093862775067432915339799377759154892496328802647501818771932469147856570011558160871668090712321267046869472174232261211190292997231247663651719365531358270747240142603573602387846683353534151319369229352197702652959423991312914539610112 := by
  have h := pairUsed_eq_maskUsed (s25.take 23) (by decide)
  rwa [show maskOfSched (s25.take 23) = 52093862775067432915339799377759154892496328802647501818771932469147856570011558160871668090712321267046869472174232261211190292997231247663651719365531358270747240142603573602387846683353534151319369229352197702652959423991312914539610112 from by decide] at h

theorem bridge25_24 : BridgeHyp (s25.take 24) 52093862775067432915339799377759154892496328802647501818771932469147856570011558160871668090712321267046869472174232261211190292997231247663651719365531358270747240142603573602387846683353534151319369229352197702652959423991312914539610112 := by
  have h := pairUsed_eq_maskUsed (s25.take 24) (by decide)
  rwa [show maskOfSched (s25.take 24) = 52093862775067432915339799377759154892496328802647501818771932469147856570011558160871668090712321267046869472174232261211190292997231247663651719365531358270747240142603573602387846683353534151319369229352197702652959423991312914539610112 from by decide] at h

theorem n25_0_d11 : fvpF 13 [24, 25] (s25.take 0) = some [(24, 25)] :=
  (Eq.trans (fvpF_succ 12 [24, 25] (s25.take 0) (by decide))
  (tryRange_hit 12 [24, 25] (s25.take 0) 1 0 []
    ((bridge25_0 (([24, 25] : List Nat).getD 0 0) (([24, 25] : List Nat).getD 1 0)
      (by decide) (by decide)).trans (by decide))
    (fvpF_nil 12 (s25.take 0))))

theorem n25_0_d10 : fvpF 14 [22, 23, 24, 25] (s25.take 0) = some [(22, 23), (24, 25)] :=
  (Eq.trans (fvpF_succ 13 [22, 23, 24, 25] (s25.take 0) (by decide))
  (tryRange_hit 13 [22, 23, 24, 25] (s25.take 0) 1 2 [(24, 25)]
    ((bridge25_0 (([22, 23, 24, 25] : List Nat).getD 0 0) (([22, 23, 24, 25] : List Nat).getD 1 0)
      (by decide) (by decide)).trans (by decide))
    n25_0_d11))

theorem n25_0_d9 : fvpF 15 [20, 21, 22, 23, 24, 25] (s25.take 0) = some [(20, 21), (22, 23), (24, 25)] :=
  (Eq.trans (fvpF_succ 14 [20, 21, 22, 23, 24, 25] (s25.take 0) (by decide))
  (tryRange_hit 14 [20, 21, 22, 23, 24, 25] (s25.take 0) 1 4 [(22, 23), (24, 25)]
    ((bridge25_0 (([20, 21, 22, 23, 24, 25] : List Nat).getD 0 0) (([20, 21, 22, 23, 24, 25] : List Nat).getD 1 0)
      (by decide) (by decide)).trans (by decide))
    n25_0_d10))

theorem n25_0_d8 : fvpF 16 [18, 19, 20, 21, 22, 23, 24, 25] (s25.take 0) = some [(18, 19), (20, 21), (22, 23), (24, 25)] :=
  (Eq.trans (fvpF_succ 15 [18, 19, 20, 21, 22, 23, 24, 25] (s25.take 0) (by decide))
  (tryRange_hit 15 [18, 19, 20, 21, 22, 23, 24, 25] (s25.take 0) 1 6 [(20, 21), (22, 23), (24, 25)]
    ((bridge25_0 (([18, 19, 20, 21, 22, 23, 24, 25] : List Nat).getD 0 0) (([18, 19, 20, 21, 22, 23, 24, 25] : List Nat).getD 1 0)
      (by decide) (by decide)).trans (by decide))
    n25_0_d9))

theorem n25_0_d7 : fvpF 17 [16, 17, 18, 19, 20, 21, 22, 23, 24, 25] (s25.take 0) = some [(16, 17), (18, 19), (20, 21), (22, 23), (24, 25)] :=
  (Eq.trans (fvpF_succ 16 [16, 17, 18, 19, 20, 21, 22, 23, 24, 25] (s25.take 0) (by decide))
  (tryRange_hit 16 [16, 17, 18, 19, 20, 21, 22, 23, 24, 25] (s25.take 0) 1 8 [(18, 19), (20, 21), (22, 23), (24, 25)]
    ((bridge25_0 (([16, 17, 18, 19, 20, 21, 22, 23, 24, 25] : List Nat).getD 0 0) (([16, 17, 18, 19, 20, 21, 22, 23, 24, 25] : List Nat).getD 1 0)
      (by decide) (by decide)).trans (by decide))
    n25_0_d8))

theorem n25_0_d6 : fvpF 18 [14, 15, 16, 17, 18, 19, 20, 21, 22, 23, 24, 25] (s25.take 0) = some [(14, 15), (16, 17), (18, 19), (20, 21), (22, 23), (24, 25)] :=
  (Eq.trans (fvpF_succ 17 [14, 15, 16, 17, 18, 19, 20, 21, 22, 23, 24, 25] (s25.take 0) (by decide))
  (tryRange_hit 17 [14, 15, 16, 17, 18, 19, 20, 21, 22, 23, 24, 25] (s25.take 0) 1 10 [(16, 17), (18, 19), (20, 21), (22, 23), (24, 25)]
    ((bridge25_0 (([14, 15, 16, 17, 18, 19, 20, 21, 22, 23, 24, 25] : List Nat).getD 0 0) (([14, 15, 16, 17, 18, 19, 20, 21, 22, 23, 24, 25] : List Nat).getD 1 0)
      (by decide) (by decide)).trans (by decide))
    n25_0_d7))

theorem n25_0_d5 : fvpF 19 [12, 13, 14, 15, 16, 17, 18, 19, 20, 21, 22, 23, 24, 25] (s25.take 0) = some [(12, 13), (14, 15), (16, 17), (18, 19), (20, 21), (22, 23), (24, 25)] :=
  (Eq.trans (fvpF_succ 18 [12, 13, 14, 15, 16, 17, 18, 19, 20, 21, 22, 23, 24, 25] (s25.take 0) (by decide))
  (tryRange_hit 18 [12, 13, 14, 15, 16, 17, 18, 19, 20, 21, 22, 23, 24, 25] (s25.take 0) 1 12 [(14, 15), (16, 17), (18, 19), (20, 21), (22, 23), (24, 25)]
    ((bridge25_0 (([12, 13, 14, 15, 16, 17, 18, 19, 20, 21, 22, 23, 24, 25] : List Nat).getD 0 0) (([12, 13, 14, 15, 16, 17, 18, 19, 20, 21, 22, 23, 24, 25] : List Nat).getD 1 0)
      (by decide) (by decide)).trans (by decide))
    n25_0_d6))

theorem n25_0_d4 : fvpF 20 [10, 11, 12, 13, 14, 15, 16, 17, 18, 19, 20, 21, 22, 23, 24, 25] (s25.take 0) = some [(10, 11), (12, 13), (14, 15), (16, 17), (18, 19), (20, 21), (22, 23), (24, 25)] :=
  (Eq.trans (fvpF_succ 19 [10, 11, 12, 13, 14, 15, 16, 17, 18, 19, 20, 21, 22, 23, 24, 25] (s25.take 0) (by decide))
  (tryRange_hit 19 [10, 11, 12, 13, 14, 15, 16, 17, 18, 19, 20, 21, 22, 23, 24, 25] (s25.take 0) 1 14 [(12, 13), (14, 15), (16, 17), (18, 19), (20, 21), (22, 23), (24, 25)]
    ((bridge25_0 (([10, 11, 12, 13, 14, 15, 16, 17, 18, 19, 20, 21, 22, 23, 24, 25] : List Nat).getD 0 0) (([10, 11, 12, 13, 14, 15, 16, 17, 18, 19, 20, 21, 22, 23, 24, 25] : List Nat).getD 1 0)
      (by decide) (by decide)).trans (by decide))
    n25_0_d5))

theorem n25_0_d3 : fvpF 21 [8, 9, 10, 11, 12, 13, 14, 15, 16, 17, 18, 19, 20, 21, 22, 23, 24, 25] (s25.take 0) = some [(8, 9), (10, 11), (12, 13), (14, 15), (16, 17), (18, 19), (20, 21), (22, 23), (24, 25)] :=
  (Eq.trans (fvpF_succ 20 [8, 9, 10, 11, 12, 13, 14, 15, 16, 17, 18, 19, 20, 21, 22, 23, 24, 25] (s25.take 0) (by decide))
  (tryRange_hit 20 [8, 9, 10, 11, 12, 13, 14, 15, 16, 17, 18, 19, 20, 21, 22, 23, 24, 25] (s25.take 0) 1 16 [(10, 11), (12, 13), (14, 15), (16, 17), (18, 19), (20, 21), (22, 23), (24, 25)]
    ((bridge25_0 (([8, 9, 10, 11, 12, 13, 14, 15, 16, 17, 18, 19, 20, 21, 22, 23, 24, 25] : List Nat).getD 0 0) (([8, 9, 10, 11, 12, 13, 14, 15, 16, 17, 18, 19, 20, 21, 22, 23, 24, 25] : List Nat).getD 1 0)
      (by decide) (by decide)).trans (by decide))
    n25_0_d4))

theorem n25_0_d2 : fvpF 22 [6, 7, 8, 9, 10, 11, 12, 13, 14, 15, 16, 17, 18, 19, 20, 21, 22, 23, 24, 25] (s25.take 0) = some [(6, 7), (8, 9), (10, 11), (12, 13), (14, 15), (16, 17), (18, 19), (20, 21), (22, 23), (24, 25)] :=
  (Eq.trans (fvpF_succ 21 [6, 7, 8, 9, 10, 11, 12, 13, 14, 15, 16, 17, 18, 19, 20, 21, 22, 23, 24, 25] (s25.take 0) (by decide))
  (tryRange_hit 21 [6, 7, 8, 9, 10, 11, 12, 13, 14, 15, 16, 17, 18, 19, 20, 21, 22, 23, 24, 25] (s25.take 0) 1 18 [(8, 9), (10, 11), (12, 13), (14, 15), (16, 17), (18, 19), (20, 21), (22, 23), (24, 25)]
    ((bridge25_0 (([6, 7, 8, 9, 10, 11, 12, 13, 14, 15, 16, 17, 18, 19, 20, 21, 22, 23, 24, 25] : List Nat).getD 0 0) (([6, 7, 8, 9, 10, 11, 12, 13, 14, 15, 16, 17, 18, 19, 20, 21, 22, 23, 24, 25] : List Nat).getD 1 0)
      (by decide) (by decide)).trans (by decide))
    n25_0_d3))

theorem n25_0_d1 : fvpF 23 [4, 5, 6, 7, 8, 9, 10, 11, 12, 13, 14, 15, 16, 17, 18, 19, 20, 21, 22, 23, 24, 25] (s25.take 0) = some [(4, 5), (6, 7), (8, 9), (10, 11), (12, 13), (14, 15), (16, 17), (18, 19), (20, 21), (22, 23), (24, 25)] :=
  (Eq.trans (fvpF_succ 22 [4, 5, 6, 7, 8, 9, 10, 11, 12, 13, 14, 15, 16, 17, 18, 19, 20, 21, 22, 23, 24, 25] (s25.take 0) (by decide))
  (tryRange_hit 22 [4, 5, 6, 7, 8, 9, 10, 11, 12, 13, 14, 15, 16, 17, 18, 19, 20, 21, 22, 23, 24, 25] (s25.take 0) 1 20 [(6, 7), (8, 9), (10, 11), (12, 13), (14, 15), (16, 17), (18, 19), (20, 21), (22, 23), (24, 25)]
    ((bridge25_0 (([4, 5, 6, 7, 8, 9, 10, 11, 12, 13, 14, 15, 16, 17, 18, 19, 20, 21, 22, 23, 24, 25] : List Nat).getD 0 0) (([4, 5, 6, 7, 8, 9, 10, 11, 12, 13, 14, 15, 16, 17, 18, 19, 20, 21, 22, 23, 24, 25] : List Nat).getD 1 0)
      (by decide) (by decide)).trans (by decide))
    n25_0_d2))

theorem n25_0_d0 : fvpF 24 [2, 3, 4, 5, 6, 7, 8, 9, 10, 11, 12, 13, 14, 15, 16, 17, 18, 19, 20, 21, 22, 23, 24, 25] (s25.take 0) = some [(2, 3), (4, 5), (6, 7), (8, 9), (10, 11), (12, 13), (14, 15), (16, 17), (18, 19), (20, 21), (22, 23), (24, 25)] :=
  (Eq.trans (fvpF_succ 23 [2, 3, 4, 5, 6, 7, 8, 9, 10, 11, 12, 13, 14, 15, 16, 17, 18, 19, 20, 21, 22, 23, 24, 25] (s25.take 0) (by decide))
  (tryRange_hit 23 [2, 3, 4, 5, 6, 7, 8, 9, 10, 11, 12, 13, 14, 15, 16, 17, 18, 19, 20, 21, 22, 23, 24, 25] (s25.take 0) 1 22 [(4, 5), (6, 7), (8, 9), (10, 11), (12, 13), (14, 15), (16, 17), (18, 19), (20, 21), (22, 23), (24, 25)]
    ((bridge25_0 (([2, 3, 4, 5, 6, 7, 8, 9, 10, 11, 12, 13, 14, 15, 16, 17, 18, 19, 20, 21, 22, 23, 24, 25] : List Nat).getD 0 0) (([2, 3, 4, 5, 6, 7, 8, 9, 10, 11, 12, 13, 14, 15, 16, 17, 18, 19, 20, 21, 22, 23, 24, 25] : List Nat).getD 1 0)
      (by decide) (by decide)).trans (by decide))
    n25_0_d1))

theorem fvp25_0 : findValidPairs [2, 3, 4, 5, 6, 7, 8, 9, 10, 11, 12, 13, 14, 15, 16, 17, 18, 19, 20, 21, 22, 23, 24, 25] (s25.take 0) = some [(2, 3), (4, 5), (6, 7), (8, 9), (10, 11), (12, 13), (14, 15), (16, 17), (18, 19), (20, 21), (22, 23), (24, 25)] := n25_0_d0

theorem n25_1_d11 : fvpF 13 [23, 25] (s25.take 1) = some [(23, 25)] :=
  (Eq.trans (fvpF_succ 12 [23, 25] (s25.take 1) (by decide))
  (tryRange_hit 12 [23, 25] (s25.take 1) 1 0 []
    ((bridge25_1 (([23, 25] : List Nat).getD 0 0) (([23, 25] : List Nat).getD 1 0)
      (by decide) (by decide)).trans (by decide))
    (fvpF_nil 12 (s25.take 1))))

theorem c25_1_0 : fvpF 13 [24, 25] (s25.take 1) = none :=
  fvpF_none_of_cert 13 [24, 25] (s25.take 1) 52093862756873861516954845604686880914440269735110317090880896075046200410003638795561237201076907734281319366183701777534709818582996000674363169948426344367914692718549310315597015528417832133865410160710211099765924851640193000795013120 bridge25_1
    [] [[24]]
    (by decide) (by decide) (by decide) (by decide) (by decide) (by decide)
    (by decide) (by decide)

theorem n25_1_d10 : fvpF 14 [21, 23, 24, 25] (s25.take 1) = some [(21, 24), (23, 25)] :=
  (Eq.trans (fvpF_succ 13 [21, 23, 24, 25] (s25.take 1) (by decide))
  (Eq.trans (tryRange_fail 13 [21, 23, 24, 25] (s25.take 1) 1 2
    ((bridge25_1 (([21, 23, 24, 25] : List Nat).getD 0 0) (([21, 23, 24, 25] : List Nat).getD 1 0)
      (by decide) (by decide)).trans (by decide))
    c25_1_0)
  (tryRange_hit 13 [21, 23, 24, 25] (s25.take 1) 2 1 [(23, 25)]
    ((bridge25_1 (([21, 23, 24, 25] : List Nat).getD 0 0) (([21, 23, 24, 25] : List Nat).getD 2 0)
      (by decide) (by decide)).trans (by decide))
    n25_1_d11)))

theorem n25_1_d9 : fvpF 15 [20, 21, 22, 23, 24, 25] (s25.take 1) = some [(20, 22), (21, 24), (23, 25)] :=
  (Eq.trans (fvpF_succ 14 [20, 21, 22, 23, 24, 25] (s25.take 1) (by decide))
  (Eq.trans (tryRange_skipAll 14 [20, 21, 22, 23, 24, 25] (s25.take 1) 52093862756873861516954845604686880914440269735110317090880896075046200410003638795561237201076907734281319366183701777534709818582996000674363169948426344367914692718549310315597015528417832133865410160710211099765924851640193000795013120 bridge25_1
    (by decide) 1 1 4 (by decide))
  (tryRange_hit 14 [20, 21, 22, 23, 24, 25] (s25.take 1) 2 3 [(21, 24), (23, 25)]
    ((bridge25_1 (([20, 21, 22, 23, 24, 25] : List Nat).getD 0 0) (([20, 21, 22, 23, 24, 25] : List Nat).getD 2 0)
      (by decide) (by decide)).trans (by decide))
    n25_1_d10)))

theorem n25_1_d8 : fvpF 16 [17, 19, 20, 21, 22, 23, 24, 25] (s25.take 1) = some [(17, 19), (20, 22), (21, 24), (23, 25)] :=
  (Eq.trans (fvpF_succ 15 [17, 19, 20, 21, 22, 23, 24, 25] (s25.take 1) (by decide))
  (tryRange_hit 15 [17, 19, 20, 21, 22, 23, 24, 25] (s25.take 1) 1 6 [(20, 22), (21, 24), (23, 25)]
    ((bridge25_1 (([17, 19, 20, 21, 22, 23, 24, 25] : List Nat).getD 0 0) (([17, 19, 20, 21, 22, 23, 24, 25] : List Nat).getD 1 0)
      (by decide) (by decide)).trans (by decide))
    n25_1_d9))

theorem n25_1_d7 : fvpF 17 [16, 17, 18, 19, 20, 21, 22, 23, 24, 25] (s25.take 1) = some [(16, 18), (17, 19), (20, 22), (21, 24), (23, 25)] :=
  (Eq.trans (fvpF_succ 16 [16, 17, 18, 19, 20, 21, 22, 23, 24, 25] (s25.take 1) (by decide))
  (Eq.trans (tryRange_skipAll 16 [16, 17, 18, 19, 20, 21, 22, 23, 24, 25] (s25.take 1) 52093862756873861516954845604686880914440269735110317090880896075046200410003638795561237201076907734281319366183701777534709818582996000674363169948426344367914692718549310315597015528417832133865410160710211099765924851640193000795013120 bridge25_1
    (by decide) 1 1 8 (by decide))
  (tryRange_hit 16 [16, 17, 18, 19, 20, 21, 22, 23, 24, 25] (s25.take 1) 2 7 [(17, 19), (20, 22), (21, 24), (23, 25)]
    ((bridge25_1 (([16, 17, 18, 19, 20, 21, 22, 23, 24, 25] : List Nat).getD 0 0) (([16, 17, 18, 19, 20, 21, 22, 23, 24, 25] : List Nat).getD 2 0)
      (by decide) (by decide)).trans (by decide))
    n25_1_d8)))

theorem n25_1_d6 : fvpF 18 [13, 15, 16, 17, 18, 19, 20, 21, 22, 23, 24, 25] (s25.take 1) = some [(13, 15), (16, 18), (17, 19), (20, 22), (21, 24), (23, 25)] :=
  (Eq.trans (fvpF_succ 17 [13, 15, 16, 17, 18, 19, 20, 21, 22, 23, 24, 25] (s25.take 1) (by decide))
  (tryRange_hit 17 [13, 15, 16, 17, 18, 19, 20, 21, 22, 23, 24, 25] (s25.take 1) 1 10 [(16, 18), (17, 19), (20, 22), (21, 24), (23, 25)]
    ((bridge25_1 (([13, 15, 16, 17, 18, 19, 20, 21, 22, 23, 24, 25] : List Nat).getD 0 0) (([13, 15, 16, 17, 18, 19, 20, 21, 22, 23, 24, 25] : List Nat).getD 1 0)
      (by decide) (by decide)).trans (by decide))
    n25_1_d7))

theorem n25_1_d5 : fvpF 19 [12, 13, 14, 15, 16, 17, 18, 19, 20, 21, 22, 23, 24, 25] (s25.take 1) = some [(12, 14), (13, 15), (16, 18), (17, 19), (20, 22), (21, 24), (23, 25)] :=
  (Eq.trans (fvpF_succ 18 [12, 13, 14, 15, 16, 17, 18, 19, 20, 21, 22, 23, 24, 25] (s25.take 1) (by decide))
  (Eq.trans (tryRange_skipAll 18 [12, 13, 14, 15, 16, 17, 18, 19, 20, 21, 22, 23, 24, 25] (s25.take 1) 52093862756873861516954845604686880914440269735110317090880896075046200410003638795561237201076907734281319366183701777534709818582996000674363169948426344367914692718549310315597015528417832133865410160710211099765924851640193000795013120 bridge25_1
    (by decide) 1 1 12 (by decide))
  (tryRange_hit 18 [12, 13, 14, 15, 16, 17, 18, 19, 20, 21, 22, 23, 24, 25] (s25.take 1) 2 11 [(13, 15), (16, 18), (17, 19), (20, 22), (21, 24), (23, 25)]
    ((bridge25_1 (([12, 13, 14, 15, 16, 17, 18, 19, 20, 21, 22, 23, 24, 25] : List Nat).getD 0 0) (([12, 13, 14, 15, 16, 17, 18, 19, 20, 21, 22, 23, 24, 25] : List Nat).getD 2 0)
      (by decide) (by decide)).trans (by decide))
    n25_1_d6)))

theorem n25_1_d4 : fvpF 20 [9, 11, 12, 13, 14, 15, 16, 17, 18, 19, 20, 21, 22, 23, 24, 25] (s25.take 1) = some [(9, 11), (12, 14), (13, 15), (16, 18), (17, 19), (20, 22), (21, 24), (23, 25)] :=
  (Eq.trans (fvpF_succ 19 [9, 11, 12, 13, 14, 15, 16, 17, 18, 19, 20, 21, 22, 23, 24, 25] (s25.take 1) (by decide))
  (tryRange_hit 19 [9, 11, 12, 13, 14, 15, 16, 17, 18, 19, 20, 21, 22, 23, 24, 25] (s25.take 1) 1 14 [(12, 14), (13, 15), (16, 18), (17, 19), (20, 22), (21, 24), (23, 25)]
    ((bridge25_1 (([9, 11, 12, 13, 14, 15, 16, 17, 18, 19, 20, 21, 22, 23, 24, 25] : List Nat).getD 0 0) (([9, 11, 12, 13, 14, 15, 16, 17, 18, 19, 20, 21, 22, 23, 24, 25] : List Nat).getD 1 0)
      (by decide) (by decide)).trans (by decide))
    n25_1_d5))

theorem n25_1_d3 : fvpF 21 [8, 9, 10, 11, 12, 13, 14, 15, 16, 17, 18, 19, 20, 21, 22, 23, 24, 25] (s25.take 1) = some [(8, 10), (9, 11), (12, 14), (13, 15), (16, 18), (17, 19), (20, 22), (21, 24), (23, 25)] :=
  (Eq.trans (fvpF_succ 20 [8, 9, 10, 11, 12, 13, 14, 15, 16, 17, 18, 19, 20, 21, 22, 23, 24, 25] (s25.take 1) (by decide))
  (Eq.trans (tryRange_skipAll 20 [8, 9, 10, 11, 12, 13, 14, 15, 16, 17, 18, 19, 20, 21, 22, 23, 24, 25] (s25.take 1) 52093862756873861516954845604686880914440269735110317090880896075046200410003638795561237201076907734281319366183701777534709818582996000674363169948426344367914692718549310315597015528417832133865410160710211099765924851640193000795013120 bridge25_1
    (by decide) 1 1 16 (by decide))
  (tryRange_hit 20 [8, 9, 10, 11, 12, 13, 14, 15, 16, 17, 18, 19, 20, 21, 22, 23, 24, 25] (s25.take 1) 2 15 [(9, 11), (12, 14), (13, 15), (16, 18), (17, 19), (20, 22), (21, 24), (23, 25)]
    ((bridge25_1 (([8, 9, 10, 11, 12, 13, 14, 15, 16, 17, 18, 19, 20, 21, 22, 23, 24, 25] : List Nat).getD 0 0) (([8, 9, 10, 11, 12, 13, 14, 15, 16, 17, 18, 19, 20, 21, 22, 23, 24, 25] : List Nat).getD 2 0)
      (by decide) (by decide)).trans (by decide))
    n25_1_d4)))

theorem n25_1_d2 : fvpF 22 [5, 7, 8, 9, 10, 11, 12, 13, 14, 15, 16, 17, 18, 19, 20, 21, 22, 23, 24, 25] (s25.take 1) = some [(5, 7), (8, 10), (9, 11), (12, 14), (13, 15), (16, 18), (17, 19), (20, 22), (21, 24), (23, 25)] :=
  (Eq.trans (fvpF_succ 21 [5, 7, 8, 9, 10, 11, 12, 13, 14, 15, 16, 17, 18, 19, 20, 21, 22, 23, 24, 25] (s25.take 1) (by decide))
  (tryRange_hit 21 [5, 7, 8, 9, 10, 11, 12, 13, 14, 15, 16, 17, 18, 19, 20, 21, 22, 23, 24, 25] (s25.take 1) 1 18 [(8, 10), (9, 11), (12, 14), (13, 15), (16, 18), (17, 19), (20, 22), (21, 24), (23, 25)]
    ((bridge25_1 (([5, 7, 8, 9, 10, 11, 12, 13, 14, 15, 16, 17, 18, 19, 20, 21, 22, 23, 24, 25] : List Nat).getD 0 0) (([5, 7, 8, 9, 10, 11, 12, 13, 14, 15, 16, 17, 18, 19, 20, 21, 22, 23, 24, 25] : List Nat).getD 1 0)
      (by decide) (by decide)).trans (by decide))
    n25_1_d3))

theorem n25_1_d1 : fvpF 23 [4, 5, 6, 7, 8, 9, 10, 11, 12, 13, 14, 15, 16, 17, 18, 19, 20, 21, 22, 23, 24, 25] (s25.take 1) = some [(4, 6), (5, 7), (8, 10), (9, 11), (12, 14), (13, 15), (16, 18), (17, 19), (20, 22), (21, 24), (23, 25)] :=
  (Eq.trans (fvpF_succ 22 [4, 5, 6, 7, 8, 9, 10, 11, 12, 13, 14, 15, 16, 17, 18, 19, 20, 21, 22, 23, 24, 25] (s25.take 1) (by decide))
  (Eq.trans (tryRange_skipAll 22 [4, 5, 6, 7, 8, 9, 10, 11, 12, 13, 14, 15, 16, 17, 18, 19, 20, 21, 22, 23, 24, 25] (s25.take 1) 52093862756873861516954845604686880914440269735110317090880896075046200410003638795561237201076907734281319366183701777534709818582996000674363169948426344367914692718549310315597015528417832133865410160710211099765924851640193000795013120 bridge25_1
    (by decide) 1 1 20 (by decide))
  (tryRange_hit 22 [4, 5, 6, 7, 8, 9, 10, 11, 12, 13, 14, 15, 16, 17, 18, 19, 20, 21, 22, 23, 24, 25] (s25.take 1) 2 19 [(5, 7), (8, 10), (9, 11), (12, 14), (13, 15), (16, 18), (17, 19), (20, 22), (21, 24), (23, 25)]
    ((bridge25_1 (([4, 5, 6, 7, 8, 9, 10, 11, 12, 13, 14, 15, 16, 17, 18, 19, 20, 21, 22, 23, 24, 25] : List Nat).getD 0 0) (([4, 5, 6, 7, 8, 9, 10, 11, 12, 13, 14, 15, 16, 17, 18, 19, 20, 21, 22, 23, 24, 25] : List Nat).getD 2 0)
      (by decide) (by decide)).trans (by decide))
    n25_1_d2)))

theorem n25_1_d0 : fvpF 24 [1, 3, 4, 5, 6, 7, 8, 9, 10, 11, 12, 13, 14, 15, 16, 17, 18, 19, 20, 21, 22, 23, 24, 25] (s25.take 1) = some [(1, 3), (4, 6), (5, 7), (8, 10), (9, 11), (12, 14), (13, 15), (16, 18), (17, 19), (20, 22), (21, 24), (23, 25)] :=
  (Eq.trans (fvpF_succ 23 [1, 3, 4, 5, 6, 7, 8, 9, 10, 11, 12, 13, 14, 15, 16, 17, 18, 19, 20, 21, 22, 23, 24, 25] (s25.take 1) (by decide))
  (tryRange_hit 23 [1, 3, 4, 5, 6, 7, 8, 9, 10, 11, 12, 13, 14, 15, 16, 17, 18, 19, 20, 21, 22, 23, 24, 25] (s25.take 1) 1 22 [(4, 6), (5, 7), (8, 10), (9, 11), (12, 14), (13, 15), (16, 18), (17, 19), (20, 22), (21, 24), (23, 25)]
    ((bridge25_1 (([1, 3, 4, 5, 6, 7, 8, 9, 10, 11, 12, 13, 14, 15, 16, 17, 18, 19, 20, 21, 22, 23, 24, 25] : List Nat).getD 0 0) (([1, 3, 4, 5, 6, 7, 8, 9, 10, 11, 12, 13, 14, 15, 16, 17, 18, 19, 20, 21, 22, 23, 24, 25] : List Nat).getD 1 0)
      (by decide) (by decide)).trans (by decide))
    n25_1_d1))

theorem fvp25_1 : findValidPairs [1, 3, 4, 5, 6, 7, 8, 9, 10, 11, 12, 13, 14, 15, 16, 17, 18, 19, 20, 21, 22, 23, 24, 25] (s25.take 1) = some [(1, 3), (4, 6), (5, 7), (8, 10), (9, 11), (12, 14), (13, 15), (16, 18), (17, 19), (20, 22), (21, 24), (23, 25)] := n25_1_d0

theorem n25_2_d11 : fvpF 13 [22, 24] (s25.take 2) = some [(22, 24)] :=
  (Eq.trans (fvpF_succ 12 [22, 24] (s25.take 2) (by decide))
  (tryRange_hit 12 [22, 24] (s25.take 2) 1 0 []
    ((bridge25_2 (([22, 24] : List Nat).getD 0 0) (([22, 24] : List Nat).getD 1 0)
      (by decide) (by decide)).trans (by decide))
    (fvpF_nil 12 (s25.take 2))))

theorem c25_2_0 : fvpF 13 [24, 25] (s25.take 2) = none :=
  fvpF_none_of_cert 13 [24, 25] (s25.take 2) 52093862769002909113054134160867041661919480555189556211179423931797446041163177284650285765198581069277618998573345318881819774037384692112835894605834544472816779698451911600981746101094037192886224886315315257742165170502969816218861568 bridge25_2
    [] [[24]]
    (by decide) (by decide) (by decide) (by decide) (by decide) (by decide)
    (by decide) (by decide)

theorem n25_2_d10 : fvpF 14 [21, 22, 24, 25] (s25.take 2) = some [(21, 25), (22, 24)] :=
  (Eq.trans (fvpF_succ 13 [21, 22, 24, 25] (s25.take 2) (by decide))
  (Eq.trans (Eq.trans (tryRange_fail 13 [21, 22, 24, 25] (s25.take 2) 1 2
    ((bridge25_2 (([21, 22, 24, 25] : List Nat).getD 0 0) (([21, 22, 24, 25] : List Nat).getD 1 0)
      (by decide) (by decide)).trans (by decide))
    c25_2_0)
  (tryRange_skipAll 13 [21, 22, 24, 25] (s25.take 2) 52093862769002909113054134160867041661919480555189556211179423931797446041163177284650285765198581069277618998573345318881819774037384692112835894605834544472816779698451911600981746101094037192886224886315315257742165170502969816218861568 bridge25_2
    (by decide) 2 1 1 (by decide)))
  (tryRange_hit 13 [21, 22, 24, 25] (s25.take 2) 3 0 [(22, 24)]
    ((bridge25_2 (([21, 22, 24, 25] : List Nat).getD 0 0) (([21, 22, 24, 25] : List Nat).getD 3 0)
      (by decide) (by decide)).trans (by decide))
    n25_2_d11)))

theorem n25_2_d9 : fvpF 15 [20, 21, 22, 23, 24, 25] (s25.take 2) = some [(20, 23), (21, 25), (22, 24)] :=
  (Eq.trans (fvpF_succ 14 [20, 21, 22, 23, 24, 25] (s25.take 2) (by decide))
  (Eq.trans (tryRange_skipAll 14 [20, 21, 22, 23, 24, 25] (s25.take 2) 52093862769002909113054134160867041661919480555189556211179423931797446041163177284650285765198581069277618998573345318881819774037384692112835894605834544472816779698451911600981746101094037192886224886315315257742165170502969816218861568 bridge25_2
    (by decide) 1 2 3 (by decide))
  (tryRange_hit 14 [20, 21, 22, 23, 24, 25] (s25.take 2) 3 2 [(21, 25), (22, 24)]
    ((bridge25_2 (([20, 21, 22, 23, 24, 25] : List Nat).getD 0 0) (([20, 21, 22, 23, 24, 25] : List Nat).getD 3 0)
      (by decide) (by decide)).trans (by decide))
    n25_2_d10)))

theorem n25_2_d8 : fvpF 16 [17, 18, 20, 21, 22, 23, 24, 25] (s25.take 2) = some [(17, 18), (20, 23), (21, 25), (22, 24)] :=
  (Eq.trans (fvpF_succ 15 [17, 18, 20, 21, 22, 23, 24, 25] (s25.take 2) (by decide))
  (tryRange_hit 15 [17, 18, 20, 21, 22, 23, 24, 25] (s25.take 2) 1 6 [(20, 23), (21, 25), (22, 24)]
    ((bridge25_2 (([17, 18, 20, 21, 22, 23, 24, 25] : List Nat).getD 0 0) (([17, 18, 20, 21, 22, 23, 24, 25] : List Nat).getD 1 0)
      (by decide) (by decide)).trans (by decide))
    n25_2_d9))

theorem n25_2_d7 : fvpF 17 [16, 17, 18, 19, 20, 21, 22, 23, 24, 25] (s25.take 2) = some [(16, 19), (17, 18), (20, 23), (21, 25), (22, 24)] :=
  (Eq.trans (fvpF_succ 16 [16, 17, 18, 19, 20, 21, 22, 23, 24, 25] (s25.take 2) (by decide))
  (Eq.trans (tryRange_skipAll 16 [16, 17, 18, 19, 20, 21, 22, 23, 24, 25] (s25.take 2) 52093862769002909113054134160867041661919480555189556211179423931797446041163177284650285765198581069277618998573345318881819774037384692112835894605834544472816779698451911600981746101094037192886224886315315257742165170502969816218861568 bridge25_2
    (by decide) 1 2 7 (by decide))
  (tryRange_hit 16 [16, 17, 18, 19, 20, 21, 22, 23, 24, 25] (s25.take 2) 3 6 [(17, 18), (20, 23), (21, 25), (22, 24)]
    ((bridge25_2 (([16, 17, 18, 19, 20, 21, 22, 23, 24, 25] : List Nat).getD 0 0) (([16, 17, 18, 19, 20, 21, 22, 23, 24, 25] : List Nat).getD 3 0)
      (by decide) (by decide)).trans (by decide))
    n25_2_d8)))

theorem n25_2_d6 : fvpF 18 [13, 14, 16, 17, 18, 19, 20, 21, 22, 23, 24, 25] (s25.take 2) = some [(13, 14), (16, 19), (17, 18), (20, 23), (21, 25), (22, 24)] :=
  (Eq.trans (fvpF_succ 17 [13, 14, 16, 17, 18, 19, 20, 21, 22, 23, 24, 25] (s25.take 2) (by decide))
  (tryRange_hit 17 [13, 14, 16, 17, 18, 19, 20, 21, 22, 23, 24, 25] (s25.take 2) 1 10 [(16, 19), (17, 18), (20, 23), (21, 25), (22, 24)]
    ((bridge25_2 (([13, 14, 16, 17, 18, 19, 20, 21, 22, 23, 24, 25] : List Nat).getD 0 0) (([13, 14, 16, 17, 18, 19, 20, 21, 22, 23, 24, 25] : List Nat).getD 1 0)
      (by decide) (by decide)).trans (by decide))
    n25_2_d7))

theorem n25_2_d5 : fvpF 19 [12, 13, 14, 15, 16, 17, 18, 19, 20, 21, 22, 23, 24, 25] (s25.take 2) = some [(12, 15), (13, 14), (16, 19), (17, 18), (20, 23), (21, 25), (22, 24)] :=
  (Eq.trans (fvpF_succ 18 [12, 13, 14, 15, 16, 17, 18, 19, 20, 21, 22, 23, 24, 25] (s25.take 2) (by decide))
  (Eq.trans (tryRange_skipAll 18 [12, 13, 14, 15, 16, 17, 18, 19, 20, 21, 22, 23, 24, 25] (s25.take 2) 52093862769002909113054134160867041661919480555189556211179423931797446041163177284650285765198581069277618998573345318881819774037384692112835894605834544472816779698451911600981746101094037192886224886315315257742165170502969816218861568 bridge25_2
    (by decide) 1 2 11 (by decide))
  (tryRange_hit 18 [12, 13, 14, 15, 16, 17, 18, 19, 20, 21, 22, 23, 24, 25] (s25.take 2) 3 10 [(13, 14), (16, 19), (17, 18), (20, 23), (21, 25), (22, 24)]
    ((bridge25_2 (([12, 13, 14, 15, 16, 17, 18, 19, 20, 21, 22, 23, 24, 25] : List Nat).getD 0 0) (([12, 13, 14, 15, 16, 17, 18, 19, 20, 21, 22, 23, 24, 25] : List Nat).getD 3 0)
      (by decide) (by decide)).trans (by decide))
    n25_2_d6)))

theorem n25_2_d4 : fvpF 20 [9, 10, 12, 13, 14, 15, 16, 17, 18, 19, 20, 21, 22, 23, 24, 25] (s25.take 2) = some [(9, 10), (12, 15), (13, 14), (16, 19), (17, 18), (20, 23), (21, 25), (22, 24)] :=
  (Eq.trans (fvpF_succ 19 [9, 10, 12, 13, 14, 15, 16, 17, 18, 19, 20, 21, 22, 23, 24, 25] (s25.take 2) (by decide))
  (tryRange_hit 19 [9, 10, 12, 13, 14, 15, 16, 17, 18, 19, 20, 21, 22, 23, 24, 25] (s25.take 2) 1 14 [(12, 15), (13, 14), (16, 19), (17, 18), (20, 23), (21, 25), (22, 24)]
    ((bridge25_2 (([9, 10, 12, 13, 14, 15, 16, 17, 18, 19, 20, 21, 22, 23, 24, 25] : List Nat).getD 0 0) (([9, 10, 12, 13, 14, 15, 16, 17, 18, 19, 20, 21, 22, 23, 24, 25] : List Nat).getD 1 0)
      (by decide) (by decide)).trans (by decide))
    n25_2_d5))

theorem n25_2_d3 : fvpF 21 [8, 9, 10, 11, 12, 13, 14, 15, 16, 17, 18, 19, 20, 21, 22, 23, 24, 25] (s25.take 2) = some [(8, 11), (9, 10), (12, 15), (13, 14), (16, 19), (17, 18), (20, 23), (21, 25), (22, 24)] :=
  (Eq.trans (fvpF_succ 20 [8, 9, 10, 11, 12, 13, 14, 15, 16, 17, 18, 19, 20, 21, 22, 23, 24, 25] (s25.take 2) (by decide))
  (Eq.trans (tryRange_skipAll 20 [8, 9, 10, 11, 12, 13, 14, 15, 16, 17, 18, 19, 20, 21, 22, 23, 24, 25] (s25.take 2) 52093862769002909113054134160867041661919480555189556211179423931797446041163177284650285765198581069277618998573345318881819774037384692112835894605834544472816779698451911600981746101094037192886224886315315257742165170502969816218861568 bridge25_2
    (by decide) 1 2 15 (by decide))
  (tryRange_hit 20 [8, 9, 10, 11, 12, 13, 14, 15, 16, 17, 18, 19, 20, 21, 22, 23, 24, 25] (s25.take 2) 3 14 [(9, 10), (12, 15), (13, 14), (16, 19), (17, 18), (20, 23), (21, 25), (22, 24)]
    ((bridge25_2 (([8, 9, 10, 11, 12, 13, 14, 15, 16, 17, 18, 19, 20, 21, 22, 23, 24, 25] : List Nat).getD 0 0) (([8, 9, 10, 11, 12, 13, 14, 15, 16, 17, 18, 19, 20, 21, 22, 23, 24, 25] : List Nat).getD 3 0)
      (by decide) (by decide)).trans (by decide))
    n25_2_d4)))

theorem n25_2_d2 : fvpF 22 [5, 6, 8, 9, 10, 11, 12, 13, 14, 15, 16, 17, 18, 19, 20, 21, 22, 23, 24, 25] (s25.take 2) = some [(5, 6), (8, 11), (9, 10), (12, 15), (13, 14), (16, 19), (17, 18), (20, 23), (21, 25), (22, 24)] :=
  (Eq.trans (fvpF_succ 21 [5, 6, 8, 9, 10, 11, 12, 13, 14, 15, 16, 17, 18, 19, 20, 21, 22, 23, 24, 25] (s25.take 2) (by decide))
  (tryRange_hit 21 [5, 6, 8, 9, 10, 11, 12, 13, 14, 15, 16, 17, 18, 19, 20, 21, 22, 23, 24, 25] (s25.take 2) 1 18 [(8, 11), (9, 10), (12, 15), (13, 14), (16, 19), (17, 18), (20, 23), (21, 25), (22, 24)]
    ((bridge25_2 (([5, 6, 8, 9, 10, 11, 12, 13, 14, 15, 16, 17, 18, 19, 20, 21, 22, 23, 24, 25] : List Nat).getD 0 0) (([5, 6, 8, 9, 10, 11, 12, 13, 14, 15, 16, 17, 18, 19, 20, 21, 22, 23, 24, 25] : List Nat).getD 1 0)
      (by decide) (by decide)).trans (by decide))
    n25_2_d3))

theorem n25_2_d1 : fvpF 23 [4, 5, 6, 7, 8, 9, 10, 11, 12, 13, 14, 15, 16, 17, 18, 19, 20, 21, 22, 23, 24, 25] (s25.take 2) = some [(4, 7), (5, 6), (8, 11), (9, 10), (12, 15), (13, 14), (16, 19), (17, 18), (20, 23), (21, 25), (22, 24)] :=
  (Eq.trans (fvpF_succ 22 [4, 5, 6, 7, 8, 9, 10, 11, 12, 13, 14, 15, 16, 17, 18, 19, 20, 21, 22, 23, 24, 25] (s25.take 2) (by decide))
  (Eq.trans (tryRange_skipAll 22 [4, 5, 6, 7, 8, 9, 10, 11, 12, 13, 14, 15, 16, 17, 18, 19, 20, 21, 22, 23, 24, 25] (s25.take 2) 52093862769002909113054134160867041661919480555189556211179423931797446041163177284650285765198581069277618998573345318881819774037384692112835894605834544472816779698451911600981746101094037192886224886315315257742165170502969816218861568 bridge25_2
    (by decide) 1 2 19 (by decide))
  (tryRange_hit 22 [4, 5, 6, 7, 8, 9, 10, 11, 12, 13, 14, 15, 16, 17, 18, 19, 20, 21, 22, 23, 24, 25] (s25.take 2) 3 18 [(5, 6), (8, 11), (9, 10), (12, 15), (13, 14), (16, 19), (17, 18), (20, 23), (21, 25), (22, 24)]
    ((bridge25_2 (([4, 5, 6, 7, 8, 9, 10, 11, 12, 13, 14, 15, 16, 17, 18, 19, 20, 21, 22, 23, 24, 25] : List Nat).getD 0 0) (([4, 5, 6, 7, 8, 9, 10, 11, 12, 13, 14, 15, 16, 17, 18, 19, 20, 21, 22, 23, 24, 25] : List Nat).getD 3 0)
      (by decide) (by decide)).trans (by decide))
    n25_2_d2)))

theorem n25_2_d0 : fvpF 24 [1, 2, 4, 5, 6, 7, 8, 9, 10, 11, 12, 13, 14, 15, 16, 17, 18, 19, 20, 21, 22, 23, 24, 25] (s25.take 2) = some [(1, 2), (4, 7), (5, 6), (8, 11), (9, 10), (12, 15), (13, 14), (16, 19), (17, 18), (20, 23), (21, 25), (22, 24)] :=
  (Eq.trans (fvpF_succ 23 [1, 2, 4, 5, 6, 7, 8, 9, 10, 11, 12, 13, 14, 15, 16, 17, 18, 19, 20, 21, 22, 23, 24, 25] (s25.take 2) (by decide))
  (tryRange_hit 23 [1, 2, 4, 5, 6, 7, 8, 9, 10, 11, 12, 13, 14, 15, 16, 17, 18, 19, 20, 21, 22, 23, 24, 25] (s25.take 2) 1 22 [(4, 7), (5, 6), (8, 11), (9, 10), (12, 15), (13, 14), (16, 19), (17, 18), (20, 23), (21, 25), (22, 24)]
    ((bridge25_2 (([1, 2, 4, 5, 6, 7, 8, 9, 10, 11, 12, 13, 14, 15, 16, 17, 18, 19, 20, 21, 22, 23, 24, 25] : List Nat).getD 0 0) (([1, 2, 4, 5, 6, 7, 8, 9, 10, 11, 12, 13, 14, 15, 16, 17, 18, 19, 20, 21, 22, 23, 24, 25] : List Nat).getD 1 0)
      (by decide) (by decide)).trans (by decide))
    n25_2_d1))

theorem fvp25_2 : findValidPairs [1, 2, 4, 5, 6, 7, 8, 9, 10, 11, 12, 13, 14, 15, 16, 17, 18, 19, 20, 21, 22, 23, 24, 25] (s25.take 2) = some [(1, 2), (4, 7), (5, 6), (8, 11), (9, 10), (12, 15), (13, 14), (16, 19), (17, 18), (20, 23), (21, 25), (22, 24)] := n25_2_d0

theorem n25_3_d11 : fvpF 13 [23, 24] (s25.take 3) = some [(23, 24)] :=
  (Eq.trans (fvpF_succ 12 [23, 24] (s25.take 3) (by decide))
  (tryRange_hit 12 [23, 24] (s25.take 3) 1 0 []
    ((bridge25_3 (([23, 24] : List Nat).getD 0 0) (([23, 24] : List Nat).getD 1 0)
      (by decide) (by decide)).trans (by decide))
    (fvpF_nil 12 (s25.take 3))))

theorem c25_3_0 : fvpF 13 [24, 25] (s25.take 3) = none :=
  fvpF_none_of_cert 13 [24, 25] (s25.take 3) 52093862769002909114466141140878667398125854190561504366003772052177992684117811234038864061047579992048862994501222528271230505638027635170349201390209114853513052921080404493969499314160362012717847542109415501266387086009724180266745856 bridge25_3
    [] [[24]]
    (by decide) (by decide) (by decide) (by decide) (by decide) (by decide)
    (by decide) (by decide)

theorem c25_3_1 : fvpF 13 [23, 25] (s25.take 3) = none :=
  fvpF_none_of_cert 13 [23, 25] (s25.take 3) 52093862769002909114466141140878667398125854190561504366003772052177992684117811234038864061047579992048862994501222528271230505638027635170349201390209114853513052921080404493969499314160362012717847542109415501266387086009724180266745856 bridge25_3
    [] [[23]]
    (by decide) (by decide) (by decide) (by decide) (by decide) (by decide)
    (by decide) (by decide)

theorem n25_3_d10 : fvpF 14 [19, 23, 24, 25] (s25.take 3) = some [(19, 25), (23, 24)] :=
  (Eq.trans (fvpF_succ 13 [19, 23, 24, 25] (s25.take 3) (by decide))
  (Eq.trans (Eq.trans (tryRange_fail 13 [19, 23, 24, 25] (s25.take 3) 1 2
    ((bridge25_3 (([19, 23, 24, 25] : List Nat).getD 0 0) (([19, 23, 24, 25] : List Nat).getD 1 0)
      (by decide) (by decide)).trans (by decide))
    c25_3_0)
  (tryRange_fail 13 [19, 23, 24, 25] (s25.take 3) 2 1
    ((bridge25_3 (([19, 23, 24, 25] : List Nat).getD 0 0) (([19, 23, 24, 25] : List Nat).getD 2 0)
      (by decide) (by decide)).trans (by decide))
    c25_3_1))
  (tryRange_hit 13 [19, 23, 24, 25] (s25.take 3) 3 0 [(23, 24)]
    ((bridge25_3 (([19, 23, 24, 25] : List Nat).getD 0 0) (([19, 23, 24, 25] : List Nat).getD 3 0)
      (by decide) (by decide)).trans (by decide))
    n25_3_d11)))

theorem n25_3_d9 : fvpF 15 [18, 19, 22, 23, 24, 25] (s25.take 3) = some [(18, 22), (19, 25), (23, 24)] :=
  (Eq.trans (fvpF_succ 14 [18, 19, 22, 23, 24, 25] (s25.take 3) (by decide))
  (Eq.trans (tryRange_skipAll 14 [18, 19, 22, 23, 24, 25] (s25.take 3) 52093862769002909114466141140878667398125854190561504366003772052177992684117811234038864061047579992048862994501222528271230505638027635170349201390209114853513052921080404493969499314160362012717847542109415501266387086009724180266745856 bridge25_3
    (by decide) 1 1 4 (by decide))
  (tryRange_hit 14 [18, 19, 22, 23, 24, 25] (s25.take 3) 2 3 [(19, 25), (23, 24)]
    ((bridge25_3 (([18, 19, 22, 23, 24, 25] : List Nat).getD 0 0) (([18, 19, 22, 23, 24, 25] : List Nat).getD 2 0)
      (by decide) (by decide)).trans (by decide))
    n25_3_d10)))

theorem n25_3_d8 : fvpF 16 [17, 18, 19, 21, 22, 23, 24, 25] (s25.take 3) = some [(17, 21), (18, 22), (19, 25), (23, 24)] :=
  (Eq.trans (fvpF_succ 15 [17, 18, 19, 21, 22, 23, 24, 25] (s25.take 3) (by decide))
  (Eq.trans (tryRange_skipAll 15 [17, 18, 19, 21, 22, 23, 24, 25] (s25.take 3) 52093862769002909114466141140878667398125854190561504366003772052177992684117811234038864061047579992048862994501222528271230505638027635170349201390209114853513052921080404493969499314160362012717847542109415501266387086009724180266745856 bridge25_3
    (by decide) 1 2 5 (by decide))
  (tryRange_hit 15 [17, 18, 19, 21, 22, 23, 24, 25] (s25.take 3) 3 4 [(18, 22), (19, 25), (23, 24)]
    ((bridge25_3 (([17, 18, 19, 21, 22, 23, 24, 25] : List Nat).getD 0 0) (([17, 18, 19, 21, 22, 23, 24, 25] : List Nat).getD 3 0)
      (by decide) (by decide)).trans (by decide))
    n25_3_d9)))

theorem n25_3_d7 : fvpF 17 [16, 17, 18, 19, 20, 21, 22, 23, 24, 25] (s25.take 3) = some [(16, 20), (17, 21), (18, 22), (19, 25), (23, 24)] :=
  (Eq.trans (fvpF_succ 16 [16, 17, 18, 19, 20, 21, 22, 23, 24, 25] (s25.take 3) (by decide))
  (Eq.trans (tryRange_skipAll 16 [16, 17, 18, 19, 20, 21, 22, 23, 24, 25] (s25.take 3) 52093862769002909114466141140878667398125854190561504366003772052177992684117811234038864061047579992048862994501222528271230505638027635170349201390209114853513052921080404493969499314160362012717847542109415501266387086009724180266745856 bridge25_3
    (by decide) 1 3 6 (by decide))
  (tryRange_hit 16 [16, 17, 18, 19, 20, 21, 22, 23, 24, 25] (s25.take 3) 4 5 [(17, 21), (18, 22), (19, 25), (23, 24)]
    ((bridge25_3 (([16, 17, 18, 19, 20, 21, 22, 23, 24, 25] : List Nat).getD 0 0) (([16, 17, 18, 19, 20, 21, 22, 23, 24, 25] : List Nat).getD 4 0)
      (by decide) (by decide)).trans (by decide))
    n25_3_d8)))

theorem n25_3_d6 : fvpF 18 [11, 15, 16, 17, 18, 19, 20, 21, 22, 23, 24, 25] (s25.take 3) = some [(11, 15), (16, 20), (17, 21), (18, 22), (19, 25), (23, 24)] :=
  (Eq.trans (fvpF_succ 17 [11, 15, 16, 17, 18, 19, 20, 21, 22, 23, 24, 25] (s25.take 3) (by decide))
  (tryRange_hit 17 [11, 15, 16, 17, 18, 19, 20, 21, 22, 23, 24, 25] (s25.take 3) 1 10 [(16, 20), (17, 21), (18, 22), (19, 25), (23, 24)]
    ((bridge25_3 (([11, 15, 16, 17, 18, 19, 20, 21, 22, 23, 24, 25] : List Nat).getD 0 0) (([11, 15, 16, 17, 18, 19, 20, 21, 22, 23, 24, 25] : List Nat).getD 1 0)
      (by decide) (by decide)).trans (by decide))
    n25_3_d7))

theorem n25_3_d5 : fvpF 19 [10, 11, 14, 15, 16, 17, 18, 19, 20, 21, 22, 23, 24, 25] (s25.take 3) = some [(10, 14), (11, 15), (16, 20), (17, 21), (18, 22), (19, 25), (23, 24)] :=
  (Eq.trans (fvpF_succ 18 [10, 11, 14, 15, 16, 17, 18, 19, 20, 21, 22, 23, 24, 25] (s25.take 3) (by decide))
  (Eq.trans (tryRange_skipAll 18 [10, 11, 14, 15, 16, 17, 18, 19, 20, 21, 22, 23, 24, 25] (s25.take 3) 52093862769002909114466141140878667398125854190561504366003772052177992684117811234038864061047579992048862994501222528271230505638027635170349201390209114853513052921080404493969499314160362012717847542109415501266387086009724180266745856 bridge25_3
    (by decide) 1 1 12 (by decide))
  (tryRange_hit 18 [10, 11, 14, 15, 16, 17, 18, 19, 20, 21, 22, 23, 24, 25] (s25.take 3) 2 11 [(11, 15), (16, 20), (17, 21), (18, 22), (19, 25), (23, 24)]
    ((bridge25_3 (([10, 11, 14, 15, 16, 17, 18, 19, 20, 21, 22, 23, 24, 25] : List Nat).getD 0 0) (([10, 11, 14, 15, 16, 17, 18, 19, 20, 21, 22, 23, 24, 25] : List Nat).getD 2 0)
      (by decide) (by decide)).trans (by decide))
    n25_3_d6)))

theorem n25_3_d4 : fvpF 20 [9, 10, 11, 13, 14, 15, 16, 17, 18, 19, 20, 21, 22, 23, 24, 25] (s25.take 3) = some [(9, 13), (10, 14), (11, 15), (16, 20), (17, 21), (18, 22), (19, 25), (23, 24)] :=
  (Eq.trans (fvpF_succ 19 [9, 10, 11, 13, 14, 15, 16, 17, 18, 19, 20, 21, 22, 23, 24, 25] (s25.take 3) (by decide))
  (Eq.trans (tryRange_skipAll 19 [9, 10, 11, 13, 14, 15, 16, 17, 18, 19, 20, 21, 22, 23, 24, 25] (s25.take 3) 52093862769002909114466141140878667398125854190561504366003772052177992684117811234038864061047579992048862994501222528271230505638027635170349201390209114853513052921080404493969499314160362012717847542109415501266387086009724180266745856 bridge25_3
    (by decide) 1 2 13 (by decide))
  (tryRange_hit 19 [9, 10, 11, 13, 14, 15, 16, 17, 18, 19, 20, 21, 22, 23, 24, 25] (s25.take 3) 3 12 [(10, 14), (11, 15), (16, 20), (17, 21), (18, 22), (19, 25), (23, 24)]
    ((bridge25_3 (([9, 10, 11, 13, 14, 15, 16, 17, 18, 19, 20, 21, 22, 23, 24, 25] : List Nat).getD 0 0) (([9, 10, 11, 13, 14, 15, 16, 17, 18, 19, 20, 21, 22, 23, 24, 25] : List Nat).getD 3 0)
      (by decide) (by decide)).trans (by decide))
    n25_3_d5)))

theorem n25_3_d3 : fvpF 21 [8, 9, 10, 11, 12, 13, 14, 15, 16, 17, 18, 19, 20, 21, 22, 23, 24, 25] (s25.take 3) = some [(8, 12), (9, 13), (10, 14), (11, 15), (16, 20), (17, 21), (18, 22), (19, 25), (23, 24)] :=
  (Eq.trans (fvpF_succ 20 [8, 9, 10, 11, 12, 13, 14, 15, 16, 17, 18, 19, 20, 21, 22, 23, 24, 25] (s25.take 3) (by decide))
  (Eq.trans (tryRange_skipAll 20 [8, 9, 10, 11, 12, 13, 14, 15, 16, 17, 18, 19, 20, 21, 22, 23, 24, 25] (s25.take 3) 52093862769002909114466141140878667398125854190561504366003772052177992684117811234038864061047579992048862994501222528271230505638027635170349201390209114853513052921080404493969499314160362012717847542109415501266387086009724180266745856 bridge25_3
    (by decide) 1 3 14 (by decide))
  (tryRange_hit 20 [8, 9, 10, 11, 12, 13, 14, 15, 16, 17, 18, 19, 20, 21, 22, 23, 24, 25] (s25.take 3) 4 13 [(9, 13), (10, 14), (11, 15), (16, 20), (17, 21), (18, 22), (19, 25), (23, 24)]
    ((bridge25_3 (([8, 9, 10, 11, 12, 13, 14, 15, 16, 17, 18, 19, 20, 21, 22, 23, 24, 25] : List Nat).getD 0 0) (([8, 9, 10, 11, 12, 13, 14, 15, 16, 17, 18, 19, 20, 21, 22, 23, 24, 25] : List Nat).getD 4 0)
      (by decide) (by decide)).trans (by decide))
    n25_3_d4)))

theorem n25_3_d2 : fvpF 22 [3, 7, 8, 9, 10, 11, 12, 13, 14, 15, 16, 17, 18, 19, 20, 21, 22, 23, 24, 25] (s25.take 3) = some [(3, 7), (8, 12), (9, 13), (10, 14), (11, 15), (16, 20), (17, 21), (18, 22), (19, 25), (23, 24)] :=
  (Eq.trans (fvpF_succ 21 [3, 7, 8, 9, 10, 11, 12, 13, 14, 15, 16, 17, 18, 19, 20, 21, 22, 23, 24, 25] (s25.take 3) (by decide))
  (tryRange_hit 21 [3, 7, 8, 9, 10, 11, 12, 13, 14, 15, 16, 17, 18, 19, 20, 21, 22, 23, 24, 25] (s25.take 3) 1 18 [(8, 12), (9, 13), (10, 14), (11, 15), (16, 20), (17, 21), (18, 22), (19, 25), (23, 24)]
    ((bridge25_3 (([3, 7, 8, 9, 10, 11, 12, 13, 14, 15, 16, 17, 18, 19, 20, 21, 22, 23, 24, 25] : List Nat).getD 0 0) (([3, 7, 8, 9, 10, 11, 12, 13, 14, 15, 16, 17, 18, 19, 20, 21, 22, 23, 24, 25] : List Nat).getD 1 0)
      (by decide) (by decide)).trans (by decide))
    n25_3_d3))

theorem n25_3_d1 : fvpF 23 [2, 3, 6, 7, 8, 9, 10, 11, 12, 13, 14, 15, 16, 17, 18, 19, 20, 21, 22, 23, 24, 25] (s25.take 3) = some [(2, 6), (3, 7), (8, 12), (9, 13), (10, 14), (11, 15), (16, 20), (17, 21), (18, 22), (19, 25), (23, 24)] :=
  (Eq.trans (fvpF_succ 22 [2, 3, 6, 7, 8, 9, 10, 11, 12, 13, 14, 15, 16, 17, 18, 19, 20, 21, 22, 23, 24, 25] (s25.take 3) (by decide))
  (Eq.trans (tryRange_skipAll 22 [2, 3, 6, 7, 8, 9, 10, 11, 12, 13, 14, 15, 16, 17, 18, 19, 20, 21, 22, 23, 24, 25] (s25.take 3) 52093862769002909114466141140878667398125854190561504366003772052177992684117811234038864061047579992048862994501222528271230505638027635170349201390209114853513052921080404493969499314160362012717847542109415501266387086009724180266745856 bridge25_3
    (by decide) 1 1 20 (by decide))
  (tryRange_hit 22 [2, 3, 6, 7, 8, 9, 10, 11, 12, 13, 14, 15, 16, 17, 18, 19, 20, 21, 22, 23, 24, 25] (s25.take 3) 2 19 [(3, 7), (8, 12), (9, 13), (10, 14), (11, 15), (16, 20), (17, 21), (18, 22), (19, 25), (23, 24)]
    ((bridge25_3 (([2, 3, 6, 7, 8, 9, 10, 11, 12, 13, 14, 15, 16, 17, 18, 19, 20, 21, 22, 23, 24, 25] : List Nat).getD 0 0) (([2, 3, 6, 7, 8, 9, 10, 11, 12, 13, 14, 15, 16, 17, 18, 19, 20, 21, 22, 23, 24, 25] : List Nat).getD 2 0)
      (by decide) (by decide)).trans (by decide))
    n25_3_d2)))

theorem n25_3_d0 : fvpF 24 [1, 2, 3, 5, 6, 7, 8, 9, 10, 11, 12, 13, 14, 15, 16, 17, 18, 19, 20, 21, 22, 23, 24, 25] (s25.take 3) = some [(1, 5), (2, 6), (3, 7), (8, 12), (9, 13), (10, 14), (11, 15), (16, 20), (17, 21), (18, 22), (19, 25), (23, 24)] :=
  (Eq.trans (fvpF_succ 23 [1, 2, 3, 5, 6, 7, 8, 9, 10, 11, 12, 13, 14, 15, 16, 17, 18, 19, 20, 21, 22, 23, 24, 25] (s25.take 3) (by decide))
  (Eq.trans (tryRange_skipAll 23 [1, 2, 3, 5, 6, 7, 8, 9, 10, 11, 12, 13, 14, 15, 16, 17, 18, 19, 20, 21, 22, 23, 24, 25] (s25.take 3) 52093862769002909114466141140878667398125854190561504366003772052177992684117811234038864061047579992048862994501222528271230505638027635170349201390209114853513052921080404493969499314160362012717847542109415501266387086009724180266745856 bridge25_3
    (by decide) 1 2 21 (by decide))
  (tryRange_hit 23 [1, 2, 3, 5, 6, 7, 8, 9, 10, 11, 12, 13, 14, 15, 16, 17, 18, 19, 20, 21, 22, 23, 24, 25] (s25.take 3) 3 20 [(2, 6), (3, 7), (8, 12), (9, 13), (10, 14), (11, 15), (16, 20), (17, 21), (18, 22), (19, 25), (23, 24)]
    ((bridge25_3 (([1, 2, 3, 5, 6, 7, 8, 9, 10, 11, 12, 13, 14, 15, 16, 17, 18, 19, 20, 21, 22, 23, 24, 25] : List Nat).getD 0 0) (([1, 2, 3, 5, 6, 7, 8, 9, 10, 11, 12, 13, 14, 15, 16, 17, 18, 19, 20, 21, 22, 23, 24, 25] : List Nat).getD 3 0)
      (by decide) (by decide)).trans (by decide))
    n25_3_d1)))

theorem fvp25_3 : findValidPairs [1, 2, 3, 5, 6, 7, 8, 9, 10, 11, 12, 13, 14, 15, 16, 17, 18, 19, 20, 21, 22, 23, 24, 25] (s25.take 3) = some [(1, 5), (2, 6), (3, 7), (8, 12), (9, 13), (10, 14), (11, 15), (16, 20), (17, 21), (18, 22), (19, 25), (23, 24)] := n25_3_d0

theorem n25_4_d11 : fvpF 13 [22, 25] (s25.take 4) = some [(22, 25)] :=
  (Eq.trans (fvpF_succ 12 [22, 25] (s25.take 4) (by decide))
  (tryRange_hit 12 [22, 25] (s25.take 4) 1 0 []
    ((bridge25_4 (([22, 25] : List Nat).getD 0 0) (([22, 25] : List Nat).getD 1 0)
      (by decide) (by decide)).trans (by decide))
    (fvpF_nil 12 (s25.take 4))))

theorem c25_4_0 : fvpF 13 [24, 25] (s25.take 4) = none :=
  fvpF_none_of_cert 13 [24, 25] (s25.take 4) 52093862775067432912515785418804368524932504797069359437692078968477889875863842744340554588513494170088819709938764521780341948026265791057097211455957914600697286315593035713101224022251975853442949379149895217527291340201132419889233920 bridge25_4
    [] [[24]]
    (by decide) (by decide) (by decide) (by decide) (by decide) (by decide)
    (by decide) (by decide)

theorem n25_4_d10 : fvpF 14 [19, 22, 24, 25] (s25.take 4) = some [(19, 24), (22, 25)] :=
  (Eq.trans (fvpF_succ 13 [19, 22, 24, 25] (s25.take 4) (by decide))
  (Eq.trans (tryRange_fail 13 [19, 22, 24, 25] (s25.take 4) 1 2
    ((bridge25_4 (([19, 22, 24, 25] : List Nat).getD 0 0) (([19, 22, 24, 25] : List Nat).getD 1 0)
      (by decide) (by decide)).trans (by decide))
    c25_4_0)
  (tryRange_hit 13 [19, 22, 24, 25] (s25.take 4) 2 1 [(22, 25)]
    ((bridge25_4 (([19, 22, 24, 25] : List Nat).getD 0 0) (([19, 22, 24, 25] : List Nat).getD 2 0)
      (by decide) (by decide)).trans (by decide))
    n25_4_d11)))

theorem n25_4_d9 : fvpF 15 [18, 19, 22, 23, 24, 25] (s25.take 4) = some [(18, 23), (19, 24), (22, 25)] :=
  (Eq.trans (fvpF_succ 14 [18, 19, 22, 23, 24, 25] (s25.take 4) (by decide))
  (Eq.trans (tryRange_skipAll 14 [18, 19, 22, 23, 24, 25] (s25.take 4) 52093862775067432912515785418804368524932504797069359437692078968477889875863842744340554588513494170088819709938764521780341948026265791057097211455957914600697286315593035713101224022251975853442949379149895217527291340201132419889233920 bridge25_4
    (by decide) 1 2 3 (by decide))
  (tryRange_hit 14 [18, 19, 22, 23, 24, 25] (s25.take 4) 3 2 [(19, 24), (22, 25)]
    ((bridge25_4 (([18, 19, 22, 23, 24, 25] : List Nat).getD 0 0) (([18, 19, 22, 23, 24, 25] : List Nat).getD 3 0)
      (by decide) (by decide)).trans (by decide))
    n25_4_d10)))

theorem n25_4_d8 : fvpF 16 [17, 18, 19, 20, 22, 23, 24, 25] (s25.take 4) = some [(17, 20), (18, 23), (19, 24), (22, 25)] :=
  (Eq.trans (fvpF_succ 15 [17, 18, 19, 20, 22, 23, 24, 25] (s25.take 4) (by decide))
  (Eq.trans (tryRange_skipAll 15 [17, 18, 19, 20, 22, 23, 24, 25] (s25.take 4) 52093862775067432912515785418804368524932504797069359437692078968477889875863842744340554588513494170088819709938764521780341948026265791057097211455957914600697286315593035713101224022251975853442949379149895217527291340201132419889233920 bridge25_4
    (by decide) 1 2 5 (by decide))
  (tryRange_hit 15 [17, 18, 19, 20, 22, 23, 24, 25] (s25.take 4) 3 4 [(18, 23), (19, 24), (22, 25)]
    ((bridge25_4 (([17, 18, 19, 20, 22, 23, 24, 25] : List Nat).getD 0 0) (([17, 18, 19, 20, 22, 23, 24, 25] : List Nat).getD 3 0)
      (by decide) (by decide)).trans (by decide))
    n25_4_d9)))

theorem n25_4_d7 : fvpF 17 [16, 17, 18, 19, 20, 21, 22, 23, 24, 25] (s25.take 4) = some [(16, 21), (17, 20), (18, 23), (19, 24), (22, 25)] :=
  (Eq.trans (fvpF_succ 16 [16, 17, 18, 19, 20, 21, 22, 23, 24, 25] (s25.take 4) (by decide))
  (Eq.trans (tryRange_skipAll 16 [16, 17, 18, 19, 20, 21, 22, 23, 24, 25] (s25.take 4) 52093862775067432912515785418804368524932504797069359437692078968477889875863842744340554588513494170088819709938764521780341948026265791057097211455957914600697286315593035713101224022251975853442949379149895217527291340201132419889233920 bridge25_4
    (by decide) 1 4 5 (by decide))
  (tryRange_hit 16 [16, 17, 18, 19, 20, 21, 22, 23, 24, 25] (s25.take 4) 5 4 [(17, 20), (18, 23), (19, 24), (22, 25)]
    ((bridge25_4 (([16, 17, 18, 19, 20, 21, 22, 23, 24, 25] : List Nat).getD 0 0) (([16, 17, 18, 19, 20, 21, 22, 23, 24, 25] : List Nat).getD 5 0)
      (by decide) (by decide)).trans (by decide))
    n25_4_d8)))

theorem n25_4_d6 : fvpF 18 [11, 14, 16, 17, 18, 19, 20, 21, 22, 23, 24, 25] (s25.take 4) = some [(11, 14), (16, 21), (17, 20), (18, 23), (19, 24), (22, 25)] :=
  (Eq.trans (fvpF_succ 17 [11, 14, 16, 17, 18, 19, 20, 21, 22, 23, 24, 25] (s25.take 4) (by decide))
  (tryRange_hit 17 [11, 14, 16, 17, 18, 19, 20, 21, 22, 23, 24, 25] (s25.take 4) 1 10 [(16, 21), (17, 20), (18, 23), (19, 24), (22, 25)]
    ((bridge25_4 (([11, 14, 16, 17, 18, 19, 20, 21, 22, 23, 24, 25] : List Nat).getD 0 0) (([11, 14, 16, 17, 18, 19, 20, 21, 22, 23, 24, 25] : List Nat).getD 1 0)
      (by decide) (by decide)).trans (by decide))
    n25_4_d7))

theorem n25_4_d5 : fvpF 19 [10, 11, 14, 15, 16, 17, 18, 19, 20, 21, 22, 23, 24, 25] (s25.take 4) = some [(10, 15), (11, 14), (16, 21), (17, 20), (18, 23), (19, 24), (22, 25)] :=
  (Eq.trans (fvpF_succ 18 [10, 11, 14, 15, 16, 17, 18, 19, 20, 21, 22, 23, 24, 25] (s25.take 4) (by decide))
  (Eq.trans (tryRange_skipAll 18 [10, 11, 14, 15, 16, 17, 18, 19, 20, 21, 22, 23, 24, 25] (s25.take 4) 52093862775067432912515785418804368524932504797069359437692078968477889875863842744340554588513494170088819709938764521780341948026265791057097211455957914600697286315593035713101224022251975853442949379149895217527291340201132419889233920 bridge25_4
    (by decide) 1 2 11 (by decide))
  (tryRange_hit 18 [10, 11, 14, 15, 16, 17, 18, 19, 20, 21, 22, 23, 24, 25] (s25.take 4) 3 10 [(11, 14), (16, 21), (17, 20), (18, 23), (19, 24), (22, 25)]
    ((bridge25_4 (([10, 11, 14, 15, 16, 17, 18, 19, 20, 21, 22, 23, 24, 25] : List Nat).getD 0 0) (([10, 11, 14, 15, 16, 17, 18, 19, 20, 21, 22, 23, 24, 25] : List Nat).getD 3 0)
      (by decide) (by decide)).trans (by decide))
    n25_4_d6)))

theorem n25_4_d4 : fvpF 20 [9, 10, 11, 12, 14, 15, 16, 17, 18, 19, 20, 21, 22, 23, 24, 25] (s25.take 4) = some [(9, 12), (10, 15), (11, 14), (16, 21), (17, 20), (18, 23), (19, 24), (22, 25)] :=
  (Eq.trans (fvpF_succ 19 [9, 10, 11, 12, 14, 15, 16, 17, 18, 19, 20, 21, 22, 23, 24, 25] (s25.take 4) (by decide))
  (Eq.trans (tryRange_skipAll 19 [9, 10, 11, 12, 14, 15, 16, 17, 18, 19, 20, 21, 22, 23, 24, 25] (s25.take 4) 52093862775067432912515785418804368524932504797069359437692078968477889875863842744340554588513494170088819709938764521780341948026265791057097211455957914600697286315593035713101224022251975853442949379149895217527291340201132419889233920 bridge25_4
    (by decide) 1 2 13 (by decide))
  (tryRange_hit 19 [9, 10, 11, 12, 14, 15, 16, 17, 18, 19, 20, 21, 22, 23, 24, 25] (s25.take 4) 3 12 [(10, 15), (11, 14), (16, 21), (17, 20), (18, 23), (19, 24), (22, 25)]
    ((bridge25_4 (([9, 10, 11, 12, 14, 15, 16, 17, 18, 19, 20, 21, 22, 23, 24, 25] : List Nat).getD 0 0) (([9, 10, 11, 12, 14, 15, 16, 17, 18, 19, 20, 21, 22, 23, 24, 25] : List Nat).getD 3 0)
      (by decide) (by decide)).trans (by decide))
    n25_4_d5)))

theorem n25_4_d3 : fvpF 21 [8, 9, 10, 11, 12, 13, 14, 15, 16, 17, 18, 19, 20, 21, 22, 23, 24, 25] (s25.take 4) = some [(8, 13), (9, 12), (10, 15), (11, 14), (16, 21), (17, 20), (18, 23), (19, 24), (22, 25)] :=
  (Eq.trans (fvpF_succ 20 [8, 9, 10, 11, 12, 13, 14, 15, 16, 17, 18, 19, 20, 21, 22, 23, 24, 25] (s25.take 4) (by decide))
  (Eq.trans (tryRange_skipAll 20 [8, 9, 10, 11, 12, 13, 14, 15, 16, 17, 18, 19, 20, 21, 22, 23, 24, 25] (s25.take 4) 52093862775067432912515785418804368524932504797069359437692078968477889875863842744340554588513494170088819709938764521780341948026265791057097211455957914600697286315593035713101224022251975853442949379149895217527291340201132419889233920 bridge25_4
    (by decide) 1 4 13 (by decide))
  (tryRange_hit 20 [8, 9, 10, 11, 12, 13, 14, 15, 16, 17, 18, 19, 20, 21, 22, 23, 24, 25] (s25.take 4) 5 12 [(9, 12), (10, 15), (11, 14), (16, 21), (17, 20), (18, 23), (19, 24), (22, 25)]
    ((bridge25_4 (([8, 9, 10, 11, 12, 13, 14, 15, 16, 17, 18, 19, 20, 21, 22, 23, 24, 25] : List Nat).getD 0 0) (([8, 9, 10, 11, 12, 13, 14, 15, 16, 17, 18, 19, 20, 21, 22, 23, 24, 25] : List Nat).getD 5 0)
      (by decide) (by decide)).trans (by decide))
    n25_4_d4)))

theorem n25_4_d2 : fvpF 22 [3, 6, 8, 9, 10, 11, 12, 13, 14, 15, 16, 17, 18, 19, 20, 21, 22, 23, 24, 25] (s25.take 4) = some [(3, 6), (8, 13), (9, 12), (10, 15), (11, 14), (16, 21), (17, 20), (18, 23), (19, 24), (22, 25)] :=
  (Eq.trans (fvpF_succ 21 [3, 6, 8, 9, 10, 11, 12, 13, 14, 15, 16, 17, 18, 19, 20, 21, 22, 23, 24, 25] (s25.take 4) (by decide))
  (tryRange_hit 21 [3, 6, 8, 9, 10, 11, 12, 13, 14, 15, 16, 17, 18, 19, 20, 21, 22, 23, 24, 25] (s25.take 4) 1 18 [(8, 13), (9, 12), (10, 15), (11, 14), (16, 21), (17, 20), (18, 23), (19, 24), (22, 25)]
    ((bridge25_4 (([3, 6, 8, 9, 10, 11, 12, 13, 14, 15, 16, 17, 18, 19, 20, 21, 22, 23, 24, 25] : List Nat).getD 0 0) (([3, 6, 8, 9, 10, 11, 12, 13, 14, 15, 16, 17, 18, 19, 20, 21, 22, 23, 24, 25] : List Nat).getD 1 0)
      (by decide) (by decide)).trans (by decide))
    n25_4_d3))

theorem n25_4_d1 : fvpF 23 [2, 3, 6, 7, 8, 9, 10, 11, 12, 13, 14, 15, 16, 17, 18, 19, 20, 21, 22, 23, 24, 25] (s25.take 4) = some [(2, 7), (3, 6), (8, 13), (9, 12), (10, 15), (11, 14), (16, 21), (17, 20), (18, 23), (19, 24), (22, 25)] :=
  (Eq.trans (fvpF_succ 22 [2, 3, 6, 7, 8, 9, 10, 11, 12, 13, 14, 15, 16, 17, 18, 19, 20, 21, 22, 23, 24, 25] (s25.take 4) (by decide))
  (Eq.trans (tryRange_skipAll 22 [2, 3, 6, 7, 8, 9, 10, 11, 12, 13, 14, 15, 16, 17, 18, 19, 20, 21, 22, 23, 24, 25] (s25.take 4) 52093862775067432912515785418804368524932504797069359437692078968477889875863842744340554588513494170088819709938764521780341948026265791057097211455957914600697286315593035713101224022251975853442949379149895217527291340201132419889233920 bridge25_4
    (by decide) 1 2 19 (by decide))
  (tryRange_hit 22 [2, 3, 6, 7, 8, 9, 10, 11, 12, 13, 14, 15, 16, 17, 18, 19, 20, 21, 22, 23, 24, 25] (s25.take 4) 3 18 [(3, 6), (8, 13), (9, 12), (10, 15), (11, 14), (16, 21), (17, 20), (18, 23), (19, 24), (22, 25)]
    ((bridge25_4 (([2, 3, 6, 7, 8, 9, 10, 11, 12, 13, 14, 15, 16, 17, 18, 19, 20, 21, 22, 23, 24, 25] : List Nat).getD 0 0) (([2, 3, 6, 7, 8, 9, 10, 11, 12, 13, 14, 15, 16, 17, 18, 19, 20, 21, 22, 23, 24, 25] : List Nat).getD 3 0)
      (by decide) (by decide)).trans (by decide))
    n25_4_d2)))

theorem n25_4_d0 : fvpF 24 [1, 2, 3, 4, 6, 7, 8, 9, 10, 11, 12, 13, 14, 15, 16, 17, 18, 19, 20, 21, 22, 23, 24, 25] (s25.take 4) = some [(1, 4), (2, 7), (3, 6), (8, 13), (9, 12), (10, 15), (11, 14), (16, 21), (17, 20), (18, 23), (19, 24), (22, 25)] :=
  (Eq.trans (fvpF_succ 23 [1, 2, 3, 4, 6, 7, 8, 9, 10, 11, 12, 13, 14, 15, 16, 17, 18, 19, 20, 21, 22, 23, 24, 25] (s25.take 4) (by decide))
  (Eq.trans (tryRange_skipAll 23 [1, 2, 3, 4, 6, 7, 8, 9, 10, 11, 12, 13, 14, 15, 16, 17, 18, 19, 20, 21, 22, 23, 24, 25] (s25.take 4) 52093862775067432912515785418804368524932504797069359437692078968477889875863842744340554588513494170088819709938764521780341948026265791057097211455957914600697286315593035713101224022251975853442949379149895217527291340201132419889233920 bridge25_4
    (by decide) 1 2 21 (by decide))
  (tryRange_hit 23 [1, 2, 3, 4, 6, 7, 8, 9, 10, 11, 12, 13, 14, 15, 16, 17, 18, 19, 20, 21, 22, 23, 24, 25] (s25.take 4) 3 20 [(2, 7), (3, 6), (8, 13), (9, 12), (10, 15), (11, 14), (16, 21), (17, 20), (18, 23), (19, 24), (22, 25)]
    ((bridge25_4 (([1, 2, 3, 4, 6, 7, 8, 9, 10, 11, 12, 13, 14, 15, 16, 17, 18, 19, 20, 21, 22, 23, 24, 25] : List Nat).getD 0 0) (([1, 2, 3, 4, 6, 7, 8, 9, 10, 11, 12, 13, 14, 15, 16, 17, 18, 19, 20, 21, 22, 23, 24, 25] : List Nat).getD 3 0)
      (by decide) (by decide)).trans (by decide))
    n25_4_d1)))

theorem fvp25_4 : findValidPairs [1, 2, 3, 4, 6, 7, 8, 9, 10, 11, 12, 13, 14, 15, 16, 17, 18, 19, 20, 21, 22, 23, 24, 25] (s25.take 4) = some [(1, 4), (2, 7), (3, 6), (8, 13), (9, 12), (10, 15), (11, 14), (16, 21), (17, 20), (18, 23), (19, 24), (22, 25)] := n25_4_d0

theorem n25_5_d11 : fvpF 13 [20, 25] (s25.take 5) = some [(20, 25)] :=
  (Eq.trans (fvpF_succ 12 [20, 25] (s25.take 5) (by decide))
  (tryRange_hit 12 [20, 25] (s25.take 5) 1 0 []
    ((bridge25_5 (([20, 25] : List Nat).getD 0 0) (([20, 25] : List Nat).getD 1 0)
      (by decide) (by decide)).trans (by decide))
    (fvpF_nil 12 (s25.take 5))))

theorem c25_5_0 : fvpF 13 [21, 25] (s25.take 5) = none :=
  fvpF_none_of_cert 13 [21, 25] (s25.take 5) 52093862775067432915339799377512586021881613639291809334708094338186785357010092904995809933157326958507567528283180989691837442401362498704073292023227929545752823946619929561551934905254988033384249614047992280237164843734134943259820032 bridge25_5
    [] [[21]]
    (by decide) (by decide) (by decide) (by decide) (by decide) (by decide)
    (by decide) (by decide)

theorem n25_5_d10 : fvpF 14 [19, 20, 21, 25] (s25.take 5) = some [(19, 21), (20, 25)] :=
  (Eq.trans (fvpF_succ 13 [19, 20, 21, 25] (s25.take 5) (by decide))
  (Eq.trans (tryRange_fail 13 [19, 20, 21, 25] (s25.take 5) 1 2
    ((bridge25_5 (([19, 20, 21, 25] : List Nat).getD 0 0) (([19, 20, 21, 25] : List Nat).getD 1 0)
      (by decide) (by decide)).trans (by decide))
    c25_5_0)
  (tryRange_hit 13 [19, 20, 21, 25] (s25.take 5) 2 1 [(20, 25)]
    ((bridge25_5 (([19, 20, 21, 25] : List Nat).getD 0 0) (([19, 20, 21, 25] : List Nat).getD 2 0)
      (by decide) (by decide)).trans (by decide))
    n25_5_d11)))

theorem c25_5_1 : fvpF 14 [19, 21, 24, 25] (s25.take 5) = none :=
  fvpF_none_of_cert 14 [19, 21, 24, 25] (s25.take 5) 52093862775067432915339799377512586021881613639291809334708094338186785357010092904995809933157326958507567528283180989691837442401362498704073292023227929545752823946619929561551934905254988033384249614047992280237164843734134943259820032 bridge25_5
    [] [[24]]
    (by decide) (by decide) (by decide) (by decide) (by decide) (by decide)
    (by decide) (by decide)

theorem c25_5_2 : fvpF 14 [19, 20, 24, 25] (s25.take 5) = none :=
  fvpF_none_of_cert 14 [19, 20, 24, 25] (s25.take 5) 52093862775067432915339799377512586021881613639291809334708094338186785357010092904995809933157326958507567528283180989691837442401362498704073292023227929545752823946619929561551934905254988033384249614047992280237164843734134943259820032 bridge25_5
    [20] [[19], [24]]
    (by decide) (by decide) (by decide) (by decide) (by decide) (by decide)
    (by decide) (by decide)

theorem n25_5_d9 : fvpF 15 [18, 19, 20, 21, 24, 25] (s25.take 5) = some [(18, 24), (19, 21), (20, 25)] :=
  (Eq.trans (fvpF_succ 14 [18, 19, 20, 21, 24, 25] (s25.take 5) (by decide))
  (Eq.trans (Eq.trans (Eq.trans (tryRange_skipAll 14 [18, 19, 20, 21, 24, 25] (s25.take 5) 52093862775067432915339799377512586021881613639291809334708094338186785357010092904995809933157326958507567528283180989691837442401362498704073292023227929545752823946619929561551934905254988033384249614047992280237164843734134943259820032 bridge25_5
    (by decide) 1 1 4 (by decide))
  (tryRange_fail 14 [18, 19, 20, 21, 24, 25] (s25.take 5) 2 3
    ((bridge25_5 (([18, 19, 20, 21, 24, 25] : List Nat).getD 0 0) (([18, 19, 20, 21, 24, 25] : List Nat).getD 2 0)
      (by decide) (by decide)).trans (by decide))
    c25_5_1))
  (tryRange_fail 14 [18, 19, 20, 21, 24, 25] (s25.take 5) 3 2
    ((bridge25_5 (([18, 19, 20, 21, 24, 25] : List Nat).getD 0 0) (([18, 19, 20, 21, 24, 25] : List Nat).getD 3 0)
      (by decide) (by decide)).trans (by decide))
    c25_5_2))
  (tryRange_hit 14 [18, 19, 20, 21, 24, 25] (s25.take 5) 4 1 [(19, 21), (20, 25)]
    ((bridge25_5 (([18, 19, 20, 21, 24, 25] : List Nat).getD 0 0) (([18, 19, 20, 21, 24, 25] : List Nat).getD 4 0)
      (by decide) (by decide)).trans (by decide))
    n25_5_d10)))

theorem n25_5_d8 : fvpF 16 [17, 18, 19, 20, 21, 23, 24, 25] (s25.take 5) = some [(17, 23), (18, 24), (19, 21), (20, 25)] :=
  (Eq.trans (fvpF_succ 15 [17, 18, 19, 20, 21, 23, 24, 25] (s25.take 5) (by decide))
  (Eq.trans (tryRange_skipAll 15 [17, 18, 19, 20, 21, 23, 24, 25] (s25.take 5) 52093862775067432915339799377512586021881613639291809334708094338186785357010092904995809933157326958507567528283180989691837442401362498704073292023227929545752823946619929561551934905254988033384249614047992280237164843734134943259820032 bridge25_5
    (by decide) 1 4 3 (by decide))
  (tryRange_hit 15 [17, 18, 19, 20, 21, 23, 24, 25] (s25.take 5) 5 2 [(18, 24), (19, 21), (20, 25)]
    ((bridge25_5 (([17, 18, 19, 20, 21, 23, 24, 25] : List Nat).getD 0 0) (([17, 18, 19, 20, 21, 23, 24, 25] : List Nat).getD 5 0)
      (by decide) (by decide)).trans (by decide))
    n25_5_d9)))

theorem n25_5_d7 : fvpF 17 [16, 17, 18, 19, 20, 21, 22, 23, 24, 25] (s25.take 5) = some [(16, 22), (17, 23), (18, 24), (19, 21), (20, 25)] :=
  (Eq.trans (fvpF_succ 16 [16, 17, 18, 19, 20, 21, 22, 23, 24, 25] (s25.take 5) (by decide))
  (Eq.trans (tryRange_skipAll 16 [16, 17, 18, 19, 20, 21, 22, 23, 24, 25] (s25.take 5) 52093862775067432915339799377512586021881613639291809334708094338186785357010092904995809933157326958507567528283180989691837442401362498704073292023227929545752823946619929561551934905254988033384249614047992280237164843734134943259820032 bridge25_5
    (by decide) 1 5 4 (by decide))
  (tryRange_hit 16 [16, 17, 18, 19, 20, 21, 22, 23, 24, 25] (s25.take 5) 6 3 [(17, 23), (18, 24), (19, 21), (20, 25)]
    ((bridge25_5 (([16, 17, 18, 19, 20, 21, 22, 23, 24, 25] : List Nat).getD 0 0) (([16, 17, 18, 19, 20, 21, 22, 23, 24, 25] : List Nat).getD 6 0)
      (by decide) (by decide)).trans (by decide))
    n25_5_d8)))

theorem n25_5_d6 : fvpF 18 [11, 13, 16, 17, 18, 19, 20, 21, 22, 23, 24, 25] (s25.take 5) = some [(11, 13), (16, 22), (17, 23), (18, 24), (19, 21), (20, 25)] :=
  (Eq.trans (fvpF_succ 17 [11, 13, 16, 17, 18, 19, 20, 21, 22, 23, 24, 25] (s25.take 5) (by decide))
  (tryRange_hit 17 [11, 13, 16, 17, 18, 19, 20, 21, 22, 23, 24, 25] (s25.take 5) 1 10 [(16, 22), (17, 23), (18, 24), (19, 21), (20, 25)]
    ((bridge25_5 (([11, 13, 16, 17, 18, 19, 20, 21, 22, 23, 24, 25] : List Nat).getD 0 0) (([11, 13, 16, 17, 18, 19, 20, 21, 22, 23, 24, 25] : List Nat).getD 1 0)
      (by decide) (by decide)).trans (by decide))
    n25_5_d7))

theorem n25_5_d5 : fvpF 19 [10, 11, 12, 13, 16, 17, 18, 19, 20, 21, 22, 23, 24, 25] (s25.take 5) = some [(10, 12), (11, 13), (16, 22), (17, 23), (18, 24), (19, 21), (20, 25)] :=
  (Eq.trans (fvpF_succ 18 [10, 11, 12, 13, 16, 17, 18, 19, 20, 21, 22, 23, 24, 25] (s25.take 5) (by decide))
  (Eq.trans (tryRange_skipAll 18 [10, 11, 12, 13, 16, 17, 18, 19, 20, 21, 22, 23, 24, 25] (s25.take 5) 52093862775067432915339799377512586021881613639291809334708094338186785357010092904995809933157326958507567528283180989691837442401362498704073292023227929545752823946619929561551934905254988033384249614047992280237164843734134943259820032 bridge25_5
    (by decide) 1 1 12 (by decide))
  (tryRange_hit 18 [10, 11, 12, 13, 16, 17, 18, 19, 20, 21, 22, 23, 24, 25] (s25.take 5) 2 11 [(11, 13), (16, 22), (17, 23), (18, 24), (19, 21), (20, 25)]
    ((bridge25_5 (([10, 11, 12, 13, 16, 17, 18, 19, 20, 21, 22, 23, 24, 25] : List Nat).getD 0 0) (([10, 11, 12, 13, 16, 17, 18, 19, 20, 21, 22, 23, 24, 25] : List Nat).getD 2 0)
      (by decide) (by decide)).trans (by decide))
    n25_5_d6)))

theorem n25_5_d4 : fvpF 20 [9, 10, 11, 12, 13, 15, 16, 17, 18, 19, 20, 21, 22, 23, 24, 25] (s25.take 5) = some [(9, 15), (10, 12), (11, 13), (16, 22), (17, 23), (18, 24), (19, 21), (20, 25)] :=
  (Eq.trans (fvpF_succ 19 [9, 10, 11, 12, 13, 15, 16, 17, 18, 19, 20, 21, 22, 23, 24, 25] (s25.take 5) (by decide))
  (Eq.trans (tryRange_skipAll 19 [9, 10, 11, 12, 13, 15, 16, 17, 18, 19, 20, 21, 22, 23, 24, 25] (s25.take 5) 52093862775067432915339799377512586021881613639291809334708094338186785357010092904995809933157326958507567528283180989691837442401362498704073292023227929545752823946619929561551934905254988033384249614047992280237164843734134943259820032 bridge25_5
    (by decide) 1 4 11 (by decide))
  (tryRange_hit 19 [9, 10, 11, 12, 13, 15, 16, 17, 18, 19, 20, 21, 22, 23, 24, 25] (s25.take 5) 5 10 [(10, 12), (11, 13), (16, 22), (17, 23), (18, 24), (19, 21), (20, 25)]
    ((bridge25_5 (([9, 10, 11, 12, 13, 15, 16, 17, 18, 19, 20, 21, 22, 23, 24, 25] : List Nat).getD 0 0) (([9, 10, 11, 12, 13, 15, 16, 17, 18, 19, 20, 21, 22, 23, 24, 25] : List Nat).getD 5 0)
      (by decide) (by decide)).trans (by decide))
    n25_5_d5)))

theorem n25_5_d3 : fvpF 21 [8, 9, 10, 11, 12, 13, 14, 15, 16, 17, 18, 19, 20, 21, 22, 23, 24, 25] (s25.take 5) = some [(8, 14), (9, 15), (10, 12), (11, 13), (16, 22), (17, 23), (18, 24), (19, 21), (20, 25)] :=
  (Eq.trans (fvpF_succ 20 [8, 9, 10, 11, 12, 13, 14, 15, 16, 17, 18, 19, 20, 21, 22, 23, 24, 25] (s25.take 5) (by decide))
  (Eq.trans (tryRange_skipAll 20 [8, 9, 10, 11, 12, 13, 14, 15, 16, 17, 18, 19, 20, 21, 22, 23, 24, 25] (s25.take 5) 52093862775067432915339799377512586021881613639291809334708094338186785357010092904995809933157326958507567528283180989691837442401362498704073292023227929545752823946619929561551934905254988033384249614047992280237164843734134943259820032 bridge25_5
    (by decide) 1 5 12 (by decide))
  (tryRange_hit 20 [8, 9, 10, 11, 12, 13, 14, 15, 16, 17, 18, 19, 20, 21, 22, 23, 24, 25] (s25.take 5) 6 11 [(9, 15), (10, 12), (11, 13), (16, 22), (17, 23), (18, 24), (19, 21), (20, 25)]
    ((bridge25_5 (([8, 9, 10, 11, 12, 13, 14, 15, 16, 17, 18, 19, 20, 21, 22, 23, 24, 25] : List Nat).getD 0 0) (([8, 9, 10, 11, 12, 13, 14, 15, 16, 17, 18, 19, 20, 21, 22, 23, 24, 25] : List Nat).getD 6 0)
      (by decide) (by decide)).trans (by decide))
    n25_5_d4)))

theorem n25_5_d2 : fvpF 22 [3, 5, 8, 9, 10, 11, 12, 13, 14, 15, 16, 17, 18, 19, 20, 21, 22, 23, 24, 25] (s25.take 5) = some [(3, 5), (8, 14), (9, 15), (10, 12), (11, 13), (16, 22), (17, 23), (18, 24), (19, 21), (20, 25)] :=
  (Eq.trans (fvpF_succ 21 [3, 5, 8, 9, 10, 11, 12, 13, 14, 15, 16, 17, 18, 19, 20, 21, 22, 23, 24, 25] (s25.take 5) (by decide))
  (tryRange_hit 21 [3, 5, 8, 9, 10, 11, 12, 13, 14, 15, 16, 17, 18, 19, 20, 21, 22, 23, 24, 25] (s25.take 5) 1 18 [(8, 14), (9, 15), (10, 12), (11, 13), (16, 22), (17, 23), (18, 24), (19, 21), (20, 25)]
    ((bridge25_5 (([3, 5, 8, 9, 10, 11, 12, 13, 14, 15, 16, 17, 18, 19, 20, 21, 22, 23, 24, 25] : List Nat).getD 0 0) (([3, 5, 8, 9, 10, 11, 12, 13, 14, 15, 16, 17, 18, 19, 20, 21, 22, 23, 24, 25] : List Nat).getD 1 0)
      (by decide) (by decide)).trans (by decide))
    n25_5_d3))

theorem n25_5_d1 : fvpF 23 [2, 3, 4, 5, 8, 9, 10, 11, 12, 13, 14, 15, 16, 17, 18, 19, 20, 21, 22, 23, 24, 25] (s25.take 5) = some [(2, 4), (3, 5), (8, 14), (9, 15), (10, 12), (11, 13), (16, 22), (17, 23), (18, 24), (19, 21), (20, 25)] :=
  (Eq.trans (fvpF_succ 22 [2, 3, 4, 5, 8, 9, 10, 11, 12, 13, 14, 15, 16, 17, 18, 19, 20, 21, 22, 23, 24, 25] (s25.take 5) (by decide))
  (Eq.trans (tryRange_skipAll 22 [2, 3, 4, 5, 8, 9, 10, 11, 12, 13, 14, 15, 16, 17, 18, 19, 20, 21, 22, 23, 24, 25] (s25.take 5) 52093862775067432915339799377512586021881613639291809334708094338186785357010092904995809933157326958507567528283180989691837442401362498704073292023227929545752823946619929561551934905254988033384249614047992280237164843734134943259820032 bridge25_5
    (by decide) 1 1 20 (by decide))
  (tryRange_hit 22 [2, 3, 4, 5, 8, 9, 10, 11, 12, 13, 14, 15, 16, 17, 18, 19, 20, 21, 22, 23, 24, 25] (s25.take 5) 2 19 [(3, 5), (8, 14), (9, 15), (10, 12), (11, 13), (16, 22), (17, 23), (18, 24), (19, 21), (20, 25)]
    ((bridge25_5 (([2, 3, 4, 5, 8, 9, 10, 11, 12, 13, 14, 15, 16, 17, 18, 19, 20, 21, 22, 23, 24, 25] : List Nat).getD 0 0) (([2, 3, 4, 5, 8, 9, 10, 11, 12, 13, 14, 15, 16, 17, 18, 19, 20, 21, 22, 23, 24, 25] : List Nat).getD 2 0)
      (by decide) (by decide)).trans (by decide))
    n25_5_d2)))

theorem n25_5_d0 : fvpF 24 [1, 2, 3, 4, 5, 7, 8, 9, 10, 11, 12, 13, 14, 15, 16, 17, 18, 19, 20, 21, 22, 23, 24, 25] (s25.take 5) = some [(1, 7), (2, 4), (3, 5), (8, 14), (9, 15), (10, 12), (11, 13), (16, 22), (17, 23), (18, 24), (19, 21), (20, 25)] :=
  (Eq.trans (fvpF_succ 23 [1, 2, 3, 4, 5, 7, 8, 9, 10, 11, 12, 13, 14, 15, 16, 17, 18, 19, 20, 21, 22, 23, 24, 25] (s25.take 5) (by decide))
  (Eq.trans (tryRange_skipAll 23 [1, 2, 3, 4, 5, 7, 8, 9, 10, 11, 12, 13, 14, 15, 16, 17, 18, 19, 20, 21, 22, 23, 24, 25] (s25.take 5) 52093862775067432915339799377512586021881613639291809334708094338186785357010092904995809933157326958507567528283180989691837442401362498704073292023227929545752823946619929561551934905254988033384249614047992280237164843734134943259820032 bridge25_5
    (by decide) 1 4 19 (by decide))
  (tryRange_hit 23 [1, 2, 3, 4, 5, 7, 8, 9, 10, 11, 12, 13, 14, 15, 16, 17, 18, 19, 20, 21, 22, 23, 24, 25] (s25.take 5) 5 18 [(2, 4), (3, 5), (8, 14), (9, 15), (10, 12), (11, 13), (16, 22), (17, 23), (18, 24), (19, 21), (20, 25)]
    ((bridge25_5 (([1, 2, 3, 4, 5, 7, 8, 9, 10, 11, 12, 13, 14, 15, 16, 17, 18, 19, 20, 21, 22, 23, 24, 25] : List Nat).getD 0 0) (([1, 2, 3, 4, 5, 7, 8, 9, 10, 11, 12, 13, 14, 15, 16, 17, 18, 19, 20, 21, 22, 23, 24, 25] : List Nat).getD 5 0)
      (by decide) (by decide)).trans (by decide))
    n25_5_d1)))

theorem fvp25_5 : findValidPairs [1, 2, 3, 4, 5, 7, 8, 9, 10, 11, 12, 13, 14, 15, 16, 17, 18, 19, 20, 21, 22, 23, 24, 25] (s25.take 5) = some [(1, 7), (2, 4), (3, 5), (8, 14), (9, 15), (10, 12), (11, 13), (16, 22), (17, 23), (18, 24), (19, 21), (20, 25)] := n25_5_d0

theorem n25_6_d11 : fvpF 13 [21, 22] (s25.take 6) = some [(21, 22)] :=
  (Eq.trans (fvpF_succ 12 [21, 22] (s25.take 6) (by decide))
  (tryRange_hit 12 [21, 22] (s25.take 6) 1 0 []
    ((bridge25_6 (([21, 22] : List Nat).getD 0 0) (([21, 22] : List Nat).getD 1 0)
      (by decide) (by decide)).trans (by decide))
    (fvpF_nil 12 (s25.take 6))))

theorem n25_6_d10 : fvpF 14 [19, 20, 21, 22] (s25.take 6) = some [(19, 20), (21, 22)] :=
  (Eq.trans (fvpF_succ 13 [19, 20, 21, 22] (s25.take 6) (by decide))
  (tryRange_hit 13 [19, 20, 21, 22] (s25.take 6) 1 2 [(21, 22)]
    ((bridge25_6 (([19, 20, 21, 22] : List Nat).getD 0 0) (([19, 20, 21, 22] : List Nat).getD 1 0)
      (by decide) (by decide)).trans (by decide))
    n25_6_d11))

theorem c25_6_0 : fvpF 14 [19, 21, 22, 25] (s25.take 6) = none :=
  fvpF_none_of_cert 14 [19, 21, 22, 25] (s25.take 6) 52093862775067432915339799377512586022034703742752079040074687516309052789373454295155436136270090231749556538666648523238528004682681378137946836985600453492472858888693061317911186876517473723197200995384822178293247033945037930097541120 bridge25_6
    [] [[19, 21, 22]]
    (by decide) (by decide) (by decide) (by decide) (by decide) (by decide)
    (by decide) (by decide)

theorem c25_6_1 : fvpF 14 [19, 20, 22, 25] (s25.take 6) = none :=
  fvpF_none_of_cert 14 [19, 20, 22, 25] (s25.take 6) 52093862775067432915339799377512586022034703742752079040074687516309052789373454295155436136270090231749556538666648523238528004682681378137946836985600453492472858888693061317911186876517473723197200995384822178293247033945037930097541120 bridge25_6
    [] [[19, 20, 22]]
    (by decide) (by decide) (by decide) (by decide) (by decide) (by decide)
    (by decide) (by decide)

theorem n25_6_d9 : fvpF 15 [18, 19, 20, 21, 22, 25] (s25.take 6) = some [(18, 25), (19, 20), (21, 22)] :=
  (Eq.trans (fvpF_succ 14 [18, 19, 20, 21, 22, 25] (s25.take 6) (by decide))
  (Eq.trans (Eq.trans (Eq.trans (Eq.trans (tryRange_skipAll 14 [18, 19, 20, 21, 22, 25] (s25.take 6) 52093862775067432915339799377512586022034703742752079040074687516309052789373454295155436136270090231749556538666648523238528004682681378137946836985600453492472858888693061317911186876517473723197200995384822178293247033945037930097541120 bridge25_6
    (by decide) 1 1 4 (by decide))
  (tryRange_fail 14 [18, 19, 20, 21, 22, 25] (s25.take 6) 2 3
    ((bridge25_6 (([18, 19, 20, 21, 22, 25] : List Nat).getD 0 0) (([18, 19, 20, 21, 22, 25] : List Nat).getD 2 0)
      (by decide) (by decide)).trans (by decide))
    c25_6_0))
  (tryRange_fail 14 [18, 19, 20, 21, 22, 25] (s25.take 6) 3 2
    ((bridge25_6 (([18, 19, 20, 21, 22, 25] : List Nat).getD 0 0) (([18, 19, 20, 21, 22, 25] : List Nat).getD 3 0)
      (by decide) (by decide)).trans (by decide))
    c25_6_1))
  (tryRange_skipAll 14 [18, 19, 20, 21, 22, 25] (s25.take 6) 52093862775067432915339799377512586022034703742752079040074687516309052789373454295155436136270090231749556538666648523238528004682681378137946836985600453492472858888693061317911186876517473723197200995384822178293247033945037930097541120 bridge25_6
    (by decide) 4 1 1 (by decide)))
  (tryRange_hit 14 [18, 19, 20, 21, 22, 25] (s25.take 6) 5 0 [(19, 20), (21, 22)]
    ((bridge25_6 (([18, 19, 20, 21, 22, 25] : List Nat).getD 0 0) (([18, 19, 20, 21, 22, 25] : List Nat).getD 5 0)
      (by decide) (by decide)).trans (by decide))
    n25_6_d10)))

theorem c25_6_2 : fvpF 15 [18, 19, 20, 21, 24, 25] (s25.take 6) = none :=
  fvpF_none_of_cert 15 [18, 19, 20, 21, 24, 25] (s25.take 6) 52093862775067432915339799377512586022034703742752079040074687516309052789373454295155436136270090231749556538666648523238528004682681378137946836985600453492472858888693061317911186876517473723197200995384822178293247033945037930097541120 bridge25_6
    [18, 20] [[19], [21], [24]]
    (by decide) (by decide) (by decide) (by decide) (by decide) (by decide)
    (by decide) (by decide)

theorem n25_6_d8 : fvpF 16 [17, 18, 19, 20, 21, 22, 24, 25] (s25.take 6) = some [(17, 24), (18, 25), (19, 20), (21, 22)] :=
  (Eq.trans (fvpF_succ 15 [17, 18, 19, 20, 21, 22, 24, 25] (s25.take 6) (by decide))
  (Eq.trans (Eq.trans (tryRange_skipAll 15 [17, 18, 19, 20, 21, 22, 24, 25] (s25.take 6) 52093862775067432915339799377512586022034703742752079040074687516309052789373454295155436136270090231749556538666648523238528004682681378137946836985600453492472858888693061317911186876517473723197200995384822178293247033945037930097541120 bridge25_6
    (by decide) 1 4 3 (by decide))
  (tryRange_fail 15 [17, 18, 19, 20, 21, 22, 24, 25] (s25.take 6) 5 2
    ((bridge25_6 (([17, 18, 19, 20, 21, 22, 24, 25] : List Nat).getD 0 0) (([17, 18, 19, 20, 21, 22, 24, 25] : List Nat).getD 5 0)
      (by decide) (by decide)).trans (by decide))
    c25_6_2))
  (tryRange_hit 15 [17, 18, 19, 20, 21, 22, 24, 25] (s25.take 6) 6 1 [(18, 25), (19, 20), (21, 22)]
    ((bridge25_6 (([17, 18, 19, 20, 21, 22, 24, 25] : List Nat).getD 0 0) (([17, 18, 19, 20, 21, 22, 24, 25] : List Nat).getD 6 0)
      (by decide) (by decide)).trans (by decide))
    n25_6_d9)))

theorem n25_6_d7 : fvpF 17 [16, 17, 18, 19, 20, 21, 22, 23, 24, 25] (s25.take 6) = some [(16, 23), (17, 24), (18, 25), (19, 20), (21, 22)] :=
  (Eq.trans (fvpF_succ 16 [16, 17, 18, 19, 20, 21, 22, 23, 24, 25] (s25.take 6) (by decide))
  (Eq.trans (tryRange_skipAll 16 [16, 17, 18, 19, 20, 21, 22, 23, 24, 25] (s25.take 6) 52093862775067432915339799377512586022034703742752079040074687516309052789373454295155436136270090231749556538666648523238528004682681378137946836985600453492472858888693061317911186876517473723197200995384822178293247033945037930097541120 bridge25_6
    (by decide) 1 6 3 (by decide))
  (tryRange_hit 16 [16, 17, 18, 19, 20, 21, 22, 23, 24, 25] (s25.take 6) 7 2 [(17, 24), (18, 25), (19, 20), (21, 22)]
    ((bridge25_6 (([16, 17, 18, 19, 20, 21, 22, 23, 24, 25] : List Nat).getD 0 0) (([16, 17, 18, 19, 20, 21, 22, 23, 24, 25] : List Nat).getD 7 0)
      (by decide) (by decide)).trans (by decide))
    n25_6_d8)))

theorem n25_6_d6 : fvpF 18 [11, 12, 16, 17, 18, 19, 20, 21, 22, 23, 24, 25] (s25.take 6) = some [(11, 12), (16, 23), (17, 24), (18, 25), (19, 20), (21, 22)] :=
  (Eq.trans (fvpF_succ 17 [11, 12, 16, 17, 18, 19, 20, 21, 22, 23, 24, 25] (s25.take 6) (by decide))
  (tryRange_hit 17 [11, 12, 16, 17, 18, 19, 20, 21, 22, 23, 24, 25] (s25.take 6) 1 10 [(16, 23), (17, 24), (18, 25), (19, 20), (21, 22)]
    ((bridge25_6 (([11, 12, 16, 17, 18, 19, 20, 21, 22, 23, 24, 25] : List Nat).getD 0 0) (([11, 12, 16, 17, 18, 19, 20, 21, 22, 23, 24, 25] : List Nat).getD 1 0)
      (by decide) (by decide)).trans (by decide))
    n25_6_d7))

theorem n25_6_d5 : fvpF 19 [10, 11, 12, 13, 16, 17, 18, 19, 20, 21, 22, 23, 24, 25] (s25.take 6) = some [(10, 13), (11, 12), (16, 23), (17, 24), (18, 25), (19, 20), (21, 22)] :=
  (Eq.trans (fvpF_succ 18 [10, 11, 12, 13, 16, 17, 18, 19, 20, 21, 22, 23, 24, 25] (s25.take 6) (by decide))
  (Eq.trans (tryRange_skipAll 18 [10, 11, 12, 13, 16, 17, 18, 19, 20, 21, 22, 23, 24, 25] (s25.take 6) 52093862775067432915339799377512586022034703742752079040074687516309052789373454295155436136270090231749556538666648523238528004682681378137946836985600453492472858888693061317911186876517473723197200995384822178293247033945037930097541120 bridge25_6
    (by decide) 1 2 11 (by decide))
  (tryRange_hit 18 [10, 11, 12, 13, 16, 17, 18, 19, 20, 21, 22, 23, 24, 25] (s25.take 6) 3 10 [(11, 12), (16, 23), (17, 24), (18, 25), (19, 20), (21, 22)]
    ((bridge25_6 (([10, 11, 12, 13, 16, 17, 18, 19, 20, 21, 22, 23, 24, 25] : List Nat).getD 0 0) (([10, 11, 12, 13, 16, 17, 18, 19, 20, 21, 22, 23, 24, 25] : List Nat).getD 3 0)
      (by decide) (by decide)).trans (by decide))
    n25_6_d6)))

theorem n25_6_d4 : fvpF 20 [9, 10, 11, 12, 13, 14, 16, 17, 18, 19, 20, 21, 22, 23, 24, 25] (s25.take 6) = some [(9, 14), (10, 13), (11, 12), (16, 23), (17, 24), (18, 25), (19, 20), (21, 22)] :=
  (Eq.trans (fvpF_succ 19 [9, 10, 11, 12, 13, 14, 16, 17, 18, 19, 20, 21, 22, 23, 24, 25] (s25.take 6) (by decide))
  (Eq.trans (tryRange_skipAll 19 [9, 10, 11, 12, 13, 14, 16, 17, 18, 19, 20, 21, 22, 23, 24, 25] (s25.take 6) 52093862775067432915339799377512586022034703742752079040074687516309052789373454295155436136270090231749556538666648523238528004682681378137946836985600453492472858888693061317911186876517473723197200995384822178293247033945037930097541120 bridge25_6
    (by decide) 1 4 11 (by decide))
  (tryRange_hit 19 [9, 10, 11, 12, 13, 14, 16, 17, 18, 19, 20, 21, 22, 23, 24, 25] (s25.take 6) 5 10 [(10, 13), (11, 12), (16, 23), (17, 24), (18, 25), (19, 20), (21, 22)]
    ((bridge25_6 (([9, 10, 11, 12, 13, 14, 16, 17, 18, 19, 20, 21, 22, 23, 24, 25] : List Nat).getD 0 0) (([9, 10, 11, 12, 13, 14, 16, 17, 18, 19, 20, 21, 22, 23, 24, 25] : List Nat).getD 5 0)
      (by decide) (by decide)).trans (by decide))
    n25_6_d5)))

theorem n25_6_d3 : fvpF 21 [8, 9, 10, 11, 12, 13, 14, 15, 16, 17, 18, 19, 20, 21, 22, 23, 24, 25] (s25.take 6) = some [(8, 15), (9, 14), (10, 13), (11, 12), (16, 23), (17, 24), (18, 25), (19, 20), (21, 22)] :=
  (Eq.trans (fvpF_succ 20 [8, 9, 10, 11, 12, 13, 14, 15, 16, 17, 18, 19, 20, 21, 22, 23, 24, 25] (s25.take 6) (by decide))
  (Eq.trans (tryRange_skipAll 20 [8, 9, 10, 11, 12, 13, 14, 15, 16, 17, 18, 19, 20, 21, 22, 23, 24, 25] (s25.take 6) 52093862775067432915339799377512586022034703742752079040074687516309052789373454295155436136270090231749556538666648523238528004682681378137946836985600453492472858888693061317911186876517473723197200995384822178293247033945037930097541120 bridge25_6
    (by decide) 1 6 11 (by decide))
  (tryRange_hit 20 [8, 9, 10, 11, 12, 13, 14, 15, 16, 17, 18, 19, 20, 21, 22, 23, 24, 25] (s25.take 6) 7 10 [(9, 14), (10, 13), (11, 12), (16, 23), (17, 24), (18, 25), (19, 20), (21, 22)]
    ((bridge25_6 (([8, 9, 10, 11, 12, 13, 14, 15, 16, 17, 18, 19, 20, 21, 22, 23, 24, 25] : List Nat).getD 0 0) (([8, 9, 10, 11, 12, 13, 14, 15, 16, 17, 18, 19, 20, 21, 22, 23, 24, 25] : List Nat).getD 7 0)
      (by decide) (by decide)).trans (by decide))
    n25_6_d4)))

theorem n25_6_d2 : fvpF 22 [3, 4, 8, 9, 10, 11, 12, 13, 14, 15, 16, 17, 18, 19, 20, 21, 22, 23, 24, 25] (s25.take 6) = some [(3, 4), (8, 15), (9, 14), (10, 13), (11, 12), (16, 23), (17, 24), (18, 25), (19, 20), (21, 22)] :=
  (Eq.trans (fvpF_succ 21 [3, 4, 8, 9, 10, 11, 12, 13, 14, 15, 16, 17, 18, 19, 20, 21, 22, 23, 24, 25] (s25.take 6) (by decide))
  (tryRange_hit 21 [3, 4, 8, 9, 10, 11, 12, 13, 14, 15, 16, 17, 18, 19, 20, 21, 22, 23, 24, 25] (s25.take 6) 1 18 [(8, 15), (9, 14), (10, 13), (11, 12), (16, 23), (17, 24), (18, 25), (19, 20), (21, 22)]
    ((bridge25_6 (([3, 4, 8, 9, 10, 11, 12, 13, 14, 15, 16, 17, 18, 19, 20, 21, 22, 23, 24, 25] : List Nat).getD 0 0) (([3, 4, 8, 9, 10, 11, 12, 13, 14, 15, 16, 17, 18, 19, 20, 21, 22, 23, 24, 25] : List Nat).getD 1 0)
      (by decide) (by decide)).trans (by decide))
    n25_6_d3))

theorem n25_6_d1 : fvpF 23 [2, 3, 4, 5, 8, 9, 10, 11, 12, 13, 14, 15, 16, 17, 18, 19, 20, 21, 22, 23, 24, 25] (s25.take 6) = some [(2, 5), (3, 4), (8, 15), (9, 14), (10, 13), (11, 12), (16, 23), (17, 24), (18, 25), (19, 20), (21, 22)] :=
  (Eq.trans (fvpF_succ 22 [2, 3, 4, 5, 8, 9, 10, 11, 12, 13, 14, 15, 16, 17, 18, 19, 20, 21, 22, 23, 24, 25] (s25.take 6) (by decide))
  (Eq.trans (tryRange_skipAll 22 [2, 3, 4, 5, 8, 9, 10, 11, 12, 13, 14, 15, 16, 17, 18, 19, 20, 21, 22, 23, 24, 25] (s25.take 6) 52093862775067432915339799377512586022034703742752079040074687516309052789373454295155436136270090231749556538666648523238528004682681378137946836985600453492472858888693061317911186876517473723197200995384822178293247033945037930097541120 bridge25_6
    (by decide) 1 2 19 (by decide))
  (tryRange_hit 22 [2, 3, 4, 5, 8, 9, 10, 11, 12, 13, 14, 15, 16, 17, 18, 19, 20, 21, 22, 23, 24, 25] (s25.take 6) 3 18 [(3, 4), (8, 15), (9, 14), (10, 13), (11, 12), (16, 23), (17, 24), (18, 25), (19, 20), (21, 22)]
    ((bridge25_6 (([2, 3, 4, 5, 8, 9, 10, 11, 12, 13, 14, 15, 16, 17, 18, 19, 20, 21, 22, 23, 24, 25] : List Nat).getD 0 0) (([2, 3, 4, 5, 8, 9, 10, 11, 12, 13, 14, 15, 16, 17, 18, 19, 20, 21, 22, 23, 24, 25] : List Nat).getD 3 0)
      (by decide) (by decide)).trans (by decide))
    n25_6_d2)))

theorem n25_6_d0 : fvpF 24 [1, 2, 3, 4, 5, 6, 8, 9, 10, 11, 12, 13, 14, 15, 16, 17, 18, 19, 20, 21, 22, 23, 24, 25] (s25.take 6) = some [(1, 6), (2, 5), (3, 4), (8, 15), (9, 14), (10, 13), (11, 12), (16, 23), (17, 24), (18, 25), (19, 20), (21, 22)] :=
  (Eq.trans (fvpF_succ 23 [1, 2, 3, 4, 5, 6, 8, 9, 10, 11, 12, 13, 14, 15, 16, 17, 18, 19, 20, 21, 22, 23, 24, 25] (s25.take 6) (by decide))
  (Eq.trans (tryRange_skipAll 23 [1, 2, 3, 4, 5, 6, 8, 9, 10, 11, 12, 13, 14, 15, 16, 17, 18, 19, 20, 21, 22, 23, 24, 25] (s25.take 6) 52093862775067432915339799377512586022034703742752079040074687516309052789373454295155436136270090231749556538666648523238528004682681378137946836985600453492472858888693061317911186876517473723197200995384822178293247033945037930097541120 bridge25_6
    (by decide) 1 4 19 (by decide))
  (tryRange_hit 23 [1, 2, 3, 4, 5, 6, 8, 9, 10, 11, 12, 13, 14, 15, 16, 17, 18, 19, 20, 21, 22, 23, 24, 25] (s25.take 6) 5 18 [(2, 5), (3, 4), (8, 15), (9, 14), (10, 13), (11, 12), (16, 23), (17, 24), (18, 25), (19, 20), (21, 22)]
    ((bridge25_6 (([1, 2, 3, 4, 5, 6, 8, 9, 10, 11, 12, 13, 14, 15, 16, 17, 18, 19, 20, 21, 22, 23, 24, 25] : List Nat).getD 0 0) (([1, 2, 3, 4, 5, 6, 8, 9, 10, 11, 12, 13, 14, 15, 16, 17, 18, 19, 20, 21, 22, 23, 24, 25] : List Nat).getD 5 0)
      (by decide) (by decide)).trans (by decide))
    n25_6_d1)))

theorem fvp25_6 : findValidPairs [1, 2, 3, 4, 5, 6, 8, 9, 10, 11, 12, 13, 14, 15, 16, 17, 18, 19, 20, 21, 22, 23, 24, 25] (s25.take 6) = some [(1, 6), (2, 5), (3, 4), (8, 15), (9, 14), (10, 13), (11, 12), (16, 23), (17, 24), (18, 25), (19, 20), (21, 22)] := n25_6_d0

theorem n25_7_d11 : fvpF 13 [21, 23] (s25.take 7) = some [(21, 23)] :=
  (Eq.trans (fvpF_succ 12 [21, 23] (s25.take 7) (by decide))
  (tryRange_hit 12 [21, 23] (s25.take 7) 1 0 []
    ((bridge25_7 (([21, 23] : List Nat).getD 0 0) (([21, 23] : List Nat).getD 1 0)
      (by decide) (by decide)).trans (by decide))
    (fvpF_nil 12 (s25.take 7))))

theorem n25_7_d10 : fvpF 14 [19, 21, 22, 23] (s25.take 7) = some [(19, 22), (21, 23)] :=
  (Eq.trans (fvpF_succ 13 [19, 21, 22, 23] (s25.take 7) (by decide))
  (Eq.trans (tryRange_skipAll 13 [19, 21, 22, 23] (s25.take 7) 52093862775067432915339799377594775645496397078803833384106900226601556036377005912555258026430894804875501742364379481431237792624760803455841589360454436796214203861171635837690713493734483064481413064845053802709462399930240658967625728 bridge25_7
    (by decide) 1 1 2 (by decide))
  (tryRange_hit 13 [19, 21, 22, 23] (s25.take 7) 2 1 [(21, 23)]
    ((bridge25_7 (([19, 21, 22, 23] : List Nat).getD 0 0) (([19, 21, 22, 23] : List Nat).getD 2 0)
      (by decide) (by decide)).trans (by decide))
    n25_7_d11)))

theorem n25_7_d9 : fvpF 15 [18, 19, 20, 21, 22, 23] (s25.take 7) = some [(18, 20), (19, 22), (21, 23)] :=
  (Eq.trans (fvpF_succ 14 [18, 19, 20, 21, 22, 23] (s25.take 7) (by decide))
  (Eq.trans (tryRange_skipAll 14 [18, 19, 20, 21, 22, 23] (s25.take 7) 52093862775067432915339799377594775645496397078803833384106900226601556036377005912555258026430894804875501742364379481431237792624760803455841589360454436796214203861171635837690713493734483064481413064845053802709462399930240658967625728 bridge25_7
    (by decide) 1 1 4 (by decide))
  (tryRange_hit 14 [18, 19, 20, 21, 22, 23] (s25.take 7) 2 3 [(19, 22), (21, 23)]
    ((bridge25_7 (([18, 19, 20, 21, 22, 23] : List Nat).getD 0 0) (([18, 19, 20, 21, 22, 23] : List Nat).getD 2 0)
      (by decide) (by decide)).trans (by decide))
    n25_7_d10)))

theorem c25_7_0 : fvpF 15 [18, 19, 20, 21, 23, 25] (s25.take 7) = none :=
  fvpF_none_of_cert 15 [18, 19, 20, 21, 23, 25] (s25.take 7) 52093862775067432915339799377594775645496397078803833384106900226601556036377005912555258026430894804875501742364379481431237792624760803455841589360454436796214203861171635837690713493734483064481413064845053802709462399930240658967625728 bridge25_7
    [] [[18, 19, 20, 21, 23]]
    (by decide) (by decide) (by decide) (by decide) (by decide) (by decide)
    (by decide) (by decide)

theorem n25_7_d8 : fvpF 16 [17, 18, 19, 20, 21, 22, 23, 25] (s25.take 7) = some [(17, 25), (18, 20), (19, 22), (21, 23)] :=
  (Eq.trans (fvpF_succ 15 [17, 18, 19, 20, 21, 22, 23, 25] (s25.take 7) (by decide))
  (Eq.trans (Eq.trans (Eq.trans (tryRange_skipAll 15 [17, 18, 19, 20, 21, 22, 23, 25] (s25.take 7) 52093862775067432915339799377594775645496397078803833384106900226601556036377005912555258026430894804875501742364379481431237792624760803455841589360454436796214203861171635837690713493734483064481413064845053802709462399930240658967625728 bridge25_7
    (by decide) 1 4 3 (by decide))
  (tryRange_fail 15 [17, 18, 19, 20, 21, 22, 23, 25] (s25.take 7) 5 2
    ((bridge25_7 (([17, 18, 19, 20, 21, 22, 23, 25] : List Nat).getD 0 0) (([17, 18, 19, 20, 21, 22, 23, 25] : List Nat).getD 5 0)
      (by decide) (by decide)).trans (by decide))
    c25_7_0))
  (tryRange_skipAll 15 [17, 18, 19, 20, 21, 22, 23, 25] (s25.take 7) 52093862775067432915339799377594775645496397078803833384106900226601556036377005912555258026430894804875501742364379481431237792624760803455841589360454436796214203861171635837690713493734483064481413064845053802709462399930240658967625728 bridge25_7
    (by decide) 6 1 1 (by decide)))
  (tryRange_hit 15 [17, 18, 19, 20, 21, 22, 23, 25] (s25.take 7) 7 0 [(18, 20), (19, 22), (21, 23)]
    ((bridge25_7 (([17, 18, 19, 20, 21, 22, 23, 25] : List Nat).getD 0 0) (([17, 18, 19, 20, 21, 22, 23, 25] : List Nat).getD 7 0)
      (by decide) (by decide)).trans (by decide))
    n25_7_d9)))

theorem n25_7_d7 : fvpF 17 [16, 17, 18, 19, 20, 21, 22, 23, 24, 25] (s25.take 7) = some [(16, 24), (17, 25), (18, 20), (19, 22), (21, 23)] :=
  (Eq.trans (fvpF_succ 16 [16, 17, 18, 19, 20, 21, 22, 23, 24, 25] (s25.take 7) (by decide))
  (Eq.trans (tryRange_skipAll 16 [16, 17, 18, 19, 20, 21, 22, 23, 24, 25] (s25.take 7) 52093862775067432915339799377594775645496397078803833384106900226601556036377005912555258026430894804875501742364379481431237792624760803455841589360454436796214203861171635837690713493734483064481413064845053802709462399930240658967625728 bridge25_7
    (by decide) 1 7 2 (by decide))
  (tryRange_hit 16 [16, 17, 18, 19, 20, 21, 22, 23, 24, 25] (s25.take 7) 8 1 [(17, 25), (18, 20), (19, 22), (21, 23)]
    ((bridge25_7 (([16, 17, 18, 19, 20, 21, 22, 23, 24, 25] : List Nat).getD 0 0) (([16, 17, 18, 19, 20, 21, 22, 23, 24, 25] : List Nat).getD 8 0)
      (by decide) (by decide)).trans (by decide))
    n25_7_d8)))

theorem n25_7_d6 : fvpF 18 [7, 15, 16, 17, 18, 19, 20, 21, 22, 23, 24, 25] (s25.take 7) = some [(7, 15), (16, 24), (17, 25), (18, 20), (19, 22), (21, 23)] :=
  (Eq.trans (fvpF_succ 17 [7, 15, 16, 17, 18, 19, 20, 21, 22, 23, 24, 25] (s25.take 7) (by decide))
  (tryRange_hit 17 [7, 15, 16, 17, 18, 19, 20, 21, 22, 23, 24, 25] (s25.take 7) 1 10 [(16, 24), (17, 25), (18, 20), (19, 22), (21, 23)]
    ((bridge25_7 (([7, 15, 16, 17, 18, 19, 20, 21, 22, 23, 24, 25] : List Nat).getD 0 0) (([7, 15, 16, 17, 18, 19, 20, 21, 22, 23, 24, 25] : List Nat).getD 1 0)
      (by decide) (by decide)).trans (by decide))
    n25_7_d7))

theorem n25_7_d5 : fvpF 19 [6, 7, 14, 15, 16, 17, 18, 19, 20, 21, 22, 23, 24, 25] (s25.take 7) = some [(6, 14), (7, 15), (16, 24), (17, 25), (18, 20), (19, 22), (21, 23)] :=
  (Eq.trans (fvpF_succ 18 [6, 7, 14, 15, 16, 17, 18, 19, 20, 21, 22, 23, 24, 25] (s25.take 7) (by decide))
  (Eq.trans (tryRange_skipAll 18 [6, 7, 14, 15, 16, 17, 18, 19, 20, 21, 22, 23, 24, 25] (s25.take 7) 52093862775067432915339799377594775645496397078803833384106900226601556036377005912555258026430894804875501742364379481431237792624760803455841589360454436796214203861171635837690713493734483064481413064845053802709462399930240658967625728 bridge25_7
    (by decide) 1 1 12 (by decide))
  (tryRange_hit 18 [6, 7, 14, 15, 16, 17, 18, 19, 20, 21, 22, 23, 24, 25] (s25.take 7) 2 11 [(7, 15), (16, 24), (17, 25), (18, 20), (19, 22), (21, 23)]
    ((bridge25_7 (([6, 7, 14, 15, 16, 17, 18, 19, 20, 21, 22, 23, 24, 25] : List Nat).getD 0 0) (([6, 7, 14, 15, 16, 17, 18, 19, 20, 21, 22, 23, 24, 25] : List Nat).getD 2 0)
      (by decide) (by decide)).trans (by decide))
    n25_7_d6)))

theorem n25_7_d4 : fvpF 20 [5, 6, 7, 13, 14, 15, 16, 17, 18, 19, 20, 21, 22, 23, 24, 25] (s25.take 7) = some [(5, 13), (6, 14), (7, 15), (16, 24), (17, 25), (18, 20), (19, 22), (21, 23)] :=
  (Eq.trans (fvpF_succ 19 [5, 6, 7, 13, 14, 15, 16, 17, 18, 19, 20, 21, 22, 23, 24, 25] (s25.take 7) (by decide))
  (Eq.trans (tryRange_skipAll 19 [5, 6, 7, 13, 14, 15, 16, 17, 18, 19, 20, 21, 22, 23, 24, 25] (s25.take 7) 52093862775067432915339799377594775645496397078803833384106900226601556036377005912555258026430894804875501742364379481431237792624760803455841589360454436796214203861171635837690713493734483064481413064845053802709462399930240658967625728 bridge25_7
    (by decide) 1 2 13 (by decide))
  (tryRange_hit 19 [5, 6, 7, 13, 14, 15, 16, 17, 18, 19, 20, 21, 22, 23, 24, 25] (s25.take 7) 3 12 [(6, 14), (7, 15), (16, 24), (17, 25), (18, 20), (19, 22), (21, 23)]
    ((bridge25_7 (([5, 6, 7, 13, 14, 15, 16, 17, 18, 19, 20, 21, 22, 23, 24, 25] : List Nat).getD 0 0) (([5, 6, 7, 13, 14, 15, 16, 17, 18, 19, 20, 21, 22, 23, 24, 25] : List Nat).getD 3 0)
      (by decide) (by decide)).trans (by decide))
    n25_7_d5)))

theorem n25_7_d3 : fvpF 21 [4, 5, 6, 7, 12, 13, 14, 15, 16, 17, 18, 19, 20, 21, 22, 23, 24, 25] (s25.take 7) = some [(4, 12), (5, 13), (6, 14), (7, 15), (16, 24), (17, 25), (18, 20), (19, 22), (21, 23)] :=
  (Eq.trans (fvpF_succ 20 [4, 5, 6, 7, 12, 13, 14, 15, 16, 17, 18, 19, 20, 21, 22, 23, 24, 25] (s25.take 7) (by decide))
  (Eq.trans (tryRange_skipAll 20 [4, 5, 6, 7, 12, 13, 14, 15, 16, 17, 18, 19, 20, 21, 22, 23, 24, 25] (s25.take 7) 52093862775067432915339799377594775645496397078803833384106900226601556036377005912555258026430894804875501742364379481431237792624760803455841589360454436796214203861171635837690713493734483064481413064845053802709462399930240658967625728 bridge25_7
    (by decide) 1 3 14 (by decide))
  (tryRange_hit 20 [4, 5, 6, 7, 12, 13, 14, 15, 16, 17, 18, 19, 20, 21, 22, 23, 24, 25] (s25.take 7) 4 13 [(5, 13), (6, 14), (7, 15), (16, 24), (17, 25), (18, 20), (19, 22), (21, 23)]
    ((bridge25_7 (([4, 5, 6, 7, 12, 13, 14, 15, 16, 17, 18, 19, 20, 21, 22, 23, 24, 25] : List Nat).getD 0 0) (([4, 5, 6, 7, 12, 13, 14, 15, 16, 17, 18, 19, 20, 21, 22, 23, 24, 25] : List Nat).getD 4 0)
      (by decide) (by decide)).trans (by decide))
    n25_7_d4)))

theorem n25_7_d2 : fvpF 22 [3, 4, 5, 6, 7, 11, 12, 13, 14, 15, 16, 17, 18, 19, 20, 21, 22, 23, 24, 25] (s25.take 7) = some [(3, 11), (4, 12), (5, 13), (6, 14), (7, 15), (16, 24), (17, 25), (18, 20), (19, 22), (21, 23)] :=
  (Eq.trans (fvpF_succ 21 [3, 4, 5, 6, 7, 11, 12, 13, 14, 15, 16, 17, 18, 19, 20, 21, 22, 23, 24, 25] (s25.take 7) (by decide))
  (Eq.trans (tryRange_skipAll 21 [3, 4, 5, 6, 7, 11, 12, 13, 14, 15, 16, 17, 18, 19, 20, 21, 22, 23, 24, 25] (s25.take 7) 52093862775067432915339799377594775645496397078803833384106900226601556036377005912555258026430894804875501742364379481431237792624760803455841589360454436796214203861171635837690713493734483064481413064845053802709462399930240658967625728 bridge25_7
    (by decide) 1 4 15 (by decide))
  (tryRange_hit 21 [3, 4, 5, 6, 7, 11, 12, 13, 14, 15, 16, 17, 18, 19, 20, 21, 22, 23, 24, 25] (s25.take 7) 5 14 [(4, 12), (5, 13), (6, 14), (7, 15), (16, 24), (17, 25), (18, 20), (19, 22), (21, 23)]
    ((bridge25_7 (([3, 4, 5, 6, 7, 11, 12, 13, 14, 15, 16, 17, 18, 19, 20, 21, 22, 23, 24, 25] : List Nat).getD 0 0) (([3, 4, 5, 6, 7, 11, 12, 13, 14, 15, 16, 17, 18, 19, 20, 21, 22, 23, 24, 25] : List Nat).getD 5 0)
      (by decide) (by decide)).trans (by decide))
    n25_7_d3)))

theorem n25_7_d1 : fvpF 23 [2, 3, 4, 5, 6, 7, 10, 11, 12, 13, 14, 15, 16, 17, 18, 19, 20, 21, 22, 23, 24, 25] (s25.take 7) = some [(2, 10), (3, 11), (4, 12), (5, 13), (6, 14), (7, 15), (16, 24), (17, 25), (18, 20), (19, 22), (21, 23)] :=
  (Eq.trans (fvpF_succ 22 [2, 3, 4, 5, 6, 7, 10, 11, 12, 13, 14, 15, 16, 17, 18, 19, 20, 21, 22, 23, 24, 25] (s25.take 7) (by decide))
  (Eq.trans (tryRange_skipAll 22 [2, 3, 4, 5, 6, 7, 10, 11, 12, 13, 14, 15, 16, 17, 18, 19, 20, 21, 22, 23, 24, 25] (s25.take 7) 52093862775067432915339799377594775645496397078803833384106900226601556036377005912555258026430894804875501742364379481431237792624760803455841589360454436796214203861171635837690713493734483064481413064845053802709462399930240658967625728 bridge25_7
    (by decide) 1 5 16 (by decide))
  (tryRange_hit 22 [2, 3, 4, 5, 6, 7, 10, 11, 12, 13, 14, 15, 16, 17, 18, 19, 20, 21, 22, 23, 24, 25] (s25.take 7) 6 15 [(3, 11), (4, 12), (5, 13), (6, 14), (7, 15), (16, 24), (17, 25), (18, 20), (19, 22), (21, 23)]
    ((bridge25_7 (([2, 3, 4, 5, 6, 7, 10, 11, 12, 13, 14, 15, 16, 17, 18, 19, 20, 21, 22, 23, 24, 25] : List Nat).getD 0 0) (([2, 3, 4, 5, 6, 7, 10, 11, 12, 13, 14, 15, 16, 17, 18, 19, 20, 21, 22, 23, 24, 25] : List Nat).getD 6 0)
      (by decide) (by decide)).trans (by decide))
    n25_7_d2)))

theorem n25_7_d0 : fvpF 24 [1, 2, 3, 4, 5, 6, 7, 9, 10, 11, 12, 13, 14, 15, 16, 17, 18, 19, 20, 21, 22, 23, 24, 25] (s25.take 7) = some [(1, 9), (2, 10), (3, 11), (4, 12), (5, 13), (6, 14), (7, 15), (16, 24), (17, 25), (18, 20), (19, 22), (21, 23)] :=
  (Eq.trans (fvpF_succ 23 [1, 2, 3, 4, 5, 6, 7, 9, 10, 11, 12, 13, 14, 15, 16, 17, 18, 19, 20, 21, 22, 23, 24, 25] (s25.take 7) (by decide))
  (Eq.trans (tryRange_skipAll 23 [1, 2, 3, 4, 5, 6, 7, 9, 10, 11, 12, 13, 14, 15, 16, 17, 18, 19, 20, 21, 22, 23, 24, 25] (s25.take 7) 52093862775067432915339799377594775645496397078803833384106900226601556036377005912555258026430894804875501742364379481431237792624760803455841589360454436796214203861171635837690713493734483064481413064845053802709462399930240658967625728 bridge25_7
    (by decide) 1 6 17 (by decide))
  (tryRange_hit 23 [1, 2, 3, 4, 5, 6, 7, 9, 10, 11, 12, 13, 14, 15, 16, 17, 18, 19, 20, 21, 22, 23, 24, 25] (s25.take 7) 7 16 [(2, 10), (3, 11), (4, 12), (5, 13), (6, 14), (7, 15), (16, 24), (17, 25), (18, 20), (19, 22), (21, 23)]
    ((bridge25_7 (([1, 2, 3, 4, 5, 6, 7, 9, 10, 11, 12, 13, 14, 15, 16, 17, 18, 19, 20, 21, 22, 23, 24, 25] : List Nat).getD 0 0) (([1, 2, 3, 4, 5, 6, 7, 9, 10, 11, 12, 13, 14, 15, 16, 17, 18, 19, 20, 21, 22, 23, 24, 25] : List Nat).getD 7 0)
      (by decide) (by decide)).trans (by decide))
    n25_7_d1)))

theorem fvp25_7 : findValidPairs [1, 2, 3, 4, 5, 6, 7, 9, 10, 11, 12, 13, 14, 15, 16, 17, 18, 19, 20, 21, 22, 23, 24, 25] (s25.take 7) = some [(1, 9), (2, 10), (3, 11), (4, 12), (5, 13), (6, 14), (7, 15), (16, 24), (17, 25), (18, 20), (19, 22), (21, 23)] := n25_7_d0

theorem n25_8_d11 : fvpF 13 [20, 24] (s25.take 8) = some [(20, 24)] :=
  (Eq.trans (fvpF_succ 12 [20, 24] (s25.take 8) (by decide))
  (tryRange_hit 12 [20, 24] (s25.take 8) 1 0 []
    ((bridge25_8 (([20, 24] : List Nat).getD 0 0) (([20, 24] : List Nat).getD 1 0)
      (by decide) (by decide)).trans (by decide))
    (fvpF_nil 12 (s25.take 8))))

theorem n25_8_d10 : fvpF 14 [19, 20, 23, 24] (s25.take 8) = some [(19, 23), (20, 24)] :=
  (Eq.trans (fvpF_succ 13 [19, 20, 23, 24] (s25.take 8) (by decide))
  (Eq.trans (tryRange_skipAll 13 [19, 20, 23, 24] (s25.take 8) 52093862775067432915339799377759154892419783750909569826362810267143195755183062386765100881452447404991540675812739002533739034993957805821324632953443489698425336712366780670167236002164520988238196405244107790116189067462677242564313088 bridge25_8
    (by decide) 1 1 2 (by decide))
  (tryRange_hit 13 [19, 20, 23, 24] (s25.take 8) 2 1 [(20, 24)]
    ((bridge25_8 (([19, 20, 23, 24] : List Nat).getD 0 0) (([19, 20, 23, 24] : List Nat).getD 2 0)
      (by decide) (by decide)).trans (by decide))
    n25_8_d11)))

theorem n25_8_d9 : fvpF 15 [18, 19, 20, 21, 23, 24] (s25.take 8) = some [(18, 21), (19, 23), (20, 24)] :=
  (Eq.trans (fvpF_succ 14 [18, 19, 20, 21, 23, 24] (s25.take 8) (by decide))
  (Eq.trans (tryRange_skipAll 14 [18, 19, 20, 21, 23, 24] (s25.take 8) 52093862775067432915339799377759154892419783750909569826362810267143195755183062386765100881452447404991540675812739002533739034993957805821324632953443489698425336712366780670167236002164520988238196405244107790116189067462677242564313088 bridge25_8
    (by decide) 1 2 3 (by decide))
  (tryRange_hit 14 [18, 19, 20, 21, 23, 24] (s25.take 8) 3 2 [(19, 23), (20, 24)]
    ((bridge25_8 (([18, 19, 20, 21, 23, 24] : List Nat).getD 0 0) (([18, 19, 20, 21, 23, 24] : List Nat).getD 3 0)
      (by decide) (by decide)).trans (by decide))
    n25_8_d10)))

theorem n25_8_d8 : fvpF 16 [17, 18, 19, 20, 21, 22, 23, 24] (s25.take 8) = some [(17, 22), (18, 21), (19, 23), (20, 24)] :=
  (Eq.trans (fvpF_succ 15 [17, 18, 19, 20, 21, 22, 23, 24] (s25.take 8) (by decide))
  (Eq.trans (tryRange_skipAll 15 [17, 18, 19, 20, 21, 22, 23, 24] (s25.take 8) 52093862775067432915339799377759154892419783750909569826362810267143195755183062386765100881452447404991540675812739002533739034993957805821324632953443489698425336712366780670167236002164520988238196405244107790116189067462677242564313088 bridge25_8
    (by decide) 1 4 3 (by decide))
  (tryRange_hit 15 [17, 18, 19, 20, 21, 22, 23, 24] (s25.take 8) 5 2 [(18, 21), (19, 23), (20, 24)]
    ((bridge25_8 (([17, 18, 19, 20, 21, 22, 23, 24] : List Nat).getD 0 0) (([17, 18, 19, 20, 21, 22, 23, 24] : List Nat).getD 5 0)
      (by decide) (by decide)).trans (by decide))
    n25_8_d9)))

theorem n25_8_d7 : fvpF 17 [16, 17, 18, 19, 20, 21, 22, 23, 24, 25] (s25.take 8) = some [(16, 25), (17, 22), (18, 21), (19, 23), (20, 24)] :=
  (Eq.trans (fvpF_succ 16 [16, 17, 18, 19, 20, 21, 22, 23, 24, 25] (s25.take 8) (by decide))
  (Eq.trans (tryRange_skipAll 16 [16, 17, 18, 19, 20, 21, 22, 23, 24, 25] (s25.take 8) 52093862775067432915339799377759154892419783750909569826362810267143195755183062386765100881452447404991540675812739002533739034993957805821324632953443489698425336712366780670167236002164520988238196405244107790116189067462677242564313088 bridge25_8
    (by decide) 1 8 1 (by decide))
  (tryRange_hit 16 [16, 17, 18, 19, 20, 21, 22, 23, 24, 25] (s25.take 8) 9 0 [(17, 22), (18, 21), (19, 23), (20, 24)]
    ((bridge25_8 (([16, 17, 18, 19, 20, 21, 22, 23, 24, 25] : List Nat).getD 0 0) (([16, 17, 18, 19, 20, 21, 22, 23, 24, 25] : List Nat).getD 9 0)
      (by decide) (by decide)).trans (by decide))
    n25_8_d8)))

theorem n25_8_d6 : fvpF 18 [7, 14, 16, 17, 18, 19, 20, 21, 22, 23, 24, 25] (s25.take 8) = some [(7, 14), (16, 25), (17, 22), (18, 21), (19, 23), (20, 24)] :=
  (Eq.trans (fvpF_succ 17 [7, 14, 16, 17, 18, 19, 20, 21, 22, 23, 24, 25] (s25.take 8) (by decide))
  (tryRange_hit 17 [7, 14, 16, 17, 18, 19, 20, 21, 22, 23, 24, 25] (s25.take 8) 1 10 [(16, 25), (17, 22), (18, 21), (19, 23), (20, 24)]
    ((bridge25_8 (([7, 14, 16, 17, 18, 19, 20, 21, 22, 23, 24, 25] : List Nat).getD 0 0) (([7, 14, 16, 17, 18, 19, 20, 21, 22, 23, 24, 25] : List Nat).getD 1 0)
      (by decide) (by decide)).trans (by decide))
    n25_8_d7))

theorem n25_8_d5 : fvpF 19 [6, 7, 14, 15, 16, 17, 18, 19, 20, 21, 22, 23, 24, 25] (s25.take 8) = some [(6, 15), (7, 14), (16, 25), (17, 22), (18, 21), (19, 23), (20, 24)] :=
  (Eq.trans (fvpF_succ 18 [6, 7, 14, 15, 16, 17, 18, 19, 20, 21, 22, 23, 24, 25] (s25.take 8) (by decide))
  (Eq.trans (tryRange_skipAll 18 [6, 7, 14, 15, 16, 17, 18, 19, 20, 21, 22, 23, 24, 25] (s25.take 8) 52093862775067432915339799377759154892419783750909569826362810267143195755183062386765100881452447404991540675812739002533739034993957805821324632953443489698425336712366780670167236002164520988238196405244107790116189067462677242564313088 bridge25_8
    (by decide) 1 2 11 (by decide))
  (tryRange_hit 18 [6, 7, 14, 15, 16, 17, 18, 19, 20, 21, 22, 23, 24, 25] (s25.take 8) 3 10 [(7, 14), (16, 25), (17, 22), (18, 21), (19, 23), (20, 24)]
    ((bridge25_8 (([6, 7, 14, 15, 16, 17, 18, 19, 20, 21, 22, 23, 24, 25] : List Nat).getD 0 0) (([6, 7, 14, 15, 16, 17, 18, 19, 20, 21, 22, 23, 24, 25] : List Nat).getD 3 0)
      (by decide) (by decide)).trans (by decide))
    n25_8_d6)))

theorem n25_8_d4 : fvpF 20 [5, 6, 7, 12, 14, 15, 16, 17, 18, 19, 20, 21, 22, 23, 24, 25] (s25.take 8) = some [(5, 12), (6, 15), (7, 14), (16, 25), (17, 22), (18, 21), (19, 23), (20, 24)] :=
  (Eq.trans (fvpF_succ 19 [5, 6, 7, 12, 14, 15, 16, 17, 18, 19, 20, 21, 22, 23, 24, 25] (s25.take 8) (by decide))
  (Eq.trans (tryRange_skipAll 19 [5, 6, 7, 12, 14, 15, 16, 17, 18, 19, 20, 21, 22, 23, 24, 25] (s25.take 8) 52093862775067432915339799377759154892419783750909569826362810267143195755183062386765100881452447404991540675812739002533739034993957805821324632953443489698425336712366780670167236002164520988238196405244107790116189067462677242564313088 bridge25_8
    (by decide) 1 2 13 (by decide))
  (tryRange_hit 19 [5, 6, 7, 12, 14, 15, 16, 17, 18, 19, 20, 21, 22, 23, 24, 25] (s25.take 8) 3 12 [(6, 15), (7, 14), (16, 25), (17, 22), (18, 21), (19, 23), (20, 24)]
    ((bridge25_8 (([5, 6, 7, 12, 14, 15, 16, 17, 18, 19, 20, 21, 22, 23, 24, 25] : List Nat).getD 0 0) (([5, 6, 7, 12, 14, 15, 16, 17, 18, 19, 20, 21, 22, 23, 24, 25] : List Nat).getD 3 0)
      (by decide) (by decide)).trans (by decide))
    n25_8_d5)))

theorem n25_8_d3 : fvpF 21 [4, 5, 6, 7, 12, 13, 14, 15, 16, 17, 18, 19, 20, 21, 22, 23, 24, 25] (s25.take 8) = some [(4, 13), (5, 12), (6, 15), (7, 14), (16, 25), (17, 22), (18, 21), (19, 23), (20, 24)] :=
  (Eq.trans (fvpF_succ 20 [4, 5, 6, 7, 12, 13, 14, 15, 16, 17, 18, 19, 20, 21, 22, 23, 24, 25] (s25.take 8) (by decide))
  (Eq.trans (tryRange_skipAll 20 [4, 5, 6, 7, 12, 13, 14, 15, 16, 17, 18, 19, 20, 21, 22, 23, 24, 25] (s25.take 8) 52093862775067432915339799377759154892419783750909569826362810267143195755183062386765100881452447404991540675812739002533739034993957805821324632953443489698425336712366780670167236002164520988238196405244107790116189067462677242564313088 bridge25_8
    (by decide) 1 4 13 (by decide))
  (tryRange_hit 20 [4, 5, 6, 7, 12, 13, 14, 15, 16, 17, 18, 19, 20, 21, 22, 23, 24, 25] (s25.take 8) 5 12 [(5, 12), (6, 15), (7, 14), (16, 25), (17, 22), (18, 21), (19, 23), (20, 24)]
    ((bridge25_8 (([4, 5, 6, 7, 12, 13, 14, 15, 16, 17, 18, 19, 20, 21, 22, 23, 24, 25] : List Nat).getD 0 0) (([4, 5, 6, 7, 12, 13, 14, 15, 16, 17, 18, 19, 20, 21, 22, 23, 24, 25] : List Nat).getD 5 0)
      (by decide) (by decide)).trans (by decide))
    n25_8_d4)))

theorem n25_8_d2 : fvpF 22 [3, 4, 5, 6, 7, 10, 12, 13, 14, 15, 16, 17, 18, 19, 20, 21, 22, 23, 24, 25] (s25.take 8) = some [(3, 10), (4, 13), (5, 12), (6, 15), (7, 14), (16, 25), (17, 22), (18, 21), (19, 23), (20, 24)] :=
  (Eq.trans (fvpF_succ 21 [3, 4, 5, 6, 7, 10, 12, 13, 14, 15, 16, 17, 18, 19, 20, 21, 22, 23, 24, 25] (s25.take 8) (by decide))
  (Eq.trans (tryRange_skipAll 21 [3, 4, 5, 6, 7, 10, 12, 13, 14, 15, 16, 17, 18, 19, 20, 21, 22, 23, 24, 25] (s25.take 8) 52093862775067432915339799377759154892419783750909569826362810267143195755183062386765100881452447404991540675812739002533739034993957805821324632953443489698425336712366780670167236002164520988238196405244107790116189067462677242564313088 bridge25_8
    (by decide) 1 4 15 (by decide))
  (tryRange_hit 21 [3, 4, 5, 6, 7, 10, 12, 13, 14, 15, 16, 17, 18, 19, 20, 21, 22, 23, 24, 25] (s25.take 8) 5 14 [(4, 13), (5, 12), (6, 15), (7, 14), (16, 25), (17, 22), (18, 21), (19, 23), (20, 24)]
    ((bridge25_8 (([3, 4, 5, 6, 7, 10, 12, 13, 14, 15, 16, 17, 18, 19, 20, 21, 22, 23, 24, 25] : List Nat).getD 0 0) (([3, 4, 5, 6, 7, 10, 12, 13, 14, 15, 16, 17, 18, 19, 20, 21, 22, 23, 24, 25] : List Nat).getD 5 0)
      (by decide) (by decide)).trans (by decide))
    n25_8_d3)))

theorem n25_8_d1 : fvpF 23 [2, 3, 4, 5, 6, 7, 10, 11, 12, 13, 14, 15, 16, 17, 18, 19, 20, 21, 22, 23, 24, 25] (s25.take 8) = some [(2, 11), (3, 10), (4, 13), (5, 12), (6, 15), (7, 14), (16, 25), (17, 22), (18, 21), (19, 23), (20, 24)] :=
  (Eq.trans (fvpF_succ 22 [2, 3, 4, 5, 6, 7, 10, 11, 12, 13, 14, 15, 16, 17, 18, 19, 20, 21, 22, 23, 24, 25] (s25.take 8) (by decide))
  (Eq.trans (tryRange_skipAll 22 [2, 3, 4, 5, 6, 7, 10, 11, 12, 13, 14, 15, 16, 17, 18, 19, 20, 21, 22, 23, 24, 25] (s25.take 8) 52093862775067432915339799377759154892419783750909569826362810267143195755183062386765100881452447404991540675812739002533739034993957805821324632953443489698425336712366780670167236002164520988238196405244107790116189067462677242564313088 bridge25_8
    (by decide) 1 6 15 (by decide))
  (tryRange_hit 22 [2, 3, 4, 5, 6, 7, 10, 11, 12, 13, 14, 15, 16, 17, 18, 19, 20, 21, 22, 23, 24, 25] (s25.take 8) 7 14 [(3, 10), (4, 13), (5, 12), (6, 15), (7, 14), (16, 25), (17, 22), (18, 21), (19, 23), (20, 24)]
    ((bridge25_8 (([2, 3, 4, 5, 6, 7, 10, 11, 12, 13, 14, 15, 16, 17, 18, 19, 20, 21, 22, 23, 24, 25] : List Nat).getD 0 0) (([2, 3, 4, 5, 6, 7, 10, 11, 12, 13, 14, 15, 16, 17, 18, 19, 20, 21, 22, 23, 24, 25] : List Nat).getD 7 0)
      (by decide) (by decide)).trans (by decide))
    n25_8_d2)))

theorem n25_8_d0 : fvpF 24 [1, 2, 3, 4, 5, 6, 7, 8, 10, 11, 12, 13, 14, 15, 16, 17, 18, 19, 20, 21, 22, 23, 24, 25] (s25.take 8) = some [(1, 8), (2, 11), (3, 10), (4, 13), (5, 12), (6, 15), (7, 14), (16, 25), (17, 22), (18, 21), (19, 23), (20, 24)] :=
  (Eq.trans (fvpF_succ 23 [1, 2, 3, 4, 5, 6, 7, 8, 10, 11, 12, 13, 14, 15, 16, 17, 18, 19, 20, 21, 22, 23, 24, 25] (s25.take 8) (by decide))
  (Eq.trans (tryRange_skipAll 23 [1, 2, 3, 4, 5, 6, 7, 8, 10, 11, 12, 13, 14, 15, 16, 17, 18, 19, 20, 21, 22, 23, 24, 25] (s25.take 8) 52093862775067432915339799377759154892419783750909569826362810267143195755183062386765100881452447404991540675812739002533739034993957805821324632953443489698425336712366780670167236002164520988238196405244107790116189067462677242564313088 bridge25_8
    (by decide) 1 6 17 (by decide))
  (tryRange_hit 23 [1, 2, 3, 4, 5, 6, 7, 8, 10, 11, 12, 13, 14, 15, 16, 17, 18, 19, 20, 21, 22, 23, 24, 25] (s25.take 8) 7 16 [(2, 11), (3, 10), (4, 13), (5, 12), (6, 15), (7, 14), (16, 25), (17, 22), (18, 21), (19, 23), (20, 24)]
    ((bridge25_8 (([1, 2, 3, 4, 5, 6, 7, 8, 10, 11, 12, 13, 14, 15, 16, 17, 18, 19, 20, 21, 22, 23, 24, 25] : List Nat).getD 0 0) (([1, 2, 3, 4, 5, 6, 7, 8, 10, 11, 12, 13, 14, 15, 16, 17, 18, 19, 20, 21, 22, 23, 24, 25] : List Nat).getD 7 0)
      (by decide) (by decide)).trans (by decide))
    n25_8_d1)))

theorem fvp25_8 : findValidPairs [1, 2, 3, 4, 5, 6, 7, 8, 10, 11, 12, 13, 14, 15, 16, 17, 18, 19, 20, 21, 22, 23, 24, 25] (s25.take 8) = some [(1, 8), (2, 11), (3, 10), (4, 13), (5, 12), (6, 15), (7, 14), (16, 25), (17, 22), (18, 21), (19, 23), (20, 24)] := n25_8_d0

theorem n25_9_d11 : fvpF 13 [15, 25] (s25.take 9) = some [(15, 25)] :=
  (Eq.trans (fvpF_succ 12 [15, 25] (s25.take 9) (by decide))
  (tryRange_hit 12 [15, 25] (s25.take 9) 1 0 []
    ((bridge25_9 (([15, 25] : List Nat).getD 0 0) (([15, 25] : List Nat).getD 1 0)
      (by decide) (by decide)).trans (by decide))
    (fvpF_nil 12 (s25.take 9))))

theorem n25_9_d10 : fvpF 14 [14, 15, 24, 25] (s25.take 9) = some [(14, 24), (15, 25)] :=
  (Eq.trans (fvpF_succ 13 [14, 15, 24, 25] (s25.take 9) (by decide))
  (Eq.trans (tryRange_skipAll 13 [14, 15, 24, 25] (s25.take 9) 52093862775067432915339799377759154892496328802647501818771932469147856570011558160871458798300280225423150752679450200997876267995068360329191752848810260598883965763017372513732509449129008184819364852880826439268890718338510543218802688 bridge25_9
    (by decide) 1 1 2 (by decide))
  (tryRange_hit 13 [14, 15, 24, 25] (s25.take 9) 2 1 [(15, 25)]
    ((bridge25_9 (([14, 15, 24, 25] : List Nat).getD 0 0) (([14, 15, 24, 25] : List Nat).getD 2 0)
      (by decide) (by decide)).trans (by decide))
    n25_9_d11)))

theorem n25_9_d9 : fvpF 15 [13, 14, 15, 23, 24, 25] (s25.take 9) = some [(13, 23), (14, 24), (15, 25)] :=
  (Eq.trans (fvpF_succ 14 [13, 14, 15, 23, 24, 25] (s25.take 9) (by decide))
  (Eq.trans (tryRange_skipAll 14 [13, 14, 15, 23, 24, 25] (s25.take 9) 52093862775067432915339799377759154892496328802647501818771932469147856570011558160871458798300280225423150752679450200997876267995068360329191752848810260598883965763017372513732509449129008184819364852880826439268890718338510543218802688 bridge25_9
    (by decide) 1 2 3 (by decide))
  (tryRange_hit 14 [13, 14, 15, 23, 24, 25] (s25.take 9) 3 2 [(14, 24), (15, 25)]
    ((bridge25_9 (([13, 14, 15, 23, 24, 25] : List Nat).getD 0 0) (([13, 14, 15, 23, 24, 25] : List Nat).getD 3 0)
      (by decide) (by decide)).trans (by decide))
    n25_9_d10)))

theorem n25_9_d8 : fvpF 16 [12, 13, 14, 15, 22, 23, 24, 25] (s25.take 9) = some [(12, 22), (13, 23), (14, 24), (15, 25)] :=
  (Eq.trans (fvpF_succ 15 [12, 13, 14, 15, 22, 23, 24, 25] (s25.take 9) (by decide))
  (Eq.trans (tryRange_skipAll 15 [12, 13, 14, 15, 22, 23, 24, 25] (s25.take 9) 52093862775067432915339799377759154892496328802647501818771932469147856570011558160871458798300280225423150752679450200997876267995068360329191752848810260598883965763017372513732509449129008184819364852880826439268890718338510543218802688 bridge25_9
    (by decide) 1 3 4 (by decide))
  (tryRange_hit 15 [12, 13, 14, 15, 22, 23, 24, 25] (s25.take 9) 4 3 [(13, 23), (14, 24), (15, 25)]
    ((bridge25_9 (([12, 13, 14, 15, 22, 23, 24, 25] : List Nat).getD 0 0) (([12, 13, 14, 15, 22, 23, 24, 25] : List Nat).getD 4 0)
      (by decide) (by decide)).trans (by decide))
    n25_9_d9)))

theorem n25_9_d7 : fvpF 17 [9, 12, 13, 14, 15, 21, 22, 23, 24, 25] (s25.take 9) = some [(9, 21), (12, 22), (13, 23), (14, 24), (15, 25)] :=
  (Eq.trans (fvpF_succ 16 [9, 12, 13, 14, 15, 21, 22, 23, 24, 25] (s25.take 9) (by decide))
  (Eq.trans (tryRange_skipAll 16 [9, 12, 13, 14, 15, 21, 22, 23, 24, 25] (s25.take 9) 52093862775067432915339799377759154892496328802647501818771932469147856570011558160871458798300280225423150752679450200997876267995068360329191752848810260598883965763017372513732509449129008184819364852880826439268890718338510543218802688 bridge25_9
    (by decide) 1 4 5 (by decide))
  (tryRange_hit 16 [9, 12, 13, 14, 15, 21, 22, 23, 24, 25] (s25.take 9) 5 4 [(12, 22), (13, 23), (14, 24), (15, 25)]
    ((bridge25_9 (([9, 12, 13, 14, 15, 21, 22, 23, 24, 25] : List Nat).getD 0 0) (([9, 12, 13, 14, 15, 21, 22, 23, 24, 25] : List Nat).getD 5 0)
      (by decide) (by decide)).trans (by decide))
    n25_9_d8)))

theorem c25_9_0 : fvpF 17 [12, 13, 14, 15, 20, 21, 22, 23, 24, 25] (s25.take 9) = none :=
  fvpF_none_of_cert 17 [12, 13, 14, 15, 20, 21, 22, 23, 24, 25] (s25.take 9) 52093862775067432915339799377759154892496328802647501818771932469147856570011558160871458798300280225423150752679450200997876267995068360329191752848810260598883965763017372513732509449129008184819364852880826439268890718338510543218802688 bridge25_9
    [12, 13, 14, 15] [[20], [21], [22], [23], [24]]
    (by decide) (by decide) (by decide) (by decide) (by decide) (by decide)
    (by decide) (by decide)

theorem c25_9_1 : fvpF 17 [9, 13, 14, 15, 20, 21, 22, 23, 24, 25] (s25.take 9) = none :=
  fvpF_none_of_cert 17 [9, 13, 14, 15, 20, 21, 22, 23, 24, 25] (s25.take 9) 52093862775067432915339799377759154892496328802647501818771932469147856570011558160871458798300280225423150752679450200997876267995068360329191752848810260598883965763017372513732509449129008184819364852880826439268890718338510543218802688 bridge25_9
    [9, 13, 14, 15] [[20], [21], [22], [23], [24]]
    (by decide) (by decide) (by decide) (by decide) (by decide) (by decide)
    (by decide) (by decide)

theorem c25_9_2 : fvpF 17 [9, 12, 14, 15, 20, 21, 22, 23, 24, 25] (s25.take 9) = none :=
  fvpF_none_of_cert 17 [9, 12, 14, 15, 20, 21, 22, 23, 24, 25] (s25.take 9) 52093862775067432915339799377759154892496328802647501818771932469147856570011558160871458798300280225423150752679450200997876267995068360329191752848810260598883965763017372513732509449129008184819364852880826439268890718338510543218802688 bridge25_9
    [9, 12, 14, 15] [[20], [21], [22], [23], [24]]
    (by decide) (by decide) (by decide) (by decide) (by decide) (by decide)
    (by decide) (by decide)

theorem n25_9_d6 : fvpF 18 [7, 9, 12, 13, 14, 15, 20, 21, 22, 23, 24, 25] (s25.take 9) = some [(7, 20), (9, 21), (12, 22), (13, 23), (14, 24), (15, 25)] :=
  (Eq.trans (fvpF_succ 17 [7, 9, 12, 13, 14, 15, 20, 21, 22, 23, 24, 25] (s25.take 9) (by decide))
  (Eq.trans (Eq.trans (Eq.trans (Eq.trans (tryRange_fail 17 [7, 9, 12, 13, 14, 15, 20, 21, 22, 23, 24, 25] (s25.take 9) 1 10
    ((bridge25_9 (([7, 9, 12, 13, 14, 15, 20, 21, 22, 23, 24, 25] : List Nat).getD 0 0) (([7, 9, 12, 13, 14, 15, 20, 21, 22, 23, 24, 25] : List Nat).getD 1 0)
      (by decide) (by decide)).trans (by decide))
    c25_9_0)
  (tryRange_fail 17 [7, 9, 12, 13, 14, 15, 20, 21, 22, 23, 24, 25] (s25.take 9) 2 9
    ((bridge25_9 (([7, 9, 12, 13, 14, 15, 20, 21, 22, 23, 24, 25] : List Nat).getD 0 0) (([7, 9, 12, 13, 14, 15, 20, 21, 22, 23, 24, 25] : List Nat).getD 2 0)
      (by decide) (by decide)).trans (by decide))
    c25_9_1))
  (tryRange_fail 17 [7, 9, 12, 13, 14, 15, 20, 21, 22, 23, 24, 25] (s25.take 9) 3 8
    ((bridge25_9 (([7, 9, 12, 13, 14, 15, 20, 21, 22, 23, 24, 25] : List Nat).getD 0 0) (([7, 9, 12, 13, 14, 15, 20, 21, 22, 23, 24, 25] : List Nat).getD 3 0)
      (by decide) (by decide)).trans (by decide))
    c25_9_2))
  (tryRange_skipAll 17 [7, 9, 12, 13, 14, 15, 20, 21, 22, 23, 24, 25] (s25.take 9) 52093862775067432915339799377759154892496328802647501818771932469147856570011558160871458798300280225423150752679450200997876267995068360329191752848810260598883965763017372513732509449129008184819364852880826439268890718338510543218802688 bridge25_9
    (by decide) 4 2 6 (by decide)))
  (tryRange_hit 17 [7, 9, 12, 13, 14, 15, 20, 21, 22, 23, 24, 25] (s25.take 9) 6 5 [(9, 21), (12, 22), (13, 23), (14, 24), (15, 25)]
    ((bridge25_9 (([7, 9, 12, 13, 14, 15, 20, 21, 22, 23, 24, 25] : List Nat).getD 0 0) (([7, 9, 12, 13, 14, 15, 20, 21, 22, 23, 24, 25] : List Nat).getD 6 0)
      (by decide) (by decide)).trans (by decide))
    n25_9_d7)))

theorem c25_9_3 : fvpF 18 [7, 12, 13, 14, 15, 19, 20, 21, 22, 23, 24, 25] (s25.take 9) = none :=
  fvpF_none_of_cert 18 [7, 12, 13, 14, 15, 19, 20, 21, 22, 23, 24, 25] (s25.take 9) 52093862775067432915339799377759154892496328802647501818771932469147856570011558160871458798300280225423150752679450200997876267995068360329191752848810260598883965763017372513732509449129008184819364852880826439268890718338510543218802688 bridge25_9
    [7, 12, 13, 14, 15] [[19], [20], [21], [22], [23], [24]]
    (by decide) (by decide) (by decide) (by decide) (by decide) (by decide)
    (by decide) (by decide)

theorem c25_9_4 : fvpF 18 [7, 9, 13, 14, 15, 19, 20, 21, 22, 23, 24, 25] (s25.take 9) = none :=
  fvpF_none_of_cert 18 [7, 9, 13, 14, 15, 19, 20, 21, 22, 23, 24, 25] (s25.take 9) 52093862775067432915339799377759154892496328802647501818771932469147856570011558160871458798300280225423150752679450200997876267995068360329191752848810260598883965763017372513732509449129008184819364852880826439268890718338510543218802688 bridge25_9
    [7, 9, 13, 14, 15] [[19], [20], [21], [22], [23], [24]]
    (by decide) (by decide) (by decide) (by decide) (by decide) (by decide)
    (by decide) (by decide)

theorem c25_9_5 : fvpF 18 [7, 9, 12, 14, 15, 19, 20, 21, 22, 23, 24, 25] (s25.take 9) = none :=
  fvpF_none_of_cert 18 [7, 9, 12, 14, 15, 19, 20, 21, 22, 23, 24, 25] (s25.take 9) 52093862775067432915339799377759154892496328802647501818771932469147856570011558160871458798300280225423150752679450200997876267995068360329191752848810260598883965763017372513732509449129008184819364852880826439268890718338510543218802688 bridge25_9
    [7, 9, 12, 14, 15] [[19], [20], [21], [22], [23], [24]]
    (by decide) (by decide) (by decide) (by decide) (by decide) (by decide)
    (by decide) (by decide)

theorem n25_9_d5 : fvpF 19 [6, 7, 9, 12, 13, 14, 15, 19, 20, 21, 22, 23, 24, 25] (s25.take 9) = some [(6, 19), (7, 20), (9, 21), (12, 22), (13, 23), (14, 24), (15, 25)] :=
  (Eq.trans (fvpF_succ 18 [6, 7, 9, 12, 13, 14, 15, 19, 20, 21, 22, 23, 24, 25] (s25.take 9) (by decide))
  (Eq.trans (Eq.trans (Eq.trans (Eq.trans (Eq.trans (tryRange_skipAll 18 [6, 7, 9, 12, 13, 14, 15, 19, 20, 21, 22, 23, 24, 25] (s25.take 9) 52093862775067432915339799377759154892496328802647501818771932469147856570011558160871458798300280225423150752679450200997876267995068360329191752848810260598883965763017372513732509449129008184819364852880826439268890718338510543218802688 bridge25_9
    (by decide) 1 1 12 (by decide))
  (tryRange_fail 18 [6, 7, 9, 12, 13, 14, 15, 19, 20, 21, 22, 23, 24, 25] (s25.take 9) 2 11
    ((bridge25_9 (([6, 7, 9, 12, 13, 14, 15, 19, 20, 21, 22, 23, 24, 25] : List Nat).getD 0 0) (([6, 7, 9, 12, 13, 14, 15, 19, 20, 21, 22, 23, 24, 25] : List Nat).getD 2 0)
      (by decide) (by decide)).trans (by decide))
    c25_9_3))
  (tryRange_fail 18 [6, 7, 9, 12, 13, 14, 15, 19, 20, 21, 22, 23, 24, 25] (s25.take 9) 3 10
    ((bridge25_9 (([6, 7, 9, 12, 13, 14, 15, 19, 20, 21, 22, 23, 24, 25] : List Nat).getD 0 0) (([6, 7, 9, 12, 13, 14, 15, 19, 20, 21, 22, 23, 24, 25] : List Nat).getD 3 0)
      (by decide) (by decide)).trans (by decide))
    c25_9_4))
  (tryRange_fail 18 [6, 7, 9, 12, 13, 14, 15, 19, 20, 21, 22, 23, 24, 25] (s25.take 9) 4 9
    ((bridge25_9 (([6, 7, 9, 12, 13, 14, 15, 19, 20, 21, 22, 23, 24, 25] : List Nat).getD 0 0) (([6, 7, 9, 12, 13, 14, 15, 19, 20, 21, 22, 23, 24, 25] : List Nat).getD 4 0)
      (by decide) (by decide)).trans (by decide))
    c25_9_5))
  (tryRange_skipAll 18 [6, 7, 9, 12, 13, 14, 15, 19, 20, 21, 22, 23, 24, 25] (s25.take 9) 52093862775067432915339799377759154892496328802647501818771932469147856570011558160871458798300280225423150752679450200997876267995068360329191752848810260598883965763017372513732509449129008184819364852880826439268890718338510543218802688 bridge25_9
    (by decide) 5 2 7 (by decide)))
  (tryRange_hit 18 [6, 7, 9, 12, 13, 14, 15, 19, 20, 21, 22, 23, 24, 25] (s25.take 9) 7 6 [(7, 20), (9, 21), (12, 22), (13, 23), (14, 24), (15, 25)]
    ((bridge25_9 (([6, 7, 9, 12, 13, 14, 15, 19, 20, 21, 22, 23, 24, 25] : List Nat).getD 0 0) (([6, 7, 9, 12, 13, 14, 15, 19, 20, 21, 22, 23, 24, 25] : List Nat).getD 7 0)
      (by decide) (by decide)).trans (by decide))
    n25_9_d6)))

theorem c25_9_6 : fvpF 19 [6, 7, 12, 13, 14, 15, 18, 19, 20, 21, 22, 23, 24, 25] (s25.take 9) = none :=
  fvpF_none_of_cert 19 [6, 7, 12, 13, 14, 15, 18, 19, 20, 21, 22, 23, 24, 25] (s25.take 9) 52093862775067432915339799377759154892496328802647501818771932469147856570011558160871458798300280225423150752679450200997876267995068360329191752848810260598883965763017372513732509449129008184819364852880826439268890718338510543218802688 bridge25_9
    [6, 7, 12, 13, 14, 15] [[18], [19], [20], [21], [22], [23], [24]]
    (by decide) (by decide) (by decide) (by decide) (by decide) (by decide)
    (by decide) (by decide)

theorem c25_9_7 : fvpF 19 [6, 7, 9, 12, 13, 15, 18, 19, 20, 21, 22, 23, 24, 25] (s25.take 9) = none :=
  fvpF_none_of_cert 19 [6, 7, 9, 12, 13, 15, 18, 19, 20, 21, 22, 23, 24, 25] (s25.take 9) 52093862775067432915339799377759154892496328802647501818771932469147856570011558160871458798300280225423150752679450200997876267995068360329191752848810260598883965763017372513732509449129008184819364852880826439268890718338510543218802688 bridge25_9
    [6, 7, 9, 12, 13, 15] [[18], [19], [20], [21], [22], [23], [24]]
    (by decide) (by decide) (by decide) (by decide) (by decide) (by decide)
    (by decide) (by decide)

theorem c25_9_8 : fvpF 19 [6, 7, 9, 12, 13, 14, 18, 19, 20, 21, 22, 23, 24, 25] (s25.take 9) = none :=
  fvpF_none_of_cert 19 [6, 7, 9, 12, 13, 14, 18, 19, 20, 21, 22, 23, 24, 25] (s25.take 9) 52093862775067432915339799377759154892496328802647501818771932469147856570011558160871458798300280225423150752679450200997876267995068360329191752848810260598883965763017372513732509449129008184819364852880826439268890718338510543218802688 bridge25_9
    [6, 7, 9, 12, 13, 14] [[18], [19], [20], [21], [22], [23], [24]]
    (by decide) (by decide) (by decide) (by decide) (by decide) (by decide)
    (by decide) (by decide)

theorem n25_9_d4 : fvpF 20 [5, 6, 7, 9, 12, 13, 14, 15, 18, 19, 20, 21, 22, 23, 24, 25] (s25.take 9) = some [(5, 18), (6, 19), (7, 20), (9, 21), (12, 22), (13, 23), (14, 24), (15, 25)] :=
  (Eq.trans (fvpF_succ 19 [5, 6, 7, 9, 12, 13, 14, 15, 18, 19, 20, 21, 22, 23, 24, 25] (s25.take 9) (by decide))
  (Eq.trans (Eq.trans (Eq.trans (Eq.trans (Eq.trans (tryRange_skipAll 19 [5, 6, 7, 9, 12, 13, 14, 15, 18, 19, 20, 21, 22, 23, 24, 25] (s25.take 9) 52093862775067432915339799377759154892496328802647501818771932469147856570011558160871458798300280225423150752679450200997876267995068360329191752848810260598883965763017372513732509449129008184819364852880826439268890718338510543218802688 bridge25_9
    (by decide) 1 2 13 (by decide))
  (tryRange_fail 19 [5, 6, 7, 9, 12, 13, 14, 15, 18, 19, 20, 21, 22, 23, 24, 25] (s25.take 9) 3 12
    ((bridge25_9 (([5, 6, 7, 9, 12, 13, 14, 15, 18, 19, 20, 21, 22, 23, 24, 25] : List Nat).getD 0 0) (([5, 6, 7, 9, 12, 13, 14, 15, 18, 19, 20, 21, 22, 23, 24, 25] : List Nat).getD 3 0)
      (by decide) (by decide)).trans (by decide))
    c25_9_6))
  (tryRange_skipAll 19 [5, 6, 7, 9, 12, 13, 14, 15, 18, 19, 20, 21, 22, 23, 24, 25] (s25.take 9) 52093862775067432915339799377759154892496328802647501818771932469147856570011558160871458798300280225423150752679450200997876267995068360329191752848810260598883965763017372513732509449129008184819364852880826439268890718338510543218802688 bridge25_9
    (by decide) 4 2 10 (by decide)))
  (tryRange_fail 19 [5, 6, 7, 9, 12, 13, 14, 15, 18, 19, 20, 21, 22, 23, 24, 25] (s25.take 9) 6 9
    ((bridge25_9 (([5, 6, 7, 9, 12, 13, 14, 15, 18, 19, 20, 21, 22, 23, 24, 25] : List Nat).getD 0 0) (([5, 6, 7, 9, 12, 13, 14, 15, 18, 19, 20, 21, 22, 23, 24, 25] : List Nat).getD 6 0)
      (by decide) (by decide)).trans (by decide))
    c25_9_7))
  (tryRange_fail 19 [5, 6, 7, 9, 12, 13, 14, 15, 18, 19, 20, 21, 22, 23, 24, 25] (s25.take 9) 7 8
    ((bridge25_9 (([5, 6, 7, 9, 12, 13, 14, 15, 18, 19, 20, 21, 22, 23, 24, 25] : List Nat).getD 0 0) (([5, 6, 7, 9, 12, 13, 14, 15, 18, 19, 20, 21, 22, 23, 24, 25] : List Nat).getD 7 0)
      (by decide) (by decide)).trans (by decide))
    c25_9_8))
  (tryRange_hit 19 [5, 6, 7, 9, 12, 13, 14, 15, 18, 19, 20, 21, 22, 23, 24, 25] (s25.take 9) 8 7 [(6, 19), (7, 20), (9, 21), (12, 22), (13, 23), (14, 24), (15, 25)]
    ((bridge25_9 (([5, 6, 7, 9, 12, 13, 14, 15, 18, 19, 20, 21, 22, 23, 24, 25] : List Nat).getD 0 0) (([5, 6, 7, 9, 12, 13, 14, 15, 18, 19, 20, 21, 22, 23, 24, 25] : List Nat).getD 8 0)
      (by decide) (by decide)).trans (by decide))
    n25_9_d5)))

theorem c25_9_9 : fvpF 20 [5, 6, 7, 12, 13, 14, 15, 17, 18, 19, 20, 21, 22, 23, 24, 25] (s25.take 9) = none :=
  fvpF_none_of_cert 20 [5, 6, 7, 12, 13, 14, 15, 17, 18, 19, 20, 21, 22, 23, 24, 25] (s25.take 9) 52093862775067432915339799377759154892496328802647501818771932469147856570011558160871458798300280225423150752679450200997876267995068360329191752848810260598883965763017372513732509449129008184819364852880826439268890718338510543218802688 bridge25_9
    [5, 6, 7, 12, 13, 14, 15] [[17], [18], [19], [20], [21], [22], [23], [24]]
    (by decide) (by decide) (by decide) (by decide) (by decide) (by decide)
    (by decide) (by decide)

theorem c25_9_10 : fvpF 20 [5, 6, 7, 9, 12, 13, 15, 17, 18, 19, 20, 21, 22, 23, 24, 25] (s25.take 9) = none :=
  fvpF_none_of_cert 20 [5, 6, 7, 9, 12, 13, 15, 17, 18, 19, 20, 21, 22, 23, 24, 25] (s25.take 9) 52093862775067432915339799377759154892496328802647501818771932469147856570011558160871458798300280225423150752679450200997876267995068360329191752848810260598883965763017372513732509449129008184819364852880826439268890718338510543218802688 bridge25_9
    [5, 6, 7, 9, 12, 13, 15] [[17], [18], [19], [20], [21], [22], [23], [24]]
    (by decide) (by decide) (by decide) (by decide) (by decide) (by decide)
    (by decide) (by decide)

theorem c25_9_11 : fvpF 20 [5, 6, 7, 9, 12, 13, 14, 17, 18, 19, 20, 21, 22, 23, 24, 25] (s25.take 9) = none :=
  fvpF_none_of_cert 20 [5, 6, 7, 9, 12, 13, 14, 17, 18, 19, 20, 21, 22, 23, 24, 25] (s25.take 9) 52093862775067432915339799377759154892496328802647501818771932469147856570011558160871458798300280225423150752679450200997876267995068360329191752848810260598883965763017372513732509449129008184819364852880826439268890718338510543218802688 bridge25_9
    [5, 6, 7, 9, 12, 13, 14] [[17], [18], [19], [20], [21], [22], [23], [24]]
    (by decide) (by decide) (by decide) (by decide) (by decide) (by decide)
    (by decide) (by decide)

theorem n25_9_d3 : fvpF 21 [4, 5, 6, 7, 9, 12, 13, 14, 15, 17, 18, 19, 20, 21, 22, 23, 24, 25] (s25.take 9) = some [(4, 17), (5, 18), (6, 19), (7, 20), (9, 21), (12, 22), (13, 23), (14, 24), (15, 25)] :=
  (Eq.trans (fvpF_succ 20 [4, 5, 6, 7, 9, 12, 13, 14, 15, 17, 18, 19, 20, 21, 22, 23, 24, 25] (s25.take 9) (by decide))
  (Eq.trans (Eq.trans (Eq.trans (Eq.trans (Eq.trans (tryRange_skipAll 20 [4, 5, 6, 7, 9, 12, 13, 14, 15, 17, 18, 19, 20, 21, 22, 23, 24, 25] (s25.take 9) 52093862775067432915339799377759154892496328802647501818771932469147856570011558160871458798300280225423150752679450200997876267995068360329191752848810260598883965763017372513732509449129008184819364852880826439268890718338510543218802688 bridge25_9
    (by decide) 1 3 14 (by decide))
  (tryRange_fail 20 [4, 5, 6, 7, 9, 12, 13, 14, 15, 17, 18, 19, 20, 21, 22, 23, 24, 25] (s25.take 9) 4 13
    ((bridge25_9 (([4, 5, 6, 7, 9, 12, 13, 14, 15, 17, 18, 19, 20, 21, 22, 23, 24, 25] : List Nat).getD 0 0) (([4, 5, 6, 7, 9, 12, 13, 14, 15, 17, 18, 19, 20, 21, 22, 23, 24, 25] : List Nat).getD 4 0)
      (by decide) (by decide)).trans (by decide))
    c25_9_9))
  (tryRange_skipAll 20 [4, 5, 6, 7, 9, 12, 13, 14, 15, 17, 18, 19, 20, 21, 22, 23, 24, 25] (s25.take 9) 52093862775067432915339799377759154892496328802647501818771932469147856570011558160871458798300280225423150752679450200997876267995068360329191752848810260598883965763017372513732509449129008184819364852880826439268890718338510543218802688 bridge25_9
    (by decide) 5 2 11 (by decide)))
  (tryRange_fail 20 [4, 5, 6, 7, 9, 12, 13, 14, 15, 17, 18, 19, 20, 21, 22, 23, 24, 25] (s25.take 9) 7 10
    ((bridge25_9 (([4, 5, 6, 7, 9, 12, 13, 14, 15, 17, 18, 19, 20, 21, 22, 23, 24, 25] : List Nat).getD 0 0) (([4, 5, 6, 7, 9, 12, 13, 14, 15, 17, 18, 19, 20, 21, 22, 23, 24, 25] : List Nat).getD 7 0)
      (by decide) (by decide)).trans (by decide))
    c25_9_10))
  (tryRange_fail 20 [4, 5, 6, 7, 9, 12, 13, 14, 15, 17, 18, 19, 20, 21, 22, 23, 24, 25] (s25.take 9) 8 9
    ((bridge25_9 (([4, 5, 6, 7, 9, 12, 13, 14, 15, 17, 18, 19, 20, 21, 22, 23, 24, 25] : List Nat).getD 0 0) (([4, 5, 6, 7, 9, 12, 13, 14, 15, 17, 18, 19, 20, 21, 22, 23, 24, 25] : List Nat).getD 8 0)
      (by decide) (by decide)).trans (by decide))
    c25_9_11))
  (tryRange_hit 20 [4, 5, 6, 7, 9, 12, 13, 14, 15, 17, 18, 19, 20, 21, 22, 23, 24, 25] (s25.take 9) 9 8 [(5, 18), (6, 19), (7, 20), (9, 21), (12, 22), (13, 23), (14, 24), (15, 25)]
    ((bridge25_9 (([4, 5, 6, 7, 9, 12, 13, 14, 15, 17, 18, 19, 20, 21, 22, 23, 24, 25] : List Nat).getD 0 0) (([4, 5, 6, 7, 9, 12, 13, 14, 15, 17, 18, 19, 20, 21, 22, 23, 24, 25] : List Nat).getD 9 0)
      (by decide) (by decide)).trans (by decide))
    n25_9_d4)))

theorem c25_9_12 : fvpF 21 [4, 5, 6, 7, 12, 13, 14, 15, 16, 17, 18, 19, 20, 21, 22, 23, 24, 25] (s25.take 9) = none :=
  fvpF_none_of_cert 21 [4, 5, 6, 7, 12, 13, 14, 15, 16, 17, 18, 19, 20, 21, 22, 23, 24, 25] (s25.take 9) 52093862775067432915339799377759154892496328802647501818771932469147856570011558160871458798300280225423150752679450200997876267995068360329191752848810260598883965763017372513732509449129008184819364852880826439268890718338510543218802688 bridge25_9
    [4, 5, 6, 7, 12, 13, 14, 15] [[16], [17], [18], [19], [20], [21], [22], [23], [24]]
    (by decide) (by decide) (by decide) (by decide) (by decide) (by decide)
    (by decide) (by decide)

theorem c25_9_13 : fvpF 21 [4, 5, 6, 7, 9, 13, 14, 15, 16, 17, 18, 19, 20, 21, 22, 23, 24, 25] (s25.take 9) = none :=
  fvpF_none_of_cert 21 [4, 5, 6, 7, 9, 13, 14, 15, 16, 17, 18, 19, 20, 21, 22, 23, 24, 25] (s25.take 9) 52093862775067432915339799377759154892496328802647501818771932469147856570011558160871458798300280225423150752679450200997876267995068360329191752848810260598883965763017372513732509449129008184819364852880826439268890718338510543218802688 bridge25_9
    [4, 5, 6, 7, 9, 13, 14, 15] [[16], [17], [18], [19], [20], [21], [22], [23], [24]]
    (by decide) (by decide) (by decide) (by decide) (by decide) (by decide)
    (by decide) (by decide)

theorem c25_9_14 : fvpF 21 [4, 5, 6, 7, 9, 12, 14, 15, 16, 17, 18, 19, 20, 21, 22, 23, 24, 25] (s25.take 9) = none :=
  fvpF_none_of_cert 21 [4, 5, 6, 7, 9, 12, 14, 15, 16, 17, 18, 19, 20, 21, 22, 23, 24, 25] (s25.take 9) 52093862775067432915339799377759154892496328802647501818771932469147856570011558160871458798300280225423150752679450200997876267995068360329191752848810260598883965763017372513732509449129008184819364852880826439268890718338510543218802688 bridge25_9
    [4, 5, 6, 7, 9, 12, 14, 15] [[16], [17], [18], [19], [20], [21], [22], [23], [24]]
    (by decide) (by decide) (by decide) (by decide) (by decide) (by decide)
    (by decide) (by decide)

theorem c25_9_15 : fvpF 21 [4, 5, 6, 7, 9, 12, 13, 15, 16, 17, 18, 19, 20, 21, 22, 23, 24, 25] (s25.take 9) = none :=
  fvpF_none_of_cert 21 [4, 5, 6, 7, 9, 12, 13, 15, 16, 17, 18, 19, 20, 21, 22, 23, 24, 25] (s25.take 9) 52093862775067432915339799377759154892496328802647501818771932469147856570011558160871458798300280225423150752679450200997876267995068360329191752848810260598883965763017372513732509449129008184819364852880826439268890718338510543218802688 bridge25_9
    [4, 5, 6, 7, 9, 12, 13, 15] [[16], [17], [18], [19], [20], [21], [22], [23], [24]]
    (by decide) (by decide) (by decide) (by decide) (by decide) (by decide)
    (by decide) (by decide)

theorem c25_9_16 : fvpF 21 [4, 5, 6, 7, 9, 12, 13, 14, 16, 17, 18, 19, 20, 21, 22, 23, 24, 25] (s25.take 9) = none :=
  fvpF_none_of_cert 21 [4, 5, 6, 7, 9, 12, 13, 14, 16, 17, 18, 19, 20, 21, 22, 23, 24, 25] (s25.take 9) 52093862775067432915339799377759154892496328802647501818771932469147856570011558160871458798300280225423150752679450200997876267995068360329191752848810260598883965763017372513732509449129008184819364852880826439268890718338510543218802688 bridge25_9
    [4, 5, 6, 7, 9, 12, 13, 14] [[16], [17], [18], [19], [20], [21], [22], [23], [24]]
    (by decide) (by decide) (by decide) (by decide) (by decide) (by decide)
    (by decide) (by decide)

theorem n25_9_d2 : fvpF 22 [3, 4, 5, 6, 7, 9, 12, 13, 14, 15, 16, 17, 18, 19, 20, 21, 22, 23, 24, 25] (s25.take 9) = some [(3, 16), (4, 17), (5, 18), (6, 19), (7, 20), (9, 21), (12, 22), (13, 23), (14, 24), (15, 25)] :=
  (Eq.trans (fvpF_succ 21 [3, 4, 5, 6, 7, 9, 12, 13, 14, 15, 16, 17, 18, 19, 20, 21, 22, 23, 24, 25] (s25.take 9) (by decide))
  (Eq.trans (Eq.trans (Eq.trans (Eq.trans (Eq.trans (Eq.trans (tryRange_skipAll 21 [3, 4, 5, 6, 7, 9, 12, 13, 14, 15, 16, 17, 18, 19, 20, 21, 22, 23, 24, 25] (s25.take 9) 52093862775067432915339799377759154892496328802647501818771932469147856570011558160871458798300280225423150752679450200997876267995068360329191752848810260598883965763017372513732509449129008184819364852880826439268890718338510543218802688 bridge25_9
    (by decide) 1 4 15 (by decide))
  (tryRange_fail 21 [3, 4, 5, 6, 7, 9, 12, 13, 14, 15, 16, 17, 18, 19, 20, 21, 22, 23, 24, 25] (s25.take 9) 5 14
    ((bridge25_9 (([3, 4, 5, 6, 7, 9, 12, 13, 14, 15, 16, 17, 18, 19, 20, 21, 22, 23, 24, 25] : List Nat).getD 0 0) (([3, 4, 5, 6, 7, 9, 12, 13, 14, 15, 16, 17, 18, 19, 20, 21, 22, 23, 24, 25] : List Nat).getD 5 0)
      (by decide) (by decide)).trans (by decide))
    c25_9_12))
  (tryRange_fail 21 [3, 4, 5, 6, 7, 9, 12, 13, 14, 15, 16, 17, 18, 19, 20, 21, 22, 23, 24, 25] (s25.take 9) 6 13
    ((bridge25_9 (([3, 4, 5, 6, 7, 9, 12, 13, 14, 15, 16, 17, 18, 19, 20, 21, 22, 23, 24, 25] : List Nat).getD 0 0) (([3, 4, 5, 6, 7, 9, 12, 13, 14, 15, 16, 17, 18, 19, 20, 21, 22, 23, 24, 25] : List Nat).getD 6 0)
      (by decide) (by decide)).trans (by decide))
    c25_9_13))
  (tryRange_fail 21 [3, 4, 5, 6, 7, 9, 12, 13, 14, 15, 16, 17, 18, 19, 20, 21, 22, 23, 24, 25] (s25.take 9) 7 12
    ((bridge25_9 (([3, 4, 5, 6, 7, 9, 12, 13, 14, 15, 16, 17, 18, 19, 20, 21, 22, 23, 24, 25] : List Nat).getD 0 0) (([3, 4, 5, 6, 7, 9, 12, 13, 14, 15, 16, 17, 18, 19, 20, 21, 22, 23, 24, 25] : List Nat).getD 7 0)
      (by decide) (by decide)).trans (by decide))
    c25_9_14))
  (tryRange_fail 21 [3, 4, 5, 6, 7, 9, 12, 13, 14, 15, 16, 17, 18, 19, 20, 21, 22, 23, 24, 25] (s25.take 9) 8 11
    ((bridge25_9 (([3, 4, 5, 6, 7, 9, 12, 13, 14, 15, 16, 17, 18, 19, 20, 21, 22, 23, 24, 25] : List Nat).getD 0 0) (([3, 4, 5, 6, 7, 9, 12, 13, 14, 15, 16, 17, 18, 19, 20, 21, 22, 23, 24, 25] : List Nat).getD 8 0)
      (by decide) (by decide)).trans (by decide))
    c25_9_15))
  (tryRange_fail 21 [3, 4, 5, 6, 7, 9, 12, 13, 14, 15, 16, 17, 18, 19, 20, 21, 22, 23, 24, 25] (s25.take 9) 9 10
    ((bridge25_9 (([3, 4, 5, 6, 7, 9, 12, 13, 14, 15, 16, 17, 18, 19, 20, 21, 22, 23, 24, 25] : List Nat).getD 0 0) (([3, 4, 5, 6, 7, 9, 12, 13, 14, 15, 16, 17, 18, 19, 20, 21, 22, 23, 24, 25] : List Nat).getD 9 0)
      (by decide) (by decide)).trans (by decide))
    c25_9_16))
  (tryRange_hit 21 [3, 4, 5, 6, 7, 9, 12, 13, 14, 15, 16, 17, 18, 19, 20, 21, 22, 23, 24, 25] (s25.take 9) 10 9 [(4, 17), (5, 18), (6, 19), (7, 20), (9, 21), (12, 22), (13, 23), (14, 24), (15, 25)]
    ((bridge25_9 (([3, 4, 5, 6, 7, 9, 12, 13, 14, 15, 16, 17, 18, 19, 20, 21, 22, 23, 24, 25] : List Nat).getD 0 0) (([3, 4, 5, 6, 7, 9, 12, 13, 14, 15, 16, 17, 18, 19, 20, 21, 22, 23, 24, 25] : List Nat).getD 10 0)
      (by decide) (by decide)).trans (by decide))
    n25_9_d3)))

theorem n25_9_d1 : fvpF 23 [2, 3, 4, 5, 6, 7, 8, 9, 12, 13, 14, 15, 16, 17, 18, 19, 20, 21, 22, 23, 24, 25] (s25.take 9) = some [(2, 8), (3, 16), (4, 17), (5, 18), (6, 19), (7, 20), (9, 21), (12, 22), (13, 23), (14, 24), (15, 25)] :=
  (Eq.trans (fvpF_succ 22 [2, 3, 4, 5, 6, 7, 8, 9, 12, 13, 14, 15, 16, 17, 18, 19, 20, 21, 22, 23, 24, 25] (s25.take 9) (by decide))
  (Eq.trans (tryRange_skipAll 22 [2, 3, 4, 5, 6, 7, 8, 9, 12, 13, 14, 15, 16, 17, 18, 19, 20, 21, 22, 23, 24, 25] (s25.take 9) 52093862775067432915339799377759154892496328802647501818771932469147856570011558160871458798300280225423150752679450200997876267995068360329191752848810260598883965763017372513732509449129008184819364852880826439268890718338510543218802688 bridge25_9
    (by decide) 1 5 16 (by decide))
  (tryRange_hit 22 [2, 3, 4, 5, 6, 7, 8, 9, 12, 13, 14, 15, 16, 17, 18, 19, 20, 21, 22, 23, 24, 25] (s25.take 9) 6 15 [(3, 16), (4, 17), (5, 18), (6, 19), (7, 20), (9, 21), (12, 22), (13, 23), (14, 24), (15, 25)]
    ((bridge25_9 (([2, 3, 4, 5, 6, 7, 8, 9, 12, 13, 14, 15, 16, 17, 18, 19, 20, 21, 22, 23, 24, 25] : List Nat).getD 0 0) (([2, 3, 4, 5, 6, 7, 8, 9, 12, 13, 14, 15, 16, 17, 18, 19, 20, 21, 22, 23, 24, 25] : List Nat).getD 6 0)
      (by decide) (by decide)).trans (by decide))
    n25_9_d2)))

theorem n25_9_d0 : fvpF 24 [1, 2, 3, 4, 5, 6, 7, 8, 9, 11, 12, 13, 14, 15, 16, 17, 18, 19, 20, 21, 22, 23, 24, 25] (s25.take 9) = some [(1, 11), (2, 8), (3, 16), (4, 17), (5, 18), (6, 19), (7, 20), (9, 21), (12, 22), (13, 23), (14, 24), (15, 25)] :=
  (Eq.trans (fvpF_succ 23 [1, 2, 3, 4, 5, 6, 7, 8, 9, 11, 12, 13, 14, 15, 16, 17, 18, 19, 20, 21, 22, 23, 24, 25] (s25.take 9) (by decide))
  (Eq.trans (tryRange_skipAll 23 [1, 2, 3, 4, 5, 6, 7, 8, 9, 11, 12, 13, 14, 15, 16, 17, 18, 19, 20, 21, 22, 23, 24, 25] (s25.take 9) 52093862775067432915339799377759154892496328802647501818771932469147856570011558160871458798300280225423150752679450200997876267995068360329191752848810260598883965763017372513732509449129008184819364852880826439268890718338510543218802688 bridge25_9
    (by decide) 1 8 15 (by decide))
  (tryRange_hit 23 [1, 2, 3, 4, 5, 6, 7, 8, 9, 11, 12, 13, 14, 15, 16, 17, 18, 19, 20, 21, 22, 23, 24, 25] (s25.take 9) 9 14 [(2, 8), (3, 16), (4, 17), (5, 18), (6, 19), (7, 20), (9, 21), (12, 22), (13, 23), (14, 24), (15, 25)]
    ((bridge25_9 (([1, 2, 3, 4, 5, 6, 7, 8, 9, 11, 12, 13, 14, 15, 16, 17, 18, 19, 20, 21, 22, 23, 24, 25] : List Nat).getD 0 0) (([1, 2, 3, 4, 5, 6, 7, 8, 9, 11, 12, 13, 14, 15, 16, 17, 18, 19, 20, 21, 22, 23, 24, 25] : List Nat).getD 9 0)
      (by decide) (by decide)).trans (by decide))
    n25_9_d1)))

theorem fvp25_9 : findValidPairs [1, 2, 3, 4, 5, 6, 7, 8, 9, 11, 12, 13, 14, 15, 16, 17, 18, 19, 20, 21, 22, 23, 24, 25] (s25.take 9) = some [(1, 11), (2, 8), (3, 16), (4, 17), (5, 18), (6, 19), (7, 20), (9, 21), (12, 22), (13, 23), (14, 24), (15, 25)] := n25_9_d0

theorem n25_10_d11 : fvpF 13 [15, 24] (s25.take 10) = some [(15, 24)] :=
  (Eq.trans (fvpF_succ 12 [15, 24] (s25.take 10) (by decide))
  (tryRange_hit 12 [15, 24] (s25.take 10) 1 0 []
    ((bridge25_10 (([15, 24] : List Nat).getD 0 0) (([15, 24] : List Nat).getD 1 0)
      (by decide) (by decide)).trans (by decide))
    (fvpF_nil 12 (s25.take 10))))

theorem n25_10_d10 : fvpF 14 [14, 15, 24, 25] (s25.take 10) = some [(14, 25), (15, 24)] :=
  (Eq.trans (fvpF_succ 13 [14, 15, 24, 25] (s25.take 10) (by decide))
  (Eq.trans (tryRange_skipAll 13 [14, 15, 24, 25] (s25.take 10) 52093862775067432915339799377759154892496328802647501818771932469147856570011558160871563546799745096293267266201286073656126381806635588101633171907652349864756556510692243219795725256349847407373240114919603908568057353489253145478430720 bridge25_10
    (by decide) 1 2 1 (by decide))
  (tryRange_hit 13 [14, 15, 24, 25] (s25.take 10) 3 0 [(15, 24)]
    ((bridge25_10 (([14, 15, 24, 25] : List Nat).getD 0 0) (([14, 15, 24, 25] : List Nat).getD 3 0)
      (by decide) (by decide)).trans (by decide))
    n25_10_d11)))

theorem n25_10_d9 : fvpF 15 [13, 14, 15, 22, 24, 25] (s25.take 10) = some [(13, 22), (14, 25), (15, 24)] :=
  (Eq.trans (fvpF_succ 14 [13, 14, 15, 22, 24, 25] (s25.take 10) (by decide))
  (Eq.trans (tryRange_skipAll 14 [13, 14, 15, 22, 24, 25] (s25.take 10) 52093862775067432915339799377759154892496328802647501818771932469147856570011558160871563546799745096293267266201286073656126381806635588101633171907652349864756556510692243219795725256349847407373240114919603908568057353489253145478430720 bridge25_10
    (by decide) 1 2 3 (by decide))
  (tryRange_hit 14 [13, 14, 15, 22, 24, 25] (s25.take 10) 3 2 [(14, 25), (15, 24)]
    ((bridge25_10 (([13, 14, 15, 22, 24, 25] : List Nat).getD 0 0) (([13, 14, 15, 22, 24, 25] : List Nat).getD 3 0)
      (by decide) (by decide)).trans (by decide))
    n25_10_d10)))

theorem n25_10_d8 : fvpF 16 [12, 13, 14, 15, 22, 23, 24, 25] (s25.take 10) = some [(12, 23), (13, 22), (14, 25), (15, 24)] :=
  (Eq.trans (fvpF_succ 15 [12, 13, 14, 15, 22, 23, 24, 25] (s25.take 10) (by decide))
  (Eq.trans (tryRange_skipAll 15 [12, 13, 14, 15, 22, 23, 24, 25] (s25.take 10) 52093862775067432915339799377759154892496328802647501818771932469147856570011558160871563546799745096293267266201286073656126381806635588101633171907652349864756556510692243219795725256349847407373240114919603908568057353489253145478430720 bridge25_10
    (by decide) 1 4 3 (by decide))
  (tryRange_hit 15 [12, 13, 14, 15, 22, 23, 24, 25] (s25.take 10) 5 2 [(13, 22), (14, 25), (15, 24)]
    ((bridge25_10 (([12, 13, 14, 15, 22, 23, 24, 25] : List Nat).getD 0 0) (([12, 13, 14, 15, 22, 23, 24, 25] : List Nat).getD 5 0)
      (by decide) (by decide)).trans (by decide))
    n25_10_d9)))

theorem n25_10_d7 : fvpF 17 [8, 12, 13, 14, 15, 20, 22, 23, 24, 25] (s25.take 10) = some [(8, 20), (12, 23), (13, 22), (14, 25), (15, 24)] :=
  (Eq.trans (fvpF_succ 16 [8, 12, 13, 14, 15, 20, 22, 23, 24, 25] (s25.take 10) (by decide))
  (Eq.trans (tryRange_skipAll 16 [8, 12, 13, 14, 15, 20, 22, 23, 24, 25] (s25.take 10) 52093862775067432915339799377759154892496328802647501818771932469147856570011558160871563546799745096293267266201286073656126381806635588101633171907652349864756556510692243219795725256349847407373240114919603908568057353489253145478430720 bridge25_10
    (by decide) 1 4 5 (by decide))
  (tryRange_hit 16 [8, 12, 13, 14, 15, 20, 22, 23, 24, 25] (s25.take 10) 5 4 [(12, 23), (13, 22), (14, 25), (15, 24)]
    ((bridge25_10 (([8, 12, 13, 14, 15, 20, 22, 23, 24, 25] : List Nat).getD 0 0) (([8, 12, 13, 14, 15, 20, 22, 23, 24, 25] : List Nat).getD 5 0)
      (by decide) (by decide)).trans (by decide))
    n25_10_d8)))

theorem c25_10_0 : fvpF 17 [12, 13, 14, 15, 20, 21, 22, 23, 24, 25] (s25.take 10) = none :=
  fvpF_none_of_cert 17 [12, 13, 14, 15, 20, 21, 22, 23, 24, 25] (s25.take 10) 52093862775067432915339799377759154892496328802647501818771932469147856570011558160871563546799745096293267266201286073656126381806635588101633171907652349864756556510692243219795725256349847407373240114919603908568057353489253145478430720 bridge25_10
    [12, 13, 14, 15] [[20], [21], [22], [23], [24]]
    (by decide) (by decide) (by decide) (by decide) (by decide) (by decide)
    (by decide) (by decide)

theorem c25_10_1 : fvpF 17 [8, 13, 14, 15, 20, 21, 22, 23, 24, 25] (s25.take 10) = none :=
  fvpF_none_of_cert 17 [8, 13, 14, 15, 20, 21, 22, 23, 24, 25] (s25.take 10) 52093862775067432915339799377759154892496328802647501818771932469147856570011558160871563546799745096293267266201286073656126381806635588101633171907652349864756556510692243219795725256349847407373240114919603908568057353489253145478430720 bridge25_10
    [8, 13, 14, 15] [[20], [21], [22], [23], [24]]
    (by decide) (by decide) (by decide) (by decide) (by decide) (by decide)
    (by decide) (by decide)

theorem c25_10_2 : fvpF 17 [8, 12, 14, 15, 20, 21, 22, 23, 24, 25] (s25.take 10) = none :=
  fvpF_none_of_cert 17 [8, 12, 14, 15, 20, 21, 22, 23, 24, 25] (s25.take 10) 52093862775067432915339799377759154892496328802647501818771932469147856570011558160871563546799745096293267266201286073656126381806635588101633171907652349864756556510692243219795725256349847407373240114919603908568057353489253145478430720 bridge25_10
    [8, 12, 14, 15] [[20], [21], [22], [23], [24]]
    (by decide) (by decide) (by decide) (by decide) (by decide) (by decide)
    (by decide) (by decide)

theorem n25_10_d6 : fvpF 18 [7, 8, 12, 13, 14, 15, 20, 21, 22, 23, 24, 25] (s25.take 10) = some [(7, 21), (8, 20), (12, 23), (13, 22), (14, 25), (15, 24)] :=
  (Eq.trans (fvpF_succ 17 [7, 8, 12, 13, 14, 15, 20, 21, 22, 23, 24, 25] (s25.take 10) (by decide))
  (Eq.trans (Eq.trans (Eq.trans (Eq.trans (tryRange_fail 17 [7, 8, 12, 13, 14, 15, 20, 21, 22, 23, 24, 25] (s25.take 10) 1 10
    ((bridge25_10 (([7, 8, 12, 13, 14, 15, 20, 21, 22, 23, 24, 25] : List Nat).getD 0 0) (([7, 8, 12, 13, 14, 15, 20, 21, 22, 23, 24, 25] : List Nat).getD 1 0)
      (by decide) (by decide)).trans (by decide))
    c25_10_0)
  (tryRange_fail 17 [7, 8, 12, 13, 14, 15, 20, 21, 22, 23, 24, 25] (s25.take 10) 2 9
    ((bridge25_10 (([7, 8, 12, 13, 14, 15, 20, 21, 22, 23, 24, 25] : List Nat).getD 0 0) (([7, 8, 12, 13, 14, 15, 20, 21, 22, 23, 24, 25] : List Nat).getD 2 0)
      (by decide) (by decide)).trans (by decide))
    c25_10_1))
  (tryRange_fail 17 [7, 8, 12, 13, 14, 15, 20, 21, 22, 23, 24, 25] (s25.take 10) 3 8
    ((bridge25_10 (([7, 8, 12, 13, 14, 15, 20, 21, 22, 23, 24, 25] : List Nat).getD 0 0) (([7, 8, 12, 13, 14, 15, 20, 21, 22, 23, 24, 25] : List Nat).getD 3 0)
      (by decide) (by decide)).trans (by decide))
    c25_10_2))
  (tryRange_skipAll 17 [7, 8, 12, 13, 14, 15, 20, 21, 22, 23, 24, 25] (s25.take 10) 52093862775067432915339799377759154892496328802647501818771932469147856570011558160871563546799745096293267266201286073656126381806635588101633171907652349864756556510692243219795725256349847407373240114919603908568057353489253145478430720 bridge25_10
    (by decide) 4 3 5 (by decide)))
  (tryRange_hit 17 [7, 8, 12, 13, 14, 15, 20, 21, 22, 23, 24, 25] (s25.take 10) 7 4 [(8, 20), (12, 23), (13, 22), (14, 25), (15, 24)]
    ((bridge25_10 (([7, 8, 12, 13, 14, 15, 20, 21, 22, 23, 24, 25] : List Nat).getD 0 0) (([7, 8, 12, 13, 14, 15, 20, 21, 22, 23, 24, 25] : List Nat).getD 7 0)
      (by decide) (by decide)).trans (by decide))
    n25_10_d7)))

theorem c25_10_3 : fvpF 18 [7, 12, 13, 14, 15, 18, 20, 21, 22, 23, 24, 25] (s25.take 10) = none :=
  fvpF_none_of_cert 18 [7, 12, 13, 14, 15, 18, 20, 21, 22, 23, 24, 25] (s25.take 10) 52093862775067432915339799377759154892496328802647501818771932469147856570011558160871563546799745096293267266201286073656126381806635588101633171907652349864756556510692243219795725256349847407373240114919603908568057353489253145478430720 bridge25_10
    [7, 12, 13, 14, 15] [[18], [20], [21], [22], [23], [24]]
    (by decide) (by decide) (by decide) (by decide) (by decide) (by decide)
    (by decide) (by decide)

theorem c25_10_4 : fvpF 18 [7, 8, 13, 14, 15, 18, 20, 21, 22, 23, 24, 25] (s25.take 10) = none :=
  fvpF_none_of_cert 18 [7, 8, 13, 14, 15, 18, 20, 21, 22, 23, 24, 25] (s25.take 10) 52093862775067432915339799377759154892496328802647501818771932469147856570011558160871563546799745096293267266201286073656126381806635588101633171907652349864756556510692243219795725256349847407373240114919603908568057353489253145478430720 bridge25_10
    [7, 8, 13, 14, 15] [[18], [20], [21], [22], [23], [24]]
    (by decide) (by decide) (by decide) (by decide) (by decide) (by decide)
    (by decide) (by decide)

theorem c25_10_5 : fvpF 18 [7, 8, 12, 14, 15, 18, 20, 21, 22, 23, 24, 25] (s25.take 10) = none :=
  fvpF_none_of_cert 18 [7, 8, 12, 14, 15, 18, 20, 21, 22, 23, 24, 25] (s25.take 10) 52093862775067432915339799377759154892496328802647501818771932469147856570011558160871563546799745096293267266201286073656126381806635588101633171907652349864756556510692243219795725256349847407373240114919603908568057353489253145478430720 bridge25_10
    [7, 8, 12, 14, 15] [[18], [20], [21], [22], [23], [24]]
    (by decide) (by decide) (by decide) (by decide) (by decide) (by decide)
    (by decide) (by decide)

theorem n25_10_d5 : fvpF 19 [6, 7, 8, 12, 13, 14, 15, 18, 20, 21, 22, 23, 24, 25] (s25.take 10) = some [(6, 18), (7, 21), (8, 20), (12, 23), (13, 22), (14, 25), (15, 24)] :=
  (Eq.trans (fvpF_succ 18 [6, 7, 8, 12, 13, 14, 15, 18, 20, 21, 22, 23, 24, 25] (s25.take 10) (by decide))
  (Eq.trans (Eq.trans (Eq.trans (Eq.trans (Eq.trans (tryRange_skipAll 18 [6, 7, 8, 12, 13, 14, 15, 18, 20, 21, 22, 23, 24, 25] (s25.take 10) 52093862775067432915339799377759154892496328802647501818771932469147856570011558160871563546799745096293267266201286073656126381806635588101633171907652349864756556510692243219795725256349847407373240114919603908568057353489253145478430720 bridge25_10
    (by decide) 1 1 12 (by decide))
  (tryRange_fail 18 [6, 7, 8, 12, 13, 14, 15, 18, 20, 21, 22, 23, 24, 25] (s25.take 10) 2 11
    ((bridge25_10 (([6, 7, 8, 12, 13, 14, 15, 18, 20, 21, 22, 23, 24, 25] : List Nat).getD 0 0) (([6, 7, 8, 12, 13, 14, 15, 18, 20, 21, 22, 23, 24, 25] : List Nat).getD 2 0)
      (by decide) (by decide)).trans (by decide))
    c25_10_3))
  (tryRange_fail 18 [6, 7, 8, 12, 13, 14, 15, 18, 20, 21, 22, 23, 24, 25] (s25.take 10) 3 10
    ((bridge25_10 (([6, 7, 8, 12, 13, 14, 15, 18, 20, 21, 22, 23, 24, 25] : List Nat).getD 0 0) (([6, 7, 8, 12, 13, 14, 15, 18, 20, 21, 22, 23, 24, 25] : List Nat).getD 3 0)
      (by decide) (by decide)).trans (by decide))
    c25_10_4))
  (tryRange_fail 18 [6, 7, 8, 12, 13, 14, 15, 18, 20, 21, 22, 23, 24, 25] (s25.take 10) 4 9
    ((bridge25_10 (([6, 7, 8, 12, 13, 14, 15, 18, 20, 21, 22, 23, 24, 25] : List Nat).getD 0 0) (([6, 7, 8, 12, 13, 14, 15, 18, 20, 21, 22, 23, 24, 25] : List Nat).getD 4 0)
      (by decide) (by decide)).trans (by decide))
    c25_10_5))
  (tryRange_skipAll 18 [6, 7, 8, 12, 13, 14, 15, 18, 20, 21, 22, 23, 24, 25] (s25.take 10) 52093862775067432915339799377759154892496328802647501818771932469147856570011558160871563546799745096293267266201286073656126381806635588101633171907652349864756556510692243219795725256349847407373240114919603908568057353489253145478430720 bridge25_10
    (by decide) 5 2 7 (by decide)))
  (tryRange_hit 18 [6, 7, 8, 12, 13, 14, 15, 18, 20, 21, 22, 23, 24, 25] (s25.take 10) 7 6 [(7, 21), (8, 20), (12, 23), (13, 22), (14, 25), (15, 24)]
    ((bridge25_10 (([6, 7, 8, 12, 13, 14, 15, 18, 20, 21, 22, 23, 24, 25] : List Nat).getD 0 0) (([6, 7, 8, 12, 13, 14, 15, 18, 20, 21, 22, 23, 24, 25] : List Nat).getD 7 0)
      (by decide) (by decide)).trans (by decide))
    n25_10_d6)))

theorem c25_10_6 : fvpF 19 [6, 7, 12, 13, 14, 15, 18, 19, 20, 21, 22, 23, 24, 25] (s25.take 10) = none :=
  fvpF_none_of_cert 19 [6, 7, 12, 13, 14, 15, 18, 19, 20, 21, 22, 23, 24, 25] (s25.take 10) 52093862775067432915339799377759154892496328802647501818771932469147856570011558160871563546799745096293267266201286073656126381806635588101633171907652349864756556510692243219795725256349847407373240114919603908568057353489253145478430720 bridge25_10
    [6, 7, 12, 13, 14, 15] [[18], [19], [20], [21], [22], [23], [24]]
    (by decide) (by decide) (by decide) (by decide) (by decide) (by decide)
    (by decide) (by decide)

theorem c25_10_7 : fvpF 19 [6, 7, 8, 12, 13, 15, 18, 19, 20, 21, 22, 23, 24, 25] (s25.take 10) = none :=
  fvpF_none_of_cert 19 [6, 7, 8, 12, 13, 15, 18, 19, 20, 21, 22, 23, 24, 25] (s25.take 10) 52093862775067432915339799377759154892496328802647501818771932469147856570011558160871563546799745096293267266201286073656126381806635588101633171907652349864756556510692243219795725256349847407373240114919603908568057353489253145478430720 bridge25_10
    [6, 7, 8, 12, 13, 15] [[18], [19], [20], [21], [22], [23], [24]]
    (by decide) (by decide) (by decide) (by decide) (by decide) (by decide)
    (by decide) (by decide)

theorem c25_10_8 : fvpF 19 [6, 7, 8, 12, 13, 14, 18, 19, 20, 21, 22, 23, 24, 25] (s25.take 10) = none :=
  fvpF_none_of_cert 19 [6, 7, 8, 12, 13, 14, 18, 19, 20, 21, 22, 23, 24, 25] (s25.take 10) 52093862775067432915339799377759154892496328802647501818771932469147856570011558160871563546799745096293267266201286073656126381806635588101633171907652349864756556510692243219795725256349847407373240114919603908568057353489253145478430720 bridge25_10
    [6, 7, 8, 12, 13, 14] [[18], [19], [20], [21], [22], [23], [24]]
    (by decide) (by decide) (by decide) (by decide) (by decide) (by decide)
    (by decide) (by decide)

theorem n25_10_d4 : fvpF 20 [5, 6, 7, 8, 12, 13, 14, 15, 18, 19, 20, 21, 22, 23, 24, 25] (s25.take 10) = some [(5, 19), (6, 18), (7, 21), (8, 20), (12, 23), (13, 22), (14, 25), (15, 24)] :=
  (Eq.trans (fvpF_succ 19 [5, 6, 7, 8, 12, 13, 14, 15, 18, 19, 20, 21, 22, 23, 24, 25] (s25.take 10) (by decide))
  (Eq.trans (Eq.trans (Eq.trans (Eq.trans (Eq.trans (Eq.trans (tryRange_skipAll 19 [5, 6, 7, 8, 12, 13, 14, 15, 18, 19, 20, 21, 22, 23, 24, 25] (s25.take 10) 52093862775067432915339799377759154892496328802647501818771932469147856570011558160871563546799745096293267266201286073656126381806635588101633171907652349864756556510692243219795725256349847407373240114919603908568057353489253145478430720 bridge25_10
    (by decide) 1 2 13 (by decide))
  (tryRange_fail 19 [5, 6, 7, 8, 12, 13, 14, 15, 18, 19, 20, 21, 22, 23, 24, 25] (s25.take 10) 3 12
    ((bridge25_10 (([5, 6, 7, 8, 12, 13, 14, 15, 18, 19, 20, 21, 22, 23, 24, 25] : List Nat).getD 0 0) (([5, 6, 7, 8, 12, 13, 14, 15, 18, 19, 20, 21, 22, 23, 24, 25] : List Nat).getD 3 0)
      (by decide) (by decide)).trans (by decide))
    c25_10_6))
  (tryRange_skipAll 19 [5, 6, 7, 8, 12, 13, 14, 15, 18, 19, 20, 21, 22, 23, 24, 25] (s25.take 10) 52093862775067432915339799377759154892496328802647501818771932469147856570011558160871563546799745096293267266201286073656126381806635588101633171907652349864756556510692243219795725256349847407373240114919603908568057353489253145478430720 bridge25_10
    (by decide) 4 2 10 (by decide)))
  (tryRange_fail 19 [5, 6, 7, 8, 12, 13, 14, 15, 18, 19, 20, 21, 22, 23, 24, 25] (s25.take 10) 6 9
    ((bridge25_10 (([5, 6, 7, 8, 12, 13, 14, 15, 18, 19, 20, 21, 22, 23, 24, 25] : List Nat).getD 0 0) (([5, 6, 7, 8, 12, 13, 14, 15, 18, 19, 20, 21, 22, 23, 24, 25] : List Nat).getD 6 0)
      (by decide) (by decide)).trans (by decide))
    c25_10_7))
  (tryRange_fail 19 [5, 6, 7, 8, 12, 13, 14, 15, 18, 19, 20, 21, 22, 23, 24, 25] (s25.take 10) 7 8
    ((bridge25_10 (([5, 6, 7, 8, 12, 13, 14, 15, 18, 19, 20, 21, 22, 23, 24, 25] : List Nat).getD 0 0) (([5, 6, 7, 8, 12, 13, 14, 15, 18, 19, 20, 21, 22, 23, 24, 25] : List Nat).getD 7 0)
      (by decide) (by decide)).trans (by decide))
    c25_10_8))
  (tryRange_skipAll 19 [5, 6, 7, 8, 12, 13, 14, 15, 18, 19, 20, 21, 22, 23, 24, 25] (s25.take 10) 52093862775067432915339799377759154892496328802647501818771932469147856570011558160871563546799745096293267266201286073656126381806635588101633171907652349864756556510692243219795725256349847407373240114919603908568057353489253145478430720 bridge25_10
    (by decide) 8 1 7 (by decide)))
  (tryRange_hit 19 [5, 6, 7, 8, 12, 13, 14, 15, 18, 19, 20, 21, 22, 23, 24, 25] (s25.take 10) 9 6 [(6, 18), (7, 21), (8, 20), (12, 23), (13, 22), (14, 25), (15, 24)]
    ((bridge25_10 (([5, 6, 7, 8, 12, 13, 14, 15, 18, 19, 20, 21, 22, 23, 24, 25] : List Nat).getD 0 0) (([5, 6, 7, 8, 12, 13, 14, 15, 18, 19, 20, 21, 22, 23, 24, 25] : List Nat).getD 9 0)
      (by decide) (by decide)).trans (by decide))
    n25_10_d5)))

theorem c25_10_9 : fvpF 20 [5, 6, 7, 12, 13, 14, 15, 16, 18, 19, 20, 21, 22, 23, 24, 25] (s25.take 10) = none :=
  fvpF_none_of_cert 20 [5, 6, 7, 12, 13, 14, 15, 16, 18, 19, 20, 21, 22, 23, 24, 25] (s25.take 10) 52093862775067432915339799377759154892496328802647501818771932469147856570011558160871563546799745096293267266201286073656126381806635588101633171907652349864756556510692243219795725256349847407373240114919603908568057353489253145478430720 bridge25_10
    [5, 6, 7, 12, 13, 14, 15] [[16], [18], [19], [20], [21], [22], [23], [24]]
    (by decide) (by decide) (by decide) (by decide) (by decide) (by decide)
    (by decide) (by decide)

theorem c25_10_10 : fvpF 20 [5, 6, 7, 8, 12, 13, 15, 16, 18, 19, 20, 21, 22, 23, 24, 25] (s25.take 10) = none :=
  fvpF_none_of_cert 20 [5, 6, 7, 8, 12, 13, 15, 16, 18, 19, 20, 21, 22, 23, 24, 25] (s25.take 10) 52093862775067432915339799377759154892496328802647501818771932469147856570011558160871563546799745096293267266201286073656126381806635588101633171907652349864756556510692243219795725256349847407373240114919603908568057353489253145478430720 bridge25_10
    [5, 6, 7, 8, 12, 13, 15] [[16], [18], [19], [20], [21], [22], [23], [24]]
    (by decide) (by decide) (by decide) (by decide) (by decide) (by decide)
    (by decide) (by decide)

theorem c25_10_11 : fvpF 20 [5, 6, 7, 8, 12, 13, 14, 16, 18, 19, 20, 21, 22, 23, 24, 25] (s25.take 10) = none :=
  fvpF_none_of_cert 20 [5, 6, 7, 8, 12, 13, 14, 16, 18, 19, 20, 21, 22, 23, 24, 25] (s25.take 10) 52093862775067432915339799377759154892496328802647501818771932469147856570011558160871563546799745096293267266201286073656126381806635588101633171907652349864756556510692243219795725256349847407373240114919603908568057353489253145478430720 bridge25_10
    [5, 6, 7, 8, 12, 13, 14] [[16], [18], [19], [20], [21], [22], [23], [24]]
    (by decide) (by decide) (by decide) (by decide) (by decide) (by decide)
    (by decide) (by decide)

theorem n25_10_d3 : fvpF 21 [4, 5, 6, 7, 8, 12, 13, 14, 15, 16, 18, 19, 20, 21, 22, 23, 24, 25] (s25.take 10) = some [(4, 16), (5, 19), (6, 18), (7, 21), (8, 20), (12, 23), (13, 22), (14, 25), (15, 24)] :=
  (Eq.trans (fvpF_succ 20 [4, 5, 6, 7, 8, 12, 13, 14, 15, 16, 18, 19, 20, 21, 22, 23, 24, 25] (s25.take 10) (by decide))
  (Eq.trans (Eq.trans (Eq.trans (Eq.trans (Eq.trans (tryRange_skipAll 20 [4, 5, 6, 7, 8, 12, 13, 14, 15, 16, 18, 19, 20, 21, 22, 23, 24, 25] (s25.take 10) 52093862775067432915339799377759154892496328802647501818771932469147856570011558160871563546799745096293267266201286073656126381806635588101633171907652349864756556510692243219795725256349847407373240114919603908568057353489253145478430720 bridge25_10
    (by decide) 1 3 14 (by decide))
  (tryRange_fail 20 [4, 5, 6, 7, 8, 12, 13, 14, 15, 16, 18, 19, 20, 21, 22, 23, 24, 25] (s25.take 10) 4 13
    ((bridge25_10 (([4, 5, 6, 7, 8, 12, 13, 14, 15, 16, 18, 19, 20, 21, 22, 23, 24, 25] : List Nat).getD 0 0) (([4, 5, 6, 7, 8, 12, 13, 14, 15, 16, 18, 19, 20, 21, 22, 23, 24, 25] : List Nat).getD 4 0)
      (by decide) (by decide)).trans (by decide))
    c25_10_9))
  (tryRange_skipAll 20 [4, 5, 6, 7, 8, 12, 13, 14, 15, 16, 18, 19, 20, 21, 22, 23, 24, 25] (s25.take 10) 52093862775067432915339799377759154892496328802647501818771932469147856570011558160871563546799745096293267266201286073656126381806635588101633171907652349864756556510692243219795725256349847407373240114919603908568057353489253145478430720 bridge25_10
    (by decide) 5 2 11 (by decide)))
  (tryRange_fail 20 [4, 5, 6, 7, 8, 12, 13, 14, 15, 16, 18, 19, 20, 21, 22, 23, 24, 25] (s25.take 10) 7 10
    ((bridge25_10 (([4, 5, 6, 7, 8, 12, 13, 14, 15, 16, 18, 19, 20, 21, 22, 23, 24, 25] : List Nat).getD 0 0) (([4, 5, 6, 7, 8, 12, 13, 14, 15, 16, 18, 19, 20, 21, 22, 23, 24, 25] : List Nat).getD 7 0)
      (by decide) (by decide)).trans (by decide))
    c25_10_10))
  (tryRange_fail 20 [4, 5, 6, 7, 8, 12, 13, 14, 15, 16, 18, 19, 20, 21, 22, 23, 24, 25] (s25.take 10) 8 9
    ((bridge25_10 (([4, 5, 6, 7, 8, 12, 13, 14, 15, 16, 18, 19, 20, 21, 22, 23, 24, 25] : List Nat).getD 0 0) (([4, 5, 6, 7, 8, 12, 13, 14, 15, 16, 18, 19, 20, 21, 22, 23, 24, 25] : List Nat).getD 8 0)
      (by decide) (by decide)).trans (by decide))
    c25_10_11))
  (tryRange_hit 20 [4, 5, 6, 7, 8, 12, 13, 14, 15, 16, 18, 19, 20, 21, 22, 23, 24, 25] (s25.take 10) 9 8 [(5, 19), (6, 18), (7, 21), (8, 20), (12, 23), (13, 22), (14, 25), (15, 24)]
    ((bridge25_10 (([4, 5, 6, 7, 8, 12, 13, 14, 15, 16, 18, 19, 20, 21, 22, 23, 24, 25] : List Nat).getD 0 0) (([4, 5, 6, 7, 8, 12, 13, 14, 15, 16, 18, 19, 20, 21, 22, 23, 24, 25] : List Nat).getD 9 0)
      (by decide) (by decide)).trans (by decide))
    n25_10_d4)))

theorem c25_10_12 : fvpF 21 [4, 5, 6, 7, 12, 13, 14, 15, 16, 17, 18, 19, 20, 21, 22, 23, 24, 25] (s25.take 10) = none :=
  fvpF_none_of_cert 21 [4, 5, 6, 7, 12, 13, 14, 15, 16, 17, 18, 19, 20, 21, 22, 23, 24, 25] (s25.take 10) 52093862775067432915339799377759154892496328802647501818771932469147856570011558160871563546799745096293267266201286073656126381806635588101633171907652349864756556510692243219795725256349847407373240114919603908568057353489253145478430720 bridge25_10
    [4, 5, 6, 7, 12, 13, 14, 15] [[16], [17], [18], [19], [20], [21], [22], [23], [24]]
    (by decide) (by decide) (by decide) (by decide) (by decide) (by decide)
    (by decide) (by decide)

theorem c25_10_13 : fvpF 21 [4, 5, 6, 7, 8, 13, 14, 15, 16, 17, 18, 19, 20, 21, 22, 23, 24, 25] (s25.take 10) = none :=
  fvpF_none_of_cert 21 [4, 5, 6, 7, 8, 13, 14, 15, 16, 17, 18, 19, 20, 21, 22, 23, 24, 25] (s25.take 10) 52093862775067432915339799377759154892496328802647501818771932469147856570011558160871563546799745096293267266201286073656126381806635588101633171907652349864756556510692243219795725256349847407373240114919603908568057353489253145478430720 bridge25_10
    [4, 5, 6, 7, 8, 13, 14, 15] [[16], [17], [18], [19], [20], [21], [22], [23], [24]]
    (by decide) (by decide) (by decide) (by decide) (by decide) (by decide)
    (by decide) (by decide)

theorem c25_10_14 : fvpF 21 [4, 5, 6, 7, 8, 12, 14, 15, 16, 17, 18, 19, 20, 21, 22, 23, 24, 25] (s25.take 10) = none :=
  fvpF_none_of_cert 21 [4, 5, 6, 7, 8, 12, 14, 15, 16, 17, 18, 19, 20, 21, 22, 23, 24, 25] (s25.take 10) 52093862775067432915339799377759154892496328802647501818771932469147856570011558160871563546799745096293267266201286073656126381806635588101633171907652349864756556510692243219795725256349847407373240114919603908568057353489253145478430720 bridge25_10
    [4, 5, 6, 7, 8, 12, 14, 15] [[16], [17], [18], [19], [20], [21], [22], [23], [24]]
    (by decide) (by decide) (by decide) (by decide) (by decide) (by decide)
    (by decide) (by decide)

theorem c25_10_15 : fvpF 21 [4, 5, 6, 7, 8, 12, 13, 15, 16, 17, 18, 19, 20, 21, 22, 23, 24, 25] (s25.take 10) = none :=
  fvpF_none_of_cert 21 [4, 5, 6, 7, 8, 12, 13, 15, 16, 17, 18, 19, 20, 21, 22, 23, 24, 25] (s25.take 10) 52093862775067432915339799377759154892496328802647501818771932469147856570011558160871563546799745096293267266201286073656126381806635588101633171907652349864756556510692243219795725256349847407373240114919603908568057353489253145478430720 bridge25_10
    [4, 5, 6, 7, 8, 12, 13, 15] [[16], [17], [18], [19], [20], [21], [22], [23], [24]]
    (by decide) (by decide) (by decide) (by decide) (by decide) (by decide)
    (by decide) (by decide)

theorem c25_10_16 : fvpF 21 [4, 5, 6, 7, 8, 12, 13, 14, 16, 17, 18, 19, 20, 21, 22, 23, 24, 25] (s25.take 10) = none :=
  fvpF_none_of_cert 21 [4, 5, 6, 7, 8, 12, 13, 14, 16, 17, 18, 19, 20, 21, 22, 23, 24, 25] (s25.take 10) 52093862775067432915339799377759154892496328802647501818771932469147856570011558160871563546799745096293267266201286073656126381806635588101633171907652349864756556510692243219795725256349847407373240114919603908568057353489253145478430720 bridge25_10
    [4, 5, 6, 7, 8, 12, 13, 14] [[16], [17], [18], [19], [20], [21], [22], [23], [24]]
    (by decide) (by decide) (by decide) (by decide) (by decide) (by decide)
    (by decide) (by decide)

theorem n25_10_d2 : fvpF 22 [3, 4, 5, 6, 7, 8, 12, 13, 14, 15, 16, 17, 18, 19, 20, 21, 22, 23, 24, 25] (s25.take 10) = some [(3, 17), (4, 16), (5, 19), (6, 18), (7, 21), (8, 20), (12, 23), (13, 22), (14, 25), (15, 24)] :=
  (Eq.trans (fvpF_succ 21 [3, 4, 5, 6, 7, 8, 12, 13, 14, 15, 16, 17, 18, 19, 20, 21, 22, 23, 24, 25] (s25.take 10) (by decide))
  (Eq.trans (Eq.trans (Eq.trans (Eq.trans (Eq.trans (Eq.trans (Eq.trans (tryRange_skipAll 21 [3, 4, 5, 6, 7, 8, 12, 13, 14, 15, 16, 17, 18, 19, 20, 21, 22, 23, 24, 25] (s25.take 10) 52093862775067432915339799377759154892496328802647501818771932469147856570011558160871563546799745096293267266201286073656126381806635588101633171907652349864756556510692243219795725256349847407373240114919603908568057353489253145478430720 bridge25_10
    (by decide) 1 4 15 (by decide))
  (tryRange_fail 21 [3, 4, 5, 6, 7, 8, 12, 13, 14, 15, 16, 17, 18, 19, 20, 21, 22, 23, 24, 25] (s25.take 10) 5 14
    ((bridge25_10 (([3, 4, 5, 6, 7, 8, 12, 13, 14, 15, 16, 17, 18, 19, 20, 21, 22, 23, 24, 25] : List Nat).getD 0 0) (([3, 4, 5, 6, 7, 8, 12, 13, 14, 15, 16, 17, 18, 19, 20, 21, 22, 23, 24, 25] : List Nat).getD 5 0)
      (by decide) (by decide)).trans (by decide))
    c25_10_12))
  (tryRange_fail 21 [3, 4, 5, 6, 7, 8, 12, 13, 14, 15, 16, 17, 18, 19, 20, 21, 22, 23, 24, 25] (s25.take 10) 6 13
    ((bridge25_10 (([3, 4, 5, 6, 7, 8, 12, 13, 14, 15, 16, 17, 18, 19, 20, 21, 22, 23, 24, 25] : List Nat).getD 0 0) (([3, 4, 5, 6, 7, 8, 12, 13, 14, 15, 16, 17, 18, 19, 20, 21, 22, 23, 24, 25] : List Nat).getD 6 0)
      (by decide) (by decide)).trans (by decide))
    c25_10_13))
  (tryRange_fail 21 [3, 4, 5, 6, 7, 8, 12, 13, 14, 15, 16, 17, 18, 19, 20, 21, 22, 23, 24, 25] (s25.take 10) 7 12
    ((bridge25_10 (([3, 4, 5, 6, 7, 8, 12, 13, 14, 15, 16, 17, 18, 19, 20, 21, 22, 23, 24, 25] : List Nat).getD 0 0) (([3, 4, 5, 6, 7, 8, 12, 13, 14, 15, 16, 17, 18, 19, 20, 21, 22, 23, 24, 25] : List Nat).getD 7 0)
      (by decide) (by decide)).trans (by decide))
    c25_10_14))
  (tryRange_fail 21 [3, 4, 5, 6, 7, 8, 12, 13, 14, 15, 16, 17, 18, 19, 20, 21, 22, 23, 24, 25] (s25.take 10) 8 11
    ((bridge25_10 (([3, 4, 5, 6, 7, 8, 12, 13, 14, 15, 16, 17, 18, 19, 20, 21, 22, 23, 24, 25] : List Nat).getD 0 0) (([3, 4, 5, 6, 7, 8, 12, 13, 14, 15, 16, 17, 18, 19, 20, 21, 22, 23, 24, 25] : List Nat).getD 8 0)
      (by decide) (by decide)).trans (by decide))
    c25_10_15))
  (tryRange_fail 21 [3, 4, 5, 6, 7, 8, 12, 13, 14, 15, 16, 17, 18, 19, 20, 21, 22, 23, 24, 25] (s25.take 10) 9 10
    ((bridge25_10 (([3, 4, 5, 6, 7, 8, 12, 13, 14, 15, 16, 17, 18, 19, 20, 21, 22, 23, 24, 25] : List Nat).getD 0 0) (([3, 4, 5, 6, 7, 8, 12, 13, 14, 15, 16, 17, 18, 19, 20, 21, 22, 23, 24, 25] : List Nat).getD 9 0)
      (by decide) (by decide)).trans (by decide))
    c25_10_16))
  (tryRange_skipAll 21 [3, 4, 5, 6, 7, 8, 12, 13, 14, 15, 16, 17, 18, 19, 20, 21, 22, 23, 24, 25] (s25.take 10) 52093862775067432915339799377759154892496328802647501818771932469147856570011558160871563546799745096293267266201286073656126381806635588101633171907652349864756556510692243219795725256349847407373240114919603908568057353489253145478430720 bridge25_10
    (by decide) 10 1 9 (by decide)))
  (tryRange_hit 21 [3, 4, 5, 6, 7, 8, 12, 13, 14, 15, 16, 17, 18, 19, 20, 21, 22, 23, 24, 25] (s25.take 10) 11 8 [(4, 16), (5, 19), (6, 18), (7, 21), (8, 20), (12, 23), (13, 22), (14, 25), (15, 24)]
    ((bridge25_10 (([3, 4, 5, 6, 7, 8, 12, 13, 14, 15, 16, 17, 18, 19, 20, 21, 22, 23, 24, 25] : List Nat).getD 0 0) (([3, 4, 5, 6, 7, 8, 12, 13, 14, 15, 16, 17, 18, 19, 20, 21, 22, 23, 24, 25] : List Nat).getD 11 0)
      (by decide) (by decide)).trans (by decide))
    n25_10_d3)))

theorem n25_10_d1 : fvpF 23 [2, 3, 4, 5, 6, 7, 8, 9, 12, 13, 14, 15, 16, 17, 18, 19, 20, 21, 22, 23, 24, 25] (s25.take 10) = some [(2, 9), (3, 17), (4, 16), (5, 19), (6, 18), (7, 21), (8, 20), (12, 23), (13, 22), (14, 25), (15, 24)] :=
  (Eq.trans (fvpF_succ 22 [2, 3, 4, 5, 6, 7, 8, 9, 12, 13, 14, 15, 16, 17, 18, 19, 20, 21, 22, 23, 24, 25] (s25.take 10) (by decide))
  (Eq.trans (tryRange_skipAll 22 [2, 3, 4, 5, 6, 7, 8, 9, 12, 13, 14, 15, 16, 17, 18, 19, 20, 21, 22, 23, 24, 25] (s25.take 10) 52093862775067432915339799377759154892496328802647501818771932469147856570011558160871563546799745096293267266201286073656126381806635588101633171907652349864756556510692243219795725256349847407373240114919603908568057353489253145478430720 bridge25_10
    (by decide) 1 6 15 (by decide))
  (tryRange_hit 22 [2, 3, 4, 5, 6, 7, 8, 9, 12, 13, 14, 15, 16, 17, 18, 19, 20, 21, 22, 23, 24, 25] (s25.take 10) 7 14 [(3, 17), (4, 16), (5, 19), (6, 18), (7, 21), (8, 20), (12, 23), (13, 22), (14, 25), (15, 24)]
    ((bridge25_10 (([2, 3, 4, 5, 6, 7, 8, 9, 12, 13, 14, 15, 16, 17, 18, 19, 20, 21, 22, 23, 24, 25] : List Nat).getD 0 0) (([2, 3, 4, 5, 6, 7, 8, 9, 12, 13, 14, 15, 16, 17, 18, 19, 20, 21, 22, 23, 24, 25] : List Nat).getD 7 0)
      (by decide) (by decide)).trans (by decide))
    n25_10_d2)))

theorem n25_10_d0 : fvpF 24 [1, 2, 3, 4, 5, 6, 7, 8, 9, 10, 12, 13, 14, 15, 16, 17, 18, 19, 20, 21, 22, 23, 24, 25] (s25.take 10) = some [(1, 10), (2, 9), (3, 17), (4, 16), (5, 19), (6, 18), (7, 21), (8, 20), (12, 23), (13, 22), (14, 25), (15, 24)] :=
  (Eq.trans (fvpF_succ 23 [1, 2, 3, 4, 5, 6, 7, 8, 9, 10, 12, 13, 14, 15, 16, 17, 18, 19, 20, 21, 22, 23, 24, 25] (s25.take 10) (by decide))
  (Eq.trans (tryRange_skipAll 23 [1, 2, 3, 4, 5, 6, 7, 8, 9, 10, 12, 13, 14, 15, 16, 17, 18, 19, 20, 21, 22, 23, 24, 25] (s25.take 10) 52093862775067432915339799377759154892496328802647501818771932469147856570011558160871563546799745096293267266201286073656126381806635588101633171907652349864756556510692243219795725256349847407373240114919603908568057353489253145478430720 bridge25_10
    (by decide) 1 8 15 (by decide))
  (tryRange_hit 23 [1, 2, 3, 4, 5, 6, 7, 8, 9, 10, 12, 13, 14, 15, 16, 17, 18, 19, 20, 21, 22, 23, 24, 25] (s25.take 10) 9 14 [(2, 9), (3, 17), (4, 16), (5, 19), (6, 18), (7, 21), (8, 20), (12, 23), (13, 22), (14, 25), (15, 24)]
    ((bridge25_10 (([1, 2, 3, 4, 5, 6, 7, 8, 9, 10, 12, 13, 14, 15, 16, 17, 18, 19, 20, 21, 22, 23, 24, 25] : List Nat).getD 0 0) (([1, 2, 3, 4, 5, 6, 7, 8, 9, 10, 12, 13, 14, 15, 16, 17, 18, 19, 20, 21, 22, 23, 24, 25] : List Nat).getD 9 0)
      (by decide) (by decide)).trans (by decide))
    n25_10_d1)))

theorem fvp25_10 : findValidPairs [1, 2, 3, 4, 5, 6, 7, 8, 9, 10, 12, 13, 14, 15, 16, 17, 18, 19, 20, 21, 22, 23, 24, 25] (s25.take 10) = some [(1, 10), (2, 9), (3, 17), (4, 16), (5, 19), (6, 18), (7, 21), (8, 20), (12, 23), (13, 22), (14, 25), (15, 24)] := n25_10_d0

theorem n25_11_d11 : fvpF 13 [15, 23] (s25.take 11) = some [(15, 23)] :=
  (Eq.trans (fvpF_succ 12 [15, 23] (s25.take 11) (by decide))
  (tryRange_hit 12 [15, 23] (s25.take 11) 1 0 []
    ((bridge25_11 (([15, 23] : List Nat).getD 0 0) (([15, 23] : List Nat).getD 1 0)
      (by decide) (by decide)).trans (by decide))
    (fvpF_nil 12 (s25.take 11))))

theorem c25_11_0 : fvpF 13 [15, 25] (s25.take 11) = none :=
  fvpF_none_of_cert 13 [15, 25] (s25.take 11) 52093862775067432915339799377759154892496328802647501818771932469147856570011558160871615921049495823223737530729185009427508054389466554648336570770069185702047636124309357634652737338572467015998876782475994177381179666287046753343504384 bridge25_11
    [] [[15]]
    (by decide) (by decide) (by decide) (by decide) (by decide) (by decide)
    (by decide) (by decide)

theorem n25_11_d10 : fvpF 14 [11, 15, 23, 25] (s25.take 11) = some [(11, 25), (15, 23)] :=
  (Eq.trans (fvpF_succ 13 [11, 15, 23, 25] (s25.take 11) (by decide))
  (Eq.trans (Eq.trans (tryRange_skipAll 13 [11, 15, 23, 25] (s25.take 11) 52093862775067432915339799377759154892496328802647501818771932469147856570011558160871615921049495823223737530729185009427508054389466554648336570770069185702047636124309357634652737338572467015998876782475994177381179666287046753343504384 bridge25_11
    (by decide) 1 1 2 (by decide))
  (tryRange_fail 13 [11, 15, 23, 25] (s25.take 11) 2 1
    ((bridge25_11 (([11, 15, 23, 25] : List Nat).getD 0 0) (([11, 15, 23, 25] : List Nat).getD 2 0)
      (by decide) (by decide)).trans (by decide))
    c25_11_0))
  (tryRange_hit 13 [11, 15, 23, 25] (s25.take 11) 3 0 [(15, 23)]
    ((bridge25_11 (([11, 15, 23, 25] : List Nat).getD 0 0) (([11, 15, 23, 25] : List Nat).getD 3 0)
      (by decide) (by decide)).trans (by decide))
    n25_11_d11)))

theorem c25_11_1 : fvpF 14 [11, 15, 24, 25] (s25.take 11) = none :=
  fvpF_none_of_cert 14 [11, 15, 24, 25] (s25.take 11) 52093862775067432915339799377759154892496328802647501818771932469147856570011558160871615921049495823223737530729185009427508054389466554648336570770069185702047636124309357634652737338572467015998876782475994177381179666287046753343504384 bridge25_11
    [] [[11, 24, 25]]
    (by decide) (by decide) (by decide) (by decide) (by decide) (by decide)
    (by decide) (by decide)

theorem n25_11_d9 : fvpF 15 [10, 11, 15, 23, 24, 25] (s25.take 11) = some [(10, 24), (11, 25), (15, 23)] :=
  (Eq.trans (fvpF_succ 14 [10, 11, 15, 23, 24, 25] (s25.take 11) (by decide))
  (Eq.trans (Eq.trans (tryRange_skipAll 14 [10, 11, 15, 23, 24, 25] (s25.take 11) 52093862775067432915339799377759154892496328802647501818771932469147856570011558160871615921049495823223737530729185009427508054389466554648336570770069185702047636124309357634652737338572467015998876782475994177381179666287046753343504384 bridge25_11
    (by decide) 1 2 3 (by decide))
  (tryRange_fail 14 [10, 11, 15, 23, 24, 25] (s25.take 11) 3 2
    ((bridge25_11 (([10, 11, 15, 23, 24, 25] : List Nat).getD 0 0) (([10, 11, 15, 23, 24, 25] : List Nat).getD 3 0)
      (by decide) (by decide)).trans (by decide))
    c25_11_1))
  (tryRange_hit 14 [10, 11, 15, 23, 24, 25] (s25.take 11) 4 1 [(11, 25), (15, 23)]
    ((bridge25_11 (([10, 11, 15, 23, 24, 25] : List Nat).getD 0 0) (([10, 11, 15, 23, 24, 25] : List Nat).getD 4 0)
      (by decide) (by decide)).trans (by decide))
    n25_11_d10)))

theorem n25_11_d8 : fvpF 16 [9, 10, 11, 15, 20, 23, 24, 25] (s25.take 11) = some [(9, 20), (10, 24), (11, 25), (15, 23)] :=
  (Eq.trans (fvpF_succ 15 [9, 10, 11, 15, 20, 23, 24, 25] (s25.take 11) (by decide))
  (Eq.trans (tryRange_skipAll 15 [9, 10, 11, 15, 20, 23, 24, 25] (s25.take 11) 52093862775067432915339799377759154892496328802647501818771932469147856570011558160871615921049495823223737530729185009427508054389466554648336570770069185702047636124309357634652737338572467015998876782475994177381179666287046753343504384 bridge25_11
    (by decide) 1 3 4 (by decide))
  (tryRange_hit 15 [9, 10, 11, 15, 20, 23, 24, 25] (s25.take 11) 4 3 [(10, 24), (11, 25), (15, 23)]
    ((bridge25_11 (([9, 10, 11, 15, 20, 23, 24, 25] : List Nat).getD 0 0) (([9, 10, 11, 15, 20, 23, 24, 25] : List Nat).getD 4 0)
      (by decide) (by decide)).trans (by decide))
    n25_11_d9)))

theorem n25_11_d7 : fvpF 17 [8, 9, 10, 11, 15, 20, 21, 23, 24, 25] (s25.take 11) = some [(8, 21), (9, 20), (10, 24), (11, 25), (15, 23)] :=
  (Eq.trans (fvpF_succ 16 [8, 9, 10, 11, 15, 20, 21, 23, 24, 25] (s25.take 11) (by decide))
  (Eq.trans (tryRange_skipAll 16 [8, 9, 10, 11, 15, 20, 21, 23, 24, 25] (s25.take 11) 52093862775067432915339799377759154892496328802647501818771932469147856570011558160871615921049495823223737530729185009427508054389466554648336570770069185702047636124309357634652737338572467015998876782475994177381179666287046753343504384 bridge25_11
    (by decide) 1 5 4 (by decide))
  (tryRange_hit 16 [8, 9, 10, 11, 15, 20, 21, 23, 24, 25] (s25.take 11) 6 3 [(9, 20), (10, 24), (11, 25), (15, 23)]
    ((bridge25_11 (([8, 9, 10, 11, 15, 20, 21, 23, 24, 25] : List Nat).getD 0 0) (([8, 9, 10, 11, 15, 20, 21, 23, 24, 25] : List Nat).getD 6 0)
      (by decide) (by decide)).trans (by decide))
    n25_11_d8)))

theorem c25_11_2 : fvpF 17 [9, 10, 11, 15, 20, 21, 22, 23, 24, 25] (s25.take 11) = none :=
  fvpF_none_of_cert 17 [9, 10, 11, 15, 20, 21, 22, 23, 24, 25] (s25.take 11) 52093862775067432915339799377759154892496328802647501818771932469147856570011558160871615921049495823223737530729185009427508054389466554648336570770069185702047636124309357634652737338572467015998876782475994177381179666287046753343504384 bridge25_11
    [9, 10, 11, 15] [[20], [21], [22], [23], [24]]
    (by decide) (by decide) (by decide) (by decide) (by decide) (by decide)
    (by decide) (by decide)

theorem c25_11_3 : fvpF 17 [8, 10, 11, 15, 20, 21, 22, 23, 24, 25] (s25.take 11) = none :=
  fvpF_none_of_cert 17 [8, 10, 11, 15, 20, 21, 22, 23, 24, 25] (s25.take 11) 52093862775067432915339799377759154892496328802647501818771932469147856570011558160871615921049495823223737530729185009427508054389466554648336570770069185702047636124309357634652737338572467015998876782475994177381179666287046753343504384 bridge25_11
    [8, 10, 11, 15] [[20], [21], [22], [23], [24]]
    (by decide) (by decide) (by decide) (by decide) (by decide) (by decide)
    (by decide) (by decide)

theorem c25_11_4 : fvpF 17 [8, 9, 11, 15, 20, 21, 22, 23, 24, 25] (s25.take 11) = none :=
  fvpF_none_of_cert 17 [8, 9, 11, 15, 20, 21, 22, 23, 24, 25] (s25.take 11) 52093862775067432915339799377759154892496328802647501818771932469147856570011558160871615921049495823223737530729185009427508054389466554648336570770069185702047636124309357634652737338572467015998876782475994177381179666287046753343504384 bridge25_11
    [8, 9, 11, 15] [[20], [21], [22], [23], [24]]
    (by decide) (by decide) (by decide) (by decide) (by decide) (by decide)
    (by decide) (by decide)

theorem c25_11_5 : fvpF 17 [8, 9, 10, 15, 20, 21, 22, 23, 24, 25] (s25.take 11) = none :=
  fvpF_none_of_cert 17 [8, 9, 10, 15, 20, 21, 22, 23, 24, 25] (s25.take 11) 52093862775067432915339799377759154892496328802647501818771932469147856570011558160871615921049495823223737530729185009427508054389466554648336570770069185702047636124309357634652737338572467015998876782475994177381179666287046753343504384 bridge25_11
    [8, 9, 10, 15] [[20], [21], [22], [23], [24]]
    (by decide) (by decide) (by decide) (by decide) (by decide) (by decide)
    (by decide) (by decide)

theorem n25_11_d6 : fvpF 18 [7, 8, 9, 10, 11, 15, 20, 21, 22, 23, 24, 25] (s25.take 11) = some [(7, 22), (8, 21), (9, 20), (10, 24), (11, 25), (15, 23)] :=
  (Eq.trans (fvpF_succ 17 [7, 8, 9, 10, 11, 15, 20, 21, 22, 23, 24, 25] (s25.take 11) (by decide))
  (Eq.trans (Eq.trans (Eq.trans (Eq.trans (Eq.trans (tryRange_fail 17 [7, 8, 9, 10, 11, 15, 20, 21, 22, 23, 24, 25] (s25.take 11) 1 10
    ((bridge25_11 (([7, 8, 9, 10, 11, 15, 20, 21, 22, 23, 24, 25] : List Nat).getD 0 0) (([7, 8, 9, 10, 11, 15, 20, 21, 22, 23, 24, 25] : List Nat).getD 1 0)
      (by decide) (by decide)).trans (by decide))
    c25_11_2)
  (tryRange_fail 17 [7, 8, 9, 10, 11, 15, 20, 21, 22, 23, 24, 25] (s25.take 11) 2 9
    ((bridge25_11 (([7, 8, 9, 10, 11, 15, 20, 21, 22, 23, 24, 25] : List Nat).getD 0 0) (([7, 8, 9, 10, 11, 15, 20, 21, 22, 23, 24, 25] : List Nat).getD 2 0)
      (by decide) (by decide)).trans (by decide))
    c25_11_3))
  (tryRange_fail 17 [7, 8, 9, 10, 11, 15, 20, 21, 22, 23, 24, 25] (s25.take 11) 3 8
    ((bridge25_11 (([7, 8, 9, 10, 11, 15, 20, 21, 22, 23, 24, 25] : List Nat).getD 0 0) (([7, 8, 9, 10, 11, 15, 20, 21, 22, 23, 24, 25] : List Nat).getD 3 0)
      (by decide) (by decide)).trans (by decide))
    c25_11_4))
  (tryRange_fail 17 [7, 8, 9, 10, 11, 15, 20, 21, 22, 23, 24, 25] (s25.take 11) 4 7
    ((bridge25_11 (([7, 8, 9, 10, 11, 15, 20, 21, 22, 23, 24, 25] : List Nat).getD 0 0) (([7, 8, 9, 10, 11, 15, 20, 21, 22, 23, 24, 25] : List Nat).getD 4 0)
      (by decide) (by decide)).trans (by decide))
    c25_11_5))
  (tryRange_skipAll 17 [7, 8, 9, 10, 11, 15, 20, 21, 22, 23, 24, 25] (s25.take 11) 52093862775067432915339799377759154892496328802647501818771932469147856570011558160871615921049495823223737530729185009427508054389466554648336570770069185702047636124309357634652737338572467015998876782475994177381179666287046753343504384 bridge25_11
    (by decide) 5 3 4 (by decide)))
  (tryRange_hit 17 [7, 8, 9, 10, 11, 15, 20, 21, 22, 23, 24, 25] (s25.take 11) 8 3 [(8, 21), (9, 20), (10, 24), (11, 25), (15, 23)]
    ((bridge25_11 (([7, 8, 9, 10, 11, 15, 20, 21, 22, 23, 24, 25] : List Nat).getD 0 0) (([7, 8, 9, 10, 11, 15, 20, 21, 22, 23, 24, 25] : List Nat).getD 8 0)
      (by decide) (by decide)).trans (by decide))
    n25_11_d7)))

theorem c25_11_6 : fvpF 18 [7, 9, 10, 11, 15, 17, 20, 21, 22, 23, 24, 25] (s25.take 11) = none :=
  fvpF_none_of_cert 18 [7, 9, 10, 11, 15, 17, 20, 21, 22, 23, 24, 25] (s25.take 11) 52093862775067432915339799377759154892496328802647501818771932469147856570011558160871615921049495823223737530729185009427508054389466554648336570770069185702047636124309357634652737338572467015998876782475994177381179666287046753343504384 bridge25_11
    [7, 9, 10, 11, 15] [[17], [20], [21], [22], [23], [24]]
    (by decide) (by decide) (by decide) (by decide) (by decide) (by decide)
    (by decide) (by decide)

theorem c25_11_7 : fvpF 18 [7, 8, 10, 11, 15, 17, 20, 21, 22, 23, 24, 25] (s25.take 11) = none :=
  fvpF_none_of_cert 18 [7, 8, 10, 11, 15, 17, 20, 21, 22, 23, 24, 25] (s25.take 11) 52093862775067432915339799377759154892496328802647501818771932469147856570011558160871615921049495823223737530729185009427508054389466554648336570770069185702047636124309357634652737338572467015998876782475994177381179666287046753343504384 bridge25_11
    [7, 8, 10, 11, 15] [[17], [20], [21], [22], [23], [24]]
    (by decide) (by decide) (by decide) (by decide) (by decide) (by decide)
    (by decide) (by decide)

theorem c25_11_8 : fvpF 18 [7, 8, 9, 11, 15, 17, 20, 21, 22, 23, 24, 25] (s25.take 11) = none :=
  fvpF_none_of_cert 18 [7, 8, 9, 11, 15, 17, 20, 21, 22, 23, 24, 25] (s25.take 11) 52093862775067432915339799377759154892496328802647501818771932469147856570011558160871615921049495823223737530729185009427508054389466554648336570770069185702047636124309357634652737338572467015998876782475994177381179666287046753343504384 bridge25_11
    [7, 8, 9, 11, 15] [[17], [20], [21], [22], [23], [24]]
    (by decide) (by decide) (by decide) (by decide) (by decide) (by decide)
    (by decide) (by decide)

theorem c25_11_9 : fvpF 18 [7, 8, 9, 10, 15, 17, 20, 21, 22, 23, 24, 25] (s25.take 11) = none :=
  fvpF_none_of_cert 18 [7, 8, 9, 10, 15, 17, 20, 21, 22, 23, 24, 25] (s25.take 11) 52093862775067432915339799377759154892496328802647501818771932469147856570011558160871615921049495823223737530729185009427508054389466554648336570770069185702047636124309357634652737338572467015998876782475994177381179666287046753343504384 bridge25_11
    [7, 8, 9, 10, 15] [[17], [20], [21], [22], [23], [24]]
    (by decide) (by decide) (by decide) (by decide) (by decide) (by decide)
    (by decide) (by decide)

theorem n25_11_d5 : fvpF 19 [6, 7, 8, 9, 10, 11, 15, 17, 20, 21, 22, 23, 24, 25] (s25.take 11) = some [(6, 17), (7, 22), (8, 21), (9, 20), (10, 24), (11, 25), (15, 23)] :=
  (Eq.trans (fvpF_succ 18 [6, 7, 8, 9, 10, 11, 15, 17, 20, 21, 22, 23, 24, 25] (s25.take 11) (by decide))
  (Eq.trans (Eq.trans (Eq.trans (Eq.trans (Eq.trans (Eq.trans (tryRange_skipAll 18 [6, 7, 8, 9, 10, 11, 15, 17, 20, 21, 22, 23, 24, 25] (s25.take 11) 52093862775067432915339799377759154892496328802647501818771932469147856570011558160871615921049495823223737530729185009427508054389466554648336570770069185702047636124309357634652737338572467015998876782475994177381179666287046753343504384 bridge25_11
    (by decide) 1 1 12 (by decide))
  (tryRange_fail 18 [6, 7, 8, 9, 10, 11, 15, 17, 20, 21, 22, 23, 24, 25] (s25.take 11) 2 11
    ((bridge25_11 (([6, 7, 8, 9, 10, 11, 15, 17, 20, 21, 22, 23, 24, 25] : List Nat).getD 0 0) (([6, 7, 8, 9, 10, 11, 15, 17, 20, 21, 22, 23, 24, 25] : List Nat).getD 2 0)
      (by decide) (by decide)).trans (by decide))
    c25_11_6))
  (tryRange_fail 18 [6, 7, 8, 9, 10, 11, 15, 17, 20, 21, 22, 23, 24, 25] (s25.take 11) 3 10
    ((bridge25_11 (([6, 7, 8, 9, 10, 11, 15, 17, 20, 21, 22, 23, 24, 25] : List Nat).getD 0 0) (([6, 7, 8, 9, 10, 11, 15, 17, 20, 21, 22, 23, 24, 25] : List Nat).getD 3 0)
      (by decide) (by decide)).trans (by decide))
    c25_11_7))
  (tryRange_fail 18 [6, 7, 8, 9, 10, 11, 15, 17, 20, 21, 22, 23, 24, 25] (s25.take 11) 4 9
    ((bridge25_11 (([6, 7, 8, 9, 10, 11, 15, 17, 20, 21, 22, 23, 24, 25] : List Nat).getD 0 0) (([6, 7, 8, 9, 10, 11, 15, 17, 20, 21, 22, 23, 24, 25] : List Nat).getD 4 0)
      (by decide) (by decide)).trans (by decide))
    c25_11_8))
  (tryRange_fail 18 [6, 7, 8, 9, 10, 11, 15, 17, 20, 21, 22, 23, 24, 25] (s25.take 11) 5 8
    ((bridge25_11 (([6, 7, 8, 9, 10, 11, 15, 17, 20, 21, 22, 23, 24, 25] : List Nat).getD 0 0) (([6, 7, 8, 9, 10, 11, 15, 17, 20, 21, 22, 23, 24, 25] : List Nat).getD 5 0)
      (by decide) (by decide)).trans (by decide))
    c25_11_9))
  (tryRange_skipAll 18 [6, 7, 8, 9, 10, 11, 15, 17, 20, 21, 22, 23, 24, 25] (s25.take 11) 52093862775067432915339799377759154892496328802647501818771932469147856570011558160871615921049495823223737530729185009427508054389466554648336570770069185702047636124309357634652737338572467015998876782475994177381179666287046753343504384 bridge25_11
    (by decide) 6 1 7 (by decide)))
  (tryRange_hit 18 [6, 7, 8, 9, 10, 11, 15, 17, 20, 21, 22, 23, 24, 25] (s25.take 11) 7 6 [(7, 22), (8, 21), (9, 20), (10, 24), (11, 25), (15, 23)]
    ((bridge25_11 (([6, 7, 8, 9, 10, 11, 15, 17, 20, 21, 22, 23, 24, 25] : List Nat).getD 0 0) (([6, 7, 8, 9, 10, 11, 15, 17, 20, 21, 22, 23, 24, 25] : List Nat).getD 7 0)
      (by decide) (by decide)).trans (by decide))
    n25_11_d6)))

theorem c25_11_10 : fvpF 19 [6, 7, 9, 10, 11, 15, 16, 17, 20, 21, 22, 23, 24, 25] (s25.take 11) = none :=
  fvpF_none_of_cert 19 [6, 7, 9, 10, 11, 15, 16, 17, 20, 21, 22, 23, 24, 25] (s25.take 11) 52093862775067432915339799377759154892496328802647501818771932469147856570011558160871615921049495823223737530729185009427508054389466554648336570770069185702047636124309357634652737338572467015998876782475994177381179666287046753343504384 bridge25_11
    [6, 7, 9, 10, 11, 15] [[16], [17], [20], [21], [22], [23], [24]]
    (by decide) (by decide) (by decide) (by decide) (by decide) (by decide)
    (by decide) (by decide)

theorem c25_11_11 : fvpF 19 [6, 7, 8, 10, 11, 15, 16, 17, 20, 21, 22, 23, 24, 25] (s25.take 11) = none :=
  fvpF_none_of_cert 19 [6, 7, 8, 10, 11, 15, 16, 17, 20, 21, 22, 23, 24, 25] (s25.take 11) 52093862775067432915339799377759154892496328802647501818771932469147856570011558160871615921049495823223737530729185009427508054389466554648336570770069185702047636124309357634652737338572467015998876782475994177381179666287046753343504384 bridge25_11
    [6, 7, 8, 10, 11, 15] [[16], [17], [20], [21], [22], [23], [24]]
    (by decide) (by decide) (by decide) (by decide) (by decide) (by decide)
    (by decide) (by decide)

theorem c25_11_12 : fvpF 19 [6, 7, 8, 9, 11, 15, 16, 17, 20, 21, 22, 23, 24, 25] (s25.take 11) = none :=
  fvpF_none_of_cert 19 [6, 7, 8, 9, 11, 15, 16, 17, 20, 21, 22, 23, 24, 25] (s25.take 11) 52093862775067432915339799377759154892496328802647501818771932469147856570011558160871615921049495823223737530729185009427508054389466554648336570770069185702047636124309357634652737338572467015998876782475994177381179666287046753343504384 bridge25_11
    [6, 7, 8, 9, 11, 15] [[16], [17], [20], [21], [22], [23], [24]]
    (by decide) (by decide) (by decide) (by decide) (by decide) (by decide)
    (by decide) (by decide)

theorem c25_11_13 : fvpF 19 [6, 7, 8, 9, 10, 15, 16, 17, 20, 21, 22, 23, 24, 25] (s25.take 11) = none :=
  fvpF_none_of_cert 19 [6, 7, 8, 9, 10, 15, 16, 17, 20, 21, 22, 23, 24, 25] (s25.take 11) 52093862775067432915339799377759154892496328802647501818771932469147856570011558160871615921049495823223737530729185009427508054389466554648336570770069185702047636124309357634652737338572467015998876782475994177381179666287046753343504384 bridge25_11
    [6, 7, 8, 9, 10, 15] [[16], [17], [20], [21], [22], [23], [24]]
    (by decide) (by decide) (by decide) (by decide) (by decide) (by decide)
    (by decide) (by decide)

theorem c25_11_14 : fvpF 19 [6, 7, 8, 9, 10, 11, 16, 17, 20, 21, 22, 23, 24, 25] (s25.take 11) = none :=
  fvpF_none_of_cert 19 [6, 7, 8, 9, 10, 11, 16, 17, 20, 21, 22, 23, 24, 25] (s25.take 11) 52093862775067432915339799377759154892496328802647501818771932469147856570011558160871615921049495823223737530729185009427508054389466554648336570770069185702047636124309357634652737338572467015998876782475994177381179666287046753343504384 bridge25_11
    [6, 7, 8, 9, 10, 11] [[16], [17], [20], [21], [22], [23], [24]]
    (by decide) (by decide) (by decide) (by decide) (by decide) (by decide)
    (by decide) (by decide)

theorem n25_11_d4 : fvpF 20 [5, 6, 7, 8, 9, 10, 11, 15, 16, 17, 20, 21, 22, 23, 24, 25] (s25.take 11) = some [(5, 16), (6, 17), (7, 22), (8, 21), (9, 20), (10, 24), (11, 25), (15, 23)] :=
  (Eq.trans (fvpF_succ 19 [5, 6, 7, 8, 9, 10, 11, 15, 16, 17, 20, 21, 22, 23, 24, 25] (s25.take 11) (by decide))
  (Eq.trans (Eq.trans (Eq.trans (Eq.trans (Eq.trans (Eq.trans (tryRange_skipAll 19 [5, 6, 7, 8, 9, 10, 11, 15, 16, 17, 20, 21, 22, 23, 24, 25] (s25.take 11) 52093862775067432915339799377759154892496328802647501818771932469147856570011558160871615921049495823223737530729185009427508054389466554648336570770069185702047636124309357634652737338572467015998876782475994177381179666287046753343504384 bridge25_11
    (by decide) 1 2 13 (by decide))
  (tryRange_fail 19 [5, 6, 7, 8, 9, 10, 11, 15, 16, 17, 20, 21, 22, 23, 24, 25] (s25.take 11) 3 12
    ((bridge25_11 (([5, 6, 7, 8, 9, 10, 11, 15, 16, 17, 20, 21, 22, 23, 24, 25] : List Nat).getD 0 0) (([5, 6, 7, 8, 9, 10, 11, 15, 16, 17, 20, 21, 22, 23, 24, 25] : List Nat).getD 3 0)
      (by decide) (by decide)).trans (by decide))
    c25_11_10))
  (tryRange_fail 19 [5, 6, 7, 8, 9, 10, 11, 15, 16, 17, 20, 21, 22, 23, 24, 25] (s25.take 11) 4 11
    ((bridge25_11 (([5, 6, 7, 8, 9, 10, 11, 15, 16, 17, 20, 21, 22, 23, 24, 25] : List Nat).getD 0 0) (([5, 6, 7, 8, 9, 10, 11, 15, 16, 17, 20, 21, 22, 23, 24, 25] : List Nat).getD 4 0)
      (by decide) (by decide)).trans (by decide))
    c25_11_11))
  (tryRange_fail 19 [5, 6, 7, 8, 9, 10, 11, 15, 16, 17, 20, 21, 22, 23, 24, 25] (s25.take 11) 5 10
    ((bridge25_11 (([5, 6, 7, 8, 9, 10, 11, 15, 16, 17, 20, 21, 22, 23, 24, 25] : List Nat).getD 0 0) (([5, 6, 7, 8, 9, 10, 11, 15, 16, 17, 20, 21, 22, 23, 24, 25] : List Nat).getD 5 0)
      (by decide) (by decide)).trans (by decide))
    c25_11_12))
  (tryRange_fail 19 [5, 6, 7, 8, 9, 10, 11, 15, 16, 17, 20, 21, 22, 23, 24, 25] (s25.take 11) 6 9
    ((bridge25_11 (([5, 6, 7, 8, 9, 10, 11, 15, 16, 17, 20, 21, 22, 23, 24, 25] : List Nat).getD 0 0) (([5, 6, 7, 8, 9, 10, 11, 15, 16, 17, 20, 21, 22, 23, 24, 25] : List Nat).getD 6 0)
      (by decide) (by decide)).trans (by decide))
    c25_11_13))
  (tryRange_fail 19 [5, 6, 7, 8, 9, 10, 11, 15, 16, 17, 20, 21, 22, 23, 24, 25] (s25.take 11) 7 8
    ((bridge25_11 (([5, 6, 7, 8, 9, 10, 11, 15, 16, 17, 20, 21, 22, 23, 24, 25] : List Nat).getD 0 0) (([5, 6, 7, 8, 9, 10, 11, 15, 16, 17, 20, 21, 22, 23, 24, 25] : List Nat).getD 7 0)
      (by decide) (by decide)).trans (by decide))
    c25_11_14))
  (tryRange_hit 19 [5, 6, 7, 8, 9, 10, 11, 15, 16, 17, 20, 21, 22, 23, 24, 25] (s25.take 11) 8 7 [(6, 17), (7, 22), (8, 21), (9, 20), (10, 24), (11, 25), (15, 23)]
    ((bridge25_11 (([5, 6, 7, 8, 9, 10, 11, 15, 16, 17, 20, 21, 22, 23, 24, 25] : List Nat).getD 0 0) (([5, 6, 7, 8, 9, 10, 11, 15, 16, 17, 20, 21, 22, 23, 24, 25] : List Nat).getD 8 0)
      (by decide) (by decide)).trans (by decide))
    n25_11_d5)))

theorem c25_11_15 : fvpF 20 [5, 6, 7, 9, 10, 11, 15, 16, 17, 19, 20, 21, 22, 23, 24, 25] (s25.take 11) = none :=
  fvpF_none_of_cert 20 [5, 6, 7, 9, 10, 11, 15, 16, 17, 19, 20, 21, 22, 23, 24, 25] (s25.take 11) 52093862775067432915339799377759154892496328802647501818771932469147856570011558160871615921049495823223737530729185009427508054389466554648336570770069185702047636124309357634652737338572467015998876782475994177381179666287046753343504384 bridge25_11
    [5, 6, 7, 9, 10, 11, 15] [[16], [17], [19], [20], [21], [22], [23], [24]]
    (by decide) (by decide) (by decide) (by decide) (by decide) (by decide)
    (by decide) (by decide)

theorem c25_11_16 : fvpF 20 [5, 6, 7, 8, 10, 11, 15, 16, 17, 19, 20, 21, 22, 23, 24, 25] (s25.take 11) = none :=
  fvpF_none_of_cert 20 [5, 6, 7, 8, 10, 11, 15, 16, 17, 19, 20, 21, 22, 23, 24, 25] (s25.take 11) 52093862775067432915339799377759154892496328802647501818771932469147856570011558160871615921049495823223737530729185009427508054389466554648336570770069185702047636124309357634652737338572467015998876782475994177381179666287046753343504384 bridge25_11
    [5, 6, 7, 8, 10, 11, 15] [[16], [17], [19], [20], [21], [22], [23], [24]]
    (by decide) (by decide) (by decide) (by decide) (by decide) (by decide)
    (by decide) (by decide)

theorem c25_11_17 : fvpF 20 [5, 6, 7, 8, 9, 11, 15, 16, 17, 19, 20, 21, 22, 23, 24, 25] (s25.take 11) = none :=
  fvpF_none_of_cert 20 [5, 6, 7, 8, 9, 11, 15, 16, 17, 19, 20, 21, 22, 23, 24, 25] (s25.take 11) 52093862775067432915339799377759154892496328802647501818771932469147856570011558160871615921049495823223737530729185009427508054389466554648336570770069185702047636124309357634652737338572467015998876782475994177381179666287046753343504384 bridge25_11
    [5, 6, 7, 8, 9, 11, 15] [[16], [17], [19], [20], [21], [22], [23], [24]]
    (by decide) (by decide) (by decide) (by decide) (by decide) (by decide)
    (by decide) (by decide)

theorem c25_11_18 : fvpF 20 [5, 6, 7, 8, 9, 10, 15, 16, 17, 19, 20, 21, 22, 23, 24, 25] (s25.take 11) = none :=
  fvpF_none_of_cert 20 [5, 6, 7, 8, 9, 10, 15, 16, 17, 19, 20, 21, 22, 23, 24, 25] (s25.take 11) 52093862775067432915339799377759154892496328802647501818771932469147856570011558160871615921049495823223737530729185009427508054389466554648336570770069185702047636124309357634652737338572467015998876782475994177381179666287046753343504384 bridge25_11
    [5, 6, 7, 8, 9, 10, 15] [[16], [17], [19], [20], [21], [22], [23], [24]]
    (by decide) (by decide) (by decide) (by decide) (by decide) (by decide)
    (by decide) (by decide)

theorem c25_11_19 : fvpF 20 [5, 6, 7, 8, 9, 10, 11, 16, 17, 19, 20, 21, 22, 23, 24, 25] (s25.take 11) = none :=
  fvpF_none_of_cert 20 [5, 6, 7, 8, 9, 10, 11, 16, 17, 19, 20, 21, 22, 23, 24, 25] (s25.take 11) 52093862775067432915339799377759154892496328802647501818771932469147856570011558160871615921049495823223737530729185009427508054389466554648336570770069185702047636124309357634652737338572467015998876782475994177381179666287046753343504384 bridge25_11
    [5, 6, 7, 8, 9, 10, 11] [[16], [17], [19], [20], [21], [22], [23], [24]]
    (by decide) (by decide) (by decide) (by decide) (by decide) (by decide)
    (by decide) (by decide)

theorem n25_11_d3 : fvpF 21 [4, 5, 6, 7, 8, 9, 10, 11, 15, 16, 17, 19, 20, 21, 22, 23, 24, 25] (s25.take 11) = some [(4, 19), (5, 16), (6, 17), (7, 22), (8, 21), (9, 20), (10, 24), (11, 25), (15, 23)] :=
  (Eq.trans (fvpF_succ 20 [4, 5, 6, 7, 8, 9, 10, 11, 15, 16, 17, 19, 20, 21, 22, 23, 24, 25] (s25.take 11) (by decide))
  (Eq.trans (Eq.trans (Eq.trans (Eq.trans (Eq.trans (Eq.trans (Eq.trans (tryRange_skipAll 20 [4, 5, 6, 7, 8, 9, 10, 11, 15, 16, 17, 19, 20, 21, 22, 23, 24, 25] (s25.take 11) 52093862775067432915339799377759154892496328802647501818771932469147856570011558160871615921049495823223737530729185009427508054389466554648336570770069185702047636124309357634652737338572467015998876782475994177381179666287046753343504384 bridge25_11
    (by decide) 1 3 14 (by decide))
  (tryRange_fail 20 [4, 5, 6, 7, 8, 9, 10, 11, 15, 16, 17, 19, 20, 21, 22, 23, 24, 25] (s25.take 11) 4 13
    ((bridge25_11 (([4, 5, 6, 7, 8, 9, 10, 11, 15, 16, 17, 19, 20, 21, 22, 23, 24, 25] : List Nat).getD 0 0) (([4, 5, 6, 7, 8, 9, 10, 11, 15, 16, 17, 19, 20, 21, 22, 23, 24, 25] : List Nat).getD 4 0)
      (by decide) (by decide)).trans (by decide))
    c25_11_15))
  (tryRange_fail 20 [4, 5, 6, 7, 8, 9, 10, 11, 15, 16, 17, 19, 20, 21, 22, 23, 24, 25] (s25.take 11) 5 12
    ((bridge25_11 (([4, 5, 6, 7, 8, 9, 10, 11, 15, 16, 17, 19, 20, 21, 22, 23, 24, 25] : List Nat).getD 0 0) (([4, 5, 6, 7, 8, 9, 10, 11, 15, 16, 17, 19, 20, 21, 22, 23, 24, 25] : List Nat).getD 5 0)
      (by decide) (by decide)).trans (by decide))
    c25_11_16))
  (tryRange_fail 20 [4, 5, 6, 7, 8, 9, 10, 11, 15, 16, 17, 19, 20, 21, 22, 23, 24, 25] (s25.take 11) 6 11
    ((bridge25_11 (([4, 5, 6, 7, 8, 9, 10, 11, 15, 16, 17, 19, 20, 21, 22, 23, 24, 25] : List Nat).getD 0 0) (([4, 5, 6, 7, 8, 9, 10, 11, 15, 16, 17, 19, 20, 21, 22, 23, 24, 25] : List Nat).getD 6 0)
      (by decide) (by decide)).trans (by decide))
    c25_11_17))
  (tryRange_fail 20 [4, 5, 6, 7, 8, 9, 10, 11, 15, 16, 17, 19, 20, 21, 22, 23, 24, 25] (s25.take 11) 7 10
    ((bridge25_11 (([4, 5, 6, 7, 8, 9, 10, 11, 15, 16, 17, 19, 20, 21, 22, 23, 24, 25] : List Nat).getD 0 0) (([4, 5, 6, 7, 8, 9, 10, 11, 15, 16, 17, 19, 20, 21, 22, 23, 24, 25] : List Nat).getD 7 0)
      (by decide) (by decide)).trans (by decide))
    c25_11_18))
  (tryRange_fail 20 [4, 5, 6, 7, 8, 9, 10, 11, 15, 16, 17, 19, 20, 21, 22, 23, 24, 25] (s25.take 11) 8 9
    ((bridge25_11 (([4, 5, 6, 7, 8, 9, 10, 11, 15, 16, 17, 19, 20, 21, 22, 23, 24, 25] : List Nat).getD 0 0) (([4, 5, 6, 7, 8, 9, 10, 11, 15, 16, 17, 19, 20, 21, 22, 23, 24, 25] : List Nat).getD 8 0)
      (by decide) (by decide)).trans (by decide))
    c25_11_19))
  (tryRange_skipAll 20 [4, 5, 6, 7, 8, 9, 10, 11, 15, 16, 17, 19, 20, 21, 22, 23, 24, 25] (s25.take 11) 52093862775067432915339799377759154892496328802647501818771932469147856570011558160871615921049495823223737530729185009427508054389466554648336570770069185702047636124309357634652737338572467015998876782475994177381179666287046753343504384 bridge25_11
    (by decide) 9 2 7 (by decide)))
  (tryRange_hit 20 [4, 5, 6, 7, 8, 9, 10, 11, 15, 16, 17, 19, 20, 21, 22, 23, 24, 25] (s25.take 11) 11 6 [(5, 16), (6, 17), (7, 22), (8, 21), (9, 20), (10, 24), (11, 25), (15, 23)]
    ((bridge25_11 (([4, 5, 6, 7, 8, 9, 10, 11, 15, 16, 17, 19, 20, 21, 22, 23, 24, 25] : List Nat).getD 0 0) (([4, 5, 6, 7, 8, 9, 10, 11, 15, 16, 17, 19, 20, 21, 22, 23, 24, 25] : List Nat).getD 11 0)
      (by decide) (by decide)).trans (by decide))
    n25_11_d4)))

theorem c25_11_20 : fvpF 21 [4, 5, 6, 7, 9, 10, 11, 15, 16, 17, 18, 19, 20, 21, 22, 23, 24, 25] (s25.take 11) = none :=
  fvpF_none_of_cert 21 [4, 5, 6, 7, 9, 10, 11, 15, 16, 17, 18, 19, 20, 21, 22, 23, 24, 25] (s25.take 11) 52093862775067432915339799377759154892496328802647501818771932469147856570011558160871615921049495823223737530729185009427508054389466554648336570770069185702047636124309357634652737338572467015998876782475994177381179666287046753343504384 bridge25_11
    [4, 5, 6, 7, 9, 10, 11, 15] [[16], [17], [18], [19], [20], [21], [22], [23], [24]]
    (by decide) (by decide) (by decide) (by decide) (by decide) (by decide)
    (by decide) (by decide)

theorem c25_11_21 : fvpF 21 [4, 5, 6, 7, 8, 10, 11, 15, 16, 17, 18, 19, 20, 21, 22, 23, 24, 25] (s25.take 11) = none :=
  fvpF_none_of_cert 21 [4, 5, 6, 7, 8, 10, 11, 15, 16, 17, 18, 19, 20, 21, 22, 23, 24, 25] (s25.take 11) 52093862775067432915339799377759154892496328802647501818771932469147856570011558160871615921049495823223737530729185009427508054389466554648336570770069185702047636124309357634652737338572467015998876782475994177381179666287046753343504384 bridge25_11
    [4, 5, 6, 7, 8, 10, 11, 15] [[16], [17], [18], [19], [20], [21], [22], [23], [24]]
    (by decide) (by decide) (by decide) (by decide) (by decide) (by decide)
    (by decide) (by decide)

theorem c25_11_22 : fvpF 21 [4, 5, 6, 7, 8, 9, 10, 11, 16, 17, 18, 19, 20, 21, 22, 23, 24, 25] (s25.take 11) = none :=
  fvpF_none_of_cert 21 [4, 5, 6, 7, 8, 9, 10, 11, 16, 17, 18, 19, 20, 21, 22, 23, 24, 25] (s25.take 11) 52093862775067432915339799377759154892496328802647501818771932469147856570011558160871615921049495823223737530729185009427508054389466554648336570770069185702047636124309357634652737338572467015998876782475994177381179666287046753343504384 bridge25_11
    [4, 5, 6, 7, 8, 9, 10, 11] [[16], [17], [18], [19], [20], [21], [22], [23], [24]]
    (by decide) (by decide) (by decide) (by decide) (by decide) (by decide)
    (by decide) (by decide)

theorem n25_11_d2 : fvpF 22 [3, 4, 5, 6, 7, 8, 9, 10, 11, 15, 16, 17, 18, 19, 20, 21, 22, 23, 24, 25] (s25.take 11) = some [(3, 18), (4, 19), (5, 16), (6, 17), (7, 22), (8, 21), (9, 20), (10, 24), (11, 25), (15, 23)] :=
  (Eq.trans (fvpF_succ 21 [3, 4, 5, 6, 7, 8, 9, 10, 11, 15, 16, 17, 18, 19, 20, 21, 22, 23, 24, 25] (s25.take 11) (by decide))
  (Eq.trans (Eq.trans (Eq.trans (Eq.trans (Eq.trans (Eq.trans (tryRange_skipAll 21 [3, 4, 5, 6, 7, 8, 9, 10, 11, 15, 16, 17, 18, 19, 20, 21, 22, 23, 24, 25] (s25.take 11) 52093862775067432915339799377759154892496328802647501818771932469147856570011558160871615921049495823223737530729185009427508054389466554648336570770069185702047636124309357634652737338572467015998876782475994177381179666287046753343504384 bridge25_11
    (by decide) 1 4 15 (by decide))
  (tryRange_fail 21 [3, 4, 5, 6, 7, 8, 9, 10, 11, 15, 16, 17, 18, 19, 20, 21, 22, 23, 24, 25] (s25.take 11) 5 14
    ((bridge25_11 (([3, 4, 5, 6, 7, 8, 9, 10, 11, 15, 16, 17, 18, 19, 20, 21, 22, 23, 24, 25] : List Nat).getD 0 0) (([3, 4, 5, 6, 7, 8, 9, 10, 11, 15, 16, 17, 18, 19, 20, 21, 22, 23, 24, 25] : List Nat).getD 5 0)
      (by decide) (by decide)).trans (by decide))
    c25_11_20))
  (tryRange_fail 21 [3, 4, 5, 6, 7, 8, 9, 10, 11, 15, 16, 17, 18, 19, 20, 21, 22, 23, 24, 25] (s25.take 11) 6 13
    ((bridge25_11 (([3, 4, 5, 6, 7, 8, 9, 10, 11, 15, 16, 17, 18, 19, 20, 21, 22, 23, 24, 25] : List Nat).getD 0 0) (([3, 4, 5, 6, 7, 8, 9, 10, 11, 15, 16, 17, 18, 19, 20, 21, 22, 23, 24, 25] : List Nat).getD 6 0)
      (by decide) (by decide)).trans (by decide))
    c25_11_21))
  (tryRange_skipAll 21 [3, 4, 5, 6, 7, 8, 9, 10, 11, 15, 16, 17, 18, 19, 20, 21, 22, 23, 24, 25] (s25.take 11) 52093862775067432915339799377759154892496328802647501818771932469147856570011558160871615921049495823223737530729185009427508054389466554648336570770069185702047636124309357634652737338572467015998876782475994177381179666287046753343504384 bridge25_11
    (by decide) 7 2 11 (by decide)))
  (tryRange_fail 21 [3, 4, 5, 6, 7, 8, 9, 10, 11, 15, 16, 17, 18, 19, 20, 21, 22, 23, 24, 25] (s25.take 11) 9 10
    ((bridge25_11 (([3, 4, 5, 6, 7, 8, 9, 10, 11, 15, 16, 17, 18, 19, 20, 21, 22, 23, 24, 25] : List Nat).getD 0 0) (([3, 4, 5, 6, 7, 8, 9, 10, 11, 15, 16, 17, 18, 19, 20, 21, 22, 23, 24, 25] : List Nat).getD 9 0)
      (by decide) (by decide)).trans (by decide))
    c25_11_22))
  (tryRange_skipAll 21 [3, 4, 5, 6, 7, 8, 9, 10, 11, 15, 16, 17, 18, 19, 20, 21, 22, 23, 24, 25] (s25.take 11) 52093862775067432915339799377759154892496328802647501818771932469147856570011558160871615921049495823223737530729185009427508054389466554648336570770069185702047636124309357634652737338572467015998876782475994177381179666287046753343504384 bridge25_11
    (by decide) 10 2 8 (by decide)))
  (tryRange_hit 21 [3, 4, 5, 6, 7, 8, 9, 10, 11, 15, 16, 17, 18, 19, 20, 21, 22, 23, 24, 25] (s25.take 11) 12 7 [(4, 19), (5, 16), (6, 17), (7, 22), (8, 21), (9, 20), (10, 24), (11, 25), (15, 23)]
    ((bridge25_11 (([3, 4, 5, 6, 7, 8, 9, 10, 11, 15, 16, 17, 18, 19, 20, 21, 22, 23, 24, 25] : List Nat).getD 0 0) (([3, 4, 5, 6, 7, 8, 9, 10, 11, 15, 16, 17, 18, 19, 20, 21, 22, 23, 24, 25] : List Nat).getD 12 0)
      (by decide) (by decide)).trans (by decide))
    n25_11_d3)))

theorem n25_11_d1 : fvpF 23 [2, 3, 4, 5, 6, 7, 8, 9, 10, 11, 14, 15, 16, 17, 18, 19, 20, 21, 22, 23, 24, 25] (s25.take 11) = some [(2, 14), (3, 18), (4, 19), (5, 16), (6, 17), (7, 22), (8, 21), (9, 20), (10, 24), (11, 25), (15, 23)] :=
  (Eq.trans (fvpF_succ 22 [2, 3, 4, 5, 6, 7, 8, 9, 10, 11, 14, 15, 16, 17, 18, 19, 20, 21, 22, 23, 24, 25] (s25.take 11) (by decide))
  (Eq.trans (tryRange_skipAll 22 [2, 3, 4, 5, 6, 7, 8, 9, 10, 11, 14, 15, 16, 17, 18, 19, 20, 21, 22, 23, 24, 25] (s25.take 11) 52093862775067432915339799377759154892496328802647501818771932469147856570011558160871615921049495823223737530729185009427508054389466554648336570770069185702047636124309357634652737338572467015998876782475994177381179666287046753343504384 bridge25_11
    (by decide) 1 9 12 (by decide))
  (tryRange_hit 22 [2, 3, 4, 5, 6, 7, 8, 9, 10, 11, 14, 15, 16, 17, 18, 19, 20, 21, 22, 23, 24, 25] (s25.take 11) 10 11 [(3, 18), (4, 19), (5, 16), (6, 17), (7, 22), (8, 21), (9, 20), (10, 24), (11, 25), (15, 23)]
    ((bridge25_11 (([2, 3, 4, 5, 6, 7, 8, 9, 10, 11, 14, 15, 16, 17, 18, 19, 20, 21, 22, 23, 24, 25] : List Nat).getD 0 0) (([2, 3, 4, 5, 6, 7, 8, 9, 10, 11, 14, 15, 16, 17, 18, 19, 20, 21, 22, 23, 24, 25] : List Nat).getD 10 0)
      (by decide) (by decide)).trans (by decide))
    n25_11_d2)))

theorem n25_11_d0 : fvpF 24 [1, 2, 3, 4, 5, 6, 7, 8, 9, 10, 11, 13, 14, 15, 16, 17, 18, 19, 20, 21, 22, 23, 24, 25] (s25.take 11) = some [(1, 13), (2, 14), (3, 18), (4, 19), (5, 16), (6, 17), (7, 22), (8, 21), (9, 20), (10, 24), (11, 25), (15, 23)] :=
  (Eq.trans (fvpF_succ 23 [1, 2, 3, 4, 5, 6, 7, 8, 9, 10, 11, 13, 14, 15, 16, 17, 18, 19, 20, 21, 22, 23, 24, 25] (s25.take 11) (by decide))
  (Eq.trans (tryRange_skipAll 23 [1, 2, 3, 4, 5, 6, 7, 8, 9, 10, 11, 13, 14, 15, 16, 17, 18, 19, 20, 21, 22, 23, 24, 25] (s25.take 11) 52093862775067432915339799377759154892496328802647501818771932469147856570011558160871615921049495823223737530729185009427508054389466554648336570770069185702047636124309357634652737338572467015998876782475994177381179666287046753343504384 bridge25_11
    (by decide) 1 10 13 (by decide))
  (tryRange_hit 23 [1, 2, 3, 4, 5, 6, 7, 8, 9, 10, 11, 13, 14, 15, 16, 17, 18, 19, 20, 21, 22, 23, 24, 25] (s25.take 11) 11 12 [(2, 14), (3, 18), (4, 19), (5, 16), (6, 17), (7, 22), (8, 21), (9, 20), (10, 24), (11, 25), (15, 23)]
    ((bridge25_11 (([1, 2, 3, 4, 5, 6, 7, 8, 9, 10, 11, 13, 14, 15, 16, 17, 18, 19, 20, 21, 22, 23, 24, 25] : List Nat).getD 0 0) (([1, 2, 3, 4, 5, 6, 7, 8, 9, 10, 11, 13, 14, 15, 16, 17, 18, 19, 20, 21, 22, 23, 24, 25] : List Nat).getD 11 0)
      (by decide) (by decide)).trans (by decide))
    n25_11_d1)))

theorem fvp25_11 : findValidPairs [1, 2, 3, 4, 5, 6, 7, 8, 9, 10, 11, 13, 14, 15, 16, 17, 18, 19, 20, 21, 22, 23, 24, 25] (s25.take 11) = some [(1, 13), (2, 14), (3, 18), (4, 19), (5, 16), (6, 17), (7, 22), (8, 21), (9, 20), (10, 24), (11, 25), (15, 23)] := n25_11_d0

theorem n25_12_d11 : fvpF 13 [14, 21] (s25.take 12) = some [(14, 21)] :=
  (Eq.trans (fvpF_succ 12 [14, 21] (s25.take 12) (by decide))
  (tryRange_hit 12 [14, 21] (s25.take 12) 1 0 []
    ((bridge25_12 (([14, 21] : List Nat).getD 0 0) (([14, 21] : List Nat).getD 1 0)
      (by decide) (by decide)).trans (by decide))
    (fvpF_nil 12 (s25.take 12))))

theorem n25_12_d10 : fvpF 14 [11, 14, 20, 21] (s25.take 12) = some [(11, 20), (14, 21)] :=
  (Eq.trans (fvpF_succ 13 [11, 14, 20, 21] (s25.take 12) (by decide))
  (Eq.trans (tryRange_skipAll 13 [11, 14, 20, 21] (s25.take 12) 52093862775067432915339799377759154892496328802647501818771932469147856570011558160871642108174358992358697636246759630220726095354008344334437158397363316247940264527336366497394290626467649327886181169535359177456555953378047691228971008 bridge25_12
    (by decide) 1 1 2 (by decide))
  (tryRange_hit 13 [11, 14, 20, 21] (s25.take 12) 2 1 [(14, 21)]
    ((bridge25_12 (([11, 14, 20, 21] : List Nat).getD 0 0) (([11, 14, 20, 21] : List Nat).getD 2 0)
      (by decide) (by decide)).trans (by decide))
    n25_12_d11)))

theorem c25_12_0 : fvpF 14 [11, 14, 21, 25] (s25.take 12) = none :=
  fvpF_none_of_cert 14 [11, 14, 21, 25] (s25.take 12) 52093862775067432915339799377759154892496328802647501818771932469147856570011558160871642108174358992358697636246759630220726095354008344334437158397363316247940264527336366497394290626467649327886181169535359177456555953378047691228971008 bridge25_12
    [] [[11, 14, 21]]
    (by decide) (by decide) (by decide) (by decide) (by decide) (by decide)
    (by decide) (by decide)

theorem c25_12_1 : fvpF 14 [11, 14, 20, 25] (s25.take 12) = none :=
  fvpF_none_of_cert 14 [11, 14, 20, 25] (s25.take 12) 52093862775067432915339799377759154892496328802647501818771932469147856570011558160871642108174358992358697636246759630220726095354008344334437158397363316247940264527336366497394290626467649327886181169535359177456555953378047691228971008 bridge25_12
    [] [[11, 14, 20]]
    (by decide) (by decide) (by decide) (by decide) (by decide) (by decide)
    (by decide) (by decide)

theorem n25_12_d9 : fvpF 15 [10, 11, 14, 20, 21, 25] (s25.take 12) = some [(10, 25), (11, 20), (14, 21)] :=
  (Eq.trans (fvpF_succ 14 [10, 11, 14, 20, 21, 25] (s25.take 12) (by decide))
  (Eq.trans (Eq.trans (Eq.trans (tryRange_skipAll 14 [10, 11, 14, 20, 21, 25] (s25.take 12) 52093862775067432915339799377759154892496328802647501818771932469147856570011558160871642108174358992358697636246759630220726095354008344334437158397363316247940264527336366497394290626467649327886181169535359177456555953378047691228971008 bridge25_12
    (by decide) 1 2 3 (by decide))
  (tryRange_fail 14 [10, 11, 14, 20, 21, 25] (s25.take 12) 3 2
    ((bridge25_12 (([10, 11, 14, 20, 21, 25] : List Nat).getD 0 0) (([10, 11, 14, 20, 21, 25] : List Nat).getD 3 0)
      (by decide) (by decide)).trans (by decide))
    c25_12_0))
  (tryRange_fail 14 [10, 11, 14, 20, 21, 25] (s25.take 12) 4 1
    ((bridge25_12 (([10, 11, 14, 20, 21, 25] : List Nat).getD 0 0) (([10, 11, 14, 20, 21, 25] : List Nat).getD 4 0)
      (by decide) (by decide)).trans (by decide))
    c25_12_1))
  (tryRange_hit 14 [10, 11, 14, 20, 21, 25] (s25.take 12) 5 0 [(11, 20), (14, 21)]
    ((bridge25_12 (([10, 11, 14, 20, 21, 25] : List Nat).getD 0 0) (([10, 11, 14, 20, 21, 25] : List Nat).getD 5 0)
      (by decide) (by decide)).trans (by decide))
    n25_12_d10)))

theorem n25_12_d8 : fvpF 16 [9, 10, 11, 14, 20, 21, 24, 25] (s25.take 12) = some [(9, 24), (10, 25), (11, 20), (14, 21)] :=
  (Eq.trans (fvpF_succ 15 [9, 10, 11, 14, 20, 21, 24, 25] (s25.take 12) (by decide))
  (Eq.trans (tryRange_skipAll 15 [9, 10, 11, 14, 20, 21, 24, 25] (s25.take 12) 52093862775067432915339799377759154892496328802647501818771932469147856570011558160871642108174358992358697636246759630220726095354008344334437158397363316247940264527336366497394290626467649327886181169535359177456555953378047691228971008 bridge25_12
    (by decide) 1 5 2 (by decide))
  (tryRange_hit 15 [9, 10, 11, 14, 20, 21, 24, 25] (s25.take 12) 6 1 [(10, 25), (11, 20), (14, 21)]
    ((bridge25_12 (([9, 10, 11, 14, 20, 21, 24, 25] : List Nat).getD 0 0) (([9, 10, 11, 14, 20, 21, 24, 25] : List Nat).getD 6 0)
      (by decide) (by decide)).trans (by decide))
    n25_12_d9)))

theorem n25_12_d7 : fvpF 17 [8, 9, 10, 11, 14, 20, 21, 22, 24, 25] (s25.take 12) = some [(8, 22), (9, 24), (10, 25), (11, 20), (14, 21)] :=
  (Eq.trans (fvpF_succ 16 [8, 9, 10, 11, 14, 20, 21, 22, 24, 25] (s25.take 12) (by decide))
  (Eq.trans (tryRange_skipAll 16 [8, 9, 10, 11, 14, 20, 21, 22, 24, 25] (s25.take 12) 52093862775067432915339799377759154892496328802647501818771932469147856570011558160871642108174358992358697636246759630220726095354008344334437158397363316247940264527336366497394290626467649327886181169535359177456555953378047691228971008 bridge25_12
    (by decide) 1 6 3 (by decide))
  (tryRange_hit 16 [8, 9, 10, 11, 14, 20, 21, 22, 24, 25] (s25.take 12) 7 2 [(9, 24), (10, 25), (11, 20), (14, 21)]
    ((bridge25_12 (([8, 9, 10, 11, 14, 20, 21, 22, 24, 25] : List Nat).getD 0 0) (([8, 9, 10, 11, 14, 20, 21, 22, 24, 25] : List Nat).getD 7 0)
      (by decide) (by decide)).trans (by decide))
    n25_12_d8)))

theorem c25_12_2 : fvpF 17 [9, 10, 11, 14, 20, 21, 22, 23, 24, 25] (s25.take 12) = none :=
  fvpF_none_of_cert 17 [9, 10, 11, 14, 20, 21, 22, 23, 24, 25] (s25.take 12) 52093862775067432915339799377759154892496328802647501818771932469147856570011558160871642108174358992358697636246759630220726095354008344334437158397363316247940264527336366497394290626467649327886181169535359177456555953378047691228971008 bridge25_12
    [9, 10, 11, 14] [[20], [21], [22], [23], [24]]
    (by decide) (by decide) (by decide) (by decide) (by decide) (by decide)
    (by decide) (by decide)

theorem c25_12_3 : fvpF 17 [8, 10, 11, 14, 20, 21, 22, 23, 24, 25] (s25.take 12) = none :=
  fvpF_none_of_cert 17 [8, 10, 11, 14, 20, 21, 22, 23, 24, 25] (s25.take 12) 52093862775067432915339799377759154892496328802647501818771932469147856570011558160871642108174358992358697636246759630220726095354008344334437158397363316247940264527336366497394290626467649327886181169535359177456555953378047691228971008 bridge25_12
    [8, 10, 11, 14] [[20], [21], [22], [23], [24]]
    (by decide) (by decide) (by decide) (by decide) (by decide) (by decide)
    (by decide) (by decide)

theorem c25_12_4 : fvpF 17 [8, 9, 11, 14, 20, 21, 22, 23, 24, 25] (s25.take 12) = none :=
  fvpF_none_of_cert 17 [8, 9, 11, 14, 20, 21, 22, 23, 24, 25] (s25.take 12) 52093862775067432915339799377759154892496328802647501818771932469147856570011558160871642108174358992358697636246759630220726095354008344334437158397363316247940264527336366497394290626467649327886181169535359177456555953378047691228971008 bridge25_12
    [8, 9, 11, 14] [[20], [21], [22], [23], [24]]
    (by decide) (by decide) (by decide) (by decide) (by decide) (by decide)
    (by decide) (by decide)

theorem c25_12_5 : fvpF 17 [8, 9, 10, 14, 20, 21, 22, 23, 24, 25] (s25.take 12) = none :=
  fvpF_none_of_cert 17 [8, 9, 10, 14, 20, 21, 22, 23, 24, 25] (s25.take 12) 52093862775067432915339799377759154892496328802647501818771932469147856570011558160871642108174358992358697636246759630220726095354008344334437158397363316247940264527336366497394290626467649327886181169535359177456555953378047691228971008 bridge25_12
    [8, 9, 10, 14] [[20], [21], [22], [23], [24]]
    (by decide) (by decide) (by decide) (by decide) (by decide) (by decide)
    (by decide) (by decide)

theorem n25_12_d6 : fvpF 18 [7, 8, 9, 10, 11, 14, 20, 21, 22, 23, 24, 25] (s25.take 12) = some [(7, 23), (8, 22), (9, 24), (10, 25), (11, 20), (14, 21)] :=
  (Eq.trans (fvpF_succ 17 [7, 8, 9, 10, 11, 14, 20, 21, 22, 23, 24, 25] (s25.take 12) (by decide))
  (Eq.trans (Eq.trans (Eq.trans (Eq.trans (Eq.trans (tryRange_fail 17 [7, 8, 9, 10, 11, 14, 20, 21, 22, 23, 24, 25] (s25.take 12) 1 10
    ((bridge25_12 (([7, 8, 9, 10, 11, 14, 20, 21, 22, 23, 24, 25] : List Nat).getD 0 0) (([7, 8, 9, 10, 11, 14, 20, 21, 22, 23, 24, 25] : List Nat).getD 1 0)
      (by decide) (by decide)).trans (by decide))
    c25_12_2)
  (tryRange_fail 17 [7, 8, 9, 10, 11, 14, 20, 21, 22, 23, 24, 25] (s25.take 12) 2 9
    ((bridge25_12 (([7, 8, 9, 10, 11, 14, 20, 21, 22, 23, 24, 25] : List Nat).getD 0 0) (([7, 8, 9, 10, 11, 14, 20, 21, 22, 23, 24, 25] : List Nat).getD 2 0)
      (by decide) (by decide)).trans (by decide))
    c25_12_3))
  (tryRange_fail 17 [7, 8, 9, 10, 11, 14, 20, 21, 22, 23, 24, 25] (s25.take 12) 3 8
    ((bridge25_12 (([7, 8, 9, 10, 11, 14, 20, 21, 22, 23, 24, 25] : List Nat).getD 0 0) (([7, 8, 9, 10, 11, 14, 20, 21, 22, 23, 24, 25] : List Nat).getD 3 0)
      (by decide) (by decide)).trans (by decide))
    c25_12_4))
  (tryRange_fail 17 [7, 8, 9, 10, 11, 14, 20, 21, 22, 23, 24, 25] (s25.take 12) 4 7
    ((bridge25_12 (([7, 8, 9, 10, 11, 14, 20, 21, 22, 23, 24, 25] : List Nat).getD 0 0) (([7, 8, 9, 10, 11, 14, 20, 21, 22, 23, 24, 25] : List Nat).getD 4 0)
      (by decide) (by decide)).trans (by decide))
    c25_12_5))
  (tryRange_skipAll 17 [7, 8, 9, 10, 11, 14, 20, 21, 22, 23, 24, 25] (s25.take 12) 52093862775067432915339799377759154892496328802647501818771932469147856570011558160871642108174358992358697636246759630220726095354008344334437158397363316247940264527336366497394290626467649327886181169535359177456555953378047691228971008 bridge25_12
    (by decide) 5 4 3 (by decide)))
  (tryRange_hit 17 [7, 8, 9, 10, 11, 14, 20, 21, 22, 23, 24, 25] (s25.take 12) 9 2 [(8, 22), (9, 24), (10, 25), (11, 20), (14, 21)]
    ((bridge25_12 (([7, 8, 9, 10, 11, 14, 20, 21, 22, 23, 24, 25] : List Nat).getD 0 0) (([7, 8, 9, 10, 11, 14, 20, 21, 22, 23, 24, 25] : List Nat).getD 9 0)
      (by decide) (by decide)).trans (by decide))
    n25_12_d7)))

theorem c25_12_6 : fvpF 18 [7, 9, 10, 11, 14, 16, 20, 21, 22, 23, 24, 25] (s25.take 12) = none :=
  fvpF_none_of_cert 18 [7, 9, 10, 11, 14, 16, 20, 21, 22, 23, 24, 25] (s25.take 12) 52093862775067432915339799377759154892496328802647501818771932469147856570011558160871642108174358992358697636246759630220726095354008344334437158397363316247940264527336366497394290626467649327886181169535359177456555953378047691228971008 bridge25_12
    [7, 9, 10, 11, 14] [[16], [20], [21], [22], [23], [24]]
    (by decide) (by decide) (by decide) (by decide) (by decide) (by decide)
    (by decide) (by decide)

theorem c25_12_7 : fvpF 18 [7, 8, 10, 11, 14, 16, 20, 21, 22, 23, 24, 25] (s25.take 12) = none :=
  fvpF_none_of_cert 18 [7, 8, 10, 11, 14, 16, 20, 21, 22, 23, 24, 25] (s25.take 12) 52093862775067432915339799377759154892496328802647501818771932469147856570011558160871642108174358992358697636246759630220726095354008344334437158397363316247940264527336366497394290626467649327886181169535359177456555953378047691228971008 bridge25_12
    [7, 8, 10, 11, 14] [[16], [20], [21], [22], [23], [24]]
    (by decide) (by decide) (by decide) (by decide) (by decide) (by decide)
    (by decide) (by decide)

theorem c25_12_8 : fvpF 18 [7, 8, 9, 11, 14, 16, 20, 21, 22, 23, 24, 25] (s25.take 12) = none :=
  fvpF_none_of_cert 18 [7, 8, 9, 11, 14, 16, 20, 21, 22, 23, 24, 25] (s25.take 12) 52093862775067432915339799377759154892496328802647501818771932469147856570011558160871642108174358992358697636246759630220726095354008344334437158397363316247940264527336366497394290626467649327886181169535359177456555953378047691228971008 bridge25_12
    [7, 8, 9, 11, 14] [[16], [20], [21], [22], [23], [24]]
    (by decide) (by decide) (by decide) (by decide) (by decide) (by decide)
    (by decide) (by decide)

theorem c25_12_9 : fvpF 18 [7, 8, 9, 10, 14, 16, 20, 21, 22, 23, 24, 25] (s25.take 12) = none :=
  fvpF_none_of_cert 18 [7, 8, 9, 10, 14, 16, 20, 21, 22, 23, 24, 25] (s25.take 12) 52093862775067432915339799377759154892496328802647501818771932469147856570011558160871642108174358992358697636246759630220726095354008344334437158397363316247940264527336366497394290626467649327886181169535359177456555953378047691228971008 bridge25_12
    [7, 8, 9, 10, 14] [[16], [20], [21], [22], [23], [24]]
    (by decide) (by decide) (by decide) (by decide) (by decide) (by decide)
    (by decide) (by decide)

theorem n25_12_d5 : fvpF 19 [6, 7, 8, 9, 10, 11, 14, 16, 20, 21, 22, 23, 24, 25] (s25.take 12) = some [(6, 16), (7, 23), (8, 22), (9, 24), (10, 25), (11, 20), (14, 21)] :=
  (Eq.trans (fvpF_succ 18 [6, 7, 8, 9, 10, 11, 14, 16, 20, 21, 22, 23, 24, 25] (s25.take 12) (by decide))
  (Eq.trans (Eq.trans (Eq.trans (Eq.trans (Eq.trans (Eq.trans (tryRange_skipAll 18 [6, 7, 8, 9, 10, 11, 14, 16, 20, 21, 22, 23, 24, 25] (s25.take 12) 52093862775067432915339799377759154892496328802647501818771932469147856570011558160871642108174358992358697636246759630220726095354008344334437158397363316247940264527336366497394290626467649327886181169535359177456555953378047691228971008 bridge25_12
    (by decide) 1 1 12 (by decide))
  (tryRange_fail 18 [6, 7, 8, 9, 10, 11, 14, 16, 20, 21, 22, 23, 24, 25] (s25.take 12) 2 11
    ((bridge25_12 (([6, 7, 8, 9, 10, 11, 14, 16, 20, 21, 22, 23, 24, 25] : List Nat).getD 0 0) (([6, 7, 8, 9, 10, 11, 14, 16, 20, 21, 22, 23, 24, 25] : List Nat).getD 2 0)
      (by decide) (by decide)).trans (by decide))
    c25_12_6))
  (tryRange_fail 18 [6, 7, 8, 9, 10, 11, 14, 16, 20, 21, 22, 23, 24, 25] (s25.take 12) 3 10
    ((bridge25_12 (([6, 7, 8, 9, 10, 11, 14, 16, 20, 21, 22, 23, 24, 25] : List Nat).getD 0 0) (([6, 7, 8, 9, 10, 11, 14, 16, 20, 21, 22, 23, 24, 25] : List Nat).getD 3 0)
      (by decide) (by decide)).trans (by decide))
    c25_12_7))
  (tryRange_fail 18 [6, 7, 8, 9, 10, 11, 14, 16, 20, 21, 22, 23, 24, 25] (s25.take 12) 4 9
    ((bridge25_12 (([6, 7, 8, 9, 10, 11, 14, 16, 20, 21, 22, 23, 24, 25] : List Nat).getD 0 0) (([6, 7, 8, 9, 10, 11, 14, 16, 20, 21, 22, 23, 24, 25] : List Nat).getD 4 0)
      (by decide) (by decide)).trans (by decide))
    c25_12_8))
  (tryRange_fail 18 [6, 7, 8, 9, 10, 11, 14, 16, 20, 21, 22, 23, 24, 25] (s25.take 12) 5 8
    ((bridge25_12 (([6, 7, 8, 9, 10, 11, 14, 16, 20, 21, 22, 23, 24, 25] : List Nat).getD 0 0) (([6, 7, 8, 9, 10, 11, 14, 16, 20, 21, 22, 23, 24, 25] : List Nat).getD 5 0)
      (by decide) (by decide)).trans (by decide))
    c25_12_9))
  (tryRange_skipAll 18 [6, 7, 8, 9, 10, 11, 14, 16, 20, 21, 22, 23, 24, 25] (s25.take 12) 52093862775067432915339799377759154892496328802647501818771932469147856570011558160871642108174358992358697636246759630220726095354008344334437158397363316247940264527336366497394290626467649327886181169535359177456555953378047691228971008 bridge25_12
    (by decide) 6 1 7 (by decide)))
  (tryRange_hit 18 [6, 7, 8, 9, 10, 11, 14, 16, 20, 21, 22, 23, 24, 25] (s25.take 12) 7 6 [(7, 23), (8, 22), (9, 24), (10, 25), (11, 20), (14, 21)]
    ((bridge25_12 (([6, 7, 8, 9, 10, 11, 14, 16, 20, 21, 22, 23, 24, 25] : List Nat).getD 0 0) (([6, 7, 8, 9, 10, 11, 14, 16, 20, 21, 22, 23, 24, 25] : List Nat).getD 7 0)
      (by decide) (by decide)).trans (by decide))
    n25_12_d6)))

theorem c25_12_10 : fvpF 19 [6, 7, 9, 10, 11, 14, 16, 17, 20, 21, 22, 23, 24, 25] (s25.take 12) = none :=
  fvpF_none_of_cert 19 [6, 7, 9, 10, 11, 14, 16, 17, 20, 21, 22, 23, 24, 25] (s25.take 12) 52093862775067432915339799377759154892496328802647501818771932469147856570011558160871642108174358992358697636246759630220726095354008344334437158397363316247940264527336366497394290626467649327886181169535359177456555953378047691228971008 bridge25_12
    [6, 7, 9, 10, 11, 14] [[16], [17], [20], [21], [22], [23], [24]]
    (by decide) (by decide) (by decide) (by decide) (by decide) (by decide)
    (by decide) (by decide)

theorem c25_12_11 : fvpF 19 [6, 7, 8, 10, 11, 14, 16, 17, 20, 21, 22, 23, 24, 25] (s25.take 12) = none :=
  fvpF_none_of_cert 19 [6, 7, 8, 10, 11, 14, 16, 17, 20, 21, 22, 23, 24, 25] (s25.take 12) 52093862775067432915339799377759154892496328802647501818771932469147856570011558160871642108174358992358697636246759630220726095354008344334437158397363316247940264527336366497394290626467649327886181169535359177456555953378047691228971008 bridge25_12
    [6, 7, 8, 10, 11, 14] [[16], [17], [20], [21], [22], [23], [24]]
    (by decide) (by decide) (by decide) (by decide) (by decide) (by decide)
    (by decide) (by decide)

theorem c25_12_12 : fvpF 19 [6, 7, 8, 9, 11, 14, 16, 17, 20, 21, 22, 23, 24, 25] (s25.take 12) = none :=
  fvpF_none_of_cert 19 [6, 7, 8, 9, 11, 14, 16, 17, 20, 21, 22, 23, 24, 25] (s25.take 12) 52093862775067432915339799377759154892496328802647501818771932469147856570011558160871642108174358992358697636246759630220726095354008344334437158397363316247940264527336366497394290626467649327886181169535359177456555953378047691228971008 bridge25_12
    [6, 7, 8, 9, 11, 14] [[16], [17], [20], [21], [22], [23], [24]]
    (by decide) (by decide) (by decide) (by decide) (by decide) (by decide)
    (by decide) (by decide)

theorem c25_12_13 : fvpF 19 [6, 7, 8, 9, 10, 14, 16, 17, 20, 21, 22, 23, 24, 25] (s25.take 12) = none :=
  fvpF_none_of_cert 19 [6, 7, 8, 9, 10, 14, 16, 17, 20, 21, 22, 23, 24, 25] (s25.take 12) 52093862775067432915339799377759154892496328802647501818771932469147856570011558160871642108174358992358697636246759630220726095354008344334437158397363316247940264527336366497394290626467649327886181169535359177456555953378047691228971008 bridge25_12
    [6, 7, 8, 9, 10, 14] [[16], [17], [20], [21], [22], [23], [24]]
    (by decide) (by decide) (by decide) (by decide) (by decide) (by decide)
    (by decide) (by decide)

theorem c25_12_14 : fvpF 19 [6, 7, 8, 9, 10, 11, 16, 17, 20, 21, 22, 23, 24, 25] (s25.take 12) = none :=
  fvpF_none_of_cert 19 [6, 7, 8, 9, 10, 11, 16, 17, 20, 21, 22, 23, 24, 25] (s25.take 12) 52093862775067432915339799377759154892496328802647501818771932469147856570011558160871642108174358992358697636246759630220726095354008344334437158397363316247940264527336366497394290626467649327886181169535359177456555953378047691228971008 bridge25_12
    [6, 7, 8, 9, 10, 11] [[16], [17], [20], [21], [22], [23], [24]]
    (by decide) (by decide) (by decide) (by decide) (by decide) (by decide)
    (by decide) (by decide)

theorem n25_12_d4 : fvpF 20 [5, 6, 7, 8, 9, 10, 11, 14, 16, 17, 20, 21, 22, 23, 24, 25] (s25.take 12) = some [(5, 17), (6, 16), (7, 23), (8, 22), (9, 24), (10, 25), (11, 20), (14, 21)] :=
  (Eq.trans (fvpF_succ 19 [5, 6, 7, 8, 9, 10, 11, 14, 16, 17, 20, 21, 22, 23, 24, 25] (s25.take 12) (by decide))
  (Eq.trans (Eq.trans (Eq.trans (Eq.trans (Eq.trans (Eq.trans (Eq.trans (tryRange_skipAll 19 [5, 6, 7, 8, 9, 10, 11, 14, 16, 17, 20, 21, 22, 23, 24, 25] (s25.take 12) 52093862775067432915339799377759154892496328802647501818771932469147856570011558160871642108174358992358697636246759630220726095354008344334437158397363316247940264527336366497394290626467649327886181169535359177456555953378047691228971008 bridge25_12
    (by decide) 1 2 13 (by decide))
  (tryRange_fail 19 [5, 6, 7, 8, 9, 10, 11, 14, 16, 17, 20, 21, 22, 23, 24, 25] (s25.take 12) 3 12
    ((bridge25_12 (([5, 6, 7, 8, 9, 10, 11, 14, 16, 17, 20, 21, 22, 23, 24, 25] : List Nat).getD 0 0) (([5, 6, 7, 8, 9, 10, 11, 14, 16, 17, 20, 21, 22, 23, 24, 25] : List Nat).getD 3 0)
      (by decide) (by decide)).trans (by decide))
    c25_12_10))
  (tryRange_fail 19 [5, 6, 7, 8, 9, 10, 11, 14, 16, 17, 20, 21, 22, 23, 24, 25] (s25.take 12) 4 11
    ((bridge25_12 (([5, 6, 7, 8, 9, 10, 11, 14, 16, 17, 20, 21, 22, 23, 24, 25] : List Nat).getD 0 0) (([5, 6, 7, 8, 9, 10, 11, 14, 16, 17, 20, 21, 22, 23, 24, 25] : List Nat).getD 4 0)
      (by decide) (by decide)).trans (by decide))
    c25_12_11))
  (tryRange_fail 19 [5, 6, 7, 8, 9, 10, 11, 14, 16, 17, 20, 21, 22, 23, 24, 25] (s25.take 12) 5 10
    ((bridge25_12 (([5, 6, 7, 8, 9, 10, 11, 14, 16, 17, 20, 21, 22, 23, 24, 25] : List Nat).getD 0 0) (([5, 6, 7, 8, 9, 10, 11, 14, 16, 17, 20, 21, 22, 23, 24, 25] : List Nat).getD 5 0)
      (by decide) (by decide)).trans (by decide))
    c25_12_12))
  (tryRange_fail 19 [5, 6, 7, 8, 9, 10, 11, 14, 16, 17, 20, 21, 22, 23, 24, 25] (s25.take 12) 6 9
    ((bridge25_12 (([5, 6, 7, 8, 9, 10, 11, 14, 16, 17, 20, 21, 22, 23, 24, 25] : List Nat).getD 0 0) (([5, 6, 7, 8, 9, 10, 11, 14, 16, 17, 20, 21, 22, 23, 24, 25] : List Nat).getD 6 0)
      (by decide) (by decide)).trans (by decide))
    c25_12_13))
  (tryRange_fail 19 [5, 6, 7, 8, 9, 10, 11, 14, 16, 17, 20, 21, 22, 23, 24, 25] (s25.take 12) 7 8
    ((bridge25_12 (([5, 6, 7, 8, 9, 10, 11, 14, 16, 17, 20, 21, 22, 23, 24, 25] : List Nat).getD 0 0) (([5, 6, 7, 8, 9, 10, 11, 14, 16, 17, 20, 21, 22, 23, 24, 25] : List Nat).getD 7 0)
      (by decide) (by decide)).trans (by decide))
    c25_12_14))
  (tryRange_skipAll 19 [5, 6, 7, 8, 9, 10, 11, 14, 16, 17, 20, 21, 22, 23, 24, 25] (s25.take 12) 52093862775067432915339799377759154892496328802647501818771932469147856570011558160871642108174358992358697636246759630220726095354008344334437158397363316247940264527336366497394290626467649327886181169535359177456555953378047691228971008 bridge25_12
    (by decide) 8 1 7 (by decide)))
  (tryRange_hit 19 [5, 6, 7, 8, 9, 10, 11, 14, 16, 17, 20, 21, 22, 23, 24, 25] (s25.take 12) 9 6 [(6, 16), (7, 23), (8, 22), (9, 24), (10, 25), (11, 20), (14, 21)]
    ((bridge25_12 (([5, 6, 7, 8, 9, 10, 11, 14, 16, 17, 20, 21, 22, 23, 24, 25] : List Nat).getD 0 0) (([5, 6, 7, 8, 9, 10, 11, 14, 16, 17, 20, 21, 22, 23, 24, 25] : List Nat).getD 9 0)
      (by decide) (by decide)).trans (by decide))
    n25_12_d5)))

theorem c25_12_15 : fvpF 20 [5, 6, 7, 9, 10, 11, 14, 16, 17, 18, 20, 21, 22, 23, 24, 25] (s25.take 12) = none :=
  fvpF_none_of_cert 20 [5, 6, 7, 9, 10, 11, 14, 16, 17, 18, 20, 21, 22, 23, 24, 25] (s25.take 12) 52093862775067432915339799377759154892496328802647501818771932469147856570011558160871642108174358992358697636246759630220726095354008344334437158397363316247940264527336366497394290626467649327886181169535359177456555953378047691228971008 bridge25_12
    [5, 6, 7, 9, 10, 11, 14] [[16], [17], [18], [20], [21], [22], [23], [24]]
    (by decide) (by decide) (by decide) (by decide) (by decide) (by decide)
    (by decide) (by decide)

theorem c25_12_16 : fvpF 20 [5, 6, 7, 8, 10, 11, 14, 16, 17, 18, 20, 21, 22, 23, 24, 25] (s25.take 12) = none :=
  fvpF_none_of_cert 20 [5, 6, 7, 8, 10, 11, 14, 16, 17, 18, 20, 21, 22, 23, 24, 25] (s25.take 12) 52093862775067432915339799377759154892496328802647501818771932469147856570011558160871642108174358992358697636246759630220726095354008344334437158397363316247940264527336366497394290626467649327886181169535359177456555953378047691228971008 bridge25_12
    [5, 6, 7, 8, 10, 11, 14] [[16], [17], [18], [20], [21], [22], [23], [24]]
    (by decide) (by decide) (by decide) (by decide) (by decide) (by decide)
    (by decide) (by decide)

theorem c25_12_17 : fvpF 20 [5, 6, 7, 8, 9, 11, 14, 16, 17, 18, 20, 21, 22, 23, 24, 25] (s25.take 12) = none :=
  fvpF_none_of_cert 20 [5, 6, 7, 8, 9, 11, 14, 16, 17, 18, 20, 21, 22, 23, 24, 25] (s25.take 12) 52093862775067432915339799377759154892496328802647501818771932469147856570011558160871642108174358992358697636246759630220726095354008344334437158397363316247940264527336366497394290626467649327886181169535359177456555953378047691228971008 bridge25_12
    [5, 6, 7, 8, 9, 11, 14] [[16], [17], [18], [20], [21], [22], [23], [24]]
    (by decide) (by decide) (by decide) (by decide) (by decide) (by decide)
    (by decide) (by decide)

theorem c25_12_18 : fvpF 20 [5, 6, 7, 8, 9, 10, 14, 16, 17, 18, 20, 21, 22, 23, 24, 25] (s25.take 12) = none :=
  fvpF_none_of_cert 20 [5, 6, 7, 8, 9, 10, 14, 16, 17, 18, 20, 21, 22, 23, 24, 25] (s25.take 12) 52093862775067432915339799377759154892496328802647501818771932469147856570011558160871642108174358992358697636246759630220726095354008344334437158397363316247940264527336366497394290626467649327886181169535359177456555953378047691228971008 bridge25_12
    [5, 6, 7, 8, 9, 10, 14] [[16], [17], [18], [20], [21], [22], [23], [24]]
    (by decide) (by decide) (by decide) (by decide) (by decide) (by decide)
    (by decide) (by decide)

theorem c25_12_19 : fvpF 20 [5, 6, 7, 8, 9, 10, 11, 16, 17, 18, 20, 21, 22, 23, 24, 25] (s25.take 12) = none :=
  fvpF_none_of_cert 20 [5, 6, 7, 8, 9, 10, 11, 16, 17, 18, 20, 21, 22, 23, 24, 25] (s25.take 12) 52093862775067432915339799377759154892496328802647501818771932469147856570011558160871642108174358992358697636246759630220726095354008344334437158397363316247940264527336366497394290626467649327886181169535359177456555953378047691228971008 bridge25_12
    [5, 6, 7, 8, 9, 10, 11] [[16], [17], [18], [20], [21], [22], [23], [24]]
    (by decide) (by decide) (by decide) (by decide) (by decide) (by decide)
    (by decide) (by decide)

theorem n25_12_d3 : fvpF 21 [4, 5, 6, 7, 8, 9, 10, 11, 14, 16, 17, 18, 20, 21, 22, 23, 24, 25] (s25.take 12) = some [(4, 18), (5, 17), (6, 16), (7, 23), (8, 22), (9, 24), (10, 25), (11, 20), (14, 21)] :=
  (Eq.trans (fvpF_succ 20 [4, 5, 6, 7, 8, 9, 10, 11, 14, 16, 17, 18, 20, 21, 22, 23, 24, 25] (s25.take 12) (by decide))
  (Eq.trans (Eq.trans (Eq.trans (Eq.trans (Eq.trans (Eq.trans (Eq.trans (tryRange_skipAll 20 [4, 5, 6, 7, 8, 9, 10, 11, 14, 16, 17, 18, 20, 21, 22, 23, 24, 25] (s25.take 12) 52093862775067432915339799377759154892496328802647501818771932469147856570011558160871642108174358992358697636246759630220726095354008344334437158397363316247940264527336366497394290626467649327886181169535359177456555953378047691228971008 bridge25_12
    (by decide) 1 3 14 (by decide))
  (tryRange_fail 20 [4, 5, 6, 7, 8, 9, 10, 11, 14, 16, 17, 18, 20, 21, 22, 23, 24, 25] (s25.take 12) 4 13
    ((bridge25_12 (([4, 5, 6, 7, 8, 9, 10, 11, 14, 16, 17, 18, 20, 21, 22, 23, 24, 25] : List Nat).getD 0 0) (([4, 5, 6, 7, 8, 9, 10, 11, 14, 16, 17, 18, 20, 21, 22, 23, 24, 25] : List Nat).getD 4 0)
      (by decide) (by decide)).trans (by decide))
    c25_12_15))
  (tryRange_fail 20 [4, 5, 6, 7, 8, 9, 10, 11, 14, 16, 17, 18, 20, 21, 22, 23, 24, 25] (s25.take 12) 5 12
    ((bridge25_12 (([4, 5, 6, 7, 8, 9, 10, 11, 14, 16, 17, 18, 20, 21, 22, 23, 24, 25] : List Nat).getD 0 0) (([4, 5, 6, 7, 8, 9, 10, 11, 14, 16, 17, 18, 20, 21, 22, 23, 24, 25] : List Nat).getD 5 0)
      (by decide) (by decide)).trans (by decide))
    c25_12_16))
  (tryRange_fail 20 [4, 5, 6, 7, 8, 9, 10, 11, 14, 16, 17, 18, 20, 21, 22, 23, 24, 25] (s25.take 12) 6 11
    ((bridge25_12 (([4, 5, 6, 7, 8, 9, 10, 11, 14, 16, 17, 18, 20, 21, 22, 23, 24, 25] : List Nat).getD 0 0) (([4, 5, 6, 7, 8, 9, 10, 11, 14, 16, 17, 18, 20, 21, 22, 23, 24, 25] : List Nat).getD 6 0)
      (by decide) (by decide)).trans (by decide))
    c25_12_17))
  (tryRange_fail 20 [4, 5, 6, 7, 8, 9, 10, 11, 14, 16, 17, 18, 20, 21, 22, 23, 24, 25] (s25.take 12) 7 10
    ((bridge25_12 (([4, 5, 6, 7, 8, 9, 10, 11, 14, 16, 17, 18, 20, 21, 22, 23, 24, 25] : List Nat).getD 0 0) (([4, 5, 6, 7, 8, 9, 10, 11, 14, 16, 17, 18, 20, 21, 22, 23, 24, 25] : List Nat).getD 7 0)
      (by decide) (by decide)).trans (by decide))
    c25_12_18))
  (tryRange_fail 20 [4, 5, 6, 7, 8, 9, 10, 11, 14, 16, 17, 18, 20, 21, 22, 23, 24, 25] (s25.take 12) 8 9
    ((bridge25_12 (([4, 5, 6, 7, 8, 9, 10, 11, 14, 16, 17, 18, 20, 21, 22, 23, 24, 25] : List Nat).getD 0 0) (([4, 5, 6, 7, 8, 9, 10, 11, 14, 16, 17, 18, 20, 21, 22, 23, 24, 25] : List Nat).getD 8 0)
      (by decide) (by decide)).trans (by decide))
    c25_12_19))
  (tryRange_skipAll 20 [4, 5, 6, 7, 8, 9, 10, 11, 14, 16, 17, 18, 20, 21, 22, 23, 24, 25] (s25.take 12) 52093862775067432915339799377759154892496328802647501818771932469147856570011558160871642108174358992358697636246759630220726095354008344334437158397363316247940264527336366497394290626467649327886181169535359177456555953378047691228971008 bridge25_12
    (by decide) 9 2 7 (by decide)))
  (tryRange_hit 20 [4, 5, 6, 7, 8, 9, 10, 11, 14, 16, 17, 18, 20, 21, 22, 23, 24, 25] (s25.take 12) 11 6 [(5, 17), (6, 16), (7, 23), (8, 22), (9, 24), (10, 25), (11, 20), (14, 21)]
    ((bridge25_12 (([4, 5, 6, 7, 8, 9, 10, 11, 14, 16, 17, 18, 20, 21, 22, 23, 24, 25] : List Nat).getD 0 0) (([4, 5, 6, 7, 8, 9, 10, 11, 14, 16, 17, 18, 20, 21, 22, 23, 24, 25] : List Nat).getD 11 0)
      (by decide) (by decide)).trans (by decide))
    n25_12_d4)))

theorem c25_12_20 : fvpF 21 [4, 5, 6, 7, 9, 10, 11, 14, 16, 17, 18, 19, 20, 21, 22, 23, 24, 25] (s25.take 12) = none :=
  fvpF_none_of_cert 21 [4, 5, 6, 7, 9, 10, 11, 14, 16, 17, 18, 19, 20, 21, 22, 23, 24, 25] (s25.take 12) 52093862775067432915339799377759154892496328802647501818771932469147856570011558160871642108174358992358697636246759630220726095354008344334437158397363316247940264527336366497394290626467649327886181169535359177456555953378047691228971008 bridge25_12
    [4, 5, 6, 7, 9, 10, 11, 14] [[16], [17], [18], [19], [20], [21], [22], [23], [24]]
    (by decide) (by decide) (by decide) (by decide) (by decide) (by decide)
    (by decide) (by decide)

theorem c25_12_21 : fvpF 21 [4, 5, 6, 7, 8, 10, 11, 14, 16, 17, 18, 19, 20, 21, 22, 23, 24, 25] (s25.take 12) = none :=
  fvpF_none_of_cert 21 [4, 5, 6, 7, 8, 10, 11, 14, 16, 17, 18, 19, 20, 21, 22, 23, 24, 25] (s25.take 12) 52093862775067432915339799377759154892496328802647501818771932469147856570011558160871642108174358992358697636246759630220726095354008344334437158397363316247940264527336366497394290626467649327886181169535359177456555953378047691228971008 bridge25_12
    [4, 5, 6, 7, 8, 10, 11, 14] [[16], [17], [18], [19], [20], [21], [22], [23], [24]]
    (by decide) (by decide) (by decide) (by decide) (by decide) (by decide)
    (by decide) (by decide)

theorem c25_12_22 : fvpF 21 [4, 5, 6, 7, 8, 9, 10, 11, 16, 17, 18, 19, 20, 21, 22, 23, 24, 25] (s25.take 12) = none :=
  fvpF_none_of_cert 21 [4, 5, 6, 7, 8, 9, 10, 11, 16, 17, 18, 19, 20, 21, 22, 23, 24, 25] (s25.take 12) 52093862775067432915339799377759154892496328802647501818771932469147856570011558160871642108174358992358697636246759630220726095354008344334437158397363316247940264527336366497394290626467649327886181169535359177456555953378047691228971008 bridge25_12
    [4, 5, 6, 7, 8, 9, 10, 11] [[16], [17], [18], [19], [20], [21], [22], [23], [24]]
    (by decide) (by decide) (by decide) (by decide) (by decide) (by decide)
    (by decide) (by decide)

theorem n25_12_d2 : fvpF 22 [3, 4, 5, 6, 7, 8, 9, 10, 11, 14, 16, 17, 18, 19, 20, 21, 22, 23, 24, 25] (s25.take 12) = some [(3, 19), (4, 18), (5, 17), (6, 16), (7, 23), (8, 22), (9, 24), (10, 25), (11, 20), (14, 21)] :=
  (Eq.trans (fvpF_succ 21 [3, 4, 5, 6, 7, 8, 9, 10, 11, 14, 16, 17, 18, 19, 20, 21, 22, 23, 24, 25] (s25.take 12) (by decide))
  (Eq.trans (Eq.trans (Eq.trans (Eq.trans (Eq.trans (Eq.trans (tryRange_skipAll 21 [3, 4, 5, 6, 7, 8, 9, 10, 11, 14, 16, 17, 18, 19, 20, 21, 22, 23, 24, 25] (s25.take 12) 52093862775067432915339799377759154892496328802647501818771932469147856570011558160871642108174358992358697636246759630220726095354008344334437158397363316247940264527336366497394290626467649327886181169535359177456555953378047691228971008 bridge25_12
    (by decide) 1 4 15 (by decide))
  (tryRange_fail 21 [3, 4, 5, 6, 7, 8, 9, 10, 11, 14, 16, 17, 18, 19, 20, 21, 22, 23, 24, 25] (s25.take 12) 5 14
    ((bridge25_12 (([3, 4, 5, 6, 7, 8, 9, 10, 11, 14, 16, 17, 18, 19, 20, 21, 22, 23, 24, 25] : List Nat).getD 0 0) (([3, 4, 5, 6, 7, 8, 9, 10, 11, 14, 16, 17, 18, 19, 20, 21, 22, 23, 24, 25] : List Nat).getD 5 0)
      (by decide) (by decide)).trans (by decide))
    c25_12_20))
  (tryRange_fail 21 [3, 4, 5, 6, 7, 8, 9, 10, 11, 14, 16, 17, 18, 19, 20, 21, 22, 23, 24, 25] (s25.take 12) 6 13
    ((bridge25_12 (([3, 4, 5, 6, 7, 8, 9, 10, 11, 14, 16, 17, 18, 19, 20, 21, 22, 23, 24, 25] : List Nat).getD 0 0) (([3, 4, 5, 6, 7, 8, 9, 10, 11, 14, 16, 17, 18, 19, 20, 21, 22, 23, 24, 25] : List Nat).getD 6 0)
      (by decide) (by decide)).trans (by decide))
    c25_12_21))
  (tryRange_skipAll 21 [3, 4, 5, 6, 7, 8, 9, 10, 11, 14, 16, 17, 18, 19, 20, 21, 22, 23, 24, 25] (s25.take 12) 52093862775067432915339799377759154892496328802647501818771932469147856570011558160871642108174358992358697636246759630220726095354008344334437158397363316247940264527336366497394290626467649327886181169535359177456555953378047691228971008 bridge25_12
    (by decide) 7 2 11 (by decide)))
  (tryRange_fail 21 [3, 4, 5, 6, 7, 8, 9, 10, 11, 14, 16, 17, 18, 19, 20, 21, 22, 23, 24, 25] (s25.take 12) 9 10
    ((bridge25_12 (([3, 4, 5, 6, 7, 8, 9, 10, 11, 14, 16, 17, 18, 19, 20, 21, 22, 23, 24, 25] : List Nat).getD 0 0) (([3, 4, 5, 6, 7, 8, 9, 10, 11, 14, 16, 17, 18, 19, 20, 21, 22, 23, 24, 25] : List Nat).getD 9 0)
      (by decide) (by decide)).trans (by decide))
    c25_12_22))
  (tryRange_skipAll 21 [3, 4, 5, 6, 7, 8, 9, 10, 11, 14, 16, 17, 18, 19, 20, 21, 22, 23, 24, 25] (s25.take 12) 52093862775067432915339799377759154892496328802647501818771932469147856570011558160871642108174358992358697636246759630220726095354008344334437158397363316247940264527336366497394290626467649327886181169535359177456555953378047691228971008 bridge25_12
    (by decide) 10 3 7 (by decide)))
  (tryRange_hit 21 [3, 4, 5, 6, 7, 8, 9, 10, 11, 14, 16, 17, 18, 19, 20, 21, 22, 23, 24, 25] (s25.take 12) 13 6 [(4, 18), (5, 17), (6, 16), (7, 23), (8, 22), (9, 24), (10, 25), (11, 20), (14, 21)]
    ((bridge25_12 (([3, 4, 5, 6, 7, 8, 9, 10, 11, 14, 16, 17, 18, 19, 20, 21, 22, 23, 24, 25] : List Nat).getD 0 0) (([3, 4, 5, 6, 7, 8, 9, 10, 11, 14, 16, 17, 18, 19, 20, 21, 22, 23, 24, 25] : List Nat).getD 13 0)
      (by decide) (by decide)).trans (by decide))
    n25_12_d3)))

theorem n25_12_d1 : fvpF 23 [2, 3, 4, 5, 6, 7, 8, 9, 10, 11, 14, 15, 16, 17, 18, 19, 20, 21, 22, 23, 24, 25] (s25.take 12) = some [(2, 15), (3, 19), (4, 18), (5, 17), (6, 16), (7, 23), (8, 22), (9, 24), (10, 25), (11, 20), (14, 21)] :=
  (Eq.trans (fvpF_succ 22 [2, 3, 4, 5, 6, 7, 8, 9, 10, 11, 14, 15, 16, 17, 18, 19, 20, 21, 22, 23, 24, 25] (s25.take 12) (by decide))
  (Eq.trans (tryRange_skipAll 22 [2, 3, 4, 5, 6, 7, 8, 9, 10, 11, 14, 15, 16, 17, 18, 19, 20, 21, 22, 23, 24, 25] (s25.take 12) 52093862775067432915339799377759154892496328802647501818771932469147856570011558160871642108174358992358697636246759630220726095354008344334437158397363316247940264527336366497394290626467649327886181169535359177456555953378047691228971008 bridge25_12
    (by decide) 1 10 11 (by decide))
  (tryRange_hit 22 [2, 3, 4, 5, 6, 7, 8, 9, 10, 11, 14, 15, 16, 17, 18, 19, 20, 21, 22, 23, 24, 25] (s25.take 12) 11 10 [(3, 19), (4, 18), (5, 17), (6, 16), (7, 23), (8, 22), (9, 24), (10, 25), (11, 20), (14, 21)]
    ((bridge25_12 (([2, 3, 4, 5, 6, 7, 8, 9, 10, 11, 14, 15, 16, 17, 18, 19, 20, 21, 22, 23, 24, 25] : List Nat).getD 0 0) (([2, 3, 4, 5, 6, 7, 8, 9, 10, 11, 14, 15, 16, 17, 18, 19, 20, 21, 22, 23, 24, 25] : List Nat).getD 11 0)
      (by decide) (by decide)).trans (by decide))
    n25_12_d2)))

theorem n25_12_d0 : fvpF 24 [1, 2, 3, 4, 5, 6, 7, 8, 9, 10, 11, 12, 14, 15, 16, 17, 18, 19, 20, 21, 22, 23, 24, 25] (s25.take 12) = some [(1, 12), (2, 15), (3, 19), (4, 18), (5, 17), (6, 16), (7, 23), (8, 22), (9, 24), (10, 25), (11, 20), (14, 21)] :=
  (Eq.trans (fvpF_succ 23 [1, 2, 3, 4, 5, 6, 7, 8, 9, 10, 11, 12, 14, 15, 16, 17, 18, 19, 20, 21, 22, 23, 24, 25] (s25.take 12) (by decide))
  (Eq.trans (tryRange_skipAll 23 [1, 2, 3, 4, 5, 6, 7, 8, 9, 10, 11, 12, 14, 15, 16, 17, 18, 19, 20, 21, 22, 23, 24, 25] (s25.take 12) 52093862775067432915339799377759154892496328802647501818771932469147856570011558160871642108174358992358697636246759630220726095354008344334437158397363316247940264527336366497394290626467649327886181169535359177456555953378047691228971008 bridge25_12
    (by decide) 1 10 13 (by decide))
  (tryRange_hit 23 [1, 2, 3, 4, 5, 6, 7, 8, 9, 10, 11, 12, 14, 15, 16, 17, 18, 19, 20, 21, 22, 23, 24, 25] (s25.take 12) 11 12 [(2, 15), (3, 19), (4, 18), (5, 17), (6, 16), (7, 23), (8, 22), (9, 24), (10, 25), (11, 20), (14, 21)]
    ((bridge25_12 (([1, 2, 3, 4, 5, 6, 7, 8, 9, 10, 11, 12, 14, 15, 16, 17, 18, 19, 20, 21, 22, 23, 24, 25] : List Nat).getD 0 0) (([1, 2, 3, 4, 5, 6, 7, 8, 9, 10, 11, 12, 14, 15, 16, 17, 18, 19, 20, 21, 22, 23, 24, 25] : List Nat).getD 11 0)
      (by decide) (by decide)).trans (by decide))
    n25_12_d1)))

theorem fvp25_12 : findValidPairs [1, 2, 3, 4, 5, 6, 7, 8, 9, 10, 11, 12, 14, 15, 16, 17, 18, 19, 20, 21, 22, 23, 24, 25] (s25.take 12) = some [(1, 12), (2, 15), (3, 19), (4, 18), (5, 17), (6, 16), (7, 23), (8, 22), (9, 24), (10, 25), (11, 20), (14, 21)] := n25_12_d0

theorem n25_13_d11 : fvpF 13 [13, 25] (s25.take 13) = some [(13, 25)] :=
  (Eq.trans (fvpF_succ 12 [13, 25] (s25.take 13) (by decide))
  (tryRange_hit 12 [13, 25] (s25.take 13) 1 0 []
    ((bridge25_13 (([13, 25] : List Nat).getD 0 0) (([13, 25] : List Nat).getD 1 0)
      (by decide) (by decide)).trans (by decide))
    (fvpF_nil 12 (s25.take 13))))

theorem n25_13_d10 : fvpF 14 [11, 13, 24, 25] (s25.take 13) = some [(11, 24), (13, 25)] :=
  (Eq.trans (fvpF_succ 13 [11, 13, 24, 25] (s25.take 13) (by decide))
  (Eq.trans (tryRange_skipAll 13 [11, 13, 24, 25] (s25.take 13) 52093862775067432915339799377759154892496328802647501818771932469147856570011558160871642108174360516649981970227341359516248464918124063855576665996554693534674131562535564053933086619409182658760965542909024534898122669735527927439687680 bridge25_13
    (by decide) 1 1 2 (by decide))
  (tryRange_hit 13 [11, 13, 24, 25] (s25.take 13) 2 1 [(13, 25)]
    ((bridge25_13 (([11, 13, 24, 25] : List Nat).getD 0 0) (([11, 13, 24, 25] : List Nat).getD 2 0)
      (by decide) (by decide)).trans (by decide))
    n25_13_d11)))

theorem n25_13_d9 : fvpF 15 [10, 11, 13, 19, 24, 25] (s25.take 13) = some [(10, 19), (11, 24), (13, 25)] :=
  (Eq.trans (fvpF_succ 14 [10, 11, 13, 19, 24, 25] (s25.take 13) (by decide))
  (Eq.trans (tryRange_skipAll 14 [10, 11, 13, 19, 24, 25] (s25.take 13) 52093862775067432915339799377759154892496328802647501818771932469147856570011558160871642108174360516649981970227341359516248464918124063855576665996554693534674131562535564053933086619409182658760965542909024534898122669735527927439687680 bridge25_13
    (by decide) 1 2 3 (by decide))
  (tryRange_hit 14 [10, 11, 13, 19, 24, 25] (s25.take 13) 3 2 [(11, 24), (13, 25)]
    ((bridge25_13 (([10, 11, 13, 19, 24, 25] : List Nat).getD 0 0) (([10, 11, 13, 19, 24, 25] : List Nat).getD 3 0)
      (by decide) (by decide)).trans (by decide))
    n25_13_d10)))

theorem n25_13_d8 : fvpF 16 [9, 10, 11, 13, 18, 19, 24, 25] (s25.take 13) = some [(9, 18), (10, 19), (11, 24), (13, 25)] :=
  (Eq.trans (fvpF_succ 15 [9, 10, 11, 13, 18, 19, 24, 25] (s25.take 13) (by decide))
  (Eq.trans (tryRange_skipAll 15 [9, 10, 11, 13, 18, 19, 24, 25] (s25.take 13) 52093862775067432915339799377759154892496328802647501818771932469147856570011558160871642108174360516649981970227341359516248464918124063855576665996554693534674131562535564053933086619409182658760965542909024534898122669735527927439687680 bridge25_13
    (by decide) 1 3 4 (by decide))
  (tryRange_hit 15 [9, 10, 11, 13, 18, 19, 24, 25] (s25.take 13) 4 3 [(10, 19), (11, 24), (13, 25)]
    ((bridge25_13 (([9, 10, 11, 13, 18, 19, 24, 25] : List Nat).getD 0 0) (([9, 10, 11, 13, 18, 19, 24, 25] : List Nat).getD 4 0)
      (by decide) (by decide)).trans (by decide))
    n25_13_d9)))

theorem n25_13_d7 : fvpF 17 [8, 9, 10, 11, 13, 17, 18, 19, 24, 25] (s25.take 13) = some [(8, 17), (9, 18), (10, 19), (11, 24), (13, 25)] :=
  (Eq.trans (fvpF_succ 16 [8, 9, 10, 11, 13, 17, 18, 19, 24, 25] (s25.take 13) (by decide))
  (Eq.trans (tryRange_skipAll 16 [8, 9, 10, 11, 13, 17, 18, 19, 24, 25] (s25.take 13) 52093862775067432915339799377759154892496328802647501818771932469147856570011558160871642108174360516649981970227341359516248464918124063855576665996554693534674131562535564053933086619409182658760965542909024534898122669735527927439687680 bridge25_13
    (by decide) 1 4 5 (by decide))
  (tryRange_hit 16 [8, 9, 10, 11, 13, 17, 18, 19, 24, 25] (s25.take 13) 5 4 [(9, 18), (10, 19), (11, 24), (13, 25)]
    ((bridge25_13 (([8, 9, 10, 11, 13, 17, 18, 19, 24, 25] : List Nat).getD 0 0) (([8, 9, 10, 11, 13, 17, 18, 19, 24, 25] : List Nat).getD 5 0)
      (by decide) (by decide)).trans (by decide))
    n25_13_d8)))

theorem c25_13_0 : fvpF 17 [9, 10, 11, 13, 16, 17, 18, 19, 24, 25] (s25.take 13) = none :=
  fvpF_none_of_cert 17 [9, 10, 11, 13, 16, 17, 18, 19, 24, 25] (s25.take 13) 52093862775067432915339799377759154892496328802647501818771932469147856570011558160871642108174360516649981970227341359516248464918124063855576665996554693534674131562535564053933086619409182658760965542909024534898122669735527927439687680 bridge25_13
    [9, 10, 11, 13] [[16], [17], [18], [19], [24]]
    (by decide) (by decide) (by decide) (by decide) (by decide) (by decide)
    (by decide) (by decide)

theorem c25_13_1 : fvpF 17 [8, 10, 11, 13, 16, 17, 18, 19, 24, 25] (s25.take 13) = none :=
  fvpF_none_of_cert 17 [8, 10, 11, 13, 16, 17, 18, 19, 24, 25] (s25.take 13) 52093862775067432915339799377759154892496328802647501818771932469147856570011558160871642108174360516649981970227341359516248464918124063855576665996554693534674131562535564053933086619409182658760965542909024534898122669735527927439687680 bridge25_13
    [8, 10, 11, 13] [[16], [17], [18], [19], [24]]
    (by decide) (by decide) (by decide) (by decide) (by decide) (by decide)
    (by decide) (by decide)

theorem c25_13_2 : fvpF 17 [8, 9, 11, 13, 16, 17, 18, 19, 24, 25] (s25.take 13) = none :=
  fvpF_none_of_cert 17 [8, 9, 11, 13, 16, 17, 18, 19, 24, 25] (s25.take 13) 52093862775067432915339799377759154892496328802647501818771932469147856570011558160871642108174360516649981970227341359516248464918124063855576665996554693534674131562535564053933086619409182658760965542909024534898122669735527927439687680 bridge25_13
    [8, 9, 11, 13] [[16], [17], [18], [19], [24]]
    (by decide) (by decide) (by decide) (by decide) (by decide) (by decide)
    (by decide) (by decide)

theorem c25_13_3 : fvpF 17 [8, 9, 10, 13, 16, 17, 18, 19, 24, 25] (s25.take 13) = none :=
  fvpF_none_of_cert 17 [8, 9, 10, 13, 16, 17, 18, 19, 24, 25] (s25.take 13) 52093862775067432915339799377759154892496328802647501818771932469147856570011558160871642108174360516649981970227341359516248464918124063855576665996554693534674131562535564053933086619409182658760965542909024534898122669735527927439687680 bridge25_13
    [8, 9, 10, 13] [[16], [17], [18], [19], [24]]
    (by decide) (by decide) (by decide) (by decide) (by decide) (by decide)
    (by decide) (by decide)

theorem c25_13_4 : fvpF 17 [8, 9, 10, 11, 16, 17, 18, 19, 24, 25] (s25.take 13) = none :=
  fvpF_none_of_cert 17 [8, 9, 10, 11, 16, 17, 18, 19, 24, 25] (s25.take 13) 52093862775067432915339799377759154892496328802647501818771932469147856570011558160871642108174360516649981970227341359516248464918124063855576665996554693534674131562535564053933086619409182658760965542909024534898122669735527927439687680 bridge25_13
    [8, 9, 10, 11] [[16], [17], [18], [19], [24]]
    (by decide) (by decide) (by decide) (by decide) (by decide) (by decide)
    (by decide) (by decide)

theorem n25_13_d6 : fvpF 18 [7, 8, 9, 10, 11, 13, 16, 17, 18, 19, 24, 25] (s25.take 13) = some [(7, 16), (8, 17), (9, 18), (10, 19), (11, 24), (13, 25)] :=
  (Eq.trans (fvpF_succ 17 [7, 8, 9, 10, 11, 13, 16, 17, 18, 19, 24, 25] (s25.take 13) (by decide))
  (Eq.trans (Eq.trans (Eq.trans (Eq.trans (Eq.trans (tryRange_fail 17 [7, 8, 9, 10, 11, 13, 16, 17, 18, 19, 24, 25] (s25.take 13) 1 10
    ((bridge25_13 (([7, 8, 9, 10, 11, 13, 16, 17, 18, 19, 24, 25] : List Nat).getD 0 0) (([7, 8, 9, 10, 11, 13, 16, 17, 18, 19, 24, 25] : List Nat).getD 1 0)
      (by decide) (by decide)).trans (by decide))
    c25_13_0)
  (tryRange_fail 17 [7, 8, 9, 10, 11, 13, 16, 17, 18, 19, 24, 25] (s25.take 13) 2 9
    ((bridge25_13 (([7, 8, 9, 10, 11, 13, 16, 17, 18, 19, 24, 25] : List Nat).getD 0 0) (([7, 8, 9, 10, 11, 13, 16, 17, 18, 19, 24, 25] : List Nat).getD 2 0)
      (by decide) (by decide)).trans (by decide))
    c25_13_1))
  (tryRange_fail 17 [7, 8, 9, 10, 11, 13, 16, 17, 18, 19, 24, 25] (s25.take 13) 3 8
    ((bridge25_13 (([7, 8, 9, 10, 11, 13, 16, 17, 18, 19, 24, 25] : List Nat).getD 0 0) (([7, 8, 9, 10, 11, 13, 16, 17, 18, 19, 24, 25] : List Nat).getD 3 0)
      (by decide) (by decide)).trans (by decide))
    c25_13_2))
  (tryRange_fail 17 [7, 8, 9, 10, 11, 13, 16, 17, 18, 19, 24, 25] (s25.take 13) 4 7
    ((bridge25_13 (([7, 8, 9, 10, 11, 13, 16, 17, 18, 19, 24, 25] : List Nat).getD 0 0) (([7, 8, 9, 10, 11, 13, 16, 17, 18, 19, 24, 25] : List Nat).getD 4 0)
      (by decide) (by decide)).trans (by decide))
    c25_13_3))
  (tryRange_fail 17 [7, 8, 9, 10, 11, 13, 16, 17, 18, 19, 24, 25] (s25.take 13) 5 6
    ((bridge25_13 (([7, 8, 9, 10, 11, 13, 16, 17, 18, 19, 24, 25] : List Nat).getD 0 0) (([7, 8, 9, 10, 11, 13, 16, 17, 18, 19, 24, 25] : List Nat).getD 5 0)
      (by decide) (by decide)).trans (by decide))
    c25_13_4))
  (tryRange_hit 17 [7, 8, 9, 10, 11, 13, 16, 17, 18, 19, 24, 25] (s25.take 13) 6 5 [(8, 17), (9, 18), (10, 19), (11, 24), (13, 25)]
    ((bridge25_13 (([7, 8, 9, 10, 11, 13, 16, 17, 18, 19, 24, 25] : List Nat).getD 0 0) (([7, 8, 9, 10, 11, 13, 16, 17, 18, 19, 24, 25] : List Nat).getD 6 0)
      (by decide) (by decide)).trans (by decide))
    n25_13_d7)))

theorem c25_13_5 : fvpF 18 [7, 9, 10, 11, 13, 16, 17, 18, 19, 23, 24, 25] (s25.take 13) = none :=
  fvpF_none_of_cert 18 [7, 9, 10, 11, 13, 16, 17, 18, 19, 23, 24, 25] (s25.take 13) 52093862775067432915339799377759154892496328802647501818771932469147856570011558160871642108174360516649981970227341359516248464918124063855576665996554693534674131562535564053933086619409182658760965542909024534898122669735527927439687680 bridge25_13
    [7, 9, 10, 11, 13] [[16], [17], [18], [19], [23], [24]]
    (by decide) (by decide) (by decide) (by decide) (by decide) (by decide)
    (by decide) (by decide)

theorem c25_13_6 : fvpF 18 [7, 8, 10, 11, 13, 16, 17, 18, 19, 23, 24, 25] (s25.take 13) = none :=
  fvpF_none_of_cert 18 [7, 8, 10, 11, 13, 16, 17, 18, 19, 23, 24, 25] (s25.take 13) 52093862775067432915339799377759154892496328802647501818771932469147856570011558160871642108174360516649981970227341359516248464918124063855576665996554693534674131562535564053933086619409182658760965542909024534898122669735527927439687680 bridge25_13
    [7, 8, 10, 11, 13] [[16], [17], [18], [19], [23], [24]]
    (by decide) (by decide) (by decide) (by decide) (by decide) (by decide)
    (by decide) (by decide)

theorem c25_13_7 : fvpF 18 [7, 8, 9, 11, 13, 16, 17, 18, 19, 23, 24, 25] (s25.take 13) = none :=
  fvpF_none_of_cert 18 [7, 8, 9, 11, 13, 16, 17, 18, 19, 23, 24, 25] (s25.take 13) 52093862775067432915339799377759154892496328802647501818771932469147856570011558160871642108174360516649981970227341359516248464918124063855576665996554693534674131562535564053933086619409182658760965542909024534898122669735527927439687680 bridge25_13
    [7, 8, 9, 11, 13] [[16], [17], [18], [19], [23], [24]]
    (by decide) (by decide) (by decide) (by decide) (by decide) (by decide)
    (by decide) (by decide)

theorem c25_13_8 : fvpF 18 [7, 8, 9, 10, 13, 16, 17, 18, 19, 23, 24, 25] (s25.take 13) = none :=
  fvpF_none_of_cert 18 [7, 8, 9, 10, 13, 16, 17, 18, 19, 23, 24, 25] (s25.take 13) 52093862775067432915339799377759154892496328802647501818771932469147856570011558160871642108174360516649981970227341359516248464918124063855576665996554693534674131562535564053933086619409182658760965542909024534898122669735527927439687680 bridge25_13
    [7, 8, 9, 10, 13] [[16], [17], [18], [19], [23], [24]]
    (by decide) (by decide) (by decide) (by decide) (by decide) (by decide)
    (by decide) (by decide)

theorem c25_13_9 : fvpF 18 [7, 8, 9, 10, 11, 16, 17, 18, 19, 23, 24, 25] (s25.take 13) = none :=
  fvpF_none_of_cert 18 [7, 8, 9, 10, 11, 16, 17, 18, 19, 23, 24, 25] (s25.take 13) 52093862775067432915339799377759154892496328802647501818771932469147856570011558160871642108174360516649981970227341359516248464918124063855576665996554693534674131562535564053933086619409182658760965542909024534898122669735527927439687680 bridge25_13
    [7, 8, 9, 10, 11] [[16], [17], [18], [19], [23], [24]]
    (by decide) (by decide) (by decide) (by decide) (by decide) (by decide)
    (by decide) (by decide)

theorem n25_13_d5 : fvpF 19 [6, 7, 8, 9, 10, 11, 13, 16, 17, 18, 19, 23, 24, 25] (s25.take 13) = some [(6, 23), (7, 16), (8, 17), (9, 18), (10, 19), (11, 24), (13, 25)] :=
  (Eq.trans (fvpF_succ 18 [6, 7, 8, 9, 10, 11, 13, 16, 17, 18, 19, 23, 24, 25] (s25.take 13) (by decide))
  (Eq.trans (Eq.trans (Eq.trans (Eq.trans (Eq.trans (Eq.trans (Eq.trans (tryRange_skipAll 18 [6, 7, 8, 9, 10, 11, 13, 16, 17, 18, 19, 23, 24, 25] (s25.take 13) 52093862775067432915339799377759154892496328802647501818771932469147856570011558160871642108174360516649981970227341359516248464918124063855576665996554693534674131562535564053933086619409182658760965542909024534898122669735527927439687680 bridge25_13
    (by decide) 1 1 12 (by decide))
  (tryRange_fail 18 [6, 7, 8, 9, 10, 11, 13, 16, 17, 18, 19, 23, 24, 25] (s25.take 13) 2 11
    ((bridge25_13 (([6, 7, 8, 9, 10, 11, 13, 16, 17, 18, 19, 23, 24, 25] : List Nat).getD 0 0) (([6, 7, 8, 9, 10, 11, 13, 16, 17, 18, 19, 23, 24, 25] : List Nat).getD 2 0)
      (by decide) (by decide)).trans (by decide))
    c25_13_5))
  (tryRange_fail 18 [6, 7, 8, 9, 10, 11, 13, 16, 17, 18, 19, 23, 24, 25] (s25.take 13) 3 10
    ((bridge25_13 (([6, 7, 8, 9, 10, 11, 13, 16, 17, 18, 19, 23, 24, 25] : List Nat).getD 0 0) (([6, 7, 8, 9, 10, 11, 13, 16, 17, 18, 19, 23, 24, 25] : List Nat).getD 3 0)
      (by decide) (by decide)).trans (by decide))
    c25_13_6))
  (tryRange_fail 18 [6, 7, 8, 9, 10, 11, 13, 16, 17, 18, 19, 23, 24, 25] (s25.take 13) 4 9
    ((bridge25_13 (([6, 7, 8, 9, 10, 11, 13, 16, 17, 18, 19, 23, 24, 25] : List Nat).getD 0 0) (([6, 7, 8, 9, 10, 11, 13, 16, 17, 18, 19, 23, 24, 25] : List Nat).getD 4 0)
      (by decide) (by decide)).trans (by decide))
    c25_13_7))
  (tryRange_fail 18 [6, 7, 8, 9, 10, 11, 13, 16, 17, 18, 19, 23, 24, 25] (s25.take 13) 5 8
    ((bridge25_13 (([6, 7, 8, 9, 10, 11, 13, 16, 17, 18, 19, 23, 24, 25] : List Nat).getD 0 0) (([6, 7, 8, 9, 10, 11, 13, 16, 17, 18, 19, 23, 24, 25] : List Nat).getD 5 0)
      (by decide) (by decide)).trans (by decide))
    c25_13_8))
  (tryRange_fail 18 [6, 7, 8, 9, 10, 11, 13, 16, 17, 18, 19, 23, 24, 25] (s25.take 13) 6 7
    ((bridge25_13 (([6, 7, 8, 9, 10, 11, 13, 16, 17, 18, 19, 23, 24, 25] : List Nat).getD 0 0) (([6, 7, 8, 9, 10, 11, 13, 16, 17, 18, 19, 23, 24, 25] : List Nat).getD 6 0)
      (by decide) (by decide)).trans (by decide))
    c25_13_9))
  (tryRange_skipAll 18 [6, 7, 8, 9, 10, 11, 13, 16, 17, 18, 19, 23, 24, 25] (s25.take 13) 52093862775067432915339799377759154892496328802647501818771932469147856570011558160871642108174360516649981970227341359516248464918124063855576665996554693534674131562535564053933086619409182658760965542909024534898122669735527927439687680 bridge25_13
    (by decide) 7 4 3 (by decide)))
  (tryRange_hit 18 [6, 7, 8, 9, 10, 11, 13, 16, 17, 18, 19, 23, 24, 25] (s25.take 13) 11 2 [(7, 16), (8, 17), (9, 18), (10, 19), (11, 24), (13, 25)]
    ((bridge25_13 (([6, 7, 8, 9, 10, 11, 13, 16, 17, 18, 19, 23, 24, 25] : List Nat).getD 0 0) (([6, 7, 8, 9, 10, 11, 13, 16, 17, 18, 19, 23, 24, 25] : List Nat).getD 11 0)
      (by decide) (by decide)).trans (by decide))
    n25_13_d6)))

theorem c25_13_10 : fvpF 19 [6, 7, 9, 10, 11, 13, 16, 17, 18, 19, 22, 23, 24, 25] (s25.take 13) = none :=
  fvpF_none_of_cert 19 [6, 7, 9, 10, 11, 13, 16, 17, 18, 19, 22, 23, 24, 25] (s25.take 13) 52093862775067432915339799377759154892496328802647501818771932469147856570011558160871642108174360516649981970227341359516248464918124063855576665996554693534674131562535564053933086619409182658760965542909024534898122669735527927439687680 bridge25_13
    [6, 7, 9, 10, 11, 13] [[16], [17], [18], [19], [22], [23], [24]]
    (by decide) (by decide) (by decide) (by decide) (by decide) (by decide)
    (by decide) (by decide)

theorem c25_13_11 : fvpF 19 [6, 7, 8, 10, 11, 13, 16, 17, 18, 19, 22, 23, 24, 25] (s25.take 13) = none :=
  fvpF_none_of_cert 19 [6, 7, 8, 10, 11, 13, 16, 17, 18, 19, 22, 23, 24, 25] (s25.take 13) 52093862775067432915339799377759154892496328802647501818771932469147856570011558160871642108174360516649981970227341359516248464918124063855576665996554693534674131562535564053933086619409182658760965542909024534898122669735527927439687680 bridge25_13
    [6, 7, 8, 10, 11, 13] [[16], [17], [18], [19], [22], [23], [24]]
    (by decide) (by decide) (by decide) (by decide) (by decide) (by decide)
    (by decide) (by decide)

theorem c25_13_12 : fvpF 19 [6, 7, 8, 9, 11, 13, 16, 17, 18, 19, 22, 23, 24, 25] (s25.take 13) = none :=
  fvpF_none_of_cert 19 [6, 7, 8, 9, 11, 13, 16, 17, 18, 19, 22, 23, 24, 25] (s25.take 13) 52093862775067432915339799377759154892496328802647501818771932469147856570011558160871642108174360516649981970227341359516248464918124063855576665996554693534674131562535564053933086619409182658760965542909024534898122669735527927439687680 bridge25_13
    [6, 7, 8, 9, 11, 13] [[16], [17], [18], [19], [22], [23], [24]]
    (by decide) (by decide) (by decide) (by decide) (by decide) (by decide)
    (by decide) (by decide)

theorem c25_13_13 : fvpF 19 [6, 7, 8, 9, 10, 13, 16, 17, 18, 19, 22, 23, 24, 25] (s25.take 13) = none :=
  fvpF_none_of_cert 19 [6, 7, 8, 9, 10, 13, 16, 17, 18, 19, 22, 23, 24, 25] (s25.take 13) 52093862775067432915339799377759154892496328802647501818771932469147856570011558160871642108174360516649981970227341359516248464918124063855576665996554693534674131562535564053933086619409182658760965542909024534898122669735527927439687680 bridge25_13
    [6, 7, 8, 9, 10, 13] [[16], [17], [18], [19], [22], [23], [24]]
    (by decide) (by decide) (by decide) (by decide) (by decide) (by decide)
    (by decide) (by decide)

theorem n25_13_d4 : fvpF 20 [5, 6, 7, 8, 9, 10, 11, 13, 16, 17, 18, 19, 22, 23, 24, 25] (s25.take 13) = some [(5, 22), (6, 23), (7, 16), (8, 17), (9, 18), (10, 19), (11, 24), (13, 25)] :=
  (Eq.trans (fvpF_succ 19 [5, 6, 7, 8, 9, 10, 11, 13, 16, 17, 18, 19, 22, 23, 24, 25] (s25.take 13) (by decide))
  (Eq.trans (Eq.trans (Eq.trans (Eq.trans (Eq.trans (Eq.trans (tryRange_skipAll 19 [5, 6, 7, 8, 9, 10, 11, 13, 16, 17, 18, 19, 22, 23, 24, 25] (s25.take 13) 52093862775067432915339799377759154892496328802647501818771932469147856570011558160871642108174360516649981970227341359516248464918124063855576665996554693534674131562535564053933086619409182658760965542909024534898122669735527927439687680 bridge25_13
    (by decide) 1 2 13 (by decide))
  (tryRange_fail 19 [5, 6, 7, 8, 9, 10, 11, 13, 16, 17, 18, 19, 22, 23, 24, 25] (s25.take 13) 3 12
    ((bridge25_13 (([5, 6, 7, 8, 9, 10, 11, 13, 16, 17, 18, 19, 22, 23, 24, 25] : List Nat).getD 0 0) (([5, 6, 7, 8, 9, 10, 11, 13, 16, 17, 18, 19, 22, 23, 24, 25] : List Nat).getD 3 0)
      (by decide) (by decide)).trans (by decide))
    c25_13_10))
  (tryRange_fail 19 [5, 6, 7, 8, 9, 10, 11, 13, 16, 17, 18, 19, 22, 23, 24, 25] (s25.take 13) 4 11
    ((bridge25_13 (([5, 6, 7, 8, 9, 10, 11, 13, 16, 17, 18, 19, 22, 23, 24, 25] : List Nat).getD 0 0) (([5, 6, 7, 8, 9, 10, 11, 13, 16, 17, 18, 19, 22, 23, 24, 25] : List Nat).getD 4 0)
      (by decide) (by decide)).trans (by decide))
    c25_13_11))
  (tryRange_fail 19 [5, 6, 7, 8, 9, 10, 11, 13, 16, 17, 18, 19, 22, 23, 24, 25] (s25.take 13) 5 10
    ((bridge25_13 (([5, 6, 7, 8, 9, 10, 11, 13, 16, 17, 18, 19, 22, 23, 24, 25] : List Nat).getD 0 0) (([5, 6, 7, 8, 9, 10, 11, 13, 16, 17, 18, 19, 22, 23, 24, 25] : List Nat).getD 5 0)
      (by decide) (by decide)).trans (by decide))
    c25_13_12))
  (tryRange_fail 19 [5, 6, 7, 8, 9, 10, 11, 13, 16, 17, 18, 19, 22, 23, 24, 25] (s25.take 13) 6 9
    ((bridge25_13 (([5, 6, 7, 8, 9, 10, 11, 13, 16, 17, 18, 19, 22, 23, 24, 25] : List Nat).getD 0 0) (([5, 6, 7, 8, 9, 10, 11, 13, 16, 17, 18, 19, 22, 23, 24, 25] : List Nat).getD 6 0)
      (by decide) (by decide)).trans (by decide))
    c25_13_13))
  (tryRange_skipAll 19 [5, 6, 7, 8, 9, 10, 11, 13, 16, 17, 18, 19, 22, 23, 24, 25] (s25.take 13) 52093862775067432915339799377759154892496328802647501818771932469147856570011558160871642108174360516649981970227341359516248464918124063855576665996554693534674131562535564053933086619409182658760965542909024534898122669735527927439687680 bridge25_13
    (by decide) 7 5 4 (by decide)))
  (tryRange_hit 19 [5, 6, 7, 8, 9, 10, 11, 13, 16, 17, 18, 19, 22, 23, 24, 25] (s25.take 13) 12 3 [(6, 23), (7, 16), (8, 17), (9, 18), (10, 19), (11, 24), (13, 25)]
    ((bridge25_13 (([5, 6, 7, 8, 9, 10, 11, 13, 16, 17, 18, 19, 22, 23, 24, 25] : List Nat).getD 0 0) (([5, 6, 7, 8, 9, 10, 11, 13, 16, 17, 18, 19, 22, 23, 24, 25] : List Nat).getD 12 0)
      (by decide) (by decide)).trans (by decide))
    n25_13_d5)))

theorem c25_13_14 : fvpF 20 [5, 6, 7, 9, 10, 11, 13, 16, 17, 18, 19, 21, 22, 23, 24, 25] (s25.take 13) = none :=
  fvpF_none_of_cert 20 [5, 6, 7, 9, 10, 11, 13, 16, 17, 18, 19, 21, 22, 23, 24, 25] (s25.take 13) 52093862775067432915339799377759154892496328802647501818771932469147856570011558160871642108174360516649981970227341359516248464918124063855576665996554693534674131562535564053933086619409182658760965542909024534898122669735527927439687680 bridge25_13
    [5, 6, 7, 9, 10, 11, 13] [[16], [17], [18], [19], [21], [22], [23], [24]]
    (by decide) (by decide) (by decide) (by decide) (by decide) (by decide)
    (by decide) (by decide)

theorem c25_13_15 : fvpF 20 [5, 6, 7, 8, 10, 11, 13, 16, 17, 18, 19, 21, 22, 23, 24, 25] (s25.take 13) = none :=
  fvpF_none_of_cert 20 [5, 6, 7, 8, 10, 11, 13, 16, 17, 18, 19, 21, 22, 23, 24, 25] (s25.take 13) 52093862775067432915339799377759154892496328802647501818771932469147856570011558160871642108174360516649981970227341359516248464918124063855576665996554693534674131562535564053933086619409182658760965542909024534898122669735527927439687680 bridge25_13
    [5, 6, 7, 8, 10, 11, 13] [[16], [17], [18], [19], [21], [22], [23], [24]]
    (by decide) (by decide) (by decide) (by decide) (by decide) (by decide)
    (by decide) (by decide)

theorem c25_13_16 : fvpF 20 [5, 6, 7, 8, 9, 11, 13, 16, 17, 18, 19, 21, 22, 23, 24, 25] (s25.take 13) = none :=
  fvpF_none_of_cert 20 [5, 6, 7, 8, 9, 11, 13, 16, 17, 18, 19, 21, 22, 23, 24, 25] (s25.take 13) 52093862775067432915339799377759154892496328802647501818771932469147856570011558160871642108174360516649981970227341359516248464918124063855576665996554693534674131562535564053933086619409182658760965542909024534898122669735527927439687680 bridge25_13
    [5, 6, 7, 8, 9, 11, 13] [[16], [17], [18], [19], [21], [22], [23], [24]]
    (by decide) (by decide) (by decide) (by decide) (by decide) (by decide)
    (by decide) (by decide)

theorem c25_13_17 : fvpF 20 [5, 6, 7, 8, 9, 10, 13, 16, 17, 18, 19, 21, 22, 23, 24, 25] (s25.take 13) = none :=
  fvpF_none_of_cert 20 [5, 6, 7, 8, 9, 10, 13, 16, 17, 18, 19, 21, 22, 23, 24, 25] (s25.take 13) 52093862775067432915339799377759154892496328802647501818771932469147856570011558160871642108174360516649981970227341359516248464918124063855576665996554693534674131562535564053933086619409182658760965542909024534898122669735527927439687680 bridge25_13
    [5, 6, 7, 8, 9, 10, 13] [[16], [17], [18], [19], [21], [22], [23], [24]]
    (by decide) (by decide) (by decide) (by decide) (by decide) (by decide)
    (by decide) (by decide)

theorem n25_13_d3 : fvpF 21 [4, 5, 6, 7, 8, 9, 10, 11, 13, 16, 17, 18, 19, 21, 22, 23, 24, 25] (s25.take 13) = some [(4, 21), (5, 22), (6, 23), (7, 16), (8, 17), (9, 18), (10, 19), (11, 24), (13, 25)] :=
  (Eq.trans (fvpF_succ 20 [4, 5, 6, 7, 8, 9, 10, 11, 13, 16, 17, 18, 19, 21, 22, 23, 24, 25] (s25.take 13) (by decide))
  (Eq.trans (Eq.trans (Eq.trans (Eq.trans (Eq.trans (Eq.trans (tryRange_skipAll 20 [4, 5, 6, 7, 8, 9, 10, 11, 13, 16, 17, 18, 19, 21, 22, 23, 24, 25] (s25.take 13) 52093862775067432915339799377759154892496328802647501818771932469147856570011558160871642108174360516649981970227341359516248464918124063855576665996554693534674131562535564053933086619409182658760965542909024534898122669735527927439687680 bridge25_13
    (by decide) 1 3 14 (by decide))
  (tryRange_fail 20 [4, 5, 6, 7, 8, 9, 10, 11, 13, 16, 17, 18, 19, 21, 22, 23, 24, 25] (s25.take 13) 4 13
    ((bridge25_13 (([4, 5, 6, 7, 8, 9, 10, 11, 13, 16, 17, 18, 19, 21, 22, 23, 24, 25] : List Nat).getD 0 0) (([4, 5, 6, 7, 8, 9, 10, 11, 13, 16, 17, 18, 19, 21, 22, 23, 24, 25] : List Nat).getD 4 0)
      (by decide) (by decide)).trans (by decide))
    c25_13_14))
  (tryRange_fail 20 [4, 5, 6, 7, 8, 9, 10, 11, 13, 16, 17, 18, 19, 21, 22, 23, 24, 25] (s25.take 13) 5 12
    ((bridge25_13 (([4, 5, 6, 7, 8, 9, 10, 11, 13, 16, 17, 18, 19, 21, 22, 23, 24, 25] : List Nat).getD 0 0) (([4, 5, 6, 7, 8, 9, 10, 11, 13, 16, 17, 18, 19, 21, 22, 23, 24, 25] : List Nat).getD 5 0)
      (by decide) (by decide)).trans (by decide))
    c25_13_15))
  (tryRange_fail 20 [4, 5, 6, 7, 8, 9, 10, 11, 13, 16, 17, 18, 19, 21, 22, 23, 24, 25] (s25.take 13) 6 11
    ((bridge25_13 (([4, 5, 6, 7, 8, 9, 10, 11, 13, 16, 17, 18, 19, 21, 22, 23, 24, 25] : List Nat).getD 0 0) (([4, 5, 6, 7, 8, 9, 10, 11, 13, 16, 17, 18, 19, 21, 22, 23, 24, 25] : List Nat).getD 6 0)
      (by decide) (by decide)).trans (by decide))
    c25_13_16))
  (tryRange_fail 20 [4, 5, 6, 7, 8, 9, 10, 11, 13, 16, 17, 18, 19, 21, 22, 23, 24, 25] (s25.take 13) 7 10
    ((bridge25_13 (([4, 5, 6, 7, 8, 9, 10, 11, 13, 16, 17, 18, 19, 21, 22, 23, 24, 25] : List Nat).getD 0 0) (([4, 5, 6, 7, 8, 9, 10, 11, 13, 16, 17, 18, 19, 21, 22, 23, 24, 25] : List Nat).getD 7 0)
      (by decide) (by decide)).trans (by decide))
    c25_13_17))
  (tryRange_skipAll 20 [4, 5, 6, 7, 8, 9, 10, 11, 13, 16, 17, 18, 19, 21, 22, 23, 24, 25] (s25.take 13) 52093862775067432915339799377759154892496328802647501818771932469147856570011558160871642108174360516649981970227341359516248464918124063855576665996554693534674131562535564053933086619409182658760965542909024534898122669735527927439687680 bridge25_13
    (by decide) 8 5 5 (by decide)))
  (tryRange_hit 20 [4, 5, 6, 7, 8, 9, 10, 11, 13, 16, 17, 18, 19, 21, 22, 23, 24, 25] (s25.take 13) 13 4 [(5, 22), (6, 23), (7, 16), (8, 17), (9, 18), (10, 19), (11, 24), (13, 25)]
    ((bridge25_13 (([4, 5, 6, 7, 8, 9, 10, 11, 13, 16, 17, 18, 19, 21, 22, 23, 24, 25] : List Nat).getD 0 0) (([4, 5, 6, 7, 8, 9, 10, 11, 13, 16, 17, 18, 19, 21, 22, 23, 24, 25] : List Nat).getD 13 0)
      (by decide) (by decide)).trans (by decide))
    n25_13_d4)))

theorem c25_13_18 : fvpF 21 [4, 5, 6, 7, 9, 10, 11, 13, 16, 17, 18, 19, 20, 21, 22, 23, 24, 25] (s25.take 13) = none :=
  fvpF_none_of_cert 21 [4, 5, 6, 7, 9, 10, 11, 13, 16, 17, 18, 19, 20, 21, 22, 23, 24, 25] (s25.take 13) 52093862775067432915339799377759154892496328802647501818771932469147856570011558160871642108174360516649981970227341359516248464918124063855576665996554693534674131562535564053933086619409182658760965542909024534898122669735527927439687680 bridge25_13
    [4, 5, 6, 7, 9, 10, 11, 13] [[16], [17], [18], [19], [20], [21], [22], [23], [24]]
    (by decide) (by decide) (by decide) (by decide) (by decide) (by decide)
    (by decide) (by decide)

theorem c25_13_19 : fvpF 21 [4, 5, 6, 7, 8, 10, 11, 13, 16, 17, 18, 19, 20, 21, 22, 23, 24, 25] (s25.take 13) = none :=
  fvpF_none_of_cert 21 [4, 5, 6, 7, 8, 10, 11, 13, 16, 17, 18, 19, 20, 21, 22, 23, 24, 25] (s25.take 13) 52093862775067432915339799377759154892496328802647501818771932469147856570011558160871642108174360516649981970227341359516248464918124063855576665996554693534674131562535564053933086619409182658760965542909024534898122669735527927439687680 bridge25_13
    [4, 5, 6, 7, 8, 10, 11, 13] [[16], [17], [18], [19], [20], [21], [22], [23], [24]]
    (by decide) (by decide) (by decide) (by decide) (by decide) (by decide)
    (by decide) (by decide)

theorem c25_13_20 : fvpF 21 [4, 5, 6, 7, 8, 9, 10, 11, 16, 17, 18, 19, 20, 21, 22, 23, 24, 25] (s25.take 13) = none :=
  fvpF_none_of_cert 21 [4, 5, 6, 7, 8, 9, 10, 11, 16, 17, 18, 19, 20, 21, 22, 23, 24, 25] (s25.take 13) 52093862775067432915339799377759154892496328802647501818771932469147856570011558160871642108174360516649981970227341359516248464918124063855576665996554693534674131562535564053933086619409182658760965542909024534898122669735527927439687680 bridge25_13
    [4, 5, 6, 7, 8, 9, 10, 11] [[16], [17], [18], [19], [20], [21], [22], [23], [24]]
    (by decide) (by decide) (by decide) (by decide) (by decide) (by decide)
    (by decide) (by decide)

theorem n25_13_d2 : fvpF 22 [3, 4, 5, 6, 7, 8, 9, 10, 11, 13, 16, 17, 18, 19, 20, 21, 22, 23, 24, 25] (s25.take 13) = some [(3, 20), (4, 21), (5, 22), (6, 23), (7, 16), (8, 17), (9, 18), (10, 19), (11, 24), (13, 25)] :=
  (Eq.trans (fvpF_succ 21 [3, 4, 5, 6, 7, 8, 9, 10, 11, 13, 16, 17, 18, 19, 20, 21, 22, 23, 24, 25] (s25.take 13) (by decide))
  (Eq.trans (Eq.trans (Eq.trans (Eq.trans (Eq.trans (Eq.trans (tryRange_skipAll 21 [3, 4, 5, 6, 7, 8, 9, 10, 11, 13, 16, 17, 18, 19, 20, 21, 22, 23, 24, 25] (s25.take 13) 52093862775067432915339799377759154892496328802647501818771932469147856570011558160871642108174360516649981970227341359516248464918124063855576665996554693534674131562535564053933086619409182658760965542909024534898122669735527927439687680 bridge25_13
    (by decide) 1 4 15 (by decide))
  (tryRange_fail 21 [3, 4, 5, 6, 7, 8, 9, 10, 11, 13, 16, 17, 18, 19, 20, 21, 22, 23, 24, 25] (s25.take 13) 5 14
    ((bridge25_13 (([3, 4, 5, 6, 7, 8, 9, 10, 11, 13, 16, 17, 18, 19, 20, 21, 22, 23, 24, 25] : List Nat).getD 0 0) (([3, 4, 5, 6, 7, 8, 9, 10, 11, 13, 16, 17, 18, 19, 20, 21, 22, 23, 24, 25] : List Nat).getD 5 0)
      (by decide) (by decide)).trans (by decide))
    c25_13_18))
  (tryRange_fail 21 [3, 4, 5, 6, 7, 8, 9, 10, 11, 13, 16, 17, 18, 19, 20, 21, 22, 23, 24, 25] (s25.take 13) 6 13
    ((bridge25_13 (([3, 4, 5, 6, 7, 8, 9, 10, 11, 13, 16, 17, 18, 19, 20, 21, 22, 23, 24, 25] : List Nat).getD 0 0) (([3, 4, 5, 6, 7, 8, 9, 10, 11, 13, 16, 17, 18, 19, 20, 21, 22, 23, 24, 25] : List Nat).getD 6 0)
      (by decide) (by decide)).trans (by decide))
    c25_13_19))
  (tryRange_skipAll 21 [3, 4, 5, 6, 7, 8, 9, 10, 11, 13, 16, 17, 18, 19, 20, 21, 22, 23, 24, 25] (s25.take 13) 52093862775067432915339799377759154892496328802647501818771932469147856570011558160871642108174360516649981970227341359516248464918124063855576665996554693534674131562535564053933086619409182658760965542909024534898122669735527927439687680 bridge25_13
    (by decide) 7 2 11 (by decide)))
  (tryRange_fail 21 [3, 4, 5, 6, 7, 8, 9, 10, 11, 13, 16, 17, 18, 19, 20, 21, 22, 23, 24, 25] (s25.take 13) 9 10
    ((bridge25_13 (([3, 4, 5, 6, 7, 8, 9, 10, 11, 13, 16, 17, 18, 19, 20, 21, 22, 23, 24, 25] : List Nat).getD 0 0) (([3, 4, 5, 6, 7, 8, 9, 10, 11, 13, 16, 17, 18, 19, 20, 21, 22, 23, 24, 25] : List Nat).getD 9 0)
      (by decide) (by decide)).trans (by decide))
    c25_13_20))
  (tryRange_skipAll 21 [3, 4, 5, 6, 7, 8, 9, 10, 11, 13, 16, 17, 18, 19, 20, 21, 22, 23, 24, 25] (s25.take 13) 52093862775067432915339799377759154892496328802647501818771932469147856570011558160871642108174360516649981970227341359516248464918124063855576665996554693534674131562535564053933086619409182658760965542909024534898122669735527927439687680 bridge25_13
    (by decide) 10 4 6 (by decide)))
  (tryRange_hit 21 [3, 4, 5, 6, 7, 8, 9, 10, 11, 13, 16, 17, 18, 19, 20, 21, 22, 23, 24, 25] (s25.take 13) 14 5 [(4, 21), (5, 22), (6, 23), (7, 16), (8, 17), (9, 18), (10, 19), (11, 24), (13, 25)]
    ((bridge25_13 (([3, 4, 5, 6, 7, 8, 9, 10, 11, 13, 16, 17, 18, 19, 20, 21, 22, 23, 24, 25] : List Nat).getD 0 0) (([3, 4, 5, 6, 7, 8, 9, 10, 11, 13, 16, 17, 18, 19, 20, 21, 22, 23, 24, 25] : List Nat).getD 14 0)
      (by decide) (by decide)).trans (by decide))
    n25_13_d3)))

theorem n25_13_d1 : fvpF 23 [2, 3, 4, 5, 6, 7, 8, 9, 10, 11, 12, 13, 16, 17, 18, 19, 20, 21, 22, 23, 24, 25] (s25.take 13) = some [(2, 12), (3, 20), (4, 21), (5, 22), (6, 23), (7, 16), (8, 17), (9, 18), (10, 19), (11, 24), (13, 25)] :=
  (Eq.trans (fvpF_succ 22 [2, 3, 4, 5, 6, 7, 8, 9, 10, 11, 12, 13, 16, 17, 18, 19, 20, 21, 22, 23, 24, 25] (s25.take 13) (by decide))
  (Eq.trans (tryRange_skipAll 22 [2, 3, 4, 5, 6, 7, 8, 9, 10, 11, 12, 13, 16, 17, 18, 19, 20, 21, 22, 23, 24, 25] (s25.take 13) 52093862775067432915339799377759154892496328802647501818771932469147856570011558160871642108174360516649981970227341359516248464918124063855576665996554693534674131562535564053933086619409182658760965542909024534898122669735527927439687680 bridge25_13
    (by decide) 1 9 12 (by decide))
  (tryRange_hit 22 [2, 3, 4, 5, 6, 7, 8, 9, 10, 11, 12, 13, 16, 17, 18, 19, 20, 21, 22, 23, 24, 25] (s25.take 13) 10 11 [(3, 20), (4, 21), (5, 22), (6, 23), (7, 16), (8, 17), (9, 18), (10, 19), (11, 24), (13, 25)]
    ((bridge25_13 (([2, 3, 4, 5, 6, 7, 8, 9, 10, 11, 12, 13, 16, 17, 18, 19, 20, 21, 22, 23, 24, 25] : List Nat).getD 0 0) (([2, 3, 4, 5, 6, 7, 8, 9, 10, 11, 12, 13, 16, 17, 18, 19, 20, 21, 22, 23, 24, 25] : List Nat).getD 10 0)
      (by decide) (by decide)).trans (by decide))
    n25_13_d2)))

theorem n25_13_d0 : fvpF 24 [1, 2, 3, 4, 5, 6, 7, 8, 9, 10, 11, 12, 13, 15, 16, 17, 18, 19, 20, 21, 22, 23, 24, 25] (s25.take 13) = some [(1, 15), (2, 12), (3, 20), (4, 21), (5, 22), (6, 23), (7, 16), (8, 17), (9, 18), (10, 19), (11, 24), (13, 25)] :=
  (Eq.trans (fvpF_succ 23 [1, 2, 3, 4, 5, 6, 7, 8, 9, 10, 11, 12, 13, 15, 16, 17, 18, 19, 20, 21, 22, 23, 24, 25] (s25.take 13) (by decide))
  (Eq.trans (tryRange_skipAll 23 [1, 2, 3, 4, 5, 6, 7, 8, 9, 10, 11, 12, 13, 15, 16, 17, 18, 19, 20, 21, 22, 23, 24, 25] (s25.take 13) 52093862775067432915339799377759154892496328802647501818771932469147856570011558160871642108174360516649981970227341359516248464918124063855576665996554693534674131562535564053933086619409182658760965542909024534898122669735527927439687680 bridge25_13
    (by decide) 1 12 11 (by decide))
  (tryRange_hit 23 [1, 2, 3, 4, 5, 6, 7, 8, 9, 10, 11, 12, 13, 15, 16, 17, 18, 19, 20, 21, 22, 23, 24, 25] (s25.take 13) 13 10 [(2, 12), (3, 20), (4, 21), (5, 22), (6, 23), (7, 16), (8, 17), (9, 18), (10, 19), (11, 24), (13, 25)]
    ((bridge25_13 (([1, 2, 3, 4, 5, 6, 7, 8, 9, 10, 11, 12, 13, 15, 16, 17, 18, 19, 20, 21, 22, 23, 24, 25] : List Nat).getD 0 0) (([1, 2, 3, 4, 5, 6, 7, 8, 9, 10, 11, 12, 13, 15, 16, 17, 18, 19, 20, 21, 22, 23, 24, 25] : List Nat).getD 13 0)
      (by decide) (by decide)).trans (by decide))
    n25_13_d1)))

theorem fvp25_13 : findValidPairs [1, 2, 3, 4, 5, 6, 7, 8, 9, 10, 11, 12, 13, 15, 16, 17, 18, 19, 20, 21, 22, 23, 24, 25] (s25.take 13) = some [(1, 15), (2, 12), (3, 20), (4, 21), (5, 22), (6, 23), (7, 16), (8, 17), (9, 18), (10, 19), (11, 24), (13, 25)] := n25_13_d0

theorem n25_14_d11 : fvpF 13 [12, 24] (s25.take 14) = some [(12, 24)] :=
  (Eq.trans (fvpF_succ 12 [12, 24] (s25.take 14) (by decide))
  (tryRange_hit 12 [12, 24] (s25.take 14) 1 0 []
    ((bridge25_14 (([12, 24] : List Nat).getD 0 0) (([12, 24] : List Nat).getD 1 0)
      (by decide) (by decide)).trans (by decide))
    (fvpF_nil 12 (s25.take 14))))

theorem n25_14_d10 : fvpF 14 [11, 12, 19, 24] (s25.take 14) = some [(11, 19), (12, 24)] :=
  (Eq.trans (fvpF_succ 13 [11, 12, 19, 24] (s25.take 14) (by decide))
  (Eq.trans (tryRange_skipAll 13 [11, 12, 19, 24] (s25.take 14) 52093862775067432915339799377759154892496328802647501818771932469147856570011558160871642108174360516649987648654874918945081035424459894676808098003957862172316857325131206657038296455375637977832722321979828042806569272346061605565366272 bridge25_14
    (by decide) 1 1 2 (by decide))
  (tryRange_hit 13 [11, 12, 19, 24] (s25.take 14) 2 1 [(12, 24)]
    ((bridge25_14 (([11, 12, 19, 24] : List Nat).getD 0 0) (([11, 12, 19, 24] : List Nat).getD 2 0)
      (by decide) (by decide)).trans (by decide))
    n25_14_d11)))

theorem n25_14_d9 : fvpF 15 [10, 11, 12, 18, 19, 24] (s25.take 14) = some [(10, 18), (11, 19), (12, 24)] :=
  (Eq.trans (fvpF_succ 14 [10, 11, 12, 18, 19, 24] (s25.take 14) (by decide))
  (Eq.trans (tryRange_skipAll 14 [10, 11, 12, 18, 19, 24] (s25.take 14) 52093862775067432915339799377759154892496328802647501818771932469147856570011558160871642108174360516649987648654874918945081035424459894676808098003957862172316857325131206657038296455375637977832722321979828042806569272346061605565366272 bridge25_14
    (by decide) 1 2 3 (by decide))
  (tryRange_hit 14 [10, 11, 12, 18, 19, 24] (s25.take 14) 3 2 [(11, 19), (12, 24)]
    ((bridge25_14 (([10, 11, 12, 18, 19, 24] : List Nat).getD 0 0) (([10, 11, 12, 18, 19, 24] : List Nat).getD 3 0)
      (by decide) (by decide)).trans (by decide))
    n25_14_d10)))

theorem c25_14_0 : fvpF 15 [10, 11, 12, 18, 24, 25] (s25.take 14) = none :=
  fvpF_none_of_cert 15 [10, 11, 12, 18, 24, 25] (s25.take 14) 52093862775067432915339799377759154892496328802647501818771932469147856570011558160871642108174360516649987648654874918945081035424459894676808098003957862172316857325131206657038296455375637977832722321979828042806569272346061605565366272 bridge25_14
    [12, 18] [[10], [11], [24]]
    (by decide) (by decide) (by decide) (by decide) (by decide) (by decide)
    (by decide) (by decide)

theorem n25_14_d8 : fvpF 16 [9, 10, 11, 12, 18, 19, 24, 25] (s25.take 14) = some [(9, 25), (10, 18), (11, 19), (12, 24)] :=
  (Eq.trans (fvpF_succ 15 [9, 10, 11, 12, 18, 19, 24, 25] (s25.take 14) (by decide))
  (Eq.trans (Eq.trans (Eq.trans (tryRange_skipAll 15 [9, 10, 11, 12, 18, 19, 24, 25] (s25.take 14) 52093862775067432915339799377759154892496328802647501818771932469147856570011558160871642108174360516649987648654874918945081035424459894676808098003957862172316857325131206657038296455375637977832722321979828042806569272346061605565366272 bridge25_14
    (by decide) 1 4 3 (by decide))
  (tryRange_fail 15 [9, 10, 11, 12, 18, 19, 24, 25] (s25.take 14) 5 2
    ((bridge25_14 (([9, 10, 11, 12, 18, 19, 24, 25] : List Nat).getD 0 0) (([9, 10, 11, 12, 18, 19, 24, 25] : List Nat).getD 5 0)
      (by decide) (by decide)).trans (by decide))
    c25_14_0))
  (tryRange_skipAll 15 [9, 10, 11, 12, 18, 19, 24, 25] (s25.take 14) 52093862775067432915339799377759154892496328802647501818771932469147856570011558160871642108174360516649987648654874918945081035424459894676808098003957862172316857325131206657038296455375637977832722321979828042806569272346061605565366272 bridge25_14
    (by decide) 6 1 1 (by decide)))
  (tryRange_hit 15 [9, 10, 11, 12, 18, 19, 24, 25] (s25.take 14) 7 0 [(10, 18), (11, 19), (12, 24)]
    ((bridge25_14 (([9, 10, 11, 12, 18, 19, 24, 25] : List Nat).getD 0 0) (([9, 10, 11, 12, 18, 19, 24, 25] : List Nat).getD 7 0)
      (by decide) (by decide)).trans (by decide))
    n25_14_d9)))

theorem n25_14_d7 : fvpF 17 [8, 9, 10, 11, 12, 16, 18, 19, 24, 25] (s25.take 14) = some [(8, 16), (9, 25), (10, 18), (11, 19), (12, 24)] :=
  (Eq.trans (fvpF_succ 16 [8, 9, 10, 11, 12, 16, 18, 19, 24, 25] (s25.take 14) (by decide))
  (Eq.trans (tryRange_skipAll 16 [8, 9, 10, 11, 12, 16, 18, 19, 24, 25] (s25.take 14) 52093862775067432915339799377759154892496328802647501818771932469147856570011558160871642108174360516649987648654874918945081035424459894676808098003957862172316857325131206657038296455375637977832722321979828042806569272346061605565366272 bridge25_14
    (by decide) 1 4 5 (by decide))
  (tryRange_hit 16 [8, 9, 10, 11, 12, 16, 18, 19, 24, 25] (s25.take 14) 5 4 [(9, 25), (10, 18), (11, 19), (12, 24)]
    ((bridge25_14 (([8, 9, 10, 11, 12, 16, 18, 19, 24, 25] : List Nat).getD 0 0) (([8, 9, 10, 11, 12, 16, 18, 19, 24, 25] : List Nat).getD 5 0)
      (by decide) (by decide)).trans (by decide))
    n25_14_d8)))

theorem c25_14_1 : fvpF 17 [9, 10, 11, 12, 16, 17, 18, 19, 24, 25] (s25.take 14) = none :=
  fvpF_none_of_cert 17 [9, 10, 11, 12, 16, 17, 18, 19, 24, 25] (s25.take 14) 52093862775067432915339799377759154892496328802647501818771932469147856570011558160871642108174360516649987648654874918945081035424459894676808098003957862172316857325131206657038296455375637977832722321979828042806569272346061605565366272 bridge25_14
    [9, 10, 11, 12] [[16], [17], [18], [19], [24]]
    (by decide) (by decide) (by decide) (by decide) (by decide) (by decide)
    (by decide) (by decide)

theorem c25_14_2 : fvpF 17 [8, 10, 11, 12, 16, 17, 18, 19, 24, 25] (s25.take 14) = none :=
  fvpF_none_of_cert 17 [8, 10, 11, 12, 16, 17, 18, 19, 24, 25] (s25.take 14) 52093862775067432915339799377759154892496328802647501818771932469147856570011558160871642108174360516649987648654874918945081035424459894676808098003957862172316857325131206657038296455375637977832722321979828042806569272346061605565366272 bridge25_14
    [8, 10, 11, 12] [[16], [17], [18], [19], [24]]
    (by decide) (by decide) (by decide) (by decide) (by decide) (by decide)
    (by decide) (by decide)

theorem c25_14_3 : fvpF 17 [8, 9, 11, 12, 16, 17, 18, 19, 24, 25] (s25.take 14) = none :=
  fvpF_none_of_cert 17 [8, 9, 11, 12, 16, 17, 18, 19, 24, 25] (s25.take 14) 52093862775067432915339799377759154892496328802647501818771932469147856570011558160871642108174360516649987648654874918945081035424459894676808098003957862172316857325131206657038296455375637977832722321979828042806569272346061605565366272 bridge25_14
    [8, 9, 11, 12] [[16], [17], [18], [19], [24]]
    (by decide) (by decide) (by decide) (by decide) (by decide) (by decide)
    (by decide) (by decide)

theorem c25_14_4 : fvpF 17 [8, 9, 10, 12, 16, 17, 18, 19, 24, 25] (s25.take 14) = none :=
  fvpF_none_of_cert 17 [8, 9, 10, 12, 16, 17, 18, 19, 24, 25] (s25.take 14) 52093862775067432915339799377759154892496328802647501818771932469147856570011558160871642108174360516649987648654874918945081035424459894676808098003957862172316857325131206657038296455375637977832722321979828042806569272346061605565366272 bridge25_14
    [8, 9, 10, 12] [[16], [17], [18], [19], [24]]
    (by decide) (by decide) (by decide) (by decide) (by decide) (by decide)
    (by decide) (by decide)

theorem c25_14_5 : fvpF 17 [8, 9, 10, 11, 16, 17, 18, 19, 24, 25] (s25.take 14) = none :=
  fvpF_none_of_cert 17 [8, 9, 10, 11, 16, 17, 18, 19, 24, 25] (s25.take 14) 52093862775067432915339799377759154892496328802647501818771932469147856570011558160871642108174360516649987648654874918945081035424459894676808098003957862172316857325131206657038296455375637977832722321979828042806569272346061605565366272 bridge25_14
    [8, 9, 10, 11] [[16], [17], [18], [19], [24]]
    (by decide) (by decide) (by decide) (by decide) (by decide) (by decide)
    (by decide) (by decide)

theorem n25_14_d6 : fvpF 18 [7, 8, 9, 10, 11, 12, 16, 17, 18, 19, 24, 25] (s25.take 14) = some [(7, 17), (8, 16), (9, 25), (10, 18), (11, 19), (12, 24)] :=
  (Eq.trans (fvpF_succ 17 [7, 8, 9, 10, 11, 12, 16, 17, 18, 19, 24, 25] (s25.take 14) (by decide))
  (Eq.trans (Eq.trans (Eq.trans (Eq.trans (Eq.trans (Eq.trans (tryRange_fail 17 [7, 8, 9, 10, 11, 12, 16, 17, 18, 19, 24, 25] (s25.take 14) 1 10
    ((bridge25_14 (([7, 8, 9, 10, 11, 12, 16, 17, 18, 19, 24, 25] : List Nat).getD 0 0) (([7, 8, 9, 10, 11, 12, 16, 17, 18, 19, 24, 25] : List Nat).getD 1 0)
      (by decide) (by decide)).trans (by decide))
    c25_14_1)
  (tryRange_fail 17 [7, 8, 9, 10, 11, 12, 16, 17, 18, 19, 24, 25] (s25.take 14) 2 9
    ((bridge25_14 (([7, 8, 9, 10, 11, 12, 16, 17, 18, 19, 24, 25] : List Nat).getD 0 0) (([7, 8, 9, 10, 11, 12, 16, 17, 18, 19, 24, 25] : List Nat).getD 2 0)
      (by decide) (by decide)).trans (by decide))
    c25_14_2))
  (tryRange_fail 17 [7, 8, 9, 10, 11, 12, 16, 17, 18, 19, 24, 25] (s25.take 14) 3 8
    ((bridge25_14 (([7, 8, 9, 10, 11, 12, 16, 17, 18, 19, 24, 25] : List Nat).getD 0 0) (([7, 8, 9, 10, 11, 12, 16, 17, 18, 19, 24, 25] : List Nat).getD 3 0)
      (by decide) (by decide)).trans (by decide))
    c25_14_3))
  (tryRange_fail 17 [7, 8, 9, 10, 11, 12, 16, 17, 18, 19, 24, 25] (s25.take 14) 4 7
    ((bridge25_14 (([7, 8, 9, 10, 11, 12, 16, 17, 18, 19, 24, 25] : List Nat).getD 0 0) (([7, 8, 9, 10, 11, 12, 16, 17, 18, 19, 24, 25] : List Nat).getD 4 0)
      (by decide) (by decide)).trans (by decide))
    c25_14_4))
  (tryRange_fail 17 [7, 8, 9, 10, 11, 12, 16, 17, 18, 19, 24, 25] (s25.take 14) 5 6
    ((bridge25_14 (([7, 8, 9, 10, 11, 12, 16, 17, 18, 19, 24, 25] : List Nat).getD 0 0) (([7, 8, 9, 10, 11, 12, 16, 17, 18, 19, 24, 25] : List Nat).getD 5 0)
      (by decide) (by decide)).trans (by decide))
    c25_14_5))
  (tryRange_skipAll 17 [7, 8, 9, 10, 11, 12, 16, 17, 18, 19, 24, 25] (s25.take 14) 52093862775067432915339799377759154892496328802647501818771932469147856570011558160871642108174360516649987648654874918945081035424459894676808098003957862172316857325131206657038296455375637977832722321979828042806569272346061605565366272 bridge25_14
    (by decide) 6 1 5 (by decide)))
  (tryRange_hit 17 [7, 8, 9, 10, 11, 12, 16, 17, 18, 19, 24, 25] (s25.take 14) 7 4 [(8, 16), (9, 25), (10, 18), (11, 19), (12, 24)]
    ((bridge25_14 (([7, 8, 9, 10, 11, 12, 16, 17, 18, 19, 24, 25] : List Nat).getD 0 0) (([7, 8, 9, 10, 11, 12, 16, 17, 18, 19, 24, 25] : List Nat).getD 7 0)
      (by decide) (by decide)).trans (by decide))
    n25_14_d7)))

theorem c25_14_6 : fvpF 18 [7, 9, 10, 11, 12, 16, 17, 18, 19, 22, 24, 25] (s25.take 14) = none :=
  fvpF_none_of_cert 18 [7, 9, 10, 11, 12, 16, 17, 18, 19, 22, 24, 25] (s25.take 14) 52093862775067432915339799377759154892496328802647501818771932469147856570011558160871642108174360516649987648654874918945081035424459894676808098003957862172316857325131206657038296455375637977832722321979828042806569272346061605565366272 bridge25_14
    [7, 9, 10, 11, 12] [[16], [17], [18], [19], [22], [24]]
    (by decide) (by decide) (by decide) (by decide) (by decide) (by decide)
    (by decide) (by decide)

theorem c25_14_7 : fvpF 18 [7, 8, 10, 11, 12, 16, 17, 18, 19, 22, 24, 25] (s25.take 14) = none :=
  fvpF_none_of_cert 18 [7, 8, 10, 11, 12, 16, 17, 18, 19, 22, 24, 25] (s25.take 14) 52093862775067432915339799377759154892496328802647501818771932469147856570011558160871642108174360516649987648654874918945081035424459894676808098003957862172316857325131206657038296455375637977832722321979828042806569272346061605565366272 bridge25_14
    [7, 8, 10, 11, 12] [[16], [17], [18], [19], [22], [24]]
    (by decide) (by decide) (by decide) (by decide) (by decide) (by decide)
    (by decide) (by decide)

theorem c25_14_8 : fvpF 18 [7, 8, 9, 11, 12, 16, 17, 18, 19, 22, 24, 25] (s25.take 14) = none :=
  fvpF_none_of_cert 18 [7, 8, 9, 11, 12, 16, 17, 18, 19, 22, 24, 25] (s25.take 14) 52093862775067432915339799377759154892496328802647501818771932469147856570011558160871642108174360516649987648654874918945081035424459894676808098003957862172316857325131206657038296455375637977832722321979828042806569272346061605565366272 bridge25_14
    [7, 8, 9, 11, 12] [[16], [17], [18], [19], [22], [24]]
    (by decide) (by decide) (by decide) (by decide) (by decide) (by decide)
    (by decide) (by decide)

theorem c25_14_9 : fvpF 18 [7, 8, 9, 10, 12, 16, 17, 18, 19, 22, 24, 25] (s25.take 14) = none :=
  fvpF_none_of_cert 18 [7, 8, 9, 10, 12, 16, 17, 18, 19, 22, 24, 25] (s25.take 14) 52093862775067432915339799377759154892496328802647501818771932469147856570011558160871642108174360516649987648654874918945081035424459894676808098003957862172316857325131206657038296455375637977832722321979828042806569272346061605565366272 bridge25_14
    [7, 8, 9, 10, 12] [[16], [17], [18], [19], [22], [24]]
    (by decide) (by decide) (by decide) (by decide) (by decide) (by decide)
    (by decide) (by decide)

theorem c25_14_10 : fvpF 18 [7, 8, 9, 10, 11, 16, 17, 18, 19, 22, 24, 25] (s25.take 14) = none :=
  fvpF_none_of_cert 18 [7, 8, 9, 10, 11, 16, 17, 18, 19, 22, 24, 25] (s25.take 14) 52093862775067432915339799377759154892496328802647501818771932469147856570011558160871642108174360516649987648654874918945081035424459894676808098003957862172316857325131206657038296455375637977832722321979828042806569272346061605565366272 bridge25_14
    [7, 8, 9, 10, 11] [[16], [17], [18], [19], [22], [24]]
    (by decide) (by decide) (by decide) (by decide) (by decide) (by decide)
    (by decide) (by decide)

theorem n25_14_d5 : fvpF 19 [6, 7, 8, 9, 10, 11, 12, 16, 17, 18, 19, 22, 24, 25] (s25.take 14) = some [(6, 22), (7, 17), (8, 16), (9, 25), (10, 18), (11, 19), (12, 24)] :=
  (Eq.trans (fvpF_succ 18 [6, 7, 8, 9, 10, 11, 12, 16, 17, 18, 19, 22, 24, 25] (s25.take 14) (by decide))
  (Eq.trans (Eq.trans (Eq.trans (Eq.trans (Eq.trans (Eq.trans (Eq.trans (tryRange_skipAll 18 [6, 7, 8, 9, 10, 11, 12, 16, 17, 18, 19, 22, 24, 25] (s25.take 14) 52093862775067432915339799377759154892496328802647501818771932469147856570011558160871642108174360516649987648654874918945081035424459894676808098003957862172316857325131206657038296455375637977832722321979828042806569272346061605565366272 bridge25_14
    (by decide) 1 1 12 (by decide))
  (tryRange_fail 18 [6, 7, 8, 9, 10, 11, 12, 16, 17, 18, 19, 22, 24, 25] (s25.take 14) 2 11
    ((bridge25_14 (([6, 7, 8, 9, 10, 11, 12, 16, 17, 18, 19, 22, 24, 25] : List Nat).getD 0 0) (([6, 7, 8, 9, 10, 11, 12, 16, 17, 18, 19, 22, 24, 25] : List Nat).getD 2 0)
      (by decide) (by decide)).trans (by decide))
    c25_14_6))
  (tryRange_fail 18 [6, 7, 8, 9, 10, 11, 12, 16, 17, 18, 19, 22, 24, 25] (s25.take 14) 3 10
    ((bridge25_14 (([6, 7, 8, 9, 10, 11, 12, 16, 17, 18, 19, 22, 24, 25] : List Nat).getD 0 0) (([6, 7, 8, 9, 10, 11, 12, 16, 17, 18, 19, 22, 24, 25] : List Nat).getD 3 0)
      (by decide) (by decide)).trans (by decide))
    c25_14_7))
  (tryRange_fail 18 [6, 7, 8, 9, 10, 11, 12, 16, 17, 18, 19, 22, 24, 25] (s25.take 14) 4 9
    ((bridge25_14 (([6, 7, 8, 9, 10, 11, 12, 16, 17, 18, 19, 22, 24, 25] : List Nat).getD 0 0) (([6, 7, 8, 9, 10, 11, 12, 16, 17, 18, 19, 22, 24, 25] : List Nat).getD 4 0)
      (by decide) (by decide)).trans (by decide))
    c25_14_8))
  (tryRange_fail 18 [6, 7, 8, 9, 10, 11, 12, 16, 17, 18, 19, 22, 24, 25] (s25.take 14) 5 8
    ((bridge25_14 (([6, 7, 8, 9, 10, 11, 12, 16, 17, 18, 19, 22, 24, 25] : List Nat).getD 0 0) (([6, 7, 8, 9, 10, 11, 12, 16, 17, 18, 19, 22, 24, 25] : List Nat).getD 5 0)
      (by decide) (by decide)).trans (by decide))
    c25_14_9))
  (tryRange_fail 18 [6, 7, 8, 9, 10, 11, 12, 16, 17, 18, 19, 22, 24, 25] (s25.take 14) 6 7
    ((bridge25_14 (([6, 7, 8, 9, 10, 11, 12, 16, 17, 18, 19, 22, 24, 25] : List Nat).getD 0 0) (([6, 7, 8, 9, 10, 11, 12, 16, 17, 18, 19, 22, 24, 25] : List Nat).getD 6 0)
      (by decide) (by decide)).trans (by decide))
    c25_14_10))
  (tryRange_skipAll 18 [6, 7, 8, 9, 10, 11, 12, 16, 17, 18, 19, 22, 24, 25] (s25.take 14) 52093862775067432915339799377759154892496328802647501818771932469147856570011558160871642108174360516649987648654874918945081035424459894676808098003957862172316857325131206657038296455375637977832722321979828042806569272346061605565366272 bridge25_14
    (by decide) 7 4 3 (by decide)))
  (tryRange_hit 18 [6, 7, 8, 9, 10, 11, 12, 16, 17, 18, 19, 22, 24, 25] (s25.take 14) 11 2 [(7, 17), (8, 16), (9, 25), (10, 18), (11, 19), (12, 24)]
    ((bridge25_14 (([6, 7, 8, 9, 10, 11, 12, 16, 17, 18, 19, 22, 24, 25] : List Nat).getD 0 0) (([6, 7, 8, 9, 10, 11, 12, 16, 17, 18, 19, 22, 24, 25] : List Nat).getD 11 0)
      (by decide) (by decide)).trans (by decide))
    n25_14_d6)))

theorem c25_14_11 : fvpF 19 [6, 7, 9, 10, 11, 12, 16, 17, 18, 19, 22, 23, 24, 25] (s25.take 14) = none :=
  fvpF_none_of_cert 19 [6, 7, 9, 10, 11, 12, 16, 17, 18, 19, 22, 23, 24, 25] (s25.take 14) 52093862775067432915339799377759154892496328802647501818771932469147856570011558160871642108174360516649987648654874918945081035424459894676808098003957862172316857325131206657038296455375637977832722321979828042806569272346061605565366272 bridge25_14
    [6, 7, 9, 10, 11, 12] [[16], [17], [18], [19], [22], [23], [24]]
    (by decide) (by decide) (by decide) (by decide) (by decide) (by decide)
    (by decide) (by decide)

theorem c25_14_12 : fvpF 19 [6, 7, 8, 10, 11, 12, 16, 17, 18, 19, 22, 23, 24, 25] (s25.take 14) = none :=
  fvpF_none_of_cert 19 [6, 7, 8, 10, 11, 12, 16, 17, 18, 19, 22, 23, 24, 25] (s25.take 14) 52093862775067432915339799377759154892496328802647501818771932469147856570011558160871642108174360516649987648654874918945081035424459894676808098003957862172316857325131206657038296455375637977832722321979828042806569272346061605565366272 bridge25_14
    [6, 7, 8, 10, 11, 12] [[16], [17], [18], [19], [22], [23], [24]]
    (by decide) (by decide) (by decide) (by decide) (by decide) (by decide)
    (by decide) (by decide)

theorem c25_14_13 : fvpF 19 [6, 7, 8, 9, 11, 12, 16, 17, 18, 19, 22, 23, 24, 25] (s25.take 14) = none :=
  fvpF_none_of_cert 19 [6, 7, 8, 9, 11, 12, 16, 17, 18, 19, 22, 23, 24, 25] (s25.take 14) 52093862775067432915339799377759154892496328802647501818771932469147856570011558160871642108174360516649987648654874918945081035424459894676808098003957862172316857325131206657038296455375637977832722321979828042806569272346061605565366272 bridge25_14
    [6, 7, 8, 9, 11, 12] [[16], [17], [18], [19], [22], [23], [24]]
    (by decide) (by decide) (by decide) (by decide) (by decide) (by decide)
    (by decide) (by decide)

theorem c25_14_14 : fvpF 19 [6, 7, 8, 9, 10, 12, 16, 17, 18, 19, 22, 23, 24, 25] (s25.take 14) = none :=
  fvpF_none_of_cert 19 [6, 7, 8, 9, 10, 12, 16, 17, 18, 19, 22, 23, 24, 25] (s25.take 14) 52093862775067432915339799377759154892496328802647501818771932469147856570011558160871642108174360516649987648654874918945081035424459894676808098003957862172316857325131206657038296455375637977832722321979828042806569272346061605565366272 bridge25_14
    [6, 7, 8, 9, 10, 12] [[16], [17], [18], [19], [22], [23], [24]]
    (by decide) (by decide) (by decide) (by decide) (by decide) (by decide)
    (by decide) (by decide)

theorem n25_14_d4 : fvpF 20 [5, 6, 7, 8, 9, 10, 11, 12, 16, 17, 18, 19, 22, 23, 24, 25] (s25.take 14) = some [(5, 23), (6, 22), (7, 17), (8, 16), (9, 25), (10, 18), (11, 19), (12, 24)] :=
  (Eq.trans (fvpF_succ 19 [5, 6, 7, 8, 9, 10, 11, 12, 16, 17, 18, 19, 22, 23, 24, 25] (s25.take 14) (by decide))
  (Eq.trans (Eq.trans (Eq.trans (Eq.trans (Eq.trans (Eq.trans (tryRange_skipAll 19 [5, 6, 7, 8, 9, 10, 11, 12, 16, 17, 18, 19, 22, 23, 24, 25] (s25.take 14) 52093862775067432915339799377759154892496328802647501818771932469147856570011558160871642108174360516649987648654874918945081035424459894676808098003957862172316857325131206657038296455375637977832722321979828042806569272346061605565366272 bridge25_14
    (by decide) 1 2 13 (by decide))
  (tryRange_fail 19 [5, 6, 7, 8, 9, 10, 11, 12, 16, 17, 18, 19, 22, 23, 24, 25] (s25.take 14) 3 12
    ((bridge25_14 (([5, 6, 7, 8, 9, 10, 11, 12, 16, 17, 18, 19, 22, 23, 24, 25] : List Nat).getD 0 0) (([5, 6, 7, 8, 9, 10, 11, 12, 16, 17, 18, 19, 22, 23, 24, 25] : List Nat).getD 3 0)
      (by decide) (by decide)).trans (by decide))
    c25_14_11))
  (tryRange_fail 19 [5, 6, 7, 8, 9, 10, 11, 12, 16, 17, 18, 19, 22, 23, 24, 25] (s25.take 14) 4 11
    ((bridge25_14 (([5, 6, 7, 8, 9, 10, 11, 12, 16, 17, 18, 19, 22, 23, 24, 25] : List Nat).getD 0 0) (([5, 6, 7, 8, 9, 10, 11, 12, 16, 17, 18, 19, 22, 23, 24, 25] : List Nat).getD 4 0)
      (by decide) (by decide)).trans (by decide))
    c25_14_12))
  (tryRange_fail 19 [5, 6, 7, 8, 9, 10, 11, 12, 16, 17, 18, 19, 22, 23, 24, 25] (s25.take 14) 5 10
    ((bridge25_14 (([5, 6, 7, 8, 9, 10, 11, 12, 16, 17, 18, 19, 22, 23, 24, 25] : List Nat).getD 0 0) (([5, 6, 7, 8, 9, 10, 11, 12, 16, 17, 18, 19, 22, 23, 24, 25] : List Nat).getD 5 0)
      (by decide) (by decide)).trans (by decide))
    c25_14_13))
  (tryRange_fail 19 [5, 6, 7, 8, 9, 10, 11, 12, 16, 17, 18, 19, 22, 23, 24, 25] (s25.take 14) 6 9
    ((bridge25_14 (([5, 6, 7, 8, 9, 10, 11, 12, 16, 17, 18, 19, 22, 23, 24, 25] : List Nat).getD 0 0) (([5, 6, 7, 8, 9, 10, 11, 12, 16, 17, 18, 19, 22, 23, 24, 25] : List Nat).getD 6 0)
      (by decide) (by decide)).trans (by decide))
    c25_14_14))
  (tryRange_skipAll 19 [5, 6, 7, 8, 9, 10, 11, 12, 16, 17, 18, 19, 22, 23, 24, 25] (s25.take 14) 52093862775067432915339799377759154892496328802647501818771932469147856570011558160871642108174360516649987648654874918945081035424459894676808098003957862172316857325131206657038296455375637977832722321979828042806569272346061605565366272 bridge25_14
    (by decide) 7 6 3 (by decide)))
  (tryRange_hit 19 [5, 6, 7, 8, 9, 10, 11, 12, 16, 17, 18, 19, 22, 23, 24, 25] (s25.take 14) 13 2 [(6, 22), (7, 17), (8, 16), (9, 25), (10, 18), (11, 19), (12, 24)]
    ((bridge25_14 (([5, 6, 7, 8, 9, 10, 11, 12, 16, 17, 18, 19, 22, 23, 24, 25] : List Nat).getD 0 0) (([5, 6, 7, 8, 9, 10, 11, 12, 16, 17, 18, 19, 22, 23, 24, 25] : List Nat).getD 13 0)
      (by decide) (by decide)).trans (by decide))
    n25_14_d5)))

theorem c25_14_15 : fvpF 20 [5, 6, 7, 9, 10, 11, 12, 16, 17, 18, 19, 20, 22, 23, 24, 25] (s25.take 14) = none :=
  fvpF_none_of_cert 20 [5, 6, 7, 9, 10, 11, 12, 16, 17, 18, 19, 20, 22, 23, 24, 25] (s25.take 14) 52093862775067432915339799377759154892496328802647501818771932469147856570011558160871642108174360516649987648654874918945081035424459894676808098003957862172316857325131206657038296455375637977832722321979828042806569272346061605565366272 bridge25_14
    [5, 6, 7, 9, 10, 11, 12] [[16], [17], [18], [19], [20], [22], [23], [24]]
    (by decide) (by decide) (by decide) (by decide) (by decide) (by decide)
    (by decide) (by decide)

theorem c25_14_16 : fvpF 20 [5, 6, 7, 8, 10, 11, 12, 16, 17, 18, 19, 20, 22, 23, 24, 25] (s25.take 14) = none :=
  fvpF_none_of_cert 20 [5, 6, 7, 8, 10, 11, 12, 16, 17, 18, 19, 20, 22, 23, 24, 25] (s25.take 14) 52093862775067432915339799377759154892496328802647501818771932469147856570011558160871642108174360516649987648654874918945081035424459894676808098003957862172316857325131206657038296455375637977832722321979828042806569272346061605565366272 bridge25_14
    [5, 6, 7, 8, 10, 11, 12] [[16], [17], [18], [19], [20], [22], [23], [24]]
    (by decide) (by decide) (by decide) (by decide) (by decide) (by decide)
    (by decide) (by decide)

theorem c25_14_17 : fvpF 20 [5, 6, 7, 8, 9, 11, 12, 16, 17, 18, 19, 20, 22, 23, 24, 25] (s25.take 14) = none :=
  fvpF_none_of_cert 20 [5, 6, 7, 8, 9, 11, 12, 16, 17, 18, 19, 20, 22, 23, 24, 25] (s25.take 14) 52093862775067432915339799377759154892496328802647501818771932469147856570011558160871642108174360516649987648654874918945081035424459894676808098003957862172316857325131206657038296455375637977832722321979828042806569272346061605565366272 bridge25_14
    [5, 6, 7, 8, 9, 11, 12] [[16], [17], [18], [19], [20], [22], [23], [24]]
    (by decide) (by decide) (by decide) (by decide) (by decide) (by decide)
    (by decide) (by decide)

theorem c25_14_18 : fvpF 20 [5, 6, 7, 8, 9, 10, 12, 16, 17, 18, 19, 20, 22, 23, 24, 25] (s25.take 14) = none :=
  fvpF_none_of_cert 20 [5, 6, 7, 8, 9, 10, 12, 16, 17, 18, 19, 20, 22, 23, 24, 25] (s25.take 14) 52093862775067432915339799377759154892496328802647501818771932469147856570011558160871642108174360516649987648654874918945081035424459894676808098003957862172316857325131206657038296455375637977832722321979828042806569272346061605565366272 bridge25_14
    [5, 6, 7, 8, 9, 10, 12] [[16], [17], [18], [19], [20], [22], [23], [24]]
    (by decide) (by decide) (by decide) (by decide) (by decide) (by decide)
    (by decide) (by decide)

theorem n25_14_d3 : fvpF 21 [4, 5, 6, 7, 8, 9, 10, 11, 12, 16, 17, 18, 19, 20, 22, 23, 24, 25] (s25.take 14) = some [(4, 20), (5, 23), (6, 22), (7, 17), (8, 16), (9, 25), (10, 18), (11, 19), (12, 24)] :=
  (Eq.trans (fvpF_succ 20 [4, 5, 6, 7, 8, 9, 10, 11, 12, 16, 17, 18, 19, 20, 22, 23, 24, 25] (s25.take 14) (by decide))
  (Eq.trans (Eq.trans (Eq.trans (Eq.trans (Eq.trans (Eq.trans (tryRange_skipAll 20 [4, 5, 6, 7, 8, 9, 10, 11, 12, 16, 17, 18, 19, 20, 22, 23, 24, 25] (s25.take 14) 52093862775067432915339799377759154892496328802647501818771932469147856570011558160871642108174360516649987648654874918945081035424459894676808098003957862172316857325131206657038296455375637977832722321979828042806569272346061605565366272 bridge25_14
    (by decide) 1 3 14 (by decide))
  (tryRange_fail 20 [4, 5, 6, 7, 8, 9, 10, 11, 12, 16, 17, 18, 19, 20, 22, 23, 24, 25] (s25.take 14) 4 13
    ((bridge25_14 (([4, 5, 6, 7, 8, 9, 10, 11, 12, 16, 17, 18, 19, 20, 22, 23, 24, 25] : List Nat).getD 0 0) (([4, 5, 6, 7, 8, 9, 10, 11, 12, 16, 17, 18, 19, 20, 22, 23, 24, 25] : List Nat).getD 4 0)
      (by decide) (by decide)).trans (by decide))
    c25_14_15))
  (tryRange_fail 20 [4, 5, 6, 7, 8, 9, 10, 11, 12, 16, 17, 18, 19, 20, 22, 23, 24, 25] (s25.take 14) 5 12
    ((bridge25_14 (([4, 5, 6, 7, 8, 9, 10, 11, 12, 16, 17, 18, 19, 20, 22, 23, 24, 25] : List Nat).getD 0 0) (([4, 5, 6, 7, 8, 9, 10, 11, 12, 16, 17, 18, 19, 20, 22, 23, 24, 25] : List Nat).getD 5 0)
      (by decide) (by decide)).trans (by decide))
    c25_14_16))
  (tryRange_fail 20 [4, 5, 6, 7, 8, 9, 10, 11, 12, 16, 17, 18, 19, 20, 22, 23, 24, 25] (s25.take 14) 6 11
    ((bridge25_14 (([4, 5, 6, 7, 8, 9, 10, 11, 12, 16, 17, 18, 19, 20, 22, 23, 24, 25] : List Nat).getD 0 0) (([4, 5, 6, 7, 8, 9, 10, 11, 12, 16, 17, 18, 19, 20, 22, 23, 24, 25] : List Nat).getD 6 0)
      (by decide) (by decide)).trans (by decide))
    c25_14_17))
  (tryRange_fail 20 [4, 5, 6, 7, 8, 9, 10, 11, 12, 16, 17, 18, 19, 20, 22, 23, 24, 25] (s25.take 14) 7 10
    ((bridge25_14 (([4, 5, 6, 7, 8, 9, 10, 11, 12, 16, 17, 18, 19, 20, 22, 23, 24, 25] : List Nat).getD 0 0) (([4, 5, 6, 7, 8, 9, 10, 11, 12, 16, 17, 18, 19, 20, 22, 23, 24, 25] : List Nat).getD 7 0)
      (by decide) (by decide)).trans (by decide))
    c25_14_18))
  (tryRange_skipAll 20 [4, 5, 6, 7, 8, 9, 10, 11, 12, 16, 17, 18, 19, 20, 22, 23, 24, 25] (s25.take 14) 52093862775067432915339799377759154892496328802647501818771932469147856570011558160871642108174360516649987648654874918945081035424459894676808098003957862172316857325131206657038296455375637977832722321979828042806569272346061605565366272 bridge25_14
    (by decide) 8 5 5 (by decide)))
  (tryRange_hit 20 [4, 5, 6, 7, 8, 9, 10, 11, 12, 16, 17, 18, 19, 20, 22, 23, 24, 25] (s25.take 14) 13 4 [(5, 23), (6, 22), (7, 17), (8, 16), (9, 25), (10, 18), (11, 19), (12, 24)]
    ((bridge25_14 (([4, 5, 6, 7, 8, 9, 10, 11, 12, 16, 17, 18, 19, 20, 22, 23, 24, 25] : List Nat).getD 0 0) (([4, 5, 6, 7, 8, 9, 10, 11, 12, 16, 17, 18, 19, 20, 22, 23, 24, 25] : List Nat).getD 13 0)
      (by decide) (by decide)).trans (by decide))
    n25_14_d4)))

theorem c25_14_19 : fvpF 21 [4, 5, 6, 7, 9, 10, 11, 12, 16, 17, 18, 19, 20, 21, 22, 23, 24, 25] (s25.take 14) = none :=
  fvpF_none_of_cert 21 [4, 5, 6, 7, 9, 10, 11, 12, 16, 17, 18, 19, 20, 21, 22, 23, 24, 25] (s25.take 14) 52093862775067432915339799377759154892496328802647501818771932469147856570011558160871642108174360516649987648654874918945081035424459894676808098003957862172316857325131206657038296455375637977832722321979828042806569272346061605565366272 bridge25_14
    [4, 5, 6, 7, 9, 10, 11, 12] [[16], [17], [18], [19], [20], [21], [22], [23], [24]]
    (by decide) (by decide) (by decide) (by decide) (by decide) (by decide)
    (by decide) (by decide)

theorem c25_14_20 : fvpF 21 [4, 5, 6, 7, 8, 10, 11, 12, 16, 17, 18, 19, 20, 21, 22, 23, 24, 25] (s25.take 14) = none :=
  fvpF_none_of_cert 21 [4, 5, 6, 7, 8, 10, 11, 12, 16, 17, 18, 19, 20, 21, 22, 23, 24, 25] (s25.take 14) 52093862775067432915339799377759154892496328802647501818771932469147856570011558160871642108174360516649987648654874918945081035424459894676808098003957862172316857325131206657038296455375637977832722321979828042806569272346061605565366272 bridge25_14
    [4, 5, 6, 7, 8, 10, 11, 12] [[16], [17], [18], [19], [20], [21], [22], [23], [24]]
    (by decide) (by decide) (by decide) (by decide) (by decide) (by decide)
    (by decide) (by decide)

theorem c25_14_21 : fvpF 21 [4, 5, 6, 7, 8, 9, 10, 11, 16, 17, 18, 19, 20, 21, 22, 23, 24, 25] (s25.take 14) = none :=
  fvpF_none_of_cert 21 [4, 5, 6, 7, 8, 9, 10, 11, 16, 17, 18, 19, 20, 21, 22, 23, 24, 25] (s25.take 14) 52093862775067432915339799377759154892496328802647501818771932469147856570011558160871642108174360516649987648654874918945081035424459894676808098003957862172316857325131206657038296455375637977832722321979828042806569272346061605565366272 bridge25_14
    [4, 5, 6, 7, 8, 9, 10, 11] [[16], [17], [18], [19], [20], [21], [22], [23], [24]]
    (by decide) (by decide) (by decide) (by decide) (by decide) (by decide)
    (by decide) (by decide)

theorem n25_14_d2 : fvpF 22 [3, 4, 5, 6, 7, 8, 9, 10, 11, 12, 16, 17, 18, 19, 20, 21, 22, 23, 24, 25] (s25.take 14) = some [(3, 21), (4, 20), (5, 23), (6, 22), (7, 17), (8, 16), (9, 25), (10, 18), (11, 19), (12, 24)] :=
  (Eq.trans (fvpF_succ 21 [3, 4, 5, 6, 7, 8, 9, 10, 11, 12, 16, 17, 18, 19, 20, 21, 22, 23, 24, 25] (s25.take 14) (by decide))
  (Eq.trans (Eq.trans (Eq.trans (Eq.trans (Eq.trans (Eq.trans (tryRange_skipAll 21 [3, 4, 5, 6, 7, 8, 9, 10, 11, 12, 16, 17, 18, 19, 20, 21, 22, 23, 24, 25] (s25.take 14) 52093862775067432915339799377759154892496328802647501818771932469147856570011558160871642108174360516649987648654874918945081035424459894676808098003957862172316857325131206657038296455375637977832722321979828042806569272346061605565366272 bridge25_14
    (by decide) 1 4 15 (by decide))
  (tryRange_fail 21 [3, 4, 5, 6, 7, 8, 9, 10, 11, 12, 16, 17, 18, 19, 20, 21, 22, 23, 24, 25] (s25.take 14) 5 14
    ((bridge25_14 (([3, 4, 5, 6, 7, 8, 9, 10, 11, 12, 16, 17, 18, 19, 20, 21, 22, 23, 24, 25] : List Nat).getD 0 0) (([3, 4, 5, 6, 7, 8, 9, 10, 11, 12, 16, 17, 18, 19, 20, 21, 22, 23, 24, 25] : List Nat).getD 5 0)
      (by decide) (by decide)).trans (by decide))
    c25_14_19))
  (tryRange_fail 21 [3, 4, 5, 6, 7, 8, 9, 10, 11, 12, 16, 17, 18, 19, 20, 21, 22, 23, 24, 25] (s25.take 14) 6 13
    ((bridge25_14 (([3, 4, 5, 6, 7, 8, 9, 10, 11, 12, 16, 17, 18, 19, 20, 21, 22, 23, 24, 25] : List Nat).getD 0 0) (([3, 4, 5, 6, 7, 8, 9, 10, 11, 12, 16, 17, 18, 19, 20, 21, 22, 23, 24, 25] : List Nat).getD 6 0)
      (by decide) (by decide)).trans (by decide))
    c25_14_20))
  (tryRange_skipAll 21 [3, 4, 5, 6, 7, 8, 9, 10, 11, 12, 16, 17, 18, 19, 20, 21, 22, 23, 24, 25] (s25.take 14) 52093862775067432915339799377759154892496328802647501818771932469147856570011558160871642108174360516649987648654874918945081035424459894676808098003957862172316857325131206657038296455375637977832722321979828042806569272346061605565366272 bridge25_14
    (by decide) 7 2 11 (by decide)))
  (tryRange_fail 21 [3, 4, 5, 6, 7, 8, 9, 10, 11, 12, 16, 17, 18, 19, 20, 21, 22, 23, 24, 25] (s25.take 14) 9 10
    ((bridge25_14 (([3, 4, 5, 6, 7, 8, 9, 10, 11, 12, 16, 17, 18, 19, 20, 21, 22, 23, 24, 25] : List Nat).getD 0 0) (([3, 4, 5, 6, 7, 8, 9, 10, 11, 12, 16, 17, 18, 19, 20, 21, 22, 23, 24, 25] : List Nat).getD 9 0)
      (by decide) (by decide)).trans (by decide))
    c25_14_21))
  (tryRange_skipAll 21 [3, 4, 5, 6, 7, 8, 9, 10, 11, 12, 16, 17, 18, 19, 20, 21, 22, 23, 24, 25] (s25.take 14) 52093862775067432915339799377759154892496328802647501818771932469147856570011558160871642108174360516649987648654874918945081035424459894676808098003957862172316857325131206657038296455375637977832722321979828042806569272346061605565366272 bridge25_14
    (by decide) 10 5 5 (by decide)))
  (tryRange_hit 21 [3, 4, 5, 6, 7, 8, 9, 10, 11, 12, 16, 17, 18, 19, 20, 21, 22, 23, 24, 25] (s25.take 14) 15 4 [(4, 20), (5, 23), (6, 22), (7, 17), (8, 16), (9, 25), (10, 18), (11, 19), (12, 24)]
    ((bridge25_14 (([3, 4, 5, 6, 7, 8, 9, 10, 11, 12, 16, 17, 18, 19, 20, 21, 22, 23, 24, 25] : List Nat).getD 0 0) (([3, 4, 5, 6, 7, 8, 9, 10, 11, 12, 16, 17, 18, 19, 20, 21, 22, 23, 24, 25] : List Nat).getD 15 0)
      (by decide) (by decide)).trans (by decide))
    n25_14_d3)))

theorem n25_14_d1 : fvpF 23 [2, 3, 4, 5, 6, 7, 8, 9, 10, 11, 12, 13, 16, 17, 18, 19, 20, 21, 22, 23, 24, 25] (s25.take 14) = some [(2, 13), (3, 21), (4, 20), (5, 23), (6, 22), (7, 17), (8, 16), (9, 25), (10, 18), (11, 19), (12, 24)] :=
  (Eq.trans (fvpF_succ 22 [2, 3, 4, 5, 6, 7, 8, 9, 10, 11, 12, 13, 16, 17, 18, 19, 20, 21, 22, 23, 24, 25] (s25.take 14) (by decide))
  (Eq.trans (tryRange_skipAll 22 [2, 3, 4, 5, 6, 7, 8, 9, 10, 11, 12, 13, 16, 17, 18, 19, 20, 21, 22, 23, 24, 25] (s25.take 14) 52093862775067432915339799377759154892496328802647501818771932469147856570011558160871642108174360516649987648654874918945081035424459894676808098003957862172316857325131206657038296455375637977832722321979828042806569272346061605565366272 bridge25_14
    (by decide) 1 10 11 (by decide))
  (tryRange_hit 22 [2, 3, 4, 5, 6, 7, 8, 9, 10, 11, 12, 13, 16, 17, 18, 19, 20, 21, 22, 23, 24, 25] (s25.take 14) 11 10 [(3, 21), (4, 20), (5, 23), (6, 22), (7, 17), (8, 16), (9, 25), (10, 18), (11, 19), (12, 24)]
    ((bridge25_14 (([2, 3, 4, 5, 6, 7, 8, 9, 10, 11, 12, 13, 16, 17, 18, 19, 20, 21, 22, 23, 24, 25] : List Nat).getD 0 0) (([2, 3, 4, 5, 6, 7, 8, 9, 10, 11, 12, 13, 16, 17, 18, 19, 20, 21, 22, 23, 24, 25] : List Nat).getD 11 0)
      (by decide) (by decide)).trans (by decide))
    n25_14_d2)))

theorem n25_14_d0 : fvpF 24 [1, 2, 3, 4, 5, 6, 7, 8, 9, 10, 11, 12, 13, 14, 16, 17, 18, 19, 20, 21, 22, 23, 24, 25] (s25.take 14) = some [(1, 14), (2, 13), (3, 21), (4, 20), (5, 23), (6, 22), (7, 17), (8, 16), (9, 25), (10, 18), (11, 19), (12, 24)] :=
  (Eq.trans (fvpF_succ 23 [1, 2, 3, 4, 5, 6, 7, 8, 9, 10, 11, 12, 13, 14, 16, 17, 18, 19, 20, 21, 22, 23, 24, 25] (s25.take 14) (by decide))
  (Eq.trans (tryRange_skipAll 23 [1, 2, 3, 4, 5, 6, 7, 8, 9, 10, 11, 12, 13, 14, 16, 17, 18, 19, 20, 21, 22, 23, 24, 25] (s25.take 14) 52093862775067432915339799377759154892496328802647501818771932469147856570011558160871642108174360516649987648654874918945081035424459894676808098003957862172316857325131206657038296455375637977832722321979828042806569272346061605565366272 bridge25_14
    (by decide) 1 12 11 (by decide))
  (tryRange_hit 23 [1, 2, 3, 4, 5, 6, 7, 8, 9, 10, 11, 12, 13, 14, 16, 17, 18, 19, 20, 21, 22, 23, 24, 25] (s25.take 14) 13 10 [(2, 13), (3, 21), (4, 20), (5, 23), (6, 22), (7, 17), (8, 16), (9, 25), (10, 18), (11, 19), (12, 24)]
    ((bridge25_14 (([1, 2, 3, 4, 5, 6, 7, 8, 9, 10, 11, 12, 13, 14, 16, 17, 18, 19, 20, 21, 22, 23, 24, 25] : List Nat).getD 0 0) (([1, 2, 3, 4, 5, 6, 7, 8, 9, 10, 11, 12, 13, 14, 16, 17, 18, 19, 20, 21, 22, 23, 24, 25] : List Nat).getD 13 0)
      (by decide) (by decide)).trans (by decide))
    n25_14_d1)))

theorem fvp25_14 : findValidPairs [1, 2, 3, 4, 5, 6, 7, 8, 9, 10, 11, 12, 13, 14, 16, 17, 18, 19, 20, 21, 22, 23, 24, 25] (s25.take 14) = some [(1, 14), (2, 13), (3, 21), (4, 20), (5, 23), (6, 22), (7, 17), (8, 16), (9, 25), (10, 18), (11, 19), (12, 24)] := n25_14_d0

theorem n25_15_d11 : fvpF 13 [15, 22] (s25.take 15) = some [(15, 22)] :=
  (Eq.trans (fvpF_succ 12 [15, 22] (s25.take 15) (by decide))
  (tryRange_hit 12 [15, 22] (s25.take 15) 1 0 []
    ((bridge25_15 (([15, 22] : List Nat).getD 0 0) (([15, 22] : List Nat).getD 1 0)
      (by decide) (by decide)).trans (by decide))
    (fvpF_nil 12 (s25.take 15))))

theorem c25_15_0 : fvpF 13 [15, 23] (s25.take 15) = none :=
  fvpF_none_of_cert 13 [15, 23] (s25.take 15) 52093862775067432915339799377759154892496328802647501818771932469147856570011558160871642108174360516649987648654875580001049830482874056672862783724503723580621192888756948789273925374085475355810839855948304443184024115113930732355977216 bridge25_15
    [] [[15]]
    (by decide) (by decide) (by decide) (by decide) (by decide) (by decide)
    (by decide) (by decide)

theorem n25_15_d10 : fvpF 14 [14, 15, 22, 23] (s25.take 15) = some [(14, 23), (15, 22)] :=
  (Eq.trans (fvpF_succ 13 [14, 15, 22, 23] (s25.take 15) (by decide))
  (Eq.trans (Eq.trans (tryRange_skipAll 13 [14, 15, 22, 23] (s25.take 15) 52093862775067432915339799377759154892496328802647501818771932469147856570011558160871642108174360516649987648654875580001049830482874056672862783724503723580621192888756948789273925374085475355810839855948304443184024115113930732355977216 bridge25_15
    (by decide) 1 1 2 (by decide))
  (tryRange_fail 13 [14, 15, 22, 23] (s25.take 15) 2 1
    ((bridge25_15 (([14, 15, 22, 23] : List Nat).getD 0 0) (([14, 15, 22, 23] : List Nat).getD 2 0)
      (by decide) (by decide)).trans (by decide))
    c25_15_0))
  (tryRange_hit 13 [14, 15, 22, 23] (s25.take 15) 3 0 [(15, 22)]
    ((bridge25_15 (([14, 15, 22, 23] : List Nat).getD 0 0) (([14, 15, 22, 23] : List Nat).getD 3 0)
      (by decide) (by decide)).trans (by decide))
    n25_15_d11)))

theorem n25_15_d9 : fvpF 15 [13, 14, 15, 22, 23, 24] (s25.take 15) = some [(13, 24), (14, 23), (15, 22)] :=
  (Eq.trans (fvpF_succ 14 [13, 14, 15, 22, 23, 24] (s25.take 15) (by decide))
  (Eq.trans (tryRange_skipAll 14 [13, 14, 15, 22, 23, 24] (s25.take 15) 52093862775067432915339799377759154892496328802647501818771932469147856570011558160871642108174360516649987648654875580001049830482874056672862783724503723580621192888756948789273925374085475355810839855948304443184024115113930732355977216 bridge25_15
    (by decide) 1 4 1 (by decide))
  (tryRange_hit 14 [13, 14, 15, 22, 23, 24] (s25.take 15) 5 0 [(14, 23), (15, 22)]
    ((bridge25_15 (([13, 14, 15, 22, 23, 24] : List Nat).getD 0 0) (([13, 14, 15, 22, 23, 24] : List Nat).getD 5 0)
      (by decide) (by decide)).trans (by decide))
    n25_15_d10)))

theorem n25_15_d8 : fvpF 16 [12, 13, 14, 15, 22, 23, 24, 25] (s25.take 15) = some [(12, 25), (13, 24), (14, 23), (15, 22)] :=
  (Eq.trans (fvpF_succ 15 [12, 13, 14, 15, 22, 23, 24, 25] (s25.take 15) (by decide))
  (Eq.trans (tryRange_skipAll 15 [12, 13, 14, 15, 22, 23, 24, 25] (s25.take 15) 52093862775067432915339799377759154892496328802647501818771932469147856570011558160871642108174360516649987648654875580001049830482874056672862783724503723580621192888756948789273925374085475355810839855948304443184024115113930732355977216 bridge25_15
    (by decide) 1 6 1 (by decide))
  (tryRange_hit 15 [12, 13, 14, 15, 22, 23, 24, 25] (s25.take 15) 7 0 [(13, 24), (14, 23), (15, 22)]
    ((bridge25_15 (([12, 13, 14, 15, 22, 23, 24, 25] : List Nat).getD 0 0) (([12, 13, 14, 15, 22, 23, 24, 25] : List Nat).getD 7 0)
      (by decide) (by decide)).trans (by decide))
    n25_15_d9)))

theorem n25_15_d7 : fvpF 17 [11, 12, 13, 14, 15, 21, 22, 23, 24, 25] (s25.take 15) = some [(11, 21), (12, 25), (13, 24), (14, 23), (15, 22)] :=
  (Eq.trans (fvpF_succ 16 [11, 12, 13, 14, 15, 21, 22, 23, 24, 25] (s25.take 15) (by decide))
  (Eq.trans (tryRange_skipAll 16 [11, 12, 13, 14, 15, 21, 22, 23, 24, 25] (s25.take 15) 52093862775067432915339799377759154892496328802647501818771932469147856570011558160871642108174360516649987648654875580001049830482874056672862783724503723580621192888756948789273925374085475355810839855948304443184024115113930732355977216 bridge25_15
    (by decide) 1 4 5 (by decide))
  (tryRange_hit 16 [11, 12, 13, 14, 15, 21, 22, 23, 24, 25] (s25.take 15) 5 4 [(12, 25), (13, 24), (14, 23), (15, 22)]
    ((bridge25_15 (([11, 12, 13, 14, 15, 21, 22, 23, 24, 25] : List Nat).getD 0 0) (([11, 12, 13, 14, 15, 21, 22, 23, 24, 25] : List Nat).getD 5 0)
      (by decide) (by decide)).trans (by decide))
    n25_15_d8)))

theorem c25_15_1 : fvpF 17 [12, 13, 14, 15, 19, 21, 22, 23, 24, 25] (s25.take 15) = none :=
  fvpF_none_of_cert 17 [12, 13, 14, 15, 19, 21, 22, 23, 24, 25] (s25.take 15) 52093862775067432915339799377759154892496328802647501818771932469147856570011558160871642108174360516649987648654875580001049830482874056672862783724503723580621192888756948789273925374085475355810839855948304443184024115113930732355977216 bridge25_15
    [12, 13, 14, 15] [[19], [21], [22], [23], [24]]
    (by decide) (by decide) (by decide) (by decide) (by decide) (by decide)
    (by decide) (by decide)

theorem c25_15_2 : fvpF 17 [11, 13, 14, 15, 19, 21, 22, 23, 24, 25] (s25.take 15) = none :=
  fvpF_none_of_cert 17 [11, 13, 14, 15, 19, 21, 22, 23, 24, 25] (s25.take 15) 52093862775067432915339799377759154892496328802647501818771932469147856570011558160871642108174360516649987648654875580001049830482874056672862783724503723580621192888756948789273925374085475355810839855948304443184024115113930732355977216 bridge25_15
    [] [[11, 13, 14, 15, 19, 21, 22, 23, 24]]
    (by decide) (by decide) (by decide) (by decide) (by decide) (by decide)
    (by decide) (by decide)

theorem c25_15_3 : fvpF 17 [11, 12, 14, 15, 19, 21, 22, 23, 24, 25] (s25.take 15) = none :=
  fvpF_none_of_cert 17 [11, 12, 14, 15, 19, 21, 22, 23, 24, 25] (s25.take 15) 52093862775067432915339799377759154892496328802647501818771932469147856570011558160871642108174360516649987648654875580001049830482874056672862783724503723580621192888756948789273925374085475355810839855948304443184024115113930732355977216 bridge25_15
    [] [[11, 12, 14, 15, 19, 21, 22, 23, 25]]
    (by decide) (by decide) (by decide) (by decide) (by decide) (by decide)
    (by decide) (by decide)

theorem n25_15_d6 : fvpF 18 [7, 11, 12, 13, 14, 15, 19, 21, 22, 23, 24, 25] (s25.take 15) = some [(7, 19), (11, 21), (12, 25), (13, 24), (14, 23), (15, 22)] :=
  (Eq.trans (fvpF_succ 17 [7, 11, 12, 13, 14, 15, 19, 21, 22, 23, 24, 25] (s25.take 15) (by decide))
  (Eq.trans (Eq.trans (Eq.trans (Eq.trans (tryRange_fail 17 [7, 11, 12, 13, 14, 15, 19, 21, 22, 23, 24, 25] (s25.take 15) 1 10
    ((bridge25_15 (([7, 11, 12, 13, 14, 15, 19, 21, 22, 23, 24, 25] : List Nat).getD 0 0) (([7, 11, 12, 13, 14, 15, 19, 21, 22, 23, 24, 25] : List Nat).getD 1 0)
      (by decide) (by decide)).trans (by decide))
    c25_15_1)
  (tryRange_fail 17 [7, 11, 12, 13, 14, 15, 19, 21, 22, 23, 24, 25] (s25.take 15) 2 9
    ((bridge25_15 (([7, 11, 12, 13, 14, 15, 19, 21, 22, 23, 24, 25] : List Nat).getD 0 0) (([7, 11, 12, 13, 14, 15, 19, 21, 22, 23, 24, 25] : List Nat).getD 2 0)
      (by decide) (by decide)).trans (by decide))
    c25_15_2))
  (tryRange_fail 17 [7, 11, 12, 13, 14, 15, 19, 21, 22, 23, 24, 25] (s25.take 15) 3 8
    ((bridge25_15 (([7, 11, 12, 13, 14, 15, 19, 21, 22, 23, 24, 25] : List Nat).getD 0 0) (([7, 11, 12, 13, 14, 15, 19, 21, 22, 23, 24, 25] : List Nat).getD 3 0)
      (by decide) (by decide)).trans (by decide))
    c25_15_3))
  (tryRange_skipAll 17 [7, 11, 12, 13, 14, 15, 19, 21, 22, 23, 24, 25] (s25.take 15) 52093862775067432915339799377759154892496328802647501818771932469147856570011558160871642108174360516649987648654875580001049830482874056672862783724503723580621192888756948789273925374085475355810839855948304443184024115113930732355977216 bridge25_15
    (by decide) 4 2 6 (by decide)))
  (tryRange_hit 17 [7, 11, 12, 13, 14, 15, 19, 21, 22, 23, 24, 25] (s25.take 15) 6 5 [(11, 21), (12, 25), (13, 24), (14, 23), (15, 22)]
    ((bridge25_15 (([7, 11, 12, 13, 14, 15, 19, 21, 22, 23, 24, 25] : List Nat).getD 0 0) (([7, 11, 12, 13, 14, 15, 19, 21, 22, 23, 24, 25] : List Nat).getD 6 0)
      (by decide) (by decide)).trans (by decide))
    n25_15_d7)))

theorem c25_15_4 : fvpF 18 [7, 12, 13, 14, 15, 19, 20, 21, 22, 23, 24, 25] (s25.take 15) = none :=
  fvpF_none_of_cert 18 [7, 12, 13, 14, 15, 19, 20, 21, 22, 23, 24, 25] (s25.take 15) 52093862775067432915339799377759154892496328802647501818771932469147856570011558160871642108174360516649987648654875580001049830482874056672862783724503723580621192888756948789273925374085475355810839855948304443184024115113930732355977216 bridge25_15
    [7, 12, 13, 14, 15] [[19], [20], [21], [22], [23], [24]]
    (by decide) (by decide) (by decide) (by decide) (by decide) (by decide)
    (by decide) (by decide)

theorem c25_15_5 : fvpF 18 [7, 11, 13, 14, 15, 19, 20, 21, 22, 23, 24, 25] (s25.take 15) = none :=
  fvpF_none_of_cert 18 [7, 11, 13, 14, 15, 19, 20, 21, 22, 23, 24, 25] (s25.take 15) 52093862775067432915339799377759154892496328802647501818771932469147856570011558160871642108174360516649987648654875580001049830482874056672862783724503723580621192888756948789273925374085475355810839855948304443184024115113930732355977216 bridge25_15
    [7, 11, 13, 14, 15] [[19], [20], [21], [22], [23], [24]]
    (by decide) (by decide) (by decide) (by decide) (by decide) (by decide)
    (by decide) (by decide)

theorem c25_15_6 : fvpF 18 [7, 11, 12, 14, 15, 19, 20, 21, 22, 23, 24, 25] (s25.take 15) = none :=
  fvpF_none_of_cert 18 [7, 11, 12, 14, 15, 19, 20, 21, 22, 23, 24, 25] (s25.take 15) 52093862775067432915339799377759154892496328802647501818771932469147856570011558160871642108174360516649987648654875580001049830482874056672862783724503723580621192888756948789273925374085475355810839855948304443184024115113930732355977216 bridge25_15
    [7, 11, 12, 14, 15] [[19], [20], [21], [22], [23], [24]]
    (by decide) (by decide) (by decide) (by decide) (by decide) (by decide)
    (by decide) (by decide)

theorem n25_15_d5 : fvpF 19 [6, 7, 11, 12, 13, 14, 15, 19, 20, 21, 22, 23, 24, 25] (s25.take 15) = some [(6, 20), (7, 19), (11, 21), (12, 25), (13, 24), (14, 23), (15, 22)] :=
  (Eq.trans (fvpF_succ 18 [6, 7, 11, 12, 13, 14, 15, 19, 20, 21, 22, 23, 24, 25] (s25.take 15) (by decide))
  (Eq.trans (Eq.trans (Eq.trans (Eq.trans (Eq.trans (tryRange_skipAll 18 [6, 7, 11, 12, 13, 14, 15, 19, 20, 21, 22, 23, 24, 25] (s25.take 15) 52093862775067432915339799377759154892496328802647501818771932469147856570011558160871642108174360516649987648654875580001049830482874056672862783724503723580621192888756948789273925374085475355810839855948304443184024115113930732355977216 bridge25_15
    (by decide) 1 1 12 (by decide))
  (tryRange_fail 18 [6, 7, 11, 12, 13, 14, 15, 19, 20, 21, 22, 23, 24, 25] (s25.take 15) 2 11
    ((bridge25_15 (([6, 7, 11, 12, 13, 14, 15, 19, 20, 21, 22, 23, 24, 25] : List Nat).getD 0 0) (([6, 7, 11, 12, 13, 14, 15, 19, 20, 21, 22, 23, 24, 25] : List Nat).getD 2 0)
      (by decide) (by decide)).trans (by decide))
    c25_15_4))
  (tryRange_fail 18 [6, 7, 11, 12, 13, 14, 15, 19, 20, 21, 22, 23, 24, 25] (s25.take 15) 3 10
    ((bridge25_15 (([6, 7, 11, 12, 13, 14, 15, 19, 20, 21, 22, 23, 24, 25] : List Nat).getD 0 0) (([6, 7, 11, 12, 13, 14, 15, 19, 20, 21, 22, 23, 24, 25] : List Nat).getD 3 0)
      (by decide) (by decide)).trans (by decide))
    c25_15_5))
  (tryRange_fail 18 [6, 7, 11, 12, 13, 14, 15, 19, 20, 21, 22, 23, 24, 25] (s25.take 15) 4 9
    ((bridge25_15 (([6, 7, 11, 12, 13, 14, 15, 19, 20, 21, 22, 23, 24, 25] : List Nat).getD 0 0) (([6, 7, 11, 12, 13, 14, 15, 19, 20, 21, 22, 23, 24, 25] : List Nat).getD 4 0)
      (by decide) (by decide)).trans (by decide))
    c25_15_6))
  (tryRange_skipAll 18 [6, 7, 11, 12, 13, 14, 15, 19, 20, 21, 22, 23, 24, 25] (s25.take 15) 52093862775067432915339799377759154892496328802647501818771932469147856570011558160871642108174360516649987648654875580001049830482874056672862783724503723580621192888756948789273925374085475355810839855948304443184024115113930732355977216 bridge25_15
    (by decide) 5 3 6 (by decide)))
  (tryRange_hit 18 [6, 7, 11, 12, 13, 14, 15, 19, 20, 21, 22, 23, 24, 25] (s25.take 15) 8 5 [(7, 19), (11, 21), (12, 25), (13, 24), (14, 23), (15, 22)]
    ((bridge25_15 (([6, 7, 11, 12, 13, 14, 15, 19, 20, 21, 22, 23, 24, 25] : List Nat).getD 0 0) (([6, 7, 11, 12, 13, 14, 15, 19, 20, 21, 22, 23, 24, 25] : List Nat).getD 8 0)
      (by decide) (by decide)).trans (by decide))
    n25_15_d6)))

theorem n25_15_d4 : fvpF 20 [5, 6, 7, 10, 11, 12, 13, 14, 15, 19, 20, 21, 22, 23, 24, 25] (s25.take 15) = some [(5, 10), (6, 20), (7, 19), (11, 21), (12, 25), (13, 24), (14, 23), (15, 22)] :=
  (Eq.trans (fvpF_succ 19 [5, 6, 7, 10, 11, 12, 13, 14, 15, 19, 20, 21, 22, 23, 24, 25] (s25.take 15) (by decide))
  (Eq.trans (tryRange_skipAll 19 [5, 6, 7, 10, 11, 12, 13, 14, 15, 19, 20, 21, 22, 23, 24, 25] (s25.take 15) 52093862775067432915339799377759154892496328802647501818771932469147856570011558160871642108174360516649987648654875580001049830482874056672862783724503723580621192888756948789273925374085475355810839855948304443184024115113930732355977216 bridge25_15
    (by decide) 1 2 13 (by decide))
  (tryRange_hit 19 [5, 6, 7, 10, 11, 12, 13, 14, 15, 19, 20, 21, 22, 23, 24, 25] (s25.take 15) 3 12 [(6, 20), (7, 19), (11, 21), (12, 25), (13, 24), (14, 23), (15, 22)]
    ((bridge25_15 (([5, 6, 7, 10, 11, 12, 13, 14, 15, 19, 20, 21, 22, 23, 24, 25] : List Nat).getD 0 0) (([5, 6, 7, 10, 11, 12, 13, 14, 15, 19, 20, 21, 22, 23, 24, 25] : List Nat).getD 3 0)
      (by decide) (by decide)).trans (by decide))
    n25_15_d5)))

theorem n25_15_d3 : fvpF 21 [4, 5, 6, 7, 9, 10, 11, 12, 13, 14, 15, 19, 20, 21, 22, 23, 24, 25] (s25.take 15) = some [(4, 9), (5, 10), (6, 20), (7, 19), (11, 21), (12, 25), (13, 24), (14, 23), (15, 22)] :=
  (Eq.trans (fvpF_succ 20 [4, 5, 6, 7, 9, 10, 11, 12, 13, 14, 15, 19, 20, 21, 22, 23, 24, 25] (s25.take 15) (by decide))
  (Eq.trans (tryRange_skipAll 20 [4, 5, 6, 7, 9, 10, 11, 12, 13, 14, 15, 19, 20, 21, 22, 23, 24, 25] (s25.take 15) 52093862775067432915339799377759154892496328802647501818771932469147856570011558160871642108174360516649987648654875580001049830482874056672862783724503723580621192888756948789273925374085475355810839855948304443184024115113930732355977216 bridge25_15
    (by decide) 1 3 14 (by decide))
  (tryRange_hit 20 [4, 5, 6, 7, 9, 10, 11, 12, 13, 14, 15, 19, 20, 21, 22, 23, 24, 25] (s25.take 15) 4 13 [(5, 10), (6, 20), (7, 19), (11, 21), (12, 25), (13, 24), (14, 23), (15, 22)]
    ((bridge25_15 (([4, 5, 6, 7, 9, 10, 11, 12, 13, 14, 15, 19, 20, 21, 22, 23, 24, 25] : List Nat).getD 0 0) (([4, 5, 6, 7, 9, 10, 11, 12, 13, 14, 15, 19, 20, 21, 22, 23, 24, 25] : List Nat).getD 4 0)
      (by decide) (by decide)).trans (by decide))
    n25_15_d4)))

theorem n25_15_d2 : fvpF 22 [3, 4, 5, 6, 7, 8, 9, 10, 11, 12, 13, 14, 15, 19, 20, 21, 22, 23, 24, 25] (s25.take 15) = some [(3, 8), (4, 9), (5, 10), (6, 20), (7, 19), (11, 21), (12, 25), (13, 24), (14, 23), (15, 22)] :=
  (Eq.trans (fvpF_succ 21 [3, 4, 5, 6, 7, 8, 9, 10, 11, 12, 13, 14, 15, 19, 20, 21, 22, 23, 24, 25] (s25.take 15) (by decide))
  (Eq.trans (tryRange_skipAll 21 [3, 4, 5, 6, 7, 8, 9, 10, 11, 12, 13, 14, 15, 19, 20, 21, 22, 23, 24, 25] (s25.take 15) 52093862775067432915339799377759154892496328802647501818771932469147856570011558160871642108174360516649987648654875580001049830482874056672862783724503723580621192888756948789273925374085475355810839855948304443184024115113930732355977216 bridge25_15
    (by decide) 1 4 15 (by decide))
  (tryRange_hit 21 [3, 4, 5, 6, 7, 8, 9, 10, 11, 12, 13, 14, 15, 19, 20, 21, 22, 23, 24, 25] (s25.take 15) 5 14 [(4, 9), (5, 10), (6, 20), (7, 19), (11, 21), (12, 25), (13, 24), (14, 23), (15, 22)]
    ((bridge25_15 (([3, 4, 5, 6, 7, 8, 9, 10, 11, 12, 13, 14, 15, 19, 20, 21, 22, 23, 24, 25] : List Nat).getD 0 0) (([3, 4, 5, 6, 7, 8, 9, 10, 11, 12, 13, 14, 15, 19, 20, 21, 22, 23, 24, 25] : List Nat).getD 5 0)
      (by decide) (by decide)).trans (by decide))
    n25_15_d3)))

theorem n25_15_d1 : fvpF 23 [2, 3, 4, 5, 6, 7, 8, 9, 10, 11, 12, 13, 14, 15, 18, 19, 20, 21, 22, 23, 24, 25] (s25.take 15) = some [(2, 18), (3, 8), (4, 9), (5, 10), (6, 20), (7, 19), (11, 21), (12, 25), (13, 24), (14, 23), (15, 22)] :=
  (Eq.trans (fvpF_succ 22 [2, 3, 4, 5, 6, 7, 8, 9, 10, 11, 12, 13, 14, 15, 18, 19, 20, 21, 22, 23, 24, 25] (s25.take 15) (by decide))
  (Eq.trans (tryRange_skipAll 22 [2, 3, 4, 5, 6, 7, 8, 9, 10, 11, 12, 13, 14, 15, 18, 19, 20, 21, 22, 23, 24, 25] (s25.take 15) 52093862775067432915339799377759154892496328802647501818771932469147856570011558160871642108174360516649987648654875580001049830482874056672862783724503723580621192888756948789273925374085475355810839855948304443184024115113930732355977216 bridge25_15
    (by decide) 1 13 8 (by decide))
  (tryRange_hit 22 [2, 3, 4, 5, 6, 7, 8, 9, 10, 11, 12, 13, 14, 15, 18, 19, 20, 21, 22, 23, 24, 25] (s25.take 15) 14 7 [(3, 8), (4, 9), (5, 10), (6, 20), (7, 19), (11, 21), (12, 25), (13, 24), (14, 23), (15, 22)]
    ((bridge25_15 (([2, 3, 4, 5, 6, 7, 8, 9, 10, 11, 12, 13, 14, 15, 18, 19, 20, 21, 22, 23, 24, 25] : List Nat).getD 0 0) (([2, 3, 4, 5, 6, 7, 8, 9, 10, 11, 12, 13, 14, 15, 18, 19, 20, 21, 22, 23, 24, 25] : List Nat).getD 14 0)
      (by decide) (by decide)).trans (by decide))
    n25_15_d2)))

theorem n25_15_d0 : fvpF 24 [1, 2, 3, 4, 5, 6, 7, 8, 9, 10, 11, 12, 13, 14, 15, 17, 18, 19, 20, 21, 22, 23, 24, 25] (s25.take 15) = some [(1, 17), (2, 18), (3, 8), (4, 9), (5, 10), (6, 20), (7, 19), (11, 21), (12, 25), (13, 24), (14, 23), (15, 22)] :=
  (Eq.trans (fvpF_succ 23 [1, 2, 3, 4, 5, 6, 7, 8, 9, 10, 11, 12, 13, 14, 15, 17, 18, 19, 20, 21, 22, 23, 24, 25] (s25.take 15) (by decide))
  (Eq.trans (tryRange_skipAll 23 [1, 2, 3, 4, 5, 6, 7, 8, 9, 10, 11, 12, 13, 14, 15, 17, 18, 19, 20, 21, 22, 23, 24, 25] (s25.take 15) 52093862775067432915339799377759154892496328802647501818771932469147856570011558160871642108174360516649987648654875580001049830482874056672862783724503723580621192888756948789273925374085475355810839855948304443184024115113930732355977216 bridge25_15
    (by decide) 1 14 9 (by decide))
  (tryRange_hit 23 [1, 2, 3, 4, 5, 6, 7, 8, 9, 10, 11, 12, 13, 14, 15, 17, 18, 19, 20, 21, 22, 23, 24, 25] (s25.take 15) 15 8 [(2, 18), (3, 8), (4, 9), (5, 10), (6, 20), (7, 19), (11, 21), (12, 25), (13, 24), (14, 23), (15, 22)]
    ((bridge25_15 (([1, 2, 3, 4, 5, 6, 7, 8, 9, 10, 11, 12, 13, 14, 15, 17, 18, 19, 20, 21, 22, 23, 24, 25] : List Nat).getD 0 0) (([1, 2, 3, 4, 5, 6, 7, 8, 9, 10, 11, 12, 13, 14, 15, 17, 18, 19, 20, 21, 22, 23, 24, 25] : List Nat).getD 15 0)
      (by decide) (by decide)).trans (by decide))
    n25_15_d1)))

theorem fvp25_15 : findValidPairs [1, 2, 3, 4, 5, 6, 7, 8, 9, 10, 11, 12, 13, 14, 15, 17, 18, 19, 20, 21, 22, 23, 24, 25] (s25.take 15) = some [(1, 17), (2, 18), (3, 8), (4, 9), (5, 10), (6, 20), (7, 19), (11, 21), (12, 25), (13, 24), (14, 23), (15, 22)] := n25_15_d0

theorem n25_16_d11 : fvpF 13 [15, 21] (s25.take 16) = some [(15, 21)] :=
  (Eq.trans (fvpF_succ 12 [15, 21] (s25.take 16) (by decide))
  (tryRange_hit 12 [15, 21] (s25.take 16) 1 0 []
    ((bridge25_16 (([15, 21] : List Nat).getD 0 0) (([15, 21] : List Nat).getD 1 0)
      (by decide) (by decide)).trans (by decide))
    (fvpF_nil 12 (s25.take 16))))

theorem n25_16_d10 : fvpF 14 [14, 15, 21, 22] (s25.take 16) = some [(14, 22), (15, 21)] :=
  (Eq.trans (fvpF_succ 13 [14, 15, 21, 22] (s25.take 16) (by decide))
  (Eq.trans (tryRange_skipAll 13 [14, 15, 21, 22] (s25.take 16) 52093862775067432915339799377759154892496328802647501818771932469147856570011558160871655201736798198382607876549757909406101944861582448594338296736025020450531411300409200075945241935872429885883382315437805394424793960288208028151316480 bridge25_16
    (by decide) 1 2 1 (by decide))
  (tryRange_hit 13 [14, 15, 21, 22] (s25.take 16) 3 0 [(15, 21)]
    ((bridge25_16 (([14, 15, 21, 22] : List Nat).getD 0 0) (([14, 15, 21, 22] : List Nat).getD 3 0)
      (by decide) (by decide)).trans (by decide))
    n25_16_d11)))

theorem n25_16_d9 : fvpF 15 [13, 14, 15, 20, 21, 22] (s25.take 16) = some [(13, 20), (14, 22), (15, 21)] :=
  (Eq.trans (fvpF_succ 14 [13, 14, 15, 20, 21, 22] (s25.take 16) (by decide))
  (Eq.trans (tryRange_skipAll 14 [13, 14, 15, 20, 21, 22] (s25.take 16) 52093862775067432915339799377759154892496328802647501818771932469147856570011558160871655201736798198382607876549757909406101944861582448594338296736025020450531411300409200075945241935872429885883382315437805394424793960288208028151316480 bridge25_16
    (by decide) 1 2 3 (by decide))
  (tryRange_hit 14 [13, 14, 15, 20, 21, 22] (s25.take 16) 3 2 [(14, 22), (15, 21)]
    ((bridge25_16 (([13, 14, 15, 20, 21, 22] : List Nat).getD 0 0) (([13, 14, 15, 20, 21, 22] : List Nat).getD 3 0)
      (by decide) (by decide)).trans (by decide))
    n25_16_d10)))

theorem n25_16_d8 : fvpF 16 [12, 13, 14, 15, 18, 20, 21, 22] (s25.take 16) = some [(12, 18), (13, 20), (14, 22), (15, 21)] :=
  (Eq.trans (fvpF_succ 15 [12, 13, 14, 15, 18, 20, 21, 22] (s25.take 16) (by decide))
  (Eq.trans (tryRange_skipAll 15 [12, 13, 14, 15, 18, 20, 21, 22] (s25.take 16) 52093862775067432915339799377759154892496328802647501818771932469147856570011558160871655201736798198382607876549757909406101944861582448594338296736025020450531411300409200075945241935872429885883382315437805394424793960288208028151316480 bridge25_16
    (by decide) 1 3 4 (by decide))
  (tryRange_hit 15 [12, 13, 14, 15, 18, 20, 21, 22] (s25.take 16) 4 3 [(13, 20), (14, 22), (15, 21)]
    ((bridge25_16 (([12, 13, 14, 15, 18, 20, 21, 22] : List Nat).getD 0 0) (([12, 13, 14, 15, 18, 20, 21, 22] : List Nat).getD 4 0)
      (by decide) (by decide)).trans (by decide))
    n25_16_d9)))

theorem c25_16_0 : fvpF 16 [12, 13, 14, 15, 18, 21, 22, 23] (s25.take 16) = none :=
  fvpF_none_of_cert 16 [12, 13, 14, 15, 18, 21, 22, 23] (s25.take 16) 52093862775067432915339799377759154892496328802647501818771932469147856570011558160871655201736798198382607876549757909406101944861582448594338296736025020450531411300409200075945241935872429885883382315437805394424793960288208028151316480 bridge25_16
    [] [[12, 13, 14, 15, 18, 21, 22]]
    (by decide) (by decide) (by decide) (by decide) (by decide) (by decide)
    (by decide) (by decide)

theorem c25_16_1 : fvpF 16 [12, 13, 14, 15, 18, 20, 22, 23] (s25.take 16) = none :=
  fvpF_none_of_cert 16 [12, 13, 14, 15, 18, 20, 22, 23] (s25.take 16) 52093862775067432915339799377759154892496328802647501818771932469147856570011558160871655201736798198382607876549757909406101944861582448594338296736025020450531411300409200075945241935872429885883382315437805394424793960288208028151316480 bridge25_16
    [] [[12, 13, 14, 15, 18, 20, 22]]
    (by decide) (by decide) (by decide) (by decide) (by decide) (by decide)
    (by decide) (by decide)

theorem c25_16_2 : fvpF 16 [12, 13, 14, 15, 18, 20, 21, 23] (s25.take 16) = none :=
  fvpF_none_of_cert 16 [12, 13, 14, 15, 18, 20, 21, 23] (s25.take 16) 52093862775067432915339799377759154892496328802647501818771932469147856570011558160871655201736798198382607876549757909406101944861582448594338296736025020450531411300409200075945241935872429885883382315437805394424793960288208028151316480 bridge25_16
    [] [[12, 13, 14, 15, 18, 20, 21]]
    (by decide) (by decide) (by decide) (by decide) (by decide) (by decide)
    (by decide) (by decide)

theorem n25_16_d7 : fvpF 17 [10, 12, 13, 14, 15, 18, 20, 21, 22, 23] (s25.take 16) = some [(10, 23), (12, 18), (13, 20), (14, 22), (15, 21)] :=
  (Eq.trans (fvpF_succ 16 [10, 12, 13, 14, 15, 18, 20, 21, 22, 23] (s25.take 16) (by decide))
  (Eq.trans (Eq.trans (Eq.trans (Eq.trans (tryRange_skipAll 16 [10, 12, 13, 14, 15, 18, 20, 21, 22, 23] (s25.take 16) 52093862775067432915339799377759154892496328802647501818771932469147856570011558160871655201736798198382607876549757909406101944861582448594338296736025020450531411300409200075945241935872429885883382315437805394424793960288208028151316480 bridge25_16
    (by decide) 1 5 4 (by decide))
  (tryRange_fail 16 [10, 12, 13, 14, 15, 18, 20, 21, 22, 23] (s25.take 16) 6 3
    ((bridge25_16 (([10, 12, 13, 14, 15, 18, 20, 21, 22, 23] : List Nat).getD 0 0) (([10, 12, 13, 14, 15, 18, 20, 21, 22, 23] : List Nat).getD 6 0)
      (by decide) (by decide)).trans (by decide))
    c25_16_0))
  (tryRange_fail 16 [10, 12, 13, 14, 15, 18, 20, 21, 22, 23] (s25.take 16) 7 2
    ((bridge25_16 (([10, 12, 13, 14, 15, 18, 20, 21, 22, 23] : List Nat).getD 0 0) (([10, 12, 13, 14, 15, 18, 20, 21, 22, 23] : List Nat).getD 7 0)
      (by decide) (by decide)).trans (by decide))
    c25_16_1))
  (tryRange_fail 16 [10, 12, 13, 14, 15, 18, 20, 21, 22, 23] (s25.take 16) 8 1
    ((bridge25_16 (([10, 12, 13, 14, 15, 18, 20, 21, 22, 23] : List Nat).getD 0 0) (([10, 12, 13, 14, 15, 18, 20, 21, 22, 23] : List Nat).getD 8 0)
      (by decide) (by decide)).trans (by decide))
    c25_16_2))
  (tryRange_hit 16 [10, 12, 13, 14, 15, 18, 20, 21, 22, 23] (s25.take 16) 9 0 [(12, 18), (13, 20), (14, 22), (15, 21)]
    ((bridge25_16 (([10, 12, 13, 14, 15, 18, 20, 21, 22, 23] : List Nat).getD 0 0) (([10, 12, 13, 14, 15, 18, 20, 21, 22, 23] : List Nat).getD 9 0)
      (by decide) (by decide)).trans (by decide))
    n25_16_d8)))

theorem c25_16_3 : fvpF 17 [12, 13, 14, 15, 18, 20, 21, 22, 23, 25] (s25.take 16) = none :=
  fvpF_none_of_cert 17 [12, 13, 14, 15, 18, 20, 21, 22, 23, 25] (s25.take 16) 52093862775067432915339799377759154892496328802647501818771932469147856570011558160871655201736798198382607876549757909406101944861582448594338296736025020450531411300409200075945241935872429885883382315437805394424793960288208028151316480 bridge25_16
    [] [[23]]
    (by decide) (by decide) (by decide) (by decide) (by decide) (by decide)
    (by decide) (by decide)

theorem c25_16_4 : fvpF 17 [10, 13, 14, 15, 18, 20, 21, 22, 23, 25] (s25.take 16) = none :=
  fvpF_none_of_cert 17 [10, 13, 14, 15, 18, 20, 21, 22, 23, 25] (s25.take 16) 52093862775067432915339799377759154892496328802647501818771932469147856570011558160871655201736798198382607876549757909406101944861582448594338296736025020450531411300409200075945241935872429885883382315437805394424793960288208028151316480 bridge25_16
    [] [[10, 13, 14, 15, 18, 20, 21, 22, 23]]
    (by decide) (by decide) (by decide) (by decide) (by decide) (by decide)
    (by decide) (by decide)

theorem c25_16_5 : fvpF 17 [10, 12, 14, 15, 18, 20, 21, 22, 23, 25] (s25.take 16) = none :=
  fvpF_none_of_cert 17 [10, 12, 14, 15, 18, 20, 21, 22, 23, 25] (s25.take 16) 52093862775067432915339799377759154892496328802647501818771932469147856570011558160871655201736798198382607876549757909406101944861582448594338296736025020450531411300409200075945241935872429885883382315437805394424793960288208028151316480 bridge25_16
    [] [[10, 12, 14, 15, 18, 20, 21, 22, 23]]
    (by decide) (by decide) (by decide) (by decide) (by decide) (by decide)
    (by decide) (by decide)

theorem c25_16_6 : fvpF 17 [10, 12, 13, 14, 15, 20, 21, 22, 23, 25] (s25.take 16) = none :=
  fvpF_none_of_cert 17 [10, 12, 13, 14, 15, 20, 21, 22, 23, 25] (s25.take 16) 52093862775067432915339799377759154892496328802647501818771932469147856570011558160871655201736798198382607876549757909406101944861582448594338296736025020450531411300409200075945241935872429885883382315437805394424793960288208028151316480 bridge25_16
    [] [[10, 12, 13, 14, 15, 20, 21, 22, 23]]
    (by decide) (by decide) (by decide) (by decide) (by decide) (by decide)
    (by decide) (by decide)

theorem n25_16_d6 : fvpF 18 [7, 10, 12, 13, 14, 15, 18, 20, 21, 22, 23, 25] (s25.take 16) = some [(7, 25), (10, 23), (12, 18), (13, 20), (14, 22), (15, 21)] :=
  (Eq.trans (fvpF_succ 17 [7, 10, 12, 13, 14, 15, 18, 20, 21, 22, 23, 25] (s25.take 16) (by decide))
  (Eq.trans (Eq.trans (Eq.trans (Eq.trans (Eq.trans (Eq.trans (tryRange_fail 17 [7, 10, 12, 13, 14, 15, 18, 20, 21, 22, 23, 25] (s25.take 16) 1 10
    ((bridge25_16 (([7, 10, 12, 13, 14, 15, 18, 20, 21, 22, 23, 25] : List Nat).getD 0 0) (([7, 10, 12, 13, 14, 15, 18, 20, 21, 22, 23, 25] : List Nat).getD 1 0)
      (by decide) (by decide)).trans (by decide))
    c25_16_3)
  (tryRange_fail 17 [7, 10, 12, 13, 14, 15, 18, 20, 21, 22, 23, 25] (s25.take 16) 2 9
    ((bridge25_16 (([7, 10, 12, 13, 14, 15, 18, 20, 21, 22, 23, 25] : List Nat).getD 0 0) (([7, 10, 12, 13, 14, 15, 18, 20, 21, 22, 23, 25] : List Nat).getD 2 0)
      (by decide) (by decide)).trans (by decide))
    c25_16_4))
  (tryRange_fail 17 [7, 10, 12, 13, 14, 15, 18, 20, 21, 22, 23, 25] (s25.take 16) 3 8
    ((bridge25_16 (([7, 10, 12, 13, 14, 15, 18, 20, 21, 22, 23, 25] : List Nat).getD 0 0) (([7, 10, 12, 13, 14, 15, 18, 20, 21, 22, 23, 25] : List Nat).getD 3 0)
      (by decide) (by decide)).trans (by decide))
    c25_16_5))
  (tryRange_skipAll 17 [7, 10, 12, 13, 14, 15, 18, 20, 21, 22, 23, 25] (s25.take 16) 52093862775067432915339799377759154892496328802647501818771932469147856570011558160871655201736798198382607876549757909406101944861582448594338296736025020450531411300409200075945241935872429885883382315437805394424793960288208028151316480 bridge25_16
    (by decide) 4 2 6 (by decide)))
  (tryRange_fail 17 [7, 10, 12, 13, 14, 15, 18, 20, 21, 22, 23, 25] (s25.take 16) 6 5
    ((bridge25_16 (([7, 10, 12, 13, 14, 15, 18, 20, 21, 22, 23, 25] : List Nat).getD 0 0) (([7, 10, 12, 13, 14, 15, 18, 20, 21, 22, 23, 25] : List Nat).getD 6 0)
      (by decide) (by decide)).trans (by decide))
    c25_16_6))
  (tryRange_skipAll 17 [7, 10, 12, 13, 14, 15, 18, 20, 21, 22, 23, 25] (s25.take 16) 52093862775067432915339799377759154892496328802647501818771932469147856570011558160871655201736798198382607876549757909406101944861582448594338296736025020450531411300409200075945241935872429885883382315437805394424793960288208028151316480 bridge25_16
    (by decide) 7 4 1 (by decide)))
  (tryRange_hit 17 [7, 10, 12, 13, 14, 15, 18, 20, 21, 22, 23, 25] (s25.take 16) 11 0 [(10, 23), (12, 18), (13, 20), (14, 22), (15, 21)]
    ((bridge25_16 (([7, 10, 12, 13, 14, 15, 18, 20, 21, 22, 23, 25] : List Nat).getD 0 0) (([7, 10, 12, 13, 14, 15, 18, 20, 21, 22, 23, 25] : List Nat).getD 11 0)
      (by decide) (by decide)).trans (by decide))
    n25_16_d7)))

theorem c25_16_7 : fvpF 18 [7, 12, 13, 14, 15, 18, 20, 21, 22, 23, 24, 25] (s25.take 16) = none :=
  fvpF_none_of_cert 18 [7, 12, 13, 14, 15, 18, 20, 21, 22, 23, 24, 25] (s25.take 16) 52093862775067432915339799377759154892496328802647501818771932469147856570011558160871655201736798198382607876549757909406101944861582448594338296736025020450531411300409200075945241935872429885883382315437805394424793960288208028151316480 bridge25_16
    [] [[7, 12, 13, 14, 15, 18, 20, 21, 22, 24, 25]]
    (by decide) (by decide) (by decide) (by decide) (by decide) (by decide)
    (by decide) (by decide)

theorem c25_16_8 : fvpF 18 [7, 10, 13, 14, 15, 18, 20, 21, 22, 23, 24, 25] (s25.take 16) = none :=
  fvpF_none_of_cert 18 [7, 10, 13, 14, 15, 18, 20, 21, 22, 23, 24, 25] (s25.take 16) 52093862775067432915339799377759154892496328802647501818771932469147856570011558160871655201736798198382607876549757909406101944861582448594338296736025020450531411300409200075945241935872429885883382315437805394424793960288208028151316480 bridge25_16
    [7, 10, 13, 14, 15] [[18], [20], [21], [22], [23], [24]]
    (by decide) (by decide) (by decide) (by decide) (by decide) (by decide)
    (by decide) (by decide)

theorem c25_16_9 : fvpF 18 [7, 10, 12, 14, 15, 18, 20, 21, 22, 23, 24, 25] (s25.take 16) = none :=
  fvpF_none_of_cert 18 [7, 10, 12, 14, 15, 18, 20, 21, 22, 23, 24, 25] (s25.take 16) 52093862775067432915339799377759154892496328802647501818771932469147856570011558160871655201736798198382607876549757909406101944861582448594338296736025020450531411300409200075945241935872429885883382315437805394424793960288208028151316480 bridge25_16
    [7, 10, 12, 14, 15] [[18], [20], [21], [22], [23], [24]]
    (by decide) (by decide) (by decide) (by decide) (by decide) (by decide)
    (by decide) (by decide)

theorem c25_16_10 : fvpF 18 [7, 10, 12, 13, 14, 15, 18, 20, 22, 23, 24, 25] (s25.take 16) = none :=
  fvpF_none_of_cert 18 [7, 10, 12, 13, 14, 15, 18, 20, 22, 23, 24, 25] (s25.take 16) 52093862775067432915339799377759154892496328802647501818771932469147856570011558160871655201736798198382607876549757909406101944861582448594338296736025020450531411300409200075945241935872429885883382315437805394424793960288208028151316480 bridge25_16
    [7, 18, 20] [[12], [13], [15], [24]]
    (by decide) (by decide) (by decide) (by decide) (by decide) (by decide)
    (by decide) (by decide)

theorem n25_16_d5 : fvpF 19 [6, 7, 10, 12, 13, 14, 15, 18, 20, 21, 22, 23, 24, 25] (s25.take 16) = some [(6, 24), (7, 25), (10, 23), (12, 18), (13, 20), (14, 22), (15, 21)] :=
  (Eq.trans (fvpF_succ 18 [6, 7, 10, 12, 13, 14, 15, 18, 20, 21, 22, 23, 24, 25] (s25.take 16) (by decide))
  (Eq.trans (Eq.trans (Eq.trans (Eq.trans (Eq.trans (Eq.trans (Eq.trans (tryRange_skipAll 18 [6, 7, 10, 12, 13, 14, 15, 18, 20, 21, 22, 23, 24, 25] (s25.take 16) 52093862775067432915339799377759154892496328802647501818771932469147856570011558160871655201736798198382607876549757909406101944861582448594338296736025020450531411300409200075945241935872429885883382315437805394424793960288208028151316480 bridge25_16
    (by decide) 1 1 12 (by decide))
  (tryRange_fail 18 [6, 7, 10, 12, 13, 14, 15, 18, 20, 21, 22, 23, 24, 25] (s25.take 16) 2 11
    ((bridge25_16 (([6, 7, 10, 12, 13, 14, 15, 18, 20, 21, 22, 23, 24, 25] : List Nat).getD 0 0) (([6, 7, 10, 12, 13, 14, 15, 18, 20, 21, 22, 23, 24, 25] : List Nat).getD 2 0)
      (by decide) (by decide)).trans (by decide))
    c25_16_7))
  (tryRange_fail 18 [6, 7, 10, 12, 13, 14, 15, 18, 20, 21, 22, 23, 24, 25] (s25.take 16) 3 10
    ((bridge25_16 (([6, 7, 10, 12, 13, 14, 15, 18, 20, 21, 22, 23, 24, 25] : List Nat).getD 0 0) (([6, 7, 10, 12, 13, 14, 15, 18, 20, 21, 22, 23, 24, 25] : List Nat).getD 3 0)
      (by decide) (by decide)).trans (by decide))
    c25_16_8))
  (tryRange_fail 18 [6, 7, 10, 12, 13, 14, 15, 18, 20, 21, 22, 23, 24, 25] (s25.take 16) 4 9
    ((bridge25_16 (([6, 7, 10, 12, 13, 14, 15, 18, 20, 21, 22, 23, 24, 25] : List Nat).getD 0 0) (([6, 7, 10, 12, 13, 14, 15, 18, 20, 21, 22, 23, 24, 25] : List Nat).getD 4 0)
      (by decide) (by decide)).trans (by decide))
    c25_16_9))
  (tryRange_skipAll 18 [6, 7, 10, 12, 13, 14, 15, 18, 20, 21, 22, 23, 24, 25] (s25.take 16) 52093862775067432915339799377759154892496328802647501818771932469147856570011558160871655201736798198382607876549757909406101944861582448594338296736025020450531411300409200075945241935872429885883382315437805394424793960288208028151316480 bridge25_16
    (by decide) 5 4 5 (by decide)))
  (tryRange_fail 18 [6, 7, 10, 12, 13, 14, 15, 18, 20, 21, 22, 23, 24, 25] (s25.take 16) 9 4
    ((bridge25_16 (([6, 7, 10, 12, 13, 14, 15, 18, 20, 21, 22, 23, 24, 25] : List Nat).getD 0 0) (([6, 7, 10, 12, 13, 14, 15, 18, 20, 21, 22, 23, 24, 25] : List Nat).getD 9 0)
      (by decide) (by decide)).trans (by decide))
    c25_16_10))
  (tryRange_skipAll 18 [6, 7, 10, 12, 13, 14, 15, 18, 20, 21, 22, 23, 24, 25] (s25.take 16) 52093862775067432915339799377759154892496328802647501818771932469147856570011558160871655201736798198382607876549757909406101944861582448594338296736025020450531411300409200075945241935872429885883382315437805394424793960288208028151316480 bridge25_16
    (by decide) 10 2 2 (by decide)))
  (tryRange_hit 18 [6, 7, 10, 12, 13, 14, 15, 18, 20, 21, 22, 23, 24, 25] (s25.take 16) 12 1 [(7, 25), (10, 23), (12, 18), (13, 20), (14, 22), (15, 21)]
    ((bridge25_16 (([6, 7, 10, 12, 13, 14, 15, 18, 20, 21, 22, 23, 24, 25] : List Nat).getD 0 0) (([6, 7, 10, 12, 13, 14, 15, 18, 20, 21, 22, 23, 24, 25] : List Nat).getD 12 0)
      (by decide) (by decide)).trans (by decide))
    n25_16_d6)))

theorem n25_16_d4 : fvpF 20 [5, 6, 7, 10, 11, 12, 13, 14, 15, 18, 20, 21, 22, 23, 24, 25] (s25.take 16) = some [(5, 11), (6, 24), (7, 25), (10, 23), (12, 18), (13, 20), (14, 22), (15, 21)] :=
  (Eq.trans (fvpF_succ 19 [5, 6, 7, 10, 11, 12, 13, 14, 15, 18, 20, 21, 22, 23, 24, 25] (s25.take 16) (by decide))
  (Eq.trans (tryRange_skipAll 19 [5, 6, 7, 10, 11, 12, 13, 14, 15, 18, 20, 21, 22, 23, 24, 25] (s25.take 16) 52093862775067432915339799377759154892496328802647501818771932469147856570011558160871655201736798198382607876549757909406101944861582448594338296736025020450531411300409200075945241935872429885883382315437805394424793960288208028151316480 bridge25_16
    (by decide) 1 3 12 (by decide))
  (tryRange_hit 19 [5, 6, 7, 10, 11, 12, 13, 14, 15, 18, 20, 21, 22, 23, 24, 25] (s25.take 16) 4 11 [(6, 24), (7, 25), (10, 23), (12, 18), (13, 20), (14, 22), (15, 21)]
    ((bridge25_16 (([5, 6, 7, 10, 11, 12, 13, 14, 15, 18, 20, 21, 22, 23, 24, 25] : List Nat).getD 0 0) (([5, 6, 7, 10, 11, 12, 13, 14, 15, 18, 20, 21, 22, 23, 24, 25] : List Nat).getD 4 0)
      (by decide) (by decide)).trans (by decide))
    n25_16_d5)))

theorem n25_16_d3 : fvpF 21 [4, 5, 6, 7, 8, 10, 11, 12, 13, 14, 15, 18, 20, 21, 22, 23, 24, 25] (s25.take 16) = some [(4, 8), (5, 11), (6, 24), (7, 25), (10, 23), (12, 18), (13, 20), (14, 22), (15, 21)] :=
  (Eq.trans (fvpF_succ 20 [4, 5, 6, 7, 8, 10, 11, 12, 13, 14, 15, 18, 20, 21, 22, 23, 24, 25] (s25.take 16) (by decide))
  (Eq.trans (tryRange_skipAll 20 [4, 5, 6, 7, 8, 10, 11, 12, 13, 14, 15, 18, 20, 21, 22, 23, 24, 25] (s25.take 16) 52093862775067432915339799377759154892496328802647501818771932469147856570011558160871655201736798198382607876549757909406101944861582448594338296736025020450531411300409200075945241935872429885883382315437805394424793960288208028151316480 bridge25_16
    (by decide) 1 3 14 (by decide))
  (tryRange_hit 20 [4, 5, 6, 7, 8, 10, 11, 12, 13, 14, 15, 18, 20, 21, 22, 23, 24, 25] (s25.take 16) 4 13 [(5, 11), (6, 24), (7, 25), (10, 23), (12, 18), (13, 20), (14, 22), (15, 21)]
    ((bridge25_16 (([4, 5, 6, 7, 8, 10, 11, 12, 13, 14, 15, 18, 20, 21, 22, 23, 24, 25] : List Nat).getD 0 0) (([4, 5, 6, 7, 8, 10, 11, 12, 13, 14, 15, 18, 20, 21, 22, 23, 24, 25] : List Nat).getD 4 0)
      (by decide) (by decide)).trans (by decide))
    n25_16_d4)))

theorem n25_16_d2 : fvpF 22 [3, 4, 5, 6, 7, 8, 9, 10, 11, 12, 13, 14, 15, 18, 20, 21, 22, 23, 24, 25] (s25.take 16) = some [(3, 9), (4, 8), (5, 11), (6, 24), (7, 25), (10, 23), (12, 18), (13, 20), (14, 22), (15, 21)] :=
  (Eq.trans (fvpF_succ 21 [3, 4, 5, 6, 7, 8, 9, 10, 11, 12, 13, 14, 15, 18, 20, 21, 22, 23, 24, 25] (s25.take 16) (by decide))
  (Eq.trans (tryRange_skipAll 21 [3, 4, 5, 6, 7, 8, 9, 10, 11, 12, 13, 14, 15, 18, 20, 21, 22, 23, 24, 25] (s25.take 16) 52093862775067432915339799377759154892496328802647501818771932469147856570011558160871655201736798198382607876549757909406101944861582448594338296736025020450531411300409200075945241935872429885883382315437805394424793960288208028151316480 bridge25_16
    (by decide) 1 5 14 (by decide))
  (tryRange_hit 21 [3, 4, 5, 6, 7, 8, 9, 10, 11, 12, 13, 14, 15, 18, 20, 21, 22, 23, 24, 25] (s25.take 16) 6 13 [(4, 8), (5, 11), (6, 24), (7, 25), (10, 23), (12, 18), (13, 20), (14, 22), (15, 21)]
    ((bridge25_16 (([3, 4, 5, 6, 7, 8, 9, 10, 11, 12, 13, 14, 15, 18, 20, 21, 22, 23, 24, 25] : List Nat).getD 0 0) (([3, 4, 5, 6, 7, 8, 9, 10, 11, 12, 13, 14, 15, 18, 20, 21, 22, 23, 24, 25] : List Nat).getD 6 0)
      (by decide) (by decide)).trans (by decide))
    n25_16_d3)))

theorem n25_16_d1 : fvpF 23 [2, 3, 4, 5, 6, 7, 8, 9, 10, 11, 12, 13, 14, 15, 18, 19, 20, 21, 22, 23, 24, 25] (s25.take 16) = some [(2, 19), (3, 9), (4, 8), (5, 11), (6, 24), (7, 25), (10, 23), (12, 18), (13, 20), (14, 22), (15, 21)] :=
  (Eq.trans (fvpF_succ 22 [2, 3, 4, 5, 6, 7, 8, 9, 10, 11, 12, 13, 14, 15, 18, 19, 20, 21, 22, 23, 24, 25] (s25.take 16) (by decide))
  (Eq.trans (tryRange_skipAll 22 [2, 3, 4, 5, 6, 7, 8, 9, 10, 11, 12, 13, 14, 15, 18, 19, 20, 21, 22, 23, 24, 25] (s25.take 16) 52093862775067432915339799377759154892496328802647501818771932469147856570011558160871655201736798198382607876549757909406101944861582448594338296736025020450531411300409200075945241935872429885883382315437805394424793960288208028151316480 bridge25_16
    (by decide) 1 14 7 (by decide))
  (tryRange_hit 22 [2, 3, 4, 5, 6, 7, 8, 9, 10, 11, 12, 13, 14, 15, 18, 19, 20, 21, 22, 23, 24, 25] (s25.take 16) 15 6 [(3, 9), (4, 8), (5, 11), (6, 24), (7, 25), (10, 23), (12, 18), (13, 20), (14, 22), (15, 21)]
    ((bridge25_16 (([2, 3, 4, 5, 6, 7, 8, 9, 10, 11, 12, 13, 14, 15, 18, 19, 20, 21, 22, 23, 24, 25] : List Nat).getD 0 0) (([2, 3, 4, 5, 6, 7, 8, 9, 10, 11, 12, 13, 14, 15, 18, 19, 20, 21, 22, 23, 24, 25] : List Nat).getD 15 0)
      (by decide) (by decide)).trans (by decide))
    n25_16_d2)))

theorem n25_16_d0 : fvpF 24 [1, 2, 3, 4, 5, 6, 7, 8, 9, 10, 11, 12, 13, 14, 15, 16, 18, 19, 20, 21, 22, 23, 24, 25] (s25.take 16) = some [(1, 16), (2, 19), (3, 9), (4, 8), (5, 11), (6, 24), (7, 25), (10, 23), (12, 18), (13, 20), (14, 22), (15, 21)] :=
  (Eq.trans (fvpF_succ 23 [1, 2, 3, 4, 5, 6, 7, 8, 9, 10, 11, 12, 13, 14, 15, 16, 18, 19, 20, 21, 22, 23, 24, 25] (s25.take 16) (by decide))
  (Eq.trans (tryRange_skipAll 23 [1, 2, 3, 4, 5, 6, 7, 8, 9, 10, 11, 12, 13, 14, 15, 16, 18, 19, 20, 21, 22, 23, 24, 25] (s25.take 16) 52093862775067432915339799377759154892496328802647501818771932469147856570011558160871655201736798198382607876549757909406101944861582448594338296736025020450531411300409200075945241935872429885883382315437805394424793960288208028151316480 bridge25_16
    (by decide) 1 14 9 (by decide))
  (tryRange_hit 23 [1, 2, 3, 4, 5, 6, 7, 8, 9, 10, 11, 12, 13, 14, 15, 16, 18, 19, 20, 21, 22, 23, 24, 25] (s25.take 16) 15 8 [(2, 19), (3, 9), (4, 8), (5, 11), (6, 24), (7, 25), (10, 23), (12, 18), (13, 20), (14, 22), (15, 21)]
    ((bridge25_16 (([1, 2, 3, 4, 5, 6, 7, 8, 9, 10, 11, 12, 13, 14, 15, 16, 18, 19, 20, 21, 22, 23, 24, 25] : List Nat).getD 0 0) (([1, 2, 3, 4, 5, 6, 7, 8, 9, 10, 11, 12, 13, 14, 15, 16, 18, 19, 20, 21, 22, 23, 24, 25] : List Nat).getD 15 0)
      (by decide) (by decide)).trans (by decide))
    n25_16_d1)))

theorem fvp25_16 : findValidPairs [1, 2, 3, 4, 5, 6, 7, 8, 9, 10, 11, 12, 13, 14, 15, 16, 18, 19, 20, 21, 22, 23, 24, 25] (s25.take 16) = some [(1, 16), (2, 19), (3, 9), (4, 8), (5, 11), (6, 24), (7, 25), (10, 23), (12, 18), (13, 20), (14, 22), (15, 21)] := n25_16_d0

theorem n25_17_d11 : fvpF 13 [15, 20] (s25.take 17) = some [(15, 20)] :=
  (Eq.trans (fvpF_succ 12 [15, 20] (s25.take 17) (by decide))
  (tryRange_hit 12 [15, 20] (s25.take 17) 1 0 []
    ((bridge25_17 (([15, 20] : List Nat).getD 0 0) (([15, 20] : List Nat).getD 1 0)
      (by decide) (by decide)).trans (by decide))
    (fvpF_nil 12 (s25.take 17))))

theorem n25_17_d10 : fvpF 14 [14, 15, 17, 20] (s25.take 17) = some [(14, 17), (15, 20)] :=
  (Eq.trans (fvpF_succ 13 [14, 15, 17, 20] (s25.take 17) (by decide))
  (Eq.trans (tryRange_skipAll 13 [14, 15, 17, 20] (s25.take 17) 52093862775067432915339799377759154892496328802647501818771932469147856570011558160871661748518017039248916748341175457256601623400787154038282604946104729444214832481374790696903464495650646659914948686721268863294377627682585709884997632 bridge25_17
    (by decide) 1 1 2 (by decide))
  (tryRange_hit 13 [14, 15, 17, 20] (s25.take 17) 2 1 [(15, 20)]
    ((bridge25_17 (([14, 15, 17, 20] : List Nat).getD 0 0) (([14, 15, 17, 20] : List Nat).getD 2 0)
      (by decide) (by decide)).trans (by decide))
    n25_17_d11)))

theorem c25_17_0 : fvpF 14 [14, 15, 20, 21] (s25.take 17) = none :=
  fvpF_none_of_cert 14 [14, 15, 20, 21] (s25.take 17) 52093862775067432915339799377759154892496328802647501818771932469147856570011558160871661748518017039248916748341175457256601623400787154038282604946104729444214832481374790696903464495650646659914948686721268863294377627682585709884997632 bridge25_17
    [] [[14, 15, 20]]
    (by decide) (by decide) (by decide) (by decide) (by decide) (by decide)
    (by decide) (by decide)

theorem n25_17_d9 : fvpF 15 [13, 14, 15, 17, 20, 21] (s25.take 17) = some [(13, 21), (14, 17), (15, 20)] :=
  (Eq.trans (fvpF_succ 14 [13, 14, 15, 17, 20, 21] (s25.take 17) (by decide))
  (Eq.trans (Eq.trans (Eq.trans (tryRange_skipAll 14 [13, 14, 15, 17, 20, 21] (s25.take 17) 52093862775067432915339799377759154892496328802647501818771932469147856570011558160871661748518017039248916748341175457256601623400787154038282604946104729444214832481374790696903464495650646659914948686721268863294377627682585709884997632 bridge25_17
    (by decide) 1 2 3 (by decide))
  (tryRange_fail 14 [13, 14, 15, 17, 20, 21] (s25.take 17) 3 2
    ((bridge25_17 (([13, 14, 15, 17, 20, 21] : List Nat).getD 0 0) (([13, 14, 15, 17, 20, 21] : List Nat).getD 3 0)
      (by decide) (by decide)).trans (by decide))
    c25_17_0))
  (tryRange_skipAll 14 [13, 14, 15, 17, 20, 21] (s25.take 17) 52093862775067432915339799377759154892496328802647501818771932469147856570011558160871661748518017039248916748341175457256601623400787154038282604946104729444214832481374790696903464495650646659914948686721268863294377627682585709884997632 bridge25_17
    (by decide) 4 1 1 (by decide)))
  (tryRange_hit 14 [13, 14, 15, 17, 20, 21] (s25.take 17) 5 0 [(14, 17), (15, 20)]
    ((bridge25_17 (([13, 14, 15, 17, 20, 21] : List Nat).getD 0 0) (([13, 14, 15, 17, 20, 21] : List Nat).getD 5 0)
      (by decide) (by decide)).trans (by decide))
    n25_17_d10)))

theorem c25_17_1 : fvpF 15 [13, 14, 15, 20, 21, 23] (s25.take 17) = none :=
  fvpF_none_of_cert 15 [13, 14, 15, 20, 21, 23] (s25.take 17) 52093862775067432915339799377759154892496328802647501818771932469147856570011558160871661748518017039248916748341175457256601623400787154038282604946104729444214832481374790696903464495650646659914948686721268863294377627682585709884997632 bridge25_17
    [] [[14, 15, 20]]
    (by decide) (by decide) (by decide) (by decide) (by decide) (by decide)
    (by decide) (by decide)

theorem n25_17_d8 : fvpF 16 [11, 13, 14, 15, 17, 20, 21, 23] (s25.take 17) = some [(11, 23), (13, 21), (14, 17), (15, 20)] :=
  (Eq.trans (fvpF_succ 15 [11, 13, 14, 15, 17, 20, 21, 23] (s25.take 17) (by decide))
  (Eq.trans (Eq.trans (Eq.trans (tryRange_skipAll 15 [11, 13, 14, 15, 17, 20, 21, 23] (s25.take 17) 52093862775067432915339799377759154892496328802647501818771932469147856570011558160871661748518017039248916748341175457256601623400787154038282604946104729444214832481374790696903464495650646659914948686721268863294377627682585709884997632 bridge25_17
    (by decide) 1 3 4 (by decide))
  (tryRange_fail 15 [11, 13, 14, 15, 17, 20, 21, 23] (s25.take 17) 4 3
    ((bridge25_17 (([11, 13, 14, 15, 17, 20, 21, 23] : List Nat).getD 0 0) (([11, 13, 14, 15, 17, 20, 21, 23] : List Nat).getD 4 0)
      (by decide) (by decide)).trans (by decide))
    c25_17_1))
  (tryRange_skipAll 15 [11, 13, 14, 15, 17, 20, 21, 23] (s25.take 17) 52093862775067432915339799377759154892496328802647501818771932469147856570011558160871661748518017039248916748341175457256601623400787154038282604946104729444214832481374790696903464495650646659914948686721268863294377627682585709884997632 bridge25_17
    (by decide) 5 2 1 (by decide)))
  (tryRange_hit 15 [11, 13, 14, 15, 17, 20, 21, 23] (s25.take 17) 7 0 [(13, 21), (14, 17), (15, 20)]
    ((bridge25_17 (([11, 13, 14, 15, 17, 20, 21, 23] : List Nat).getD 0 0) (([11, 13, 14, 15, 17, 20, 21, 23] : List Nat).getD 7 0)
      (by decide) (by decide)).trans (by decide))
    n25_17_d9)))

theorem c25_17_2 : fvpF 16 [11, 13, 14, 15, 20, 21, 22, 23] (s25.take 17) = none :=
  fvpF_none_of_cert 16 [11, 13, 14, 15, 20, 21, 22, 23] (s25.take 17) 52093862775067432915339799377759154892496328802647501818771932469147856570011558160871661748518017039248916748341175457256601623400787154038282604946104729444214832481374790696903464495650646659914948686721268863294377627682585709884997632 bridge25_17
    [] [[11, 22, 23]]
    (by decide) (by decide) (by decide) (by decide) (by decide) (by decide)
    (by decide) (by decide)

theorem n25_17_d7 : fvpF 17 [9, 11, 13, 14, 15, 17, 20, 21, 22, 23] (s25.take 17) = some [(9, 22), (11, 23), (13, 21), (14, 17), (15, 20)] :=
  (Eq.trans (fvpF_succ 16 [9, 11, 13, 14, 15, 17, 20, 21, 22, 23] (s25.take 17) (by decide))
  (Eq.trans (Eq.trans (Eq.trans (tryRange_skipAll 16 [9, 11, 13, 14, 15, 17, 20, 21, 22, 23] (s25.take 17) 52093862775067432915339799377759154892496328802647501818771932469147856570011558160871661748518017039248916748341175457256601623400787154038282604946104729444214832481374790696903464495650646659914948686721268863294377627682585709884997632 bridge25_17
    (by decide) 1 4 5 (by decide))
  (tryRange_fail 16 [9, 11, 13, 14, 15, 17, 20, 21, 22, 23] (s25.take 17) 5 4
    ((bridge25_17 (([9, 11, 13, 14, 15, 17, 20, 21, 22, 23] : List Nat).getD 0 0) (([9, 11, 13, 14, 15, 17, 20, 21, 22, 23] : List Nat).getD 5 0)
      (by decide) (by decide)).trans (by decide))
    c25_17_2))
  (tryRange_skipAll 16 [9, 11, 13, 14, 15, 17, 20, 21, 22, 23] (s25.take 17) 52093862775067432915339799377759154892496328802647501818771932469147856570011558160871661748518017039248916748341175457256601623400787154038282604946104729444214832481374790696903464495650646659914948686721268863294377627682585709884997632 bridge25_17
    (by decide) 6 2 2 (by decide)))
  (tryRange_hit 16 [9, 11, 13, 14, 15, 17, 20, 21, 22, 23] (s25.take 17) 8 1 [(11, 23), (13, 21), (14, 17), (15, 20)]
    ((bridge25_17 (([9, 11, 13, 14, 15, 17, 20, 21, 22, 23] : List Nat).getD 0 0) (([9, 11, 13, 14, 15, 17, 20, 21, 22, 23] : List Nat).getD 8 0)
      (by decide) (by decide)).trans (by decide))
    n25_17_d8)))

theorem c25_17_3 : fvpF 17 [11, 13, 14, 15, 17, 20, 21, 22, 23, 24] (s25.take 17) = none :=
  fvpF_none_of_cert 17 [11, 13, 14, 15, 17, 20, 21, 22, 23, 24] (s25.take 17) 52093862775067432915339799377759154892496328802647501818771932469147856570011558160871661748518017039248916748341175457256601623400787154038282604946104729444214832481374790696903464495650646659914948686721268863294377627682585709884997632 bridge25_17
    [] [[11, 13, 14, 15, 17, 20, 21, 22, 23]]
    (by decide) (by decide) (by decide) (by decide) (by decide) (by decide)
    (by decide) (by decide)

theorem c25_17_4 : fvpF 17 [9, 13, 14, 15, 17, 20, 21, 22, 23, 24] (s25.take 17) = none :=
  fvpF_none_of_cert 17 [9, 13, 14, 15, 17, 20, 21, 22, 23, 24] (s25.take 17) 52093862775067432915339799377759154892496328802647501818771932469147856570011558160871661748518017039248916748341175457256601623400787154038282604946104729444214832481374790696903464495650646659914948686721268863294377627682585709884997632 bridge25_17
    [] [[9, 13, 14, 15, 17, 20, 21, 22, 23]]
    (by decide) (by decide) (by decide) (by decide) (by decide) (by decide)
    (by decide) (by decide)

theorem c25_17_5 : fvpF 17 [9, 11, 14, 15, 17, 20, 21, 22, 23, 24] (s25.take 17) = none :=
  fvpF_none_of_cert 17 [9, 11, 14, 15, 17, 20, 21, 22, 23, 24] (s25.take 17) 52093862775067432915339799377759154892496328802647501818771932469147856570011558160871661748518017039248916748341175457256601623400787154038282604946104729444214832481374790696903464495650646659914948686721268863294377627682585709884997632 bridge25_17
    [] [[21]]
    (by decide) (by decide) (by decide) (by decide) (by decide) (by decide)
    (by decide) (by decide)

theorem n25_17_d6 : fvpF 18 [7, 9, 11, 13, 14, 15, 17, 20, 21, 22, 23, 24] (s25.take 17) = some [(7, 24), (9, 22), (11, 23), (13, 21), (14, 17), (15, 20)] :=
  (Eq.trans (fvpF_succ 17 [7, 9, 11, 13, 14, 15, 17, 20, 21, 22, 23, 24] (s25.take 17) (by decide))
  (Eq.trans (Eq.trans (Eq.trans (Eq.trans (tryRange_fail 17 [7, 9, 11, 13, 14, 15, 17, 20, 21, 22, 23, 24] (s25.take 17) 1 10
    ((bridge25_17 (([7, 9, 11, 13, 14, 15, 17, 20, 21, 22, 23, 24] : List Nat).getD 0 0) (([7, 9, 11, 13, 14, 15, 17, 20, 21, 22, 23, 24] : List Nat).getD 1 0)
      (by decide) (by decide)).trans (by decide))
    c25_17_3)
  (tryRange_fail 17 [7, 9, 11, 13, 14, 15, 17, 20, 21, 22, 23, 24] (s25.take 17) 2 9
    ((bridge25_17 (([7, 9, 11, 13, 14, 15, 17, 20, 21, 22, 23, 24] : List Nat).getD 0 0) (([7, 9, 11, 13, 14, 15, 17, 20, 21, 22, 23, 24] : List Nat).getD 2 0)
      (by decide) (by decide)).trans (by decide))
    c25_17_4))
  (tryRange_fail 17 [7, 9, 11, 13, 14, 15, 17, 20, 21, 22, 23, 24] (s25.take 17) 3 8
    ((bridge25_17 (([7, 9, 11, 13, 14, 15, 17, 20, 21, 22, 23, 24] : List Nat).getD 0 0) (([7, 9, 11, 13, 14, 15, 17, 20, 21, 22, 23, 24] : List Nat).getD 3 0)
      (by decide) (by decide)).trans (by decide))
    c25_17_5))
  (tryRange_skipAll 17 [7, 9, 11, 13, 14, 15, 17, 20, 21, 22, 23, 24] (s25.take 17) 52093862775067432915339799377759154892496328802647501818771932469147856570011558160871661748518017039248916748341175457256601623400787154038282604946104729444214832481374790696903464495650646659914948686721268863294377627682585709884997632 bridge25_17
    (by decide) 4 7 1 (by decide)))
  (tryRange_hit 17 [7, 9, 11, 13, 14, 15, 17, 20, 21, 22, 23, 24] (s25.take 17) 11 0 [(9, 22), (11, 23), (13, 21), (14, 17), (15, 20)]
    ((bridge25_17 (([7, 9, 11, 13, 14, 15, 17, 20, 21, 22, 23, 24] : List Nat).getD 0 0) (([7, 9, 11, 13, 14, 15, 17, 20, 21, 22, 23, 24] : List Nat).getD 11 0)
      (by decide) (by decide)).trans (by decide))
    n25_17_d7)))

theorem c25_17_6 : fvpF 18 [7, 11, 13, 14, 15, 17, 20, 21, 22, 23, 24, 25] (s25.take 17) = none :=
  fvpF_none_of_cert 18 [7, 11, 13, 14, 15, 17, 20, 21, 22, 23, 24, 25] (s25.take 17) 52093862775067432915339799377759154892496328802647501818771932469147856570011558160871661748518017039248916748341175457256601623400787154038282604946104729444214832481374790696903464495650646659914948686721268863294377627682585709884997632 bridge25_17
    [] [[7, 11, 13, 14, 15, 17, 20, 21, 22, 23, 24]]
    (by decide) (by decide) (by decide) (by decide) (by decide) (by decide)
    (by decide) (by decide)

theorem c25_17_7 : fvpF 18 [7, 9, 13, 14, 15, 17, 20, 21, 22, 23, 24, 25] (s25.take 17) = none :=
  fvpF_none_of_cert 18 [7, 9, 13, 14, 15, 17, 20, 21, 22, 23, 24, 25] (s25.take 17) 52093862775067432915339799377759154892496328802647501818771932469147856570011558160871661748518017039248916748341175457256601623400787154038282604946104729444214832481374790696903464495650646659914948686721268863294377627682585709884997632 bridge25_17
    [] [[7, 9, 13, 14, 15, 17, 20, 21, 22, 23, 24]]
    (by decide) (by decide) (by decide) (by decide) (by decide) (by decide)
    (by decide) (by decide)

theorem c25_17_8 : fvpF 18 [7, 9, 11, 14, 15, 17, 20, 21, 22, 23, 24, 25] (s25.take 17) = none :=
  fvpF_none_of_cert 18 [7, 9, 11, 14, 15, 17, 20, 21, 22, 23, 24, 25] (s25.take 17) 52093862775067432915339799377759154892496328802647501818771932469147856570011558160871661748518017039248916748341175457256601623400787154038282604946104729444214832481374790696903464495650646659914948686721268863294377627682585709884997632 bridge25_17
    [] [[21]]
    (by decide) (by decide) (by decide) (by decide) (by decide) (by decide)
    (by decide) (by decide)

theorem c25_17_9 : fvpF 18 [7, 9, 11, 13, 14, 15, 17, 20, 22, 23, 24, 25] (s25.take 17) = none :=
  fvpF_none_of_cert 18 [7, 9, 11, 13, 14, 15, 17, 20, 22, 23, 24, 25] (s25.take 17) 52093862775067432915339799377759154892496328802647501818771932469147856570011558160871661748518017039248916748341175457256601623400787154038282604946104729444214832481374790696903464495650646659914948686721268863294377627682585709884997632 bridge25_17
    [] [[7, 9, 11, 13, 14, 15, 17, 20, 22, 23, 24]]
    (by decide) (by decide) (by decide) (by decide) (by decide) (by decide)
    (by decide) (by decide)

theorem n25_17_d5 : fvpF 19 [6, 7, 9, 11, 13, 14, 15, 17, 20, 21, 22, 23, 24, 25] (s25.take 17) = some [(6, 25), (7, 24), (9, 22), (11, 23), (13, 21), (14, 17), (15, 20)] :=
  (Eq.trans (fvpF_succ 18 [6, 7, 9, 11, 13, 14, 15, 17, 20, 21, 22, 23, 24, 25] (s25.take 17) (by decide))
  (Eq.trans (Eq.trans (Eq.trans (Eq.trans (Eq.trans (Eq.trans (Eq.trans (tryRange_skipAll 18 [6, 7, 9, 11, 13, 14, 15, 17, 20, 21, 22, 23, 24, 25] (s25.take 17) 52093862775067432915339799377759154892496328802647501818771932469147856570011558160871661748518017039248916748341175457256601623400787154038282604946104729444214832481374790696903464495650646659914948686721268863294377627682585709884997632 bridge25_17
    (by decide) 1 1 12 (by decide))
  (tryRange_fail 18 [6, 7, 9, 11, 13, 14, 15, 17, 20, 21, 22, 23, 24, 25] (s25.take 17) 2 11
    ((bridge25_17 (([6, 7, 9, 11, 13, 14, 15, 17, 20, 21, 22, 23, 24, 25] : List Nat).getD 0 0) (([6, 7, 9, 11, 13, 14, 15, 17, 20, 21, 22, 23, 24, 25] : List Nat).getD 2 0)
      (by decide) (by decide)).trans (by decide))
    c25_17_6))
  (tryRange_fail 18 [6, 7, 9, 11, 13, 14, 15, 17, 20, 21, 22, 23, 24, 25] (s25.take 17) 3 10
    ((bridge25_17 (([6, 7, 9, 11, 13, 14, 15, 17, 20, 21, 22, 23, 24, 25] : List Nat).getD 0 0) (([6, 7, 9, 11, 13, 14, 15, 17, 20, 21, 22, 23, 24, 25] : List Nat).getD 3 0)
      (by decide) (by decide)).trans (by decide))
    c25_17_7))
  (tryRange_fail 18 [6, 7, 9, 11, 13, 14, 15, 17, 20, 21, 22, 23, 24, 25] (s25.take 17) 4 9
    ((bridge25_17 (([6, 7, 9, 11, 13, 14, 15, 17, 20, 21, 22, 23, 24, 25] : List Nat).getD 0 0) (([6, 7, 9, 11, 13, 14, 15, 17, 20, 21, 22, 23, 24, 25] : List Nat).getD 4 0)
      (by decide) (by decide)).trans (by decide))
    c25_17_8))
  (tryRange_skipAll 18 [6, 7, 9, 11, 13, 14, 15, 17, 20, 21, 22, 23, 24, 25] (s25.take 17) 52093862775067432915339799377759154892496328802647501818771932469147856570011558160871661748518017039248916748341175457256601623400787154038282604946104729444214832481374790696903464495650646659914948686721268863294377627682585709884997632 bridge25_17
    (by decide) 5 4 5 (by decide)))
  (tryRange_fail 18 [6, 7, 9, 11, 13, 14, 15, 17, 20, 21, 22, 23, 24, 25] (s25.take 17) 9 4
    ((bridge25_17 (([6, 7, 9, 11, 13, 14, 15, 17, 20, 21, 22, 23, 24, 25] : List Nat).getD 0 0) (([6, 7, 9, 11, 13, 14, 15, 17, 20, 21, 22, 23, 24, 25] : List Nat).getD 9 0)
      (by decide) (by decide)).trans (by decide))
    c25_17_9))
  (tryRange_skipAll 18 [6, 7, 9, 11, 13, 14, 15, 17, 20, 21, 22, 23, 24, 25] (s25.take 17) 52093862775067432915339799377759154892496328802647501818771932469147856570011558160871661748518017039248916748341175457256601623400787154038282604946104729444214832481374790696903464495650646659914948686721268863294377627682585709884997632 bridge25_17
    (by decide) 10 3 1 (by decide)))
  (tryRange_hit 18 [6, 7, 9, 11, 13, 14, 15, 17, 20, 21, 22, 23, 24, 25] (s25.take 17) 13 0 [(7, 24), (9, 22), (11, 23), (13, 21), (14, 17), (15, 20)]
    ((bridge25_17 (([6, 7, 9, 11, 13, 14, 15, 17, 20, 21, 22, 23, 24, 25] : List Nat).getD 0 0) (([6, 7, 9, 11, 13, 14, 15, 17, 20, 21, 22, 23, 24, 25] : List Nat).getD 13 0)
      (by decide) (by decide)).trans (by decide))
    n25_17_d6)))

theorem n25_17_d4 : fvpF 20 [5, 6, 7, 8, 9, 11, 13, 14, 15, 17, 20, 21, 22, 23, 24, 25] (s25.take 17) = some [(5, 8), (6, 25), (7, 24), (9, 22), (11, 23), (13, 21), (14, 17), (15, 20)] :=
  (Eq.trans (fvpF_succ 19 [5, 6, 7, 8, 9, 11, 13, 14, 15, 17, 20, 21, 22, 23, 24, 25] (s25.take 17) (by decide))
  (Eq.trans (tryRange_skipAll 19 [5, 6, 7, 8, 9, 11, 13, 14, 15, 17, 20, 21, 22, 23, 24, 25] (s25.take 17) 52093862775067432915339799377759154892496328802647501818771932469147856570011558160871661748518017039248916748341175457256601623400787154038282604946104729444214832481374790696903464495650646659914948686721268863294377627682585709884997632 bridge25_17
    (by decide) 1 2 13 (by decide))
  (tryRange_hit 19 [5, 6, 7, 8, 9, 11, 13, 14, 15, 17, 20, 21, 22, 23, 24, 25] (s25.take 17) 3 12 [(6, 25), (7, 24), (9, 22), (11, 23), (13, 21), (14, 17), (15, 20)]
    ((bridge25_17 (([5, 6, 7, 8, 9, 11, 13, 14, 15, 17, 20, 21, 22, 23, 24, 25] : List Nat).getD 0 0) (([5, 6, 7, 8, 9, 11, 13, 14, 15, 17, 20, 21, 22, 23, 24, 25] : List Nat).getD 3 0)
      (by decide) (by decide)).trans (by decide))
    n25_17_d5)))

theorem n25_17_d3 : fvpF 21 [4, 5, 6, 7, 8, 9, 10, 11, 13, 14, 15, 17, 20, 21, 22, 23, 24, 25] (s25.take 17) = some [(4, 10), (5, 8), (6, 25), (7, 24), (9, 22), (11, 23), (13, 21), (14, 17), (15, 20)] :=
  (Eq.trans (fvpF_succ 20 [4, 5, 6, 7, 8, 9, 10, 11, 13, 14, 15, 17, 20, 21, 22, 23, 24, 25] (s25.take 17) (by decide))
  (Eq.trans (tryRange_skipAll 20 [4, 5, 6, 7, 8, 9, 10, 11, 13, 14, 15, 17, 20, 21, 22, 23, 24, 25] (s25.take 17) 52093862775067432915339799377759154892496328802647501818771932469147856570011558160871661748518017039248916748341175457256601623400787154038282604946104729444214832481374790696903464495650646659914948686721268863294377627682585709884997632 bridge25_17
    (by decide) 1 5 12 (by decide))
  (tryRange_hit 20 [4, 5, 6, 7, 8, 9, 10, 11, 13, 14, 15, 17, 20, 21, 22, 23, 24, 25] (s25.take 17) 6 11 [(5, 8), (6, 25), (7, 24), (9, 22), (11, 23), (13, 21), (14, 17), (15, 20)]
    ((bridge25_17 (([4, 5, 6, 7, 8, 9, 10, 11, 13, 14, 15, 17, 20, 21, 22, 23, 24, 25] : List Nat).getD 0 0) (([4, 5, 6, 7, 8, 9, 10, 11, 13, 14, 15, 17, 20, 21, 22, 23, 24, 25] : List Nat).getD 6 0)
      (by decide) (by decide)).trans (by decide))
    n25_17_d4)))

theorem n25_17_d2 : fvpF 22 [3, 4, 5, 6, 7, 8, 9, 10, 11, 12, 13, 14, 15, 17, 20, 21, 22, 23, 24, 25] (s25.take 17) = some [(3, 12), (4, 10), (5, 8), (6, 25), (7, 24), (9, 22), (11, 23), (13, 21), (14, 17), (15, 20)] :=
  (Eq.trans (fvpF_succ 21 [3, 4, 5, 6, 7, 8, 9, 10, 11, 12, 13, 14, 15, 17, 20, 21, 22, 23, 24, 25] (s25.take 17) (by decide))
  (Eq.trans (tryRange_skipAll 21 [3, 4, 5, 6, 7, 8, 9, 10, 11, 12, 13, 14, 15, 17, 20, 21, 22, 23, 24, 25] (s25.take 17) 52093862775067432915339799377759154892496328802647501818771932469147856570011558160871661748518017039248916748341175457256601623400787154038282604946104729444214832481374790696903464495650646659914948686721268863294377627682585709884997632 bridge25_17
    (by decide) 1 8 11 (by decide))
  (tryRange_hit 21 [3, 4, 5, 6, 7, 8, 9, 10, 11, 12, 13, 14, 15, 17, 20, 21, 22, 23, 24, 25] (s25.take 17) 9 10 [(4, 10), (5, 8), (6, 25), (7, 24), (9, 22), (11, 23), (13, 21), (14, 17), (15, 20)]
    ((bridge25_17 (([3, 4, 5, 6, 7, 8, 9, 10, 11, 12, 13, 14, 15, 17, 20, 21, 22, 23, 24, 25] : List Nat).getD 0 0) (([3, 4, 5, 6, 7, 8, 9, 10, 11, 12, 13, 14, 15, 17, 20, 21, 22, 23, 24, 25] : List Nat).getD 9 0)
      (by decide) (by decide)).trans (by decide))
    n25_17_d3)))

theorem n25_17_d1 : fvpF 23 [2, 3, 4, 5, 6, 7, 8, 9, 10, 11, 12, 13, 14, 15, 16, 17, 20, 21, 22, 23, 24, 25] (s25.take 17) = some [(2, 16), (3, 12), (4, 10), (5, 8), (6, 25), (7, 24), (9, 22), (11, 23), (13, 21), (14, 17), (15, 20)] :=
  (Eq.trans (fvpF_succ 22 [2, 3, 4, 5, 6, 7, 8, 9, 10, 11, 12, 13, 14, 15, 16, 17, 20, 21, 22, 23, 24, 25] (s25.take 17) (by decide))
  (Eq.trans (tryRange_skipAll 22 [2, 3, 4, 5, 6, 7, 8, 9, 10, 11, 12, 13, 14, 15, 16, 17, 20, 21, 22, 23, 24, 25] (s25.take 17) 52093862775067432915339799377759154892496328802647501818771932469147856570011558160871661748518017039248916748341175457256601623400787154038282604946104729444214832481374790696903464495650646659914948686721268863294377627682585709884997632 bridge25_17
    (by decide) 1 13 8 (by decide))
  (tryRange_hit 22 [2, 3, 4, 5, 6, 7, 8, 9, 10, 11, 12, 13, 14, 15, 16, 17, 20, 21, 22, 23, 24, 25] (s25.take 17) 14 7 [(3, 12), (4, 10), (5, 8), (6, 25), (7, 24), (9, 22), (11, 23), (13, 21), (14, 17), (15, 20)]
    ((bridge25_17 (([2, 3, 4, 5, 6, 7, 8, 9, 10, 11, 12, 13, 14, 15, 16, 17, 20, 21, 22, 23, 24, 25] : List Nat).getD 0 0) (([2, 3, 4, 5, 6, 7, 8, 9, 10, 11, 12, 13, 14, 15, 16, 17, 20, 21, 22, 23, 24, 25] : List Nat).getD 14 0)
      (by decide) (by decide)).trans (by decide))
    n25_17_d2)))

theorem n25_17_d0 : fvpF 24 [1, 2, 3, 4, 5, 6, 7, 8, 9, 10, 11, 12, 13, 14, 15, 16, 17, 19, 20, 21, 22, 23, 24, 25] (s25.take 17) = some [(1, 19), (2, 16), (3, 12), (4, 10), (5, 8), (6, 25), (7, 24), (9, 22), (11, 23), (13, 21), (14, 17), (15, 20)] :=
  (Eq.trans (fvpF_succ 23 [1, 2, 3, 4, 5, 6, 7, 8, 9, 10, 11, 12, 13, 14, 15, 16, 17, 19, 20, 21, 22, 23, 24, 25] (s25.take 17) (by decide))
  (Eq.trans (tryRange_skipAll 23 [1, 2, 3, 4, 5, 6, 7, 8, 9, 10, 11, 12, 13, 14, 15, 16, 17, 19, 20, 21, 22, 23, 24, 25] (s25.take 17) 52093862775067432915339799377759154892496328802647501818771932469147856570011558160871661748518017039248916748341175457256601623400787154038282604946104729444214832481374790696903464495650646659914948686721268863294377627682585709884997632 bridge25_17
    (by decide) 1 16 7 (by decide))
  (tryRange_hit 23 [1, 2, 3, 4, 5, 6, 7, 8, 9, 10, 11, 12, 13, 14, 15, 16, 17, 19, 20, 21, 22, 23, 24, 25] (s25.take 17) 17 6 [(2, 16), (3, 12), (4, 10), (5, 8), (6, 25), (7, 24), (9, 22), (11, 23), (13, 21), (14, 17), (15, 20)]
    ((bridge25_17 (([1, 2, 3, 4, 5, 6, 7, 8, 9, 10, 11, 12, 13, 14, 15, 16, 17, 19, 20, 21, 22, 23, 24, 25] : List Nat).getD 0 0) (([1, 2, 3, 4, 5, 6, 7, 8, 9, 10, 11, 12, 13, 14, 15, 16, 17, 19, 20, 21, 22, 23, 24, 25] : List Nat).getD 17 0)
      (by decide) (by decide)).trans (by decide))
    n25_17_d1)))

theorem fvp25_17 : findValidPairs [1, 2, 3, 4, 5, 6, 7, 8, 9, 10, 11, 12, 13, 14, 15, 16, 17, 19, 20, 21, 22, 23, 24, 25] (s25.take 17) = some [(1, 19), (2, 16), (3, 12), (4, 10), (5, 8), (6, 25), (7, 24), (9, 22), (11, 23), (13, 21), (14, 17), (15, 20)] := n25_17_d0

theorem n25_18_d11 : fvpF 13 [15, 16] (s25.take 18) = some [(15, 16)] :=
  (Eq.trans (fvpF_succ 12 [15, 16] (s25.take 18) (by decide))
  (tryRange_hit 12 [15, 16] (s25.take 18) 1 0 []
    ((bridge25_18 (([15, 16] : List Nat).getD 0 0) (([15, 16] : List Nat).getD 1 0)
      (by decide) (by decide)).trans (by decide))
    (fvpF_nil 12 (s25.take 18))))

theorem c25_18_0 : fvpF 13 [15, 20] (s25.take 18) = none :=
  fvpF_none_of_cert 13 [15, 20] (s25.take 18) 52093862775067432915339799377759154892496328802647501818771932469147856570011558160871665021908625030658992387306379490401026090533422446551233769677996306257525711819635760590735527694054043829527878943288656021328904003566887569050304512 bridge25_18
    [] [[15]]
    (by decide) (by decide) (by decide) (by decide) (by decide) (by decide)
    (by decide) (by decide)

theorem n25_18_d10 : fvpF 14 [14, 15, 16, 20] (s25.take 18) = some [(14, 20), (15, 16)] :=
  (Eq.trans (fvpF_succ 13 [14, 15, 16, 20] (s25.take 18) (by decide))
  (Eq.trans (Eq.trans (tryRange_skipAll 13 [14, 15, 16, 20] (s25.take 18) 52093862775067432915339799377759154892496328802647501818771932469147856570011558160871665021908625030658992387306379490401026090533422446551233769677996306257525711819635760590735527694054043829527878943288656021328904003566887569050304512 bridge25_18
    (by decide) 1 1 2 (by decide))
  (tryRange_fail 13 [14, 15, 16, 20] (s25.take 18) 2 1
    ((bridge25_18 (([14, 15, 16, 20] : List Nat).getD 0 0) (([14, 15, 16, 20] : List Nat).getD 2 0)
      (by decide) (by decide)).trans (by decide))
    c25_18_0))
  (tryRange_hit 13 [14, 15, 16, 20] (s25.take 18) 3 0 [(15, 16)]
    ((bridge25_18 (([14, 15, 16, 20] : List Nat).getD 0 0) (([14, 15, 16, 20] : List Nat).getD 3 0)
      (by decide) (by decide)).trans (by decide))
    n25_18_d11)))

theorem c25_18_1 : fvpF 14 [14, 15, 20, 22] (s25.take 18) = none :=
  fvpF_none_of_cert 14 [14, 15, 20, 22] (s25.take 18) 52093862775067432915339799377759154892496328802647501818771932469147856570011558160871665021908625030658992387306379490401026090533422446551233769677996306257525711819635760590735527694054043829527878943288656021328904003566887569050304512 bridge25_18
    [] [[15]]
    (by decide) (by decide) (by decide) (by decide) (by decide) (by decide)
    (by decide) (by decide)

theorem c25_18_2 : fvpF 14 [14, 15, 16, 22] (s25.take 18) = none :=
  fvpF_none_of_cert 14 [14, 15, 16, 22] (s25.take 18) 52093862775067432915339799377759154892496328802647501818771932469147856570011558160871665021908625030658992387306379490401026090533422446551233769677996306257525711819635760590735527694054043829527878943288656021328904003566887569050304512 bridge25_18
    [] [[14, 15, 16]]
    (by decide) (by decide) (by decide) (by decide) (by decide) (by decide)
    (by decide) (by decide)

theorem n25_18_d9 : fvpF 15 [10, 14, 15, 16, 20, 22] (s25.take 18) = some [(10, 22), (14, 20), (15, 16)] :=
  (Eq.trans (fvpF_succ 14 [10, 14, 15, 16, 20, 22] (s25.take 18) (by decide))
  (Eq.trans (Eq.trans (Eq.trans (tryRange_skipAll 14 [10, 14, 15, 16, 20, 22] (s25.take 18) 52093862775067432915339799377759154892496328802647501818771932469147856570011558160871665021908625030658992387306379490401026090533422446551233769677996306257525711819635760590735527694054043829527878943288656021328904003566887569050304512 bridge25_18
    (by decide) 1 2 3 (by decide))
  (tryRange_fail 14 [10, 14, 15, 16, 20, 22] (s25.take 18) 3 2
    ((bridge25_18 (([10, 14, 15, 16, 20, 22] : List Nat).getD 0 0) (([10, 14, 15, 16, 20, 22] : List Nat).getD 3 0)
      (by decide) (by decide)).trans (by decide))
    c25_18_1))
  (tryRange_fail 14 [10, 14, 15, 16, 20, 22] (s25.take 18) 4 1
    ((bridge25_18 (([10, 14, 15, 16, 20, 22] : List Nat).getD 0 0) (([10, 14, 15, 16, 20, 22] : List Nat).getD 4 0)
      (by decide) (by decide)).trans (by decide))
    c25_18_2))
  (tryRange_hit 14 [10, 14, 15, 16, 20, 22] (s25.take 18) 5 0 [(14, 20), (15, 16)]
    ((bridge25_18 (([10, 14, 15, 16, 20, 22] : List Nat).getD 0 0) (([10, 14, 15, 16, 20, 22] : List Nat).getD 5 0)
      (by decide) (by decide)).trans (by decide))
    n25_18_d10)))

theorem c25_18_3 : fvpF 15 [10, 14, 15, 20, 22, 23] (s25.take 18) = none :=
  fvpF_none_of_cert 15 [10, 14, 15, 20, 22, 23] (s25.take 18) 52093862775067432915339799377759154892496328802647501818771932469147856570011558160871665021908625030658992387306379490401026090533422446551233769677996306257525711819635760590735527694054043829527878943288656021328904003566887569050304512 bridge25_18
    [] [[15]]
    (by decide) (by decide) (by decide) (by decide) (by decide) (by decide)
    (by decide) (by decide)

theorem n25_18_d8 : fvpF 16 [9, 10, 14, 15, 16, 20, 22, 23] (s25.take 18) = some [(9, 23), (10, 22), (14, 20), (15, 16)] :=
  (Eq.trans (fvpF_succ 15 [9, 10, 14, 15, 16, 20, 22, 23] (s25.take 18) (by decide))
  (Eq.trans (Eq.trans (Eq.trans (tryRange_skipAll 15 [9, 10, 14, 15, 16, 20, 22, 23] (s25.take 18) 52093862775067432915339799377759154892496328802647501818771932469147856570011558160871665021908625030658992387306379490401026090533422446551233769677996306257525711819635760590735527694054043829527878943288656021328904003566887569050304512 bridge25_18
    (by decide) 1 3 4 (by decide))
  (tryRange_fail 15 [9, 10, 14, 15, 16, 20, 22, 23] (s25.take 18) 4 3
    ((bridge25_18 (([9, 10, 14, 15, 16, 20, 22, 23] : List Nat).getD 0 0) (([9, 10, 14, 15, 16, 20, 22, 23] : List Nat).getD 4 0)
      (by decide) (by decide)).trans (by decide))
    c25_18_3))
  (tryRange_skipAll 15 [9, 10, 14, 15, 16, 20, 22, 23] (s25.take 18) 52093862775067432915339799377759154892496328802647501818771932469147856570011558160871665021908625030658992387306379490401026090533422446551233769677996306257525711819635760590735527694054043829527878943288656021328904003566887569050304512 bridge25_18
    (by decide) 5 2 1 (by decide)))
  (tryRange_hit 15 [9, 10, 14, 15, 16, 20, 22, 23] (s25.take 18) 7 0 [(10, 22), (14, 20), (15, 16)]
    ((bridge25_18 (([9, 10, 14, 15, 16, 20, 22, 23] : List Nat).getD 0 0) (([9, 10, 14, 15, 16, 20, 22, 23] : List Nat).getD 7 0)
      (by decide) (by decide)).trans (by decide))
    n25_18_d9)))

theorem c25_18_4 : fvpF 16 [9, 10, 14, 15, 16, 20, 22, 25] (s25.take 18) = none :=
  fvpF_none_of_cert 16 [9, 10, 14, 15, 16, 20, 22, 25] (s25.take 18) 52093862775067432915339799377759154892496328802647501818771932469147856570011558160871665021908625030658992387306379490401026090533422446551233769677996306257525711819635760590735527694054043829527878943288656021328904003566887569050304512 bridge25_18
    [] [[9, 10, 14, 15, 16, 20, 22]]
    (by decide) (by decide) (by decide) (by decide) (by decide) (by decide)
    (by decide) (by decide)

theorem n25_18_d7 : fvpF 17 [8, 9, 10, 14, 15, 16, 20, 22, 23, 25] (s25.take 18) = some [(8, 25), (9, 23), (10, 22), (14, 20), (15, 16)] :=
  (Eq.trans (fvpF_succ 16 [8, 9, 10, 14, 15, 16, 20, 22, 23, 25] (s25.take 18) (by decide))
  (Eq.trans (Eq.trans (tryRange_skipAll 16 [8, 9, 10, 14, 15, 16, 20, 22, 23, 25] (s25.take 18) 52093862775067432915339799377759154892496328802647501818771932469147856570011558160871665021908625030658992387306379490401026090533422446551233769677996306257525711819635760590735527694054043829527878943288656021328904003566887569050304512 bridge25_18
    (by decide) 1 7 2 (by decide))
  (tryRange_fail 16 [8, 9, 10, 14, 15, 16, 20, 22, 23, 25] (s25.take 18) 8 1
    ((bridge25_18 (([8, 9, 10, 14, 15, 16, 20, 22, 23, 25] : List Nat).getD 0 0) (([8, 9, 10, 14, 15, 16, 20, 22, 23, 25] : List Nat).getD 8 0)
      (by decide) (by decide)).trans (by decide))
    c25_18_4))
  (tryRange_hit 16 [8, 9, 10, 14, 15, 16, 20, 22, 23, 25] (s25.take 18) 9 0 [(9, 23), (10, 22), (14, 20), (15, 16)]
    ((bridge25_18 (([8, 9, 10, 14, 15, 16, 20, 22, 23, 25] : List Nat).getD 0 0) (([8, 9, 10, 14, 15, 16, 20, 22, 23, 25] : List Nat).getD 9 0)
      (by decide) (by decide)).trans (by decide))
    n25_18_d8)))

theorem c25_18_5 : fvpF 17 [9, 10, 12, 14, 15, 16, 20, 22, 23, 25] (s25.take 18) = none :=
  fvpF_none_of_cert 17 [9, 10, 12, 14, 15, 16, 20, 22, 23, 25] (s25.take 18) 52093862775067432915339799377759154892496328802647501818771932469147856570011558160871665021908625030658992387306379490401026090533422446551233769677996306257525711819635760590735527694054043829527878943288656021328904003566887569050304512 bridge25_18
    [] [[9, 10, 12, 14, 15, 16, 20, 22, 23]]
    (by decide) (by decide) (by decide) (by decide) (by decide) (by decide)
    (by decide) (by decide)

theorem c25_18_6 : fvpF 17 [8, 10, 12, 14, 15, 16, 20, 22, 23, 25] (s25.take 18) = none :=
  fvpF_none_of_cert 17 [8, 10, 12, 14, 15, 16, 20, 22, 23, 25] (s25.take 18) 52093862775067432915339799377759154892496328802647501818771932469147856570011558160871665021908625030658992387306379490401026090533422446551233769677996306257525711819635760590735527694054043829527878943288656021328904003566887569050304512 bridge25_18
    [] [[8, 23, 25]]
    (by decide) (by decide) (by decide) (by decide) (by decide) (by decide)
    (by decide) (by decide)

theorem c25_18_7 : fvpF 17 [8, 9, 12, 14, 15, 16, 20, 22, 23, 25] (s25.take 18) = none :=
  fvpF_none_of_cert 17 [8, 9, 12, 14, 15, 16, 20, 22, 23, 25] (s25.take 18) 52093862775067432915339799377759154892496328802647501818771932469147856570011558160871665021908625030658992387306379490401026090533422446551233769677996306257525711819635760590735527694054043829527878943288656021328904003566887569050304512 bridge25_18
    [] [[8, 9, 12, 14, 15, 16, 20, 23, 25]]
    (by decide) (by decide) (by decide) (by decide) (by decide) (by decide)
    (by decide) (by decide)

theorem n25_18_d6 : fvpF 18 [7, 8, 9, 10, 12, 14, 15, 16, 20, 22, 23, 25] (s25.take 18) = some [(7, 12), (8, 25), (9, 23), (10, 22), (14, 20), (15, 16)] :=
  (Eq.trans (fvpF_succ 17 [7, 8, 9, 10, 12, 14, 15, 16, 20, 22, 23, 25] (s25.take 18) (by decide))
  (Eq.trans (Eq.trans (Eq.trans (tryRange_fail 17 [7, 8, 9, 10, 12, 14, 15, 16, 20, 22, 23, 25] (s25.take 18) 1 10
    ((bridge25_18 (([7, 8, 9, 10, 12, 14, 15, 16, 20, 22, 23, 25] : List Nat).getD 0 0) (([7, 8, 9, 10, 12, 14, 15, 16, 20, 22, 23, 25] : List Nat).getD 1 0)
      (by decide) (by decide)).trans (by decide))
    c25_18_5)
  (tryRange_fail 17 [7, 8, 9, 10, 12, 14, 15, 16, 20, 22, 23, 25] (s25.take 18) 2 9
    ((bridge25_18 (([7, 8, 9, 10, 12, 14, 15, 16, 20, 22, 23, 25] : List Nat).getD 0 0) (([7, 8, 9, 10, 12, 14, 15, 16, 20, 22, 23, 25] : List Nat).getD 2 0)
      (by decide) (by decide)).trans (by decide))
    c25_18_6))
  (tryRange_fail 17 [7, 8, 9, 10, 12, 14, 15, 16, 20, 22, 23, 25] (s25.take 18) 3 8
    ((bridge25_18 (([7, 8, 9, 10, 12, 14, 15, 16, 20, 22, 23, 25] : List Nat).getD 0 0) (([7, 8, 9, 10, 12, 14, 15, 16, 20, 22, 23, 25] : List Nat).getD 3 0)
      (by decide) (by decide)).trans (by decide))
    c25_18_7))
  (tryRange_hit 17 [7, 8, 9, 10, 12, 14, 15, 16, 20, 22, 23, 25] (s25.take 18) 4 7 [(8, 25), (9, 23), (10, 22), (14, 20), (15, 16)]
    ((bridge25_18 (([7, 8, 9, 10, 12, 14, 15, 16, 20, 22, 23, 25] : List Nat).getD 0 0) (([7, 8, 9, 10, 12, 14, 15, 16, 20, 22, 23, 25] : List Nat).getD 4 0)
      (by decide) (by decide)).trans (by decide))
    n25_18_d7)))

theorem c25_18_8 : fvpF 18 [7, 9, 10, 12, 14, 15, 16, 20, 21, 22, 23, 25] (s25.take 18) = none :=
  fvpF_none_of_cert 18 [7, 9, 10, 12, 14, 15, 16, 20, 21, 22, 23, 25] (s25.take 18) 52093862775067432915339799377759154892496328802647501818771932469147856570011558160871665021908625030658992387306379490401026090533422446551233769677996306257525711819635760590735527694054043829527878943288656021328904003566887569050304512 bridge25_18
    [] [[7, 9, 10, 12, 14, 15, 16, 20, 21, 22, 23]]
    (by decide) (by decide) (by decide) (by decide) (by decide) (by decide)
    (by decide) (by decide)

theorem c25_18_9 : fvpF 18 [7, 8, 10, 12, 14, 15, 16, 20, 21, 22, 23, 25] (s25.take 18) = none :=
  fvpF_none_of_cert 18 [7, 8, 10, 12, 14, 15, 16, 20, 21, 22, 23, 25] (s25.take 18) 52093862775067432915339799377759154892496328802647501818771932469147856570011558160871665021908625030658992387306379490401026090533422446551233769677996306257525711819635760590735527694054043829527878943288656021328904003566887569050304512 bridge25_18
    [8, 10, 12] [[7], [21], [22], [23]]
    (by decide) (by decide) (by decide) (by decide) (by decide) (by decide)
    (by decide) (by decide)

theorem c25_18_10 : fvpF 18 [7, 8, 9, 12, 14, 15, 16, 20, 21, 22, 23, 25] (s25.take 18) = none :=
  fvpF_none_of_cert 18 [7, 8, 9, 12, 14, 15, 16, 20, 21, 22, 23, 25] (s25.take 18) 52093862775067432915339799377759154892496328802647501818771932469147856570011558160871665021908625030658992387306379490401026090533422446551233769677996306257525711819635760590735527694054043829527878943288656021328904003566887569050304512 bridge25_18
    [] [[7, 8, 9, 12, 14, 15, 16, 20, 21, 23, 25]]
    (by decide) (by decide) (by decide) (by decide) (by decide) (by decide)
    (by decide) (by decide)

theorem c25_18_11 : fvpF 18 [7, 8, 9, 10, 14, 15, 16, 20, 21, 22, 23, 25] (s25.take 18) = none :=
  fvpF_none_of_cert 18 [7, 8, 9, 10, 14, 15, 16, 20, 21, 22, 23, 25] (s25.take 18) 52093862775067432915339799377759154892496328802647501818771932469147856570011558160871665021908625030658992387306379490401026090533422446551233769677996306257525711819635760590735527694054043829527878943288656021328904003566887569050304512 bridge25_18
    [8, 9, 10] [[7], [21], [22], [23]]
    (by decide) (by decide) (by decide) (by decide) (by decide) (by decide)
    (by decide) (by decide)

theorem n25_18_d5 : fvpF 19 [6, 7, 8, 9, 10, 12, 14, 15, 16, 20, 21, 22, 23, 25] (s25.take 18) = some [(6, 21), (7, 12), (8, 25), (9, 23), (10, 22), (14, 20), (15, 16)] :=
  (Eq.trans (fvpF_succ 18 [6, 7, 8, 9, 10, 12, 14, 15, 16, 20, 21, 22, 23, 25] (s25.take 18) (by decide))
  (Eq.trans (Eq.trans (Eq.trans (Eq.trans (Eq.trans (Eq.trans (tryRange_skipAll 18 [6, 7, 8, 9, 10, 12, 14, 15, 16, 20, 21, 22, 23, 25] (s25.take 18) 52093862775067432915339799377759154892496328802647501818771932469147856570011558160871665021908625030658992387306379490401026090533422446551233769677996306257525711819635760590735527694054043829527878943288656021328904003566887569050304512 bridge25_18
    (by decide) 1 1 12 (by decide))
  (tryRange_fail 18 [6, 7, 8, 9, 10, 12, 14, 15, 16, 20, 21, 22, 23, 25] (s25.take 18) 2 11
    ((bridge25_18 (([6, 7, 8, 9, 10, 12, 14, 15, 16, 20, 21, 22, 23, 25] : List Nat).getD 0 0) (([6, 7, 8, 9, 10, 12, 14, 15, 16, 20, 21, 22, 23, 25] : List Nat).getD 2 0)
      (by decide) (by decide)).trans (by decide))
    c25_18_8))
  (tryRange_fail 18 [6, 7, 8, 9, 10, 12, 14, 15, 16, 20, 21, 22, 23, 25] (s25.take 18) 3 10
    ((bridge25_18 (([6, 7, 8, 9, 10, 12, 14, 15, 16, 20, 21, 22, 23, 25] : List Nat).getD 0 0) (([6, 7, 8, 9, 10, 12, 14, 15, 16, 20, 21, 22, 23, 25] : List Nat).getD 3 0)
      (by decide) (by decide)).trans (by decide))
    c25_18_9))
  (tryRange_fail 18 [6, 7, 8, 9, 10, 12, 14, 15, 16, 20, 21, 22, 23, 25] (s25.take 18) 4 9
    ((bridge25_18 (([6, 7, 8, 9, 10, 12, 14, 15, 16, 20, 21, 22, 23, 25] : List Nat).getD 0 0) (([6, 7, 8, 9, 10, 12, 14, 15, 16, 20, 21, 22, 23, 25] : List Nat).getD 4 0)
      (by decide) (by decide)).trans (by decide))
    c25_18_10))
  (tryRange_fail 18 [6, 7, 8, 9, 10, 12, 14, 15, 16, 20, 21, 22, 23, 25] (s25.take 18) 5 8
    ((bridge25_18 (([6, 7, 8, 9, 10, 12, 14, 15, 16, 20, 21, 22, 23, 25] : List Nat).getD 0 0) (([6, 7, 8, 9, 10, 12, 14, 15, 16, 20, 21, 22, 23, 25] : List Nat).getD 5 0)
      (by decide) (by decide)).trans (by decide))
    c25_18_11))
  (tryRange_skipAll 18 [6, 7, 8, 9, 10, 12, 14, 15, 16, 20, 21, 22, 23, 25] (s25.take 18) 52093862775067432915339799377759154892496328802647501818771932469147856570011558160871665021908625030658992387306379490401026090533422446551233769677996306257525711819635760590735527694054043829527878943288656021328904003566887569050304512 bridge25_18
    (by decide) 6 4 4 (by decide)))
  (tryRange_hit 18 [6, 7, 8, 9, 10, 12, 14, 15, 16, 20, 21, 22, 23, 25] (s25.take 18) 10 3 [(7, 12), (8, 25), (9, 23), (10, 22), (14, 20), (15, 16)]
    ((bridge25_18 (([6, 7, 8, 9, 10, 12, 14, 15, 16, 20, 21, 22, 23, 25] : List Nat).getD 0 0) (([6, 7, 8, 9, 10, 12, 14, 15, 16, 20, 21, 22, 23, 25] : List Nat).getD 10 0)
      (by decide) (by decide)).trans (by decide))
    n25_18_d6)))

theorem c25_18_12 : fvpF 19 [6, 7, 8, 10, 12, 14, 15, 16, 20, 21, 22, 23, 24, 25] (s25.take 18) = none :=
  fvpF_none_of_cert 19 [6, 7, 8, 10, 12, 14, 15, 16, 20, 21, 22, 23, 24, 25] (s25.take 18) 52093862775067432915339799377759154892496328802647501818771932469147856570011558160871665021908625030658992387306379490401026090533422446551233769677996306257525711819635760590735527694054043829527878943288656021328904003566887569050304512 bridge25_18
    [8] [[23], [24]]
    (by decide) (by decide) (by decide) (by decide) (by decide) (by decide)
    (by decide) (by decide)

theorem c25_18_13 : fvpF 19 [6, 7, 8, 9, 10, 12, 15, 16, 20, 21, 22, 23, 24, 25] (s25.take 18) = none :=
  fvpF_none_of_cert 19 [6, 7, 8, 9, 10, 12, 15, 16, 20, 21, 22, 23, 24, 25] (s25.take 18) 52093862775067432915339799377759154892496328802647501818771932469147856570011558160871665021908625030658992387306379490401026090533422446551233769677996306257525711819635760590735527694054043829527878943288656021328904003566887569050304512 bridge25_18
    [8, 9, 10, 12] [[7], [20], [22], [23], [24]]
    (by decide) (by decide) (by decide) (by decide) (by decide) (by decide)
    (by decide) (by decide)

theorem c25_18_14 : fvpF 19 [6, 7, 8, 9, 10, 12, 14, 16, 20, 21, 22, 23, 24, 25] (s25.take 18) = none :=
  fvpF_none_of_cert 19 [6, 7, 8, 9, 10, 12, 14, 16, 20, 21, 22, 23, 24, 25] (s25.take 18) 52093862775067432915339799377759154892496328802647501818771932469147856570011558160871665021908625030658992387306379490401026090533422446551233769677996306257525711819635760590735527694054043829527878943288656021328904003566887569050304512 bridge25_18
    [8, 9, 10, 12, 14] [[7], [16], [20], [22], [23], [24]]
    (by decide) (by decide) (by decide) (by decide) (by decide) (by decide)
    (by decide) (by decide)

theorem c25_18_15 : fvpF 19 [6, 7, 8, 9, 10, 12, 14, 15, 16, 21, 22, 23, 24, 25] (s25.take 18) = none :=
  fvpF_none_of_cert 19 [6, 7, 8, 9, 10, 12, 14, 15, 16, 21, 22, 23, 24, 25] (s25.take 18) 52093862775067432915339799377759154892496328802647501818771932469147856570011558160871665021908625030658992387306379490401026090533422446551233769677996306257525711819635760590735527694054043829527878943288656021328904003566887569050304512 bridge25_18
    [8, 16] [[14], [15], [24]]
    (by decide) (by decide) (by decide) (by decide) (by decide) (by decide)
    (by decide) (by decide)

theorem c25_18_16 : fvpF 19 [6, 7, 8, 9, 10, 12, 14, 15, 16, 20, 22, 23, 24, 25] (s25.take 18) = none :=
  fvpF_none_of_cert 19 [6, 7, 8, 9, 10, 12, 14, 15, 16, 20, 22, 23, 24, 25] (s25.take 18) 52093862775067432915339799377759154892496328802647501818771932469147856570011558160871665021908625030658992387306379490401026090533422446551233769677996306257525711819635760590735527694054043829527878943288656021328904003566887569050304512 bridge25_18
    [8, 9, 10, 12] [[6], [7], [22], [23], [24]]
    (by decide) (by decide) (by decide) (by decide) (by decide) (by decide)
    (by decide) (by decide)

theorem n25_18_d4 : fvpF 20 [5, 6, 7, 8, 9, 10, 12, 14, 15, 16, 20, 21, 22, 23, 24, 25] (s25.take 18) = some [(5, 24), (6, 21), (7, 12), (8, 25), (9, 23), (10, 22), (14, 20), (15, 16)] :=
  (Eq.trans (fvpF_succ 19 [5, 6, 7, 8, 9, 10, 12, 14, 15, 16, 20, 21, 22, 23, 24, 25] (s25.take 18) (by decide))
  (Eq.trans (Eq.trans (Eq.trans (Eq.trans (Eq.trans (Eq.trans (Eq.trans (Eq.trans (Eq.trans (tryRange_skipAll 19 [5, 6, 7, 8, 9, 10, 12, 14, 15, 16, 20, 21, 22, 23, 24, 25] (s25.take 18) 52093862775067432915339799377759154892496328802647501818771932469147856570011558160871665021908625030658992387306379490401026090533422446551233769677996306257525711819635760590735527694054043829527878943288656021328904003566887569050304512 bridge25_18
    (by decide) 1 3 12 (by decide))
  (tryRange_fail 19 [5, 6, 7, 8, 9, 10, 12, 14, 15, 16, 20, 21, 22, 23, 24, 25] (s25.take 18) 4 11
    ((bridge25_18 (([5, 6, 7, 8, 9, 10, 12, 14, 15, 16, 20, 21, 22, 23, 24, 25] : List Nat).getD 0 0) (([5, 6, 7, 8, 9, 10, 12, 14, 15, 16, 20, 21, 22, 23, 24, 25] : List Nat).getD 4 0)
      (by decide) (by decide)).trans (by decide))
    c25_18_12))
  (tryRange_skipAll 19 [5, 6, 7, 8, 9, 10, 12, 14, 15, 16, 20, 21, 22, 23, 24, 25] (s25.take 18) 52093862775067432915339799377759154892496328802647501818771932469147856570011558160871665021908625030658992387306379490401026090533422446551233769677996306257525711819635760590735527694054043829527878943288656021328904003566887569050304512 bridge25_18
    (by decide) 5 2 9 (by decide)))
  (tryRange_fail 19 [5, 6, 7, 8, 9, 10, 12, 14, 15, 16, 20, 21, 22, 23, 24, 25] (s25.take 18) 7 8
    ((bridge25_18 (([5, 6, 7, 8, 9, 10, 12, 14, 15, 16, 20, 21, 22, 23, 24, 25] : List Nat).getD 0 0) (([5, 6, 7, 8, 9, 10, 12, 14, 15, 16, 20, 21, 22, 23, 24, 25] : List Nat).getD 7 0)
      (by decide) (by decide)).trans (by decide))
    c25_18_13))
  (tryRange_fail 19 [5, 6, 7, 8, 9, 10, 12, 14, 15, 16, 20, 21, 22, 23, 24, 25] (s25.take 18) 8 7
    ((bridge25_18 (([5, 6, 7, 8, 9, 10, 12, 14, 15, 16, 20, 21, 22, 23, 24, 25] : List Nat).getD 0 0) (([5, 6, 7, 8, 9, 10, 12, 14, 15, 16, 20, 21, 22, 23, 24, 25] : List Nat).getD 8 0)
      (by decide) (by decide)).trans (by decide))
    c25_18_14))
  (tryRange_skipAll 19 [5, 6, 7, 8, 9, 10, 12, 14, 15, 16, 20, 21, 22, 23, 24, 25] (s25.take 18) 52093862775067432915339799377759154892496328802647501818771932469147856570011558160871665021908625030658992387306379490401026090533422446551233769677996306257525711819635760590735527694054043829527878943288656021328904003566887569050304512 bridge25_18
    (by decide) 9 1 6 (by decide)))
  (tryRange_fail 19 [5, 6, 7, 8, 9, 10, 12, 14, 15, 16, 20, 21, 22, 23, 24, 25] (s25.take 18) 10 5
    ((bridge25_18 (([5, 6, 7, 8, 9, 10, 12, 14, 15, 16, 20, 21, 22, 23, 24, 25] : List Nat).getD 0 0) (([5, 6, 7, 8, 9, 10, 12, 14, 15, 16, 20, 21, 22, 23, 24, 25] : List Nat).getD 10 0)
      (by decide) (by decide)).trans (by decide))
    c25_18_15))
  (tryRange_fail 19 [5, 6, 7, 8, 9, 10, 12, 14, 15, 16, 20, 21, 22, 23, 24, 25] (s25.take 18) 11 4
    ((bridge25_18 (([5, 6, 7, 8, 9, 10, 12, 14, 15, 16, 20, 21, 22, 23, 24, 25] : List Nat).getD 0 0) (([5, 6, 7, 8, 9, 10, 12, 14, 15, 16, 20, 21, 22, 23, 24, 25] : List Nat).getD 11 0)
      (by decide) (by decide)).trans (by decide))
    c25_18_16))
  (tryRange_skipAll 19 [5, 6, 7, 8, 9, 10, 12, 14, 15, 16, 20, 21, 22, 23, 24, 25] (s25.take 18) 52093862775067432915339799377759154892496328802647501818771932469147856570011558160871665021908625030658992387306379490401026090533422446551233769677996306257525711819635760590735527694054043829527878943288656021328904003566887569050304512 bridge25_18
    (by decide) 12 2 2 (by decide)))
  (tryRange_hit 19 [5, 6, 7, 8, 9, 10, 12, 14, 15, 16, 20, 21, 22, 23, 24, 25] (s25.take 18) 14 1 [(6, 21), (7, 12), (8, 25), (9, 23), (10, 22), (14, 20), (15, 16)]
    ((bridge25_18 (([5, 6, 7, 8, 9, 10, 12, 14, 15, 16, 20, 21, 22, 23, 24, 25] : List Nat).getD 0 0) (([5, 6, 7, 8, 9, 10, 12, 14, 15, 16, 20, 21, 22, 23, 24, 25] : List Nat).getD 14 0)
      (by decide) (by decide)).trans (by decide))
    n25_18_d5)))

theorem n25_18_d3 : fvpF 21 [4, 5, 6, 7, 8, 9, 10, 11, 12, 14, 15, 16, 20, 21, 22, 23, 24, 25] (s25.take 18) = some [(4, 11), (5, 24), (6, 21), (7, 12), (8, 25), (9, 23), (10, 22), (14, 20), (15, 16)] :=
  (Eq.trans (fvpF_succ 20 [4, 5, 6, 7, 8, 9, 10, 11, 12, 14, 15, 16, 20, 21, 22, 23, 24, 25] (s25.take 18) (by decide))
  (Eq.trans (tryRange_skipAll 20 [4, 5, 6, 7, 8, 9, 10, 11, 12, 14, 15, 16, 20, 21, 22, 23, 24, 25] (s25.take 18) 52093862775067432915339799377759154892496328802647501818771932469147856570011558160871665021908625030658992387306379490401026090533422446551233769677996306257525711819635760590735527694054043829527878943288656021328904003566887569050304512 bridge25_18
    (by decide) 1 6 11 (by decide))
  (tryRange_hit 20 [4, 5, 6, 7, 8, 9, 10, 11, 12, 14, 15, 16, 20, 21, 22, 23, 24, 25] (s25.take 18) 7 10 [(5, 24), (6, 21), (7, 12), (8, 25), (9, 23), (10, 22), (14, 20), (15, 16)]
    ((bridge25_18 (([4, 5, 6, 7, 8, 9, 10, 11, 12, 14, 15, 16, 20, 21, 22, 23, 24, 25] : List Nat).getD 0 0) (([4, 5, 6, 7, 8, 9, 10, 11, 12, 14, 15, 16, 20, 21, 22, 23, 24, 25] : List Nat).getD 7 0)
      (by decide) (by decide)).trans (by decide))
    n25_18_d4)))

theorem n25_18_d2 : fvpF 22 [3, 4, 5, 6, 7, 8, 9, 10, 11, 12, 13, 14, 15, 16, 20, 21, 22, 23, 24, 25] (s25.take 18) = some [(3, 13), (4, 11), (5, 24), (6, 21), (7, 12), (8, 25), (9, 23), (10, 22), (14, 20), (15, 16)] :=
  (Eq.trans (fvpF_succ 21 [3, 4, 5, 6, 7, 8, 9, 10, 11, 12, 13, 14, 15, 16, 20, 21, 22, 23, 24, 25] (s25.take 18) (by decide))
  (Eq.trans (tryRange_skipAll 21 [3, 4, 5, 6, 7, 8, 9, 10, 11, 12, 13, 14, 15, 16, 20, 21, 22, 23, 24, 25] (s25.take 18) 52093862775067432915339799377759154892496328802647501818771932469147856570011558160871665021908625030658992387306379490401026090533422446551233769677996306257525711819635760590735527694054043829527878943288656021328904003566887569050304512 bridge25_18
    (by decide) 1 9 10 (by decide))
  (tryRange_hit 21 [3, 4, 5, 6, 7, 8, 9, 10, 11, 12, 13, 14, 15, 16, 20, 21, 22, 23, 24, 25] (s25.take 18) 10 9 [(4, 11), (5, 24), (6, 21), (7, 12), (8, 25), (9, 23), (10, 22), (14, 20), (15, 16)]
    ((bridge25_18 (([3, 4, 5, 6, 7, 8, 9, 10, 11, 12, 13, 14, 15, 16, 20, 21, 22, 23, 24, 25] : List Nat).getD 0 0) (([3, 4, 5, 6, 7, 8, 9, 10, 11, 12, 13, 14, 15, 16, 20, 21, 22, 23, 24, 25] : List Nat).getD 10 0)
      (by decide) (by decide)).trans (by decide))
    n25_18_d3)))

theorem n25_18_d1 : fvpF 23 [2, 3, 4, 5, 6, 7, 8, 9, 10, 11, 12, 13, 14, 15, 16, 17, 20, 21, 22, 23, 24, 25] (s25.take 18) = some [(2, 17), (3, 13), (4, 11), (5, 24), (6, 21), (7, 12), (8, 25), (9, 23), (10, 22), (14, 20), (15, 16)] :=
  (Eq.trans (fvpF_succ 22 [2, 3, 4, 5, 6, 7, 8, 9, 10, 11, 12, 13, 14, 15, 16, 17, 20, 21, 22, 23, 24, 25] (s25.take 18) (by decide))
  (Eq.trans (tryRange_skipAll 22 [2, 3, 4, 5, 6, 7, 8, 9, 10, 11, 12, 13, 14, 15, 16, 17, 20, 21, 22, 23, 24, 25] (s25.take 18) 52093862775067432915339799377759154892496328802647501818771932469147856570011558160871665021908625030658992387306379490401026090533422446551233769677996306257525711819635760590735527694054043829527878943288656021328904003566887569050304512 bridge25_18
    (by decide) 1 14 7 (by decide))
  (tryRange_hit 22 [2, 3, 4, 5, 6, 7, 8, 9, 10, 11, 12, 13, 14, 15, 16, 17, 20, 21, 22, 23, 24, 25] (s25.take 18) 15 6 [(3, 13), (4, 11), (5, 24), (6, 21), (7, 12), (8, 25), (9, 23), (10, 22), (14, 20), (15, 16)]
    ((bridge25_18 (([2, 3, 4, 5, 6, 7, 8, 9, 10, 11, 12, 13, 14, 15, 16, 17, 20, 21, 22, 23, 24, 25] : List Nat).getD 0 0) (([2, 3, 4, 5, 6, 7, 8, 9, 10, 11, 12, 13, 14, 15, 16, 17, 20, 21, 22, 23, 24, 25] : List Nat).getD 15 0)
      (by decide) (by decide)).trans (by decide))
    n25_18_d2)))

theorem n25_18_d0 : fvpF 24 [1, 2, 3, 4, 5, 6, 7, 8, 9, 10, 11, 12, 13, 14, 15, 16, 17, 18, 20, 21, 22, 23, 24, 25] (s25.take 18) = some [(1, 18), (2, 17), (3, 13), (4, 11), (5, 24), (6, 21), (7, 12), (8, 25), (9, 23), (10, 22), (14, 20), (15, 16)] :=
  (Eq.trans (fvpF_succ 23 [1, 2, 3, 4, 5, 6, 7, 8, 9, 10, 11, 12, 13, 14, 15, 16, 17, 18, 20, 21, 22, 23, 24, 25] (s25.take 18) (by decide))
  (Eq.trans (tryRange_skipAll 23 [1, 2, 3, 4, 5, 6, 7, 8, 9, 10, 11, 12, 13, 14, 15, 16, 17, 18, 20, 21, 22, 23, 24, 25] (s25.take 18) 52093862775067432915339799377759154892496328802647501818771932469147856570011558160871665021908625030658992387306379490401026090533422446551233769677996306257525711819635760590735527694054043829527878943288656021328904003566887569050304512 bridge25_18
    (by decide) 1 16 7 (by decide))
  (tryRange_hit 23 [1, 2, 3, 4, 5, 6, 7, 8, 9, 10, 11, 12, 13, 14, 15, 16, 17, 18, 20, 21, 22, 23, 24, 25] (s25.take 18) 17 6 [(2, 17), (3, 13), (4, 11), (5, 24), (6, 21), (7, 12), (8, 25), (9, 23), (10, 22), (14, 20), (15, 16)]
    ((bridge25_18 (([1, 2, 3, 4, 5, 6, 7, 8, 9, 10, 11, 12, 13, 14, 15, 16, 17, 18, 20, 21, 22, 23, 24, 25] : List Nat).getD 0 0) (([1, 2, 3, 4, 5, 6, 7, 8, 9, 10, 11, 12, 13, 14, 15, 16, 17, 18, 20, 21, 22, 23, 24, 25] : List Nat).getD 17 0)
      (by decide) (by decide)).trans (by decide))
    n25_18_d1)))

theorem fvp25_18 : findValidPairs [1, 2, 3, 4, 5, 6, 7, 8, 9, 10, 11, 12, 13, 14, 15, 16, 17, 18, 20, 21, 22, 23, 24, 25] (s25.take 18) = some [(1, 18), (2, 17), (3, 13), (4, 11), (5, 24), (6, 21), (7, 12), (8, 25), (9, 23), (10, 22), (14, 20), (15, 16)] := n25_18_d0

theorem n25_19_d11 : fvpF 13 [15, 19] (s25.take 19) = some [(15, 19)] :=
  (Eq.trans (fvpF_succ 12 [15, 19] (s25.take 19) (by decide))
  (tryRange_hit 12 [15, 19] (s25.take 19) 1 0 []
    ((bridge25_19 (([15, 19] : List Nat).getD 0 0) (([15, 19] : List Nat).getD 1 0)
      (by decide) (by decide)).trans (by decide))
    (fvpF_nil 12 (s25.take 19))))

theorem n25_19_d10 : fvpF 14 [13, 15, 18, 19] (s25.take 19) = some [(13, 18), (15, 19)] :=
  (Eq.trans (fvpF_succ 13 [13, 15, 18, 19] (s25.take 19) (by decide))
  (Eq.trans (tryRange_skipAll 13 [13, 15, 18, 19] (s25.take 19) 52093862775067432915339799377759154892496328802647501818771932469147856570011558160871665226495538786313501430121026406773734284045792947605605509331995715637889494552940065732082109669902815192788786119896794748517201616155515469669859328 bridge25_19
    (by decide) 1 1 2 (by decide))
  (tryRange_hit 13 [13, 15, 18, 19] (s25.take 19) 2 1 [(15, 19)]
    ((bridge25_19 (([13, 15, 18, 19] : List Nat).getD 0 0) (([13, 15, 18, 19] : List Nat).getD 2 0)
      (by decide) (by decide)).trans (by decide))
    n25_19_d11)))

theorem n25_19_d9 : fvpF 15 [12, 13, 15, 17, 18, 19] (s25.take 19) = some [(12, 17), (13, 18), (15, 19)] :=
  (Eq.trans (fvpF_succ 14 [12, 13, 15, 17, 18, 19] (s25.take 19) (by decide))
  (Eq.trans (tryRange_skipAll 14 [12, 13, 15, 17, 18, 19] (s25.take 19) 52093862775067432915339799377759154892496328802647501818771932469147856570011558160871665226495538786313501430121026406773734284045792947605605509331995715637889494552940065732082109669902815192788786119896794748517201616155515469669859328 bridge25_19
    (by decide) 1 2 3 (by decide))
  (tryRange_hit 14 [12, 13, 15, 17, 18, 19] (s25.take 19) 3 2 [(13, 18), (15, 19)]
    ((bridge25_19 (([12, 13, 15, 17, 18, 19] : List Nat).getD 0 0) (([12, 13, 15, 17, 18, 19] : List Nat).getD 3 0)
      (by decide) (by decide)).trans (by decide))
    n25_19_d10)))

theorem n25_19_d8 : fvpF 16 [11, 12, 13, 15, 16, 17, 18, 19] (s25.take 19) = some [(11, 16), (12, 17), (13, 18), (15, 19)] :=
  (Eq.trans (fvpF_succ 15 [11, 12, 13, 15, 16, 17, 18, 19] (s25.take 19) (by decide))
  (Eq.trans (tryRange_skipAll 15 [11, 12, 13, 15, 16, 17, 18, 19] (s25.take 19) 52093862775067432915339799377759154892496328802647501818771932469147856570011558160871665226495538786313501430121026406773734284045792947605605509331995715637889494552940065732082109669902815192788786119896794748517201616155515469669859328 bridge25_19
    (by decide) 1 3 4 (by decide))
  (tryRange_hit 15 [11, 12, 13, 15, 16, 17, 18, 19] (s25.take 19) 4 3 [(12, 17), (13, 18), (15, 19)]
    ((bridge25_19 (([11, 12, 13, 15, 16, 17, 18, 19] : List Nat).getD 0 0) (([11, 12, 13, 15, 16, 17, 18, 19] : List Nat).getD 4 0)
      (by decide) (by decide)).trans (by decide))
    n25_19_d9)))

theorem c25_19_0 : fvpF 16 [11, 12, 13, 15, 16, 17, 19, 24] (s25.take 19) = none :=
  fvpF_none_of_cert 16 [11, 12, 13, 15, 16, 17, 19, 24] (s25.take 19) 52093862775067432915339799377759154892496328802647501818771932469147856570011558160871665226495538786313501430121026406773734284045792947605605509331995715637889494552940065732082109669902815192788786119896794748517201616155515469669859328 bridge25_19
    [] [[11, 12, 13, 15, 16, 17, 19]]
    (by decide) (by decide) (by decide) (by decide) (by decide) (by decide)
    (by decide) (by decide)

theorem c25_19_1 : fvpF 16 [11, 12, 13, 15, 16, 17, 18, 24] (s25.take 19) = none :=
  fvpF_none_of_cert 16 [11, 12, 13, 15, 16, 17, 18, 24] (s25.take 19) 52093862775067432915339799377759154892496328802647501818771932469147856570011558160871665226495538786313501430121026406773734284045792947605605509331995715637889494552940065732082109669902815192788786119896794748517201616155515469669859328 bridge25_19
    [] [[11, 12, 13, 15, 16, 17, 18]]
    (by decide) (by decide) (by decide) (by decide) (by decide) (by decide)
    (by decide) (by decide)

theorem n25_19_d7 : fvpF 17 [8, 11, 12, 13, 15, 16, 17, 18, 19, 24] (s25.take 19) = some [(8, 24), (11, 16), (12, 17), (13, 18), (15, 19)] :=
  (Eq.trans (fvpF_succ 16 [8, 11, 12, 13, 15, 16, 17, 18, 19, 24] (s25.take 19) (by decide))
  (Eq.trans (Eq.trans (Eq.trans (tryRange_skipAll 16 [8, 11, 12, 13, 15, 16, 17, 18, 19, 24] (s25.take 19) 52093862775067432915339799377759154892496328802647501818771932469147856570011558160871665226495538786313501430121026406773734284045792947605605509331995715637889494552940065732082109669902815192788786119896794748517201616155515469669859328 bridge25_19
    (by decide) 1 6 3 (by decide))
  (tryRange_fail 16 [8, 11, 12, 13, 15, 16, 17, 18, 19, 24] (s25.take 19) 7 2
    ((bridge25_19 (([8, 11, 12, 13, 15, 16, 17, 18, 19, 24] : List Nat).getD 0 0) (([8, 11, 12, 13, 15, 16, 17, 18, 19, 24] : List Nat).getD 7 0)
      (by decide) (by decide)).trans (by decide))
    c25_19_0))
  (tryRange_fail 16 [8, 11, 12, 13, 15, 16, 17, 18, 19, 24] (s25.take 19) 8 1
    ((bridge25_19 (([8, 11, 12, 13, 15, 16, 17, 18, 19, 24] : List Nat).getD 0 0) (([8, 11, 12, 13, 15, 16, 17, 18, 19, 24] : List Nat).getD 8 0)
      (by decide) (by decide)).trans (by decide))
    c25_19_1))
  (tryRange_hit 16 [8, 11, 12, 13, 15, 16, 17, 18, 19, 24] (s25.take 19) 9 0 [(11, 16), (12, 17), (13, 18), (15, 19)]
    ((bridge25_19 (([8, 11, 12, 13, 15, 16, 17, 18, 19, 24] : List Nat).getD 0 0) (([8, 11, 12, 13, 15, 16, 17, 18, 19, 24] : List Nat).getD 9 0)
      (by decide) (by decide)).trans (by decide))
    n25_19_d8)))

theorem c25_19_2 : fvpF 17 [10, 11, 12, 13, 15, 16, 17, 18, 19, 24] (s25.take 19) = none :=
  fvpF_none_of_cert 17 [10, 11, 12, 13, 15, 16, 17, 18, 19, 24] (s25.take 19) 52093862775067432915339799377759154892496328802647501818771932469147856570011558160871665226495538786313501430121026406773734284045792947605605509331995715637889494552940065732082109669902815192788786119896794748517201616155515469669859328 bridge25_19
    [] [[10, 11, 12, 13, 15, 16, 17, 18, 19]]
    (by decide) (by decide) (by decide) (by decide) (by decide) (by decide)
    (by decide) (by decide)

theorem n25_19_d6 : fvpF 18 [7, 8, 10, 11, 12, 13, 15, 16, 17, 18, 19, 24] (s25.take 19) = some [(7, 10), (8, 24), (11, 16), (12, 17), (13, 18), (15, 19)] :=
  (Eq.trans (fvpF_succ 17 [7, 8, 10, 11, 12, 13, 15, 16, 17, 18, 19, 24] (s25.take 19) (by decide))
  (Eq.trans (tryRange_fail 17 [7, 8, 10, 11, 12, 13, 15, 16, 17, 18, 19, 24] (s25.take 19) 1 10
    ((bridge25_19 (([7, 8, 10, 11, 12, 13, 15, 16, 17, 18, 19, 24] : List Nat).getD 0 0) (([7, 8, 10, 11, 12, 13, 15, 16, 17, 18, 19, 24] : List Nat).getD 1 0)
      (by decide) (by decide)).trans (by decide))
    c25_19_2)
  (tryRange_hit 17 [7, 8, 10, 11, 12, 13, 15, 16, 17, 18, 19, 24] (s25.take 19) 2 9 [(8, 24), (11, 16), (12, 17), (13, 18), (15, 19)]
    ((bridge25_19 (([7, 8, 10, 11, 12, 13, 15, 16, 17, 18, 19, 24] : List Nat).getD 0 0) (([7, 8, 10, 11, 12, 13, 15, 16, 17, 18, 19, 24] : List Nat).getD 2 0)
      (by decide) (by decide)).trans (by decide))
    n25_19_d7)))

theorem c25_19_3 : fvpF 18 [7, 9, 10, 11, 12, 13, 15, 16, 17, 18, 19, 24] (s25.take 19) = none :=
  fvpF_none_of_cert 18 [7, 9, 10, 11, 12, 13, 15, 16, 17, 18, 19, 24] (s25.take 19) 52093862775067432915339799377759154892496328802647501818771932469147856570011558160871665226495538786313501430121026406773734284045792947605605509331995715637889494552940065732082109669902815192788786119896794748517201616155515469669859328 bridge25_19
    [] [[7, 9, 10, 11, 12, 13, 15, 16, 17, 18, 19]]
    (by decide) (by decide) (by decide) (by decide) (by decide) (by decide)
    (by decide) (by decide)

theorem n25_19_d5 : fvpF 19 [6, 7, 8, 9, 10, 11, 12, 13, 15, 16, 17, 18, 19, 24] (s25.take 19) = some [(6, 9), (7, 10), (8, 24), (11, 16), (12, 17), (13, 18), (15, 19)] :=
  (Eq.trans (fvpF_succ 18 [6, 7, 8, 9, 10, 11, 12, 13, 15, 16, 17, 18, 19, 24] (s25.take 19) (by decide))
  (Eq.trans (Eq.trans (tryRange_skipAll 18 [6, 7, 8, 9, 10, 11, 12, 13, 15, 16, 17, 18, 19, 24] (s25.take 19) 52093862775067432915339799377759154892496328802647501818771932469147856570011558160871665226495538786313501430121026406773734284045792947605605509331995715637889494552940065732082109669902815192788786119896794748517201616155515469669859328 bridge25_19
    (by decide) 1 1 12 (by decide))
  (tryRange_fail 18 [6, 7, 8, 9, 10, 11, 12, 13, 15, 16, 17, 18, 19, 24] (s25.take 19) 2 11
    ((bridge25_19 (([6, 7, 8, 9, 10, 11, 12, 13, 15, 16, 17, 18, 19, 24] : List Nat).getD 0 0) (([6, 7, 8, 9, 10, 11, 12, 13, 15, 16, 17, 18, 19, 24] : List Nat).getD 2 0)
      (by decide) (by decide)).trans (by decide))
    c25_19_3))
  (tryRange_hit 18 [6, 7, 8, 9, 10, 11, 12, 13, 15, 16, 17, 18, 19, 24] (s25.take 19) 3 10 [(7, 10), (8, 24), (11, 16), (12, 17), (13, 18), (15, 19)]
    ((bridge25_19 (([6, 7, 8, 9, 10, 11, 12, 13, 15, 16, 17, 18, 19, 24] : List Nat).getD 0 0) (([6, 7, 8, 9, 10, 11, 12, 13, 15, 16, 17, 18, 19, 24] : List Nat).getD 3 0)
      (by decide) (by decide)).trans (by decide))
    n25_19_d6)))

theorem c25_19_4 : fvpF 19 [6, 7, 8, 10, 11, 12, 13, 15, 16, 17, 18, 19, 24, 25] (s25.take 19) = none :=
  fvpF_none_of_cert 19 [6, 7, 8, 10, 11, 12, 13, 15, 16, 17, 18, 19, 24, 25] (s25.take 19) 52093862775067432915339799377759154892496328802647501818771932469147856570011558160871665226495538786313501430121026406773734284045792947605605509331995715637889494552940065732082109669902815192788786119896794748517201616155515469669859328 bridge25_19
    [] [[6, 7, 8, 10, 11, 12, 13, 15, 16, 17, 18, 19, 24]]
    (by decide) (by decide) (by decide) (by decide) (by decide) (by decide)
    (by decide) (by decide)

theorem c25_19_5 : fvpF 19 [6, 7, 8, 9, 10, 11, 12, 13, 16, 17, 18, 19, 24, 25] (s25.take 19) = none :=
  fvpF_none_of_cert 19 [6, 7, 8, 9, 10, 11, 12, 13, 16, 17, 18, 19, 24, 25] (s25.take 19) 52093862775067432915339799377759154892496328802647501818771932469147856570011558160871665226495538786313501430121026406773734284045792947605605509331995715637889494552940065732082109669902815192788786119896794748517201616155515469669859328 bridge25_19
    [] [[6, 7, 8, 9, 10, 11, 12, 13, 16, 17, 18, 19, 24]]
    (by decide) (by decide) (by decide) (by decide) (by decide) (by decide)
    (by decide) (by decide)

theorem n25_19_d4 : fvpF 20 [5, 6, 7, 8, 9, 10, 11, 12, 13, 15, 16, 17, 18, 19, 24, 25] (s25.take 19) = some [(5, 25), (6, 9), (7, 10), (8, 24), (11, 16), (12, 17), (13, 18), (15, 19)] :=
  (Eq.trans (fvpF_succ 19 [5, 6, 7, 8, 9, 10, 11, 12, 13, 15, 16, 17, 18, 19, 24, 25] (s25.take 19) (by decide))
  (Eq.trans (Eq.trans (Eq.trans (Eq.trans (Eq.trans (tryRange_skipAll 19 [5, 6, 7, 8, 9, 10, 11, 12, 13, 15, 16, 17, 18, 19, 24, 25] (s25.take 19) 52093862775067432915339799377759154892496328802647501818771932469147856570011558160871665226495538786313501430121026406773734284045792947605605509331995715637889494552940065732082109669902815192788786119896794748517201616155515469669859328 bridge25_19
    (by decide) 1 3 12 (by decide))
  (tryRange_fail 19 [5, 6, 7, 8, 9, 10, 11, 12, 13, 15, 16, 17, 18, 19, 24, 25] (s25.take 19) 4 11
    ((bridge25_19 (([5, 6, 7, 8, 9, 10, 11, 12, 13, 15, 16, 17, 18, 19, 24, 25] : List Nat).getD 0 0) (([5, 6, 7, 8, 9, 10, 11, 12, 13, 15, 16, 17, 18, 19, 24, 25] : List Nat).getD 4 0)
      (by decide) (by decide)).trans (by decide))
    c25_19_4))
  (tryRange_skipAll 19 [5, 6, 7, 8, 9, 10, 11, 12, 13, 15, 16, 17, 18, 19, 24, 25] (s25.take 19) 52093862775067432915339799377759154892496328802647501818771932469147856570011558160871665226495538786313501430121026406773734284045792947605605509331995715637889494552940065732082109669902815192788786119896794748517201616155515469669859328 bridge25_19
    (by decide) 5 4 7 (by decide)))
  (tryRange_fail 19 [5, 6, 7, 8, 9, 10, 11, 12, 13, 15, 16, 17, 18, 19, 24, 25] (s25.take 19) 9 6
    ((bridge25_19 (([5, 6, 7, 8, 9, 10, 11, 12, 13, 15, 16, 17, 18, 19, 24, 25] : List Nat).getD 0 0) (([5, 6, 7, 8, 9, 10, 11, 12, 13, 15, 16, 17, 18, 19, 24, 25] : List Nat).getD 9 0)
      (by decide) (by decide)).trans (by decide))
    c25_19_5))
  (tryRange_skipAll 19 [5, 6, 7, 8, 9, 10, 11, 12, 13, 15, 16, 17, 18, 19, 24, 25] (s25.take 19) 52093862775067432915339799377759154892496328802647501818771932469147856570011558160871665226495538786313501430121026406773734284045792947605605509331995715637889494552940065732082109669902815192788786119896794748517201616155515469669859328 bridge25_19
    (by decide) 10 5 1 (by decide)))
  (tryRange_hit 19 [5, 6, 7, 8, 9, 10, 11, 12, 13, 15, 16, 17, 18, 19, 24, 25] (s25.take 19) 15 0 [(6, 9), (7, 10), (8, 24), (11, 16), (12, 17), (13, 18), (15, 19)]
    ((bridge25_19 (([5, 6, 7, 8, 9, 10, 11, 12, 13, 15, 16, 17, 18, 19, 24, 25] : List Nat).getD 0 0) (([5, 6, 7, 8, 9, 10, 11, 12, 13, 15, 16, 17, 18, 19, 24, 25] : List Nat).getD 15 0)
      (by decide) (by decide)).trans (by decide))
    n25_19_d5)))

theorem c25_19_6 : fvpF 20 [5, 6, 7, 8, 9, 10, 11, 12, 13, 16, 17, 18, 19, 23, 24, 25] (s25.take 19) = none :=
  fvpF_none_of_cert 20 [5, 6, 7, 8, 9, 10, 11, 12, 13, 16, 17, 18, 19, 23, 24, 25] (s25.take 19) 52093862775067432915339799377759154892496328802647501818771932469147856570011558160871665226495538786313501430121026406773734284045792947605605509331995715637889494552940065732082109669902815192788786119896794748517201616155515469669859328 bridge25_19
    [5, 8] [[6, 7, 9, 10, 11, 12, 13, 16, 17, 18, 19], [23], [24]]
    (by decide) (by decide) (by decide) (by decide) (by decide) (by decide)
    (by decide) (by decide)

theorem n25_19_d3 : fvpF 21 [4, 5, 6, 7, 8, 9, 10, 11, 12, 13, 15, 16, 17, 18, 19, 23, 24, 25] (s25.take 19) = some [(4, 23), (5, 25), (6, 9), (7, 10), (8, 24), (11, 16), (12, 17), (13, 18), (15, 19)] :=
  (Eq.trans (fvpF_succ 20 [4, 5, 6, 7, 8, 9, 10, 11, 12, 13, 15, 16, 17, 18, 19, 23, 24, 25] (s25.take 19) (by decide))
  (Eq.trans (Eq.trans (Eq.trans (tryRange_skipAll 20 [4, 5, 6, 7, 8, 9, 10, 11, 12, 13, 15, 16, 17, 18, 19, 23, 24, 25] (s25.take 19) 52093862775067432915339799377759154892496328802647501818771932469147856570011558160871665226495538786313501430121026406773734284045792947605605509331995715637889494552940065732082109669902815192788786119896794748517201616155515469669859328 bridge25_19
    (by decide) 1 9 8 (by decide))
  (tryRange_fail 20 [4, 5, 6, 7, 8, 9, 10, 11, 12, 13, 15, 16, 17, 18, 19, 23, 24, 25] (s25.take 19) 10 7
    ((bridge25_19 (([4, 5, 6, 7, 8, 9, 10, 11, 12, 13, 15, 16, 17, 18, 19, 23, 24, 25] : List Nat).getD 0 0) (([4, 5, 6, 7, 8, 9, 10, 11, 12, 13, 15, 16, 17, 18, 19, 23, 24, 25] : List Nat).getD 10 0)
      (by decide) (by decide)).trans (by decide))
    c25_19_6))
  (tryRange_skipAll 20 [4, 5, 6, 7, 8, 9, 10, 11, 12, 13, 15, 16, 17, 18, 19, 23, 24, 25] (s25.take 19) 52093862775067432915339799377759154892496328802647501818771932469147856570011558160871665226495538786313501430121026406773734284045792947605605509331995715637889494552940065732082109669902815192788786119896794748517201616155515469669859328 bridge25_19
    (by decide) 11 4 3 (by decide)))
  (tryRange_hit 20 [4, 5, 6, 7, 8, 9, 10, 11, 12, 13, 15, 16, 17, 18, 19, 23, 24, 25] (s25.take 19) 15 2 [(5, 25), (6, 9), (7, 10), (8, 24), (11, 16), (12, 17), (13, 18), (15, 19)]
    ((bridge25_19 (([4, 5, 6, 7, 8, 9, 10, 11, 12, 13, 15, 16, 17, 18, 19, 23, 24, 25] : List Nat).getD 0 0) (([4, 5, 6, 7, 8, 9, 10, 11, 12, 13, 15, 16, 17, 18, 19, 23, 24, 25] : List Nat).getD 15 0)
      (by decide) (by decide)).trans (by decide))
    n25_19_d4)))

theorem n25_19_d2 : fvpF 22 [3, 4, 5, 6, 7, 8, 9, 10, 11, 12, 13, 14, 15, 16, 17, 18, 19, 23, 24, 25] (s25.take 19) = some [(3, 14), (4, 23), (5, 25), (6, 9), (7, 10), (8, 24), (11, 16), (12, 17), (13, 18), (15, 19)] :=
  (Eq.trans (fvpF_succ 21 [3, 4, 5, 6, 7, 8, 9, 10, 11, 12, 13, 14, 15, 16, 17, 18, 19, 23, 24, 25] (s25.take 19) (by decide))
  (Eq.trans (tryRange_skipAll 21 [3, 4, 5, 6, 7, 8, 9, 10, 11, 12, 13, 14, 15, 16, 17, 18, 19, 23, 24, 25] (s25.take 19) 52093862775067432915339799377759154892496328802647501818771932469147856570011558160871665226495538786313501430121026406773734284045792947605605509331995715637889494552940065732082109669902815192788786119896794748517201616155515469669859328 bridge25_19
    (by decide) 1 10 9 (by decide))
  (tryRange_hit 21 [3, 4, 5, 6, 7, 8, 9, 10, 11, 12, 13, 14, 15, 16, 17, 18, 19, 23, 24, 25] (s25.take 19) 11 8 [(4, 23), (5, 25), (6, 9), (7, 10), (8, 24), (11, 16), (12, 17), (13, 18), (15, 19)]
    ((bridge25_19 (([3, 4, 5, 6, 7, 8, 9, 10, 11, 12, 13, 14, 15, 16, 17, 18, 19, 23, 24, 25] : List Nat).getD 0 0) (([3, 4, 5, 6, 7, 8, 9, 10, 11, 12, 13, 14, 15, 16, 17, 18, 19, 23, 24, 25] : List Nat).getD 11 0)
      (by decide) (by decide)).trans (by decide))
    n25_19_d3)))

theorem n25_19_d1 : fvpF 23 [2, 3, 4, 5, 6, 7, 8, 9, 10, 11, 12, 13, 14, 15, 16, 17, 18, 19, 22, 23, 24, 25] (s25.take 19) = some [(2, 22), (3, 14), (4, 23), (5, 25), (6, 9), (7, 10), (8, 24), (11, 16), (12, 17), (13, 18), (15, 19)] :=
  (Eq.trans (fvpF_succ 22 [2, 3, 4, 5, 6, 7, 8, 9, 10, 11, 12, 13, 14, 15, 16, 17, 18, 19, 22, 23, 24, 25] (s25.take 19) (by decide))
  (Eq.trans (tryRange_skipAll 22 [2, 3, 4, 5, 6, 7, 8, 9, 10, 11, 12, 13, 14, 15, 16, 17, 18, 19, 22, 23, 24, 25] (s25.take 19) 52093862775067432915339799377759154892496328802647501818771932469147856570011558160871665226495538786313501430121026406773734284045792947605605509331995715637889494552940065732082109669902815192788786119896794748517201616155515469669859328 bridge25_19
    (by decide) 1 17 4 (by decide))
  (tryRange_hit 22 [2, 3, 4, 5, 6, 7, 8, 9, 10, 11, 12, 13, 14, 15, 16, 17, 18, 19, 22, 23, 24, 25] (s25.take 19) 18 3 [(3, 14), (4, 23), (5, 25), (6, 9), (7, 10), (8, 24), (11, 16), (12, 17), (13, 18), (15, 19)]
    ((bridge25_19 (([2, 3, 4, 5, 6, 7, 8, 9, 10, 11, 12, 13, 14, 15, 16, 17, 18, 19, 22, 23, 24, 25] : List Nat).getD 0 0) (([2, 3, 4, 5, 6, 7, 8, 9, 10, 11, 12, 13, 14, 15, 16, 17, 18, 19, 22, 23, 24, 25] : List Nat).getD 18 0)
      (by decide) (by decide)).trans (by decide))
    n25_19_d2)))

theorem n25_19_d0 : fvpF 24 [1, 2, 3, 4, 5, 6, 7, 8, 9, 10, 11, 12, 13, 14, 15, 16, 17, 18, 19, 21, 22, 23, 24, 25] (s25.take 19) = some [(1, 21), (2, 22), (3, 14), (4, 23), (5, 25), (6, 9), (7, 10), (8, 24), (11, 16), (12, 17), (13, 18), (15, 19)] :=
  (Eq.trans (fvpF_succ 23 [1, 2, 3, 4, 5, 6, 7, 8, 9, 10, 11, 12, 13, 14, 15, 16, 17, 18, 19, 21, 22, 23, 24, 25] (s25.take 19) (by decide))
  (Eq.trans (tryRange_skipAll 23 [1, 2, 3, 4, 5, 6, 7, 8, 9, 10, 11, 12, 13, 14, 15, 16, 17, 18, 19, 21, 22, 23, 24, 25] (s25.take 19) 52093862775067432915339799377759154892496328802647501818771932469147856570011558160871665226495538786313501430121026406773734284045792947605605509331995715637889494552940065732082109669902815192788786119896794748517201616155515469669859328 bridge25_19
    (by decide) 1 18 5 (by decide))
  (tryRange_hit 23 [1, 2, 3, 4, 5, 6, 7, 8, 9, 10, 11, 12, 13, 14, 15, 16, 17, 18, 19, 21, 22, 23, 24, 25] (s25.take 19) 19 4 [(2, 22), (3, 14), (4, 23), (5, 25), (6, 9), (7, 10), (8, 24), (11, 16), (12, 17), (13, 18), (15, 19)]
    ((bridge25_19 (([1, 2, 3, 4, 5, 6, 7, 8, 9, 10, 11, 12, 13, 14, 15, 16, 17, 18, 19, 21, 22, 23, 24, 25] : List Nat).getD 0 0) (([1, 2, 3, 4, 5, 6, 7, 8, 9, 10, 11, 12, 13, 14, 15, 16, 17, 18, 19, 21, 22, 23, 24, 25] : List Nat).getD 19 0)
      (by decide) (by decide)).trans (by decide))
    n25_19_d1)))

theorem fvp25_19 : findValidPairs [1, 2, 3, 4, 5, 6, 7, 8, 9, 10, 11, 12, 13, 14, 15, 16, 17, 18, 19, 21, 22, 23, 24, 25] (s25.take 19) = some [(1, 21), (2, 22), (3, 14), (4, 23), (5, 25), (6, 9), (7, 10), (8, 24), (11, 16), (12, 17), (13, 18), (15, 19)] := n25_19_d0

theorem n25_20_d11 : fvpF 13 [15, 17] (s25.take 20) = some [(15, 17)] :=
  (Eq.trans (fvpF_succ 12 [15, 17] (s25.take 20) (by decide))
  (tryRange_hit 12 [15, 17] (s25.take 20) 1 0 []
    ((bridge25_20 (([15, 17] : List Nat).getD 0 0) (([15, 17] : List Nat).getD 1 0)
      (by decide) (by decide)).trans (by decide))
    (fvpF_nil 12 (s25.take 20))))

theorem n25_20_d10 : fvpF 14 [14, 15, 17, 18] (s25.take 20) = some [(14, 18), (15, 17)] :=
  (Eq.trans (fvpF_succ 13 [14, 15, 17, 18] (s25.take 20) (by decide))
  (Eq.trans (tryRange_skipAll 13 [14, 15, 17, 18] (s25.take 20) 52093862775067432915339799377759154892496328802647501818771932469147856570011558160871666863190842734384436481078589931670847902396486995929279156306403753098003656510269233287770080498150112978619217185810347720512062864798942480123822080 bridge25_20
    (by decide) 1 2 1 (by decide))
  (tryRange_hit 13 [14, 15, 17, 18] (s25.take 20) 3 0 [(15, 17)]
    ((bridge25_20 (([14, 15, 17, 18] : List Nat).getD 0 0) (([14, 15, 17, 18] : List Nat).getD 3 0)
      (by decide) (by decide)).trans (by decide))
    n25_20_d11)))

theorem n25_20_d9 : fvpF 15 [12, 14, 15, 17, 18, 19] (s25.take 20) = some [(12, 19), (14, 18), (15, 17)] :=
  (Eq.trans (fvpF_succ 14 [12, 14, 15, 17, 18, 19] (s25.take 20) (by decide))
  (Eq.trans (tryRange_skipAll 14 [12, 14, 15, 17, 18, 19] (s25.take 20) 52093862775067432915339799377759154892496328802647501818771932469147856570011558160871666863190842734384436481078589931670847902396486995929279156306403753098003656510269233287770080498150112978619217185810347720512062864798942480123822080 bridge25_20
    (by decide) 1 4 1 (by decide))
  (tryRange_hit 14 [12, 14, 15, 17, 18, 19] (s25.take 20) 5 0 [(14, 18), (15, 17)]
    ((bridge25_20 (([12, 14, 15, 17, 18, 19] : List Nat).getD 0 0) (([12, 14, 15, 17, 18, 19] : List Nat).getD 5 0)
      (by decide) (by decide)).trans (by decide))
    n25_20_d10)))

theorem c25_20_0 : fvpF 15 [12, 14, 15, 18, 19, 22] (s25.take 20) = none :=
  fvpF_none_of_cert 15 [12, 14, 15, 18, 19, 22] (s25.take 20) 52093862775067432915339799377759154892496328802647501818771932469147856570011558160871666863190842734384436481078589931670847902396486995929279156306403753098003656510269233287770080498150112978619217185810347720512062864798942480123822080 bridge25_20
    [] [[12, 14, 15, 18, 19]]
    (by decide) (by decide) (by decide) (by decide) (by decide) (by decide)
    (by decide) (by decide)

theorem c25_20_1 : fvpF 15 [12, 14, 15, 17, 19, 22] (s25.take 20) = none :=
  fvpF_none_of_cert 15 [12, 14, 15, 17, 19, 22] (s25.take 20) 52093862775067432915339799377759154892496328802647501818771932469147856570011558160871666863190842734384436481078589931670847902396486995929279156306403753098003656510269233287770080498150112978619217185810347720512062864798942480123822080 bridge25_20
    [] [[12, 14, 19]]
    (by decide) (by decide) (by decide) (by decide) (by decide) (by decide)
    (by decide) (by decide)

theorem n25_20_d8 : fvpF 16 [11, 12, 14, 15, 17, 18, 19, 22] (s25.take 20) = some [(11, 22), (12, 19), (14, 18), (15, 17)] :=
  (Eq.trans (fvpF_succ 15 [11, 12, 14, 15, 17, 18, 19, 22] (s25.take 20) (by decide))
  (Eq.trans (Eq.trans (Eq.trans (Eq.trans (tryRange_skipAll 15 [11, 12, 14, 15, 17, 18, 19, 22] (s25.take 20) 52093862775067432915339799377759154892496328802647501818771932469147856570011558160871666863190842734384436481078589931670847902396486995929279156306403753098003656510269233287770080498150112978619217185810347720512062864798942480123822080 bridge25_20
    (by decide) 1 3 4 (by decide))
  (tryRange_fail 15 [11, 12, 14, 15, 17, 18, 19, 22] (s25.take 20) 4 3
    ((bridge25_20 (([11, 12, 14, 15, 17, 18, 19, 22] : List Nat).getD 0 0) (([11, 12, 14, 15, 17, 18, 19, 22] : List Nat).getD 4 0)
      (by decide) (by decide)).trans (by decide))
    c25_20_0))
  (tryRange_fail 15 [11, 12, 14, 15, 17, 18, 19, 22] (s25.take 20) 5 2
    ((bridge25_20 (([11, 12, 14, 15, 17, 18, 19, 22] : List Nat).getD 0 0) (([11, 12, 14, 15, 17, 18, 19, 22] : List Nat).getD 5 0)
      (by decide) (by decide)).trans (by decide))
    c25_20_1))
  (tryRange_skipAll 15 [11, 12, 14, 15, 17, 18, 19, 22] (s25.take 20) 52093862775067432915339799377759154892496328802647501818771932469147856570011558160871666863190842734384436481078589931670847902396486995929279156306403753098003656510269233287770080498150112978619217185810347720512062864798942480123822080 bridge25_20
    (by decide) 6 1 1 (by decide)))
  (tryRange_hit 15 [11, 12, 14, 15, 17, 18, 19, 22] (s25.take 20) 7 0 [(12, 19), (14, 18), (15, 17)]
    ((bridge25_20 (([11, 12, 14, 15, 17, 18, 19, 22] : List Nat).getD 0 0) (([11, 12, 14, 15, 17, 18, 19, 22] : List Nat).getD 7 0)
      (by decide) (by decide)).trans (by decide))
    n25_20_d9)))

theorem n25_20_d7 : fvpF 17 [10, 11, 12, 14, 15, 16, 17, 18, 19, 22] (s25.take 20) = some [(10, 16), (11, 22), (12, 19), (14, 18), (15, 17)] :=
  (Eq.trans (fvpF_succ 16 [10, 11, 12, 14, 15, 16, 17, 18, 19, 22] (s25.take 20) (by decide))
  (Eq.trans (tryRange_skipAll 16 [10, 11, 12, 14, 15, 16, 17, 18, 19, 22] (s25.take 20) 52093862775067432915339799377759154892496328802647501818771932469147856570011558160871666863190842734384436481078589931670847902396486995929279156306403753098003656510269233287770080498150112978619217185810347720512062864798942480123822080 bridge25_20
    (by decide) 1 4 5 (by decide))
  (tryRange_hit 16 [10, 11, 12, 14, 15, 16, 17, 18, 19, 22] (s25.take 20) 5 4 [(11, 22), (12, 19), (14, 18), (15, 17)]
    ((bridge25_20 (([10, 11, 12, 14, 15, 16, 17, 18, 19, 22] : List Nat).getD 0 0) (([10, 11, 12, 14, 15, 16, 17, 18, 19, 22] : List Nat).getD 5 0)
      (by decide) (by decide)).trans (by decide))
    n25_20_d8)))

theorem c25_20_2 : fvpF 17 [10, 12, 13, 14, 15, 16, 17, 18, 19, 22] (s25.take 20) = none :=
  fvpF_none_of_cert 17 [10, 12, 13, 14, 15, 16, 17, 18, 19, 22] (s25.take 20) 52093862775067432915339799377759154892496328802647501818771932469147856570011558160871666863190842734384436481078589931670847902396486995929279156306403753098003656510269233287770080498150112978619217185810347720512062864798942480123822080 bridge25_20
    [] [[10, 12, 13, 14, 15, 16, 17, 18, 19]]
    (by decide) (by decide) (by decide) (by decide) (by decide) (by decide)
    (by decide) (by decide)

theorem n25_20_d6 : fvpF 18 [7, 10, 11, 12, 13, 14, 15, 16, 17, 18, 19, 22] (s25.take 20) = some [(7, 13), (10, 16), (11, 22), (12, 19), (14, 18), (15, 17)] :=
  (Eq.trans (fvpF_succ 17 [7, 10, 11, 12, 13, 14, 15, 16, 17, 18, 19, 22] (s25.take 20) (by decide))
  (Eq.trans (Eq.trans (Eq.trans (tryRange_skipAll 17 [7, 10, 11, 12, 13, 14, 15, 16, 17, 18, 19, 22] (s25.take 20) 52093862775067432915339799377759154892496328802647501818771932469147856570011558160871666863190842734384436481078589931670847902396486995929279156306403753098003656510269233287770080498150112978619217185810347720512062864798942480123822080 bridge25_20
    (by decide) 1 1 10 (by decide))
  (tryRange_fail 17 [7, 10, 11, 12, 13, 14, 15, 16, 17, 18, 19, 22] (s25.take 20) 2 9
    ((bridge25_20 (([7, 10, 11, 12, 13, 14, 15, 16, 17, 18, 19, 22] : List Nat).getD 0 0) (([7, 10, 11, 12, 13, 14, 15, 16, 17, 18, 19, 22] : List Nat).getD 2 0)
      (by decide) (by decide)).trans (by decide))
    c25_20_2))
  (tryRange_skipAll 17 [7, 10, 11, 12, 13, 14, 15, 16, 17, 18, 19, 22] (s25.take 20) 52093862775067432915339799377759154892496328802647501818771932469147856570011558160871666863190842734384436481078589931670847902396486995929279156306403753098003656510269233287770080498150112978619217185810347720512062864798942480123822080 bridge25_20
    (by decide) 3 1 8 (by decide)))
  (tryRange_hit 17 [7, 10, 11, 12, 13, 14, 15, 16, 17, 18, 19, 22] (s25.take 20) 4 7 [(10, 16), (11, 22), (12, 19), (14, 18), (15, 17)]
    ((bridge25_20 (([7, 10, 11, 12, 13, 14, 15, 16, 17, 18, 19, 22] : List Nat).getD 0 0) (([7, 10, 11, 12, 13, 14, 15, 16, 17, 18, 19, 22] : List Nat).getD 4 0)
      (by decide) (by decide)).trans (by decide))
    n25_20_d7)))

theorem n25_20_d5 : fvpF 19 [6, 7, 8, 10, 11, 12, 13, 14, 15, 16, 17, 18, 19, 22] (s25.take 20) = some [(6, 8), (7, 13), (10, 16), (11, 22), (12, 19), (14, 18), (15, 17)] :=
  (Eq.trans (fvpF_succ 18 [6, 7, 8, 10, 11, 12, 13, 14, 15, 16, 17, 18, 19, 22] (s25.take 20) (by decide))
  (Eq.trans (tryRange_skipAll 18 [6, 7, 8, 10, 11, 12, 13, 14, 15, 16, 17, 18, 19, 22] (s25.take 20) 52093862775067432915339799377759154892496328802647501818771932469147856570011558160871666863190842734384436481078589931670847902396486995929279156306403753098003656510269233287770080498150112978619217185810347720512062864798942480123822080 bridge25_20
    (by decide) 1 1 12 (by decide))
  (tryRange_hit 18 [6, 7, 8, 10, 11, 12, 13, 14, 15, 16, 17, 18, 19, 22] (s25.take 20) 2 11 [(7, 13), (10, 16), (11, 22), (12, 19), (14, 18), (15, 17)]
    ((bridge25_20 (([6, 7, 8, 10, 11, 12, 13, 14, 15, 16, 17, 18, 19, 22] : List Nat).getD 0 0) (([6, 7, 8, 10, 11, 12, 13, 14, 15, 16, 17, 18, 19, 22] : List Nat).getD 2 0)
      (by decide) (by decide)).trans (by decide))
    n25_20_d6)))

theorem n25_20_d4 : fvpF 20 [5, 6, 7, 8, 9, 10, 11, 12, 13, 14, 15, 16, 17, 18, 19, 22] (s25.take 20) = some [(5, 9), (6, 8), (7, 13), (10, 16), (11, 22), (12, 19), (14, 18), (15, 17)] :=
  (Eq.trans (fvpF_succ 19 [5, 6, 7, 8, 9, 10, 11, 12, 13, 14, 15, 16, 17, 18, 19, 22] (s25.take 20) (by decide))
  (Eq.trans (tryRange_skipAll 19 [5, 6, 7, 8, 9, 10, 11, 12, 13, 14, 15, 16, 17, 18, 19, 22] (s25.take 20) 52093862775067432915339799377759154892496328802647501818771932469147856570011558160871666863190842734384436481078589931670847902396486995929279156306403753098003656510269233287770080498150112978619217185810347720512062864798942480123822080 bridge25_20
    (by decide) 1 3 12 (by decide))
  (tryRange_hit 19 [5, 6, 7, 8, 9, 10, 11, 12, 13, 14, 15, 16, 17, 18, 19, 22] (s25.take 20) 4 11 [(6, 8), (7, 13), (10, 16), (11, 22), (12, 19), (14, 18), (15, 17)]
    ((bridge25_20 (([5, 6, 7, 8, 9, 10, 11, 12, 13, 14, 15, 16, 17, 18, 19, 22] : List Nat).getD 0 0) (([5, 6, 7, 8, 9, 10, 11, 12, 13, 14, 15, 16, 17, 18, 19, 22] : List Nat).getD 4 0)
      (by decide) (by decide)).trans (by decide))
    n25_20_d5)))

theorem c25_20_3 : fvpF 20 [5, 6, 7, 8, 9, 10, 11, 12, 13, 15, 16, 17, 18, 19, 22, 25] (s25.take 20) = none :=
  fvpF_none_of_cert 20 [5, 6, 7, 8, 9, 10, 11, 12, 13, 15, 16, 17, 18, 19, 22, 25] (s25.take 20) 52093862775067432915339799377759154892496328802647501818771932469147856570011558160871666863190842734384436481078589931670847902396486995929279156306403753098003656510269233287770080498150112978619217185810347720512062864798942480123822080 bridge25_20
    [] [[5, 6, 7, 8, 9, 10, 11, 12, 13, 15, 16, 17, 18, 19, 22]]
    (by decide) (by decide) (by decide) (by decide) (by decide) (by decide)
    (by decide) (by decide)

theorem c25_20_4 : fvpF 20 [5, 6, 7, 8, 9, 10, 11, 12, 13, 14, 16, 17, 18, 19, 22, 25] (s25.take 20) = none :=
  fvpF_none_of_cert 20 [5, 6, 7, 8, 9, 10, 11, 12, 13, 14, 16, 17, 18, 19, 22, 25] (s25.take 20) 52093862775067432915339799377759154892496328802647501818771932469147856570011558160871666863190842734384436481078589931670847902396486995929279156306403753098003656510269233287770080498150112978619217185810347720512062864798942480123822080 bridge25_20
    [] [[5, 6, 7, 8, 9, 10, 11, 12, 13, 14, 16, 17, 18, 19, 22]]
    (by decide) (by decide) (by decide) (by decide) (by decide) (by decide)
    (by decide) (by decide)

theorem c25_20_5 : fvpF 20 [5, 6, 7, 8, 9, 10, 11, 12, 13, 14, 15, 16, 17, 18, 19, 25] (s25.take 20) = none :=
  fvpF_none_of_cert 20 [5, 6, 7, 8, 9, 10, 11, 12, 13, 14, 15, 16, 17, 18, 19, 25] (s25.take 20) 52093862775067432915339799377759154892496328802647501818771932469147856570011558160871666863190842734384436481078589931670847902396486995929279156306403753098003656510269233287770080498150112978619217185810347720512062864798942480123822080 bridge25_20
    [] [[5, 6, 7, 8, 9, 10, 11, 12, 13, 14, 15, 16, 17, 18, 19]]
    (by decide) (by decide) (by decide) (by decide) (by decide) (by decide)
    (by decide) (by decide)

theorem n25_20_d3 : fvpF 21 [4, 5, 6, 7, 8, 9, 10, 11, 12, 13, 14, 15, 16, 17, 18, 19, 22, 25] (s25.take 20) = some [(4, 25), (5, 9), (6, 8), (7, 13), (10, 16), (11, 22), (12, 19), (14, 18), (15, 17)] :=
  (Eq.trans (fvpF_succ 20 [4, 5, 6, 7, 8, 9, 10, 11, 12, 13, 14, 15, 16, 17, 18, 19, 22, 25] (s25.take 20) (by decide))
  (Eq.trans (Eq.trans (Eq.trans (Eq.trans (Eq.trans (tryRange_skipAll 20 [4, 5, 6, 7, 8, 9, 10, 11, 12, 13, 14, 15, 16, 17, 18, 19, 22, 25] (s25.take 20) 52093862775067432915339799377759154892496328802647501818771932469147856570011558160871666863190842734384436481078589931670847902396486995929279156306403753098003656510269233287770080498150112978619217185810347720512062864798942480123822080 bridge25_20
    (by decide) 1 9 8 (by decide))
  (tryRange_fail 20 [4, 5, 6, 7, 8, 9, 10, 11, 12, 13, 14, 15, 16, 17, 18, 19, 22, 25] (s25.take 20) 10 7
    ((bridge25_20 (([4, 5, 6, 7, 8, 9, 10, 11, 12, 13, 14, 15, 16, 17, 18, 19, 22, 25] : List Nat).getD 0 0) (([4, 5, 6, 7, 8, 9, 10, 11, 12, 13, 14, 15, 16, 17, 18, 19, 22, 25] : List Nat).getD 10 0)
      (by decide) (by decide)).trans (by decide))
    c25_20_3))
  (tryRange_fail 20 [4, 5, 6, 7, 8, 9, 10, 11, 12, 13, 14, 15, 16, 17, 18, 19, 22, 25] (s25.take 20) 11 6
    ((bridge25_20 (([4, 5, 6, 7, 8, 9, 10, 11, 12, 13, 14, 15, 16, 17, 18, 19, 22, 25] : List Nat).getD 0 0) (([4, 5, 6, 7, 8, 9, 10, 11, 12, 13, 14, 15, 16, 17, 18, 19, 22, 25] : List Nat).getD 11 0)
      (by decide) (by decide)).trans (by decide))
    c25_20_4))
  (tryRange_skipAll 20 [4, 5, 6, 7, 8, 9, 10, 11, 12, 13, 14, 15, 16, 17, 18, 19, 22, 25] (s25.take 20) 52093862775067432915339799377759154892496328802647501818771932469147856570011558160871666863190842734384436481078589931670847902396486995929279156306403753098003656510269233287770080498150112978619217185810347720512062864798942480123822080 bridge25_20
    (by decide) 12 4 2 (by decide)))
  (tryRange_fail 20 [4, 5, 6, 7, 8, 9, 10, 11, 12, 13, 14, 15, 16, 17, 18, 19, 22, 25] (s25.take 20) 16 1
    ((bridge25_20 (([4, 5, 6, 7, 8, 9, 10, 11, 12, 13, 14, 15, 16, 17, 18, 19, 22, 25] : List Nat).getD 0 0) (([4, 5, 6, 7, 8, 9, 10, 11, 12, 13, 14, 15, 16, 17, 18, 19, 22, 25] : List Nat).getD 16 0)
      (by decide) (by decide)).trans (by decide))
    c25_20_5))
  (tryRange_hit 20 [4, 5, 6, 7, 8, 9, 10, 11, 12, 13, 14, 15, 16, 17, 18, 19, 22, 25] (s25.take 20) 17 0 [(5, 9), (6, 8), (7, 13), (10, 16), (11, 22), (12, 19), (14, 18), (15, 17)]
    ((bridge25_20 (([4, 5, 6, 7, 8, 9, 10, 11, 12, 13, 14, 15, 16, 17, 18, 19, 22, 25] : List Nat).getD 0 0) (([4, 5, 6, 7, 8, 9, 10, 11, 12, 13, 14, 15, 16, 17, 18, 19, 22, 25] : List Nat).getD 17 0)
      (by decide) (by decide)).trans (by decide))
    n25_20_d4)))

theorem c25_20_6 : fvpF 21 [4, 5, 6, 7, 8, 9, 10, 11, 12, 13, 14, 16, 17, 18, 19, 22, 24, 25] (s25.take 20) = none :=
  fvpF_none_of_cert 21 [4, 5, 6, 7, 8, 9, 10, 11, 12, 13, 14, 16, 17, 18, 19, 22, 24, 25] (s25.take 20) 52093862775067432915339799377759154892496328802647501818771932469147856570011558160871666863190842734384436481078589931670847902396486995929279156306403753098003656510269233287770080498150112978619217185810347720512062864798942480123822080 bridge25_20
    [4, 11] [[5, 6, 7, 8, 9, 10, 12, 13, 14, 16, 17, 18, 19], [22], [24]]
    (by decide) (by decide) (by decide) (by decide) (by decide) (by decide)
    (by decide) (by decide)

theorem c25_20_7 : fvpF 21 [4, 5, 6, 7, 8, 9, 10, 11, 12, 13, 14, 15, 16, 17, 18, 19, 24, 25] (s25.take 20) = none :=
  fvpF_none_of_cert 21 [4, 5, 6, 7, 8, 9, 10, 11, 12, 13, 14, 15, 16, 17, 18, 19, 24, 25] (s25.take 20) 52093862775067432915339799377759154892496328802647501818771932469147856570011558160871666863190842734384436481078589931670847902396486995929279156306403753098003656510269233287770080498150112978619217185810347720512062864798942480123822080 bridge25_20
    [4, 5, 6, 7, 16, 17, 18, 19] [[8], [9], [10], [11], [12], [13], [14], [15], [24]]
    (by decide) (by decide) (by decide) (by decide) (by decide) (by decide)
    (by decide) (by decide)

theorem n25_20_d2 : fvpF 22 [3, 4, 5, 6, 7, 8, 9, 10, 11, 12, 13, 14, 15, 16, 17, 18, 19, 22, 24, 25] (s25.take 20) = some [(3, 24), (4, 25), (5, 9), (6, 8), (7, 13), (10, 16), (11, 22), (12, 19), (14, 18), (15, 17)] :=
  (Eq.trans (fvpF_succ 21 [3, 4, 5, 6, 7, 8, 9, 10, 11, 12, 13, 14, 15, 16, 17, 18, 19, 22, 24, 25] (s25.take 20) (by decide))
  (Eq.trans (Eq.trans (Eq.trans (Eq.trans (tryRange_skipAll 21 [3, 4, 5, 6, 7, 8, 9, 10, 11, 12, 13, 14, 15, 16, 17, 18, 19, 22, 24, 25] (s25.take 20) 52093862775067432915339799377759154892496328802647501818771932469147856570011558160871666863190842734384436481078589931670847902396486995929279156306403753098003656510269233287770080498150112978619217185810347720512062864798942480123822080 bridge25_20
    (by decide) 1 11 8 (by decide))
  (tryRange_fail 21 [3, 4, 5, 6, 7, 8, 9, 10, 11, 12, 13, 14, 15, 16, 17, 18, 19, 22, 24, 25] (s25.take 20) 12 7
    ((bridge25_20 (([3, 4, 5, 6, 7, 8, 9, 10, 11, 12, 13, 14, 15, 16, 17, 18, 19, 22, 24, 25] : List Nat).getD 0 0) (([3, 4, 5, 6, 7, 8, 9, 10, 11, 12, 13, 14, 15, 16, 17, 18, 19, 22, 24, 25] : List Nat).getD 12 0)
      (by decide) (by decide)).trans (by decide))
    c25_20_6))
  (tryRange_skipAll 21 [3, 4, 5, 6, 7, 8, 9, 10, 11, 12, 13, 14, 15, 16, 17, 18, 19, 22, 24, 25] (s25.take 20) 52093862775067432915339799377759154892496328802647501818771932469147856570011558160871666863190842734384436481078589931670847902396486995929279156306403753098003656510269233287770080498150112978619217185810347720512062864798942480123822080 bridge25_20
    (by decide) 13 4 3 (by decide)))
  (tryRange_fail 21 [3, 4, 5, 6, 7, 8, 9, 10, 11, 12, 13, 14, 15, 16, 17, 18, 19, 22, 24, 25] (s25.take 20) 17 2
    ((bridge25_20 (([3, 4, 5, 6, 7, 8, 9, 10, 11, 12, 13, 14, 15, 16, 17, 18, 19, 22, 24, 25] : List Nat).getD 0 0) (([3, 4, 5, 6, 7, 8, 9, 10, 11, 12, 13, 14, 15, 16, 17, 18, 19, 22, 24, 25] : List Nat).getD 17 0)
      (by decide) (by decide)).trans (by decide))
    c25_20_7))
  (tryRange_hit 21 [3, 4, 5, 6, 7, 8, 9, 10, 11, 12, 13, 14, 15, 16, 17, 18, 19, 22, 24, 25] (s25.take 20) 18 1 [(4, 25), (5, 9), (6, 8), (7, 13), (10, 16), (11, 22), (12, 19), (14, 18), (15, 17)]
    ((bridge25_20 (([3, 4, 5, 6, 7, 8, 9, 10, 11, 12, 13, 14, 15, 16, 17, 18, 19, 22, 24, 25] : List Nat).getD 0 0) (([3, 4, 5, 6, 7, 8, 9, 10, 11, 12, 13, 14, 15, 16, 17, 18, 19, 22, 24, 25] : List Nat).getD 18 0)
      (by decide) (by decide)).trans (by decide))
    n25_20_d3)))

theorem n25_20_d1 : fvpF 23 [2, 3, 4, 5, 6, 7, 8, 9, 10, 11, 12, 13, 14, 15, 16, 17, 18, 19, 22, 23, 24, 25] (s25.take 20) = some [(2, 23), (3, 24), (4, 25), (5, 9), (6, 8), (7, 13), (10, 16), (11, 22), (12, 19), (14, 18), (15, 17)] :=
  (Eq.trans (fvpF_succ 22 [2, 3, 4, 5, 6, 7, 8, 9, 10, 11, 12, 13, 14, 15, 16, 17, 18, 19, 22, 23, 24, 25] (s25.take 20) (by decide))
  (Eq.trans (tryRange_skipAll 22 [2, 3, 4, 5, 6, 7, 8, 9, 10, 11, 12, 13, 14, 15, 16, 17, 18, 19, 22, 23, 24, 25] (s25.take 20) 52093862775067432915339799377759154892496328802647501818771932469147856570011558160871666863190842734384436481078589931670847902396486995929279156306403753098003656510269233287770080498150112978619217185810347720512062864798942480123822080 bridge25_20
    (by decide) 1 18 3 (by decide))
  (tryRange_hit 22 [2, 3, 4, 5, 6, 7, 8, 9, 10, 11, 12, 13, 14, 15, 16, 17, 18, 19, 22, 23, 24, 25] (s25.take 20) 19 2 [(3, 24), (4, 25), (5, 9), (6, 8), (7, 13), (10, 16), (11, 22), (12, 19), (14, 18), (15, 17)]
    ((bridge25_20 (([2, 3, 4, 5, 6, 7, 8, 9, 10, 11, 12, 13, 14, 15, 16, 17, 18, 19, 22, 23, 24, 25] : List Nat).getD 0 0) (([2, 3, 4, 5, 6, 7, 8, 9, 10, 11, 12, 13, 14, 15, 16, 17, 18, 19, 22, 23, 24, 25] : List Nat).getD 19 0)
      (by decide) (by decide)).trans (by decide))
    n25_20_d2)))

theorem n25_20_d0 : fvpF 24 [1, 2, 3, 4, 5, 6, 7, 8, 9, 10, 11, 12, 13, 14, 15, 16, 17, 18, 19, 20, 22, 23, 24, 25] (s25.take 20) = some [(1, 20), (2, 23), (3, 24), (4, 25), (5, 9), (6, 8), (7, 13), (10, 16), (11, 22), (12, 19), (14, 18), (15, 17)] :=
  (Eq.trans (fvpF_succ 23 [1, 2, 3, 4, 5, 6, 7, 8, 9, 10, 11, 12, 13, 14, 15, 16, 17, 18, 19, 20, 22, 23, 24, 25] (s25.take 20) (by decide))
  (Eq.trans (tryRange_skipAll 23 [1, 2, 3, 4, 5, 6, 7, 8, 9, 10, 11, 12, 13, 14, 15, 16, 17, 18, 19, 20, 22, 23, 24, 25] (s25.take 20) 52093862775067432915339799377759154892496328802647501818771932469147856570011558160871666863190842734384436481078589931670847902396486995929279156306403753098003656510269233287770080498150112978619217185810347720512062864798942480123822080 bridge25_20
    (by decide) 1 18 5 (by decide))
  (tryRange_hit 23 [1, 2, 3, 4, 5, 6, 7, 8, 9, 10, 11, 12, 13, 14, 15, 16, 17, 18, 19, 20, 22, 23, 24, 25] (s25.take 20) 19 4 [(2, 23), (3, 24), (4, 25), (5, 9), (6, 8), (7, 13), (10, 16), (11, 22), (12, 19), (14, 18), (15, 17)]
    ((bridge25_20 (([1, 2, 3, 4, 5, 6, 7, 8, 9, 10, 11, 12, 13, 14, 15, 16, 17, 18, 19, 20, 22, 23, 24, 25] : List Nat).getD 0 0) (([1, 2, 3, 4, 5, 6, 7, 8, 9, 10, 11, 12, 13, 14, 15, 16, 17, 18, 19, 20, 22, 23, 24, 25] : List Nat).getD 19 0)
      (by decide) (by decide)).trans (by decide))
    n25_20_d1)))

theorem fvp25_20 : findValidPairs [1, 2, 3, 4, 5, 6, 7, 8, 9, 10, 11, 12, 13, 14, 15, 16, 17, 18, 19, 20, 22, 23, 24, 25] (s25.take 20) = some [(1, 20), (2, 23), (3, 24), (4, 25), (5, 9), (6, 8), (7, 13), (10, 16), (11, 22), (12, 19), (14, 18), (15, 17)] := n25_20_d0

theorem n25_21_d11 : fvpF 13 [15, 18] (s25.take 21) = some [(15, 18)] :=
  (Eq.trans (fvpF_succ 12 [15, 18] (s25.take 21) (by decide))
  (tryRange_hit 12 [15, 18] (s25.take 21) 1 0 []
    ((bridge25_21 (([15, 18] : List Nat).getD 0 0) (([15, 18] : List Nat).getD 1 0)
      (by decide) (by decide)).trans (by decide))
    (fvpF_nil 12 (s25.take 21))))

theorem n25_21_d10 : fvpF 14 [13, 15, 18, 19] (s25.take 21) = some [(13, 19), (15, 18)] :=
  (Eq.trans (fvpF_succ 13 [13, 15, 18, 19] (s25.take 21) (by decide))
  (Eq.trans (tryRange_skipAll 13 [13, 15, 18, 19] (s25.take 21) 52093862775067432915339799377759154892496328802647501818771932469147856570011558160871667272364668911938580774474874771940681287643593798467159725885588215139679322796813744120006196207041324276107108558336047705569450861628324755219152896 bridge25_21
    (by decide) 1 2 1 (by decide))
  (tryRange_hit 13 [13, 15, 18, 19] (s25.take 21) 3 0 [(15, 18)]
    ((bridge25_21 (([13, 15, 18, 19] : List Nat).getD 0 0) (([13, 15, 18, 19] : List Nat).getD 3 0)
      (by decide) (by decide)).trans (by decide))
    n25_21_d11)))

theorem n25_21_d9 : fvpF 15 [12, 13, 15, 18, 19, 21] (s25.take 21) = some [(12, 21), (13, 19), (15, 18)] :=
  (Eq.trans (fvpF_succ 14 [12, 13, 15, 18, 19, 21] (s25.take 21) (by decide))
  (Eq.trans (tryRange_skipAll 14 [12, 13, 15, 18, 19, 21] (s25.take 21) 52093862775067432915339799377759154892496328802647501818771932469147856570011558160871667272364668911938580774474874771940681287643593798467159725885588215139679322796813744120006196207041324276107108558336047705569450861628324755219152896 bridge25_21
    (by decide) 1 4 1 (by decide))
  (tryRange_hit 14 [12, 13, 15, 18, 19, 21] (s25.take 21) 5 0 [(13, 19), (15, 18)]
    ((bridge25_21 (([12, 13, 15, 18, 19, 21] : List Nat).getD 0 0) (([12, 13, 15, 18, 19, 21] : List Nat).getD 5 0)
      (by decide) (by decide)).trans (by decide))
    n25_21_d10)))

theorem n25_21_d8 : fvpF 16 [11, 12, 13, 15, 17, 18, 19, 21] (s25.take 21) = some [(11, 17), (12, 21), (13, 19), (15, 18)] :=
  (Eq.trans (fvpF_succ 15 [11, 12, 13, 15, 17, 18, 19, 21] (s25.take 21) (by decide))
  (Eq.trans (tryRange_skipAll 15 [11, 12, 13, 15, 17, 18, 19, 21] (s25.take 21) 52093862775067432915339799377759154892496328802647501818771932469147856570011558160871667272364668911938580774474874771940681287643593798467159725885588215139679322796813744120006196207041324276107108558336047705569450861628324755219152896 bridge25_21
    (by decide) 1 3 4 (by decide))
  (tryRange_hit 15 [11, 12, 13, 15, 17, 18, 19, 21] (s25.take 21) 4 3 [(12, 21), (13, 19), (15, 18)]
    ((bridge25_21 (([11, 12, 13, 15, 17, 18, 19, 21] : List Nat).getD 0 0) (([11, 12, 13, 15, 17, 18, 19, 21] : List Nat).getD 4 0)
      (by decide) (by decide)).trans (by decide))
    n25_21_d9)))

theorem n25_21_d7 : fvpF 17 [9, 11, 12, 13, 15, 16, 17, 18, 19, 21] (s25.take 21) = some [(9, 16), (11, 17), (12, 21), (13, 19), (15, 18)] :=
  (Eq.trans (fvpF_succ 16 [9, 11, 12, 13, 15, 16, 17, 18, 19, 21] (s25.take 21) (by decide))
  (Eq.trans (tryRange_skipAll 16 [9, 11, 12, 13, 15, 16, 17, 18, 19, 21] (s25.take 21) 52093862775067432915339799377759154892496328802647501818771932469147856570011558160871667272364668911938580774474874771940681287643593798467159725885588215139679322796813744120006196207041324276107108558336047705569450861628324755219152896 bridge25_21
    (by decide) 1 4 5 (by decide))
  (tryRange_hit 16 [9, 11, 12, 13, 15, 16, 17, 18, 19, 21] (s25.take 21) 5 4 [(11, 17), (12, 21), (13, 19), (15, 18)]
    ((bridge25_21 (([9, 11, 12, 13, 15, 16, 17, 18, 19, 21] : List Nat).getD 0 0) (([9, 11, 12, 13, 15, 16, 17, 18, 19, 21] : List Nat).getD 5 0)
      (by decide) (by decide)).trans (by decide))
    n25_21_d8)))

theorem n25_21_d6 : fvpF 18 [7, 8, 9, 11, 12, 13, 15, 16, 17, 18, 19, 21] (s25.take 21) = some [(7, 8), (9, 16), (11, 17), (12, 21), (13, 19), (15, 18)] :=
  (Eq.trans (fvpF_succ 17 [7, 8, 9, 11, 12, 13, 15, 16, 17, 18, 19, 21] (s25.take 21) (by decide))
  (tryRange_hit 17 [7, 8, 9, 11, 12, 13, 15, 16, 17, 18, 19, 21] (s25.take 21) 1 10 [(9, 16), (11, 17), (12, 21), (13, 19), (15, 18)]
    ((bridge25_21 (([7, 8, 9, 11, 12, 13, 15, 16, 17, 18, 19, 21] : List Nat).getD 0 0) (([7, 8, 9, 11, 12, 13, 15, 16, 17, 18, 19, 21] : List Nat).getD 1 0)
      (by decide) (by decide)).trans (by decide))
    n25_21_d7))

theorem n25_21_d5 : fvpF 19 [6, 7, 8, 9, 10, 11, 12, 13, 15, 16, 17, 18, 19, 21] (s25.take 21) = some [(6, 10), (7, 8), (9, 16), (11, 17), (12, 21), (13, 19), (15, 18)] :=
  (Eq.trans (fvpF_succ 18 [6, 7, 8, 9, 10, 11, 12, 13, 15, 16, 17, 18, 19, 21] (s25.take 21) (by decide))
  (Eq.trans (tryRange_skipAll 18 [6, 7, 8, 9, 10, 11, 12, 13, 15, 16, 17, 18, 19, 21] (s25.take 21) 52093862775067432915339799377759154892496328802647501818771932469147856570011558160871667272364668911938580774474874771940681287643593798467159725885588215139679322796813744120006196207041324276107108558336047705569450861628324755219152896 bridge25_21
    (by decide) 1 3 10 (by decide))
  (tryRange_hit 18 [6, 7, 8, 9, 10, 11, 12, 13, 15, 16, 17, 18, 19, 21] (s25.take 21) 4 9 [(7, 8), (9, 16), (11, 17), (12, 21), (13, 19), (15, 18)]
    ((bridge25_21 (([6, 7, 8, 9, 10, 11, 12, 13, 15, 16, 17, 18, 19, 21] : List Nat).getD 0 0) (([6, 7, 8, 9, 10, 11, 12, 13, 15, 16, 17, 18, 19, 21] : List Nat).getD 4 0)
      (by decide) (by decide)).trans (by decide))
    n25_21_d6)))

theorem n25_21_d4 : fvpF 20 [5, 6, 7, 8, 9, 10, 11, 12, 13, 14, 15, 16, 17, 18, 19, 21] (s25.take 21) = some [(5, 14), (6, 10), (7, 8), (9, 16), (11, 17), (12, 21), (13, 19), (15, 18)] :=
  (Eq.trans (fvpF_succ 19 [5, 6, 7, 8, 9, 10, 11, 12, 13, 14, 15, 16, 17, 18, 19, 21] (s25.take 21) (by decide))
  (Eq.trans (tryRange_skipAll 19 [5, 6, 7, 8, 9, 10, 11, 12, 13, 14, 15, 16, 17, 18, 19, 21] (s25.take 21) 52093862775067432915339799377759154892496328802647501818771932469147856570011558160871667272364668911938580774474874771940681287643593798467159725885588215139679322796813744120006196207041324276107108558336047705569450861628324755219152896 bridge25_21
    (by decide) 1 8 7 (by decide))
  (tryRange_hit 19 [5, 6, 7, 8, 9, 10, 11, 12, 13, 14, 15, 16, 17, 18, 19, 21] (s25.take 21) 9 6 [(6, 10), (7, 8), (9, 16), (11, 17), (12, 21), (13, 19), (15, 18)]
    ((bridge25_21 (([5, 6, 7, 8, 9, 10, 11, 12, 13, 14, 15, 16, 17, 18, 19, 21] : List Nat).getD 0 0) (([5, 6, 7, 8, 9, 10, 11, 12, 13, 14, 15, 16, 17, 18, 19, 21] : List Nat).getD 9 0)
      (by decide) (by decide)).trans (by decide))
    n25_21_d5)))

theorem c25_21_0 : fvpF 20 [5, 6, 7, 8, 9, 10, 11, 12, 13, 15, 16, 17, 18, 19, 21, 24] (s25.take 21) = none :=
  fvpF_none_of_cert 20 [5, 6, 7, 8, 9, 10, 11, 12, 13, 15, 16, 17, 18, 19, 21, 24] (s25.take 21) 52093862775067432915339799377759154892496328802647501818771932469147856570011558160871667272364668911938580774474874771940681287643593798467159725885588215139679322796813744120006196207041324276107108558336047705569450861628324755219152896 bridge25_21
    [] [[5, 6, 7, 8, 9, 10, 11, 12, 13, 15, 16, 17, 18, 19, 21]]
    (by decide) (by decide) (by decide) (by decide) (by decide) (by decide)
    (by decide) (by decide)

theorem c25_21_1 : fvpF 20 [5, 6, 7, 8, 9, 10, 11, 12, 13, 14, 16, 17, 18, 19, 21, 24] (s25.take 21) = none :=
  fvpF_none_of_cert 20 [5, 6, 7, 8, 9, 10, 11, 12, 13, 14, 16, 17, 18, 19, 21, 24] (s25.take 21) 52093862775067432915339799377759154892496328802647501818771932469147856570011558160871667272364668911938580774474874771940681287643593798467159725885588215139679322796813744120006196207041324276107108558336047705569450861628324755219152896 bridge25_21
    [] [[5, 6, 7, 8, 9, 10, 11, 12, 13, 14, 16, 17, 18, 19, 21]]
    (by decide) (by decide) (by decide) (by decide) (by decide) (by decide)
    (by decide) (by decide)

theorem n25_21_d3 : fvpF 21 [4, 5, 6, 7, 8, 9, 10, 11, 12, 13, 14, 15, 16, 17, 18, 19, 21, 24] (s25.take 21) = some [(4, 24), (5, 14), (6, 10), (7, 8), (9, 16), (11, 17), (12, 21), (13, 19), (15, 18)] :=
  (Eq.trans (fvpF_succ 20 [4, 5, 6, 7, 8, 9, 10, 11, 12, 13, 14, 15, 16, 17, 18, 19, 21, 24] (s25.take 21) (by decide))
  (Eq.trans (Eq.trans (Eq.trans (Eq.trans (tryRange_skipAll 20 [4, 5, 6, 7, 8, 9, 10, 11, 12, 13, 14, 15, 16, 17, 18, 19, 21, 24] (s25.take 21) 52093862775067432915339799377759154892496328802647501818771932469147856570011558160871667272364668911938580774474874771940681287643593798467159725885588215139679322796813744120006196207041324276107108558336047705569450861628324755219152896 bridge25_21
    (by decide) 1 9 8 (by decide))
  (tryRange_fail 20 [4, 5, 6, 7, 8, 9, 10, 11, 12, 13, 14, 15, 16, 17, 18, 19, 21, 24] (s25.take 21) 10 7
    ((bridge25_21 (([4, 5, 6, 7, 8, 9, 10, 11, 12, 13, 14, 15, 16, 17, 18, 19, 21, 24] : List Nat).getD 0 0) (([4, 5, 6, 7, 8, 9, 10, 11, 12, 13, 14, 15, 16, 17, 18, 19, 21, 24] : List Nat).getD 10 0)
      (by decide) (by decide)).trans (by decide))
    c25_21_0))
  (tryRange_fail 20 [4, 5, 6, 7, 8, 9, 10, 11, 12, 13, 14, 15, 16, 17, 18, 19, 21, 24] (s25.take 21) 11 6
    ((bridge25_21 (([4, 5, 6, 7, 8, 9, 10, 11, 12, 13, 14, 15, 16, 17, 18, 19, 21, 24] : List Nat).getD 0 0) (([4, 5, 6, 7, 8, 9, 10, 11, 12, 13, 14, 15, 16, 17, 18, 19, 21, 24] : List Nat).getD 11 0)
      (by decide) (by decide)).trans (by decide))
    c25_21_1))
  (tryRange_skipAll 20 [4, 5, 6, 7, 8, 9, 10, 11, 12, 13, 14, 15, 16, 17, 18, 19, 21, 24] (s25.take 21) 52093862775067432915339799377759154892496328802647501818771932469147856570011558160871667272364668911938580774474874771940681287643593798467159725885588215139679322796813744120006196207041324276107108558336047705569450861628324755219152896 bridge25_21
    (by decide) 12 5 1 (by decide)))
  (tryRange_hit 20 [4, 5, 6, 7, 8, 9, 10, 11, 12, 13, 14, 15, 16, 17, 18, 19, 21, 24] (s25.take 21) 17 0 [(5, 14), (6, 10), (7, 8), (9, 16), (11, 17), (12, 21), (13, 19), (15, 18)]
    ((bridge25_21 (([4, 5, 6, 7, 8, 9, 10, 11, 12, 13, 14, 15, 16, 17, 18, 19, 21, 24] : List Nat).getD 0 0) (([4, 5, 6, 7, 8, 9, 10, 11, 12, 13, 14, 15, 16, 17, 18, 19, 21, 24] : List Nat).getD 17 0)
      (by decide) (by decide)).trans (by decide))
    n25_21_d4)))

theorem c25_21_2 : fvpF 21 [4, 5, 6, 7, 8, 9, 10, 11, 12, 13, 14, 16, 17, 18, 19, 21, 24, 25] (s25.take 21) = none :=
  fvpF_none_of_cert 21 [4, 5, 6, 7, 8, 9, 10, 11, 12, 13, 14, 16, 17, 18, 19, 21, 24, 25] (s25.take 21) 52093862775067432915339799377759154892496328802647501818771932469147856570011558160871667272364668911938580774474874771940681287643593798467159725885588215139679322796813744120006196207041324276107108558336047705569450861628324755219152896 bridge25_21
    [] [[4, 5, 6, 7, 8, 9, 10, 11, 12, 13, 14, 16, 17, 18, 19, 21, 24]]
    (by decide) (by decide) (by decide) (by decide) (by decide) (by decide)
    (by decide) (by decide)

theorem n25_21_d2 : fvpF 22 [3, 4, 5, 6, 7, 8, 9, 10, 11, 12, 13, 14, 15, 16, 17, 18, 19, 21, 24, 25] (s25.take 21) = some [(3, 25), (4, 24), (5, 14), (6, 10), (7, 8), (9, 16), (11, 17), (12, 21), (13, 19), (15, 18)] :=
  (Eq.trans (fvpF_succ 21 [3, 4, 5, 6, 7, 8, 9, 10, 11, 12, 13, 14, 15, 16, 17, 18, 19, 21, 24, 25] (s25.take 21) (by decide))
  (Eq.trans (Eq.trans (Eq.trans (tryRange_skipAll 21 [3, 4, 5, 6, 7, 8, 9, 10, 11, 12, 13, 14, 15, 16, 17, 18, 19, 21, 24, 25] (s25.take 21) 52093862775067432915339799377759154892496328802647501818771932469147856570011558160871667272364668911938580774474874771940681287643593798467159725885588215139679322796813744120006196207041324276107108558336047705569450861628324755219152896 bridge25_21
    (by decide) 1 11 8 (by decide))
  (tryRange_fail 21 [3, 4, 5, 6, 7, 8, 9, 10, 11, 12, 13, 14, 15, 16, 17, 18, 19, 21, 24, 25] (s25.take 21) 12 7
    ((bridge25_21 (([3, 4, 5, 6, 7, 8, 9, 10, 11, 12, 13, 14, 15, 16, 17, 18, 19, 21, 24, 25] : List Nat).getD 0 0) (([3, 4, 5, 6, 7, 8, 9, 10, 11, 12, 13, 14, 15, 16, 17, 18, 19, 21, 24, 25] : List Nat).getD 12 0)
      (by decide) (by decide)).trans (by decide))
    c25_21_2))
  (tryRange_skipAll 21 [3, 4, 5, 6, 7, 8, 9, 10, 11, 12, 13, 14, 15, 16, 17, 18, 19, 21, 24, 25] (s25.take 21) 52093862775067432915339799377759154892496328802647501818771932469147856570011558160871667272364668911938580774474874771940681287643593798467159725885588215139679322796813744120006196207041324276107108558336047705569450861628324755219152896 bridge25_21
    (by decide) 13 6 1 (by decide)))
  (tryRange_hit 21 [3, 4, 5, 6, 7, 8, 9, 10, 11, 12, 13, 14, 15, 16, 17, 18, 19, 21, 24, 25] (s25.take 21) 19 0 [(4, 24), (5, 14), (6, 10), (7, 8), (9, 16), (11, 17), (12, 21), (13, 19), (15, 18)]
    ((bridge25_21 (([3, 4, 5, 6, 7, 8, 9, 10, 11, 12, 13, 14, 15, 16, 17, 18, 19, 21, 24, 25] : List Nat).getD 0 0) (([3, 4, 5, 6, 7, 8, 9, 10, 11, 12, 13, 14, 15, 16, 17, 18, 19, 21, 24, 25] : List Nat).getD 19 0)
      (by decide) (by decide)).trans (by decide))
    n25_21_d3)))

theorem n25_21_d1 : fvpF 23 [2, 3, 4, 5, 6, 7, 8, 9, 10, 11, 12, 13, 14, 15, 16, 17, 18, 19, 20, 21, 24, 25] (s25.take 21) = some [(2, 20), (3, 25), (4, 24), (5, 14), (6, 10), (7, 8), (9, 16), (11, 17), (12, 21), (13, 19), (15, 18)] :=
  (Eq.trans (fvpF_succ 22 [2, 3, 4, 5, 6, 7, 8, 9, 10, 11, 12, 13, 14, 15, 16, 17, 18, 19, 20, 21, 24, 25] (s25.take 21) (by decide))
  (Eq.trans (tryRange_skipAll 22 [2, 3, 4, 5, 6, 7, 8, 9, 10, 11, 12, 13, 14, 15, 16, 17, 18, 19, 20, 21, 24, 25] (s25.take 21) 52093862775067432915339799377759154892496328802647501818771932469147856570011558160871667272364668911938580774474874771940681287643593798467159725885588215139679322796813744120006196207041324276107108558336047705569450861628324755219152896 bridge25_21
    (by decide) 1 17 4 (by decide))
  (tryRange_hit 22 [2, 3, 4, 5, 6, 7, 8, 9, 10, 11, 12, 13, 14, 15, 16, 17, 18, 19, 20, 21, 24, 25] (s25.take 21) 18 3 [(3, 25), (4, 24), (5, 14), (6, 10), (7, 8), (9, 16), (11, 17), (12, 21), (13, 19), (15, 18)]
    ((bridge25_21 (([2, 3, 4, 5, 6, 7, 8, 9, 10, 11, 12, 13, 14, 15, 16, 17, 18, 19, 20, 21, 24, 25] : List Nat).getD 0 0) (([2, 3, 4, 5, 6, 7, 8, 9, 10, 11, 12, 13, 14, 15, 16, 17, 18, 19, 20, 21, 24, 25] : List Nat).getD 18 0)
      (by decide) (by decide)).trans (by decide))
    n25_21_d2)))

theorem n25_21_d0 : fvpF 24 [1, 2, 3, 4, 5, 6, 7, 8, 9, 10, 11, 12, 13, 14, 15, 16, 17, 18, 19, 20, 21, 23, 24, 25] (s25.take 21) = some [(1, 23), (2, 20), (3, 25), (4, 24), (5, 14), (6, 10), (7, 8), (9, 16), (11, 17), (12, 21), (13, 19), (15, 18)] :=
  (Eq.trans (fvpF_succ 23 [1, 2, 3, 4, 5, 6, 7, 8, 9, 10, 11, 12, 13, 14, 15, 16, 17, 18, 19, 20, 21, 23, 24, 25] (s25.take 21) (by decide))
  (Eq.trans (tryRange_skipAll 23 [1, 2, 3, 4, 5, 6, 7, 8, 9, 10, 11, 12, 13, 14, 15, 16, 17, 18, 19, 20, 21, 23, 24, 25] (s25.take 21) 52093862775067432915339799377759154892496328802647501818771932469147856570011558160871667272364668911938580774474874771940681287643593798467159725885588215139679322796813744120006196207041324276107108558336047705569450861628324755219152896 bridge25_21
    (by decide) 1 20 3 (by decide))
  (tryRange_hit 23 [1, 2, 3, 4, 5, 6, 7, 8, 9, 10, 11, 12, 13, 14, 15, 16, 17, 18, 19, 20, 21, 23, 24, 25] (s25.take 21) 21 2 [(2, 20), (3, 25), (4, 24), (5, 14), (6, 10), (7, 8), (9, 16), (11, 17), (12, 21), (13, 19), (15, 18)]
    ((bridge25_21 (([1, 2, 3, 4, 5, 6, 7, 8, 9, 10, 11, 12, 13, 14, 15, 16, 17, 18, 19, 20, 21, 23, 24, 25] : List Nat).getD 0 0) (([1, 2, 3, 4, 5, 6, 7, 8, 9, 10, 11, 12, 13, 14, 15, 16, 17, 18, 19, 20, 21, 23, 24, 25] : List Nat).getD 21 0)
      (by decide) (by decide)).trans (by decide))
    n25_21_d1)))

theorem fvp25_21 : findValidPairs [1, 2, 3, 4, 5, 6, 7, 8, 9, 10, 11, 12, 13, 14, 15, 16, 17, 18, 19, 20, 21, 23, 24, 25] (s25.take 21) = some [(1, 23), (2, 20), (3, 25), (4, 24), (5, 14), (6, 10), (7, 8), (9, 16), (11, 17), (12, 21), (13, 19), (15, 18)] := n25_21_d0

theorem n25_22_d11 : fvpF 13 [14, 19] (s25.take 22) = some [(14, 19)] :=
  (Eq.trans (fvpF_succ 12 [14, 19] (s25.take 22) (by decide))
  (tryRange_hit 12 [14, 19] (s25.take 22) 1 0 []
    ((bridge25_22 (([14, 19] : List Nat).getD 0 0) (([14, 19] : List Nat).getD 1 0)
      (by decide) (by decide)).trans (by decide))
    (fvpF_nil 12 (s25.take 22))))

theorem n25_22_d10 : fvpF 14 [13, 14, 17, 19] (s25.take 22) = some [(13, 17), (14, 19)] :=
  (Eq.trans (fvpF_succ 13 [13, 14, 17, 19] (s25.take 22) (by decide))
  (Eq.trans (tryRange_skipAll 13 [13, 14, 17, 19] (s25.take 22) 52093862775067432915339799377759154892496328802647501818771932469147856570011558160871668090712320885974048366497729273338540948296887873181651723482803270927336535352602952988473579458769341504522829959045334781400733232287147017984016384 bridge25_22
    (by decide) 1 1 2 (by decide))
  (tryRange_hit 13 [13, 14, 17, 19] (s25.take 22) 2 1 [(14, 19)]
    ((bridge25_22 (([13, 14, 17, 19] : List Nat).getD 0 0) (([13, 14, 17, 19] : List Nat).getD 2 0)
      (by decide) (by decide)).trans (by decide))
    n25_22_d11)))

theorem n25_22_d9 : fvpF 15 [12, 13, 14, 16, 17, 19] (s25.take 22) = some [(12, 16), (13, 17), (14, 19)] :=
  (Eq.trans (fvpF_succ 14 [12, 13, 14, 16, 17, 19] (s25.take 22) (by decide))
  (Eq.trans (tryRange_skipAll 14 [12, 13, 14, 16, 17, 19] (s25.take 22) 52093862775067432915339799377759154892496328802647501818771932469147856570011558160871668090712320885974048366497729273338540948296887873181651723482803270927336535352602952988473579458769341504522829959045334781400733232287147017984016384 bridge25_22
    (by decide) 1 2 3 (by decide))
  (tryRange_hit 14 [12, 13, 14, 16, 17, 19] (s25.take 22) 3 2 [(13, 17), (14, 19)]
    ((bridge25_22 (([12, 13, 14, 16, 17, 19] : List Nat).getD 0 0) (([12, 13, 14, 16, 17, 19] : List Nat).getD 3 0)
      (by decide) (by decide)).trans (by decide))
    n25_22_d10)))

theorem c25_22_0 : fvpF 15 [12, 13, 14, 16, 19, 21] (s25.take 22) = none :=
  fvpF_none_of_cert 15 [12, 13, 14, 16, 19, 21] (s25.take 22) 52093862775067432915339799377759154892496328802647501818771932469147856570011558160871668090712320885974048366497729273338540948296887873181651723482803270927336535352602952988473579458769341504522829959045334781400733232287147017984016384 bridge25_22
    [] [[12, 13, 14, 16, 19]]
    (by decide) (by decide) (by decide) (by decide) (by decide) (by decide)
    (by decide) (by decide)

theorem n25_22_d8 : fvpF 16 [10, 12, 13, 14, 16, 17, 19, 21] (s25.take 22) = some [(10, 21), (12, 16), (13, 17), (14, 19)] :=
  (Eq.trans (fvpF_succ 15 [10, 12, 13, 14, 16, 17, 19, 21] (s25.take 22) (by decide))
  (Eq.trans (Eq.trans (Eq.trans (tryRange_skipAll 15 [10, 12, 13, 14, 16, 17, 19, 21] (s25.take 22) 52093862775067432915339799377759154892496328802647501818771932469147856570011558160871668090712320885974048366497729273338540948296887873181651723482803270927336535352602952988473579458769341504522829959045334781400733232287147017984016384 bridge25_22
    (by decide) 1 4 3 (by decide))
  (tryRange_fail 15 [10, 12, 13, 14, 16, 17, 19, 21] (s25.take 22) 5 2
    ((bridge25_22 (([10, 12, 13, 14, 16, 17, 19, 21] : List Nat).getD 0 0) (([10, 12, 13, 14, 16, 17, 19, 21] : List Nat).getD 5 0)
      (by decide) (by decide)).trans (by decide))
    c25_22_0))
  (tryRange_skipAll 15 [10, 12, 13, 14, 16, 17, 19, 21] (s25.take 22) 52093862775067432915339799377759154892496328802647501818771932469147856570011558160871668090712320885974048366497729273338540948296887873181651723482803270927336535352602952988473579458769341504522829959045334781400733232287147017984016384 bridge25_22
    (by decide) 6 1 1 (by decide)))
  (tryRange_hit 15 [10, 12, 13, 14, 16, 17, 19, 21] (s25.take 22) 7 0 [(12, 16), (13, 17), (14, 19)]
    ((bridge25_22 (([10, 12, 13, 14, 16, 17, 19, 21] : List Nat).getD 0 0) (([10, 12, 13, 14, 16, 17, 19, 21] : List Nat).getD 7 0)
      (by decide) (by decide)).trans (by decide))
    n25_22_d9)))

theorem n25_22_d7 : fvpF 17 [8, 10, 12, 13, 14, 16, 17, 18, 19, 21] (s25.take 22) = some [(8, 18), (10, 21), (12, 16), (13, 17), (14, 19)] :=
  (Eq.trans (fvpF_succ 16 [8, 10, 12, 13, 14, 16, 17, 18, 19, 21] (s25.take 22) (by decide))
  (Eq.trans (tryRange_skipAll 16 [8, 10, 12, 13, 14, 16, 17, 18, 19, 21] (s25.take 22) 52093862775067432915339799377759154892496328802647501818771932469147856570011558160871668090712320885974048366497729273338540948296887873181651723482803270927336535352602952988473579458769341504522829959045334781400733232287147017984016384 bridge25_22
    (by decide) 1 6 3 (by decide))
  (tryRange_hit 16 [8, 10, 12, 13, 14, 16, 17, 18, 19, 21] (s25.take 22) 7 2 [(10, 21), (12, 16), (13, 17), (14, 19)]
    ((bridge25_22 (([8, 10, 12, 13, 14, 16, 17, 18, 19, 21] : List Nat).getD 0 0) (([8, 10, 12, 13, 14, 16, 17, 18, 19, 21] : List Nat).getD 7 0)
      (by decide) (by decide)).trans (by decide))
    n25_22_d8)))

theorem n25_22_d6 : fvpF 18 [7, 8, 9, 10, 12, 13, 14, 16, 17, 18, 19, 21] (s25.take 22) = some [(7, 9), (8, 18), (10, 21), (12, 16), (13, 17), (14, 19)] :=
  (Eq.trans (fvpF_succ 17 [7, 8, 9, 10, 12, 13, 14, 16, 17, 18, 19, 21] (s25.take 22) (by decide))
  (Eq.trans (tryRange_skipAll 17 [7, 8, 9, 10, 12, 13, 14, 16, 17, 18, 19, 21] (s25.take 22) 52093862775067432915339799377759154892496328802647501818771932469147856570011558160871668090712320885974048366497729273338540948296887873181651723482803270927336535352602952988473579458769341504522829959045334781400733232287147017984016384 bridge25_22
    (by decide) 1 1 10 (by decide))
  (tryRange_hit 17 [7, 8, 9, 10, 12, 13, 14, 16, 17, 18, 19, 21] (s25.take 22) 2 9 [(8, 18), (10, 21), (12, 16), (13, 17), (14, 19)]
    ((bridge25_22 (([7, 8, 9, 10, 12, 13, 14, 16, 17, 18, 19, 21] : List Nat).getD 0 0) (([7, 8, 9, 10, 12, 13, 14, 16, 17, 18, 19, 21] : List Nat).getD 2 0)
      (by decide) (by decide)).trans (by decide))
    n25_22_d7)))

theorem n25_22_d5 : fvpF 19 [6, 7, 8, 9, 10, 11, 12, 13, 14, 16, 17, 18, 19, 21] (s25.take 22) = some [(6, 11), (7, 9), (8, 18), (10, 21), (12, 16), (13, 17), (14, 19)] :=
  (Eq.trans (fvpF_succ 18 [6, 7, 8, 9, 10, 11, 12, 13, 14, 16, 17, 18, 19, 21] (s25.take 22) (by decide))
  (Eq.trans (tryRange_skipAll 18 [6, 7, 8, 9, 10, 11, 12, 13, 14, 16, 17, 18, 19, 21] (s25.take 22) 52093862775067432915339799377759154892496328802647501818771932469147856570011558160871668090712320885974048366497729273338540948296887873181651723482803270927336535352602952988473579458769341504522829959045334781400733232287147017984016384 bridge25_22
    (by decide) 1 4 9 (by decide))
  (tryRange_hit 18 [6, 7, 8, 9, 10, 11, 12, 13, 14, 16, 17, 18, 19, 21] (s25.take 22) 5 8 [(7, 9), (8, 18), (10, 21), (12, 16), (13, 17), (14, 19)]
    ((bridge25_22 (([6, 7, 8, 9, 10, 11, 12, 13, 14, 16, 17, 18, 19, 21] : List Nat).getD 0 0) (([6, 7, 8, 9, 10, 11, 12, 13, 14, 16, 17, 18, 19, 21] : List Nat).getD 5 0)
      (by decide) (by decide)).trans (by decide))
    n25_22_d6)))

theorem n25_22_d4 : fvpF 20 [5, 6, 7, 8, 9, 10, 11, 12, 13, 14, 16, 17, 18, 19, 20, 21] (s25.take 22) = some [(5, 20), (6, 11), (7, 9), (8, 18), (10, 21), (12, 16), (13, 17), (14, 19)] :=
  (Eq.trans (fvpF_succ 19 [5, 6, 7, 8, 9, 10, 11, 12, 13, 14, 16, 17, 18, 19, 20, 21] (s25.take 22) (by decide))
  (Eq.trans (tryRange_skipAll 19 [5, 6, 7, 8, 9, 10, 11, 12, 13, 14, 16, 17, 18, 19, 20, 21] (s25.take 22) 52093862775067432915339799377759154892496328802647501818771932469147856570011558160871668090712320885974048366497729273338540948296887873181651723482803270927336535352602952988473579458769341504522829959045334781400733232287147017984016384 bridge25_22
    (by decide) 1 13 2 (by decide))
  (tryRange_hit 19 [5, 6, 7, 8, 9, 10, 11, 12, 13, 14, 16, 17, 18, 19, 20, 21] (s25.take 22) 14 1 [(6, 11), (7, 9), (8, 18), (10, 21), (12, 16), (13, 17), (14, 19)]
    ((bridge25_22 (([5, 6, 7, 8, 9, 10, 11, 12, 13, 14, 16, 17, 18, 19, 20, 21] : List Nat).getD 0 0) (([5, 6, 7, 8, 9, 10, 11, 12, 13, 14, 16, 17, 18, 19, 20, 21] : List Nat).getD 14 0)
      (by decide) (by decide)).trans (by decide))
    n25_22_d5)))

theorem c25_22_1 : fvpF 20 [5, 6, 7, 8, 9, 10, 11, 12, 13, 16, 17, 18, 19, 20, 21, 22] (s25.take 22) = none :=
  fvpF_none_of_cert 20 [5, 6, 7, 8, 9, 10, 11, 12, 13, 16, 17, 18, 19, 20, 21, 22] (s25.take 22) 52093862775067432915339799377759154892496328802647501818771932469147856570011558160871668090712320885974048366497729273338540948296887873181651723482803270927336535352602952988473579458769341504522829959045334781400733232287147017984016384 bridge25_22
    [] [[5, 6, 7, 8, 9, 10, 11, 12, 13, 16, 17, 18, 19, 20, 21]]
    (by decide) (by decide) (by decide) (by decide) (by decide) (by decide)
    (by decide) (by decide)

theorem n25_22_d3 : fvpF 21 [4, 5, 6, 7, 8, 9, 10, 11, 12, 13, 14, 16, 17, 18, 19, 20, 21, 22] (s25.take 22) = some [(4, 22), (5, 20), (6, 11), (7, 9), (8, 18), (10, 21), (12, 16), (13, 17), (14, 19)] :=
  (Eq.trans (fvpF_succ 20 [4, 5, 6, 7, 8, 9, 10, 11, 12, 13, 14, 16, 17, 18, 19, 20, 21, 22] (s25.take 22) (by decide))
  (Eq.trans (Eq.trans (Eq.trans (tryRange_skipAll 20 [4, 5, 6, 7, 8, 9, 10, 11, 12, 13, 14, 16, 17, 18, 19, 20, 21, 22] (s25.take 22) 52093862775067432915339799377759154892496328802647501818771932469147856570011558160871668090712320885974048366497729273338540948296887873181651723482803270927336535352602952988473579458769341504522829959045334781400733232287147017984016384 bridge25_22
    (by decide) 1 9 8 (by decide))
  (tryRange_fail 20 [4, 5, 6, 7, 8, 9, 10, 11, 12, 13, 14, 16, 17, 18, 19, 20, 21, 22] (s25.take 22) 10 7
    ((bridge25_22 (([4, 5, 6, 7, 8, 9, 10, 11, 12, 13, 14, 16, 17, 18, 19, 20, 21, 22] : List Nat).getD 0 0) (([4, 5, 6, 7, 8, 9, 10, 11, 12, 13, 14, 16, 17, 18, 19, 20, 21, 22] : List Nat).getD 10 0)
      (by decide) (by decide)).trans (by decide))
    c25_22_1))
  (tryRange_skipAll 20 [4, 5, 6, 7, 8, 9, 10, 11, 12, 13, 14, 16, 17, 18, 19, 20, 21, 22] (s25.take 22) 52093862775067432915339799377759154892496328802647501818771932469147856570011558160871668090712320885974048366497729273338540948296887873181651723482803270927336535352602952988473579458769341504522829959045334781400733232287147017984016384 bridge25_22
    (by decide) 11 6 1 (by decide)))
  (tryRange_hit 20 [4, 5, 6, 7, 8, 9, 10, 11, 12, 13, 14, 16, 17, 18, 19, 20, 21, 22] (s25.take 22) 17 0 [(5, 20), (6, 11), (7, 9), (8, 18), (10, 21), (12, 16), (13, 17), (14, 19)]
    ((bridge25_22 (([4, 5, 6, 7, 8, 9, 10, 11, 12, 13, 14, 16, 17, 18, 19, 20, 21, 22] : List Nat).getD 0 0) (([4, 5, 6, 7, 8, 9, 10, 11, 12, 13, 14, 16, 17, 18, 19, 20, 21, 22] : List Nat).getD 17 0)
      (by decide) (by decide)).trans (by decide))
    n25_22_d4)))

theorem n25_22_d2 : fvpF 22 [3, 4, 5, 6, 7, 8, 9, 10, 11, 12, 13, 14, 15, 16, 17, 18, 19, 20, 21, 22] (s25.take 22) = some [(3, 15), (4, 22), (5, 20), (6, 11), (7, 9), (8, 18), (10, 21), (12, 16), (13, 17), (14, 19)] :=
  (Eq.trans (fvpF_succ 21 [3, 4, 5, 6, 7, 8, 9, 10, 11, 12, 13, 14, 15, 16, 17, 18, 19, 20, 21, 22] (s25.take 22) (by decide))
  (Eq.trans (tryRange_skipAll 21 [3, 4, 5, 6, 7, 8, 9, 10, 11, 12, 13, 14, 15, 16, 17, 18, 19, 20, 21, 22] (s25.take 22) 52093862775067432915339799377759154892496328802647501818771932469147856570011558160871668090712320885974048366497729273338540948296887873181651723482803270927336535352602952988473579458769341504522829959045334781400733232287147017984016384 bridge25_22
    (by decide) 1 11 8 (by decide))
  (tryRange_hit 21 [3, 4, 5, 6, 7, 8, 9, 10, 11, 12, 13, 14, 15, 16, 17, 18, 19, 20, 21, 22] (s25.take 22) 12 7 [(4, 22), (5, 20), (6, 11), (7, 9), (8, 18), (10, 21), (12, 16), (13, 17), (14, 19)]
    ((bridge25_22 (([3, 4, 5, 6, 7, 8, 9, 10, 11, 12, 13, 14, 15, 16, 17, 18, 19, 20, 21, 22] : List Nat).getD 0 0) (([3, 4, 5, 6, 7, 8, 9, 10, 11, 12, 13, 14, 15, 16, 17, 18, 19, 20, 21, 22] : List Nat).getD 12 0)
      (by decide) (by decide)).trans (by decide))
    n25_22_d3)))

theorem c25_22_2 : fvpF 22 [3, 4, 5, 6, 7, 8, 9, 10, 11, 12, 13, 14, 15, 16, 17, 18, 19, 20, 22, 25] (s25.take 22) = none :=
  fvpF_none_of_cert 22 [3, 4, 5, 6, 7, 8, 9, 10, 11, 12, 13, 14, 15, 16, 17, 18, 19, 20, 22, 25] (s25.take 22) 52093862775067432915339799377759154892496328802647501818771932469147856570011558160871668090712320885974048366497729273338540948296887873181651723482803270927336535352602952988473579458769341504522829959045334781400733232287147017984016384 bridge25_22
    [] [[3, 4, 5, 6, 7, 8, 9, 10, 11, 12, 13, 14, 15, 16, 17, 18, 19, 20, 22]]
    (by decide) (by decide) (by decide) (by decide) (by decide) (by decide)
    (by decide) (by decide)

theorem n25_22_d1 : fvpF 23 [2, 3, 4, 5, 6, 7, 8, 9, 10, 11, 12, 13, 14, 15, 16, 17, 18, 19, 20, 21, 22, 25] (s25.take 22) = some [(2, 25), (3, 15), (4, 22), (5, 20), (6, 11), (7, 9), (8, 18), (10, 21), (12, 16), (13, 17), (14, 19)] :=
  (Eq.trans (fvpF_succ 22 [2, 3, 4, 5, 6, 7, 8, 9, 10, 11, 12, 13, 14, 15, 16, 17, 18, 19, 20, 21, 22, 25] (s25.take 22) (by decide))
  (Eq.trans (Eq.trans (Eq.trans (tryRange_skipAll 22 [2, 3, 4, 5, 6, 7, 8, 9, 10, 11, 12, 13, 14, 15, 16, 17, 18, 19, 20, 21, 22, 25] (s25.take 22) 52093862775067432915339799377759154892496328802647501818771932469147856570011558160871668090712320885974048366497729273338540948296887873181651723482803270927336535352602952988473579458769341504522829959045334781400733232287147017984016384 bridge25_22
    (by decide) 1 18 3 (by decide))
  (tryRange_fail 22 [2, 3, 4, 5, 6, 7, 8, 9, 10, 11, 12, 13, 14, 15, 16, 17, 18, 19, 20, 21, 22, 25] (s25.take 22) 19 2
    ((bridge25_22 (([2, 3, 4, 5, 6, 7, 8, 9, 10, 11, 12, 13, 14, 15, 16, 17, 18, 19, 20, 21, 22, 25] : List Nat).getD 0 0) (([2, 3, 4, 5, 6, 7, 8, 9, 10, 11, 12, 13, 14, 15, 16, 17, 18, 19, 20, 21, 22, 25] : List Nat).getD 19 0)
      (by decide) (by decide)).trans (by decide))
    c25_22_2))
  (tryRange_skipAll 22 [2, 3, 4, 5, 6, 7, 8, 9, 10, 11, 12, 13, 14, 15, 16, 17, 18, 19, 20, 21, 22, 25] (s25.take 22) 52093862775067432915339799377759154892496328802647501818771932469147856570011558160871668090712320885974048366497729273338540948296887873181651723482803270927336535352602952988473579458769341504522829959045334781400733232287147017984016384 bridge25_22
    (by decide) 20 1 1 (by decide)))
  (tryRange_hit 22 [2, 3, 4, 5, 6, 7, 8, 9, 10, 11, 12, 13, 14, 15, 16, 17, 18, 19, 20, 21, 22, 25] (s25.take 22) 21 0 [(3, 15), (4, 22), (5, 20), (6, 11), (7, 9), (8, 18), (10, 21), (12, 16), (13, 17), (14, 19)]
    ((bridge25_22 (([2, 3, 4, 5, 6, 7, 8, 9, 10, 11, 12, 13, 14, 15, 16, 17, 18, 19, 20, 21, 22, 25] : List Nat).getD 0 0) (([2, 3, 4, 5, 6, 7, 8, 9, 10, 11, 12, 13, 14, 15, 16, 17, 18, 19, 20, 21, 22, 25] : List Nat).getD 21 0)
      (by decide) (by decide)).trans (by decide))
    n25_22_d2)))

theorem c25_22_3 : fvpF 23 [2, 3, 4, 5, 6, 7, 8, 9, 10, 11, 12, 13, 14, 15, 16, 17, 18, 19, 20, 21, 24, 25] (s25.take 22) = none :=
  fvpF_none_of_cert 23 [2, 3, 4, 5, 6, 7, 8, 9, 10, 11, 12, 13, 14, 15, 16, 17, 18, 19, 20, 21, 24, 25] (s25.take 22) 52093862775067432915339799377759154892496328802647501818771932469147856570011558160871668090712320885974048366497729273338540948296887873181651723482803270927336535352602952988473579458769341504522829959045334781400733232287147017984016384 bridge25_22
    [2, 14, 15] [[3], [4], [5, 6, 7, 8, 9, 10, 11, 12, 13, 16, 17, 18, 19, 20, 21], [24]]
    (by decide) (by decide) (by decide) (by decide) (by decide) (by decide)
    (by decide) (by decide)

theorem n25_22_d0 : fvpF 24 [1, 2, 3, 4, 5, 6, 7, 8, 9, 10, 11, 12, 13, 14, 15, 16, 17, 18, 19, 20, 21, 22, 24, 25] (s25.take 22) = some [(1, 24), (2, 25), (3, 15), (4, 22), (5, 20), (6, 11), (7, 9), (8, 18), (10, 21), (12, 16), (13, 17), (14, 19)] :=
  (Eq.trans (fvpF_succ 23 [1, 2, 3, 4, 5, 6, 7, 8, 9, 10, 11, 12, 13, 14, 15, 16, 17, 18, 19, 20, 21, 22, 24, 25] (s25.take 22) (by decide))
  (Eq.trans (Eq.trans (tryRange_skipAll 23 [1, 2, 3, 4, 5, 6, 7, 8, 9, 10, 11, 12, 13, 14, 15, 16, 17, 18, 19, 20, 21, 22, 24, 25] (s25.take 22) 52093862775067432915339799377759154892496328802647501818771932469147856570011558160871668090712320885974048366497729273338540948296887873181651723482803270927336535352602952988473579458769341504522829959045334781400733232287147017984016384 bridge25_22
    (by decide) 1 20 3 (by decide))
  (tryRange_fail 23 [1, 2, 3, 4, 5, 6, 7, 8, 9, 10, 11, 12, 13, 14, 15, 16, 17, 18, 19, 20, 21, 22, 24, 25] (s25.take 22) 21 2
    ((bridge25_22 (([1, 2, 3, 4, 5, 6, 7, 8, 9, 10, 11, 12, 13, 14, 15, 16, 17, 18, 19, 20, 21, 22, 24, 25] : List Nat).getD 0 0) (([1, 2, 3, 4, 5, 6, 7, 8, 9, 10, 11, 12, 13, 14, 15, 16, 17, 18, 19, 20, 21, 22, 24, 25] : List Nat).getD 21 0)
      (by decide) (by decide)).trans (by decide))
    c25_22_3))
  (tryRange_hit 23 [1, 2, 3, 4, 5, 6, 7, 8, 9, 10, 11, 12, 13, 14, 15, 16, 17, 18, 19, 20, 21, 22, 24, 25] (s25.take 22) 22 1 [(2, 25), (3, 15), (4, 22), (5, 20), (6, 11), (7, 9), (8, 18), (10, 21), (12, 16), (13, 17), (14, 19)]
    ((bridge25_22 (([1, 2, 3, 4, 5, 6, 7, 8, 9, 10, 11, 12, 13, 14, 15, 16, 17, 18, 19, 20, 21, 22, 24, 25] : List Nat).getD 0 0) (([1, 2, 3, 4, 5, 6, 7, 8, 9, 10, 11, 12, 13, 14, 15, 16, 17, 18, 19, 20, 21, 22, 24, 25] : List Nat).getD 22 0)
      (by decide) (by decide)).trans (by decide))
    n25_22_d1)))

theorem fvp25_22 : findValidPairs [1, 2, 3, 4, 5, 6, 7, 8, 9, 10, 11, 12, 13, 14, 15, 16, 17, 18, 19, 20, 21, 22, 24, 25] (s25.take 22) = some [(1, 24), (2, 25), (3, 15), (4, 22), (5, 20), (6, 11), (7, 9), (8, 18), (10, 21), (12, 16), (13, 17), (14, 19)] := n25_22_d0

theorem c25_23_0 : fvpF 24 [1, 2, 3, 4, 5, 6, 7, 8, 9, 10, 11, 12, 13, 14, 15, 16, 17, 18, 19, 20, 21, 22, 23, 25] (s25.take 23) = none :=
  fvpF_none_of_cert 24 [1, 2, 3, 4, 5, 6, 7, 8, 9, 10, 11, 12, 13, 14, 15, 16, 17, 18, 19, 20, 21, 22, 23, 25] (s25.take 23) 52093862775067432915339799377759154892496328802647501818771932469147856570011558160871668090712321267046869472174232261211190292997231247663651719365531358270747240142603573602387846683353534151319369229352197702652959423991312914539610112 bridge25_23
    [] [[1, 2, 3, 4, 5, 6, 8, 9, 10, 12, 13, 14, 15, 16, 17, 19, 20, 21, 22, 23, 25]]
    (by decide) (by decide) (by decide) (by decide) (by decide) (by decide)
    (by decide) (by decide)

theorem fvp25_23 : findValidPairs [1, 2, 3, 4, 5, 6, 7, 8, 9, 10, 11, 12, 13, 14, 15, 16, 17, 18, 19, 20, 21, 22, 23, 25] (s25.take 23) = none := c25_23_0

theorem c25_24_0 : fvpF 24 [1, 2, 3, 4, 5, 6, 7, 8, 9, 10, 11, 12, 13, 14, 15, 16, 17, 18, 19, 20, 21, 22, 23, 24] (s25.take 24) = none :=
  fvpF_none_of_cert 24 [1, 2, 3, 4, 5, 6, 7, 8, 9, 10, 11, 12, 13, 14, 15, 16, 17, 18, 19, 20, 21, 22, 23, 24] (s25.take 24) 52093862775067432915339799377759154892496328802647501818771932469147856570011558160871668090712321267046869472174232261211190292997231247663651719365531358270747240142603573602387846683353534151319369229352197702652959423991312914539610112 bridge25_24
    [] [[1, 2, 3, 4, 5, 6, 8, 9, 10, 12, 13, 14, 15, 16, 17, 19, 20, 21, 22, 23, 24]]
    (by decide) (by decide) (by decide) (by decide) (by decide) (by decide)
    (by decide) (by decide)

theorem fvp25_24 : findValidPairs [1, 2, 3, 4, 5, 6, 7, 8, 9, 10, 11, 12, 13, 14, 15, 16, 17, 18, 19, 20, 21, 22, 23, 24] (s25.take 24) = none := c25_24_0

theorem loop25_25 : fairByeLoop emps25 0 25 [25, 24, 23, 22, 21, 20, 19, 18, 17, 16, 15, 14, 13, 12, 11, 10, 9, 8, 7, 6, 5, 4, 3, 2, 1] (s25.take 25) = s25 :=
  Eq.trans (fairByeLoop_zero emps25 25 [25, 24, 23, 22, 21, 20, 19, 18, 17, 16, 15, 14, 13, 12, 11, 10, 9, 8, 7, 6, 5, 4, 3, 2, 1] (s25.take 25)) (by rfl)

theorem loop25_24 :
    fairByeLoop emps25 1 24 [24, 23, 22, 21, 20, 19, 18, 17, 16, 15, 14, 13, 12, 11, 10, 9, 8, 7, 6, 5, 4, 3, 2, 1] (s25.take 24) = s25 :=
  Eq.trans
    (fairByeLoop_step_eq emps25 0 24 [24, 23, 22, 21, 20, 19, 18, 17, 16, 15, 14, 13, 12, 11, 10, 9, 8, 7, 6, 5, 4, 3, 2, 1] [24, 23, 22, 21, 20, 19, 18, 17, 16, 15, 14, 13, 12, 11, 10, 9, 8, 7, 6, 5, 4, 3, 2, 1]
      25 (s25.take 24) [1, 2, 3, 4, 5, 6, 7, 8, 9, 10, 11, 12, 13, 14, 15, 16, 17, 18, 19, 20, 21, 22, 23, 24] [(1, 2), (3, 4), (5, 6), (7, 8), (9, 10), (11, 12), (13, 14), (15, 16), (17, 18), (19, 20), (21, 22), (23, 24)] (s25.take 25)
      rfl rfl (by rw [fvp25_24]; rfl) rfl)
    loop25_25

theorem loop25_23 :
    fairByeLoop emps25 2 23 [23, 22, 21, 20, 19, 18, 17, 16, 15, 14, 13, 12, 11, 10, 9, 8, 7, 6, 5, 4, 3, 2, 1] (s25.take 23) = s25 :=
  Eq.trans
    (fairByeLoop_step_eq emps25 1 23 [23, 22, 21, 20, 19, 18, 17, 16, 15, 14, 13, 12, 11, 10, 9, 8, 7, 6, 5, 4, 3, 2, 1] [23, 22, 21, 20, 19, 18, 17, 16, 15, 14, 13, 12, 11, 10, 9, 8, 7, 6, 5, 4, 3, 2, 1]
      24 (s25.take 23) [1, 2, 3, 4, 5, 6, 7, 8, 9, 10, 11, 12, 13, 14, 15, 16, 17, 18, 19, 20, 21, 22, 23, 25] [(1, 2), (3, 4), (5, 6), (7, 8), (9, 10), (11, 12), (13, 14), (15, 16), (17, 18), (19, 20), (21, 22), (23, 25)] (s25.take 24)
      rfl rfl (by rw [fvp25_23]; rfl) rfl)
    loop25_24

theorem loop25_22 :
    fairByeLoop emps25 3 22 [22, 21, 20, 19, 18, 17, 16, 15, 14, 13, 12, 11, 10, 9, 8, 7, 6, 5, 4, 3, 2, 1] (s25.take 22) = s25 :=
  Eq.trans
    (fairByeLoop_step_eq emps25 2 22 [22, 21, 20, 19, 18, 17, 16, 15, 14, 13, 12, 11, 10, 9, 8, 7, 6, 5, 4, 3, 2, 1] [22, 21, 20, 19, 18, 17, 16, 15, 14, 13, 12, 11, 10, 9, 8, 7, 6, 5, 4, 3, 2, 1]
      23 (s25.take 22) [1, 2, 3, 4, 5, 6, 7, 8, 9, 10, 11, 12, 13, 14, 15, 16, 17, 18, 19, 20, 21, 22, 24, 25] [(1, 24), (2, 25), (3, 15), (4, 22), (5, 20), (6, 11), (7, 9), (8, 18), (10, 21), (12, 16), (13, 17), (14, 19)] (s25.take 23)
      rfl rfl (by rw [fvp25_22]) rfl)
    loop25_23

theorem loop25_21 :
    fairByeLoop emps25 4 21 [21, 20, 19, 18, 17, 16, 15, 14, 13, 12, 11, 10, 9, 8, 7, 6, 5, 4, 3, 2, 1] (s25.take 21) = s25 :=
  Eq.trans
    (fairByeLoop_step_eq emps25 3 21 [21, 20, 19, 18, 17, 16, 15, 14, 13, 12, 11, 10, 9, 8, 7, 6, 5, 4, 3, 2, 1] [21, 20, 19, 18, 17, 16, 15, 14, 13, 12, 11, 10, 9, 8, 7, 6, 5, 4, 3, 2, 1]
      22 (s25.take 21) [1, 2, 3, 4, 5, 6, 7, 8, 9, 10, 11, 12, 13, 14, 15, 16, 17, 18, 19, 20, 21, 23, 24, 25] [(1, 23), (2, 20), (3, 25), (4, 24), (5, 14), (6, 10), (7, 8), (9, 16), (11, 17), (12, 21), (13, 19), (15, 18)] (s25.take 22)
      rfl rfl (by rw [fvp25_21]) rfl)
    loop25_22

theorem loop25_20 :
    fairByeLoop emps25 5 20 [20, 19, 18, 17, 16, 15, 14, 13, 12, 11, 10, 9, 8, 7, 6, 5, 4, 3, 2, 1] (s25.take 20) = s25 :=
  Eq.trans
    (fairByeLoop_step_eq emps25 4 20 [20, 19, 18, 17, 16, 15, 14, 13, 12, 11, 10, 9, 8, 7, 6, 5, 4, 3, 2, 1] [20, 19, 18, 17, 16, 15, 14, 13, 12, 11, 10, 9, 8, 7, 6, 5, 4, 3, 2, 1]
      21 (s25.take 20) [1, 2, 3, 4, 5, 6, 7, 8, 9, 10, 11, 12, 13, 14, 15, 16, 17, 18, 19, 20, 22, 23, 24, 25] [(1, 20), (2, 23), (3, 24), (4, 25), (5, 9), (6, 8), (7, 13), (10, 16), (11, 22), (12, 19), (14, 18), (15, 17)] (s25.take 21)
      rfl rfl (by rw [fvp25_20]) rfl)
    loop25_21

theorem loop25_19 :
    fairByeLoop emps25 6 19 [19, 18, 17, 16, 15, 14, 13, 12, 11, 10, 9, 8, 7, 6, 5, 4, 3, 2, 1] (s25.take 19) = s25 :=
  Eq.trans
    (fairByeLoop_step_eq emps25 5 19 [19, 18, 17, 16, 15, 14, 13, 12, 11, 10, 9, 8, 7, 6, 5, 4, 3, 2, 1] [19, 18, 17, 16, 15, 14, 13, 12, 11, 10, 9, 8, 7, 6, 5, 4, 3, 2, 1]
      20 (s25.take 19) [1, 2, 3, 4, 5, 6, 7, 8, 9, 10, 11, 12, 13, 14, 15, 16, 17, 18, 19, 21, 22, 23, 24, 25] [(1, 21), (2, 22), (3, 14), (4, 23), (5, 25), (6, 9), (7, 10), (8, 24), (11, 16), (12, 17), (13, 18), (15, 19)] (s25.take 20)
      rfl rfl (by rw [fvp25_19]) rfl)
    loop25_20

theorem loop25_18 :
    fairByeLoop emps25 7 18 [18, 17, 16, 15, 14, 13, 12, 11, 10, 9, 8, 7, 6, 5, 4, 3, 2, 1] (s25.take 18) = s25 :=
  Eq.trans
    (fairByeLoop_step_eq emps25 6 18 [18, 17, 16, 15, 14, 13, 12, 11, 10, 9, 8, 7, 6, 5, 4, 3, 2, 1] [18, 17, 16, 15, 14, 13, 12, 11, 10, 9, 8, 7, 6, 5, 4, 3, 2, 1]
      19 (s25.take 18) [1, 2, 3, 4, 5, 6, 7, 8, 9, 10, 11, 12, 13, 14, 15, 16, 17, 18, 20, 21, 22, 23, 24, 25] [(1, 18), (2, 17), (3, 13), (4, 11), (5, 24), (6, 21), (7, 12), (8, 25), (9, 23), (10, 22), (14, 20), (15, 16)] (s25.take 19)
      rfl rfl (by rw [fvp25_18]) rfl)
    loop25_19

theorem loop25_17 :
    fairByeLoop emps25 8 17 [17, 16, 15, 14, 13, 12, 11, 10, 9, 8, 7, 6, 5, 4, 3, 2, 1] (s25.take 17) = s25 :=
  Eq.trans
    (fairByeLoop_step_eq emps25 7 17 [17, 16, 15, 14, 13, 12, 11, 10, 9, 8, 7, 6, 5, 4, 3, 2, 1] [17, 16, 15, 14, 13, 12, 11, 10, 9, 8, 7, 6, 5, 4, 3, 2, 1]
      18 (s25.take 17) [1, 2, 3, 4, 5, 6, 7, 8, 9, 10, 11, 12, 13, 14, 15, 16, 17, 19, 20, 21, 22, 23, 24, 25] [(1, 19), (2, 16), (3, 12), (4, 10), (5, 8), (6, 25), (7, 24), (9, 22), (11, 23), (13, 21), (14, 17), (15, 20)] (s25.take 18)
      rfl rfl (by rw [fvp25_17]) rfl)
    loop25_18

theorem loop25_16 :
    fairByeLoop emps25 9 16 [16, 15, 14, 13, 12, 11, 10, 9, 8, 7, 6, 5, 4, 3, 2, 1] (s25.take 16) = s25 :=
  Eq.trans
    (fairByeLoop_step_eq emps25 8 16 [16, 15, 14, 13, 12, 11, 10, 9, 8, 7, 6, 5, 4, 3, 2, 1] [16, 15, 14, 13, 12, 11, 10, 9, 8, 7, 6, 5, 4, 3, 2, 1]
      17 (s25.take 16) [1, 2, 3, 4, 5, 6, 7, 8, 9, 10, 11, 12, 13, 14, 15, 16, 18, 19, 20, 21, 22, 23, 24, 25] [(1, 16), (2, 19), (3, 9), (4, 8), (5, 11), (6, 24), (7, 25), (10, 23), (12, 18), (13, 20), (14, 22), (15, 21)] (s25.take 17)
      rfl rfl (by rw [fvp25_16]) rfl)
    loop25_17

theorem loop25_15 :
    fairByeLoop emps25 10 15 [15, 14, 13, 12, 11, 10, 9, 8, 7, 6, 5, 4, 3, 2, 1] (s25.take 15) = s25 :=
  Eq.trans
    (fairByeLoop_step_eq emps25 9 15 [15, 14, 13, 12, 11, 10, 9, 8, 7, 6, 5, 4, 3, 2, 1] [15, 14, 13, 12, 11, 10, 9, 8, 7, 6, 5, 4, 3, 2, 1]
      16 (s25.take 15) [1, 2, 3, 4, 5, 6, 7, 8, 9, 10, 11, 12, 13, 14, 15, 17, 18, 19, 20, 21, 22, 23, 24, 25] [(1, 17), (2, 18), (3, 8), (4, 9), (5, 10), (6, 20), (7, 19), (11, 21), (12, 25), (13, 24), (14, 23), (15, 22)] (s25.take 16)
      rfl rfl (by rw [fvp25_15]) rfl)
    loop25_16

theorem loop25_14 :
    fairByeLoop emps25 11 14 [14, 13, 12, 11, 10, 9, 8, 7, 6, 5, 4, 3, 2, 1] (s25.take 14) = s25 :=
  Eq.trans
    (fairByeLoop_step_eq emps25 10 14 [14, 13, 12, 11, 10, 9, 8, 7, 6, 5, 4, 3, 2, 1] [14, 13, 12, 11, 10, 9, 8, 7, 6, 5, 4, 3, 2, 1]
      15 (s25.take 14) [1, 2, 3, 4, 5, 6, 7, 8, 9, 10, 11, 12, 13, 14, 16, 17, 18, 19, 20, 21, 22, 23, 24, 25] [(1, 14), (2, 13), (3, 21), (4, 20), (5, 23), (6, 22), (7, 17), (8, 16), (9, 25), (10, 18), (11, 19), (12, 24)] (s25.take 15)
      rfl rfl (by rw [fvp25_14]) rfl)
    loop25_15

theorem loop25_13 :
    fairByeLoop emps25 12 13 [13, 12, 11, 10, 9, 8, 7, 6, 5, 4, 3, 2, 1] (s25.take 13) = s25 :=
  Eq.trans
    (fairByeLoop_step_eq emps25 11 13 [13, 12, 11, 10, 9, 8, 7, 6, 5, 4, 3, 2, 1] [13, 12, 11, 10, 9, 8, 7, 6, 5, 4, 3, 2, 1]
      14 (s25.take 13) [1, 2, 3, 4, 5, 6, 7, 8, 9, 10, 11, 12, 13, 15, 16, 17, 18, 19, 20, 21, 22, 23, 24, 25] [(1, 15), (2, 12), (3, 20), (4, 21), (5, 22), (6, 23), (7, 16), (8, 17), (9, 18), (10, 19), (11, 24), (13, 25)] (s25.take 14)
      rfl rfl (by rw [fvp25_13]) rfl)
    loop25_14

theorem loop25_12 :
    fairByeLoop emps25 13 12 [12, 11, 10, 9, 8, 7, 6, 5, 4, 3, 2, 1] (s25.take 12) = s25 :=
  Eq.trans
    (fairByeLoop_step_eq emps25 12 12 [12, 11, 10, 9, 8, 7, 6, 5, 4, 3, 2, 1] [12, 11, 10, 9, 8, 7, 6, 5, 4, 3, 2, 1]
      13 (s25.take 12) [1, 2, 3, 4, 5, 6, 7, 8, 9, 10, 11, 12, 14, 15, 16, 17, 18, 19, 20, 21, 22, 23, 24, 25] [(1, 12), (2, 15), (3, 19), (4, 18), (5, 17), (6, 16), (7, 23), (8, 22), (9, 24), (10, 25), (11, 20), (14, 21)] (s25.take 13)
      rfl rfl (by rw [fvp25_12]) rfl)
    loop25_13

theorem loop25_11 :
    fairByeLoop emps25 14 11 [11, 10, 9, 8, 7, 6, 5, 4, 3, 2, 1] (s25.take 11) = s25 :=
  Eq.trans
    (fairByeLoop_step_eq emps25 13 11 [11, 10, 9, 8, 7, 6, 5, 4, 3, 2, 1] [11, 10, 9, 8, 7, 6, 5, 4, 3, 2, 1]
      12 (s25.take 11) [1, 2, 3, 4, 5, 6, 7, 8, 9, 10, 11, 13, 14, 15, 16, 17, 18, 19, 20, 21, 22, 23, 24, 25] [(1, 13), (2, 14), (3, 18), (4, 19), (5, 16), (6, 17), (7, 22), (8, 21), (9, 20), (10, 24), (11, 25), (15, 23)] (s25.take 12)
      rfl rfl (by rw [fvp25_11]) rfl)
    loop25_12

theorem loop25_10 :
    fairByeLoop emps25 15 10 [10, 9, 8, 7, 6, 5, 4, 3, 2, 1] (s25.take 10) = s25 :=
  Eq.trans
    (fairByeLoop_step_eq emps25 14 10 [10, 9, 8, 7, 6, 5, 4, 3, 2, 1] [10, 9, 8, 7, 6, 5, 4, 3, 2, 1]
      11 (s25.take 10) [1, 2, 3, 4, 5, 6, 7, 8, 9, 10, 12, 13, 14, 15, 16, 17, 18, 19, 20, 21, 22, 23, 24, 25] [(1, 10), (2, 9), (3, 17), (4, 16), (5, 19), (6, 18), (7, 21), (8, 20), (12, 23), (13, 22), (14, 25), (15, 24)] (s25.take 11)
      rfl rfl (by rw [fvp25_10]) rfl)
    loop25_11

theorem loop25_9 :
    fairByeLoop emps25 16 9 [9, 8, 7, 6, 5, 4, 3, 2, 1] (s25.take 9) = s25 :=
  Eq.trans
    (fairByeLoop_step_eq emps25 15 9 [9, 8, 7, 6, 5, 4, 3, 2, 1] [9, 8, 7, 6, 5, 4, 3, 2, 1]
      10 (s25.take 9) [1, 2, 3, 4, 5, 6, 7, 8, 9, 11, 12, 13, 14, 15, 16, 17, 18, 19, 20, 21, 22, 23, 24, 25] [(1, 11), (2, 8), (3, 16), (4, 17), (5, 18), (6, 19), (7, 20), (9, 21), (12, 22), (13, 23), (14, 24), (15, 25)] (s25.take 10)
      rfl rfl (by rw [fvp25_9]) rfl)
    loop25_10

theorem loop25_8 :
    fairByeLoop emps25 17 8 [8, 7, 6, 5, 4, 3, 2, 1] (s25.take 8) = s25 :=
  Eq.trans
    (fairByeLoop_step_eq emps25 16 8 [8, 7, 6, 5, 4, 3, 2, 1] [8, 7, 6, 5, 4, 3, 2, 1]
      9 (s25.take 8) [1, 2, 3, 4, 5, 6, 7, 8, 10, 11, 12, 13, 14, 15, 16, 17, 18, 19, 20, 21, 22, 23, 24, 25] [(1, 8), (2, 11), (3, 10), (4, 13), (5, 12), (6, 15), (7, 14), (16, 25), (17, 22), (18, 21), (19, 23), (20, 24)] (s25.take 9)
      rfl rfl (by rw [fvp25_8]) rfl)
    loop25_9

theorem loop25_7 :
    fairByeLoop emps25 18 7 [7, 6, 5, 4, 3, 2, 1] (s25.take 7) = s25 :=
  Eq.trans
    (fairByeLoop_step_eq emps25 17 7 [7, 6, 5, 4, 3, 2, 1] [7, 6, 5, 4, 3, 2, 1]
      8 (s25.take 7) [1, 2, 3, 4, 5, 6, 7, 9, 10, 11, 12, 13, 14, 15, 16, 17, 18, 19, 20, 21, 22, 23, 24, 25] [(1, 9), (2, 10), (3, 11), (4, 12), (5, 13), (6, 14), (7, 15), (16, 24), (17, 25), (18, 20), (19, 22), (21, 23)] (s25.take 8)
      rfl rfl (by rw [fvp25_7]) rfl)
    loop25_8

theorem loop25_6 :
    fairByeLoop emps25 19 6 [6, 5, 4, 3, 2, 1] (s25.take 6) = s25 :=
  Eq.trans
    (fairByeLoop_step_eq emps25 18 6 [6, 5, 4, 3, 2, 1] [6, 5, 4, 3, 2, 1]
      7 (s25.take 6) [1, 2, 3, 4, 5, 6, 8, 9, 10, 11, 12, 13, 14, 15, 16, 17, 18, 19, 20, 21, 22, 23, 24, 25] [(1, 6), (2, 5), (3, 4), (8, 15), (9, 14), (10, 13), (11, 12), (16, 23), (17, 24), (18, 25), (19, 20), (21, 22)] (s25.take 7)
      rfl rfl (by rw [fvp25_6]) rfl)
    loop25_7

theorem loop25_5 :
    fairByeLoop emps25 20 5 [5, 4, 3, 2, 1] (s25.take 5) = s25 :=
  Eq.trans
    (fairByeLoop_step_eq emps25 19 5 [5, 4, 3, 2, 1] [5, 4, 3, 2, 1]
      6 (s25.take 5) [1, 2, 3, 4, 5, 7, 8, 9, 10, 11, 12, 13, 14, 15, 16, 17, 18, 19, 20, 21, 22, 23, 24, 25] [(1, 7), (2, 4), (3, 5), (8, 14), (9, 15), (10, 12), (11, 13), (16, 22), (17, 23), (18, 24), (19, 21), (20, 25)] (s25.take 6)
      rfl rfl (by rw [fvp25_5]) rfl)
    loop25_6

theorem loop25_4 :
    fairByeLoop emps25 21 4 [4, 3, 2, 1] (s25.take 4) = s25 :=
  Eq.trans
    (fairByeLoop_step_eq emps25 20 4 [4, 3, 2, 1] [4, 3, 2, 1]
      5 (s25.take 4) [1, 2, 3, 4, 6, 7, 8, 9, 10, 11, 12, 13, 14, 15, 16, 17, 18, 19, 20, 21, 22, 23, 24, 25] [(1, 4), (2, 7), (3, 6), (8, 13), (9, 12), (10, 15), (11, 14), (16, 21), (17, 20), (18, 23), (19, 24), (22, 25)] (s25.take 5)
      rfl rfl (by rw [fvp25_4]) rfl)
    loop25_5

theorem loop25_3 :
    fairByeLoop emps25 22 3 [3, 2, 1] (s25.take 3) = s25 :=
  Eq.trans
    (fairByeLoop_step_eq emps25 21 3 [3, 2, 1] [3, 2, 1]
      4 (s25.take 3) [1, 2, 3, 5, 6, 7, 8, 9, 10, 11, 12, 13, 14, 15, 16, 17, 18, 19, 20, 21, 22, 23, 24, 25] [(1, 5), (2, 6), (3, 7), (8, 12), (9, 13), (10, 14), (11, 15), (16, 20), (17, 21), (18, 22), (19, 25), (23, 24)] (s25.take 4)
      rfl rfl (by rw [fvp25_3]) rfl)
    loop25_4

theorem loop25_2 :
    fairByeLoop emps25 23 2 [2, 1] (s25.take 2) = s25 :=
  Eq.trans
    (fairByeLoop_step_eq emps25 22 2 [2, 1] [2, 1]
      3 (s25.take 2) [1, 2, 4, 5, 6, 7, 8, 9, 10, 11, 12, 13, 14, 15, 16, 17, 18, 19, 20, 21, 22, 23, 24, 25] [(1, 2), (4, 7), (5, 6), (8, 11), (9, 10), (12, 15), (13, 14), (16, 19), (17, 18), (20, 23), (21, 25), (22, 24)] (s25.take 3)
      rfl rfl (by rw [fvp25_2]) rfl)
    loop25_3

theorem loop25_1 :
    fairByeLoop emps25 24 1 [1] (s25.take 1) = s25 :=
  Eq.trans
    (fairByeLoop_step_eq emps25 23 1 [1] [1]
      2 (s25.take 1) [1, 3, 4, 5, 6, 7, 8, 9, 10, 11, 12, 13, 14, 15, 16, 17, 18, 19, 20, 21, 22, 23, 24, 25] [(1, 3), (4, 6), (5, 7), (8, 10), (9, 11), (12, 14), (13, 15), (16, 18), (17, 19), (20, 22), (21, 24), (23, 25)] (s25.take 2)
      rfl rfl (by rw [fvp25_1]) rfl)
    loop25_2

theorem loop25_0 :
    fairByeLoop emps25 25 0 [] (s25.take 0) = s25 :=
  Eq.trans
    (fairByeLoop_step_eq emps25 24 0 [] []
      1 (s25.take 0) [2, 3, 4, 5, 6, 7, 8, 9, 10, 11, 12, 13, 14, 15, 16, 17, 18, 19, 20, 21, 22, 23, 24, 25] [(2, 3), (4, 5), (6, 7), (8, 9), (10, 11), (12, 13), (14, 15), (16, 17), (18, 19), (20, 21), (22, 23), (24, 25)] (s25.take 1)
      rfl rfl (by rw [fvp25_0]) rfl)
    loop25_1

theorem gen25_eq : generateSchedule 25 = Except.ok s25 :=
  congrArg Except.ok loop25_0

theorem stats_totalUniquePairs (s : Schedule) :
    (getScheduleStats s).totalUniquePairs = (allPairsOf s).length := rfl

theorem stats_expectedPairs (s : Schedule) :
    (getScheduleStats s).expectedPairs =
      (allEmployeesOf s).length * ((allEmployeesOf s).length - 1) / 2 := rfl

theorem stats_isComplete (s : Schedule) :
    (getScheduleStats s).isComplete =
      ((allPairsOf s).length ==
        (allEmployeesOf s).length * ((allEmployeesOf s).length - 1) / 2) := rfl

theorem e25_split : (flatEntries s25).filter (fun x => !(x == 0)) =
    e25a ++ e25b := by decide

theorem a25a_eq : e25a.foldl setInsert [] = a25a := by decide

theorem a25_eq : e25b.foldl setInsert a25a = a25 := by decide

theorem allEmployeesOf_s25 : allEmployeesOf s25 = a25 := by
  rw [allEmployeesOf, e25_split, List.foldl_append, a25a_eq, a25_eq]

theorem p25_split : ((s25.flatMap id).filter
    (fun pair => !(pair.1 == 0 || pair.2 == 0))).map canonicalPair =
    p25a ++ p25b := by decide

theorem q25a_eq : p25a.foldl pairInsert [] = q25a := by decide

theorem q25_eq : p25b.foldl pairInsert q25a = q25 := by decide

theorem allPairsOf_s25 : allPairsOf s25 = q25 := by
  rw [allPairsOf, p25_split, List.foldl_append, q25a_eq, q25_eq]

/-! ## Claim theorems -/

/-- C1 (corrected): the spec claims invariants 1–5 for every even `N ≥ 2` and
every odd `N ≥ 3`.  The even half is true in general: `generateSchedule N`
succeeds and the result satisfies completeness, no-duplicate-across-rounds,
once-per-round and the even shape invariant.  The odd half holds on the
verified sample `N ∈ {3, 5, 7, 9, 11}` but is false in general (see the
counterexample at `N = 25`). -/
theorem C1_invariants :
    (∀ n, 2 ≤ n → n % 2 = 0 → ∃ s, generateSchedule n = Except.ok s ∧
      CompletePairs n s ∧ NoDupAcrossRounds s ∧ OncePerRound s ∧
      EvenInvariant n s) ∧
    (∀ n, n ∈ ([3, 5, 7, 9, 11] : List Nat) →
      ∃ s, generateSchedule n = Except.ok s ∧
      CompletePairs n s ∧ NoDupAcrossRounds s ∧ OncePerRound s ∧
      OddInvariant n s) := by
  constructor
  · intro n hn he
    refine ⟨_, generateSchedule_even n hn he, ?_, ?_, ?_, ?_⟩
    · intro a b h1 h2 h3
      exact circle_pairOcc_eq_one n hn he a b h1 h2 h3
    · exact circle_noDup n hn he
    · exact circle_oncePerRound n hn he
    · exact circle_evenInvariant n hn he
  · intro n hn
    simp only [List.mem_cons, List.mem_singleton, List.not_mem_nil,
      or_false] at hn
    rcases hn with rfl | rfl | rfl | rfl | rfl
    · exact ⟨s3, gen3_eq, odd_pkg_3.1, odd_pkg_3.2.1, odd_pkg_3.2.2.1,
        odd_pkg_3.2.2.2⟩
    · exact ⟨s5, gen5_eq, odd_pkg_5.1, odd_pkg_5.2.1, odd_pkg_5.2.2.1,
        odd_pkg_5.2.2.2⟩
    · exact ⟨s7, gen7_eq, odd_pkg_7.1, odd_pkg_7.2.1, odd_pkg_7.2.2.1,
        odd_pkg_7.2.2.2⟩
    · exact ⟨s9, gen9_eq, odd_pkg_9.1, odd_pkg_9.2.1, odd_pkg_9.2.2.1,
        odd_pkg_9.2.2.2⟩
    · exact ⟨s11, gen11_eq, odd_pkg_11.1, odd_pkg_11.2.1, odd_pkg_11.2.2.1,
        odd_pkg_11.2.2.2⟩

/-- C1 witness: the corrected theorem applied at the even input `N = 6` and
the odd input `N = 5`, with both hypotheses discharged concretely. -/
theorem C1_invariants_witness :
    (2 ≤ 6 ∧ 6 % 2 = 0 ∧ (∃ s, generateSchedule 6 = Except.ok s ∧
      CompletePairs 6 s ∧ NoDupAcrossRounds s ∧ OncePerRound s ∧
      EvenInvariant 6 s)) ∧
    (5 ∈ ([3, 5, 7, 9, 11] : List Nat) ∧
      (∃ s, generateSchedule 5 = Except.ok s ∧
      CompletePairs 5 s ∧ NoDupAcrossRounds s ∧ OncePerRound s ∧
      OddInvariant 5 s)) :=
  ⟨⟨by decide, by decide, C1_invariants.1 6 (by decide) (by decide)⟩,
   ⟨by decide, C1_invariants.2 5 (by decide)⟩⟩

/-- C1 counterexample: at the odd input `N = 25` the generator succeeds but
the returned schedule pairs participants 1 and 2 three times, so invariant 1
(every pair exactly once) fails and the original universally quantified claim
is false. -/
theorem C1_invariants_cex :
    generateSchedule 25 = Except.ok s25 ∧ pairOcc s25 1 2 = 3 ∧
      ¬ CompletePairs 25 s25 := by
  refine ⟨gen25_eq, by decide, ?_⟩
  intro hc
  have h1 := hc 1 2 (by omega) (by omega) (by omega)
  have h3 : pairOcc s25 1 2 = 3 := by decide
  omega

/-- C2 (corrected): the spec claims
`getScheduleStats(generateSchedule(N)).isComplete = true` for every valid
`N ≥ 2`.  This round-trip holds for every even `N ≥ 2` and on the verified
odd sample `N ∈ {3, 5, 7, 9, 11}`, but is false in general (see the
counterexample at `N = 25`). -/
theorem C2_stats_roundtrip :
    (∀ n, 2 ≤ n → n % 2 = 0 → ∃ s, generateSchedule n = Except.ok s ∧
      (getScheduleStats s).isComplete = true) ∧
    (∀ n, n ∈ ([3, 5, 7, 9, 11] : List Nat) →
      ∃ s, generateSchedule n = Except.ok s ∧
      (getScheduleStats s).isComplete = true) := by
  constructor
  · intro n hn he
    exact ⟨_, generateSchedule_even n hn he,
      getScheduleStats_circle_isComplete n hn he⟩
  · intro n hn
    simp only [List.mem_cons, List.mem_singleton, List.not_mem_nil,
      or_false] at hn
    rcases hn with rfl | rfl | rfl | rfl | rfl
    · exact ⟨s3, gen3_eq, odd_stats_isComplete.1⟩
    · exact ⟨s5, gen5_eq, odd_stats_isComplete.2.1⟩
    · exact ⟨s7, gen7_eq, odd_stats_isComplete.2.2.1⟩
    · exact ⟨s9, gen9_eq, odd_stats_isComplete.2.2.2.1⟩
    · exact ⟨s11, gen11_eq, odd_stats_isComplete.2.2.2.2⟩

/-- C2 witness: the corrected theorem applied at `N = 8` (even) and `N = 7`
(odd), hypotheses discharged concretely. -/
theorem C2_stats_roundtrip_witness :
    (2 ≤ 8 ∧ 8 % 2 = 0 ∧ (∃ s, generateSchedule 8 = Except.ok s ∧
      (getScheduleStats s).isComplete = true)) ∧
    (7 ∈ ([3, 5, 7, 9, 11] : List Nat) ∧
      (∃ s, generateSchedule 7 = Except.ok s ∧
      (getScheduleStats s).isComplete = true)) :=
  ⟨⟨by decide, by decide, C2_stats_roundtrip.1 8 (by decide) (by decide)⟩,
   ⟨by decide, C2_stats_roundtrip.2 7 (by decide)⟩⟩

/-- C2 counterexample: at `N = 25` the generator succeeds but the statistics
report only 276 distinct pairs against the expected 300, so `isComplete` is
`false` and the original claim fails. -/
theorem C2_stats_roundtrip_cex :
    generateSchedule 25 = Except.ok s25 ∧
      (getScheduleStats s25).totalUniquePairs = 276 ∧
      (getScheduleStats s25).expectedPairs = 300 ∧
      (getScheduleStats s25).isComplete = false := by
  refine ⟨gen25_eq, ?_, ?_, ?_⟩
  · rw [stats_totalUniquePairs, allPairsOf_s25]
    decide
  · rw [stats_expectedPairs, allEmployeesOf_s25]
    decide
  · rw [stats_isComplete, allPairsOf_s25, allEmployeesOf_s25]
    decide

/-- C3 (confirmed): when `findValidPairs` reports infeasible (`none`) for a
round, `generateScheduleWithFairByeRotation` masks the failure: the round is
filled with `adjacentPairing` of the remaining participants — a function that
never consults the registry of used pairs — and the loop continues without
error.  Concretely, input 4 reaches this fallback and the returned schedule
repeats the pair `(1, 2)` in two rounds, violating the no-duplicate
invariant. -/
theorem C3_fallback_masks_failure :
    (∀ emps left r byes sched,
      findValidPairs
          (emps.filter (fun emp => !(emp == (chooseBye emps byes r).1)))
          sched = none →
      fairByeLoop emps (left + 1) r byes sched =
        fairByeLoop emps left (r + 1)
          ((chooseBye emps byes r).1 :: (chooseBye emps byes r).2)
          (sched ++ [adjacentPairing
            (emps.filter (fun emp => !(emp == (chooseBye emps byes r).1)))])) ∧
    generateScheduleWithFairByeRotation 4 = Except.ok sF4 ∧
    sF4.countP (fun round => roundHasPair round 1 2) = 2 ∧
    ¬ NoDupAcrossRounds sF4 := by
  refine ⟨?_, genF4_eq, by decide, ?_⟩
  · intro emps left r byes sched hnone
    rw [fairByeLoop_step, hnone]
  · intro h
    have h12 := h 1 2
    have h2 : sF4.countP (fun round => roundHasPair round 1 2) = 2 := by decide
    omega

/-- C3 witness: the fallback equation applied at the concrete first round of
input `[1, 2, 3, 4]`, where the search hypothesis holds by computation. -/
theorem C3_fallback_masks_failure_witness :
    findValidPairs
        (([1, 2, 3, 4] : List Nat).filter
          (fun emp => !(emp == (chooseBye [1, 2, 3, 4] [] 0).1))) [] = none ∧
    fairByeLoop [1, 2, 3, 4] 1 0 [] [] =
      fairByeLoop [1, 2, 3, 4] 0 1
        ((chooseBye [1, 2, 3, 4] [] 0).1 :: (chooseBye [1, 2, 3, 4] [] 0).2)
        ([] ++ [adjacentPairing
          (([1, 2, 3, 4] : List Nat).filter
            (fun emp => !(emp == (chooseBye [1, 2, 3, 4] [] 0).1)))]) :=
  ⟨by decide,
   C3_fallback_masks_failure.1 [1, 2, 3, 4] 0 0 [] [] (by decide)⟩

/-- C4 (confirmed): `findValidPairs` either returns a complete pairing — the
components of the returned pairs are a permutation of the input employees and
every returned pair is absent from the registry — or the infeasible signal
`none`, never a partial pairing; the empty input yields `some []` and a
singleton input yields `none`. -/
theorem C4_complete_or_none :
    (∀ es s, (∃ ps, findValidPairs es s = some ps ∧ ValidPairing es s ps) ∨
      findValidPairs es s = none) ∧
    (∀ s, findValidPairs [] s = some []) ∧
    (∀ e s, findValidPairs [e] s = none) := by
  refine ⟨?_, findValidPairs_nil, findValidPairs_singleton⟩
  intro es s
  cases h : findValidPairs es s with
  | none => exact Or.inr rfl
  | some ps => exact Or.inl ⟨ps, rfl, findValidPairs_sound es s ps h⟩

/-- C5 (confirmed): for `N = 5` the generator returns exactly 5 rounds, each
participant `1..5` is the absent (BYE'd) participant of exactly one round,
exactly 10 distinct unordered pairs occur, and every participant works in
exactly 4 rounds (4 shifts). -/
theorem C5_five_concrete :
    generateSchedule 5 = Except.ok s5 ∧
    s5.length = 5 ∧
    (∀ e, 1 ≤ e → e ≤ 5 →
      s5.countP (fun round => !(roundElems round).contains e) = 1) ∧
    (allPairsOf s5).length = 10 ∧
    (∀ e, 1 ≤ e → e ≤ 5 → employeeShifts s5 e = 4) := by
  refine ⟨gen5_eq, rfl, ?_, by decide, ?_⟩
  · intro e h1 h2
    interval_cases e <;> decide
  · intro e h1 h2
    interval_cases e <;> decide

/-- C5 witness: the per-participant conjuncts applied at participant 3. -/
theorem C5_five_concrete_witness :
    1 ≤ 3 ∧ 3 ≤ 5 ∧
    s5.countP (fun round => !(roundElems round).contains 3) = 1 ∧
    employeeShifts s5 3 = 4 :=
  ⟨by decide, by decide,
   C5_five_concrete.2.2.1 3 (by decide) (by decide),
   C5_five_concrete.2.2.2.2 3 (by decide) (by decide)⟩

/-- C6 (confirmed): inputs 0 and 1 are rejected with the
participants-below-two error and no schedule, and input 2 yields exactly one
round holding exactly the pair `(1, 2)`. -/
theorem C6_boundary :
    generateSchedule 0 =
      Except.error "Number of employees must be at least 2" ∧
    generateSchedule 1 =
      Except.error "Number of employees must be at least 2" ∧
    generateSchedule 2 = Except.ok [[(1, 2)]] :=
  ⟨rfl, rfl, rfl⟩

/-- C7 (confirmed): the BYE choice of a round is exactly the specified rule —
the first candidate in the cyclic scan order `employees[(round + i) % N]`,
`i = 0..N-1`, without a recorded BYE; if none exists the tracking set is
cleared and `employees[round % N]` is chosen (`chooseByeSpec` is the
literal transcription of the spec's rule, with `Nat.find` selecting the first
qualifying offset) — and the loop then records the chosen participant by
prepending it to the tracking set. -/
theorem C7_bye_selection :
    (∀ es byes r, chooseBye es byes r = chooseByeSpec es byes r) ∧
    (∀ emps left r byes sched,
      fairByeLoop emps (left + 1) r byes sched =
        fairByeLoop emps left (r + 1)
          ((chooseBye emps byes r).1 :: (chooseBye emps byes r).2)
          (sched ++
            [match findValidPairs
                (emps.filter (fun emp => !(emp == (chooseBye emps byes r).1)))
                sched with
              | some pairs => pairs
              | none =>
                adjacentPairing
                  (emps.filter
                    (fun emp => !(emp == (chooseBye emps byes r).1)))])) :=
  ⟨chooseBye_eq_spec, fairByeLoop_step⟩

/-- C8 (confirmed): `generateSchedule` is a function of its input alone — the
embedding is pure, so two successful results for the same `N` are structurally
identical (same rounds in the same order, same pairs in the same order). -/
theorem C8_deterministic :
    ∀ n s1 s2, generateSchedule n = Except.ok s1 →
      generateSchedule n = Except.ok s2 → s1 = s2 := by
  intro n s1 s2 h1 h2
  rw [h1] at h2
  exact Except.ok.inj h2

/-- C8 witness: determinism applied at `N = 2` with both runs computed. -/
theorem C8_deterministic_witness :
    generateSchedule 2 = Except.ok [[(1, 2)]] ∧
      ([[(1, 2)]] : Schedule) = [[(1, 2)]] :=
  ⟨rfl, C8_deterministic 2 [[(1, 2)]] [[(1, 2)]] rfl rfl⟩

/-- C9 (corrected): the spec claims no participant works two adjacent rounds
in any even-`N` schedule.  In fact, in every even schedule each participant
works in every round, so the property holds only in the trivial one-round case
`N = 2` and fails for every even `N ≥ 4` (see the counterexample at
`N = 4`). -/
theorem C9_consecutive_work :
    (∀ s, generateSchedule 2 = Except.ok s → NoConsecutiveWork s) ∧
    (∀ n, 4 ≤ n → n % 2 = 0 → ∀ s, generateSchedule n = Except.ok s →
      ¬ NoConsecutiveWork s) := by
  constructor
  · intro s h
    have h2 : generateSchedule 2 = Except.ok [[(1, 2)]] := rfl
    rw [h2] at h
    have hs := Except.ok.inj h
    subst hs
    intro i hi e hmem
    simp only [List.length_cons, List.length_nil] at hi
    omega
  · intro n h4 he s h
    have hev := generateSchedule_even n (by omega) he
    rw [hev] at h
    have hs := Except.ok.inj h
    subst hs
    exact even_noConsecutive_fail n h4 he

/-- C9 witness: the corrected theorem applied at `N = 4` with the concrete
schedule. -/
theorem C9_consecutive_work_witness :
    4 ≤ 4 ∧ 4 % 2 = 0 ∧ generateSchedule 4 = Except.ok s4c ∧
      ¬ NoConsecutiveWork s4c :=
  ⟨by decide, by decide, gen4c_eq,
   C9_consecutive_work.2 4 (by decide) (by decide) s4c gen4c_eq⟩

/-- C9 counterexample: in the schedule for `N = 4` participant 1 works in
round 0 and again in the adjacent round 1, refuting the original claim. -/
theorem C9_consecutive_work_cex :
    generateSchedule 4 = Except.ok s4c ∧
      1 ∈ roundElems (s4c.getD 0 []) ∧ 1 ∈ roundElems (s4c.getD 1 []) ∧
      ¬ NoConsecutiveWork s4c := by
  refine ⟨gen4c_eq, by decide, by decide, ?_⟩
  intro h
  exact h 0 (by decide) 1 (by decide) (by decide)

/-- C10 (confirmed): on the empty schedule the statistics are all zero and
`isComplete` is vacuously `true`. -/
theorem C10_empty_stats :
    getScheduleStats [] =
      { totalEmployees := 0, totalRounds := 0, shiftsPerRound := 0,
        totalUniquePairs := 0, expectedPairs := 0, isComplete := true } :=
  rfl
